import Mathlib

set_option maxRecDepth 1000000

namespace Task29


/-!
Shallow embedding of the "Goblins vs Elves" combat engine from
`src/bin/task29.rs` (Advent of Code 2018, day 15 style simulator).

Conventions of the embedding:
* `u8`/`u64` quantities are `Nat`; `u8.saturating_sub` is truncated `Nat`
  subtraction.
* `i16` coordinates are `Int`.
* The Rust `HashMap<Point, Unit>` is an association list `List (Point × Unit)`;
  every use of the map in the source is order-insensitive (lookups, sums,
  `all`, and key collection followed by a sort), so the list order never
  influences a result.
* The Rust `Vec<Point>` turn queue is stored descending and popped from the
  back; we store the mirror image (ascending reading order, popped from the
  front), which is the same abstract queue.
* Rust panics (`panic!`, `assert!`, `expect`) are modelled as `Except.error`.
* The two unbounded loops (the Dijkstra-style search in
  `distance_to_closest_unit` and the outer game loop) take explicit fuel;
  the fuel supplied at call sites dominates the loop's true iteration count.
-/


instance {ε α : Type} [DecidableEq ε] [DecidableEq α] : DecidableEq (Except ε α) := fun a b =>
  match a, b with
  | Except.error e, Except.error e' =>
    if h : e = e' then Decidable.isTrue (by rw [h]) else Decidable.isFalse (by simp [h])
  | Except.ok v, Except.ok v' =>
    if h : v = v' then Decidable.isTrue (by rw [h]) else Decidable.isFalse (by simp [h])
  | Except.error _, Except.ok _ => Decidable.isFalse (by simp)
  | Except.ok _, Except.error _ => Decidable.isFalse (by simp)

inductive Tile where
  | Empty
  | Wall
  | Gnome
  | Elf
deriving DecidableEq, Repr

inductive Team where
  | Elf
  | Gnome
deriving DecidableEq, Repr

/-- Boolean equality on tiles. -/
def Tile.beq : Tile → Tile → Bool
  | Tile.Empty, Tile.Empty => true
  | Tile.Wall, Tile.Wall => true
  | Tile.Gnome, Tile.Gnome => true
  | Tile.Elf, Tile.Elf => true
  | _, _ => false

instance : BEq Tile := ⟨Tile.beq⟩

/-- Boolean equality on teams. -/
def Team.beq : Team → Team → Bool
  | Team.Elf, Team.Elf => true
  | Team.Gnome, Team.Gnome => true
  | _, _ => false

instance : BEq Team := ⟨Team.beq⟩

/-- Tile.is_team from the source: a tile marker matches a team. -/
def Tile.is_team : Tile → Team → Bool
  | Tile.Gnome, Team.Gnome => true
  | Tile.Elf, Team.Elf => true
  | _, _ => false

/-- Team.enemy from the source. -/
def Team.enemy : Team → Team
  | Team.Elf => Team.Gnome
  | Team.Gnome => Team.Elf

inductive Direction where
  | Up
  | Left
  | Right
  | Down
deriving DecidableEq, Repr

/-- The canonical direction order produced by the `Directions` iterator. -/
def directions : List Direction :=
  [Direction.Up, Direction.Left, Direction.Right, Direction.Down]

/-- Boolean equality on `Int`, evaluating directly on the two constructors. -/
def intEqb : Int → Int → Bool
  | Int.ofNat m, Int.ofNat n => m.beq n
  | Int.negSucc m, Int.negSucc n => m.beq n
  | _, _ => false

/-- Boolean strict order on `Int`, evaluating directly on the constructors. -/
def intLtb : Int → Int → Bool
  | Int.ofNat m, Int.ofNat n => m.blt n
  | Int.negSucc _, Int.ofNat _ => true
  | Int.ofNat _, Int.negSucc _ => false
  | Int.negSucc m, Int.negSucc n => n.blt m

/-- Boolean order on `Int`, evaluating directly on the constructors. -/
def intLeb : Int → Int → Bool
  | Int.ofNat m, Int.ofNat n => m.ble n
  | Int.negSucc _, Int.ofNat _ => true
  | Int.ofNat _, Int.negSucc _ => false
  | Int.negSucc m, Int.negSucc n => n.ble m

/-- Point from the source: field order y before x, so the derived
lexicographic order is reading order (row first, then column). -/
structure Point where
  y : Int
  x : Int
deriving DecidableEq, Repr

/-- Boolean equality on points. -/
def Point.eqb (a b : Point) : Bool :=
  intEqb a.y b.y && intEqb a.x b.x

instance : BEq Point := ⟨Point.eqb⟩

/-- Point.step from the source. -/
def Point.step (p : Point) : Direction → Point
  | Direction.Up => ⟨p.y - 1, p.x⟩
  | Direction.Left => ⟨p.y, p.x - 1⟩
  | Direction.Right => ⟨p.y, p.x + 1⟩
  | Direction.Down => ⟨p.y + 1, p.x⟩

/-- Point.neighbors from the source: the four orthogonal neighbours in
canonical direction order (which is reading order of the cells). -/
def Point.neighbors (p : Point) : List Point :=
  directions.map p.step

/-- Reading order, strictly: the derived `Ord` on `Point` (y first, then x). -/
def Point.ltb (a b : Point) : Bool :=
  intLtb a.y b.y || (intEqb a.y b.y && intLtb a.x b.x)

/-- Reading order, non-strict. -/
def Point.leb (a b : Point) : Bool :=
  intLtb a.y b.y || (intEqb a.y b.y && intLeb a.x b.x)

structure Unit where
  team : Team
  hp : Nat
  attack : Nat
deriving DecidableEq, Repr

/-- Unit.take_damage from the source: `saturating_sub`, which on `Nat` is
plain truncated subtraction. -/
def Unit.take_damage (u : Unit) (hp : Nat) : Unit :=
  { u with hp := u.hp - hp }

/-- Unit.is_defeated from the source. -/
def Unit.is_defeated (u : Unit) : Bool :=
  u.hp == 0

/-- Association-list lookup, modelling `HashMap::get`. -/
def lookupAL (l : List (Point × Unit)) (k : Point) : Option Unit :=
  match l with
  | [] => none
  | (k', v) :: rest => if k'.eqb k then some v else lookupAL rest k

/-- Association-list removal, modelling `HashMap::remove`. -/
def eraseAL (k : Point) (l : List (Point × Unit)) : List (Point × Unit) :=
  l.filter (fun e => !(e.1.eqb k))

/-- Association-list insert-or-replace, modelling `HashMap::insert`. -/
def insertAL (k : Point) (v : Unit) (l : List (Point × Unit)) : List (Point × Unit) :=
  (k, v) :: eraseAL k l

structure Board where
  size : Point
  map : List Tile
  units : List (Point × Unit)
deriving Repr, DecidableEq

/-- Board.bounds_check from the source. -/
def Board.bounds_check (b : Board) (p : Point) : Bool :=
  intLeb 0 p.x && intLeb 0 p.y && intLtb p.x b.size.x && intLtb p.y b.size.y

/-- Board.index_of_point from the source (row-major index). -/
def Board.index_of_point (b : Board) (p : Point) : Nat :=
  p.y.toNat * b.size.x.toNat + p.x.toNat

/-- Board.get from the source: `none` when out of bounds. -/
def Board.get (b : Board) (p : Point) : Option Tile :=
  if b.bounds_check p then b.map.get? (b.index_of_point p) else none

/-- The write half of `Board::get_mut`: overwrite the tile at `p`. Callers
establish bounds via `Board.get` first, as the source's `get_mut` does. -/
def Board.setTile (b : Board) (p : Point) (t : Tile) : Board :=
  { b with map := b.map.set (b.index_of_point p) t }

/-- Board.total_hp from the source. -/
def Board.total_hp (b : Board) : Nat :=
  (b.units.map (fun e => e.2.hp)).sum

/-- Board.team_won from the source. -/
def Board.team_won (b : Board) (winner : Team) : Bool :=
  b.units.all (fun e => e.2.team == winner)

/-- Rust's `Iterator::min_by_key`: the first element whose key is minimal,
for a strict order `lt` on keys. -/
def minByKey {α κ : Type} (lt : κ → κ → Bool) (key : α → κ) : List α → Option α
  | [] => none
  | x :: xs => some (xs.foldl (fun best y => if lt (key y) (key best) then y else best) x)

/-- Strict lexicographic order on `(Steps, Point)` pairs, the comparison key
of the open-set scan in `distance_to_closest_unit`; stated directly on the
`(Point, Steps)` entries of the open list. -/
def openEntryLt (a b : Point × Nat) : Bool :=
  a.2.blt b.2 || (a.2.beq b.2 && Point.ltb a.1 b.1)

/-- Rust's `Iterator::min_by_key` applied to the identity-shaped key of the
open-set scan: the first entry minimal under `openEntryLt`. -/
def openMin : List (Point × Nat) → Option (Point × Nat)
  | [] => none
  | x :: xs => some (xs.foldl (fun best y => if openEntryLt y best then y else best) x)

/-- Insert a newly reached cell into the open set, or lower its recorded
distance, modelling the `Entry` match in `distance_to_closest_unit`. -/
def openInsertMin (opn : List (Point × Nat)) (p : Point) (d : Nat) : List (Point × Nat) :=
  match opn with
  | [] => [(p, d)]
  | e :: rest => if e.1.eqb p then (p, min e.2 d) :: rest else e :: openInsertMin rest p d

/-- One-per-iteration body of the `while let` loop of
`distance_to_closest_unit`: pick the open cell minimal by `(dist, point)`,
return early if it touches the goal team, otherwise close it and open its
unvisited empty neighbours. -/
def dtcuStep (b : Board) (goal : Team) (opn : List (Point × Nat)) (visited : List Point) :
    Option (Option Nat) × List (Point × Nat) × List Point :=
  match openMin opn with
  | none => (some none, opn, visited)
  | some (current, dist) =>
    if (current.neighbors.filterMap b.get).any (fun t => t.is_team goal) then
      (some (some (dist + 1)), opn, visited)
    else
      let visited' := current :: visited
      let opn' := (current.neighbors.filter (fun p =>
          !(visited'.contains p) && (b.get p == some Tile.Empty))).foldl
        (fun acc p => openInsertMin acc p (dist + 1)) (opn.filter (fun e => !(e.1.eqb current)))
      (none, opn', visited')

def dtcuLoop (b : Board) (goal : Team) :
    Nat → List (Point × Nat) → List Point → Option Nat
  | 0, _, _ => none
  | fuel + 1, opn, visited =>
    match dtcuStep b goal opn visited with
    | (some r, _, _) => r
    | (none, opn', visited') => dtcuLoop b goal fuel opn' visited'

/-- Board.distance_to_closest_unit from the source. The fuel
`b.map.length + 2` strictly dominates the loop's iteration count, since each
iteration permanently closes one more in-bounds cell. -/
def Board.distance_to_closest_unit (b : Board) (start : Point) (goal : Team) : Option Nat :=
  if (b.get start).any (fun t => t.is_team goal) then some 0
  else dtcuLoop b goal (b.map.length + 2) [(start, 0)] []

/-- Board.find_enemy_direction from the source: try the four directions in
canonical order, keep the in-bounds steps that are neither walls nor own-team
cells, compute each step's distance to the closest enemy, and take the first
direction with minimal distance; a minimal distance of 0 means an enemy is
already adjacent, yielding `none`. -/
def Board.find_enemy_direction (b : Board) (start : Point) : Option Direction :=
  match lookupAL b.units start with
  | none => none
  | some u =>
    let team := u.team
    let cands :=
      (((directions.map (fun d => (d, start.step d))).filterMap
          (fun e => (b.get e.2).map (fun t => (e.1, e.2, t)))).filter
        (fun e => !(e.2.2 == Tile.Wall) && !(e.2.2.is_team team))).filterMap
          (fun e => (b.distance_to_closest_unit e.2.1 team.enemy).map (fun dist => (e.1, dist)))
    match minByKey Nat.blt (fun e => e.2) cands with
    | none => none
    | some (dir, dist) => if 0 < dist then some dir else none

/-- Board.move_unit from the source. Panics become `Except.error`. -/
def Board.move_unit (b : Board) (pos : Point) (dir : Direction) :
    Except String (Point × Board) := do
  let some unit := lookupAL b.units pos | .error "no unit to move"
  let units1 := eraseAL pos b.units
  let some old_tile := b.get pos | .error "position out of bounds"
  if !(old_tile.is_team unit.team) then .error "map and unit list are inconsisten" else
  let b1 := b.setTile pos Tile.Empty
  let goal := pos.step dir
  let units2 := insertAL goal unit units1
  let some goal_tile := b1.get goal | .error "position out of bounds"
  if goal_tile == Tile.Empty then
    .ok (goal, { b1.setTile goal old_tile with units := units2 })
  else
    .error "move onto non-empty field"

/-- Board.attack from the source: deal saturating damage; when the target is
defeated, remove it from the unit list and blank its tile, returning it. -/
def Board.attack (b : Board) (attacker attacked : Point) :
    Except String (Option Unit × Board) := do
  let some au := lookupAL b.units attacker | .error "attacker missing"
  let some tu := lookupAL b.units attacked | .error "no unit to attack"
  let tu1 := tu.take_damage au.attack
  if tu1.is_defeated then
    let units1 := eraseAL attacked b.units
    let some tile := b.get attacked | .error "attacked point out of range"
    if tile.is_team tu1.team then
      .ok (some tu1, { b.setTile attacked Tile.Empty with units := units1 })
    else
      .error "map and unit list are inconsistent"
  else
    .ok (none, { b with units := insertAL attacked tu1 b.units })

/-- Parser state of `Board::with_elven_power`'s byte loop. -/
structure ParseState where
  map : List Tile
  pos : Point
  units : List (Point × Unit)
  size : Point

/-- One byte of `Board::with_elven_power`'s loop: `.` `#` `G` `E` and the
newline are legal; anything else panics (an error here). -/
def parseByte (power : Nat) (st : ParseState) (b : Nat) : Except String ParseState :=
  if b = 46 then
    .ok { st with map := st.map ++ [Tile.Empty], pos := ⟨st.pos.y, st.pos.x + 1⟩ }
  else if b = 35 then
    .ok { st with map := st.map ++ [Tile.Wall], pos := ⟨st.pos.y, st.pos.x + 1⟩ }
  else if b = 71 then
    .ok { st with map := st.map ++ [Tile.Gnome]
                  units := insertAL st.pos ⟨Team.Gnome, 200, 3⟩ st.units
                  pos := ⟨st.pos.y, st.pos.x + 1⟩ }
  else if b = 69 then
    .ok { st with map := st.map ++ [Tile.Elf]
                  units := insertAL st.pos ⟨Team.Elf, 200, power⟩ st.units
                  pos := ⟨st.pos.y, st.pos.x + 1⟩ }
  else if b = 10 then
    .ok { st with size := st.pos, pos := ⟨st.pos.y + 1, 0⟩ }
  else
    .error "unknown character"

/-- Board.with_elven_power from the source. -/
def Board.with_elven_power (bytes : List Nat) (power : Nat) : Except String Board :=
  (bytes.foldlM (parseByte power) ⟨[], ⟨0, 0⟩, [], ⟨0, 0⟩⟩).map
    (fun st => ⟨st.size, st.map, st.units⟩)

/-- Board.new from the source. -/
def Board.new (bytes : List Nat) : Except String Board :=
  Board.with_elven_power bytes 3

inductive GameState where
  | Going
  | Over
deriving DecidableEq, Repr

structure Game where
  completed_turns : Nat
  to_be_moved : List Point
  board : Board
  defeated_elves : Nat
deriving Repr, DecidableEq

/-- Reading order on points as a proposition (the derived `Ord`). -/
def Point.le (a b : Point) : Prop :=
  a.y < b.y ∨ (a.y = b.y ∧ a.x ≤ b.x)

instance : DecidableRel Point.le := fun a b => by
  unfold Point.le; infer_instance

/-- The queue built by `From<Board> for Game` and `start_new_turn`: unit
positions in reading order. (The source keeps it reversed and pops from the
back; we keep it forward and pop from the front.) -/
def sortKeys (units : List (Point × Unit)) : List Point :=
  (units.map Prod.fst).insertionSort Point.le

/-- From Board for Game in the source. -/
def Game.from_board (b : Board) : Game :=
  ⟨0, sortKeys b.units, b, 0⟩

/-- Game.start_new_turn from the source: bump the round counter and rebuild
the queue from the living units; the `assert!` on emptiness is an error. -/
def Game.start_new_turn (g : Game) : Except String Game :=
  let q := sortKeys g.board.units
  if q.isEmpty then .error "no units left"
  else .ok { g with completed_turns := g.completed_turns + 1, to_be_moved := q }

/-- Strict lexicographic order on `(hp, Point)`, the attack-target selection
key of `Game::progress`. -/
def hpPointLt (a b : Nat × Point) : Bool :=
  a.1.blt b.1 || (a.1.beq b.1 && Point.ltb a.2 b.2)

/-- Steps 4 of `Game::progress` (the attack phase): pick the adjacent enemy
minimal by `(hp, position)`; attack it; if it dies, count a defeated elf when
appropriate and drop its pending queue entry. -/
def attackPhase (board : Board) (queue : List Point) (defeated_elves : Nat)
    (this_pos : Point) (enemy_team : Team) :
    Except String (Board × List Point × Nat) :=
  let cands := (this_pos.neighbors.filterMap
      (fun adj => (lookupAL board.units adj).map (fun u => (adj, u)))).filter
    (fun e => e.2.team == enemy_team)
  match minByKey hpPointLt (fun e => (e.2.hp, e.1)) cands with
  | none => .ok (board, queue, defeated_elves)
  | some (attacked, _) => do
    let (defeated, board') ← board.attack this_pos attacked
    match defeated with
    | none => .ok (board', queue, defeated_elves)
    | some u =>
      let de' := if u.team == Team.Elf then defeated_elves + 1 else defeated_elves
      .ok (board', queue.erase attacked, de')

/-- Game.progress from the source: pop the next unit, check victory, move,
attack, and refill the queue when the round completes. -/
def Game.progress (g : Game) : Except String (GameState × Game) := do
  match g.to_be_moved with
  | [] => .error "no units lefts"
  | this_pos :: rest =>
    let some u := lookupAL g.board.units this_pos | .error "no unit at queue position"
    let this_team := u.team
    if g.board.team_won this_team then
      .ok (GameState.Over, { g with to_be_moved := rest })
    else do
      let (this_pos', board') ←
        match g.board.find_enemy_direction this_pos with
        | some dir => g.board.move_unit this_pos dir
        | none => .ok (this_pos, g.board)
      let (board2, queue2, de2) ← attackPhase board' rest g.defeated_elves this_pos' this_team.enemy
      let g2 : Game := { g with board := board2, to_be_moved := queue2, defeated_elves := de2 }
      if queue2.isEmpty then do
        let g3 ← g2.start_new_turn
        .ok (GameState.Going, g3)
      else
        .ok (GameState.Going, g2)

/-- Game.make_turn's loop with explicit fuel; `g.to_be_moved.length + 1`
dominates the iteration count, since every iteration that does not return
shrinks the queue. -/
def makeTurnAux : Nat → Nat → Game → Except String (GameState × Game)
  | 0, _, _ => .error "out of fuel"
  | fuel + 1, old, g => do
    let (s, g') ← g.progress
    if s == GameState.Over || !(g'.completed_turns == old) then .ok (s, g')
    else makeTurnAux fuel old g'

/-- Game.make_turn from the source: run `progress` until the game is over or
a full round has completed. -/
def Game.make_turn (g : Game) : Except String (GameState × Game) :=
  makeTurnAux (g.to_be_moved.length + 1) g.completed_turns g

/-- Game.checksum from the source. -/
def Game.checksum (g : Game) : Nat :=
  g.completed_turns * g.board.total_hp

/-- The `while let GameState::Going = game.make_turn()` loop of `main` and
the tests, with fuel bounding the number of rounds. -/
def runGame : Nat → Game → Except String Game
  | 0, _ => .error "out of fuel"
  | fuel + 1, g => do
    let (s, g') ← g.make_turn
    match s with
    | GameState.Over => .ok g'
    | GameState.Going => runGame fuel g'

/-- Parse a map at a given elven attack power and run it to completion. -/
def playGame (bytes : List Nat) (power fuel : Nat) : Except String Game := do
  let b ← Board.with_elven_power bytes power
  runGame fuel (Game.from_board b)

/-! ### A bitmask twin of the engine

Kernel evaluation of the association-list engine above is too slow to
replay whole games inside proofs, so we build a second engine that
represents the tile grid redundantly as bitmasks over row-major cell
indices and replaces the cell-at-a-time search of
`distance_to_closest_unit` by whole-frontier expansion.  Every function
below is proved extensionally equal to (a projection of) its untrusted
counterpart above; the claims themselves are stated against the faithful
embedding only. -/

/-- Bits of a tile list: bit `i` is set iff `f` holds of tile `i`. -/
def maskOf (f : Tile → Bool) : List Tile → Nat
  | [] => 0
  | t :: ts => (if f t then 1 else 0) + 2 * maskOf f ts

/-- Bits `x`, `x+W`, …, `x+(h-1)W`: one column of an `h`-row board. -/
def colMask (W x : Nat) : Nat → Nat
  | 0 => 0
  | h + 1 => (1 <<< x) ||| (colMask W x h <<< W)

/-- Static geometry masks of a `W×H` board. -/
structure Geo where
  W : Nat
  full : Nat
  noLeft : Nat
  noRight : Nat
deriving Repr, DecidableEq

/-- Geometry masks of a board. -/
def Board.geo (b : Board) : Geo :=
  let W := b.size.x.toNat
  let H := b.size.y.toNat
  let full := (1 <<< (W * H)) - 1
  ⟨W, full, full ^^^ (colMask W 0 H &&& full), full ^^^ (colMask W (W - 1) H &&& full)⟩

/-- All cells orthogonally adjacent to a cell of `S`, with edge clamping. -/
def adjacent (mk : Geo) (S : Nat) : Nat :=
  (((S &&& mk.noLeft) >>> 1) ||| ((S &&& mk.noRight) <<< 1) ||| (S >>> mk.W) ||| (S <<< mk.W)) &&& mk.full

/-- Whole-frontier breadth-first search: expand the frontier one distance
layer at a time through the empty cells `emp`, stopping as soon as the
frontier meets `adjGoal` (the cells adjacent to the goal team). -/
def layerLoop (mk : Geo) (emp adjGoal : Nat) : Nat → Nat → Nat → Nat → Option Nat
  | 0, _, _, _ => none
  | fuel + 1, d, frontier, vis =>
    if frontier == 0 then none
    else if frontier &&& adjGoal != 0 then some (d + 1)
    else
      let vis' := vis ||| frontier
      layerLoop mk emp adjGoal fuel (d + 1) (adjacent mk frontier &&& emp &&& (mk.full ^^^ vis')) vis'

/-- The tile masks carried alongside the board: empty, gnome and elf cells. -/
structure TileMasks where
  emptyM : Nat
  gnomeM : Nat
  elfM : Nat
deriving Repr, DecidableEq

/-- Tile masks as recomputed from scratch. -/
def Board.tileMasks (b : Board) : TileMasks :=
  ⟨maskOf (fun t => t == Tile.Empty) b.map, maskOf (fun t => t == Tile.Gnome) b.map,
    maskOf (fun t => t == Tile.Elf) b.map⟩

/-- The mask of the cells occupied by a team. -/
def TileMasks.teamM (tm : TileMasks) : Team → Nat
  | Team.Gnome => tm.gnomeM
  | Team.Elf => tm.elfM

/-- Per-direction candidate distance of the mask twin: the distance from the
step cell to the closest enemy, or `none` for blocked steps and unreachable
enemies (the faithful pipeline drops both kinds of entry alike). -/
def candFast (b : Board) (mk : Geo) (tm : TileMasks) (team : Team) (p : Point) : Option Nat :=
  if b.bounds_check p then
    let i := b.index_of_point p
    if ((tm.teamM team.enemy) >>> i) % 2 == 1 then some 0
    else if (tm.emptyM >>> i) % 2 == 1 then
      layerLoop mk (tm.emptyM &&& mk.full) (adjacent mk (tm.teamM team.enemy &&& mk.full))
        (b.map.length + 2) 0 (1 <<< i) 0
    else none
  else none

/-- Mask twin of `Board.find_enemy_direction`. -/
def findFast (b : Board) (mk : Geo) (tm : TileMasks) (start : Point) : Option Direction :=
  match lookupAL b.units start with
  | none => none
  | some u =>
    let team := u.team
    let cands := (directions.map (fun d => (d, candFast b mk tm team (start.step d)))).filterMap
      (fun e => e.2.map (fun dist => (e.1, dist)))
    match minByKey Nat.blt (fun e => e.2) cands with
    | none => none
    | some (dir, dist) => if 0 < dist then some dir else none

/-- Flip masks for a tile write `map[i] := t'` that overwrites tile `t`. -/
def TileMasks.write (tm : TileMasks) (i : Nat) (told tnew : Tile) : TileMasks :=
  let clear := fun (m : Nat) (t : Tile) => if t == told then m ^^^ (1 <<< i) else m
  let put := fun (m : Nat) (t : Tile) => if t == tnew then m ||| (1 <<< i) else m
  ⟨put (clear tm.emptyM Tile.Empty) Tile.Empty,
   put (clear tm.gnomeM Tile.Gnome) Tile.Gnome,
   put (clear tm.elfM Tile.Elf) Tile.Elf⟩

/-- Mask twin of `Board.move_unit`, updating the masks alongside. -/
def moveFast (b : Board) (tm : TileMasks) (pos : Point) (dir : Direction) :
    Except String (Point × Board × TileMasks) := do
  let some unit := lookupAL b.units pos | .error "no unit to move"
  let units1 := eraseAL pos b.units
  let some old_tile := b.get pos | .error "position out of bounds"
  if !(old_tile.is_team unit.team) then .error "map and unit list are inconsisten" else
  let b1 := b.setTile pos Tile.Empty
  let tm1 := tm.write (b.index_of_point pos) old_tile Tile.Empty
  let goal := pos.step dir
  let units2 := insertAL goal unit units1
  let some goal_tile := b1.get goal | .error "position out of bounds"
  if goal_tile == Tile.Empty then
    .ok (goal, { b1.setTile goal old_tile with units := units2 },
      tm1.write (b.index_of_point goal) Tile.Empty old_tile)
  else
    .error "move onto non-empty field"

/-- Mask twin of `Board.attack`. -/
def attackFast (b : Board) (tm : TileMasks) (attacker attacked : Point) :
    Except String (Option Unit × Board × TileMasks) := do
  let some au := lookupAL b.units attacker | .error "attacker missing"
  let some tu := lookupAL b.units attacked | .error "no unit to attack"
  let tu1 := tu.take_damage au.attack
  if tu1.is_defeated then
    let units1 := eraseAL attacked b.units
    let some tile := b.get attacked | .error "attacked point out of range"
    if tile.is_team tu1.team then
      .ok (some tu1, { b.setTile attacked Tile.Empty with units := units1 },
        tm.write (b.index_of_point attacked) tile Tile.Empty)
    else
      .error "map and unit list are inconsistent"
  else
    .ok (none, { b with units := insertAL attacked tu1 b.units }, tm)

/-- The fast engine's state: the faithful game plus the derived masks. -/
structure FastGame where
  game : Game
  geo : Geo
  tm : TileMasks
deriving Repr, DecidableEq

/-- Mask twin of the attack phase of `Game::progress`. -/
def attackPhaseFast (board : Board) (tm : TileMasks) (queue : List Point) (defeated_elves : Nat)
    (this_pos : Point) (enemy_team : Team) :
    Except String (Board × TileMasks × List Point × Nat) :=
  let cands := (this_pos.neighbors.filterMap
      (fun adj => (lookupAL board.units adj).map (fun u => (adj, u)))).filter
    (fun e => e.2.team == enemy_team)
  match minByKey hpPointLt (fun e => (e.2.hp, e.1)) cands with
  | none => .ok (board, tm, queue, defeated_elves)
  | some (attacked, _) => do
    let (defeated, board', tm') ← attackFast board tm this_pos attacked
    match defeated with
    | none => .ok (board', tm', queue, defeated_elves)
    | some u =>
      let de' := if u.team == Team.Elf then defeated_elves + 1 else defeated_elves
      .ok (board', tm', queue.erase attacked, de')

/-- Mask twin of `Game.progress`. -/
def progressFast (fg : FastGame) : Except String (GameState × FastGame) := do
  let g := fg.game
  match g.to_be_moved with
  | [] => .error "no units lefts"
  | this_pos :: rest =>
    let some u := lookupAL g.board.units this_pos | .error "no unit at queue position"
    let this_team := u.team
    if g.board.team_won this_team then
      .ok (GameState.Over, ⟨{ g with to_be_moved := rest }, fg.geo, fg.tm⟩)
    else do
      let (this_pos', board', tm') ←
        match findFast g.board fg.geo fg.tm this_pos with
        | some dir => moveFast g.board fg.tm this_pos dir
        | none => .ok (this_pos, g.board, fg.tm)
      let (board2, tm2, queue2, de2) ← attackPhaseFast board' tm' rest g.defeated_elves this_pos' this_team.enemy
      let g2 : Game := { g with board := board2, to_be_moved := queue2, defeated_elves := de2 }
      if queue2.isEmpty then do
        let g3 ← g2.start_new_turn
        .ok (GameState.Going, ⟨g3, fg.geo, tm2⟩)
      else
        .ok (GameState.Going, ⟨g2, fg.geo, tm2⟩)

/-- Bits of `m` all lie below `n`. -/
def maskB (m n : Nat) : Prop :=
  ∀ i, m.testBit i = true → i < n

/-- Well-formed board: the tile list covers every cell of the declared
size.  (The parser records the size at the last newline *before* bumping
the row counter, so the declared height excludes the final row; the tile
list is then longer than `x * y`, and the final row is out of bounds.) -/
def WFB (b : Board) : Prop :=
  b.size.x.toNat * b.size.y.toNat ≤ b.map.length ∧ 0 ≤ b.size.x ∧ 0 ≤ b.size.y

/-- The fast state is coherent: its masks are the ones derived from its own
board, and the board is well-formed. -/
def FastGame.WF (fg : FastGame) : Prop :=
  fg.geo = fg.game.board.geo ∧ fg.tm = fg.game.board.tileMasks ∧ WFB fg.game.board

/-- Mask twin of `makeTurnAux`. -/
def makeTurnAuxFast : Nat → Nat → FastGame → Except String (GameState × FastGame)
  | 0, _, _ => .error "out of fuel"
  | fuel + 1, old, fg => do
    let (s, fg') ← progressFast fg
    if s == GameState.Over || !(fg'.game.completed_turns == old) then .ok (s, fg')
    else makeTurnAuxFast fuel old fg'

/-- Mask twin of `Game.make_turn`. -/
def FastGame.make_turn (fg : FastGame) : Except String (GameState × FastGame) :=
  makeTurnAuxFast (fg.game.to_be_moved.length + 1) fg.game.completed_turns fg

/-- The byte sequence of the canonical 7x7 example map of the tests. -/
def combat1 : List Nat := [35, 35, 35, 35, 35, 35, 35, 10, 35, 46, 71, 46, 46, 46, 35, 10, 35, 46, 46, 46, 69, 71, 35, 10, 35, 46, 35, 46, 35, 71, 35, 10, 35, 46, 46, 71, 35, 69, 35, 10, 35, 46, 46, 46, 46, 46, 35, 10, 35, 35, 35, 35, 35, 35, 35, 10]

/-- The `for power in 4..` loop of `main`, over a list of remaining
candidate powers: run the game at each power and stop at the first one
whose run loses no elves, returning that power and its checksum. -/
def searchFrom (bytes : List Nat) (fuel : Nat) : List Nat → Except String (Option (Nat × Nat))
  | [] => .ok none
  | power :: rest => do
    let g ← playGame bytes power fuel
    if g.defeated_elves == 0 then .ok (some (power, g.checksum))
    else searchFrom bytes fuel rest

/-- The zero-loss boost search of `main`: candidate powers count up from 4
in unit steps through the `u8` range. -/
def boostSearch (bytes : List Nat) (fuel : Nat) : Except String (Option (Nat × Nat)) :=
  searchFrom bytes fuel ((List.range 256).drop 4)

instance : LawfulBEq Point where
  eq_of_beq := by
    intro a c h
    obtain ⟨ay, ax⟩ := a
    obtain ⟨qy, qx⟩ := c
    have h2 : (intEqb ay qy && intEqb ax qx) = true := h
    rw [Bool.and_eq_true] at h2
    obtain ⟨h3, h4⟩ := h2
    have hy : ay = qy := by
      cases ay <;> cases qy
      · exact congrArg Int.ofNat (Nat.eq_of_beq_eq_true h3)
      · exact Bool.noConfusion h3
      · exact Bool.noConfusion h3
      · exact congrArg Int.negSucc (Nat.eq_of_beq_eq_true h3)
    have hx : ax = qx := by
      cases ax <;> cases qx
      · exact congrArg Int.ofNat (Nat.eq_of_beq_eq_true h4)
      · exact Bool.noConfusion h4
      · exact Bool.noConfusion h4
      · exact congrArg Int.negSucc (Nat.eq_of_beq_eq_true h4)
    rw [hy, hx]
  rfl := by
    intro a
    obtain ⟨ay, ax⟩ := a
    show (intEqb ay ay && intEqb ax ax) = true
    have hy : intEqb ay ay = true := by
      cases ay
      · exact Nat.beq_refl _
      · exact Nat.beq_refl _
    have hx : intEqb ax ax = true := by
      cases ax
      · exact Nat.beq_refl _
      · exact Nat.beq_refl _
    rw [hy, hx]
    rfl



/-! ### A functional view of the open list -/

def olookup (opn : List (Point × Nat)) (q : Point) : Option Nat :=
  match opn with
  | [] => none
  | (k, n) :: rest => if k.eqb q then some n else olookup rest q

def keysOf (l : List (Point × Nat)) : List Point := l.map Prod.fst

/-- The goal-adjacency test inside `dtcuStep`. -/
def hasGoalNbr (b : Board) (goal : Team) (c : Point) : Bool :=
  (c.neighbors.filterMap b.get).any (fun t => t.is_team goal)

/-- Count of remaining distance-`d` entries: the inner induction measure. -/
def layerCount (d : Nat) (opn : List (Point × Nat)) : Nat :=
  (opn.filter (fun e => e.2.beq d)).length

/-- The set of next-layer cells opened after processing `ps`: unreached empty
cells adjacent to a processed cell. -/
def Nxt (b : Board) (V₀ : List Point) (L : Point → Prop) (ps : List Point) (q : Point) : Prop :=
  ¬L q ∧ V₀.contains q = false ∧ b.get q = some Tile.Empty ∧ ∃ c ∈ ps, q ∈ c.neighbors

/-- Invariant of the inner (single-layer) loop of `dtcuLoop`: the open list
holds exactly the unprocessed layer-`d` cells at distance `d` and the
next-layer cells opened so far at distance `d+1`. -/
structure InnerInv (b : Board) (d : Nat) (L : Point → Prop) (V₀ : List Point)
    (opn : List (Point × Nat)) (processed : List Point) : Prop where
  nodup : (keysOf opn).Nodup
  keys_bounds : ∀ q ∈ keysOf opn, b.bounds_check q = true
  inv_d : ∀ q, L q → q ∉ processed → olookup opn q = some d
  inv_shape : ∀ q v, olookup opn q = some v →
    (v = d ∧ L q ∧ q ∉ processed) ∨ (v = d + 1 ∧ Nxt b V₀ L processed q)
  inv_next : ∀ q, Nxt b V₀ L processed q → olookup opn q = some (d + 1)
  proc_sub : ∀ c ∈ processed, L c
  vis_nodup : (processed ++ V₀).Nodup



/-- The tile occupied by a team's units. -/
def teamTile : Team → Tile
  | Team.Gnome => Tile.Gnome
  | Team.Elf => Tile.Elf

/-- The layer-`d` frontier as a point predicate. -/
def LM (b : Board) (M : Nat) : Point → Prop :=
  fun q => b.bounds_check q = true ∧ M.testBit (b.index_of_point q) = true

/-- Relation between the faithful Dijkstra state at the start of a distance
layer and the mask-BFS state: the open list holds exactly the frontier cells
at distance `d`, and the visited list matches the visited mask. -/
structure LayerRel (b : Board) (d : Nat) (M V : Nat)
    (opn : List (Point × Nat)) (visited : List Point) : Prop where
  nodup : (keysOf opn).Nodup
  keys_bounds : ∀ q ∈ keysOf opn, b.bounds_check q = true
  look : ∀ q, b.bounds_check q = true →
    olookup opn q = (if M.testBit (b.index_of_point q) = true then some d else none)
  vis : ∀ q, b.bounds_check q = true →
    (visited.contains q = true ↔ V.testBit (b.index_of_point q) = true)
  vis_nodup : visited.Nodup
  vis_bounds : ∀ q ∈ visited, b.bounds_check q = true
  maskM : maskB M (b.size.x.toNat * b.size.y.toNat)
  maskV : maskB V (b.size.x.toNat * b.size.y.toNat)
  disj : ∀ i, M.testBit i = true → V.testBit i = false

/-- Per-direction candidate of the faithful pipeline in
`find_enemy_direction`: blocked steps give `none`. -/
def candSpec (b : Board) (team : Team) (p : Point) : Option Nat :=
  match b.get p with
  | some t =>
    if !(t == Tile.Wall) && !(t.is_team team) then b.distance_to_closest_unit p team.enemy
    else none
  | none => none




abbrev tE := Tile.Empty

abbrev tW := Tile.Wall

abbrev tG := Tile.Gnome

abbrev tF := Tile.Elf

-- power 3: 49 states
def s3r0 : FastGame := ⟨⟨0, [⟨1,2⟩, ⟨2,4⟩, ⟨2,5⟩, ⟨3,5⟩, ⟨4,3⟩, ⟨4,5⟩], ⟨⟨6,7⟩, [tW, tW, tW, tW, tW, tW, tW, tW, tE, tG, tE, tE, tE, tW, tW, tE, tE, tE, tF, tG, tW, tW, tE, tW, tE, tW, tG, tW, tW, tE, tE, tG, tW, tF, tW, tW, tE, tE, tE, tE, tE, tW, tW, tW, tW, tW, tW, tW, tW], [(⟨4,5⟩, ⟨Team.Elf,200,3⟩), (⟨4,3⟩, ⟨Team.Gnome,200,3⟩), (⟨3,5⟩, ⟨Team.Gnome,200,3⟩), (⟨2,5⟩, ⟨Team.Gnome,200,3⟩), (⟨2,4⟩, ⟨Team.Elf,200,3⟩), (⟨1,2⟩, ⟨Team.Gnome,200,3⟩)]⟩, 0⟩, ⟨7, 4398046511103, 4363416223614, 2181708111807⟩, ⟨2131935599872, 2215117312, 8590196736⟩⟩

def s3r1 : FastGame := ⟨⟨1, [⟨1,3⟩, ⟨2,4⟩, ⟨2,5⟩, ⟨3,3⟩, ⟨3,5⟩, ⟨4,5⟩], ⟨⟨6,7⟩, [tW, tW, tW, tW, tW, tW, tW, tW, tE, tE, tG, tE, tE, tW, tW, tE, tE, tE, tF, tG, tW, tW, tE, tW, tG, tW, tG, tW, tW, tE, tE, tE, tW, tF, tW, tW, tE, tE, tE, tE, tE, tW, tW, tW, tW, tW, tW, tW, tW], [(⟨3,5⟩, ⟨Team.Gnome,197,3⟩), (⟨3,3⟩, ⟨Team.Gnome,200,3⟩), (⟨4,5⟩, ⟨Team.Elf,197,3⟩), (⟨2,4⟩, ⟨Team.Elf,197,3⟩), (⟨2,5⟩, ⟨Team.Gnome,197,3⟩), (⟨1,3⟩, ⟨Team.Gnome,200,3⟩)]⟩, 0⟩, ⟨7, 4398046511103, 4363416223614, 2181708111807⟩, ⟨2134066305792, 84411392, 8590196736⟩⟩

def s3r2 : FastGame := ⟨⟨2, [⟨1,4⟩, ⟨2,3⟩, ⟨2,4⟩, ⟨2,5⟩, ⟨3,5⟩, ⟨4,5⟩], ⟨⟨6,7⟩, [tW, tW, tW, tW, tW, tW, tW, tW, tE, tE, tE, tG, tE, tW, tW, tE, tE, tG, tF, tG, tW, tW, tE, tW, tE, tW, tG, tW, tW, tE, tE, tE, tW, tF, tW, tW, tE, tE, tE, tE, tE, tW, tW, tW, tW, tW, tW, tW, tW], [(⟨3,5⟩, ⟨Team.Gnome,194,3⟩), (⟨4,5⟩, ⟨Team.Elf,194,3⟩), (⟨2,4⟩, ⟨Team.Elf,188,3⟩), (⟨2,3⟩, ⟨Team.Gnome,200,3⟩), (⟨2,5⟩, ⟨Team.Gnome,194,3⟩), (⟨1,4⟩, ⟨Team.Gnome,200,3⟩)]⟩, 0⟩, ⟨7, 4398046511103, 4363416223614, 2181708111807⟩, ⟨2134082950912, 67766272, 8590196736⟩⟩

def s3r3 : FastGame := ⟨⟨3, [⟨1,4⟩, ⟨2,3⟩, ⟨2,4⟩, ⟨2,5⟩, ⟨3,5⟩, ⟨4,5⟩], ⟨⟨6,7⟩, [tW, tW, tW, tW, tW, tW, tW, tW, tE, tE, tE, tG, tE, tW, tW, tE, tE, tG, tF, tG, tW, tW, tE, tW, tE, tW, tG, tW, tW, tE, tE, tE, tW, tF, tW, tW, tE, tE, tE, tE, tE, tW, tW, tW, tW, tW, tW, tW, tW], [(⟨3,5⟩, ⟨Team.Gnome,191,3⟩), (⟨4,5⟩, ⟨Team.Elf,191,3⟩), (⟨2,4⟩, ⟨Team.Elf,179,3⟩), (⟨2,5⟩, ⟨Team.Gnome,191,3⟩), (⟨2,3⟩, ⟨Team.Gnome,200,3⟩), (⟨1,4⟩, ⟨Team.Gnome,200,3⟩)]⟩, 0⟩, ⟨7, 4398046511103, 4363416223614, 2181708111807⟩, ⟨2134082950912, 67766272, 8590196736⟩⟩

def s3r4 : FastGame := ⟨⟨4, [⟨1,4⟩, ⟨2,3⟩, ⟨2,4⟩, ⟨2,5⟩, ⟨3,5⟩, ⟨4,5⟩], ⟨⟨6,7⟩, [tW, tW, tW, tW, tW, tW, tW, tW, tE, tE, tE, tG, tE, tW, tW, tE, tE, tG, tF, tG, tW, tW, tE, tW, tE, tW, tG, tW, tW, tE, tE, tE, tW, tF, tW, tW, tE, tE, tE, tE, tE, tW, tW, tW, tW, tW, tW, tW, tW], [(⟨3,5⟩, ⟨Team.Gnome,188,3⟩), (⟨4,5⟩, ⟨Team.Elf,188,3⟩), (⟨2,4⟩, ⟨Team.Elf,170,3⟩), (⟨2,5⟩, ⟨Team.Gnome,188,3⟩), (⟨2,3⟩, ⟨Team.Gnome,200,3⟩), (⟨1,4⟩, ⟨Team.Gnome,200,3⟩)]⟩, 0⟩, ⟨7, 4398046511103, 4363416223614, 2181708111807⟩, ⟨2134082950912, 67766272, 8590196736⟩⟩

def s3r5 : FastGame := ⟨⟨5, [⟨1,4⟩, ⟨2,3⟩, ⟨2,4⟩, ⟨2,5⟩, ⟨3,5⟩, ⟨4,5⟩], ⟨⟨6,7⟩, [tW, tW, tW, tW, tW, tW, tW, tW, tE, tE, tE, tG, tE, tW, tW, tE, tE, tG, tF, tG, tW, tW, tE, tW, tE, tW, tG, tW, tW, tE, tE, tE, tW, tF, tW, tW, tE, tE, tE, tE, tE, tW, tW, tW, tW, tW, tW, tW, tW], [(⟨3,5⟩, ⟨Team.Gnome,185,3⟩), (⟨4,5⟩, ⟨Team.Elf,185,3⟩), (⟨2,4⟩, ⟨Team.Elf,161,3⟩), (⟨2,5⟩, ⟨Team.Gnome,185,3⟩), (⟨2,3⟩, ⟨Team.Gnome,200,3⟩), (⟨1,4⟩, ⟨Team.Gnome,200,3⟩)]⟩, 0⟩, ⟨7, 4398046511103, 4363416223614, 2181708111807⟩, ⟨2134082950912, 67766272, 8590196736⟩⟩

def s3r6 : FastGame := ⟨⟨6, [⟨1,4⟩, ⟨2,3⟩, ⟨2,4⟩, ⟨2,5⟩, ⟨3,5⟩, ⟨4,5⟩], ⟨⟨6,7⟩, [tW, tW, tW, tW, tW, tW, tW, tW, tE, tE, tE, tG, tE, tW, tW, tE, tE, tG, tF, tG, tW, tW, tE, tW, tE, tW, tG, tW, tW, tE, tE, tE, tW, tF, tW, tW, tE, tE, tE, tE, tE, tW, tW, tW, tW, tW, tW, tW, tW], [(⟨3,5⟩, ⟨Team.Gnome,182,3⟩), (⟨4,5⟩, ⟨Team.Elf,182,3⟩), (⟨2,4⟩, ⟨Team.Elf,152,3⟩), (⟨2,5⟩, ⟨Team.Gnome,182,3⟩), (⟨2,3⟩, ⟨Team.Gnome,200,3⟩), (⟨1,4⟩, ⟨Team.Gnome,200,3⟩)]⟩, 0⟩, ⟨7, 4398046511103, 4363416223614, 2181708111807⟩, ⟨2134082950912, 67766272, 8590196736⟩⟩

def s3r7 : FastGame := ⟨⟨7, [⟨1,4⟩, ⟨2,3⟩, ⟨2,4⟩, ⟨2,5⟩, ⟨3,5⟩, ⟨4,5⟩], ⟨⟨6,7⟩, [tW, tW, tW, tW, tW, tW, tW, tW, tE, tE, tE, tG, tE, tW, tW, tE, tE, tG, tF, tG, tW, tW, tE, tW, tE, tW, tG, tW, tW, tE, tE, tE, tW, tF, tW, tW, tE, tE, tE, tE, tE, tW, tW, tW, tW, tW, tW, tW, tW], [(⟨3,5⟩, ⟨Team.Gnome,179,3⟩), (⟨4,5⟩, ⟨Team.Elf,179,3⟩), (⟨2,4⟩, ⟨Team.Elf,143,3⟩), (⟨2,5⟩, ⟨Team.Gnome,179,3⟩), (⟨2,3⟩, ⟨Team.Gnome,200,3⟩), (⟨1,4⟩, ⟨Team.Gnome,200,3⟩)]⟩, 0⟩, ⟨7, 4398046511103, 4363416223614, 2181708111807⟩, ⟨2134082950912, 67766272, 8590196736⟩⟩

def s3r8 : FastGame := ⟨⟨8, [⟨1,4⟩, ⟨2,3⟩, ⟨2,4⟩, ⟨2,5⟩, ⟨3,5⟩, ⟨4,5⟩], ⟨⟨6,7⟩, [tW, tW, tW, tW, tW, tW, tW, tW, tE, tE, tE, tG, tE, tW, tW, tE, tE, tG, tF, tG, tW, tW, tE, tW, tE, tW, tG, tW, tW, tE, tE, tE, tW, tF, tW, tW, tE, tE, tE, tE, tE, tW, tW, tW, tW, tW, tW, tW, tW], [(⟨3,5⟩, ⟨Team.Gnome,176,3⟩), (⟨4,5⟩, ⟨Team.Elf,176,3⟩), (⟨2,4⟩, ⟨Team.Elf,134,3⟩), (⟨2,5⟩, ⟨Team.Gnome,176,3⟩), (⟨2,3⟩, ⟨Team.Gnome,200,3⟩), (⟨1,4⟩, ⟨Team.Gnome,200,3⟩)]⟩, 0⟩, ⟨7, 4398046511103, 4363416223614, 2181708111807⟩, ⟨2134082950912, 67766272, 8590196736⟩⟩

def s3r9 : FastGame := ⟨⟨9, [⟨1,4⟩, ⟨2,3⟩, ⟨2,4⟩, ⟨2,5⟩, ⟨3,5⟩, ⟨4,5⟩], ⟨⟨6,7⟩, [tW, tW, tW, tW, tW, tW, tW, tW, tE, tE, tE, tG, tE, tW, tW, tE, tE, tG, tF, tG, tW, tW, tE, tW, tE, tW, tG, tW, tW, tE, tE, tE, tW, tF, tW, tW, tE, tE, tE, tE, tE, tW, tW, tW, tW, tW, tW, tW, tW], [(⟨3,5⟩, ⟨Team.Gnome,173,3⟩), (⟨4,5⟩, ⟨Team.Elf,173,3⟩), (⟨2,4⟩, ⟨Team.Elf,125,3⟩), (⟨2,5⟩, ⟨Team.Gnome,173,3⟩), (⟨2,3⟩, ⟨Team.Gnome,200,3⟩), (⟨1,4⟩, ⟨Team.Gnome,200,3⟩)]⟩, 0⟩, ⟨7, 4398046511103, 4363416223614, 2181708111807⟩, ⟨2134082950912, 67766272, 8590196736⟩⟩

def s3r10 : FastGame := ⟨⟨10, [⟨1,4⟩, ⟨2,3⟩, ⟨2,4⟩, ⟨2,5⟩, ⟨3,5⟩, ⟨4,5⟩], ⟨⟨6,7⟩, [tW, tW, tW, tW, tW, tW, tW, tW, tE, tE, tE, tG, tE, tW, tW, tE, tE, tG, tF, tG, tW, tW, tE, tW, tE, tW, tG, tW, tW, tE, tE, tE, tW, tF, tW, tW, tE, tE, tE, tE, tE, tW, tW, tW, tW, tW, tW, tW, tW], [(⟨3,5⟩, ⟨Team.Gnome,170,3⟩), (⟨4,5⟩, ⟨Team.Elf,170,3⟩), (⟨2,4⟩, ⟨Team.Elf,116,3⟩), (⟨2,5⟩, ⟨Team.Gnome,170,3⟩), (⟨2,3⟩, ⟨Team.Gnome,200,3⟩), (⟨1,4⟩, ⟨Team.Gnome,200,3⟩)]⟩, 0⟩, ⟨7, 4398046511103, 4363416223614, 2181708111807⟩, ⟨2134082950912, 67766272, 8590196736⟩⟩

def s3r11 : FastGame := ⟨⟨11, [⟨1,4⟩, ⟨2,3⟩, ⟨2,4⟩, ⟨2,5⟩, ⟨3,5⟩, ⟨4,5⟩], ⟨⟨6,7⟩, [tW, tW, tW, tW, tW, tW, tW, tW, tE, tE, tE, tG, tE, tW, tW, tE, tE, tG, tF, tG, tW, tW, tE, tW, tE, tW, tG, tW, tW, tE, tE, tE, tW, tF, tW, tW, tE, tE, tE, tE, tE, tW, tW, tW, tW, tW, tW, tW, tW], [(⟨3,5⟩, ⟨Team.Gnome,167,3⟩), (⟨4,5⟩, ⟨Team.Elf,167,3⟩), (⟨2,4⟩, ⟨Team.Elf,107,3⟩), (⟨2,5⟩, ⟨Team.Gnome,167,3⟩), (⟨2,3⟩, ⟨Team.Gnome,200,3⟩), (⟨1,4⟩, ⟨Team.Gnome,200,3⟩)]⟩, 0⟩, ⟨7, 4398046511103, 4363416223614, 2181708111807⟩, ⟨2134082950912, 67766272, 8590196736⟩⟩

def s3r12 : FastGame := ⟨⟨12, [⟨1,4⟩, ⟨2,3⟩, ⟨2,4⟩, ⟨2,5⟩, ⟨3,5⟩, ⟨4,5⟩], ⟨⟨6,7⟩, [tW, tW, tW, tW, tW, tW, tW, tW, tE, tE, tE, tG, tE, tW, tW, tE, tE, tG, tF, tG, tW, tW, tE, tW, tE, tW, tG, tW, tW, tE, tE, tE, tW, tF, tW, tW, tE, tE, tE, tE, tE, tW, tW, tW, tW, tW, tW, tW, tW], [(⟨3,5⟩, ⟨Team.Gnome,164,3⟩), (⟨4,5⟩, ⟨Team.Elf,164,3⟩), (⟨2,4⟩, ⟨Team.Elf,98,3⟩), (⟨2,5⟩, ⟨Team.Gnome,164,3⟩), (⟨2,3⟩, ⟨Team.Gnome,200,3⟩), (⟨1,4⟩, ⟨Team.Gnome,200,3⟩)]⟩, 0⟩, ⟨7, 4398046511103, 4363416223614, 2181708111807⟩, ⟨2134082950912, 67766272, 8590196736⟩⟩

def s3r13 : FastGame := ⟨⟨13, [⟨1,4⟩, ⟨2,3⟩, ⟨2,4⟩, ⟨2,5⟩, ⟨3,5⟩, ⟨4,5⟩], ⟨⟨6,7⟩, [tW, tW, tW, tW, tW, tW, tW, tW, tE, tE, tE, tG, tE, tW, tW, tE, tE, tG, tF, tG, tW, tW, tE, tW, tE, tW, tG, tW, tW, tE, tE, tE, tW, tF, tW, tW, tE, tE, tE, tE, tE, tW, tW, tW, tW, tW, tW, tW, tW], [(⟨3,5⟩, ⟨Team.Gnome,161,3⟩), (⟨4,5⟩, ⟨Team.Elf,161,3⟩), (⟨2,4⟩, ⟨Team.Elf,89,3⟩), (⟨2,5⟩, ⟨Team.Gnome,161,3⟩), (⟨2,3⟩, ⟨Team.Gnome,200,3⟩), (⟨1,4⟩, ⟨Team.Gnome,200,3⟩)]⟩, 0⟩, ⟨7, 4398046511103, 4363416223614, 2181708111807⟩, ⟨2134082950912, 67766272, 8590196736⟩⟩

def s3r14 : FastGame := ⟨⟨14, [⟨1,4⟩, ⟨2,3⟩, ⟨2,4⟩, ⟨2,5⟩, ⟨3,5⟩, ⟨4,5⟩], ⟨⟨6,7⟩, [tW, tW, tW, tW, tW, tW, tW, tW, tE, tE, tE, tG, tE, tW, tW, tE, tE, tG, tF, tG, tW, tW, tE, tW, tE, tW, tG, tW, tW, tE, tE, tE, tW, tF, tW, tW, tE, tE, tE, tE, tE, tW, tW, tW, tW, tW, tW, tW, tW], [(⟨3,5⟩, ⟨Team.Gnome,158,3⟩), (⟨4,5⟩, ⟨Team.Elf,158,3⟩), (⟨2,4⟩, ⟨Team.Elf,80,3⟩), (⟨2,5⟩, ⟨Team.Gnome,158,3⟩), (⟨2,3⟩, ⟨Team.Gnome,200,3⟩), (⟨1,4⟩, ⟨Team.Gnome,200,3⟩)]⟩, 0⟩, ⟨7, 4398046511103, 4363416223614, 2181708111807⟩, ⟨2134082950912, 67766272, 8590196736⟩⟩

def s3r15 : FastGame := ⟨⟨15, [⟨1,4⟩, ⟨2,3⟩, ⟨2,4⟩, ⟨2,5⟩, ⟨3,5⟩, ⟨4,5⟩], ⟨⟨6,7⟩, [tW, tW, tW, tW, tW, tW, tW, tW, tE, tE, tE, tG, tE, tW, tW, tE, tE, tG, tF, tG, tW, tW, tE, tW, tE, tW, tG, tW, tW, tE, tE, tE, tW, tF, tW, tW, tE, tE, tE, tE, tE, tW, tW, tW, tW, tW, tW, tW, tW], [(⟨3,5⟩, ⟨Team.Gnome,155,3⟩), (⟨4,5⟩, ⟨Team.Elf,155,3⟩), (⟨2,4⟩, ⟨Team.Elf,71,3⟩), (⟨2,5⟩, ⟨Team.Gnome,155,3⟩), (⟨2,3⟩, ⟨Team.Gnome,200,3⟩), (⟨1,4⟩, ⟨Team.Gnome,200,3⟩)]⟩, 0⟩, ⟨7, 4398046511103, 4363416223614, 2181708111807⟩, ⟨2134082950912, 67766272, 8590196736⟩⟩

def s3r16 : FastGame := ⟨⟨16, [⟨1,4⟩, ⟨2,3⟩, ⟨2,4⟩, ⟨2,5⟩, ⟨3,5⟩, ⟨4,5⟩], ⟨⟨6,7⟩, [tW, tW, tW, tW, tW, tW, tW, tW, tE, tE, tE, tG, tE, tW, tW, tE, tE, tG, tF, tG, tW, tW, tE, tW, tE, tW, tG, tW, tW, tE, tE, tE, tW, tF, tW, tW, tE, tE, tE, tE, tE, tW, tW, tW, tW, tW, tW, tW, tW], [(⟨3,5⟩, ⟨Team.Gnome,152,3⟩), (⟨4,5⟩, ⟨Team.Elf,152,3⟩), (⟨2,4⟩, ⟨Team.Elf,62,3⟩), (⟨2,5⟩, ⟨Team.Gnome,152,3⟩), (⟨2,3⟩, ⟨Team.Gnome,200,3⟩), (⟨1,4⟩, ⟨Team.Gnome,200,3⟩)]⟩, 0⟩, ⟨7, 4398046511103, 4363416223614, 2181708111807⟩, ⟨2134082950912, 67766272, 8590196736⟩⟩

def s3r17 : FastGame := ⟨⟨17, [⟨1,4⟩, ⟨2,3⟩, ⟨2,4⟩, ⟨2,5⟩, ⟨3,5⟩, ⟨4,5⟩], ⟨⟨6,7⟩, [tW, tW, tW, tW, tW, tW, tW, tW, tE, tE, tE, tG, tE, tW, tW, tE, tE, tG, tF, tG, tW, tW, tE, tW, tE, tW, tG, tW, tW, tE, tE, tE, tW, tF, tW, tW, tE, tE, tE, tE, tE, tW, tW, tW, tW, tW, tW, tW, tW], [(⟨3,5⟩, ⟨Team.Gnome,149,3⟩), (⟨4,5⟩, ⟨Team.Elf,149,3⟩), (⟨2,4⟩, ⟨Team.Elf,53,3⟩), (⟨2,5⟩, ⟨Team.Gnome,149,3⟩), (⟨2,3⟩, ⟨Team.Gnome,200,3⟩), (⟨1,4⟩, ⟨Team.Gnome,200,3⟩)]⟩, 0⟩, ⟨7, 4398046511103, 4363416223614, 2181708111807⟩, ⟨2134082950912, 67766272, 8590196736⟩⟩

def s3r18 : FastGame := ⟨⟨18, [⟨1,4⟩, ⟨2,3⟩, ⟨2,4⟩, ⟨2,5⟩, ⟨3,5⟩, ⟨4,5⟩], ⟨⟨6,7⟩, [tW, tW, tW, tW, tW, tW, tW, tW, tE, tE, tE, tG, tE, tW, tW, tE, tE, tG, tF, tG, tW, tW, tE, tW, tE, tW, tG, tW, tW, tE, tE, tE, tW, tF, tW, tW, tE, tE, tE, tE, tE, tW, tW, tW, tW, tW, tW, tW, tW], [(⟨3,5⟩, ⟨Team.Gnome,146,3⟩), (⟨4,5⟩, ⟨Team.Elf,146,3⟩), (⟨2,4⟩, ⟨Team.Elf,44,3⟩), (⟨2,5⟩, ⟨Team.Gnome,146,3⟩), (⟨2,3⟩, ⟨Team.Gnome,200,3⟩), (⟨1,4⟩, ⟨Team.Gnome,200,3⟩)]⟩, 0⟩, ⟨7, 4398046511103, 4363416223614, 2181708111807⟩, ⟨2134082950912, 67766272, 8590196736⟩⟩

def s3r19 : FastGame := ⟨⟨19, [⟨1,4⟩, ⟨2,3⟩, ⟨2,4⟩, ⟨2,5⟩, ⟨3,5⟩, ⟨4,5⟩], ⟨⟨6,7⟩, [tW, tW, tW, tW, tW, tW, tW, tW, tE, tE, tE, tG, tE, tW, tW, tE, tE, tG, tF, tG, tW, tW, tE, tW, tE, tW, tG, tW, tW, tE, tE, tE, tW, tF, tW, tW, tE, tE, tE, tE, tE, tW, tW, tW, tW, tW, tW, tW, tW], [(⟨3,5⟩, ⟨Team.Gnome,143,3⟩), (⟨4,5⟩, ⟨Team.Elf,143,3⟩), (⟨2,4⟩, ⟨Team.Elf,35,3⟩), (⟨2,5⟩, ⟨Team.Gnome,143,3⟩), (⟨2,3⟩, ⟨Team.Gnome,200,3⟩), (⟨1,4⟩, ⟨Team.Gnome,200,3⟩)]⟩, 0⟩, ⟨7, 4398046511103, 4363416223614, 2181708111807⟩, ⟨2134082950912, 67766272, 8590196736⟩⟩

def s3r20 : FastGame := ⟨⟨20, [⟨1,4⟩, ⟨2,3⟩, ⟨2,4⟩, ⟨2,5⟩, ⟨3,5⟩, ⟨4,5⟩], ⟨⟨6,7⟩, [tW, tW, tW, tW, tW, tW, tW, tW, tE, tE, tE, tG, tE, tW, tW, tE, tE, tG, tF, tG, tW, tW, tE, tW, tE, tW, tG, tW, tW, tE, tE, tE, tW, tF, tW, tW, tE, tE, tE, tE, tE, tW, tW, tW, tW, tW, tW, tW, tW], [(⟨3,5⟩, ⟨Team.Gnome,140,3⟩), (⟨4,5⟩, ⟨Team.Elf,140,3⟩), (⟨2,4⟩, ⟨Team.Elf,26,3⟩), (⟨2,5⟩, ⟨Team.Gnome,140,3⟩), (⟨2,3⟩, ⟨Team.Gnome,200,3⟩), (⟨1,4⟩, ⟨Team.Gnome,200,3⟩)]⟩, 0⟩, ⟨7, 4398046511103, 4363416223614, 2181708111807⟩, ⟨2134082950912, 67766272, 8590196736⟩⟩

def s3r21 : FastGame := ⟨⟨21, [⟨1,4⟩, ⟨2,3⟩, ⟨2,4⟩, ⟨2,5⟩, ⟨3,5⟩, ⟨4,5⟩], ⟨⟨6,7⟩, [tW, tW, tW, tW, tW, tW, tW, tW, tE, tE, tE, tG, tE, tW, tW, tE, tE, tG, tF, tG, tW, tW, tE, tW, tE, tW, tG, tW, tW, tE, tE, tE, tW, tF, tW, tW, tE, tE, tE, tE, tE, tW, tW, tW, tW, tW, tW, tW, tW], [(⟨3,5⟩, ⟨Team.Gnome,137,3⟩), (⟨4,5⟩, ⟨Team.Elf,137,3⟩), (⟨2,4⟩, ⟨Team.Elf,17,3⟩), (⟨2,5⟩, ⟨Team.Gnome,137,3⟩), (⟨2,3⟩, ⟨Team.Gnome,200,3⟩), (⟨1,4⟩, ⟨Team.Gnome,200,3⟩)]⟩, 0⟩, ⟨7, 4398046511103, 4363416223614, 2181708111807⟩, ⟨2134082950912, 67766272, 8590196736⟩⟩

def s3r22 : FastGame := ⟨⟨22, [⟨1,4⟩, ⟨2,3⟩, ⟨2,4⟩, ⟨2,5⟩, ⟨3,5⟩, ⟨4,5⟩], ⟨⟨6,7⟩, [tW, tW, tW, tW, tW, tW, tW, tW, tE, tE, tE, tG, tE, tW, tW, tE, tE, tG, tF, tG, tW, tW, tE, tW, tE, tW, tG, tW, tW, tE, tE, tE, tW, tF, tW, tW, tE, tE, tE, tE, tE, tW, tW, tW, tW, tW, tW, tW, tW], [(⟨3,5⟩, ⟨Team.Gnome,134,3⟩), (⟨4,5⟩, ⟨Team.Elf,134,3⟩), (⟨2,4⟩, ⟨Team.Elf,8,3⟩), (⟨2,5⟩, ⟨Team.Gnome,134,3⟩), (⟨2,3⟩, ⟨Team.Gnome,200,3⟩), (⟨1,4⟩, ⟨Team.Gnome,200,3⟩)]⟩, 0⟩, ⟨7, 4398046511103, 4363416223614, 2181708111807⟩, ⟨2134082950912, 67766272, 8590196736⟩⟩

def s3r23 : FastGame := ⟨⟨23, [⟨1,4⟩, ⟨2,3⟩, ⟨2,5⟩, ⟨3,5⟩, ⟨4,5⟩], ⟨⟨6,7⟩, [tW, tW, tW, tW, tW, tW, tW, tW, tE, tE, tE, tG, tE, tW, tW, tE, tE, tG, tE, tG, tW, tW, tE, tW, tE, tW, tG, tW, tW, tE, tE, tE, tW, tF, tW, tW, tE, tE, tE, tE, tE, tW, tW, tW, tW, tW, tW, tW, tW], [(⟨3,5⟩, ⟨Team.Gnome,131,3⟩), (⟨4,5⟩, ⟨Team.Elf,131,3⟩), (⟨2,5⟩, ⟨Team.Gnome,131,3⟩), (⟨2,3⟩, ⟨Team.Gnome,200,3⟩), (⟨1,4⟩, ⟨Team.Gnome,200,3⟩)]⟩, 1⟩, ⟨7, 4398046511103, 4363416223614, 2181708111807⟩, ⟨2134083213056, 67766272, 8589934592⟩⟩

def s3r24 : FastGame := ⟨⟨24, [⟨1,3⟩, ⟨2,4⟩, ⟨3,3⟩, ⟨3,5⟩, ⟨4,5⟩], ⟨⟨6,7⟩, [tW, tW, tW, tW, tW, tW, tW, tW, tE, tE, tG, tE, tE, tW, tW, tE, tE, tE, tG, tE, tW, tW, tE, tW, tG, tW, tG, tW, tW, tE, tE, tE, tW, tF, tW, tW, tE, tE, tE, tE, tE, tW, tW, tW, tW, tW, tW, tW, tW], [(⟨3,5⟩, ⟨Team.Gnome,128,3⟩), (⟨4,5⟩, ⟨Team.Elf,128,3⟩), (⟨2,4⟩, ⟨Team.Gnome,131,3⟩), (⟨3,3⟩, ⟨Team.Gnome,200,3⟩), (⟨1,3⟩, ⟨Team.Gnome,200,3⟩)]⟩, 1⟩, ⟨7, 4398046511103, 4363416223614, 2181708111807⟩, ⟨2134066830080, 84149248, 8589934592⟩⟩

def s3r25 : FastGame := ⟨⟨25, [⟨1,2⟩, ⟨2,3⟩, ⟨3,5⟩, ⟨4,3⟩, ⟨4,5⟩], ⟨⟨6,7⟩, [tW, tW, tW, tW, tW, tW, tW, tW, tE, tG, tE, tE, tE, tW, tW, tE, tE, tG, tE, tE, tW, tW, tE, tW, tE, tW, tG, tW, tW, tE, tE, tG, tW, tF, tW, tW, tE, tE, tE, tE, tE, tW, tW, tW, tW, tW, tW, tW, tW], [(⟨3,5⟩, ⟨Team.Gnome,125,3⟩), (⟨4,5⟩, ⟨Team.Elf,125,3⟩), (⟨4,3⟩, ⟨Team.Gnome,200,3⟩), (⟨2,3⟩, ⟨Team.Gnome,131,3⟩), (⟨1,2⟩, ⟨Team.Gnome,200,3⟩)]⟩, 1⟩, ⟨7, 4398046511103, 4363416223614, 2181708111807⟩, ⟨2131936255232, 2214724096, 8589934592⟩⟩

def s3r26 : FastGame := ⟨⟨26, [⟨1,1⟩, ⟨2,2⟩, ⟨3,5⟩, ⟨4,5⟩, ⟨5,3⟩], ⟨⟨6,7⟩, [tW, tW, tW, tW, tW, tW, tW, tW, tG, tE, tE, tE, tE, tW, tW, tE, tG, tE, tE, tE, tW, tW, tE, tW, tE, tW, tG, tW, tW, tE, tE, tE, tW, tF, tW, tW, tE, tE, tG, tE, tE, tW, tW, tW, tW, tW, tW, tW, tW], [(⟨3,5⟩, ⟨Team.Gnome,122,3⟩), (⟨5,3⟩, ⟨Team.Gnome,200,3⟩), (⟨4,5⟩, ⟨Team.Elf,122,3⟩), (⟨2,2⟩, ⟨Team.Gnome,131,3⟩), (⟨1,1⟩, ⟨Team.Gnome,200,3⟩)]⟩, 1⟩, ⟨7, 4398046511103, 4363416223614, 2181708111807⟩, ⟨1859205897728, 274945081600, 8589934592⟩⟩

def s3r27 : FastGame := ⟨⟨27, [⟨1,1⟩, ⟨2,2⟩, ⟨3,5⟩, ⟨4,5⟩, ⟨5,4⟩], ⟨⟨6,7⟩, [tW, tW, tW, tW, tW, tW, tW, tW, tG, tE, tE, tE, tE, tW, tW, tE, tG, tE, tE, tE, tW, tW, tE, tW, tE, tW, tG, tW, tW, tE, tE, tE, tW, tF, tW, tW, tE, tE, tE, tG, tE, tW, tW, tW, tW, tW, tW, tW, tW], [(⟨5,4⟩, ⟨Team.Gnome,200,3⟩), (⟨3,5⟩, ⟨Team.Gnome,119,3⟩), (⟨4,5⟩, ⟨Team.Elf,119,3⟩), (⟨2,2⟩, ⟨Team.Gnome,131,3⟩), (⟨1,1⟩, ⟨Team.Gnome,200,3⟩)]⟩, 1⟩, ⟨7, 4398046511103, 4363416223614, 2181708111807⟩, ⟨1584327990784, 549822988544, 8589934592⟩⟩

def s3r28 : FastGame := ⟨⟨28, [⟨1,1⟩, ⟨2,2⟩, ⟨3,5⟩, ⟨4,5⟩, ⟨5,5⟩], ⟨⟨6,7⟩, [tW, tW, tW, tW, tW, tW, tW, tW, tG, tE, tE, tE, tE, tW, tW, tE, tG, tE, tE, tE, tW, tW, tE, tW, tE, tW, tG, tW, tW, tE, tE, tE, tW, tF, tW, tW, tE, tE, tE, tE, tG, tW, tW, tW, tW, tW, tW, tW, tW], [(⟨4,5⟩, ⟨Team.Elf,113,3⟩), (⟨5,5⟩, ⟨Team.Gnome,200,3⟩), (⟨3,5⟩, ⟨Team.Gnome,116,3⟩), (⟨2,2⟩, ⟨Team.Gnome,131,3⟩), (⟨1,1⟩, ⟨Team.Gnome,200,3⟩)]⟩, 1⟩, ⟨7, 4398046511103, 4363416223614, 2181708111807⟩, ⟨1034572176896, 1099578802432, 8589934592⟩⟩

def s3r29 : FastGame := ⟨⟨29, [⟨1,1⟩, ⟨2,2⟩, ⟨3,5⟩, ⟨4,5⟩, ⟨5,5⟩], ⟨⟨6,7⟩, [tW, tW, tW, tW, tW, tW, tW, tW, tG, tE, tE, tE, tE, tW, tW, tE, tG, tE, tE, tE, tW, tW, tE, tW, tE, tW, tG, tW, tW, tE, tE, tE, tW, tF, tW, tW, tE, tE, tE, tE, tG, tW, tW, tW, tW, tW, tW, tW, tW], [(⟨4,5⟩, ⟨Team.Elf,107,3⟩), (⟨3,5⟩, ⟨Team.Gnome,113,3⟩), (⟨5,5⟩, ⟨Team.Gnome,200,3⟩), (⟨2,2⟩, ⟨Team.Gnome,131,3⟩), (⟨1,1⟩, ⟨Team.Gnome,200,3⟩)]⟩, 1⟩, ⟨7, 4398046511103, 4363416223614, 2181708111807⟩, ⟨1034572176896, 1099578802432, 8589934592⟩⟩

def s3r30 : FastGame := ⟨⟨30, [⟨1,1⟩, ⟨2,2⟩, ⟨3,5⟩, ⟨4,5⟩, ⟨5,5⟩], ⟨⟨6,7⟩, [tW, tW, tW, tW, tW, tW, tW, tW, tG, tE, tE, tE, tE, tW, tW, tE, tG, tE, tE, tE, tW, tW, tE, tW, tE, tW, tG, tW, tW, tE, tE, tE, tW, tF, tW, tW, tE, tE, tE, tE, tG, tW, tW, tW, tW, tW, tW, tW, tW], [(⟨4,5⟩, ⟨Team.Elf,101,3⟩), (⟨3,5⟩, ⟨Team.Gnome,110,3⟩), (⟨5,5⟩, ⟨Team.Gnome,200,3⟩), (⟨2,2⟩, ⟨Team.Gnome,131,3⟩), (⟨1,1⟩, ⟨Team.Gnome,200,3⟩)]⟩, 1⟩, ⟨7, 4398046511103, 4363416223614, 2181708111807⟩, ⟨1034572176896, 1099578802432, 8589934592⟩⟩

def s3r31 : FastGame := ⟨⟨31, [⟨1,1⟩, ⟨2,2⟩, ⟨3,5⟩, ⟨4,5⟩, ⟨5,5⟩], ⟨⟨6,7⟩, [tW, tW, tW, tW, tW, tW, tW, tW, tG, tE, tE, tE, tE, tW, tW, tE, tG, tE, tE, tE, tW, tW, tE, tW, tE, tW, tG, tW, tW, tE, tE, tE, tW, tF, tW, tW, tE, tE, tE, tE, tG, tW, tW, tW, tW, tW, tW, tW, tW], [(⟨4,5⟩, ⟨Team.Elf,95,3⟩), (⟨3,5⟩, ⟨Team.Gnome,107,3⟩), (⟨5,5⟩, ⟨Team.Gnome,200,3⟩), (⟨2,2⟩, ⟨Team.Gnome,131,3⟩), (⟨1,1⟩, ⟨Team.Gnome,200,3⟩)]⟩, 1⟩, ⟨7, 4398046511103, 4363416223614, 2181708111807⟩, ⟨1034572176896, 1099578802432, 8589934592⟩⟩

def s3r32 : FastGame := ⟨⟨32, [⟨1,1⟩, ⟨2,2⟩, ⟨3,5⟩, ⟨4,5⟩, ⟨5,5⟩], ⟨⟨6,7⟩, [tW, tW, tW, tW, tW, tW, tW, tW, tG, tE, tE, tE, tE, tW, tW, tE, tG, tE, tE, tE, tW, tW, tE, tW, tE, tW, tG, tW, tW, tE, tE, tE, tW, tF, tW, tW, tE, tE, tE, tE, tG, tW, tW, tW, tW, tW, tW, tW, tW], [(⟨4,5⟩, ⟨Team.Elf,89,3⟩), (⟨3,5⟩, ⟨Team.Gnome,104,3⟩), (⟨5,5⟩, ⟨Team.Gnome,200,3⟩), (⟨2,2⟩, ⟨Team.Gnome,131,3⟩), (⟨1,1⟩, ⟨Team.Gnome,200,3⟩)]⟩, 1⟩, ⟨7, 4398046511103, 4363416223614, 2181708111807⟩, ⟨1034572176896, 1099578802432, 8589934592⟩⟩

def s3r33 : FastGame := ⟨⟨33, [⟨1,1⟩, ⟨2,2⟩, ⟨3,5⟩, ⟨4,5⟩, ⟨5,5⟩], ⟨⟨6,7⟩, [tW, tW, tW, tW, tW, tW, tW, tW, tG, tE, tE, tE, tE, tW, tW, tE, tG, tE, tE, tE, tW, tW, tE, tW, tE, tW, tG, tW, tW, tE, tE, tE, tW, tF, tW, tW, tE, tE, tE, tE, tG, tW, tW, tW, tW, tW, tW, tW, tW], [(⟨4,5⟩, ⟨Team.Elf,83,3⟩), (⟨3,5⟩, ⟨Team.Gnome,101,3⟩), (⟨5,5⟩, ⟨Team.Gnome,200,3⟩), (⟨2,2⟩, ⟨Team.Gnome,131,3⟩), (⟨1,1⟩, ⟨Team.Gnome,200,3⟩)]⟩, 1⟩, ⟨7, 4398046511103, 4363416223614, 2181708111807⟩, ⟨1034572176896, 1099578802432, 8589934592⟩⟩

def s3r34 : FastGame := ⟨⟨34, [⟨1,1⟩, ⟨2,2⟩, ⟨3,5⟩, ⟨4,5⟩, ⟨5,5⟩], ⟨⟨6,7⟩, [tW, tW, tW, tW, tW, tW, tW, tW, tG, tE, tE, tE, tE, tW, tW, tE, tG, tE, tE, tE, tW, tW, tE, tW, tE, tW, tG, tW, tW, tE, tE, tE, tW, tF, tW, tW, tE, tE, tE, tE, tG, tW, tW, tW, tW, tW, tW, tW, tW], [(⟨4,5⟩, ⟨Team.Elf,77,3⟩), (⟨3,5⟩, ⟨Team.Gnome,98,3⟩), (⟨5,5⟩, ⟨Team.Gnome,200,3⟩), (⟨2,2⟩, ⟨Team.Gnome,131,3⟩), (⟨1,1⟩, ⟨Team.Gnome,200,3⟩)]⟩, 1⟩, ⟨7, 4398046511103, 4363416223614, 2181708111807⟩, ⟨1034572176896, 1099578802432, 8589934592⟩⟩

def s3r35 : FastGame := ⟨⟨35, [⟨1,1⟩, ⟨2,2⟩, ⟨3,5⟩, ⟨4,5⟩, ⟨5,5⟩], ⟨⟨6,7⟩, [tW, tW, tW, tW, tW, tW, tW, tW, tG, tE, tE, tE, tE, tW, tW, tE, tG, tE, tE, tE, tW, tW, tE, tW, tE, tW, tG, tW, tW, tE, tE, tE, tW, tF, tW, tW, tE, tE, tE, tE, tG, tW, tW, tW, tW, tW, tW, tW, tW], [(⟨4,5⟩, ⟨Team.Elf,71,3⟩), (⟨3,5⟩, ⟨Team.Gnome,95,3⟩), (⟨5,5⟩, ⟨Team.Gnome,200,3⟩), (⟨2,2⟩, ⟨Team.Gnome,131,3⟩), (⟨1,1⟩, ⟨Team.Gnome,200,3⟩)]⟩, 1⟩, ⟨7, 4398046511103, 4363416223614, 2181708111807⟩, ⟨1034572176896, 1099578802432, 8589934592⟩⟩

def s3r36 : FastGame := ⟨⟨36, [⟨1,1⟩, ⟨2,2⟩, ⟨3,5⟩, ⟨4,5⟩, ⟨5,5⟩], ⟨⟨6,7⟩, [tW, tW, tW, tW, tW, tW, tW, tW, tG, tE, tE, tE, tE, tW, tW, tE, tG, tE, tE, tE, tW, tW, tE, tW, tE, tW, tG, tW, tW, tE, tE, tE, tW, tF, tW, tW, tE, tE, tE, tE, tG, tW, tW, tW, tW, tW, tW, tW, tW], [(⟨4,5⟩, ⟨Team.Elf,65,3⟩), (⟨3,5⟩, ⟨Team.Gnome,92,3⟩), (⟨5,5⟩, ⟨Team.Gnome,200,3⟩), (⟨2,2⟩, ⟨Team.Gnome,131,3⟩), (⟨1,1⟩, ⟨Team.Gnome,200,3⟩)]⟩, 1⟩, ⟨7, 4398046511103, 4363416223614, 2181708111807⟩, ⟨1034572176896, 1099578802432, 8589934592⟩⟩

def s3r37 : FastGame := ⟨⟨37, [⟨1,1⟩, ⟨2,2⟩, ⟨3,5⟩, ⟨4,5⟩, ⟨5,5⟩], ⟨⟨6,7⟩, [tW, tW, tW, tW, tW, tW, tW, tW, tG, tE, tE, tE, tE, tW, tW, tE, tG, tE, tE, tE, tW, tW, tE, tW, tE, tW, tG, tW, tW, tE, tE, tE, tW, tF, tW, tW, tE, tE, tE, tE, tG, tW, tW, tW, tW, tW, tW, tW, tW], [(⟨4,5⟩, ⟨Team.Elf,59,3⟩), (⟨3,5⟩, ⟨Team.Gnome,89,3⟩), (⟨5,5⟩, ⟨Team.Gnome,200,3⟩), (⟨2,2⟩, ⟨Team.Gnome,131,3⟩), (⟨1,1⟩, ⟨Team.Gnome,200,3⟩)]⟩, 1⟩, ⟨7, 4398046511103, 4363416223614, 2181708111807⟩, ⟨1034572176896, 1099578802432, 8589934592⟩⟩

def s3r38 : FastGame := ⟨⟨38, [⟨1,1⟩, ⟨2,2⟩, ⟨3,5⟩, ⟨4,5⟩, ⟨5,5⟩], ⟨⟨6,7⟩, [tW, tW, tW, tW, tW, tW, tW, tW, tG, tE, tE, tE, tE, tW, tW, tE, tG, tE, tE, tE, tW, tW, tE, tW, tE, tW, tG, tW, tW, tE, tE, tE, tW, tF, tW, tW, tE, tE, tE, tE, tG, tW, tW, tW, tW, tW, tW, tW, tW], [(⟨4,5⟩, ⟨Team.Elf,53,3⟩), (⟨3,5⟩, ⟨Team.Gnome,86,3⟩), (⟨5,5⟩, ⟨Team.Gnome,200,3⟩), (⟨2,2⟩, ⟨Team.Gnome,131,3⟩), (⟨1,1⟩, ⟨Team.Gnome,200,3⟩)]⟩, 1⟩, ⟨7, 4398046511103, 4363416223614, 2181708111807⟩, ⟨1034572176896, 1099578802432, 8589934592⟩⟩

def s3r39 : FastGame := ⟨⟨39, [⟨1,1⟩, ⟨2,2⟩, ⟨3,5⟩, ⟨4,5⟩, ⟨5,5⟩], ⟨⟨6,7⟩, [tW, tW, tW, tW, tW, tW, tW, tW, tG, tE, tE, tE, tE, tW, tW, tE, tG, tE, tE, tE, tW, tW, tE, tW, tE, tW, tG, tW, tW, tE, tE, tE, tW, tF, tW, tW, tE, tE, tE, tE, tG, tW, tW, tW, tW, tW, tW, tW, tW], [(⟨4,5⟩, ⟨Team.Elf,47,3⟩), (⟨3,5⟩, ⟨Team.Gnome,83,3⟩), (⟨5,5⟩, ⟨Team.Gnome,200,3⟩), (⟨2,2⟩, ⟨Team.Gnome,131,3⟩), (⟨1,1⟩, ⟨Team.Gnome,200,3⟩)]⟩, 1⟩, ⟨7, 4398046511103, 4363416223614, 2181708111807⟩, ⟨1034572176896, 1099578802432, 8589934592⟩⟩

def s3r40 : FastGame := ⟨⟨40, [⟨1,1⟩, ⟨2,2⟩, ⟨3,5⟩, ⟨4,5⟩, ⟨5,5⟩], ⟨⟨6,7⟩, [tW, tW, tW, tW, tW, tW, tW, tW, tG, tE, tE, tE, tE, tW, tW, tE, tG, tE, tE, tE, tW, tW, tE, tW, tE, tW, tG, tW, tW, tE, tE, tE, tW, tF, tW, tW, tE, tE, tE, tE, tG, tW, tW, tW, tW, tW, tW, tW, tW], [(⟨4,5⟩, ⟨Team.Elf,41,3⟩), (⟨3,5⟩, ⟨Team.Gnome,80,3⟩), (⟨5,5⟩, ⟨Team.Gnome,200,3⟩), (⟨2,2⟩, ⟨Team.Gnome,131,3⟩), (⟨1,1⟩, ⟨Team.Gnome,200,3⟩)]⟩, 1⟩, ⟨7, 4398046511103, 4363416223614, 2181708111807⟩, ⟨1034572176896, 1099578802432, 8589934592⟩⟩

def s3r41 : FastGame := ⟨⟨41, [⟨1,1⟩, ⟨2,2⟩, ⟨3,5⟩, ⟨4,5⟩, ⟨5,5⟩], ⟨⟨6,7⟩, [tW, tW, tW, tW, tW, tW, tW, tW, tG, tE, tE, tE, tE, tW, tW, tE, tG, tE, tE, tE, tW, tW, tE, tW, tE, tW, tG, tW, tW, tE, tE, tE, tW, tF, tW, tW, tE, tE, tE, tE, tG, tW, tW, tW, tW, tW, tW, tW, tW], [(⟨4,5⟩, ⟨Team.Elf,35,3⟩), (⟨3,5⟩, ⟨Team.Gnome,77,3⟩), (⟨5,5⟩, ⟨Team.Gnome,200,3⟩), (⟨2,2⟩, ⟨Team.Gnome,131,3⟩), (⟨1,1⟩, ⟨Team.Gnome,200,3⟩)]⟩, 1⟩, ⟨7, 4398046511103, 4363416223614, 2181708111807⟩, ⟨1034572176896, 1099578802432, 8589934592⟩⟩

def s3r42 : FastGame := ⟨⟨42, [⟨1,1⟩, ⟨2,2⟩, ⟨3,5⟩, ⟨4,5⟩, ⟨5,5⟩], ⟨⟨6,7⟩, [tW, tW, tW, tW, tW, tW, tW, tW, tG, tE, tE, tE, tE, tW, tW, tE, tG, tE, tE, tE, tW, tW, tE, tW, tE, tW, tG, tW, tW, tE, tE, tE, tW, tF, tW, tW, tE, tE, tE, tE, tG, tW, tW, tW, tW, tW, tW, tW, tW], [(⟨4,5⟩, ⟨Team.Elf,29,3⟩), (⟨3,5⟩, ⟨Team.Gnome,74,3⟩), (⟨5,5⟩, ⟨Team.Gnome,200,3⟩), (⟨2,2⟩, ⟨Team.Gnome,131,3⟩), (⟨1,1⟩, ⟨Team.Gnome,200,3⟩)]⟩, 1⟩, ⟨7, 4398046511103, 4363416223614, 2181708111807⟩, ⟨1034572176896, 1099578802432, 8589934592⟩⟩

def s3r43 : FastGame := ⟨⟨43, [⟨1,1⟩, ⟨2,2⟩, ⟨3,5⟩, ⟨4,5⟩, ⟨5,5⟩], ⟨⟨6,7⟩, [tW, tW, tW, tW, tW, tW, tW, tW, tG, tE, tE, tE, tE, tW, tW, tE, tG, tE, tE, tE, tW, tW, tE, tW, tE, tW, tG, tW, tW, tE, tE, tE, tW, tF, tW, tW, tE, tE, tE, tE, tG, tW, tW, tW, tW, tW, tW, tW, tW], [(⟨4,5⟩, ⟨Team.Elf,23,3⟩), (⟨3,5⟩, ⟨Team.Gnome,71,3⟩), (⟨5,5⟩, ⟨Team.Gnome,200,3⟩), (⟨2,2⟩, ⟨Team.Gnome,131,3⟩), (⟨1,1⟩, ⟨Team.Gnome,200,3⟩)]⟩, 1⟩, ⟨7, 4398046511103, 4363416223614, 2181708111807⟩, ⟨1034572176896, 1099578802432, 8589934592⟩⟩

def s3r44 : FastGame := ⟨⟨44, [⟨1,1⟩, ⟨2,2⟩, ⟨3,5⟩, ⟨4,5⟩, ⟨5,5⟩], ⟨⟨6,7⟩, [tW, tW, tW, tW, tW, tW, tW, tW, tG, tE, tE, tE, tE, tW, tW, tE, tG, tE, tE, tE, tW, tW, tE, tW, tE, tW, tG, tW, tW, tE, tE, tE, tW, tF, tW, tW, tE, tE, tE, tE, tG, tW, tW, tW, tW, tW, tW, tW, tW], [(⟨4,5⟩, ⟨Team.Elf,17,3⟩), (⟨3,5⟩, ⟨Team.Gnome,68,3⟩), (⟨5,5⟩, ⟨Team.Gnome,200,3⟩), (⟨2,2⟩, ⟨Team.Gnome,131,3⟩), (⟨1,1⟩, ⟨Team.Gnome,200,3⟩)]⟩, 1⟩, ⟨7, 4398046511103, 4363416223614, 2181708111807⟩, ⟨1034572176896, 1099578802432, 8589934592⟩⟩

def s3r45 : FastGame := ⟨⟨45, [⟨1,1⟩, ⟨2,2⟩, ⟨3,5⟩, ⟨4,5⟩, ⟨5,5⟩], ⟨⟨6,7⟩, [tW, tW, tW, tW, tW, tW, tW, tW, tG, tE, tE, tE, tE, tW, tW, tE, tG, tE, tE, tE, tW, tW, tE, tW, tE, tW, tG, tW, tW, tE, tE, tE, tW, tF, tW, tW, tE, tE, tE, tE, tG, tW, tW, tW, tW, tW, tW, tW, tW], [(⟨4,5⟩, ⟨Team.Elf,11,3⟩), (⟨3,5⟩, ⟨Team.Gnome,65,3⟩), (⟨5,5⟩, ⟨Team.Gnome,200,3⟩), (⟨2,2⟩, ⟨Team.Gnome,131,3⟩), (⟨1,1⟩, ⟨Team.Gnome,200,3⟩)]⟩, 1⟩, ⟨7, 4398046511103, 4363416223614, 2181708111807⟩, ⟨1034572176896, 1099578802432, 8589934592⟩⟩

def s3r46 : FastGame := ⟨⟨46, [⟨1,1⟩, ⟨2,2⟩, ⟨3,5⟩, ⟨4,5⟩, ⟨5,5⟩], ⟨⟨6,7⟩, [tW, tW, tW, tW, tW, tW, tW, tW, tG, tE, tE, tE, tE, tW, tW, tE, tG, tE, tE, tE, tW, tW, tE, tW, tE, tW, tG, tW, tW, tE, tE, tE, tW, tF, tW, tW, tE, tE, tE, tE, tG, tW, tW, tW, tW, tW, tW, tW, tW], [(⟨4,5⟩, ⟨Team.Elf,5,3⟩), (⟨3,5⟩, ⟨Team.Gnome,62,3⟩), (⟨5,5⟩, ⟨Team.Gnome,200,3⟩), (⟨2,2⟩, ⟨Team.Gnome,131,3⟩), (⟨1,1⟩, ⟨Team.Gnome,200,3⟩)]⟩, 1⟩, ⟨7, 4398046511103, 4363416223614, 2181708111807⟩, ⟨1034572176896, 1099578802432, 8589934592⟩⟩

def s3r47 : FastGame := ⟨⟨47, [⟨1,1⟩, ⟨2,2⟩, ⟨3,5⟩, ⟨5,5⟩], ⟨⟨6,7⟩, [tW, tW, tW, tW, tW, tW, tW, tW, tG, tE, tE, tE, tE, tW, tW, tE, tG, tE, tE, tE, tW, tW, tE, tW, tE, tW, tG, tW, tW, tE, tE, tE, tW, tE, tW, tW, tE, tE, tE, tE, tG, tW, tW, tW, tW, tW, tW, tW, tW], [(⟨3,5⟩, ⟨Team.Gnome,59,3⟩), (⟨5,5⟩, ⟨Team.Gnome,200,3⟩), (⟨2,2⟩, ⟨Team.Gnome,131,3⟩), (⟨1,1⟩, ⟨Team.Gnome,200,3⟩)]⟩, 2⟩, ⟨7, 4398046511103, 4363416223614, 2181708111807⟩, ⟨1043162111488, 1099578802432, 0⟩⟩

def s3r48 : FastGame := ⟨⟨47, [⟨2,2⟩, ⟨3,5⟩, ⟨5,5⟩], ⟨⟨6,7⟩, [tW, tW, tW, tW, tW, tW, tW, tW, tG, tE, tE, tE, tE, tW, tW, tE, tG, tE, tE, tE, tW, tW, tE, tW, tE, tW, tG, tW, tW, tE, tE, tE, tW, tE, tW, tW, tE, tE, tE, tE, tG, tW, tW, tW, tW, tW, tW, tW, tW], [(⟨3,5⟩, ⟨Team.Gnome,59,3⟩), (⟨5,5⟩, ⟨Team.Gnome,200,3⟩), (⟨2,2⟩, ⟨Team.Gnome,131,3⟩), (⟨1,1⟩, ⟨Team.Gnome,200,3⟩)]⟩, 2⟩, ⟨7, 4398046511103, 4363416223614, 2181708111807⟩, ⟨1043162111488, 1099578802432, 0⟩⟩

-- power 4: 49 states
def s4r0 : FastGame := ⟨⟨0, [⟨1,2⟩, ⟨2,4⟩, ⟨2,5⟩, ⟨3,5⟩, ⟨4,3⟩, ⟨4,5⟩], ⟨⟨6,7⟩, [tW, tW, tW, tW, tW, tW, tW, tW, tE, tG, tE, tE, tE, tW, tW, tE, tE, tE, tF, tG, tW, tW, tE, tW, tE, tW, tG, tW, tW, tE, tE, tG, tW, tF, tW, tW, tE, tE, tE, tE, tE, tW, tW, tW, tW, tW, tW, tW, tW], [(⟨4,5⟩, ⟨Team.Elf,200,4⟩), (⟨4,3⟩, ⟨Team.Gnome,200,3⟩), (⟨3,5⟩, ⟨Team.Gnome,200,3⟩), (⟨2,5⟩, ⟨Team.Gnome,200,3⟩), (⟨2,4⟩, ⟨Team.Elf,200,4⟩), (⟨1,2⟩, ⟨Team.Gnome,200,3⟩)]⟩, 0⟩, ⟨7, 4398046511103, 4363416223614, 2181708111807⟩, ⟨2131935599872, 2215117312, 8590196736⟩⟩

def s4r1 : FastGame := ⟨⟨1, [⟨1,3⟩, ⟨2,4⟩, ⟨2,5⟩, ⟨3,3⟩, ⟨3,5⟩, ⟨4,5⟩], ⟨⟨6,7⟩, [tW, tW, tW, tW, tW, tW, tW, tW, tE, tE, tG, tE, tE, tW, tW, tE, tE, tE, tF, tG, tW, tW, tE, tW, tG, tW, tG, tW, tW, tE, tE, tE, tW, tF, tW, tW, tE, tE, tE, tE, tE, tW, tW, tW, tW, tW, tW, tW, tW], [(⟨3,5⟩, ⟨Team.Gnome,196,3⟩), (⟨3,3⟩, ⟨Team.Gnome,200,3⟩), (⟨4,5⟩, ⟨Team.Elf,197,4⟩), (⟨2,4⟩, ⟨Team.Elf,197,4⟩), (⟨2,5⟩, ⟨Team.Gnome,196,3⟩), (⟨1,3⟩, ⟨Team.Gnome,200,3⟩)]⟩, 0⟩, ⟨7, 4398046511103, 4363416223614, 2181708111807⟩, ⟨2134066305792, 84411392, 8590196736⟩⟩

def s4r2 : FastGame := ⟨⟨2, [⟨1,4⟩, ⟨2,3⟩, ⟨2,4⟩, ⟨2,5⟩, ⟨3,5⟩, ⟨4,5⟩], ⟨⟨6,7⟩, [tW, tW, tW, tW, tW, tW, tW, tW, tE, tE, tE, tG, tE, tW, tW, tE, tE, tG, tF, tG, tW, tW, tE, tW, tE, tW, tG, tW, tW, tE, tE, tE, tW, tF, tW, tW, tE, tE, tE, tE, tE, tW, tW, tW, tW, tW, tW, tW, tW], [(⟨3,5⟩, ⟨Team.Gnome,192,3⟩), (⟨4,5⟩, ⟨Team.Elf,194,4⟩), (⟨2,4⟩, ⟨Team.Elf,188,4⟩), (⟨2,3⟩, ⟨Team.Gnome,200,3⟩), (⟨2,5⟩, ⟨Team.Gnome,192,3⟩), (⟨1,4⟩, ⟨Team.Gnome,200,3⟩)]⟩, 0⟩, ⟨7, 4398046511103, 4363416223614, 2181708111807⟩, ⟨2134082950912, 67766272, 8590196736⟩⟩

def s4r3 : FastGame := ⟨⟨3, [⟨1,4⟩, ⟨2,3⟩, ⟨2,4⟩, ⟨2,5⟩, ⟨3,5⟩, ⟨4,5⟩], ⟨⟨6,7⟩, [tW, tW, tW, tW, tW, tW, tW, tW, tE, tE, tE, tG, tE, tW, tW, tE, tE, tG, tF, tG, tW, tW, tE, tW, tE, tW, tG, tW, tW, tE, tE, tE, tW, tF, tW, tW, tE, tE, tE, tE, tE, tW, tW, tW, tW, tW, tW, tW, tW], [(⟨3,5⟩, ⟨Team.Gnome,188,3⟩), (⟨4,5⟩, ⟨Team.Elf,191,4⟩), (⟨2,4⟩, ⟨Team.Elf,179,4⟩), (⟨2,5⟩, ⟨Team.Gnome,188,3⟩), (⟨2,3⟩, ⟨Team.Gnome,200,3⟩), (⟨1,4⟩, ⟨Team.Gnome,200,3⟩)]⟩, 0⟩, ⟨7, 4398046511103, 4363416223614, 2181708111807⟩, ⟨2134082950912, 67766272, 8590196736⟩⟩

def s4r4 : FastGame := ⟨⟨4, [⟨1,4⟩, ⟨2,3⟩, ⟨2,4⟩, ⟨2,5⟩, ⟨3,5⟩, ⟨4,5⟩], ⟨⟨6,7⟩, [tW, tW, tW, tW, tW, tW, tW, tW, tE, tE, tE, tG, tE, tW, tW, tE, tE, tG, tF, tG, tW, tW, tE, tW, tE, tW, tG, tW, tW, tE, tE, tE, tW, tF, tW, tW, tE, tE, tE, tE, tE, tW, tW, tW, tW, tW, tW, tW, tW], [(⟨3,5⟩, ⟨Team.Gnome,184,3⟩), (⟨4,5⟩, ⟨Team.Elf,188,4⟩), (⟨2,4⟩, ⟨Team.Elf,170,4⟩), (⟨2,5⟩, ⟨Team.Gnome,184,3⟩), (⟨2,3⟩, ⟨Team.Gnome,200,3⟩), (⟨1,4⟩, ⟨Team.Gnome,200,3⟩)]⟩, 0⟩, ⟨7, 4398046511103, 4363416223614, 2181708111807⟩, ⟨2134082950912, 67766272, 8590196736⟩⟩

def s4r5 : FastGame := ⟨⟨5, [⟨1,4⟩, ⟨2,3⟩, ⟨2,4⟩, ⟨2,5⟩, ⟨3,5⟩, ⟨4,5⟩], ⟨⟨6,7⟩, [tW, tW, tW, tW, tW, tW, tW, tW, tE, tE, tE, tG, tE, tW, tW, tE, tE, tG, tF, tG, tW, tW, tE, tW, tE, tW, tG, tW, tW, tE, tE, tE, tW, tF, tW, tW, tE, tE, tE, tE, tE, tW, tW, tW, tW, tW, tW, tW, tW], [(⟨3,5⟩, ⟨Team.Gnome,180,3⟩), (⟨4,5⟩, ⟨Team.Elf,185,4⟩), (⟨2,4⟩, ⟨Team.Elf,161,4⟩), (⟨2,5⟩, ⟨Team.Gnome,180,3⟩), (⟨2,3⟩, ⟨Team.Gnome,200,3⟩), (⟨1,4⟩, ⟨Team.Gnome,200,3⟩)]⟩, 0⟩, ⟨7, 4398046511103, 4363416223614, 2181708111807⟩, ⟨2134082950912, 67766272, 8590196736⟩⟩

def s4r6 : FastGame := ⟨⟨6, [⟨1,4⟩, ⟨2,3⟩, ⟨2,4⟩, ⟨2,5⟩, ⟨3,5⟩, ⟨4,5⟩], ⟨⟨6,7⟩, [tW, tW, tW, tW, tW, tW, tW, tW, tE, tE, tE, tG, tE, tW, tW, tE, tE, tG, tF, tG, tW, tW, tE, tW, tE, tW, tG, tW, tW, tE, tE, tE, tW, tF, tW, tW, tE, tE, tE, tE, tE, tW, tW, tW, tW, tW, tW, tW, tW], [(⟨3,5⟩, ⟨Team.Gnome,176,3⟩), (⟨4,5⟩, ⟨Team.Elf,182,4⟩), (⟨2,4⟩, ⟨Team.Elf,152,4⟩), (⟨2,5⟩, ⟨Team.Gnome,176,3⟩), (⟨2,3⟩, ⟨Team.Gnome,200,3⟩), (⟨1,4⟩, ⟨Team.Gnome,200,3⟩)]⟩, 0⟩, ⟨7, 4398046511103, 4363416223614, 2181708111807⟩, ⟨2134082950912, 67766272, 8590196736⟩⟩

def s4r7 : FastGame := ⟨⟨7, [⟨1,4⟩, ⟨2,3⟩, ⟨2,4⟩, ⟨2,5⟩, ⟨3,5⟩, ⟨4,5⟩], ⟨⟨6,7⟩, [tW, tW, tW, tW, tW, tW, tW, tW, tE, tE, tE, tG, tE, tW, tW, tE, tE, tG, tF, tG, tW, tW, tE, tW, tE, tW, tG, tW, tW, tE, tE, tE, tW, tF, tW, tW, tE, tE, tE, tE, tE, tW, tW, tW, tW, tW, tW, tW, tW], [(⟨3,5⟩, ⟨Team.Gnome,172,3⟩), (⟨4,5⟩, ⟨Team.Elf,179,4⟩), (⟨2,4⟩, ⟨Team.Elf,143,4⟩), (⟨2,5⟩, ⟨Team.Gnome,172,3⟩), (⟨2,3⟩, ⟨Team.Gnome,200,3⟩), (⟨1,4⟩, ⟨Team.Gnome,200,3⟩)]⟩, 0⟩, ⟨7, 4398046511103, 4363416223614, 2181708111807⟩, ⟨2134082950912, 67766272, 8590196736⟩⟩

def s4r8 : FastGame := ⟨⟨8, [⟨1,4⟩, ⟨2,3⟩, ⟨2,4⟩, ⟨2,5⟩, ⟨3,5⟩, ⟨4,5⟩], ⟨⟨6,7⟩, [tW, tW, tW, tW, tW, tW, tW, tW, tE, tE, tE, tG, tE, tW, tW, tE, tE, tG, tF, tG, tW, tW, tE, tW, tE, tW, tG, tW, tW, tE, tE, tE, tW, tF, tW, tW, tE, tE, tE, tE, tE, tW, tW, tW, tW, tW, tW, tW, tW], [(⟨3,5⟩, ⟨Team.Gnome,168,3⟩), (⟨4,5⟩, ⟨Team.Elf,176,4⟩), (⟨2,4⟩, ⟨Team.Elf,134,4⟩), (⟨2,5⟩, ⟨Team.Gnome,168,3⟩), (⟨2,3⟩, ⟨Team.Gnome,200,3⟩), (⟨1,4⟩, ⟨Team.Gnome,200,3⟩)]⟩, 0⟩, ⟨7, 4398046511103, 4363416223614, 2181708111807⟩, ⟨2134082950912, 67766272, 8590196736⟩⟩

def s4r9 : FastGame := ⟨⟨9, [⟨1,4⟩, ⟨2,3⟩, ⟨2,4⟩, ⟨2,5⟩, ⟨3,5⟩, ⟨4,5⟩], ⟨⟨6,7⟩, [tW, tW, tW, tW, tW, tW, tW, tW, tE, tE, tE, tG, tE, tW, tW, tE, tE, tG, tF, tG, tW, tW, tE, tW, tE, tW, tG, tW, tW, tE, tE, tE, tW, tF, tW, tW, tE, tE, tE, tE, tE, tW, tW, tW, tW, tW, tW, tW, tW], [(⟨3,5⟩, ⟨Team.Gnome,164,3⟩), (⟨4,5⟩, ⟨Team.Elf,173,4⟩), (⟨2,4⟩, ⟨Team.Elf,125,4⟩), (⟨2,5⟩, ⟨Team.Gnome,164,3⟩), (⟨2,3⟩, ⟨Team.Gnome,200,3⟩), (⟨1,4⟩, ⟨Team.Gnome,200,3⟩)]⟩, 0⟩, ⟨7, 4398046511103, 4363416223614, 2181708111807⟩, ⟨2134082950912, 67766272, 8590196736⟩⟩

def s4r10 : FastGame := ⟨⟨10, [⟨1,4⟩, ⟨2,3⟩, ⟨2,4⟩, ⟨2,5⟩, ⟨3,5⟩, ⟨4,5⟩], ⟨⟨6,7⟩, [tW, tW, tW, tW, tW, tW, tW, tW, tE, tE, tE, tG, tE, tW, tW, tE, tE, tG, tF, tG, tW, tW, tE, tW, tE, tW, tG, tW, tW, tE, tE, tE, tW, tF, tW, tW, tE, tE, tE, tE, tE, tW, tW, tW, tW, tW, tW, tW, tW], [(⟨3,5⟩, ⟨Team.Gnome,160,3⟩), (⟨4,5⟩, ⟨Team.Elf,170,4⟩), (⟨2,4⟩, ⟨Team.Elf,116,4⟩), (⟨2,5⟩, ⟨Team.Gnome,160,3⟩), (⟨2,3⟩, ⟨Team.Gnome,200,3⟩), (⟨1,4⟩, ⟨Team.Gnome,200,3⟩)]⟩, 0⟩, ⟨7, 4398046511103, 4363416223614, 2181708111807⟩, ⟨2134082950912, 67766272, 8590196736⟩⟩

def s4r11 : FastGame := ⟨⟨11, [⟨1,4⟩, ⟨2,3⟩, ⟨2,4⟩, ⟨2,5⟩, ⟨3,5⟩, ⟨4,5⟩], ⟨⟨6,7⟩, [tW, tW, tW, tW, tW, tW, tW, tW, tE, tE, tE, tG, tE, tW, tW, tE, tE, tG, tF, tG, tW, tW, tE, tW, tE, tW, tG, tW, tW, tE, tE, tE, tW, tF, tW, tW, tE, tE, tE, tE, tE, tW, tW, tW, tW, tW, tW, tW, tW], [(⟨3,5⟩, ⟨Team.Gnome,156,3⟩), (⟨4,5⟩, ⟨Team.Elf,167,4⟩), (⟨2,4⟩, ⟨Team.Elf,107,4⟩), (⟨2,5⟩, ⟨Team.Gnome,156,3⟩), (⟨2,3⟩, ⟨Team.Gnome,200,3⟩), (⟨1,4⟩, ⟨Team.Gnome,200,3⟩)]⟩, 0⟩, ⟨7, 4398046511103, 4363416223614, 2181708111807⟩, ⟨2134082950912, 67766272, 8590196736⟩⟩

def s4r12 : FastGame := ⟨⟨12, [⟨1,4⟩, ⟨2,3⟩, ⟨2,4⟩, ⟨2,5⟩, ⟨3,5⟩, ⟨4,5⟩], ⟨⟨6,7⟩, [tW, tW, tW, tW, tW, tW, tW, tW, tE, tE, tE, tG, tE, tW, tW, tE, tE, tG, tF, tG, tW, tW, tE, tW, tE, tW, tG, tW, tW, tE, tE, tE, tW, tF, tW, tW, tE, tE, tE, tE, tE, tW, tW, tW, tW, tW, tW, tW, tW], [(⟨3,5⟩, ⟨Team.Gnome,152,3⟩), (⟨4,5⟩, ⟨Team.Elf,164,4⟩), (⟨2,4⟩, ⟨Team.Elf,98,4⟩), (⟨2,5⟩, ⟨Team.Gnome,152,3⟩), (⟨2,3⟩, ⟨Team.Gnome,200,3⟩), (⟨1,4⟩, ⟨Team.Gnome,200,3⟩)]⟩, 0⟩, ⟨7, 4398046511103, 4363416223614, 2181708111807⟩, ⟨2134082950912, 67766272, 8590196736⟩⟩

def s4r13 : FastGame := ⟨⟨13, [⟨1,4⟩, ⟨2,3⟩, ⟨2,4⟩, ⟨2,5⟩, ⟨3,5⟩, ⟨4,5⟩], ⟨⟨6,7⟩, [tW, tW, tW, tW, tW, tW, tW, tW, tE, tE, tE, tG, tE, tW, tW, tE, tE, tG, tF, tG, tW, tW, tE, tW, tE, tW, tG, tW, tW, tE, tE, tE, tW, tF, tW, tW, tE, tE, tE, tE, tE, tW, tW, tW, tW, tW, tW, tW, tW], [(⟨3,5⟩, ⟨Team.Gnome,148,3⟩), (⟨4,5⟩, ⟨Team.Elf,161,4⟩), (⟨2,4⟩, ⟨Team.Elf,89,4⟩), (⟨2,5⟩, ⟨Team.Gnome,148,3⟩), (⟨2,3⟩, ⟨Team.Gnome,200,3⟩), (⟨1,4⟩, ⟨Team.Gnome,200,3⟩)]⟩, 0⟩, ⟨7, 4398046511103, 4363416223614, 2181708111807⟩, ⟨2134082950912, 67766272, 8590196736⟩⟩

def s4r14 : FastGame := ⟨⟨14, [⟨1,4⟩, ⟨2,3⟩, ⟨2,4⟩, ⟨2,5⟩, ⟨3,5⟩, ⟨4,5⟩], ⟨⟨6,7⟩, [tW, tW, tW, tW, tW, tW, tW, tW, tE, tE, tE, tG, tE, tW, tW, tE, tE, tG, tF, tG, tW, tW, tE, tW, tE, tW, tG, tW, tW, tE, tE, tE, tW, tF, tW, tW, tE, tE, tE, tE, tE, tW, tW, tW, tW, tW, tW, tW, tW], [(⟨3,5⟩, ⟨Team.Gnome,144,3⟩), (⟨4,5⟩, ⟨Team.Elf,158,4⟩), (⟨2,4⟩, ⟨Team.Elf,80,4⟩), (⟨2,5⟩, ⟨Team.Gnome,144,3⟩), (⟨2,3⟩, ⟨Team.Gnome,200,3⟩), (⟨1,4⟩, ⟨Team.Gnome,200,3⟩)]⟩, 0⟩, ⟨7, 4398046511103, 4363416223614, 2181708111807⟩, ⟨2134082950912, 67766272, 8590196736⟩⟩

def s4r15 : FastGame := ⟨⟨15, [⟨1,4⟩, ⟨2,3⟩, ⟨2,4⟩, ⟨2,5⟩, ⟨3,5⟩, ⟨4,5⟩], ⟨⟨6,7⟩, [tW, tW, tW, tW, tW, tW, tW, tW, tE, tE, tE, tG, tE, tW, tW, tE, tE, tG, tF, tG, tW, tW, tE, tW, tE, tW, tG, tW, tW, tE, tE, tE, tW, tF, tW, tW, tE, tE, tE, tE, tE, tW, tW, tW, tW, tW, tW, tW, tW], [(⟨3,5⟩, ⟨Team.Gnome,140,3⟩), (⟨4,5⟩, ⟨Team.Elf,155,4⟩), (⟨2,4⟩, ⟨Team.Elf,71,4⟩), (⟨2,5⟩, ⟨Team.Gnome,140,3⟩), (⟨2,3⟩, ⟨Team.Gnome,200,3⟩), (⟨1,4⟩, ⟨Team.Gnome,200,3⟩)]⟩, 0⟩, ⟨7, 4398046511103, 4363416223614, 2181708111807⟩, ⟨2134082950912, 67766272, 8590196736⟩⟩

def s4r16 : FastGame := ⟨⟨16, [⟨1,4⟩, ⟨2,3⟩, ⟨2,4⟩, ⟨2,5⟩, ⟨3,5⟩, ⟨4,5⟩], ⟨⟨6,7⟩, [tW, tW, tW, tW, tW, tW, tW, tW, tE, tE, tE, tG, tE, tW, tW, tE, tE, tG, tF, tG, tW, tW, tE, tW, tE, tW, tG, tW, tW, tE, tE, tE, tW, tF, tW, tW, tE, tE, tE, tE, tE, tW, tW, tW, tW, tW, tW, tW, tW], [(⟨3,5⟩, ⟨Team.Gnome,136,3⟩), (⟨4,5⟩, ⟨Team.Elf,152,4⟩), (⟨2,4⟩, ⟨Team.Elf,62,4⟩), (⟨2,5⟩, ⟨Team.Gnome,136,3⟩), (⟨2,3⟩, ⟨Team.Gnome,200,3⟩), (⟨1,4⟩, ⟨Team.Gnome,200,3⟩)]⟩, 0⟩, ⟨7, 4398046511103, 4363416223614, 2181708111807⟩, ⟨2134082950912, 67766272, 8590196736⟩⟩

def s4r17 : FastGame := ⟨⟨17, [⟨1,4⟩, ⟨2,3⟩, ⟨2,4⟩, ⟨2,5⟩, ⟨3,5⟩, ⟨4,5⟩], ⟨⟨6,7⟩, [tW, tW, tW, tW, tW, tW, tW, tW, tE, tE, tE, tG, tE, tW, tW, tE, tE, tG, tF, tG, tW, tW, tE, tW, tE, tW, tG, tW, tW, tE, tE, tE, tW, tF, tW, tW, tE, tE, tE, tE, tE, tW, tW, tW, tW, tW, tW, tW, tW], [(⟨3,5⟩, ⟨Team.Gnome,132,3⟩), (⟨4,5⟩, ⟨Team.Elf,149,4⟩), (⟨2,4⟩, ⟨Team.Elf,53,4⟩), (⟨2,5⟩, ⟨Team.Gnome,132,3⟩), (⟨2,3⟩, ⟨Team.Gnome,200,3⟩), (⟨1,4⟩, ⟨Team.Gnome,200,3⟩)]⟩, 0⟩, ⟨7, 4398046511103, 4363416223614, 2181708111807⟩, ⟨2134082950912, 67766272, 8590196736⟩⟩

def s4r18 : FastGame := ⟨⟨18, [⟨1,4⟩, ⟨2,3⟩, ⟨2,4⟩, ⟨2,5⟩, ⟨3,5⟩, ⟨4,5⟩], ⟨⟨6,7⟩, [tW, tW, tW, tW, tW, tW, tW, tW, tE, tE, tE, tG, tE, tW, tW, tE, tE, tG, tF, tG, tW, tW, tE, tW, tE, tW, tG, tW, tW, tE, tE, tE, tW, tF, tW, tW, tE, tE, tE, tE, tE, tW, tW, tW, tW, tW, tW, tW, tW], [(⟨3,5⟩, ⟨Team.Gnome,128,3⟩), (⟨4,5⟩, ⟨Team.Elf,146,4⟩), (⟨2,4⟩, ⟨Team.Elf,44,4⟩), (⟨2,5⟩, ⟨Team.Gnome,128,3⟩), (⟨2,3⟩, ⟨Team.Gnome,200,3⟩), (⟨1,4⟩, ⟨Team.Gnome,200,3⟩)]⟩, 0⟩, ⟨7, 4398046511103, 4363416223614, 2181708111807⟩, ⟨2134082950912, 67766272, 8590196736⟩⟩

def s4r19 : FastGame := ⟨⟨19, [⟨1,4⟩, ⟨2,3⟩, ⟨2,4⟩, ⟨2,5⟩, ⟨3,5⟩, ⟨4,5⟩], ⟨⟨6,7⟩, [tW, tW, tW, tW, tW, tW, tW, tW, tE, tE, tE, tG, tE, tW, tW, tE, tE, tG, tF, tG, tW, tW, tE, tW, tE, tW, tG, tW, tW, tE, tE, tE, tW, tF, tW, tW, tE, tE, tE, tE, tE, tW, tW, tW, tW, tW, tW, tW, tW], [(⟨3,5⟩, ⟨Team.Gnome,124,3⟩), (⟨4,5⟩, ⟨Team.Elf,143,4⟩), (⟨2,4⟩, ⟨Team.Elf,35,4⟩), (⟨2,5⟩, ⟨Team.Gnome,124,3⟩), (⟨2,3⟩, ⟨Team.Gnome,200,3⟩), (⟨1,4⟩, ⟨Team.Gnome,200,3⟩)]⟩, 0⟩, ⟨7, 4398046511103, 4363416223614, 2181708111807⟩, ⟨2134082950912, 67766272, 8590196736⟩⟩

def s4r20 : FastGame := ⟨⟨20, [⟨1,4⟩, ⟨2,3⟩, ⟨2,4⟩, ⟨2,5⟩, ⟨3,5⟩, ⟨4,5⟩], ⟨⟨6,7⟩, [tW, tW, tW, tW, tW, tW, tW, tW, tE, tE, tE, tG, tE, tW, tW, tE, tE, tG, tF, tG, tW, tW, tE, tW, tE, tW, tG, tW, tW, tE, tE, tE, tW, tF, tW, tW, tE, tE, tE, tE, tE, tW, tW, tW, tW, tW, tW, tW, tW], [(⟨3,5⟩, ⟨Team.Gnome,120,3⟩), (⟨4,5⟩, ⟨Team.Elf,140,4⟩), (⟨2,4⟩, ⟨Team.Elf,26,4⟩), (⟨2,5⟩, ⟨Team.Gnome,120,3⟩), (⟨2,3⟩, ⟨Team.Gnome,200,3⟩), (⟨1,4⟩, ⟨Team.Gnome,200,3⟩)]⟩, 0⟩, ⟨7, 4398046511103, 4363416223614, 2181708111807⟩, ⟨2134082950912, 67766272, 8590196736⟩⟩

def s4r21 : FastGame := ⟨⟨21, [⟨1,4⟩, ⟨2,3⟩, ⟨2,4⟩, ⟨2,5⟩, ⟨3,5⟩, ⟨4,5⟩], ⟨⟨6,7⟩, [tW, tW, tW, tW, tW, tW, tW, tW, tE, tE, tE, tG, tE, tW, tW, tE, tE, tG, tF, tG, tW, tW, tE, tW, tE, tW, tG, tW, tW, tE, tE, tE, tW, tF, tW, tW, tE, tE, tE, tE, tE, tW, tW, tW, tW, tW, tW, tW, tW], [(⟨3,5⟩, ⟨Team.Gnome,116,3⟩), (⟨4,5⟩, ⟨Team.Elf,137,4⟩), (⟨2,4⟩, ⟨Team.Elf,17,4⟩), (⟨2,5⟩, ⟨Team.Gnome,116,3⟩), (⟨2,3⟩, ⟨Team.Gnome,200,3⟩), (⟨1,4⟩, ⟨Team.Gnome,200,3⟩)]⟩, 0⟩, ⟨7, 4398046511103, 4363416223614, 2181708111807⟩, ⟨2134082950912, 67766272, 8590196736⟩⟩

def s4r22 : FastGame := ⟨⟨22, [⟨1,4⟩, ⟨2,3⟩, ⟨2,4⟩, ⟨2,5⟩, ⟨3,5⟩, ⟨4,5⟩], ⟨⟨6,7⟩, [tW, tW, tW, tW, tW, tW, tW, tW, tE, tE, tE, tG, tE, tW, tW, tE, tE, tG, tF, tG, tW, tW, tE, tW, tE, tW, tG, tW, tW, tE, tE, tE, tW, tF, tW, tW, tE, tE, tE, tE, tE, tW, tW, tW, tW, tW, tW, tW, tW], [(⟨3,5⟩, ⟨Team.Gnome,112,3⟩), (⟨4,5⟩, ⟨Team.Elf,134,4⟩), (⟨2,4⟩, ⟨Team.Elf,8,4⟩), (⟨2,5⟩, ⟨Team.Gnome,112,3⟩), (⟨2,3⟩, ⟨Team.Gnome,200,3⟩), (⟨1,4⟩, ⟨Team.Gnome,200,3⟩)]⟩, 0⟩, ⟨7, 4398046511103, 4363416223614, 2181708111807⟩, ⟨2134082950912, 67766272, 8590196736⟩⟩

def s4r23 : FastGame := ⟨⟨23, [⟨1,4⟩, ⟨2,3⟩, ⟨2,5⟩, ⟨3,5⟩, ⟨4,5⟩], ⟨⟨6,7⟩, [tW, tW, tW, tW, tW, tW, tW, tW, tE, tE, tE, tG, tE, tW, tW, tE, tE, tG, tE, tG, tW, tW, tE, tW, tE, tW, tG, tW, tW, tE, tE, tE, tW, tF, tW, tW, tE, tE, tE, tE, tE, tW, tW, tW, tW, tW, tW, tW, tW], [(⟨3,5⟩, ⟨Team.Gnome,108,3⟩), (⟨4,5⟩, ⟨Team.Elf,131,4⟩), (⟨2,5⟩, ⟨Team.Gnome,108,3⟩), (⟨2,3⟩, ⟨Team.Gnome,200,3⟩), (⟨1,4⟩, ⟨Team.Gnome,200,3⟩)]⟩, 1⟩, ⟨7, 4398046511103, 4363416223614, 2181708111807⟩, ⟨2134083213056, 67766272, 8589934592⟩⟩

def s4r24 : FastGame := ⟨⟨24, [⟨1,3⟩, ⟨2,4⟩, ⟨3,3⟩, ⟨3,5⟩, ⟨4,5⟩], ⟨⟨6,7⟩, [tW, tW, tW, tW, tW, tW, tW, tW, tE, tE, tG, tE, tE, tW, tW, tE, tE, tE, tG, tE, tW, tW, tE, tW, tG, tW, tG, tW, tW, tE, tE, tE, tW, tF, tW, tW, tE, tE, tE, tE, tE, tW, tW, tW, tW, tW, tW, tW, tW], [(⟨3,5⟩, ⟨Team.Gnome,104,3⟩), (⟨4,5⟩, ⟨Team.Elf,128,4⟩), (⟨2,4⟩, ⟨Team.Gnome,108,3⟩), (⟨3,3⟩, ⟨Team.Gnome,200,3⟩), (⟨1,3⟩, ⟨Team.Gnome,200,3⟩)]⟩, 1⟩, ⟨7, 4398046511103, 4363416223614, 2181708111807⟩, ⟨2134066830080, 84149248, 8589934592⟩⟩

def s4r25 : FastGame := ⟨⟨25, [⟨1,2⟩, ⟨2,3⟩, ⟨3,5⟩, ⟨4,3⟩, ⟨4,5⟩], ⟨⟨6,7⟩, [tW, tW, tW, tW, tW, tW, tW, tW, tE, tG, tE, tE, tE, tW, tW, tE, tE, tG, tE, tE, tW, tW, tE, tW, tE, tW, tG, tW, tW, tE, tE, tG, tW, tF, tW, tW, tE, tE, tE, tE, tE, tW, tW, tW, tW, tW, tW, tW, tW], [(⟨3,5⟩, ⟨Team.Gnome,100,3⟩), (⟨4,5⟩, ⟨Team.Elf,125,4⟩), (⟨4,3⟩, ⟨Team.Gnome,200,3⟩), (⟨2,3⟩, ⟨Team.Gnome,108,3⟩), (⟨1,2⟩, ⟨Team.Gnome,200,3⟩)]⟩, 1⟩, ⟨7, 4398046511103, 4363416223614, 2181708111807⟩, ⟨2131936255232, 2214724096, 8589934592⟩⟩

def s4r26 : FastGame := ⟨⟨26, [⟨1,1⟩, ⟨2,2⟩, ⟨3,5⟩, ⟨4,5⟩, ⟨5,3⟩], ⟨⟨6,7⟩, [tW, tW, tW, tW, tW, tW, tW, tW, tG, tE, tE, tE, tE, tW, tW, tE, tG, tE, tE, tE, tW, tW, tE, tW, tE, tW, tG, tW, tW, tE, tE, tE, tW, tF, tW, tW, tE, tE, tG, tE, tE, tW, tW, tW, tW, tW, tW, tW, tW], [(⟨3,5⟩, ⟨Team.Gnome,96,3⟩), (⟨5,3⟩, ⟨Team.Gnome,200,3⟩), (⟨4,5⟩, ⟨Team.Elf,122,4⟩), (⟨2,2⟩, ⟨Team.Gnome,108,3⟩), (⟨1,1⟩, ⟨Team.Gnome,200,3⟩)]⟩, 1⟩, ⟨7, 4398046511103, 4363416223614, 2181708111807⟩, ⟨1859205897728, 274945081600, 8589934592⟩⟩

def s4r27 : FastGame := ⟨⟨27, [⟨1,1⟩, ⟨2,2⟩, ⟨3,5⟩, ⟨4,5⟩, ⟨5,4⟩], ⟨⟨6,7⟩, [tW, tW, tW, tW, tW, tW, tW, tW, tG, tE, tE, tE, tE, tW, tW, tE, tG, tE, tE, tE, tW, tW, tE, tW, tE, tW, tG, tW, tW, tE, tE, tE, tW, tF, tW, tW, tE, tE, tE, tG, tE, tW, tW, tW, tW, tW, tW, tW, tW], [(⟨5,4⟩, ⟨Team.Gnome,200,3⟩), (⟨3,5⟩, ⟨Team.Gnome,92,3⟩), (⟨4,5⟩, ⟨Team.Elf,119,4⟩), (⟨2,2⟩, ⟨Team.Gnome,108,3⟩), (⟨1,1⟩, ⟨Team.Gnome,200,3⟩)]⟩, 1⟩, ⟨7, 4398046511103, 4363416223614, 2181708111807⟩, ⟨1584327990784, 549822988544, 8589934592⟩⟩

def s4r28 : FastGame := ⟨⟨28, [⟨1,1⟩, ⟨2,2⟩, ⟨3,5⟩, ⟨4,5⟩, ⟨5,5⟩], ⟨⟨6,7⟩, [tW, tW, tW, tW, tW, tW, tW, tW, tG, tE, tE, tE, tE, tW, tW, tE, tG, tE, tE, tE, tW, tW, tE, tW, tE, tW, tG, tW, tW, tE, tE, tE, tW, tF, tW, tW, tE, tE, tE, tE, tG, tW, tW, tW, tW, tW, tW, tW, tW], [(⟨4,5⟩, ⟨Team.Elf,113,4⟩), (⟨5,5⟩, ⟨Team.Gnome,200,3⟩), (⟨3,5⟩, ⟨Team.Gnome,88,3⟩), (⟨2,2⟩, ⟨Team.Gnome,108,3⟩), (⟨1,1⟩, ⟨Team.Gnome,200,3⟩)]⟩, 1⟩, ⟨7, 4398046511103, 4363416223614, 2181708111807⟩, ⟨1034572176896, 1099578802432, 8589934592⟩⟩

def s4r29 : FastGame := ⟨⟨29, [⟨1,1⟩, ⟨2,2⟩, ⟨3,5⟩, ⟨4,5⟩, ⟨5,5⟩], ⟨⟨6,7⟩, [tW, tW, tW, tW, tW, tW, tW, tW, tG, tE, tE, tE, tE, tW, tW, tE, tG, tE, tE, tE, tW, tW, tE, tW, tE, tW, tG, tW, tW, tE, tE, tE, tW, tF, tW, tW, tE, tE, tE, tE, tG, tW, tW, tW, tW, tW, tW, tW, tW], [(⟨4,5⟩, ⟨Team.Elf,107,4⟩), (⟨3,5⟩, ⟨Team.Gnome,84,3⟩), (⟨5,5⟩, ⟨Team.Gnome,200,3⟩), (⟨2,2⟩, ⟨Team.Gnome,108,3⟩), (⟨1,1⟩, ⟨Team.Gnome,200,3⟩)]⟩, 1⟩, ⟨7, 4398046511103, 4363416223614, 2181708111807⟩, ⟨1034572176896, 1099578802432, 8589934592⟩⟩

def s4r30 : FastGame := ⟨⟨30, [⟨1,1⟩, ⟨2,2⟩, ⟨3,5⟩, ⟨4,5⟩, ⟨5,5⟩], ⟨⟨6,7⟩, [tW, tW, tW, tW, tW, tW, tW, tW, tG, tE, tE, tE, tE, tW, tW, tE, tG, tE, tE, tE, tW, tW, tE, tW, tE, tW, tG, tW, tW, tE, tE, tE, tW, tF, tW, tW, tE, tE, tE, tE, tG, tW, tW, tW, tW, tW, tW, tW, tW], [(⟨4,5⟩, ⟨Team.Elf,101,4⟩), (⟨3,5⟩, ⟨Team.Gnome,80,3⟩), (⟨5,5⟩, ⟨Team.Gnome,200,3⟩), (⟨2,2⟩, ⟨Team.Gnome,108,3⟩), (⟨1,1⟩, ⟨Team.Gnome,200,3⟩)]⟩, 1⟩, ⟨7, 4398046511103, 4363416223614, 2181708111807⟩, ⟨1034572176896, 1099578802432, 8589934592⟩⟩

def s4r31 : FastGame := ⟨⟨31, [⟨1,1⟩, ⟨2,2⟩, ⟨3,5⟩, ⟨4,5⟩, ⟨5,5⟩], ⟨⟨6,7⟩, [tW, tW, tW, tW, tW, tW, tW, tW, tG, tE, tE, tE, tE, tW, tW, tE, tG, tE, tE, tE, tW, tW, tE, tW, tE, tW, tG, tW, tW, tE, tE, tE, tW, tF, tW, tW, tE, tE, tE, tE, tG, tW, tW, tW, tW, tW, tW, tW, tW], [(⟨4,5⟩, ⟨Team.Elf,95,4⟩), (⟨3,5⟩, ⟨Team.Gnome,76,3⟩), (⟨5,5⟩, ⟨Team.Gnome,200,3⟩), (⟨2,2⟩, ⟨Team.Gnome,108,3⟩), (⟨1,1⟩, ⟨Team.Gnome,200,3⟩)]⟩, 1⟩, ⟨7, 4398046511103, 4363416223614, 2181708111807⟩, ⟨1034572176896, 1099578802432, 8589934592⟩⟩

def s4r32 : FastGame := ⟨⟨32, [⟨1,1⟩, ⟨2,2⟩, ⟨3,5⟩, ⟨4,5⟩, ⟨5,5⟩], ⟨⟨6,7⟩, [tW, tW, tW, tW, tW, tW, tW, tW, tG, tE, tE, tE, tE, tW, tW, tE, tG, tE, tE, tE, tW, tW, tE, tW, tE, tW, tG, tW, tW, tE, tE, tE, tW, tF, tW, tW, tE, tE, tE, tE, tG, tW, tW, tW, tW, tW, tW, tW, tW], [(⟨4,5⟩, ⟨Team.Elf,89,4⟩), (⟨3,5⟩, ⟨Team.Gnome,72,3⟩), (⟨5,5⟩, ⟨Team.Gnome,200,3⟩), (⟨2,2⟩, ⟨Team.Gnome,108,3⟩), (⟨1,1⟩, ⟨Team.Gnome,200,3⟩)]⟩, 1⟩, ⟨7, 4398046511103, 4363416223614, 2181708111807⟩, ⟨1034572176896, 1099578802432, 8589934592⟩⟩

def s4r33 : FastGame := ⟨⟨33, [⟨1,1⟩, ⟨2,2⟩, ⟨3,5⟩, ⟨4,5⟩, ⟨5,5⟩], ⟨⟨6,7⟩, [tW, tW, tW, tW, tW, tW, tW, tW, tG, tE, tE, tE, tE, tW, tW, tE, tG, tE, tE, tE, tW, tW, tE, tW, tE, tW, tG, tW, tW, tE, tE, tE, tW, tF, tW, tW, tE, tE, tE, tE, tG, tW, tW, tW, tW, tW, tW, tW, tW], [(⟨4,5⟩, ⟨Team.Elf,83,4⟩), (⟨3,5⟩, ⟨Team.Gnome,68,3⟩), (⟨5,5⟩, ⟨Team.Gnome,200,3⟩), (⟨2,2⟩, ⟨Team.Gnome,108,3⟩), (⟨1,1⟩, ⟨Team.Gnome,200,3⟩)]⟩, 1⟩, ⟨7, 4398046511103, 4363416223614, 2181708111807⟩, ⟨1034572176896, 1099578802432, 8589934592⟩⟩

def s4r34 : FastGame := ⟨⟨34, [⟨1,1⟩, ⟨2,2⟩, ⟨3,5⟩, ⟨4,5⟩, ⟨5,5⟩], ⟨⟨6,7⟩, [tW, tW, tW, tW, tW, tW, tW, tW, tG, tE, tE, tE, tE, tW, tW, tE, tG, tE, tE, tE, tW, tW, tE, tW, tE, tW, tG, tW, tW, tE, tE, tE, tW, tF, tW, tW, tE, tE, tE, tE, tG, tW, tW, tW, tW, tW, tW, tW, tW], [(⟨4,5⟩, ⟨Team.Elf,77,4⟩), (⟨3,5⟩, ⟨Team.Gnome,64,3⟩), (⟨5,5⟩, ⟨Team.Gnome,200,3⟩), (⟨2,2⟩, ⟨Team.Gnome,108,3⟩), (⟨1,1⟩, ⟨Team.Gnome,200,3⟩)]⟩, 1⟩, ⟨7, 4398046511103, 4363416223614, 2181708111807⟩, ⟨1034572176896, 1099578802432, 8589934592⟩⟩

def s4r35 : FastGame := ⟨⟨35, [⟨1,1⟩, ⟨2,2⟩, ⟨3,5⟩, ⟨4,5⟩, ⟨5,5⟩], ⟨⟨6,7⟩, [tW, tW, tW, tW, tW, tW, tW, tW, tG, tE, tE, tE, tE, tW, tW, tE, tG, tE, tE, tE, tW, tW, tE, tW, tE, tW, tG, tW, tW, tE, tE, tE, tW, tF, tW, tW, tE, tE, tE, tE, tG, tW, tW, tW, tW, tW, tW, tW, tW], [(⟨4,5⟩, ⟨Team.Elf,71,4⟩), (⟨3,5⟩, ⟨Team.Gnome,60,3⟩), (⟨5,5⟩, ⟨Team.Gnome,200,3⟩), (⟨2,2⟩, ⟨Team.Gnome,108,3⟩), (⟨1,1⟩, ⟨Team.Gnome,200,3⟩)]⟩, 1⟩, ⟨7, 4398046511103, 4363416223614, 2181708111807⟩, ⟨1034572176896, 1099578802432, 8589934592⟩⟩

def s4r36 : FastGame := ⟨⟨36, [⟨1,1⟩, ⟨2,2⟩, ⟨3,5⟩, ⟨4,5⟩, ⟨5,5⟩], ⟨⟨6,7⟩, [tW, tW, tW, tW, tW, tW, tW, tW, tG, tE, tE, tE, tE, tW, tW, tE, tG, tE, tE, tE, tW, tW, tE, tW, tE, tW, tG, tW, tW, tE, tE, tE, tW, tF, tW, tW, tE, tE, tE, tE, tG, tW, tW, tW, tW, tW, tW, tW, tW], [(⟨4,5⟩, ⟨Team.Elf,65,4⟩), (⟨3,5⟩, ⟨Team.Gnome,56,3⟩), (⟨5,5⟩, ⟨Team.Gnome,200,3⟩), (⟨2,2⟩, ⟨Team.Gnome,108,3⟩), (⟨1,1⟩, ⟨Team.Gnome,200,3⟩)]⟩, 1⟩, ⟨7, 4398046511103, 4363416223614, 2181708111807⟩, ⟨1034572176896, 1099578802432, 8589934592⟩⟩

def s4r37 : FastGame := ⟨⟨37, [⟨1,1⟩, ⟨2,2⟩, ⟨3,5⟩, ⟨4,5⟩, ⟨5,5⟩], ⟨⟨6,7⟩, [tW, tW, tW, tW, tW, tW, tW, tW, tG, tE, tE, tE, tE, tW, tW, tE, tG, tE, tE, tE, tW, tW, tE, tW, tE, tW, tG, tW, tW, tE, tE, tE, tW, tF, tW, tW, tE, tE, tE, tE, tG, tW, tW, tW, tW, tW, tW, tW, tW], [(⟨4,5⟩, ⟨Team.Elf,59,4⟩), (⟨3,5⟩, ⟨Team.Gnome,52,3⟩), (⟨5,5⟩, ⟨Team.Gnome,200,3⟩), (⟨2,2⟩, ⟨Team.Gnome,108,3⟩), (⟨1,1⟩, ⟨Team.Gnome,200,3⟩)]⟩, 1⟩, ⟨7, 4398046511103, 4363416223614, 2181708111807⟩, ⟨1034572176896, 1099578802432, 8589934592⟩⟩

def s4r38 : FastGame := ⟨⟨38, [⟨1,1⟩, ⟨2,2⟩, ⟨3,5⟩, ⟨4,5⟩, ⟨5,5⟩], ⟨⟨6,7⟩, [tW, tW, tW, tW, tW, tW, tW, tW, tG, tE, tE, tE, tE, tW, tW, tE, tG, tE, tE, tE, tW, tW, tE, tW, tE, tW, tG, tW, tW, tE, tE, tE, tW, tF, tW, tW, tE, tE, tE, tE, tG, tW, tW, tW, tW, tW, tW, tW, tW], [(⟨4,5⟩, ⟨Team.Elf,53,4⟩), (⟨3,5⟩, ⟨Team.Gnome,48,3⟩), (⟨5,5⟩, ⟨Team.Gnome,200,3⟩), (⟨2,2⟩, ⟨Team.Gnome,108,3⟩), (⟨1,1⟩, ⟨Team.Gnome,200,3⟩)]⟩, 1⟩, ⟨7, 4398046511103, 4363416223614, 2181708111807⟩, ⟨1034572176896, 1099578802432, 8589934592⟩⟩

def s4r39 : FastGame := ⟨⟨39, [⟨1,1⟩, ⟨2,2⟩, ⟨3,5⟩, ⟨4,5⟩, ⟨5,5⟩], ⟨⟨6,7⟩, [tW, tW, tW, tW, tW, tW, tW, tW, tG, tE, tE, tE, tE, tW, tW, tE, tG, tE, tE, tE, tW, tW, tE, tW, tE, tW, tG, tW, tW, tE, tE, tE, tW, tF, tW, tW, tE, tE, tE, tE, tG, tW, tW, tW, tW, tW, tW, tW, tW], [(⟨4,5⟩, ⟨Team.Elf,47,4⟩), (⟨3,5⟩, ⟨Team.Gnome,44,3⟩), (⟨5,5⟩, ⟨Team.Gnome,200,3⟩), (⟨2,2⟩, ⟨Team.Gnome,108,3⟩), (⟨1,1⟩, ⟨Team.Gnome,200,3⟩)]⟩, 1⟩, ⟨7, 4398046511103, 4363416223614, 2181708111807⟩, ⟨1034572176896, 1099578802432, 8589934592⟩⟩

def s4r40 : FastGame := ⟨⟨40, [⟨1,1⟩, ⟨2,2⟩, ⟨3,5⟩, ⟨4,5⟩, ⟨5,5⟩], ⟨⟨6,7⟩, [tW, tW, tW, tW, tW, tW, tW, tW, tG, tE, tE, tE, tE, tW, tW, tE, tG, tE, tE, tE, tW, tW, tE, tW, tE, tW, tG, tW, tW, tE, tE, tE, tW, tF, tW, tW, tE, tE, tE, tE, tG, tW, tW, tW, tW, tW, tW, tW, tW], [(⟨4,5⟩, ⟨Team.Elf,41,4⟩), (⟨3,5⟩, ⟨Team.Gnome,40,3⟩), (⟨5,5⟩, ⟨Team.Gnome,200,3⟩), (⟨2,2⟩, ⟨Team.Gnome,108,3⟩), (⟨1,1⟩, ⟨Team.Gnome,200,3⟩)]⟩, 1⟩, ⟨7, 4398046511103, 4363416223614, 2181708111807⟩, ⟨1034572176896, 1099578802432, 8589934592⟩⟩

def s4r41 : FastGame := ⟨⟨41, [⟨1,1⟩, ⟨2,2⟩, ⟨3,5⟩, ⟨4,5⟩, ⟨5,5⟩], ⟨⟨6,7⟩, [tW, tW, tW, tW, tW, tW, tW, tW, tG, tE, tE, tE, tE, tW, tW, tE, tG, tE, tE, tE, tW, tW, tE, tW, tE, tW, tG, tW, tW, tE, tE, tE, tW, tF, tW, tW, tE, tE, tE, tE, tG, tW, tW, tW, tW, tW, tW, tW, tW], [(⟨4,5⟩, ⟨Team.Elf,35,4⟩), (⟨3,5⟩, ⟨Team.Gnome,36,3⟩), (⟨5,5⟩, ⟨Team.Gnome,200,3⟩), (⟨2,2⟩, ⟨Team.Gnome,108,3⟩), (⟨1,1⟩, ⟨Team.Gnome,200,3⟩)]⟩, 1⟩, ⟨7, 4398046511103, 4363416223614, 2181708111807⟩, ⟨1034572176896, 1099578802432, 8589934592⟩⟩

def s4r42 : FastGame := ⟨⟨42, [⟨1,1⟩, ⟨2,2⟩, ⟨3,5⟩, ⟨4,5⟩, ⟨5,5⟩], ⟨⟨6,7⟩, [tW, tW, tW, tW, tW, tW, tW, tW, tG, tE, tE, tE, tE, tW, tW, tE, tG, tE, tE, tE, tW, tW, tE, tW, tE, tW, tG, tW, tW, tE, tE, tE, tW, tF, tW, tW, tE, tE, tE, tE, tG, tW, tW, tW, tW, tW, tW, tW, tW], [(⟨4,5⟩, ⟨Team.Elf,29,4⟩), (⟨3,5⟩, ⟨Team.Gnome,32,3⟩), (⟨5,5⟩, ⟨Team.Gnome,200,3⟩), (⟨2,2⟩, ⟨Team.Gnome,108,3⟩), (⟨1,1⟩, ⟨Team.Gnome,200,3⟩)]⟩, 1⟩, ⟨7, 4398046511103, 4363416223614, 2181708111807⟩, ⟨1034572176896, 1099578802432, 8589934592⟩⟩

def s4r43 : FastGame := ⟨⟨43, [⟨1,1⟩, ⟨2,2⟩, ⟨3,5⟩, ⟨4,5⟩, ⟨5,5⟩], ⟨⟨6,7⟩, [tW, tW, tW, tW, tW, tW, tW, tW, tG, tE, tE, tE, tE, tW, tW, tE, tG, tE, tE, tE, tW, tW, tE, tW, tE, tW, tG, tW, tW, tE, tE, tE, tW, tF, tW, tW, tE, tE, tE, tE, tG, tW, tW, tW, tW, tW, tW, tW, tW], [(⟨4,5⟩, ⟨Team.Elf,23,4⟩), (⟨3,5⟩, ⟨Team.Gnome,28,3⟩), (⟨5,5⟩, ⟨Team.Gnome,200,3⟩), (⟨2,2⟩, ⟨Team.Gnome,108,3⟩), (⟨1,1⟩, ⟨Team.Gnome,200,3⟩)]⟩, 1⟩, ⟨7, 4398046511103, 4363416223614, 2181708111807⟩, ⟨1034572176896, 1099578802432, 8589934592⟩⟩

def s4r44 : FastGame := ⟨⟨44, [⟨1,1⟩, ⟨2,2⟩, ⟨3,5⟩, ⟨4,5⟩, ⟨5,5⟩], ⟨⟨6,7⟩, [tW, tW, tW, tW, tW, tW, tW, tW, tG, tE, tE, tE, tE, tW, tW, tE, tG, tE, tE, tE, tW, tW, tE, tW, tE, tW, tG, tW, tW, tE, tE, tE, tW, tF, tW, tW, tE, tE, tE, tE, tG, tW, tW, tW, tW, tW, tW, tW, tW], [(⟨4,5⟩, ⟨Team.Elf,17,4⟩), (⟨3,5⟩, ⟨Team.Gnome,24,3⟩), (⟨5,5⟩, ⟨Team.Gnome,200,3⟩), (⟨2,2⟩, ⟨Team.Gnome,108,3⟩), (⟨1,1⟩, ⟨Team.Gnome,200,3⟩)]⟩, 1⟩, ⟨7, 4398046511103, 4363416223614, 2181708111807⟩, ⟨1034572176896, 1099578802432, 8589934592⟩⟩

def s4r45 : FastGame := ⟨⟨45, [⟨1,1⟩, ⟨2,2⟩, ⟨3,5⟩, ⟨4,5⟩, ⟨5,5⟩], ⟨⟨6,7⟩, [tW, tW, tW, tW, tW, tW, tW, tW, tG, tE, tE, tE, tE, tW, tW, tE, tG, tE, tE, tE, tW, tW, tE, tW, tE, tW, tG, tW, tW, tE, tE, tE, tW, tF, tW, tW, tE, tE, tE, tE, tG, tW, tW, tW, tW, tW, tW, tW, tW], [(⟨4,5⟩, ⟨Team.Elf,11,4⟩), (⟨3,5⟩, ⟨Team.Gnome,20,3⟩), (⟨5,5⟩, ⟨Team.Gnome,200,3⟩), (⟨2,2⟩, ⟨Team.Gnome,108,3⟩), (⟨1,1⟩, ⟨Team.Gnome,200,3⟩)]⟩, 1⟩, ⟨7, 4398046511103, 4363416223614, 2181708111807⟩, ⟨1034572176896, 1099578802432, 8589934592⟩⟩

def s4r46 : FastGame := ⟨⟨46, [⟨1,1⟩, ⟨2,2⟩, ⟨3,5⟩, ⟨4,5⟩, ⟨5,5⟩], ⟨⟨6,7⟩, [tW, tW, tW, tW, tW, tW, tW, tW, tG, tE, tE, tE, tE, tW, tW, tE, tG, tE, tE, tE, tW, tW, tE, tW, tE, tW, tG, tW, tW, tE, tE, tE, tW, tF, tW, tW, tE, tE, tE, tE, tG, tW, tW, tW, tW, tW, tW, tW, tW], [(⟨4,5⟩, ⟨Team.Elf,5,4⟩), (⟨3,5⟩, ⟨Team.Gnome,16,3⟩), (⟨5,5⟩, ⟨Team.Gnome,200,3⟩), (⟨2,2⟩, ⟨Team.Gnome,108,3⟩), (⟨1,1⟩, ⟨Team.Gnome,200,3⟩)]⟩, 1⟩, ⟨7, 4398046511103, 4363416223614, 2181708111807⟩, ⟨1034572176896, 1099578802432, 8589934592⟩⟩

def s4r47 : FastGame := ⟨⟨47, [⟨1,1⟩, ⟨2,2⟩, ⟨3,5⟩, ⟨5,5⟩], ⟨⟨6,7⟩, [tW, tW, tW, tW, tW, tW, tW, tW, tG, tE, tE, tE, tE, tW, tW, tE, tG, tE, tE, tE, tW, tW, tE, tW, tE, tW, tG, tW, tW, tE, tE, tE, tW, tE, tW, tW, tE, tE, tE, tE, tG, tW, tW, tW, tW, tW, tW, tW, tW], [(⟨3,5⟩, ⟨Team.Gnome,12,3⟩), (⟨5,5⟩, ⟨Team.Gnome,200,3⟩), (⟨2,2⟩, ⟨Team.Gnome,108,3⟩), (⟨1,1⟩, ⟨Team.Gnome,200,3⟩)]⟩, 2⟩, ⟨7, 4398046511103, 4363416223614, 2181708111807⟩, ⟨1043162111488, 1099578802432, 0⟩⟩

def s4r48 : FastGame := ⟨⟨47, [⟨2,2⟩, ⟨3,5⟩, ⟨5,5⟩], ⟨⟨6,7⟩, [tW, tW, tW, tW, tW, tW, tW, tW, tG, tE, tE, tE, tE, tW, tW, tE, tG, tE, tE, tE, tW, tW, tE, tW, tE, tW, tG, tW, tW, tE, tE, tE, tW, tE, tW, tW, tE, tE, tE, tE, tG, tW, tW, tW, tW, tW, tW, tW, tW], [(⟨3,5⟩, ⟨Team.Gnome,12,3⟩), (⟨5,5⟩, ⟨Team.Gnome,200,3⟩), (⟨2,2⟩, ⟨Team.Gnome,108,3⟩), (⟨1,1⟩, ⟨Team.Gnome,200,3⟩)]⟩, 2⟩, ⟨7, 4398046511103, 4363416223614, 2181708111807⟩, ⟨1043162111488, 1099578802432, 0⟩⟩

-- power 5: 50 states
def s5r0 : FastGame := ⟨⟨0, [⟨1,2⟩, ⟨2,4⟩, ⟨2,5⟩, ⟨3,5⟩, ⟨4,3⟩, ⟨4,5⟩], ⟨⟨6,7⟩, [tW, tW, tW, tW, tW, tW, tW, tW, tE, tG, tE, tE, tE, tW, tW, tE, tE, tE, tF, tG, tW, tW, tE, tW, tE, tW, tG, tW, tW, tE, tE, tG, tW, tF, tW, tW, tE, tE, tE, tE, tE, tW, tW, tW, tW, tW, tW, tW, tW], [(⟨4,5⟩, ⟨Team.Elf,200,5⟩), (⟨4,3⟩, ⟨Team.Gnome,200,3⟩), (⟨3,5⟩, ⟨Team.Gnome,200,3⟩), (⟨2,5⟩, ⟨Team.Gnome,200,3⟩), (⟨2,4⟩, ⟨Team.Elf,200,5⟩), (⟨1,2⟩, ⟨Team.Gnome,200,3⟩)]⟩, 0⟩, ⟨7, 4398046511103, 4363416223614, 2181708111807⟩, ⟨2131935599872, 2215117312, 8590196736⟩⟩

def s5r1 : FastGame := ⟨⟨1, [⟨1,3⟩, ⟨2,4⟩, ⟨2,5⟩, ⟨3,3⟩, ⟨3,5⟩, ⟨4,5⟩], ⟨⟨6,7⟩, [tW, tW, tW, tW, tW, tW, tW, tW, tE, tE, tG, tE, tE, tW, tW, tE, tE, tE, tF, tG, tW, tW, tE, tW, tG, tW, tG, tW, tW, tE, tE, tE, tW, tF, tW, tW, tE, tE, tE, tE, tE, tW, tW, tW, tW, tW, tW, tW, tW], [(⟨3,5⟩, ⟨Team.Gnome,195,3⟩), (⟨3,3⟩, ⟨Team.Gnome,200,3⟩), (⟨4,5⟩, ⟨Team.Elf,197,5⟩), (⟨2,4⟩, ⟨Team.Elf,197,5⟩), (⟨2,5⟩, ⟨Team.Gnome,195,3⟩), (⟨1,3⟩, ⟨Team.Gnome,200,3⟩)]⟩, 0⟩, ⟨7, 4398046511103, 4363416223614, 2181708111807⟩, ⟨2134066305792, 84411392, 8590196736⟩⟩

def s5r2 : FastGame := ⟨⟨2, [⟨1,4⟩, ⟨2,3⟩, ⟨2,4⟩, ⟨2,5⟩, ⟨3,5⟩, ⟨4,5⟩], ⟨⟨6,7⟩, [tW, tW, tW, tW, tW, tW, tW, tW, tE, tE, tE, tG, tE, tW, tW, tE, tE, tG, tF, tG, tW, tW, tE, tW, tE, tW, tG, tW, tW, tE, tE, tE, tW, tF, tW, tW, tE, tE, tE, tE, tE, tW, tW, tW, tW, tW, tW, tW, tW], [(⟨3,5⟩, ⟨Team.Gnome,190,3⟩), (⟨4,5⟩, ⟨Team.Elf,194,5⟩), (⟨2,4⟩, ⟨Team.Elf,188,5⟩), (⟨2,3⟩, ⟨Team.Gnome,200,3⟩), (⟨2,5⟩, ⟨Team.Gnome,190,3⟩), (⟨1,4⟩, ⟨Team.Gnome,200,3⟩)]⟩, 0⟩, ⟨7, 4398046511103, 4363416223614, 2181708111807⟩, ⟨2134082950912, 67766272, 8590196736⟩⟩

def s5r3 : FastGame := ⟨⟨3, [⟨1,4⟩, ⟨2,3⟩, ⟨2,4⟩, ⟨2,5⟩, ⟨3,5⟩, ⟨4,5⟩], ⟨⟨6,7⟩, [tW, tW, tW, tW, tW, tW, tW, tW, tE, tE, tE, tG, tE, tW, tW, tE, tE, tG, tF, tG, tW, tW, tE, tW, tE, tW, tG, tW, tW, tE, tE, tE, tW, tF, tW, tW, tE, tE, tE, tE, tE, tW, tW, tW, tW, tW, tW, tW, tW], [(⟨3,5⟩, ⟨Team.Gnome,185,3⟩), (⟨4,5⟩, ⟨Team.Elf,191,5⟩), (⟨2,4⟩, ⟨Team.Elf,179,5⟩), (⟨2,5⟩, ⟨Team.Gnome,185,3⟩), (⟨2,3⟩, ⟨Team.Gnome,200,3⟩), (⟨1,4⟩, ⟨Team.Gnome,200,3⟩)]⟩, 0⟩, ⟨7, 4398046511103, 4363416223614, 2181708111807⟩, ⟨2134082950912, 67766272, 8590196736⟩⟩

def s5r4 : FastGame := ⟨⟨4, [⟨1,4⟩, ⟨2,3⟩, ⟨2,4⟩, ⟨2,5⟩, ⟨3,5⟩, ⟨4,5⟩], ⟨⟨6,7⟩, [tW, tW, tW, tW, tW, tW, tW, tW, tE, tE, tE, tG, tE, tW, tW, tE, tE, tG, tF, tG, tW, tW, tE, tW, tE, tW, tG, tW, tW, tE, tE, tE, tW, tF, tW, tW, tE, tE, tE, tE, tE, tW, tW, tW, tW, tW, tW, tW, tW], [(⟨3,5⟩, ⟨Team.Gnome,180,3⟩), (⟨4,5⟩, ⟨Team.Elf,188,5⟩), (⟨2,4⟩, ⟨Team.Elf,170,5⟩), (⟨2,5⟩, ⟨Team.Gnome,180,3⟩), (⟨2,3⟩, ⟨Team.Gnome,200,3⟩), (⟨1,4⟩, ⟨Team.Gnome,200,3⟩)]⟩, 0⟩, ⟨7, 4398046511103, 4363416223614, 2181708111807⟩, ⟨2134082950912, 67766272, 8590196736⟩⟩

def s5r5 : FastGame := ⟨⟨5, [⟨1,4⟩, ⟨2,3⟩, ⟨2,4⟩, ⟨2,5⟩, ⟨3,5⟩, ⟨4,5⟩], ⟨⟨6,7⟩, [tW, tW, tW, tW, tW, tW, tW, tW, tE, tE, tE, tG, tE, tW, tW, tE, tE, tG, tF, tG, tW, tW, tE, tW, tE, tW, tG, tW, tW, tE, tE, tE, tW, tF, tW, tW, tE, tE, tE, tE, tE, tW, tW, tW, tW, tW, tW, tW, tW], [(⟨3,5⟩, ⟨Team.Gnome,175,3⟩), (⟨4,5⟩, ⟨Team.Elf,185,5⟩), (⟨2,4⟩, ⟨Team.Elf,161,5⟩), (⟨2,5⟩, ⟨Team.Gnome,175,3⟩), (⟨2,3⟩, ⟨Team.Gnome,200,3⟩), (⟨1,4⟩, ⟨Team.Gnome,200,3⟩)]⟩, 0⟩, ⟨7, 4398046511103, 4363416223614, 2181708111807⟩, ⟨2134082950912, 67766272, 8590196736⟩⟩

def s5r6 : FastGame := ⟨⟨6, [⟨1,4⟩, ⟨2,3⟩, ⟨2,4⟩, ⟨2,5⟩, ⟨3,5⟩, ⟨4,5⟩], ⟨⟨6,7⟩, [tW, tW, tW, tW, tW, tW, tW, tW, tE, tE, tE, tG, tE, tW, tW, tE, tE, tG, tF, tG, tW, tW, tE, tW, tE, tW, tG, tW, tW, tE, tE, tE, tW, tF, tW, tW, tE, tE, tE, tE, tE, tW, tW, tW, tW, tW, tW, tW, tW], [(⟨3,5⟩, ⟨Team.Gnome,170,3⟩), (⟨4,5⟩, ⟨Team.Elf,182,5⟩), (⟨2,4⟩, ⟨Team.Elf,152,5⟩), (⟨2,5⟩, ⟨Team.Gnome,170,3⟩), (⟨2,3⟩, ⟨Team.Gnome,200,3⟩), (⟨1,4⟩, ⟨Team.Gnome,200,3⟩)]⟩, 0⟩, ⟨7, 4398046511103, 4363416223614, 2181708111807⟩, ⟨2134082950912, 67766272, 8590196736⟩⟩

def s5r7 : FastGame := ⟨⟨7, [⟨1,4⟩, ⟨2,3⟩, ⟨2,4⟩, ⟨2,5⟩, ⟨3,5⟩, ⟨4,5⟩], ⟨⟨6,7⟩, [tW, tW, tW, tW, tW, tW, tW, tW, tE, tE, tE, tG, tE, tW, tW, tE, tE, tG, tF, tG, tW, tW, tE, tW, tE, tW, tG, tW, tW, tE, tE, tE, tW, tF, tW, tW, tE, tE, tE, tE, tE, tW, tW, tW, tW, tW, tW, tW, tW], [(⟨3,5⟩, ⟨Team.Gnome,165,3⟩), (⟨4,5⟩, ⟨Team.Elf,179,5⟩), (⟨2,4⟩, ⟨Team.Elf,143,5⟩), (⟨2,5⟩, ⟨Team.Gnome,165,3⟩), (⟨2,3⟩, ⟨Team.Gnome,200,3⟩), (⟨1,4⟩, ⟨Team.Gnome,200,3⟩)]⟩, 0⟩, ⟨7, 4398046511103, 4363416223614, 2181708111807⟩, ⟨2134082950912, 67766272, 8590196736⟩⟩

def s5r8 : FastGame := ⟨⟨8, [⟨1,4⟩, ⟨2,3⟩, ⟨2,4⟩, ⟨2,5⟩, ⟨3,5⟩, ⟨4,5⟩], ⟨⟨6,7⟩, [tW, tW, tW, tW, tW, tW, tW, tW, tE, tE, tE, tG, tE, tW, tW, tE, tE, tG, tF, tG, tW, tW, tE, tW, tE, tW, tG, tW, tW, tE, tE, tE, tW, tF, tW, tW, tE, tE, tE, tE, tE, tW, tW, tW, tW, tW, tW, tW, tW], [(⟨3,5⟩, ⟨Team.Gnome,160,3⟩), (⟨4,5⟩, ⟨Team.Elf,176,5⟩), (⟨2,4⟩, ⟨Team.Elf,134,5⟩), (⟨2,5⟩, ⟨Team.Gnome,160,3⟩), (⟨2,3⟩, ⟨Team.Gnome,200,3⟩), (⟨1,4⟩, ⟨Team.Gnome,200,3⟩)]⟩, 0⟩, ⟨7, 4398046511103, 4363416223614, 2181708111807⟩, ⟨2134082950912, 67766272, 8590196736⟩⟩

def s5r9 : FastGame := ⟨⟨9, [⟨1,4⟩, ⟨2,3⟩, ⟨2,4⟩, ⟨2,5⟩, ⟨3,5⟩, ⟨4,5⟩], ⟨⟨6,7⟩, [tW, tW, tW, tW, tW, tW, tW, tW, tE, tE, tE, tG, tE, tW, tW, tE, tE, tG, tF, tG, tW, tW, tE, tW, tE, tW, tG, tW, tW, tE, tE, tE, tW, tF, tW, tW, tE, tE, tE, tE, tE, tW, tW, tW, tW, tW, tW, tW, tW], [(⟨3,5⟩, ⟨Team.Gnome,155,3⟩), (⟨4,5⟩, ⟨Team.Elf,173,5⟩), (⟨2,4⟩, ⟨Team.Elf,125,5⟩), (⟨2,5⟩, ⟨Team.Gnome,155,3⟩), (⟨2,3⟩, ⟨Team.Gnome,200,3⟩), (⟨1,4⟩, ⟨Team.Gnome,200,3⟩)]⟩, 0⟩, ⟨7, 4398046511103, 4363416223614, 2181708111807⟩, ⟨2134082950912, 67766272, 8590196736⟩⟩

def s5r10 : FastGame := ⟨⟨10, [⟨1,4⟩, ⟨2,3⟩, ⟨2,4⟩, ⟨2,5⟩, ⟨3,5⟩, ⟨4,5⟩], ⟨⟨6,7⟩, [tW, tW, tW, tW, tW, tW, tW, tW, tE, tE, tE, tG, tE, tW, tW, tE, tE, tG, tF, tG, tW, tW, tE, tW, tE, tW, tG, tW, tW, tE, tE, tE, tW, tF, tW, tW, tE, tE, tE, tE, tE, tW, tW, tW, tW, tW, tW, tW, tW], [(⟨3,5⟩, ⟨Team.Gnome,150,3⟩), (⟨4,5⟩, ⟨Team.Elf,170,5⟩), (⟨2,4⟩, ⟨Team.Elf,116,5⟩), (⟨2,5⟩, ⟨Team.Gnome,150,3⟩), (⟨2,3⟩, ⟨Team.Gnome,200,3⟩), (⟨1,4⟩, ⟨Team.Gnome,200,3⟩)]⟩, 0⟩, ⟨7, 4398046511103, 4363416223614, 2181708111807⟩, ⟨2134082950912, 67766272, 8590196736⟩⟩

def s5r11 : FastGame := ⟨⟨11, [⟨1,4⟩, ⟨2,3⟩, ⟨2,4⟩, ⟨2,5⟩, ⟨3,5⟩, ⟨4,5⟩], ⟨⟨6,7⟩, [tW, tW, tW, tW, tW, tW, tW, tW, tE, tE, tE, tG, tE, tW, tW, tE, tE, tG, tF, tG, tW, tW, tE, tW, tE, tW, tG, tW, tW, tE, tE, tE, tW, tF, tW, tW, tE, tE, tE, tE, tE, tW, tW, tW, tW, tW, tW, tW, tW], [(⟨3,5⟩, ⟨Team.Gnome,145,3⟩), (⟨4,5⟩, ⟨Team.Elf,167,5⟩), (⟨2,4⟩, ⟨Team.Elf,107,5⟩), (⟨2,5⟩, ⟨Team.Gnome,145,3⟩), (⟨2,3⟩, ⟨Team.Gnome,200,3⟩), (⟨1,4⟩, ⟨Team.Gnome,200,3⟩)]⟩, 0⟩, ⟨7, 4398046511103, 4363416223614, 2181708111807⟩, ⟨2134082950912, 67766272, 8590196736⟩⟩

def s5r12 : FastGame := ⟨⟨12, [⟨1,4⟩, ⟨2,3⟩, ⟨2,4⟩, ⟨2,5⟩, ⟨3,5⟩, ⟨4,5⟩], ⟨⟨6,7⟩, [tW, tW, tW, tW, tW, tW, tW, tW, tE, tE, tE, tG, tE, tW, tW, tE, tE, tG, tF, tG, tW, tW, tE, tW, tE, tW, tG, tW, tW, tE, tE, tE, tW, tF, tW, tW, tE, tE, tE, tE, tE, tW, tW, tW, tW, tW, tW, tW, tW], [(⟨3,5⟩, ⟨Team.Gnome,140,3⟩), (⟨4,5⟩, ⟨Team.Elf,164,5⟩), (⟨2,4⟩, ⟨Team.Elf,98,5⟩), (⟨2,5⟩, ⟨Team.Gnome,140,3⟩), (⟨2,3⟩, ⟨Team.Gnome,200,3⟩), (⟨1,4⟩, ⟨Team.Gnome,200,3⟩)]⟩, 0⟩, ⟨7, 4398046511103, 4363416223614, 2181708111807⟩, ⟨2134082950912, 67766272, 8590196736⟩⟩

def s5r13 : FastGame := ⟨⟨13, [⟨1,4⟩, ⟨2,3⟩, ⟨2,4⟩, ⟨2,5⟩, ⟨3,5⟩, ⟨4,5⟩], ⟨⟨6,7⟩, [tW, tW, tW, tW, tW, tW, tW, tW, tE, tE, tE, tG, tE, tW, tW, tE, tE, tG, tF, tG, tW, tW, tE, tW, tE, tW, tG, tW, tW, tE, tE, tE, tW, tF, tW, tW, tE, tE, tE, tE, tE, tW, tW, tW, tW, tW, tW, tW, tW], [(⟨3,5⟩, ⟨Team.Gnome,135,3⟩), (⟨4,5⟩, ⟨Team.Elf,161,5⟩), (⟨2,4⟩, ⟨Team.Elf,89,5⟩), (⟨2,5⟩, ⟨Team.Gnome,135,3⟩), (⟨2,3⟩, ⟨Team.Gnome,200,3⟩), (⟨1,4⟩, ⟨Team.Gnome,200,3⟩)]⟩, 0⟩, ⟨7, 4398046511103, 4363416223614, 2181708111807⟩, ⟨2134082950912, 67766272, 8590196736⟩⟩

def s5r14 : FastGame := ⟨⟨14, [⟨1,4⟩, ⟨2,3⟩, ⟨2,4⟩, ⟨2,5⟩, ⟨3,5⟩, ⟨4,5⟩], ⟨⟨6,7⟩, [tW, tW, tW, tW, tW, tW, tW, tW, tE, tE, tE, tG, tE, tW, tW, tE, tE, tG, tF, tG, tW, tW, tE, tW, tE, tW, tG, tW, tW, tE, tE, tE, tW, tF, tW, tW, tE, tE, tE, tE, tE, tW, tW, tW, tW, tW, tW, tW, tW], [(⟨3,5⟩, ⟨Team.Gnome,130,3⟩), (⟨4,5⟩, ⟨Team.Elf,158,5⟩), (⟨2,4⟩, ⟨Team.Elf,80,5⟩), (⟨2,5⟩, ⟨Team.Gnome,130,3⟩), (⟨2,3⟩, ⟨Team.Gnome,200,3⟩), (⟨1,4⟩, ⟨Team.Gnome,200,3⟩)]⟩, 0⟩, ⟨7, 4398046511103, 4363416223614, 2181708111807⟩, ⟨2134082950912, 67766272, 8590196736⟩⟩

def s5r15 : FastGame := ⟨⟨15, [⟨1,4⟩, ⟨2,3⟩, ⟨2,4⟩, ⟨2,5⟩, ⟨3,5⟩, ⟨4,5⟩], ⟨⟨6,7⟩, [tW, tW, tW, tW, tW, tW, tW, tW, tE, tE, tE, tG, tE, tW, tW, tE, tE, tG, tF, tG, tW, tW, tE, tW, tE, tW, tG, tW, tW, tE, tE, tE, tW, tF, tW, tW, tE, tE, tE, tE, tE, tW, tW, tW, tW, tW, tW, tW, tW], [(⟨3,5⟩, ⟨Team.Gnome,125,3⟩), (⟨4,5⟩, ⟨Team.Elf,155,5⟩), (⟨2,4⟩, ⟨Team.Elf,71,5⟩), (⟨2,5⟩, ⟨Team.Gnome,125,3⟩), (⟨2,3⟩, ⟨Team.Gnome,200,3⟩), (⟨1,4⟩, ⟨Team.Gnome,200,3⟩)]⟩, 0⟩, ⟨7, 4398046511103, 4363416223614, 2181708111807⟩, ⟨2134082950912, 67766272, 8590196736⟩⟩

def s5r16 : FastGame := ⟨⟨16, [⟨1,4⟩, ⟨2,3⟩, ⟨2,4⟩, ⟨2,5⟩, ⟨3,5⟩, ⟨4,5⟩], ⟨⟨6,7⟩, [tW, tW, tW, tW, tW, tW, tW, tW, tE, tE, tE, tG, tE, tW, tW, tE, tE, tG, tF, tG, tW, tW, tE, tW, tE, tW, tG, tW, tW, tE, tE, tE, tW, tF, tW, tW, tE, tE, tE, tE, tE, tW, tW, tW, tW, tW, tW, tW, tW], [(⟨3,5⟩, ⟨Team.Gnome,120,3⟩), (⟨4,5⟩, ⟨Team.Elf,152,5⟩), (⟨2,4⟩, ⟨Team.Elf,62,5⟩), (⟨2,5⟩, ⟨Team.Gnome,120,3⟩), (⟨2,3⟩, ⟨Team.Gnome,200,3⟩), (⟨1,4⟩, ⟨Team.Gnome,200,3⟩)]⟩, 0⟩, ⟨7, 4398046511103, 4363416223614, 2181708111807⟩, ⟨2134082950912, 67766272, 8590196736⟩⟩

def s5r17 : FastGame := ⟨⟨17, [⟨1,4⟩, ⟨2,3⟩, ⟨2,4⟩, ⟨2,5⟩, ⟨3,5⟩, ⟨4,5⟩], ⟨⟨6,7⟩, [tW, tW, tW, tW, tW, tW, tW, tW, tE, tE, tE, tG, tE, tW, tW, tE, tE, tG, tF, tG, tW, tW, tE, tW, tE, tW, tG, tW, tW, tE, tE, tE, tW, tF, tW, tW, tE, tE, tE, tE, tE, tW, tW, tW, tW, tW, tW, tW, tW], [(⟨3,5⟩, ⟨Team.Gnome,115,3⟩), (⟨4,5⟩, ⟨Team.Elf,149,5⟩), (⟨2,4⟩, ⟨Team.Elf,53,5⟩), (⟨2,5⟩, ⟨Team.Gnome,115,3⟩), (⟨2,3⟩, ⟨Team.Gnome,200,3⟩), (⟨1,4⟩, ⟨Team.Gnome,200,3⟩)]⟩, 0⟩, ⟨7, 4398046511103, 4363416223614, 2181708111807⟩, ⟨2134082950912, 67766272, 8590196736⟩⟩

def s5r18 : FastGame := ⟨⟨18, [⟨1,4⟩, ⟨2,3⟩, ⟨2,4⟩, ⟨2,5⟩, ⟨3,5⟩, ⟨4,5⟩], ⟨⟨6,7⟩, [tW, tW, tW, tW, tW, tW, tW, tW, tE, tE, tE, tG, tE, tW, tW, tE, tE, tG, tF, tG, tW, tW, tE, tW, tE, tW, tG, tW, tW, tE, tE, tE, tW, tF, tW, tW, tE, tE, tE, tE, tE, tW, tW, tW, tW, tW, tW, tW, tW], [(⟨3,5⟩, ⟨Team.Gnome,110,3⟩), (⟨4,5⟩, ⟨Team.Elf,146,5⟩), (⟨2,4⟩, ⟨Team.Elf,44,5⟩), (⟨2,5⟩, ⟨Team.Gnome,110,3⟩), (⟨2,3⟩, ⟨Team.Gnome,200,3⟩), (⟨1,4⟩, ⟨Team.Gnome,200,3⟩)]⟩, 0⟩, ⟨7, 4398046511103, 4363416223614, 2181708111807⟩, ⟨2134082950912, 67766272, 8590196736⟩⟩

def s5r19 : FastGame := ⟨⟨19, [⟨1,4⟩, ⟨2,3⟩, ⟨2,4⟩, ⟨2,5⟩, ⟨3,5⟩, ⟨4,5⟩], ⟨⟨6,7⟩, [tW, tW, tW, tW, tW, tW, tW, tW, tE, tE, tE, tG, tE, tW, tW, tE, tE, tG, tF, tG, tW, tW, tE, tW, tE, tW, tG, tW, tW, tE, tE, tE, tW, tF, tW, tW, tE, tE, tE, tE, tE, tW, tW, tW, tW, tW, tW, tW, tW], [(⟨3,5⟩, ⟨Team.Gnome,105,3⟩), (⟨4,5⟩, ⟨Team.Elf,143,5⟩), (⟨2,4⟩, ⟨Team.Elf,35,5⟩), (⟨2,5⟩, ⟨Team.Gnome,105,3⟩), (⟨2,3⟩, ⟨Team.Gnome,200,3⟩), (⟨1,4⟩, ⟨Team.Gnome,200,3⟩)]⟩, 0⟩, ⟨7, 4398046511103, 4363416223614, 2181708111807⟩, ⟨2134082950912, 67766272, 8590196736⟩⟩

def s5r20 : FastGame := ⟨⟨20, [⟨1,4⟩, ⟨2,3⟩, ⟨2,4⟩, ⟨2,5⟩, ⟨3,5⟩, ⟨4,5⟩], ⟨⟨6,7⟩, [tW, tW, tW, tW, tW, tW, tW, tW, tE, tE, tE, tG, tE, tW, tW, tE, tE, tG, tF, tG, tW, tW, tE, tW, tE, tW, tG, tW, tW, tE, tE, tE, tW, tF, tW, tW, tE, tE, tE, tE, tE, tW, tW, tW, tW, tW, tW, tW, tW], [(⟨3,5⟩, ⟨Team.Gnome,100,3⟩), (⟨4,5⟩, ⟨Team.Elf,140,5⟩), (⟨2,4⟩, ⟨Team.Elf,26,5⟩), (⟨2,5⟩, ⟨Team.Gnome,100,3⟩), (⟨2,3⟩, ⟨Team.Gnome,200,3⟩), (⟨1,4⟩, ⟨Team.Gnome,200,3⟩)]⟩, 0⟩, ⟨7, 4398046511103, 4363416223614, 2181708111807⟩, ⟨2134082950912, 67766272, 8590196736⟩⟩

def s5r21 : FastGame := ⟨⟨21, [⟨1,4⟩, ⟨2,3⟩, ⟨2,4⟩, ⟨2,5⟩, ⟨3,5⟩, ⟨4,5⟩], ⟨⟨6,7⟩, [tW, tW, tW, tW, tW, tW, tW, tW, tE, tE, tE, tG, tE, tW, tW, tE, tE, tG, tF, tG, tW, tW, tE, tW, tE, tW, tG, tW, tW, tE, tE, tE, tW, tF, tW, tW, tE, tE, tE, tE, tE, tW, tW, tW, tW, tW, tW, tW, tW], [(⟨3,5⟩, ⟨Team.Gnome,95,3⟩), (⟨4,5⟩, ⟨Team.Elf,137,5⟩), (⟨2,4⟩, ⟨Team.Elf,17,5⟩), (⟨2,5⟩, ⟨Team.Gnome,95,3⟩), (⟨2,3⟩, ⟨Team.Gnome,200,3⟩), (⟨1,4⟩, ⟨Team.Gnome,200,3⟩)]⟩, 0⟩, ⟨7, 4398046511103, 4363416223614, 2181708111807⟩, ⟨2134082950912, 67766272, 8590196736⟩⟩

def s5r22 : FastGame := ⟨⟨22, [⟨1,4⟩, ⟨2,3⟩, ⟨2,4⟩, ⟨2,5⟩, ⟨3,5⟩, ⟨4,5⟩], ⟨⟨6,7⟩, [tW, tW, tW, tW, tW, tW, tW, tW, tE, tE, tE, tG, tE, tW, tW, tE, tE, tG, tF, tG, tW, tW, tE, tW, tE, tW, tG, tW, tW, tE, tE, tE, tW, tF, tW, tW, tE, tE, tE, tE, tE, tW, tW, tW, tW, tW, tW, tW, tW], [(⟨3,5⟩, ⟨Team.Gnome,90,3⟩), (⟨4,5⟩, ⟨Team.Elf,134,5⟩), (⟨2,4⟩, ⟨Team.Elf,8,5⟩), (⟨2,5⟩, ⟨Team.Gnome,90,3⟩), (⟨2,3⟩, ⟨Team.Gnome,200,3⟩), (⟨1,4⟩, ⟨Team.Gnome,200,3⟩)]⟩, 0⟩, ⟨7, 4398046511103, 4363416223614, 2181708111807⟩, ⟨2134082950912, 67766272, 8590196736⟩⟩

def s5r23 : FastGame := ⟨⟨23, [⟨1,4⟩, ⟨2,3⟩, ⟨2,5⟩, ⟨3,5⟩, ⟨4,5⟩], ⟨⟨6,7⟩, [tW, tW, tW, tW, tW, tW, tW, tW, tE, tE, tE, tG, tE, tW, tW, tE, tE, tG, tE, tG, tW, tW, tE, tW, tE, tW, tG, tW, tW, tE, tE, tE, tW, tF, tW, tW, tE, tE, tE, tE, tE, tW, tW, tW, tW, tW, tW, tW, tW], [(⟨3,5⟩, ⟨Team.Gnome,85,3⟩), (⟨4,5⟩, ⟨Team.Elf,131,5⟩), (⟨2,5⟩, ⟨Team.Gnome,85,3⟩), (⟨2,3⟩, ⟨Team.Gnome,200,3⟩), (⟨1,4⟩, ⟨Team.Gnome,200,3⟩)]⟩, 1⟩, ⟨7, 4398046511103, 4363416223614, 2181708111807⟩, ⟨2134083213056, 67766272, 8589934592⟩⟩

def s5r24 : FastGame := ⟨⟨24, [⟨1,3⟩, ⟨2,4⟩, ⟨3,3⟩, ⟨3,5⟩, ⟨4,5⟩], ⟨⟨6,7⟩, [tW, tW, tW, tW, tW, tW, tW, tW, tE, tE, tG, tE, tE, tW, tW, tE, tE, tE, tG, tE, tW, tW, tE, tW, tG, tW, tG, tW, tW, tE, tE, tE, tW, tF, tW, tW, tE, tE, tE, tE, tE, tW, tW, tW, tW, tW, tW, tW, tW], [(⟨3,5⟩, ⟨Team.Gnome,80,3⟩), (⟨4,5⟩, ⟨Team.Elf,128,5⟩), (⟨2,4⟩, ⟨Team.Gnome,85,3⟩), (⟨3,3⟩, ⟨Team.Gnome,200,3⟩), (⟨1,3⟩, ⟨Team.Gnome,200,3⟩)]⟩, 1⟩, ⟨7, 4398046511103, 4363416223614, 2181708111807⟩, ⟨2134066830080, 84149248, 8589934592⟩⟩

def s5r25 : FastGame := ⟨⟨25, [⟨1,2⟩, ⟨2,3⟩, ⟨3,5⟩, ⟨4,3⟩, ⟨4,5⟩], ⟨⟨6,7⟩, [tW, tW, tW, tW, tW, tW, tW, tW, tE, tG, tE, tE, tE, tW, tW, tE, tE, tG, tE, tE, tW, tW, tE, tW, tE, tW, tG, tW, tW, tE, tE, tG, tW, tF, tW, tW, tE, tE, tE, tE, tE, tW, tW, tW, tW, tW, tW, tW, tW], [(⟨3,5⟩, ⟨Team.Gnome,75,3⟩), (⟨4,5⟩, ⟨Team.Elf,125,5⟩), (⟨4,3⟩, ⟨Team.Gnome,200,3⟩), (⟨2,3⟩, ⟨Team.Gnome,85,3⟩), (⟨1,2⟩, ⟨Team.Gnome,200,3⟩)]⟩, 1⟩, ⟨7, 4398046511103, 4363416223614, 2181708111807⟩, ⟨2131936255232, 2214724096, 8589934592⟩⟩

def s5r26 : FastGame := ⟨⟨26, [⟨1,1⟩, ⟨2,2⟩, ⟨3,5⟩, ⟨4,5⟩, ⟨5,3⟩], ⟨⟨6,7⟩, [tW, tW, tW, tW, tW, tW, tW, tW, tG, tE, tE, tE, tE, tW, tW, tE, tG, tE, tE, tE, tW, tW, tE, tW, tE, tW, tG, tW, tW, tE, tE, tE, tW, tF, tW, tW, tE, tE, tG, tE, tE, tW, tW, tW, tW, tW, tW, tW, tW], [(⟨3,5⟩, ⟨Team.Gnome,70,3⟩), (⟨5,3⟩, ⟨Team.Gnome,200,3⟩), (⟨4,5⟩, ⟨Team.Elf,122,5⟩), (⟨2,2⟩, ⟨Team.Gnome,85,3⟩), (⟨1,1⟩, ⟨Team.Gnome,200,3⟩)]⟩, 1⟩, ⟨7, 4398046511103, 4363416223614, 2181708111807⟩, ⟨1859205897728, 274945081600, 8589934592⟩⟩

def s5r27 : FastGame := ⟨⟨27, [⟨1,1⟩, ⟨2,2⟩, ⟨3,5⟩, ⟨4,5⟩, ⟨5,4⟩], ⟨⟨6,7⟩, [tW, tW, tW, tW, tW, tW, tW, tW, tG, tE, tE, tE, tE, tW, tW, tE, tG, tE, tE, tE, tW, tW, tE, tW, tE, tW, tG, tW, tW, tE, tE, tE, tW, tF, tW, tW, tE, tE, tE, tG, tE, tW, tW, tW, tW, tW, tW, tW, tW], [(⟨5,4⟩, ⟨Team.Gnome,200,3⟩), (⟨3,5⟩, ⟨Team.Gnome,65,3⟩), (⟨4,5⟩, ⟨Team.Elf,119,5⟩), (⟨2,2⟩, ⟨Team.Gnome,85,3⟩), (⟨1,1⟩, ⟨Team.Gnome,200,3⟩)]⟩, 1⟩, ⟨7, 4398046511103, 4363416223614, 2181708111807⟩, ⟨1584327990784, 549822988544, 8589934592⟩⟩

def s5r28 : FastGame := ⟨⟨28, [⟨1,1⟩, ⟨2,2⟩, ⟨3,5⟩, ⟨4,5⟩, ⟨5,5⟩], ⟨⟨6,7⟩, [tW, tW, tW, tW, tW, tW, tW, tW, tG, tE, tE, tE, tE, tW, tW, tE, tG, tE, tE, tE, tW, tW, tE, tW, tE, tW, tG, tW, tW, tE, tE, tE, tW, tF, tW, tW, tE, tE, tE, tE, tG, tW, tW, tW, tW, tW, tW, tW, tW], [(⟨4,5⟩, ⟨Team.Elf,113,5⟩), (⟨5,5⟩, ⟨Team.Gnome,200,3⟩), (⟨3,5⟩, ⟨Team.Gnome,60,3⟩), (⟨2,2⟩, ⟨Team.Gnome,85,3⟩), (⟨1,1⟩, ⟨Team.Gnome,200,3⟩)]⟩, 1⟩, ⟨7, 4398046511103, 4363416223614, 2181708111807⟩, ⟨1034572176896, 1099578802432, 8589934592⟩⟩

def s5r29 : FastGame := ⟨⟨29, [⟨1,1⟩, ⟨2,2⟩, ⟨3,5⟩, ⟨4,5⟩, ⟨5,5⟩], ⟨⟨6,7⟩, [tW, tW, tW, tW, tW, tW, tW, tW, tG, tE, tE, tE, tE, tW, tW, tE, tG, tE, tE, tE, tW, tW, tE, tW, tE, tW, tG, tW, tW, tE, tE, tE, tW, tF, tW, tW, tE, tE, tE, tE, tG, tW, tW, tW, tW, tW, tW, tW, tW], [(⟨4,5⟩, ⟨Team.Elf,107,5⟩), (⟨3,5⟩, ⟨Team.Gnome,55,3⟩), (⟨5,5⟩, ⟨Team.Gnome,200,3⟩), (⟨2,2⟩, ⟨Team.Gnome,85,3⟩), (⟨1,1⟩, ⟨Team.Gnome,200,3⟩)]⟩, 1⟩, ⟨7, 4398046511103, 4363416223614, 2181708111807⟩, ⟨1034572176896, 1099578802432, 8589934592⟩⟩

def s5r30 : FastGame := ⟨⟨30, [⟨1,1⟩, ⟨2,2⟩, ⟨3,5⟩, ⟨4,5⟩, ⟨5,5⟩], ⟨⟨6,7⟩, [tW, tW, tW, tW, tW, tW, tW, tW, tG, tE, tE, tE, tE, tW, tW, tE, tG, tE, tE, tE, tW, tW, tE, tW, tE, tW, tG, tW, tW, tE, tE, tE, tW, tF, tW, tW, tE, tE, tE, tE, tG, tW, tW, tW, tW, tW, tW, tW, tW], [(⟨4,5⟩, ⟨Team.Elf,101,5⟩), (⟨3,5⟩, ⟨Team.Gnome,50,3⟩), (⟨5,5⟩, ⟨Team.Gnome,200,3⟩), (⟨2,2⟩, ⟨Team.Gnome,85,3⟩), (⟨1,1⟩, ⟨Team.Gnome,200,3⟩)]⟩, 1⟩, ⟨7, 4398046511103, 4363416223614, 2181708111807⟩, ⟨1034572176896, 1099578802432, 8589934592⟩⟩

def s5r31 : FastGame := ⟨⟨31, [⟨1,1⟩, ⟨2,2⟩, ⟨3,5⟩, ⟨4,5⟩, ⟨5,5⟩], ⟨⟨6,7⟩, [tW, tW, tW, tW, tW, tW, tW, tW, tG, tE, tE, tE, tE, tW, tW, tE, tG, tE, tE, tE, tW, tW, tE, tW, tE, tW, tG, tW, tW, tE, tE, tE, tW, tF, tW, tW, tE, tE, tE, tE, tG, tW, tW, tW, tW, tW, tW, tW, tW], [(⟨4,5⟩, ⟨Team.Elf,95,5⟩), (⟨3,5⟩, ⟨Team.Gnome,45,3⟩), (⟨5,5⟩, ⟨Team.Gnome,200,3⟩), (⟨2,2⟩, ⟨Team.Gnome,85,3⟩), (⟨1,1⟩, ⟨Team.Gnome,200,3⟩)]⟩, 1⟩, ⟨7, 4398046511103, 4363416223614, 2181708111807⟩, ⟨1034572176896, 1099578802432, 8589934592⟩⟩

def s5r32 : FastGame := ⟨⟨32, [⟨1,1⟩, ⟨2,2⟩, ⟨3,5⟩, ⟨4,5⟩, ⟨5,5⟩], ⟨⟨6,7⟩, [tW, tW, tW, tW, tW, tW, tW, tW, tG, tE, tE, tE, tE, tW, tW, tE, tG, tE, tE, tE, tW, tW, tE, tW, tE, tW, tG, tW, tW, tE, tE, tE, tW, tF, tW, tW, tE, tE, tE, tE, tG, tW, tW, tW, tW, tW, tW, tW, tW], [(⟨4,5⟩, ⟨Team.Elf,89,5⟩), (⟨3,5⟩, ⟨Team.Gnome,40,3⟩), (⟨5,5⟩, ⟨Team.Gnome,200,3⟩), (⟨2,2⟩, ⟨Team.Gnome,85,3⟩), (⟨1,1⟩, ⟨Team.Gnome,200,3⟩)]⟩, 1⟩, ⟨7, 4398046511103, 4363416223614, 2181708111807⟩, ⟨1034572176896, 1099578802432, 8589934592⟩⟩

def s5r33 : FastGame := ⟨⟨33, [⟨1,1⟩, ⟨2,2⟩, ⟨3,5⟩, ⟨4,5⟩, ⟨5,5⟩], ⟨⟨6,7⟩, [tW, tW, tW, tW, tW, tW, tW, tW, tG, tE, tE, tE, tE, tW, tW, tE, tG, tE, tE, tE, tW, tW, tE, tW, tE, tW, tG, tW, tW, tE, tE, tE, tW, tF, tW, tW, tE, tE, tE, tE, tG, tW, tW, tW, tW, tW, tW, tW, tW], [(⟨4,5⟩, ⟨Team.Elf,83,5⟩), (⟨3,5⟩, ⟨Team.Gnome,35,3⟩), (⟨5,5⟩, ⟨Team.Gnome,200,3⟩), (⟨2,2⟩, ⟨Team.Gnome,85,3⟩), (⟨1,1⟩, ⟨Team.Gnome,200,3⟩)]⟩, 1⟩, ⟨7, 4398046511103, 4363416223614, 2181708111807⟩, ⟨1034572176896, 1099578802432, 8589934592⟩⟩

def s5r34 : FastGame := ⟨⟨34, [⟨1,1⟩, ⟨2,2⟩, ⟨3,5⟩, ⟨4,5⟩, ⟨5,5⟩], ⟨⟨6,7⟩, [tW, tW, tW, tW, tW, tW, tW, tW, tG, tE, tE, tE, tE, tW, tW, tE, tG, tE, tE, tE, tW, tW, tE, tW, tE, tW, tG, tW, tW, tE, tE, tE, tW, tF, tW, tW, tE, tE, tE, tE, tG, tW, tW, tW, tW, tW, tW, tW, tW], [(⟨4,5⟩, ⟨Team.Elf,77,5⟩), (⟨3,5⟩, ⟨Team.Gnome,30,3⟩), (⟨5,5⟩, ⟨Team.Gnome,200,3⟩), (⟨2,2⟩, ⟨Team.Gnome,85,3⟩), (⟨1,1⟩, ⟨Team.Gnome,200,3⟩)]⟩, 1⟩, ⟨7, 4398046511103, 4363416223614, 2181708111807⟩, ⟨1034572176896, 1099578802432, 8589934592⟩⟩

def s5r35 : FastGame := ⟨⟨35, [⟨1,1⟩, ⟨2,2⟩, ⟨3,5⟩, ⟨4,5⟩, ⟨5,5⟩], ⟨⟨6,7⟩, [tW, tW, tW, tW, tW, tW, tW, tW, tG, tE, tE, tE, tE, tW, tW, tE, tG, tE, tE, tE, tW, tW, tE, tW, tE, tW, tG, tW, tW, tE, tE, tE, tW, tF, tW, tW, tE, tE, tE, tE, tG, tW, tW, tW, tW, tW, tW, tW, tW], [(⟨4,5⟩, ⟨Team.Elf,71,5⟩), (⟨3,5⟩, ⟨Team.Gnome,25,3⟩), (⟨5,5⟩, ⟨Team.Gnome,200,3⟩), (⟨2,2⟩, ⟨Team.Gnome,85,3⟩), (⟨1,1⟩, ⟨Team.Gnome,200,3⟩)]⟩, 1⟩, ⟨7, 4398046511103, 4363416223614, 2181708111807⟩, ⟨1034572176896, 1099578802432, 8589934592⟩⟩

def s5r36 : FastGame := ⟨⟨36, [⟨1,1⟩, ⟨2,2⟩, ⟨3,5⟩, ⟨4,5⟩, ⟨5,5⟩], ⟨⟨6,7⟩, [tW, tW, tW, tW, tW, tW, tW, tW, tG, tE, tE, tE, tE, tW, tW, tE, tG, tE, tE, tE, tW, tW, tE, tW, tE, tW, tG, tW, tW, tE, tE, tE, tW, tF, tW, tW, tE, tE, tE, tE, tG, tW, tW, tW, tW, tW, tW, tW, tW], [(⟨4,5⟩, ⟨Team.Elf,65,5⟩), (⟨3,5⟩, ⟨Team.Gnome,20,3⟩), (⟨5,5⟩, ⟨Team.Gnome,200,3⟩), (⟨2,2⟩, ⟨Team.Gnome,85,3⟩), (⟨1,1⟩, ⟨Team.Gnome,200,3⟩)]⟩, 1⟩, ⟨7, 4398046511103, 4363416223614, 2181708111807⟩, ⟨1034572176896, 1099578802432, 8589934592⟩⟩

def s5r37 : FastGame := ⟨⟨37, [⟨1,1⟩, ⟨2,2⟩, ⟨3,5⟩, ⟨4,5⟩, ⟨5,5⟩], ⟨⟨6,7⟩, [tW, tW, tW, tW, tW, tW, tW, tW, tG, tE, tE, tE, tE, tW, tW, tE, tG, tE, tE, tE, tW, tW, tE, tW, tE, tW, tG, tW, tW, tE, tE, tE, tW, tF, tW, tW, tE, tE, tE, tE, tG, tW, tW, tW, tW, tW, tW, tW, tW], [(⟨4,5⟩, ⟨Team.Elf,59,5⟩), (⟨3,5⟩, ⟨Team.Gnome,15,3⟩), (⟨5,5⟩, ⟨Team.Gnome,200,3⟩), (⟨2,2⟩, ⟨Team.Gnome,85,3⟩), (⟨1,1⟩, ⟨Team.Gnome,200,3⟩)]⟩, 1⟩, ⟨7, 4398046511103, 4363416223614, 2181708111807⟩, ⟨1034572176896, 1099578802432, 8589934592⟩⟩

def s5r38 : FastGame := ⟨⟨38, [⟨1,1⟩, ⟨2,2⟩, ⟨3,5⟩, ⟨4,5⟩, ⟨5,5⟩], ⟨⟨6,7⟩, [tW, tW, tW, tW, tW, tW, tW, tW, tG, tE, tE, tE, tE, tW, tW, tE, tG, tE, tE, tE, tW, tW, tE, tW, tE, tW, tG, tW, tW, tE, tE, tE, tW, tF, tW, tW, tE, tE, tE, tE, tG, tW, tW, tW, tW, tW, tW, tW, tW], [(⟨4,5⟩, ⟨Team.Elf,53,5⟩), (⟨3,5⟩, ⟨Team.Gnome,10,3⟩), (⟨5,5⟩, ⟨Team.Gnome,200,3⟩), (⟨2,2⟩, ⟨Team.Gnome,85,3⟩), (⟨1,1⟩, ⟨Team.Gnome,200,3⟩)]⟩, 1⟩, ⟨7, 4398046511103, 4363416223614, 2181708111807⟩, ⟨1034572176896, 1099578802432, 8589934592⟩⟩

def s5r39 : FastGame := ⟨⟨39, [⟨1,1⟩, ⟨2,2⟩, ⟨3,5⟩, ⟨4,5⟩, ⟨5,5⟩], ⟨⟨6,7⟩, [tW, tW, tW, tW, tW, tW, tW, tW, tG, tE, tE, tE, tE, tW, tW, tE, tG, tE, tE, tE, tW, tW, tE, tW, tE, tW, tG, tW, tW, tE, tE, tE, tW, tF, tW, tW, tE, tE, tE, tE, tG, tW, tW, tW, tW, tW, tW, tW, tW], [(⟨4,5⟩, ⟨Team.Elf,47,5⟩), (⟨3,5⟩, ⟨Team.Gnome,5,3⟩), (⟨5,5⟩, ⟨Team.Gnome,200,3⟩), (⟨2,2⟩, ⟨Team.Gnome,85,3⟩), (⟨1,1⟩, ⟨Team.Gnome,200,3⟩)]⟩, 1⟩, ⟨7, 4398046511103, 4363416223614, 2181708111807⟩, ⟨1034572176896, 1099578802432, 8589934592⟩⟩

def s5r40 : FastGame := ⟨⟨40, [⟨1,1⟩, ⟨2,2⟩, ⟨4,5⟩, ⟨5,5⟩], ⟨⟨6,7⟩, [tW, tW, tW, tW, tW, tW, tW, tW, tG, tE, tE, tE, tE, tW, tW, tE, tG, tE, tE, tE, tW, tW, tE, tW, tE, tW, tE, tW, tW, tE, tE, tE, tW, tF, tW, tW, tE, tE, tE, tE, tG, tW, tW, tW, tW, tW, tW, tW, tW], [(⟨4,5⟩, ⟨Team.Elf,41,5⟩), (⟨5,5⟩, ⟨Team.Gnome,200,3⟩), (⟨2,2⟩, ⟨Team.Gnome,85,3⟩), (⟨1,1⟩, ⟨Team.Gnome,200,3⟩)]⟩, 1⟩, ⟨7, 4398046511103, 4363416223614, 2181708111807⟩, ⟨1034639285760, 1099511693568, 8589934592⟩⟩

def s5r41 : FastGame := ⟨⟨41, [⟨1,2⟩, ⟨2,3⟩, ⟨4,5⟩, ⟨5,5⟩], ⟨⟨6,7⟩, [tW, tW, tW, tW, tW, tW, tW, tW, tE, tG, tE, tE, tE, tW, tW, tE, tE, tG, tE, tE, tW, tW, tE, tW, tE, tW, tE, tW, tW, tE, tE, tE, tW, tF, tW, tW, tE, tE, tE, tE, tG, tW, tW, tW, tW, tW, tW, tW, tW], [(⟨4,5⟩, ⟨Team.Elf,38,5⟩), (⟨5,5⟩, ⟨Team.Gnome,195,3⟩), (⟨2,3⟩, ⟨Team.Gnome,85,3⟩), (⟨1,2⟩, ⟨Team.Gnome,200,3⟩)]⟩, 1⟩, ⟨7, 4398046511103, 4363416223614, 2181708111807⟩, ⟨1034639219968, 1099511759360, 8589934592⟩⟩

def s5r42 : FastGame := ⟨⟨42, [⟨1,3⟩, ⟨2,4⟩, ⟨4,5⟩, ⟨5,5⟩], ⟨⟨6,7⟩, [tW, tW, tW, tW, tW, tW, tW, tW, tE, tE, tG, tE, tE, tW, tW, tE, tE, tE, tG, tE, tW, tW, tE, tW, tE, tW, tE, tW, tW, tE, tE, tE, tW, tF, tW, tW, tE, tE, tE, tE, tG, tW, tW, tW, tW, tW, tW, tW, tW], [(⟨4,5⟩, ⟨Team.Elf,35,5⟩), (⟨5,5⟩, ⟨Team.Gnome,190,3⟩), (⟨2,4⟩, ⟨Team.Gnome,85,3⟩), (⟨1,3⟩, ⟨Team.Gnome,200,3⟩)]⟩, 1⟩, ⟨7, 4398046511103, 4363416223614, 2181708111807⟩, ⟨1034639088384, 1099511890944, 8589934592⟩⟩

def s5r43 : FastGame := ⟨⟨43, [⟨1,4⟩, ⟨2,5⟩, ⟨4,5⟩, ⟨5,5⟩], ⟨⟨6,7⟩, [tW, tW, tW, tW, tW, tW, tW, tW, tE, tE, tE, tG, tE, tW, tW, tE, tE, tE, tE, tG, tW, tW, tE, tW, tE, tW, tE, tW, tW, tE, tE, tE, tW, tF, tW, tW, tE, tE, tE, tE, tG, tW, tW, tW, tW, tW, tW, tW, tW], [(⟨4,5⟩, ⟨Team.Elf,32,5⟩), (⟨5,5⟩, ⟨Team.Gnome,185,3⟩), (⟨2,5⟩, ⟨Team.Gnome,85,3⟩), (⟨1,4⟩, ⟨Team.Gnome,200,3⟩)]⟩, 1⟩, ⟨7, 4398046511103, 4363416223614, 2181708111807⟩, ⟨1034638825216, 1099512154112, 8589934592⟩⟩

def s5r44 : FastGame := ⟨⟨44, [⟨1,4⟩, ⟨3,5⟩, ⟨4,5⟩, ⟨5,5⟩], ⟨⟨6,7⟩, [tW, tW, tW, tW, tW, tW, tW, tW, tE, tE, tE, tG, tE, tW, tW, tE, tE, tE, tE, tE, tW, tW, tE, tW, tE, tW, tG, tW, tW, tE, tE, tE, tW, tF, tW, tW, tE, tE, tE, tE, tG, tW, tW, tW, tW, tW, tW, tW, tW], [(⟨4,5⟩, ⟨Team.Elf,26,5⟩), (⟨3,5⟩, ⟨Team.Gnome,80,3⟩), (⟨5,5⟩, ⟨Team.Gnome,185,3⟩), (⟨1,4⟩, ⟨Team.Gnome,200,3⟩)]⟩, 1⟩, ⟨7, 4398046511103, 4363416223614, 2181708111807⟩, ⟨1034572240640, 1099578738688, 8589934592⟩⟩

def s5r45 : FastGame := ⟨⟨45, [⟨1,4⟩, ⟨3,5⟩, ⟨4,5⟩, ⟨5,5⟩], ⟨⟨6,7⟩, [tW, tW, tW, tW, tW, tW, tW, tW, tE, tE, tE, tG, tE, tW, tW, tE, tE, tE, tE, tE, tW, tW, tE, tW, tE, tW, tG, tW, tW, tE, tE, tE, tW, tF, tW, tW, tE, tE, tE, tE, tG, tW, tW, tW, tW, tW, tW, tW, tW], [(⟨4,5⟩, ⟨Team.Elf,20,5⟩), (⟨3,5⟩, ⟨Team.Gnome,75,3⟩), (⟨5,5⟩, ⟨Team.Gnome,185,3⟩), (⟨1,4⟩, ⟨Team.Gnome,200,3⟩)]⟩, 1⟩, ⟨7, 4398046511103, 4363416223614, 2181708111807⟩, ⟨1034572240640, 1099578738688, 8589934592⟩⟩

def s5r46 : FastGame := ⟨⟨46, [⟨1,4⟩, ⟨3,5⟩, ⟨4,5⟩, ⟨5,5⟩], ⟨⟨6,7⟩, [tW, tW, tW, tW, tW, tW, tW, tW, tE, tE, tE, tG, tE, tW, tW, tE, tE, tE, tE, tE, tW, tW, tE, tW, tE, tW, tG, tW, tW, tE, tE, tE, tW, tF, tW, tW, tE, tE, tE, tE, tG, tW, tW, tW, tW, tW, tW, tW, tW], [(⟨4,5⟩, ⟨Team.Elf,14,5⟩), (⟨3,5⟩, ⟨Team.Gnome,70,3⟩), (⟨5,5⟩, ⟨Team.Gnome,185,3⟩), (⟨1,4⟩, ⟨Team.Gnome,200,3⟩)]⟩, 1⟩, ⟨7, 4398046511103, 4363416223614, 2181708111807⟩, ⟨1034572240640, 1099578738688, 8589934592⟩⟩

def s5r47 : FastGame := ⟨⟨47, [⟨1,4⟩, ⟨3,5⟩, ⟨4,5⟩, ⟨5,5⟩], ⟨⟨6,7⟩, [tW, tW, tW, tW, tW, tW, tW, tW, tE, tE, tE, tG, tE, tW, tW, tE, tE, tE, tE, tE, tW, tW, tE, tW, tE, tW, tG, tW, tW, tE, tE, tE, tW, tF, tW, tW, tE, tE, tE, tE, tG, tW, tW, tW, tW, tW, tW, tW, tW], [(⟨4,5⟩, ⟨Team.Elf,8,5⟩), (⟨3,5⟩, ⟨Team.Gnome,65,3⟩), (⟨5,5⟩, ⟨Team.Gnome,185,3⟩), (⟨1,4⟩, ⟨Team.Gnome,200,3⟩)]⟩, 1⟩, ⟨7, 4398046511103, 4363416223614, 2181708111807⟩, ⟨1034572240640, 1099578738688, 8589934592⟩⟩

def s5r48 : FastGame := ⟨⟨48, [⟨1,4⟩, ⟨3,5⟩, ⟨4,5⟩, ⟨5,5⟩], ⟨⟨6,7⟩, [tW, tW, tW, tW, tW, tW, tW, tW, tE, tE, tE, tG, tE, tW, tW, tE, tE, tE, tE, tE, tW, tW, tE, tW, tE, tW, tG, tW, tW, tE, tE, tE, tW, tF, tW, tW, tE, tE, tE, tE, tG, tW, tW, tW, tW, tW, tW, tW, tW], [(⟨4,5⟩, ⟨Team.Elf,2,5⟩), (⟨3,5⟩, ⟨Team.Gnome,60,3⟩), (⟨5,5⟩, ⟨Team.Gnome,185,3⟩), (⟨1,4⟩, ⟨Team.Gnome,200,3⟩)]⟩, 1⟩, ⟨7, 4398046511103, 4363416223614, 2181708111807⟩, ⟨1034572240640, 1099578738688, 8589934592⟩⟩

def s5r49 : FastGame := ⟨⟨48, [], ⟨⟨6,7⟩, [tW, tW, tW, tW, tW, tW, tW, tW, tE, tE, tE, tG, tE, tW, tW, tE, tE, tE, tE, tE, tW, tW, tE, tW, tE, tW, tG, tW, tW, tE, tE, tE, tW, tE, tW, tW, tE, tE, tE, tE, tG, tW, tW, tW, tW, tW, tW, tW, tW], [(⟨3,5⟩, ⟨Team.Gnome,60,3⟩), (⟨5,5⟩, ⟨Team.Gnome,185,3⟩), (⟨1,4⟩, ⟨Team.Gnome,200,3⟩)]⟩, 2⟩, ⟨7, 4398046511103, 4363416223614, 2181708111807⟩, ⟨1043162175232, 1099578738688, 0⟩⟩

-- power 6: 51 states
def s6r0 : FastGame := ⟨⟨0, [⟨1,2⟩, ⟨2,4⟩, ⟨2,5⟩, ⟨3,5⟩, ⟨4,3⟩, ⟨4,5⟩], ⟨⟨6,7⟩, [tW, tW, tW, tW, tW, tW, tW, tW, tE, tG, tE, tE, tE, tW, tW, tE, tE, tE, tF, tG, tW, tW, tE, tW, tE, tW, tG, tW, tW, tE, tE, tG, tW, tF, tW, tW, tE, tE, tE, tE, tE, tW, tW, tW, tW, tW, tW, tW, tW], [(⟨4,5⟩, ⟨Team.Elf,200,6⟩), (⟨4,3⟩, ⟨Team.Gnome,200,3⟩), (⟨3,5⟩, ⟨Team.Gnome,200,3⟩), (⟨2,5⟩, ⟨Team.Gnome,200,3⟩), (⟨2,4⟩, ⟨Team.Elf,200,6⟩), (⟨1,2⟩, ⟨Team.Gnome,200,3⟩)]⟩, 0⟩, ⟨7, 4398046511103, 4363416223614, 2181708111807⟩, ⟨2131935599872, 2215117312, 8590196736⟩⟩

def s6r1 : FastGame := ⟨⟨1, [⟨1,3⟩, ⟨2,4⟩, ⟨2,5⟩, ⟨3,3⟩, ⟨3,5⟩, ⟨4,5⟩], ⟨⟨6,7⟩, [tW, tW, tW, tW, tW, tW, tW, tW, tE, tE, tG, tE, tE, tW, tW, tE, tE, tE, tF, tG, tW, tW, tE, tW, tG, tW, tG, tW, tW, tE, tE, tE, tW, tF, tW, tW, tE, tE, tE, tE, tE, tW, tW, tW, tW, tW, tW, tW, tW], [(⟨3,5⟩, ⟨Team.Gnome,194,3⟩), (⟨3,3⟩, ⟨Team.Gnome,200,3⟩), (⟨4,5⟩, ⟨Team.Elf,197,6⟩), (⟨2,4⟩, ⟨Team.Elf,197,6⟩), (⟨2,5⟩, ⟨Team.Gnome,194,3⟩), (⟨1,3⟩, ⟨Team.Gnome,200,3⟩)]⟩, 0⟩, ⟨7, 4398046511103, 4363416223614, 2181708111807⟩, ⟨2134066305792, 84411392, 8590196736⟩⟩

def s6r2 : FastGame := ⟨⟨2, [⟨1,4⟩, ⟨2,3⟩, ⟨2,4⟩, ⟨2,5⟩, ⟨3,5⟩, ⟨4,5⟩], ⟨⟨6,7⟩, [tW, tW, tW, tW, tW, tW, tW, tW, tE, tE, tE, tG, tE, tW, tW, tE, tE, tG, tF, tG, tW, tW, tE, tW, tE, tW, tG, tW, tW, tE, tE, tE, tW, tF, tW, tW, tE, tE, tE, tE, tE, tW, tW, tW, tW, tW, tW, tW, tW], [(⟨3,5⟩, ⟨Team.Gnome,188,3⟩), (⟨4,5⟩, ⟨Team.Elf,194,6⟩), (⟨2,4⟩, ⟨Team.Elf,188,6⟩), (⟨2,3⟩, ⟨Team.Gnome,200,3⟩), (⟨2,5⟩, ⟨Team.Gnome,188,3⟩), (⟨1,4⟩, ⟨Team.Gnome,200,3⟩)]⟩, 0⟩, ⟨7, 4398046511103, 4363416223614, 2181708111807⟩, ⟨2134082950912, 67766272, 8590196736⟩⟩

def s6r3 : FastGame := ⟨⟨3, [⟨1,4⟩, ⟨2,3⟩, ⟨2,4⟩, ⟨2,5⟩, ⟨3,5⟩, ⟨4,5⟩], ⟨⟨6,7⟩, [tW, tW, tW, tW, tW, tW, tW, tW, tE, tE, tE, tG, tE, tW, tW, tE, tE, tG, tF, tG, tW, tW, tE, tW, tE, tW, tG, tW, tW, tE, tE, tE, tW, tF, tW, tW, tE, tE, tE, tE, tE, tW, tW, tW, tW, tW, tW, tW, tW], [(⟨3,5⟩, ⟨Team.Gnome,182,3⟩), (⟨4,5⟩, ⟨Team.Elf,191,6⟩), (⟨2,4⟩, ⟨Team.Elf,179,6⟩), (⟨2,5⟩, ⟨Team.Gnome,182,3⟩), (⟨2,3⟩, ⟨Team.Gnome,200,3⟩), (⟨1,4⟩, ⟨Team.Gnome,200,3⟩)]⟩, 0⟩, ⟨7, 4398046511103, 4363416223614, 2181708111807⟩, ⟨2134082950912, 67766272, 8590196736⟩⟩

def s6r4 : FastGame := ⟨⟨4, [⟨1,4⟩, ⟨2,3⟩, ⟨2,4⟩, ⟨2,5⟩, ⟨3,5⟩, ⟨4,5⟩], ⟨⟨6,7⟩, [tW, tW, tW, tW, tW, tW, tW, tW, tE, tE, tE, tG, tE, tW, tW, tE, tE, tG, tF, tG, tW, tW, tE, tW, tE, tW, tG, tW, tW, tE, tE, tE, tW, tF, tW, tW, tE, tE, tE, tE, tE, tW, tW, tW, tW, tW, tW, tW, tW], [(⟨3,5⟩, ⟨Team.Gnome,176,3⟩), (⟨4,5⟩, ⟨Team.Elf,188,6⟩), (⟨2,4⟩, ⟨Team.Elf,170,6⟩), (⟨2,5⟩, ⟨Team.Gnome,176,3⟩), (⟨2,3⟩, ⟨Team.Gnome,200,3⟩), (⟨1,4⟩, ⟨Team.Gnome,200,3⟩)]⟩, 0⟩, ⟨7, 4398046511103, 4363416223614, 2181708111807⟩, ⟨2134082950912, 67766272, 8590196736⟩⟩

def s6r5 : FastGame := ⟨⟨5, [⟨1,4⟩, ⟨2,3⟩, ⟨2,4⟩, ⟨2,5⟩, ⟨3,5⟩, ⟨4,5⟩], ⟨⟨6,7⟩, [tW, tW, tW, tW, tW, tW, tW, tW, tE, tE, tE, tG, tE, tW, tW, tE, tE, tG, tF, tG, tW, tW, tE, tW, tE, tW, tG, tW, tW, tE, tE, tE, tW, tF, tW, tW, tE, tE, tE, tE, tE, tW, tW, tW, tW, tW, tW, tW, tW], [(⟨3,5⟩, ⟨Team.Gnome,170,3⟩), (⟨4,5⟩, ⟨Team.Elf,185,6⟩), (⟨2,4⟩, ⟨Team.Elf,161,6⟩), (⟨2,5⟩, ⟨Team.Gnome,170,3⟩), (⟨2,3⟩, ⟨Team.Gnome,200,3⟩), (⟨1,4⟩, ⟨Team.Gnome,200,3⟩)]⟩, 0⟩, ⟨7, 4398046511103, 4363416223614, 2181708111807⟩, ⟨2134082950912, 67766272, 8590196736⟩⟩

def s6r6 : FastGame := ⟨⟨6, [⟨1,4⟩, ⟨2,3⟩, ⟨2,4⟩, ⟨2,5⟩, ⟨3,5⟩, ⟨4,5⟩], ⟨⟨6,7⟩, [tW, tW, tW, tW, tW, tW, tW, tW, tE, tE, tE, tG, tE, tW, tW, tE, tE, tG, tF, tG, tW, tW, tE, tW, tE, tW, tG, tW, tW, tE, tE, tE, tW, tF, tW, tW, tE, tE, tE, tE, tE, tW, tW, tW, tW, tW, tW, tW, tW], [(⟨3,5⟩, ⟨Team.Gnome,164,3⟩), (⟨4,5⟩, ⟨Team.Elf,182,6⟩), (⟨2,4⟩, ⟨Team.Elf,152,6⟩), (⟨2,5⟩, ⟨Team.Gnome,164,3⟩), (⟨2,3⟩, ⟨Team.Gnome,200,3⟩), (⟨1,4⟩, ⟨Team.Gnome,200,3⟩)]⟩, 0⟩, ⟨7, 4398046511103, 4363416223614, 2181708111807⟩, ⟨2134082950912, 67766272, 8590196736⟩⟩

def s6r7 : FastGame := ⟨⟨7, [⟨1,4⟩, ⟨2,3⟩, ⟨2,4⟩, ⟨2,5⟩, ⟨3,5⟩, ⟨4,5⟩], ⟨⟨6,7⟩, [tW, tW, tW, tW, tW, tW, tW, tW, tE, tE, tE, tG, tE, tW, tW, tE, tE, tG, tF, tG, tW, tW, tE, tW, tE, tW, tG, tW, tW, tE, tE, tE, tW, tF, tW, tW, tE, tE, tE, tE, tE, tW, tW, tW, tW, tW, tW, tW, tW], [(⟨3,5⟩, ⟨Team.Gnome,158,3⟩), (⟨4,5⟩, ⟨Team.Elf,179,6⟩), (⟨2,4⟩, ⟨Team.Elf,143,6⟩), (⟨2,5⟩, ⟨Team.Gnome,158,3⟩), (⟨2,3⟩, ⟨Team.Gnome,200,3⟩), (⟨1,4⟩, ⟨Team.Gnome,200,3⟩)]⟩, 0⟩, ⟨7, 4398046511103, 4363416223614, 2181708111807⟩, ⟨2134082950912, 67766272, 8590196736⟩⟩

def s6r8 : FastGame := ⟨⟨8, [⟨1,4⟩, ⟨2,3⟩, ⟨2,4⟩, ⟨2,5⟩, ⟨3,5⟩, ⟨4,5⟩], ⟨⟨6,7⟩, [tW, tW, tW, tW, tW, tW, tW, tW, tE, tE, tE, tG, tE, tW, tW, tE, tE, tG, tF, tG, tW, tW, tE, tW, tE, tW, tG, tW, tW, tE, tE, tE, tW, tF, tW, tW, tE, tE, tE, tE, tE, tW, tW, tW, tW, tW, tW, tW, tW], [(⟨3,5⟩, ⟨Team.Gnome,152,3⟩), (⟨4,5⟩, ⟨Team.Elf,176,6⟩), (⟨2,4⟩, ⟨Team.Elf,134,6⟩), (⟨2,5⟩, ⟨Team.Gnome,152,3⟩), (⟨2,3⟩, ⟨Team.Gnome,200,3⟩), (⟨1,4⟩, ⟨Team.Gnome,200,3⟩)]⟩, 0⟩, ⟨7, 4398046511103, 4363416223614, 2181708111807⟩, ⟨2134082950912, 67766272, 8590196736⟩⟩

def s6r9 : FastGame := ⟨⟨9, [⟨1,4⟩, ⟨2,3⟩, ⟨2,4⟩, ⟨2,5⟩, ⟨3,5⟩, ⟨4,5⟩], ⟨⟨6,7⟩, [tW, tW, tW, tW, tW, tW, tW, tW, tE, tE, tE, tG, tE, tW, tW, tE, tE, tG, tF, tG, tW, tW, tE, tW, tE, tW, tG, tW, tW, tE, tE, tE, tW, tF, tW, tW, tE, tE, tE, tE, tE, tW, tW, tW, tW, tW, tW, tW, tW], [(⟨3,5⟩, ⟨Team.Gnome,146,3⟩), (⟨4,5⟩, ⟨Team.Elf,173,6⟩), (⟨2,4⟩, ⟨Team.Elf,125,6⟩), (⟨2,5⟩, ⟨Team.Gnome,146,3⟩), (⟨2,3⟩, ⟨Team.Gnome,200,3⟩), (⟨1,4⟩, ⟨Team.Gnome,200,3⟩)]⟩, 0⟩, ⟨7, 4398046511103, 4363416223614, 2181708111807⟩, ⟨2134082950912, 67766272, 8590196736⟩⟩

def s6r10 : FastGame := ⟨⟨10, [⟨1,4⟩, ⟨2,3⟩, ⟨2,4⟩, ⟨2,5⟩, ⟨3,5⟩, ⟨4,5⟩], ⟨⟨6,7⟩, [tW, tW, tW, tW, tW, tW, tW, tW, tE, tE, tE, tG, tE, tW, tW, tE, tE, tG, tF, tG, tW, tW, tE, tW, tE, tW, tG, tW, tW, tE, tE, tE, tW, tF, tW, tW, tE, tE, tE, tE, tE, tW, tW, tW, tW, tW, tW, tW, tW], [(⟨3,5⟩, ⟨Team.Gnome,140,3⟩), (⟨4,5⟩, ⟨Team.Elf,170,6⟩), (⟨2,4⟩, ⟨Team.Elf,116,6⟩), (⟨2,5⟩, ⟨Team.Gnome,140,3⟩), (⟨2,3⟩, ⟨Team.Gnome,200,3⟩), (⟨1,4⟩, ⟨Team.Gnome,200,3⟩)]⟩, 0⟩, ⟨7, 4398046511103, 4363416223614, 2181708111807⟩, ⟨2134082950912, 67766272, 8590196736⟩⟩

def s6r11 : FastGame := ⟨⟨11, [⟨1,4⟩, ⟨2,3⟩, ⟨2,4⟩, ⟨2,5⟩, ⟨3,5⟩, ⟨4,5⟩], ⟨⟨6,7⟩, [tW, tW, tW, tW, tW, tW, tW, tW, tE, tE, tE, tG, tE, tW, tW, tE, tE, tG, tF, tG, tW, tW, tE, tW, tE, tW, tG, tW, tW, tE, tE, tE, tW, tF, tW, tW, tE, tE, tE, tE, tE, tW, tW, tW, tW, tW, tW, tW, tW], [(⟨3,5⟩, ⟨Team.Gnome,134,3⟩), (⟨4,5⟩, ⟨Team.Elf,167,6⟩), (⟨2,4⟩, ⟨Team.Elf,107,6⟩), (⟨2,5⟩, ⟨Team.Gnome,134,3⟩), (⟨2,3⟩, ⟨Team.Gnome,200,3⟩), (⟨1,4⟩, ⟨Team.Gnome,200,3⟩)]⟩, 0⟩, ⟨7, 4398046511103, 4363416223614, 2181708111807⟩, ⟨2134082950912, 67766272, 8590196736⟩⟩

def s6r12 : FastGame := ⟨⟨12, [⟨1,4⟩, ⟨2,3⟩, ⟨2,4⟩, ⟨2,5⟩, ⟨3,5⟩, ⟨4,5⟩], ⟨⟨6,7⟩, [tW, tW, tW, tW, tW, tW, tW, tW, tE, tE, tE, tG, tE, tW, tW, tE, tE, tG, tF, tG, tW, tW, tE, tW, tE, tW, tG, tW, tW, tE, tE, tE, tW, tF, tW, tW, tE, tE, tE, tE, tE, tW, tW, tW, tW, tW, tW, tW, tW], [(⟨3,5⟩, ⟨Team.Gnome,128,3⟩), (⟨4,5⟩, ⟨Team.Elf,164,6⟩), (⟨2,4⟩, ⟨Team.Elf,98,6⟩), (⟨2,5⟩, ⟨Team.Gnome,128,3⟩), (⟨2,3⟩, ⟨Team.Gnome,200,3⟩), (⟨1,4⟩, ⟨Team.Gnome,200,3⟩)]⟩, 0⟩, ⟨7, 4398046511103, 4363416223614, 2181708111807⟩, ⟨2134082950912, 67766272, 8590196736⟩⟩

def s6r13 : FastGame := ⟨⟨13, [⟨1,4⟩, ⟨2,3⟩, ⟨2,4⟩, ⟨2,5⟩, ⟨3,5⟩, ⟨4,5⟩], ⟨⟨6,7⟩, [tW, tW, tW, tW, tW, tW, tW, tW, tE, tE, tE, tG, tE, tW, tW, tE, tE, tG, tF, tG, tW, tW, tE, tW, tE, tW, tG, tW, tW, tE, tE, tE, tW, tF, tW, tW, tE, tE, tE, tE, tE, tW, tW, tW, tW, tW, tW, tW, tW], [(⟨3,5⟩, ⟨Team.Gnome,122,3⟩), (⟨4,5⟩, ⟨Team.Elf,161,6⟩), (⟨2,4⟩, ⟨Team.Elf,89,6⟩), (⟨2,5⟩, ⟨Team.Gnome,122,3⟩), (⟨2,3⟩, ⟨Team.Gnome,200,3⟩), (⟨1,4⟩, ⟨Team.Gnome,200,3⟩)]⟩, 0⟩, ⟨7, 4398046511103, 4363416223614, 2181708111807⟩, ⟨2134082950912, 67766272, 8590196736⟩⟩

def s6r14 : FastGame := ⟨⟨14, [⟨1,4⟩, ⟨2,3⟩, ⟨2,4⟩, ⟨2,5⟩, ⟨3,5⟩, ⟨4,5⟩], ⟨⟨6,7⟩, [tW, tW, tW, tW, tW, tW, tW, tW, tE, tE, tE, tG, tE, tW, tW, tE, tE, tG, tF, tG, tW, tW, tE, tW, tE, tW, tG, tW, tW, tE, tE, tE, tW, tF, tW, tW, tE, tE, tE, tE, tE, tW, tW, tW, tW, tW, tW, tW, tW], [(⟨3,5⟩, ⟨Team.Gnome,116,3⟩), (⟨4,5⟩, ⟨Team.Elf,158,6⟩), (⟨2,4⟩, ⟨Team.Elf,80,6⟩), (⟨2,5⟩, ⟨Team.Gnome,116,3⟩), (⟨2,3⟩, ⟨Team.Gnome,200,3⟩), (⟨1,4⟩, ⟨Team.Gnome,200,3⟩)]⟩, 0⟩, ⟨7, 4398046511103, 4363416223614, 2181708111807⟩, ⟨2134082950912, 67766272, 8590196736⟩⟩

def s6r15 : FastGame := ⟨⟨15, [⟨1,4⟩, ⟨2,3⟩, ⟨2,4⟩, ⟨2,5⟩, ⟨3,5⟩, ⟨4,5⟩], ⟨⟨6,7⟩, [tW, tW, tW, tW, tW, tW, tW, tW, tE, tE, tE, tG, tE, tW, tW, tE, tE, tG, tF, tG, tW, tW, tE, tW, tE, tW, tG, tW, tW, tE, tE, tE, tW, tF, tW, tW, tE, tE, tE, tE, tE, tW, tW, tW, tW, tW, tW, tW, tW], [(⟨3,5⟩, ⟨Team.Gnome,110,3⟩), (⟨4,5⟩, ⟨Team.Elf,155,6⟩), (⟨2,4⟩, ⟨Team.Elf,71,6⟩), (⟨2,5⟩, ⟨Team.Gnome,110,3⟩), (⟨2,3⟩, ⟨Team.Gnome,200,3⟩), (⟨1,4⟩, ⟨Team.Gnome,200,3⟩)]⟩, 0⟩, ⟨7, 4398046511103, 4363416223614, 2181708111807⟩, ⟨2134082950912, 67766272, 8590196736⟩⟩

def s6r16 : FastGame := ⟨⟨16, [⟨1,4⟩, ⟨2,3⟩, ⟨2,4⟩, ⟨2,5⟩, ⟨3,5⟩, ⟨4,5⟩], ⟨⟨6,7⟩, [tW, tW, tW, tW, tW, tW, tW, tW, tE, tE, tE, tG, tE, tW, tW, tE, tE, tG, tF, tG, tW, tW, tE, tW, tE, tW, tG, tW, tW, tE, tE, tE, tW, tF, tW, tW, tE, tE, tE, tE, tE, tW, tW, tW, tW, tW, tW, tW, tW], [(⟨3,5⟩, ⟨Team.Gnome,104,3⟩), (⟨4,5⟩, ⟨Team.Elf,152,6⟩), (⟨2,4⟩, ⟨Team.Elf,62,6⟩), (⟨2,5⟩, ⟨Team.Gnome,104,3⟩), (⟨2,3⟩, ⟨Team.Gnome,200,3⟩), (⟨1,4⟩, ⟨Team.Gnome,200,3⟩)]⟩, 0⟩, ⟨7, 4398046511103, 4363416223614, 2181708111807⟩, ⟨2134082950912, 67766272, 8590196736⟩⟩

def s6r17 : FastGame := ⟨⟨17, [⟨1,4⟩, ⟨2,3⟩, ⟨2,4⟩, ⟨2,5⟩, ⟨3,5⟩, ⟨4,5⟩], ⟨⟨6,7⟩, [tW, tW, tW, tW, tW, tW, tW, tW, tE, tE, tE, tG, tE, tW, tW, tE, tE, tG, tF, tG, tW, tW, tE, tW, tE, tW, tG, tW, tW, tE, tE, tE, tW, tF, tW, tW, tE, tE, tE, tE, tE, tW, tW, tW, tW, tW, tW, tW, tW], [(⟨3,5⟩, ⟨Team.Gnome,98,3⟩), (⟨4,5⟩, ⟨Team.Elf,149,6⟩), (⟨2,4⟩, ⟨Team.Elf,53,6⟩), (⟨2,5⟩, ⟨Team.Gnome,98,3⟩), (⟨2,3⟩, ⟨Team.Gnome,200,3⟩), (⟨1,4⟩, ⟨Team.Gnome,200,3⟩)]⟩, 0⟩, ⟨7, 4398046511103, 4363416223614, 2181708111807⟩, ⟨2134082950912, 67766272, 8590196736⟩⟩

def s6r18 : FastGame := ⟨⟨18, [⟨1,4⟩, ⟨2,3⟩, ⟨2,4⟩, ⟨2,5⟩, ⟨3,5⟩, ⟨4,5⟩], ⟨⟨6,7⟩, [tW, tW, tW, tW, tW, tW, tW, tW, tE, tE, tE, tG, tE, tW, tW, tE, tE, tG, tF, tG, tW, tW, tE, tW, tE, tW, tG, tW, tW, tE, tE, tE, tW, tF, tW, tW, tE, tE, tE, tE, tE, tW, tW, tW, tW, tW, tW, tW, tW], [(⟨3,5⟩, ⟨Team.Gnome,92,3⟩), (⟨4,5⟩, ⟨Team.Elf,146,6⟩), (⟨2,4⟩, ⟨Team.Elf,44,6⟩), (⟨2,5⟩, ⟨Team.Gnome,92,3⟩), (⟨2,3⟩, ⟨Team.Gnome,200,3⟩), (⟨1,4⟩, ⟨Team.Gnome,200,3⟩)]⟩, 0⟩, ⟨7, 4398046511103, 4363416223614, 2181708111807⟩, ⟨2134082950912, 67766272, 8590196736⟩⟩

def s6r19 : FastGame := ⟨⟨19, [⟨1,4⟩, ⟨2,3⟩, ⟨2,4⟩, ⟨2,5⟩, ⟨3,5⟩, ⟨4,5⟩], ⟨⟨6,7⟩, [tW, tW, tW, tW, tW, tW, tW, tW, tE, tE, tE, tG, tE, tW, tW, tE, tE, tG, tF, tG, tW, tW, tE, tW, tE, tW, tG, tW, tW, tE, tE, tE, tW, tF, tW, tW, tE, tE, tE, tE, tE, tW, tW, tW, tW, tW, tW, tW, tW], [(⟨3,5⟩, ⟨Team.Gnome,86,3⟩), (⟨4,5⟩, ⟨Team.Elf,143,6⟩), (⟨2,4⟩, ⟨Team.Elf,35,6⟩), (⟨2,5⟩, ⟨Team.Gnome,86,3⟩), (⟨2,3⟩, ⟨Team.Gnome,200,3⟩), (⟨1,4⟩, ⟨Team.Gnome,200,3⟩)]⟩, 0⟩, ⟨7, 4398046511103, 4363416223614, 2181708111807⟩, ⟨2134082950912, 67766272, 8590196736⟩⟩

def s6r20 : FastGame := ⟨⟨20, [⟨1,4⟩, ⟨2,3⟩, ⟨2,4⟩, ⟨2,5⟩, ⟨3,5⟩, ⟨4,5⟩], ⟨⟨6,7⟩, [tW, tW, tW, tW, tW, tW, tW, tW, tE, tE, tE, tG, tE, tW, tW, tE, tE, tG, tF, tG, tW, tW, tE, tW, tE, tW, tG, tW, tW, tE, tE, tE, tW, tF, tW, tW, tE, tE, tE, tE, tE, tW, tW, tW, tW, tW, tW, tW, tW], [(⟨3,5⟩, ⟨Team.Gnome,80,3⟩), (⟨4,5⟩, ⟨Team.Elf,140,6⟩), (⟨2,4⟩, ⟨Team.Elf,26,6⟩), (⟨2,5⟩, ⟨Team.Gnome,80,3⟩), (⟨2,3⟩, ⟨Team.Gnome,200,3⟩), (⟨1,4⟩, ⟨Team.Gnome,200,3⟩)]⟩, 0⟩, ⟨7, 4398046511103, 4363416223614, 2181708111807⟩, ⟨2134082950912, 67766272, 8590196736⟩⟩

def s6r21 : FastGame := ⟨⟨21, [⟨1,4⟩, ⟨2,3⟩, ⟨2,4⟩, ⟨2,5⟩, ⟨3,5⟩, ⟨4,5⟩], ⟨⟨6,7⟩, [tW, tW, tW, tW, tW, tW, tW, tW, tE, tE, tE, tG, tE, tW, tW, tE, tE, tG, tF, tG, tW, tW, tE, tW, tE, tW, tG, tW, tW, tE, tE, tE, tW, tF, tW, tW, tE, tE, tE, tE, tE, tW, tW, tW, tW, tW, tW, tW, tW], [(⟨3,5⟩, ⟨Team.Gnome,74,3⟩), (⟨4,5⟩, ⟨Team.Elf,137,6⟩), (⟨2,4⟩, ⟨Team.Elf,17,6⟩), (⟨2,5⟩, ⟨Team.Gnome,74,3⟩), (⟨2,3⟩, ⟨Team.Gnome,200,3⟩), (⟨1,4⟩, ⟨Team.Gnome,200,3⟩)]⟩, 0⟩, ⟨7, 4398046511103, 4363416223614, 2181708111807⟩, ⟨2134082950912, 67766272, 8590196736⟩⟩

def s6r22 : FastGame := ⟨⟨22, [⟨1,4⟩, ⟨2,3⟩, ⟨2,4⟩, ⟨2,5⟩, ⟨3,5⟩, ⟨4,5⟩], ⟨⟨6,7⟩, [tW, tW, tW, tW, tW, tW, tW, tW, tE, tE, tE, tG, tE, tW, tW, tE, tE, tG, tF, tG, tW, tW, tE, tW, tE, tW, tG, tW, tW, tE, tE, tE, tW, tF, tW, tW, tE, tE, tE, tE, tE, tW, tW, tW, tW, tW, tW, tW, tW], [(⟨3,5⟩, ⟨Team.Gnome,68,3⟩), (⟨4,5⟩, ⟨Team.Elf,134,6⟩), (⟨2,4⟩, ⟨Team.Elf,8,6⟩), (⟨2,5⟩, ⟨Team.Gnome,68,3⟩), (⟨2,3⟩, ⟨Team.Gnome,200,3⟩), (⟨1,4⟩, ⟨Team.Gnome,200,3⟩)]⟩, 0⟩, ⟨7, 4398046511103, 4363416223614, 2181708111807⟩, ⟨2134082950912, 67766272, 8590196736⟩⟩

def s6r23 : FastGame := ⟨⟨23, [⟨1,4⟩, ⟨2,3⟩, ⟨2,5⟩, ⟨3,5⟩, ⟨4,5⟩], ⟨⟨6,7⟩, [tW, tW, tW, tW, tW, tW, tW, tW, tE, tE, tE, tG, tE, tW, tW, tE, tE, tG, tE, tG, tW, tW, tE, tW, tE, tW, tG, tW, tW, tE, tE, tE, tW, tF, tW, tW, tE, tE, tE, tE, tE, tW, tW, tW, tW, tW, tW, tW, tW], [(⟨3,5⟩, ⟨Team.Gnome,62,3⟩), (⟨4,5⟩, ⟨Team.Elf,131,6⟩), (⟨2,5⟩, ⟨Team.Gnome,62,3⟩), (⟨2,3⟩, ⟨Team.Gnome,200,3⟩), (⟨1,4⟩, ⟨Team.Gnome,200,3⟩)]⟩, 1⟩, ⟨7, 4398046511103, 4363416223614, 2181708111807⟩, ⟨2134083213056, 67766272, 8589934592⟩⟩

def s6r24 : FastGame := ⟨⟨24, [⟨1,3⟩, ⟨2,4⟩, ⟨3,3⟩, ⟨3,5⟩, ⟨4,5⟩], ⟨⟨6,7⟩, [tW, tW, tW, tW, tW, tW, tW, tW, tE, tE, tG, tE, tE, tW, tW, tE, tE, tE, tG, tE, tW, tW, tE, tW, tG, tW, tG, tW, tW, tE, tE, tE, tW, tF, tW, tW, tE, tE, tE, tE, tE, tW, tW, tW, tW, tW, tW, tW, tW], [(⟨3,5⟩, ⟨Team.Gnome,56,3⟩), (⟨4,5⟩, ⟨Team.Elf,128,6⟩), (⟨2,4⟩, ⟨Team.Gnome,62,3⟩), (⟨3,3⟩, ⟨Team.Gnome,200,3⟩), (⟨1,3⟩, ⟨Team.Gnome,200,3⟩)]⟩, 1⟩, ⟨7, 4398046511103, 4363416223614, 2181708111807⟩, ⟨2134066830080, 84149248, 8589934592⟩⟩

def s6r25 : FastGame := ⟨⟨25, [⟨1,2⟩, ⟨2,3⟩, ⟨3,5⟩, ⟨4,3⟩, ⟨4,5⟩], ⟨⟨6,7⟩, [tW, tW, tW, tW, tW, tW, tW, tW, tE, tG, tE, tE, tE, tW, tW, tE, tE, tG, tE, tE, tW, tW, tE, tW, tE, tW, tG, tW, tW, tE, tE, tG, tW, tF, tW, tW, tE, tE, tE, tE, tE, tW, tW, tW, tW, tW, tW, tW, tW], [(⟨3,5⟩, ⟨Team.Gnome,50,3⟩), (⟨4,5⟩, ⟨Team.Elf,125,6⟩), (⟨4,3⟩, ⟨Team.Gnome,200,3⟩), (⟨2,3⟩, ⟨Team.Gnome,62,3⟩), (⟨1,2⟩, ⟨Team.Gnome,200,3⟩)]⟩, 1⟩, ⟨7, 4398046511103, 4363416223614, 2181708111807⟩, ⟨2131936255232, 2214724096, 8589934592⟩⟩

def s6r26 : FastGame := ⟨⟨26, [⟨1,1⟩, ⟨2,2⟩, ⟨3,5⟩, ⟨4,5⟩, ⟨5,3⟩], ⟨⟨6,7⟩, [tW, tW, tW, tW, tW, tW, tW, tW, tG, tE, tE, tE, tE, tW, tW, tE, tG, tE, tE, tE, tW, tW, tE, tW, tE, tW, tG, tW, tW, tE, tE, tE, tW, tF, tW, tW, tE, tE, tG, tE, tE, tW, tW, tW, tW, tW, tW, tW, tW], [(⟨3,5⟩, ⟨Team.Gnome,44,3⟩), (⟨5,3⟩, ⟨Team.Gnome,200,3⟩), (⟨4,5⟩, ⟨Team.Elf,122,6⟩), (⟨2,2⟩, ⟨Team.Gnome,62,3⟩), (⟨1,1⟩, ⟨Team.Gnome,200,3⟩)]⟩, 1⟩, ⟨7, 4398046511103, 4363416223614, 2181708111807⟩, ⟨1859205897728, 274945081600, 8589934592⟩⟩

def s6r27 : FastGame := ⟨⟨27, [⟨1,1⟩, ⟨2,2⟩, ⟨3,5⟩, ⟨4,5⟩, ⟨5,4⟩], ⟨⟨6,7⟩, [tW, tW, tW, tW, tW, tW, tW, tW, tG, tE, tE, tE, tE, tW, tW, tE, tG, tE, tE, tE, tW, tW, tE, tW, tE, tW, tG, tW, tW, tE, tE, tE, tW, tF, tW, tW, tE, tE, tE, tG, tE, tW, tW, tW, tW, tW, tW, tW, tW], [(⟨5,4⟩, ⟨Team.Gnome,200,3⟩), (⟨3,5⟩, ⟨Team.Gnome,38,3⟩), (⟨4,5⟩, ⟨Team.Elf,119,6⟩), (⟨2,2⟩, ⟨Team.Gnome,62,3⟩), (⟨1,1⟩, ⟨Team.Gnome,200,3⟩)]⟩, 1⟩, ⟨7, 4398046511103, 4363416223614, 2181708111807⟩, ⟨1584327990784, 549822988544, 8589934592⟩⟩

def s6r28 : FastGame := ⟨⟨28, [⟨1,1⟩, ⟨2,2⟩, ⟨3,5⟩, ⟨4,5⟩, ⟨5,5⟩], ⟨⟨6,7⟩, [tW, tW, tW, tW, tW, tW, tW, tW, tG, tE, tE, tE, tE, tW, tW, tE, tG, tE, tE, tE, tW, tW, tE, tW, tE, tW, tG, tW, tW, tE, tE, tE, tW, tF, tW, tW, tE, tE, tE, tE, tG, tW, tW, tW, tW, tW, tW, tW, tW], [(⟨4,5⟩, ⟨Team.Elf,113,6⟩), (⟨5,5⟩, ⟨Team.Gnome,200,3⟩), (⟨3,5⟩, ⟨Team.Gnome,32,3⟩), (⟨2,2⟩, ⟨Team.Gnome,62,3⟩), (⟨1,1⟩, ⟨Team.Gnome,200,3⟩)]⟩, 1⟩, ⟨7, 4398046511103, 4363416223614, 2181708111807⟩, ⟨1034572176896, 1099578802432, 8589934592⟩⟩

def s6r29 : FastGame := ⟨⟨29, [⟨1,1⟩, ⟨2,2⟩, ⟨3,5⟩, ⟨4,5⟩, ⟨5,5⟩], ⟨⟨6,7⟩, [tW, tW, tW, tW, tW, tW, tW, tW, tG, tE, tE, tE, tE, tW, tW, tE, tG, tE, tE, tE, tW, tW, tE, tW, tE, tW, tG, tW, tW, tE, tE, tE, tW, tF, tW, tW, tE, tE, tE, tE, tG, tW, tW, tW, tW, tW, tW, tW, tW], [(⟨4,5⟩, ⟨Team.Elf,107,6⟩), (⟨3,5⟩, ⟨Team.Gnome,26,3⟩), (⟨5,5⟩, ⟨Team.Gnome,200,3⟩), (⟨2,2⟩, ⟨Team.Gnome,62,3⟩), (⟨1,1⟩, ⟨Team.Gnome,200,3⟩)]⟩, 1⟩, ⟨7, 4398046511103, 4363416223614, 2181708111807⟩, ⟨1034572176896, 1099578802432, 8589934592⟩⟩

def s6r30 : FastGame := ⟨⟨30, [⟨1,1⟩, ⟨2,2⟩, ⟨3,5⟩, ⟨4,5⟩, ⟨5,5⟩], ⟨⟨6,7⟩, [tW, tW, tW, tW, tW, tW, tW, tW, tG, tE, tE, tE, tE, tW, tW, tE, tG, tE, tE, tE, tW, tW, tE, tW, tE, tW, tG, tW, tW, tE, tE, tE, tW, tF, tW, tW, tE, tE, tE, tE, tG, tW, tW, tW, tW, tW, tW, tW, tW], [(⟨4,5⟩, ⟨Team.Elf,101,6⟩), (⟨3,5⟩, ⟨Team.Gnome,20,3⟩), (⟨5,5⟩, ⟨Team.Gnome,200,3⟩), (⟨2,2⟩, ⟨Team.Gnome,62,3⟩), (⟨1,1⟩, ⟨Team.Gnome,200,3⟩)]⟩, 1⟩, ⟨7, 4398046511103, 4363416223614, 2181708111807⟩, ⟨1034572176896, 1099578802432, 8589934592⟩⟩

def s6r31 : FastGame := ⟨⟨31, [⟨1,1⟩, ⟨2,2⟩, ⟨3,5⟩, ⟨4,5⟩, ⟨5,5⟩], ⟨⟨6,7⟩, [tW, tW, tW, tW, tW, tW, tW, tW, tG, tE, tE, tE, tE, tW, tW, tE, tG, tE, tE, tE, tW, tW, tE, tW, tE, tW, tG, tW, tW, tE, tE, tE, tW, tF, tW, tW, tE, tE, tE, tE, tG, tW, tW, tW, tW, tW, tW, tW, tW], [(⟨4,5⟩, ⟨Team.Elf,95,6⟩), (⟨3,5⟩, ⟨Team.Gnome,14,3⟩), (⟨5,5⟩, ⟨Team.Gnome,200,3⟩), (⟨2,2⟩, ⟨Team.Gnome,62,3⟩), (⟨1,1⟩, ⟨Team.Gnome,200,3⟩)]⟩, 1⟩, ⟨7, 4398046511103, 4363416223614, 2181708111807⟩, ⟨1034572176896, 1099578802432, 8589934592⟩⟩

def s6r32 : FastGame := ⟨⟨32, [⟨1,1⟩, ⟨2,2⟩, ⟨3,5⟩, ⟨4,5⟩, ⟨5,5⟩], ⟨⟨6,7⟩, [tW, tW, tW, tW, tW, tW, tW, tW, tG, tE, tE, tE, tE, tW, tW, tE, tG, tE, tE, tE, tW, tW, tE, tW, tE, tW, tG, tW, tW, tE, tE, tE, tW, tF, tW, tW, tE, tE, tE, tE, tG, tW, tW, tW, tW, tW, tW, tW, tW], [(⟨4,5⟩, ⟨Team.Elf,89,6⟩), (⟨3,5⟩, ⟨Team.Gnome,8,3⟩), (⟨5,5⟩, ⟨Team.Gnome,200,3⟩), (⟨2,2⟩, ⟨Team.Gnome,62,3⟩), (⟨1,1⟩, ⟨Team.Gnome,200,3⟩)]⟩, 1⟩, ⟨7, 4398046511103, 4363416223614, 2181708111807⟩, ⟨1034572176896, 1099578802432, 8589934592⟩⟩

def s6r33 : FastGame := ⟨⟨33, [⟨1,1⟩, ⟨2,2⟩, ⟨3,5⟩, ⟨4,5⟩, ⟨5,5⟩], ⟨⟨6,7⟩, [tW, tW, tW, tW, tW, tW, tW, tW, tG, tE, tE, tE, tE, tW, tW, tE, tG, tE, tE, tE, tW, tW, tE, tW, tE, tW, tG, tW, tW, tE, tE, tE, tW, tF, tW, tW, tE, tE, tE, tE, tG, tW, tW, tW, tW, tW, tW, tW, tW], [(⟨4,5⟩, ⟨Team.Elf,83,6⟩), (⟨3,5⟩, ⟨Team.Gnome,2,3⟩), (⟨5,5⟩, ⟨Team.Gnome,200,3⟩), (⟨2,2⟩, ⟨Team.Gnome,62,3⟩), (⟨1,1⟩, ⟨Team.Gnome,200,3⟩)]⟩, 1⟩, ⟨7, 4398046511103, 4363416223614, 2181708111807⟩, ⟨1034572176896, 1099578802432, 8589934592⟩⟩

def s6r34 : FastGame := ⟨⟨34, [⟨1,1⟩, ⟨2,2⟩, ⟨4,5⟩, ⟨5,5⟩], ⟨⟨6,7⟩, [tW, tW, tW, tW, tW, tW, tW, tW, tG, tE, tE, tE, tE, tW, tW, tE, tG, tE, tE, tE, tW, tW, tE, tW, tE, tW, tE, tW, tW, tE, tE, tE, tW, tF, tW, tW, tE, tE, tE, tE, tG, tW, tW, tW, tW, tW, tW, tW, tW], [(⟨4,5⟩, ⟨Team.Elf,77,6⟩), (⟨5,5⟩, ⟨Team.Gnome,200,3⟩), (⟨2,2⟩, ⟨Team.Gnome,62,3⟩), (⟨1,1⟩, ⟨Team.Gnome,200,3⟩)]⟩, 1⟩, ⟨7, 4398046511103, 4363416223614, 2181708111807⟩, ⟨1034639285760, 1099511693568, 8589934592⟩⟩

def s6r35 : FastGame := ⟨⟨35, [⟨1,2⟩, ⟨2,3⟩, ⟨4,5⟩, ⟨5,5⟩], ⟨⟨6,7⟩, [tW, tW, tW, tW, tW, tW, tW, tW, tE, tG, tE, tE, tE, tW, tW, tE, tE, tG, tE, tE, tW, tW, tE, tW, tE, tW, tE, tW, tW, tE, tE, tE, tW, tF, tW, tW, tE, tE, tE, tE, tG, tW, tW, tW, tW, tW, tW, tW, tW], [(⟨4,5⟩, ⟨Team.Elf,74,6⟩), (⟨5,5⟩, ⟨Team.Gnome,194,3⟩), (⟨2,3⟩, ⟨Team.Gnome,62,3⟩), (⟨1,2⟩, ⟨Team.Gnome,200,3⟩)]⟩, 1⟩, ⟨7, 4398046511103, 4363416223614, 2181708111807⟩, ⟨1034639219968, 1099511759360, 8589934592⟩⟩

def s6r36 : FastGame := ⟨⟨36, [⟨1,3⟩, ⟨2,4⟩, ⟨4,5⟩, ⟨5,5⟩], ⟨⟨6,7⟩, [tW, tW, tW, tW, tW, tW, tW, tW, tE, tE, tG, tE, tE, tW, tW, tE, tE, tE, tG, tE, tW, tW, tE, tW, tE, tW, tE, tW, tW, tE, tE, tE, tW, tF, tW, tW, tE, tE, tE, tE, tG, tW, tW, tW, tW, tW, tW, tW, tW], [(⟨4,5⟩, ⟨Team.Elf,71,6⟩), (⟨5,5⟩, ⟨Team.Gnome,188,3⟩), (⟨2,4⟩, ⟨Team.Gnome,62,3⟩), (⟨1,3⟩, ⟨Team.Gnome,200,3⟩)]⟩, 1⟩, ⟨7, 4398046511103, 4363416223614, 2181708111807⟩, ⟨1034639088384, 1099511890944, 8589934592⟩⟩

def s6r37 : FastGame := ⟨⟨37, [⟨1,4⟩, ⟨2,5⟩, ⟨4,5⟩, ⟨5,5⟩], ⟨⟨6,7⟩, [tW, tW, tW, tW, tW, tW, tW, tW, tE, tE, tE, tG, tE, tW, tW, tE, tE, tE, tE, tG, tW, tW, tE, tW, tE, tW, tE, tW, tW, tE, tE, tE, tW, tF, tW, tW, tE, tE, tE, tE, tG, tW, tW, tW, tW, tW, tW, tW, tW], [(⟨4,5⟩, ⟨Team.Elf,68,6⟩), (⟨5,5⟩, ⟨Team.Gnome,182,3⟩), (⟨2,5⟩, ⟨Team.Gnome,62,3⟩), (⟨1,4⟩, ⟨Team.Gnome,200,3⟩)]⟩, 1⟩, ⟨7, 4398046511103, 4363416223614, 2181708111807⟩, ⟨1034638825216, 1099512154112, 8589934592⟩⟩

def s6r38 : FastGame := ⟨⟨38, [⟨1,4⟩, ⟨3,5⟩, ⟨4,5⟩, ⟨5,5⟩], ⟨⟨6,7⟩, [tW, tW, tW, tW, tW, tW, tW, tW, tE, tE, tE, tG, tE, tW, tW, tE, tE, tE, tE, tE, tW, tW, tE, tW, tE, tW, tG, tW, tW, tE, tE, tE, tW, tF, tW, tW, tE, tE, tE, tE, tG, tW, tW, tW, tW, tW, tW, tW, tW], [(⟨4,5⟩, ⟨Team.Elf,62,6⟩), (⟨3,5⟩, ⟨Team.Gnome,56,3⟩), (⟨5,5⟩, ⟨Team.Gnome,182,3⟩), (⟨1,4⟩, ⟨Team.Gnome,200,3⟩)]⟩, 1⟩, ⟨7, 4398046511103, 4363416223614, 2181708111807⟩, ⟨1034572240640, 1099578738688, 8589934592⟩⟩

def s6r39 : FastGame := ⟨⟨39, [⟨1,4⟩, ⟨3,5⟩, ⟨4,5⟩, ⟨5,5⟩], ⟨⟨6,7⟩, [tW, tW, tW, tW, tW, tW, tW, tW, tE, tE, tE, tG, tE, tW, tW, tE, tE, tE, tE, tE, tW, tW, tE, tW, tE, tW, tG, tW, tW, tE, tE, tE, tW, tF, tW, tW, tE, tE, tE, tE, tG, tW, tW, tW, tW, tW, tW, tW, tW], [(⟨4,5⟩, ⟨Team.Elf,56,6⟩), (⟨3,5⟩, ⟨Team.Gnome,50,3⟩), (⟨5,5⟩, ⟨Team.Gnome,182,3⟩), (⟨1,4⟩, ⟨Team.Gnome,200,3⟩)]⟩, 1⟩, ⟨7, 4398046511103, 4363416223614, 2181708111807⟩, ⟨1034572240640, 1099578738688, 8589934592⟩⟩

def s6r40 : FastGame := ⟨⟨40, [⟨1,4⟩, ⟨3,5⟩, ⟨4,5⟩, ⟨5,5⟩], ⟨⟨6,7⟩, [tW, tW, tW, tW, tW, tW, tW, tW, tE, tE, tE, tG, tE, tW, tW, tE, tE, tE, tE, tE, tW, tW, tE, tW, tE, tW, tG, tW, tW, tE, tE, tE, tW, tF, tW, tW, tE, tE, tE, tE, tG, tW, tW, tW, tW, tW, tW, tW, tW], [(⟨4,5⟩, ⟨Team.Elf,50,6⟩), (⟨3,5⟩, ⟨Team.Gnome,44,3⟩), (⟨5,5⟩, ⟨Team.Gnome,182,3⟩), (⟨1,4⟩, ⟨Team.Gnome,200,3⟩)]⟩, 1⟩, ⟨7, 4398046511103, 4363416223614, 2181708111807⟩, ⟨1034572240640, 1099578738688, 8589934592⟩⟩

def s6r41 : FastGame := ⟨⟨41, [⟨1,4⟩, ⟨3,5⟩, ⟨4,5⟩, ⟨5,5⟩], ⟨⟨6,7⟩, [tW, tW, tW, tW, tW, tW, tW, tW, tE, tE, tE, tG, tE, tW, tW, tE, tE, tE, tE, tE, tW, tW, tE, tW, tE, tW, tG, tW, tW, tE, tE, tE, tW, tF, tW, tW, tE, tE, tE, tE, tG, tW, tW, tW, tW, tW, tW, tW, tW], [(⟨4,5⟩, ⟨Team.Elf,44,6⟩), (⟨3,5⟩, ⟨Team.Gnome,38,3⟩), (⟨5,5⟩, ⟨Team.Gnome,182,3⟩), (⟨1,4⟩, ⟨Team.Gnome,200,3⟩)]⟩, 1⟩, ⟨7, 4398046511103, 4363416223614, 2181708111807⟩, ⟨1034572240640, 1099578738688, 8589934592⟩⟩

def s6r42 : FastGame := ⟨⟨42, [⟨1,4⟩, ⟨3,5⟩, ⟨4,5⟩, ⟨5,5⟩], ⟨⟨6,7⟩, [tW, tW, tW, tW, tW, tW, tW, tW, tE, tE, tE, tG, tE, tW, tW, tE, tE, tE, tE, tE, tW, tW, tE, tW, tE, tW, tG, tW, tW, tE, tE, tE, tW, tF, tW, tW, tE, tE, tE, tE, tG, tW, tW, tW, tW, tW, tW, tW, tW], [(⟨4,5⟩, ⟨Team.Elf,38,6⟩), (⟨3,5⟩, ⟨Team.Gnome,32,3⟩), (⟨5,5⟩, ⟨Team.Gnome,182,3⟩), (⟨1,4⟩, ⟨Team.Gnome,200,3⟩)]⟩, 1⟩, ⟨7, 4398046511103, 4363416223614, 2181708111807⟩, ⟨1034572240640, 1099578738688, 8589934592⟩⟩

def s6r43 : FastGame := ⟨⟨43, [⟨1,4⟩, ⟨3,5⟩, ⟨4,5⟩, ⟨5,5⟩], ⟨⟨6,7⟩, [tW, tW, tW, tW, tW, tW, tW, tW, tE, tE, tE, tG, tE, tW, tW, tE, tE, tE, tE, tE, tW, tW, tE, tW, tE, tW, tG, tW, tW, tE, tE, tE, tW, tF, tW, tW, tE, tE, tE, tE, tG, tW, tW, tW, tW, tW, tW, tW, tW], [(⟨4,5⟩, ⟨Team.Elf,32,6⟩), (⟨3,5⟩, ⟨Team.Gnome,26,3⟩), (⟨5,5⟩, ⟨Team.Gnome,182,3⟩), (⟨1,4⟩, ⟨Team.Gnome,200,3⟩)]⟩, 1⟩, ⟨7, 4398046511103, 4363416223614, 2181708111807⟩, ⟨1034572240640, 1099578738688, 8589934592⟩⟩

def s6r44 : FastGame := ⟨⟨44, [⟨1,4⟩, ⟨3,5⟩, ⟨4,5⟩, ⟨5,5⟩], ⟨⟨6,7⟩, [tW, tW, tW, tW, tW, tW, tW, tW, tE, tE, tE, tG, tE, tW, tW, tE, tE, tE, tE, tE, tW, tW, tE, tW, tE, tW, tG, tW, tW, tE, tE, tE, tW, tF, tW, tW, tE, tE, tE, tE, tG, tW, tW, tW, tW, tW, tW, tW, tW], [(⟨4,5⟩, ⟨Team.Elf,26,6⟩), (⟨3,5⟩, ⟨Team.Gnome,20,3⟩), (⟨5,5⟩, ⟨Team.Gnome,182,3⟩), (⟨1,4⟩, ⟨Team.Gnome,200,3⟩)]⟩, 1⟩, ⟨7, 4398046511103, 4363416223614, 2181708111807⟩, ⟨1034572240640, 1099578738688, 8589934592⟩⟩

def s6r45 : FastGame := ⟨⟨45, [⟨1,4⟩, ⟨3,5⟩, ⟨4,5⟩, ⟨5,5⟩], ⟨⟨6,7⟩, [tW, tW, tW, tW, tW, tW, tW, tW, tE, tE, tE, tG, tE, tW, tW, tE, tE, tE, tE, tE, tW, tW, tE, tW, tE, tW, tG, tW, tW, tE, tE, tE, tW, tF, tW, tW, tE, tE, tE, tE, tG, tW, tW, tW, tW, tW, tW, tW, tW], [(⟨4,5⟩, ⟨Team.Elf,20,6⟩), (⟨3,5⟩, ⟨Team.Gnome,14,3⟩), (⟨5,5⟩, ⟨Team.Gnome,182,3⟩), (⟨1,4⟩, ⟨Team.Gnome,200,3⟩)]⟩, 1⟩, ⟨7, 4398046511103, 4363416223614, 2181708111807⟩, ⟨1034572240640, 1099578738688, 8589934592⟩⟩

def s6r46 : FastGame := ⟨⟨46, [⟨1,4⟩, ⟨3,5⟩, ⟨4,5⟩, ⟨5,5⟩], ⟨⟨6,7⟩, [tW, tW, tW, tW, tW, tW, tW, tW, tE, tE, tE, tG, tE, tW, tW, tE, tE, tE, tE, tE, tW, tW, tE, tW, tE, tW, tG, tW, tW, tE, tE, tE, tW, tF, tW, tW, tE, tE, tE, tE, tG, tW, tW, tW, tW, tW, tW, tW, tW], [(⟨4,5⟩, ⟨Team.Elf,14,6⟩), (⟨3,5⟩, ⟨Team.Gnome,8,3⟩), (⟨5,5⟩, ⟨Team.Gnome,182,3⟩), (⟨1,4⟩, ⟨Team.Gnome,200,3⟩)]⟩, 1⟩, ⟨7, 4398046511103, 4363416223614, 2181708111807⟩, ⟨1034572240640, 1099578738688, 8589934592⟩⟩

def s6r47 : FastGame := ⟨⟨47, [⟨1,4⟩, ⟨3,5⟩, ⟨4,5⟩, ⟨5,5⟩], ⟨⟨6,7⟩, [tW, tW, tW, tW, tW, tW, tW, tW, tE, tE, tE, tG, tE, tW, tW, tE, tE, tE, tE, tE, tW, tW, tE, tW, tE, tW, tG, tW, tW, tE, tE, tE, tW, tF, tW, tW, tE, tE, tE, tE, tG, tW, tW, tW, tW, tW, tW, tW, tW], [(⟨4,5⟩, ⟨Team.Elf,8,6⟩), (⟨3,5⟩, ⟨Team.Gnome,2,3⟩), (⟨5,5⟩, ⟨Team.Gnome,182,3⟩), (⟨1,4⟩, ⟨Team.Gnome,200,3⟩)]⟩, 1⟩, ⟨7, 4398046511103, 4363416223614, 2181708111807⟩, ⟨1034572240640, 1099578738688, 8589934592⟩⟩

def s6r48 : FastGame := ⟨⟨48, [⟨1,4⟩, ⟨4,5⟩, ⟨5,5⟩], ⟨⟨6,7⟩, [tW, tW, tW, tW, tW, tW, tW, tW, tE, tE, tE, tG, tE, tW, tW, tE, tE, tE, tE, tE, tW, tW, tE, tW, tE, tW, tE, tW, tW, tE, tE, tE, tW, tF, tW, tW, tE, tE, tE, tE, tG, tW, tW, tW, tW, tW, tW, tW, tW], [(⟨4,5⟩, ⟨Team.Elf,2,6⟩), (⟨5,5⟩, ⟨Team.Gnome,182,3⟩), (⟨1,4⟩, ⟨Team.Gnome,200,3⟩)]⟩, 1⟩, ⟨7, 4398046511103, 4363416223614, 2181708111807⟩, ⟨1034639349504, 1099511629824, 8589934592⟩⟩

def s6r49 : FastGame := ⟨⟨49, [⟨1,5⟩, ⟨5,5⟩], ⟨⟨6,7⟩, [tW, tW, tW, tW, tW, tW, tW, tW, tE, tE, tE, tE, tG, tW, tW, tE, tE, tE, tE, tE, tW, tW, tE, tW, tE, tW, tE, tW, tW, tE, tE, tE, tW, tE, tW, tW, tE, tE, tE, tE, tG, tW, tW, tW, tW, tW, tW, tW, tW], [(⟨5,5⟩, ⟨Team.Gnome,176,3⟩), (⟨1,5⟩, ⟨Team.Gnome,200,3⟩)]⟩, 2⟩, ⟨7, 4398046511103, 4363416223614, 2181708111807⟩, ⟨1043229282048, 1099511631872, 0⟩⟩

def s6r50 : FastGame := ⟨⟨49, [⟨5,5⟩], ⟨⟨6,7⟩, [tW, tW, tW, tW, tW, tW, tW, tW, tE, tE, tE, tE, tG, tW, tW, tE, tE, tE, tE, tE, tW, tW, tE, tW, tE, tW, tE, tW, tW, tE, tE, tE, tW, tE, tW, tW, tE, tE, tE, tE, tG, tW, tW, tW, tW, tW, tW, tW, tW], [(⟨5,5⟩, ⟨Team.Gnome,176,3⟩), (⟨1,5⟩, ⟨Team.Gnome,200,3⟩)]⟩, 2⟩, ⟨7, 4398046511103, 4363416223614, 2181708111807⟩, ⟨1043229282048, 1099511631872, 0⟩⟩

-- power 7: 51 states
def s7r0 : FastGame := ⟨⟨0, [⟨1,2⟩, ⟨2,4⟩, ⟨2,5⟩, ⟨3,5⟩, ⟨4,3⟩, ⟨4,5⟩], ⟨⟨6,7⟩, [tW, tW, tW, tW, tW, tW, tW, tW, tE, tG, tE, tE, tE, tW, tW, tE, tE, tE, tF, tG, tW, tW, tE, tW, tE, tW, tG, tW, tW, tE, tE, tG, tW, tF, tW, tW, tE, tE, tE, tE, tE, tW, tW, tW, tW, tW, tW, tW, tW], [(⟨4,5⟩, ⟨Team.Elf,200,7⟩), (⟨4,3⟩, ⟨Team.Gnome,200,3⟩), (⟨3,5⟩, ⟨Team.Gnome,200,3⟩), (⟨2,5⟩, ⟨Team.Gnome,200,3⟩), (⟨2,4⟩, ⟨Team.Elf,200,7⟩), (⟨1,2⟩, ⟨Team.Gnome,200,3⟩)]⟩, 0⟩, ⟨7, 4398046511103, 4363416223614, 2181708111807⟩, ⟨2131935599872, 2215117312, 8590196736⟩⟩

def s7r1 : FastGame := ⟨⟨1, [⟨1,3⟩, ⟨2,4⟩, ⟨2,5⟩, ⟨3,3⟩, ⟨3,5⟩, ⟨4,5⟩], ⟨⟨6,7⟩, [tW, tW, tW, tW, tW, tW, tW, tW, tE, tE, tG, tE, tE, tW, tW, tE, tE, tE, tF, tG, tW, tW, tE, tW, tG, tW, tG, tW, tW, tE, tE, tE, tW, tF, tW, tW, tE, tE, tE, tE, tE, tW, tW, tW, tW, tW, tW, tW, tW], [(⟨3,5⟩, ⟨Team.Gnome,193,3⟩), (⟨3,3⟩, ⟨Team.Gnome,200,3⟩), (⟨4,5⟩, ⟨Team.Elf,197,7⟩), (⟨2,4⟩, ⟨Team.Elf,197,7⟩), (⟨2,5⟩, ⟨Team.Gnome,193,3⟩), (⟨1,3⟩, ⟨Team.Gnome,200,3⟩)]⟩, 0⟩, ⟨7, 4398046511103, 4363416223614, 2181708111807⟩, ⟨2134066305792, 84411392, 8590196736⟩⟩

def s7r2 : FastGame := ⟨⟨2, [⟨1,4⟩, ⟨2,3⟩, ⟨2,4⟩, ⟨2,5⟩, ⟨3,5⟩, ⟨4,5⟩], ⟨⟨6,7⟩, [tW, tW, tW, tW, tW, tW, tW, tW, tE, tE, tE, tG, tE, tW, tW, tE, tE, tG, tF, tG, tW, tW, tE, tW, tE, tW, tG, tW, tW, tE, tE, tE, tW, tF, tW, tW, tE, tE, tE, tE, tE, tW, tW, tW, tW, tW, tW, tW, tW], [(⟨3,5⟩, ⟨Team.Gnome,186,3⟩), (⟨4,5⟩, ⟨Team.Elf,194,7⟩), (⟨2,4⟩, ⟨Team.Elf,188,7⟩), (⟨2,3⟩, ⟨Team.Gnome,200,3⟩), (⟨2,5⟩, ⟨Team.Gnome,186,3⟩), (⟨1,4⟩, ⟨Team.Gnome,200,3⟩)]⟩, 0⟩, ⟨7, 4398046511103, 4363416223614, 2181708111807⟩, ⟨2134082950912, 67766272, 8590196736⟩⟩

def s7r3 : FastGame := ⟨⟨3, [⟨1,4⟩, ⟨2,3⟩, ⟨2,4⟩, ⟨2,5⟩, ⟨3,5⟩, ⟨4,5⟩], ⟨⟨6,7⟩, [tW, tW, tW, tW, tW, tW, tW, tW, tE, tE, tE, tG, tE, tW, tW, tE, tE, tG, tF, tG, tW, tW, tE, tW, tE, tW, tG, tW, tW, tE, tE, tE, tW, tF, tW, tW, tE, tE, tE, tE, tE, tW, tW, tW, tW, tW, tW, tW, tW], [(⟨3,5⟩, ⟨Team.Gnome,179,3⟩), (⟨4,5⟩, ⟨Team.Elf,191,7⟩), (⟨2,4⟩, ⟨Team.Elf,179,7⟩), (⟨2,5⟩, ⟨Team.Gnome,179,3⟩), (⟨2,3⟩, ⟨Team.Gnome,200,3⟩), (⟨1,4⟩, ⟨Team.Gnome,200,3⟩)]⟩, 0⟩, ⟨7, 4398046511103, 4363416223614, 2181708111807⟩, ⟨2134082950912, 67766272, 8590196736⟩⟩

def s7r4 : FastGame := ⟨⟨4, [⟨1,4⟩, ⟨2,3⟩, ⟨2,4⟩, ⟨2,5⟩, ⟨3,5⟩, ⟨4,5⟩], ⟨⟨6,7⟩, [tW, tW, tW, tW, tW, tW, tW, tW, tE, tE, tE, tG, tE, tW, tW, tE, tE, tG, tF, tG, tW, tW, tE, tW, tE, tW, tG, tW, tW, tE, tE, tE, tW, tF, tW, tW, tE, tE, tE, tE, tE, tW, tW, tW, tW, tW, tW, tW, tW], [(⟨3,5⟩, ⟨Team.Gnome,172,3⟩), (⟨4,5⟩, ⟨Team.Elf,188,7⟩), (⟨2,4⟩, ⟨Team.Elf,170,7⟩), (⟨2,5⟩, ⟨Team.Gnome,172,3⟩), (⟨2,3⟩, ⟨Team.Gnome,200,3⟩), (⟨1,4⟩, ⟨Team.Gnome,200,3⟩)]⟩, 0⟩, ⟨7, 4398046511103, 4363416223614, 2181708111807⟩, ⟨2134082950912, 67766272, 8590196736⟩⟩

def s7r5 : FastGame := ⟨⟨5, [⟨1,4⟩, ⟨2,3⟩, ⟨2,4⟩, ⟨2,5⟩, ⟨3,5⟩, ⟨4,5⟩], ⟨⟨6,7⟩, [tW, tW, tW, tW, tW, tW, tW, tW, tE, tE, tE, tG, tE, tW, tW, tE, tE, tG, tF, tG, tW, tW, tE, tW, tE, tW, tG, tW, tW, tE, tE, tE, tW, tF, tW, tW, tE, tE, tE, tE, tE, tW, tW, tW, tW, tW, tW, tW, tW], [(⟨3,5⟩, ⟨Team.Gnome,165,3⟩), (⟨4,5⟩, ⟨Team.Elf,185,7⟩), (⟨2,4⟩, ⟨Team.Elf,161,7⟩), (⟨2,5⟩, ⟨Team.Gnome,165,3⟩), (⟨2,3⟩, ⟨Team.Gnome,200,3⟩), (⟨1,4⟩, ⟨Team.Gnome,200,3⟩)]⟩, 0⟩, ⟨7, 4398046511103, 4363416223614, 2181708111807⟩, ⟨2134082950912, 67766272, 8590196736⟩⟩

def s7r6 : FastGame := ⟨⟨6, [⟨1,4⟩, ⟨2,3⟩, ⟨2,4⟩, ⟨2,5⟩, ⟨3,5⟩, ⟨4,5⟩], ⟨⟨6,7⟩, [tW, tW, tW, tW, tW, tW, tW, tW, tE, tE, tE, tG, tE, tW, tW, tE, tE, tG, tF, tG, tW, tW, tE, tW, tE, tW, tG, tW, tW, tE, tE, tE, tW, tF, tW, tW, tE, tE, tE, tE, tE, tW, tW, tW, tW, tW, tW, tW, tW], [(⟨3,5⟩, ⟨Team.Gnome,158,3⟩), (⟨4,5⟩, ⟨Team.Elf,182,7⟩), (⟨2,4⟩, ⟨Team.Elf,152,7⟩), (⟨2,5⟩, ⟨Team.Gnome,158,3⟩), (⟨2,3⟩, ⟨Team.Gnome,200,3⟩), (⟨1,4⟩, ⟨Team.Gnome,200,3⟩)]⟩, 0⟩, ⟨7, 4398046511103, 4363416223614, 2181708111807⟩, ⟨2134082950912, 67766272, 8590196736⟩⟩

def s7r7 : FastGame := ⟨⟨7, [⟨1,4⟩, ⟨2,3⟩, ⟨2,4⟩, ⟨2,5⟩, ⟨3,5⟩, ⟨4,5⟩], ⟨⟨6,7⟩, [tW, tW, tW, tW, tW, tW, tW, tW, tE, tE, tE, tG, tE, tW, tW, tE, tE, tG, tF, tG, tW, tW, tE, tW, tE, tW, tG, tW, tW, tE, tE, tE, tW, tF, tW, tW, tE, tE, tE, tE, tE, tW, tW, tW, tW, tW, tW, tW, tW], [(⟨3,5⟩, ⟨Team.Gnome,151,3⟩), (⟨4,5⟩, ⟨Team.Elf,179,7⟩), (⟨2,4⟩, ⟨Team.Elf,143,7⟩), (⟨2,5⟩, ⟨Team.Gnome,151,3⟩), (⟨2,3⟩, ⟨Team.Gnome,200,3⟩), (⟨1,4⟩, ⟨Team.Gnome,200,3⟩)]⟩, 0⟩, ⟨7, 4398046511103, 4363416223614, 2181708111807⟩, ⟨2134082950912, 67766272, 8590196736⟩⟩

def s7r8 : FastGame := ⟨⟨8, [⟨1,4⟩, ⟨2,3⟩, ⟨2,4⟩, ⟨2,5⟩, ⟨3,5⟩, ⟨4,5⟩], ⟨⟨6,7⟩, [tW, tW, tW, tW, tW, tW, tW, tW, tE, tE, tE, tG, tE, tW, tW, tE, tE, tG, tF, tG, tW, tW, tE, tW, tE, tW, tG, tW, tW, tE, tE, tE, tW, tF, tW, tW, tE, tE, tE, tE, tE, tW, tW, tW, tW, tW, tW, tW, tW], [(⟨3,5⟩, ⟨Team.Gnome,144,3⟩), (⟨4,5⟩, ⟨Team.Elf,176,7⟩), (⟨2,4⟩, ⟨Team.Elf,134,7⟩), (⟨2,5⟩, ⟨Team.Gnome,144,3⟩), (⟨2,3⟩, ⟨Team.Gnome,200,3⟩), (⟨1,4⟩, ⟨Team.Gnome,200,3⟩)]⟩, 0⟩, ⟨7, 4398046511103, 4363416223614, 2181708111807⟩, ⟨2134082950912, 67766272, 8590196736⟩⟩

def s7r9 : FastGame := ⟨⟨9, [⟨1,4⟩, ⟨2,3⟩, ⟨2,4⟩, ⟨2,5⟩, ⟨3,5⟩, ⟨4,5⟩], ⟨⟨6,7⟩, [tW, tW, tW, tW, tW, tW, tW, tW, tE, tE, tE, tG, tE, tW, tW, tE, tE, tG, tF, tG, tW, tW, tE, tW, tE, tW, tG, tW, tW, tE, tE, tE, tW, tF, tW, tW, tE, tE, tE, tE, tE, tW, tW, tW, tW, tW, tW, tW, tW], [(⟨3,5⟩, ⟨Team.Gnome,137,3⟩), (⟨4,5⟩, ⟨Team.Elf,173,7⟩), (⟨2,4⟩, ⟨Team.Elf,125,7⟩), (⟨2,5⟩, ⟨Team.Gnome,137,3⟩), (⟨2,3⟩, ⟨Team.Gnome,200,3⟩), (⟨1,4⟩, ⟨Team.Gnome,200,3⟩)]⟩, 0⟩, ⟨7, 4398046511103, 4363416223614, 2181708111807⟩, ⟨2134082950912, 67766272, 8590196736⟩⟩

def s7r10 : FastGame := ⟨⟨10, [⟨1,4⟩, ⟨2,3⟩, ⟨2,4⟩, ⟨2,5⟩, ⟨3,5⟩, ⟨4,5⟩], ⟨⟨6,7⟩, [tW, tW, tW, tW, tW, tW, tW, tW, tE, tE, tE, tG, tE, tW, tW, tE, tE, tG, tF, tG, tW, tW, tE, tW, tE, tW, tG, tW, tW, tE, tE, tE, tW, tF, tW, tW, tE, tE, tE, tE, tE, tW, tW, tW, tW, tW, tW, tW, tW], [(⟨3,5⟩, ⟨Team.Gnome,130,3⟩), (⟨4,5⟩, ⟨Team.Elf,170,7⟩), (⟨2,4⟩, ⟨Team.Elf,116,7⟩), (⟨2,5⟩, ⟨Team.Gnome,130,3⟩), (⟨2,3⟩, ⟨Team.Gnome,200,3⟩), (⟨1,4⟩, ⟨Team.Gnome,200,3⟩)]⟩, 0⟩, ⟨7, 4398046511103, 4363416223614, 2181708111807⟩, ⟨2134082950912, 67766272, 8590196736⟩⟩

def s7r11 : FastGame := ⟨⟨11, [⟨1,4⟩, ⟨2,3⟩, ⟨2,4⟩, ⟨2,5⟩, ⟨3,5⟩, ⟨4,5⟩], ⟨⟨6,7⟩, [tW, tW, tW, tW, tW, tW, tW, tW, tE, tE, tE, tG, tE, tW, tW, tE, tE, tG, tF, tG, tW, tW, tE, tW, tE, tW, tG, tW, tW, tE, tE, tE, tW, tF, tW, tW, tE, tE, tE, tE, tE, tW, tW, tW, tW, tW, tW, tW, tW], [(⟨3,5⟩, ⟨Team.Gnome,123,3⟩), (⟨4,5⟩, ⟨Team.Elf,167,7⟩), (⟨2,4⟩, ⟨Team.Elf,107,7⟩), (⟨2,5⟩, ⟨Team.Gnome,123,3⟩), (⟨2,3⟩, ⟨Team.Gnome,200,3⟩), (⟨1,4⟩, ⟨Team.Gnome,200,3⟩)]⟩, 0⟩, ⟨7, 4398046511103, 4363416223614, 2181708111807⟩, ⟨2134082950912, 67766272, 8590196736⟩⟩

def s7r12 : FastGame := ⟨⟨12, [⟨1,4⟩, ⟨2,3⟩, ⟨2,4⟩, ⟨2,5⟩, ⟨3,5⟩, ⟨4,5⟩], ⟨⟨6,7⟩, [tW, tW, tW, tW, tW, tW, tW, tW, tE, tE, tE, tG, tE, tW, tW, tE, tE, tG, tF, tG, tW, tW, tE, tW, tE, tW, tG, tW, tW, tE, tE, tE, tW, tF, tW, tW, tE, tE, tE, tE, tE, tW, tW, tW, tW, tW, tW, tW, tW], [(⟨3,5⟩, ⟨Team.Gnome,116,3⟩), (⟨4,5⟩, ⟨Team.Elf,164,7⟩), (⟨2,4⟩, ⟨Team.Elf,98,7⟩), (⟨2,5⟩, ⟨Team.Gnome,116,3⟩), (⟨2,3⟩, ⟨Team.Gnome,200,3⟩), (⟨1,4⟩, ⟨Team.Gnome,200,3⟩)]⟩, 0⟩, ⟨7, 4398046511103, 4363416223614, 2181708111807⟩, ⟨2134082950912, 67766272, 8590196736⟩⟩

def s7r13 : FastGame := ⟨⟨13, [⟨1,4⟩, ⟨2,3⟩, ⟨2,4⟩, ⟨2,5⟩, ⟨3,5⟩, ⟨4,5⟩], ⟨⟨6,7⟩, [tW, tW, tW, tW, tW, tW, tW, tW, tE, tE, tE, tG, tE, tW, tW, tE, tE, tG, tF, tG, tW, tW, tE, tW, tE, tW, tG, tW, tW, tE, tE, tE, tW, tF, tW, tW, tE, tE, tE, tE, tE, tW, tW, tW, tW, tW, tW, tW, tW], [(⟨3,5⟩, ⟨Team.Gnome,109,3⟩), (⟨4,5⟩, ⟨Team.Elf,161,7⟩), (⟨2,4⟩, ⟨Team.Elf,89,7⟩), (⟨2,5⟩, ⟨Team.Gnome,109,3⟩), (⟨2,3⟩, ⟨Team.Gnome,200,3⟩), (⟨1,4⟩, ⟨Team.Gnome,200,3⟩)]⟩, 0⟩, ⟨7, 4398046511103, 4363416223614, 2181708111807⟩, ⟨2134082950912, 67766272, 8590196736⟩⟩

def s7r14 : FastGame := ⟨⟨14, [⟨1,4⟩, ⟨2,3⟩, ⟨2,4⟩, ⟨2,5⟩, ⟨3,5⟩, ⟨4,5⟩], ⟨⟨6,7⟩, [tW, tW, tW, tW, tW, tW, tW, tW, tE, tE, tE, tG, tE, tW, tW, tE, tE, tG, tF, tG, tW, tW, tE, tW, tE, tW, tG, tW, tW, tE, tE, tE, tW, tF, tW, tW, tE, tE, tE, tE, tE, tW, tW, tW, tW, tW, tW, tW, tW], [(⟨3,5⟩, ⟨Team.Gnome,102,3⟩), (⟨4,5⟩, ⟨Team.Elf,158,7⟩), (⟨2,4⟩, ⟨Team.Elf,80,7⟩), (⟨2,5⟩, ⟨Team.Gnome,102,3⟩), (⟨2,3⟩, ⟨Team.Gnome,200,3⟩), (⟨1,4⟩, ⟨Team.Gnome,200,3⟩)]⟩, 0⟩, ⟨7, 4398046511103, 4363416223614, 2181708111807⟩, ⟨2134082950912, 67766272, 8590196736⟩⟩

def s7r15 : FastGame := ⟨⟨15, [⟨1,4⟩, ⟨2,3⟩, ⟨2,4⟩, ⟨2,5⟩, ⟨3,5⟩, ⟨4,5⟩], ⟨⟨6,7⟩, [tW, tW, tW, tW, tW, tW, tW, tW, tE, tE, tE, tG, tE, tW, tW, tE, tE, tG, tF, tG, tW, tW, tE, tW, tE, tW, tG, tW, tW, tE, tE, tE, tW, tF, tW, tW, tE, tE, tE, tE, tE, tW, tW, tW, tW, tW, tW, tW, tW], [(⟨3,5⟩, ⟨Team.Gnome,95,3⟩), (⟨4,5⟩, ⟨Team.Elf,155,7⟩), (⟨2,4⟩, ⟨Team.Elf,71,7⟩), (⟨2,5⟩, ⟨Team.Gnome,95,3⟩), (⟨2,3⟩, ⟨Team.Gnome,200,3⟩), (⟨1,4⟩, ⟨Team.Gnome,200,3⟩)]⟩, 0⟩, ⟨7, 4398046511103, 4363416223614, 2181708111807⟩, ⟨2134082950912, 67766272, 8590196736⟩⟩

def s7r16 : FastGame := ⟨⟨16, [⟨1,4⟩, ⟨2,3⟩, ⟨2,4⟩, ⟨2,5⟩, ⟨3,5⟩, ⟨4,5⟩], ⟨⟨6,7⟩, [tW, tW, tW, tW, tW, tW, tW, tW, tE, tE, tE, tG, tE, tW, tW, tE, tE, tG, tF, tG, tW, tW, tE, tW, tE, tW, tG, tW, tW, tE, tE, tE, tW, tF, tW, tW, tE, tE, tE, tE, tE, tW, tW, tW, tW, tW, tW, tW, tW], [(⟨3,5⟩, ⟨Team.Gnome,88,3⟩), (⟨4,5⟩, ⟨Team.Elf,152,7⟩), (⟨2,4⟩, ⟨Team.Elf,62,7⟩), (⟨2,5⟩, ⟨Team.Gnome,88,3⟩), (⟨2,3⟩, ⟨Team.Gnome,200,3⟩), (⟨1,4⟩, ⟨Team.Gnome,200,3⟩)]⟩, 0⟩, ⟨7, 4398046511103, 4363416223614, 2181708111807⟩, ⟨2134082950912, 67766272, 8590196736⟩⟩

def s7r17 : FastGame := ⟨⟨17, [⟨1,4⟩, ⟨2,3⟩, ⟨2,4⟩, ⟨2,5⟩, ⟨3,5⟩, ⟨4,5⟩], ⟨⟨6,7⟩, [tW, tW, tW, tW, tW, tW, tW, tW, tE, tE, tE, tG, tE, tW, tW, tE, tE, tG, tF, tG, tW, tW, tE, tW, tE, tW, tG, tW, tW, tE, tE, tE, tW, tF, tW, tW, tE, tE, tE, tE, tE, tW, tW, tW, tW, tW, tW, tW, tW], [(⟨3,5⟩, ⟨Team.Gnome,81,3⟩), (⟨4,5⟩, ⟨Team.Elf,149,7⟩), (⟨2,4⟩, ⟨Team.Elf,53,7⟩), (⟨2,5⟩, ⟨Team.Gnome,81,3⟩), (⟨2,3⟩, ⟨Team.Gnome,200,3⟩), (⟨1,4⟩, ⟨Team.Gnome,200,3⟩)]⟩, 0⟩, ⟨7, 4398046511103, 4363416223614, 2181708111807⟩, ⟨2134082950912, 67766272, 8590196736⟩⟩

def s7r18 : FastGame := ⟨⟨18, [⟨1,4⟩, ⟨2,3⟩, ⟨2,4⟩, ⟨2,5⟩, ⟨3,5⟩, ⟨4,5⟩], ⟨⟨6,7⟩, [tW, tW, tW, tW, tW, tW, tW, tW, tE, tE, tE, tG, tE, tW, tW, tE, tE, tG, tF, tG, tW, tW, tE, tW, tE, tW, tG, tW, tW, tE, tE, tE, tW, tF, tW, tW, tE, tE, tE, tE, tE, tW, tW, tW, tW, tW, tW, tW, tW], [(⟨3,5⟩, ⟨Team.Gnome,74,3⟩), (⟨4,5⟩, ⟨Team.Elf,146,7⟩), (⟨2,4⟩, ⟨Team.Elf,44,7⟩), (⟨2,5⟩, ⟨Team.Gnome,74,3⟩), (⟨2,3⟩, ⟨Team.Gnome,200,3⟩), (⟨1,4⟩, ⟨Team.Gnome,200,3⟩)]⟩, 0⟩, ⟨7, 4398046511103, 4363416223614, 2181708111807⟩, ⟨2134082950912, 67766272, 8590196736⟩⟩

def s7r19 : FastGame := ⟨⟨19, [⟨1,4⟩, ⟨2,3⟩, ⟨2,4⟩, ⟨2,5⟩, ⟨3,5⟩, ⟨4,5⟩], ⟨⟨6,7⟩, [tW, tW, tW, tW, tW, tW, tW, tW, tE, tE, tE, tG, tE, tW, tW, tE, tE, tG, tF, tG, tW, tW, tE, tW, tE, tW, tG, tW, tW, tE, tE, tE, tW, tF, tW, tW, tE, tE, tE, tE, tE, tW, tW, tW, tW, tW, tW, tW, tW], [(⟨3,5⟩, ⟨Team.Gnome,67,3⟩), (⟨4,5⟩, ⟨Team.Elf,143,7⟩), (⟨2,4⟩, ⟨Team.Elf,35,7⟩), (⟨2,5⟩, ⟨Team.Gnome,67,3⟩), (⟨2,3⟩, ⟨Team.Gnome,200,3⟩), (⟨1,4⟩, ⟨Team.Gnome,200,3⟩)]⟩, 0⟩, ⟨7, 4398046511103, 4363416223614, 2181708111807⟩, ⟨2134082950912, 67766272, 8590196736⟩⟩

def s7r20 : FastGame := ⟨⟨20, [⟨1,4⟩, ⟨2,3⟩, ⟨2,4⟩, ⟨2,5⟩, ⟨3,5⟩, ⟨4,5⟩], ⟨⟨6,7⟩, [tW, tW, tW, tW, tW, tW, tW, tW, tE, tE, tE, tG, tE, tW, tW, tE, tE, tG, tF, tG, tW, tW, tE, tW, tE, tW, tG, tW, tW, tE, tE, tE, tW, tF, tW, tW, tE, tE, tE, tE, tE, tW, tW, tW, tW, tW, tW, tW, tW], [(⟨3,5⟩, ⟨Team.Gnome,60,3⟩), (⟨4,5⟩, ⟨Team.Elf,140,7⟩), (⟨2,4⟩, ⟨Team.Elf,26,7⟩), (⟨2,5⟩, ⟨Team.Gnome,60,3⟩), (⟨2,3⟩, ⟨Team.Gnome,200,3⟩), (⟨1,4⟩, ⟨Team.Gnome,200,3⟩)]⟩, 0⟩, ⟨7, 4398046511103, 4363416223614, 2181708111807⟩, ⟨2134082950912, 67766272, 8590196736⟩⟩

def s7r21 : FastGame := ⟨⟨21, [⟨1,4⟩, ⟨2,3⟩, ⟨2,4⟩, ⟨2,5⟩, ⟨3,5⟩, ⟨4,5⟩], ⟨⟨6,7⟩, [tW, tW, tW, tW, tW, tW, tW, tW, tE, tE, tE, tG, tE, tW, tW, tE, tE, tG, tF, tG, tW, tW, tE, tW, tE, tW, tG, tW, tW, tE, tE, tE, tW, tF, tW, tW, tE, tE, tE, tE, tE, tW, tW, tW, tW, tW, tW, tW, tW], [(⟨3,5⟩, ⟨Team.Gnome,53,3⟩), (⟨4,5⟩, ⟨Team.Elf,137,7⟩), (⟨2,4⟩, ⟨Team.Elf,17,7⟩), (⟨2,5⟩, ⟨Team.Gnome,53,3⟩), (⟨2,3⟩, ⟨Team.Gnome,200,3⟩), (⟨1,4⟩, ⟨Team.Gnome,200,3⟩)]⟩, 0⟩, ⟨7, 4398046511103, 4363416223614, 2181708111807⟩, ⟨2134082950912, 67766272, 8590196736⟩⟩

def s7r22 : FastGame := ⟨⟨22, [⟨1,4⟩, ⟨2,3⟩, ⟨2,4⟩, ⟨2,5⟩, ⟨3,5⟩, ⟨4,5⟩], ⟨⟨6,7⟩, [tW, tW, tW, tW, tW, tW, tW, tW, tE, tE, tE, tG, tE, tW, tW, tE, tE, tG, tF, tG, tW, tW, tE, tW, tE, tW, tG, tW, tW, tE, tE, tE, tW, tF, tW, tW, tE, tE, tE, tE, tE, tW, tW, tW, tW, tW, tW, tW, tW], [(⟨3,5⟩, ⟨Team.Gnome,46,3⟩), (⟨4,5⟩, ⟨Team.Elf,134,7⟩), (⟨2,4⟩, ⟨Team.Elf,8,7⟩), (⟨2,5⟩, ⟨Team.Gnome,46,3⟩), (⟨2,3⟩, ⟨Team.Gnome,200,3⟩), (⟨1,4⟩, ⟨Team.Gnome,200,3⟩)]⟩, 0⟩, ⟨7, 4398046511103, 4363416223614, 2181708111807⟩, ⟨2134082950912, 67766272, 8590196736⟩⟩

def s7r23 : FastGame := ⟨⟨23, [⟨1,4⟩, ⟨2,3⟩, ⟨2,5⟩, ⟨3,5⟩, ⟨4,5⟩], ⟨⟨6,7⟩, [tW, tW, tW, tW, tW, tW, tW, tW, tE, tE, tE, tG, tE, tW, tW, tE, tE, tG, tE, tG, tW, tW, tE, tW, tE, tW, tG, tW, tW, tE, tE, tE, tW, tF, tW, tW, tE, tE, tE, tE, tE, tW, tW, tW, tW, tW, tW, tW, tW], [(⟨3,5⟩, ⟨Team.Gnome,39,3⟩), (⟨4,5⟩, ⟨Team.Elf,131,7⟩), (⟨2,5⟩, ⟨Team.Gnome,39,3⟩), (⟨2,3⟩, ⟨Team.Gnome,200,3⟩), (⟨1,4⟩, ⟨Team.Gnome,200,3⟩)]⟩, 1⟩, ⟨7, 4398046511103, 4363416223614, 2181708111807⟩, ⟨2134083213056, 67766272, 8589934592⟩⟩

def s7r24 : FastGame := ⟨⟨24, [⟨1,3⟩, ⟨2,4⟩, ⟨3,3⟩, ⟨3,5⟩, ⟨4,5⟩], ⟨⟨6,7⟩, [tW, tW, tW, tW, tW, tW, tW, tW, tE, tE, tG, tE, tE, tW, tW, tE, tE, tE, tG, tE, tW, tW, tE, tW, tG, tW, tG, tW, tW, tE, tE, tE, tW, tF, tW, tW, tE, tE, tE, tE, tE, tW, tW, tW, tW, tW, tW, tW, tW], [(⟨3,5⟩, ⟨Team.Gnome,32,3⟩), (⟨4,5⟩, ⟨Team.Elf,128,7⟩), (⟨2,4⟩, ⟨Team.Gnome,39,3⟩), (⟨3,3⟩, ⟨Team.Gnome,200,3⟩), (⟨1,3⟩, ⟨Team.Gnome,200,3⟩)]⟩, 1⟩, ⟨7, 4398046511103, 4363416223614, 2181708111807⟩, ⟨2134066830080, 84149248, 8589934592⟩⟩

def s7r25 : FastGame := ⟨⟨25, [⟨1,2⟩, ⟨2,3⟩, ⟨3,5⟩, ⟨4,3⟩, ⟨4,5⟩], ⟨⟨6,7⟩, [tW, tW, tW, tW, tW, tW, tW, tW, tE, tG, tE, tE, tE, tW, tW, tE, tE, tG, tE, tE, tW, tW, tE, tW, tE, tW, tG, tW, tW, tE, tE, tG, tW, tF, tW, tW, tE, tE, tE, tE, tE, tW, tW, tW, tW, tW, tW, tW, tW], [(⟨3,5⟩, ⟨Team.Gnome,25,3⟩), (⟨4,5⟩, ⟨Team.Elf,125,7⟩), (⟨4,3⟩, ⟨Team.Gnome,200,3⟩), (⟨2,3⟩, ⟨Team.Gnome,39,3⟩), (⟨1,2⟩, ⟨Team.Gnome,200,3⟩)]⟩, 1⟩, ⟨7, 4398046511103, 4363416223614, 2181708111807⟩, ⟨2131936255232, 2214724096, 8589934592⟩⟩

def s7r26 : FastGame := ⟨⟨26, [⟨1,1⟩, ⟨2,2⟩, ⟨3,5⟩, ⟨4,5⟩, ⟨5,3⟩], ⟨⟨6,7⟩, [tW, tW, tW, tW, tW, tW, tW, tW, tG, tE, tE, tE, tE, tW, tW, tE, tG, tE, tE, tE, tW, tW, tE, tW, tE, tW, tG, tW, tW, tE, tE, tE, tW, tF, tW, tW, tE, tE, tG, tE, tE, tW, tW, tW, tW, tW, tW, tW, tW], [(⟨3,5⟩, ⟨Team.Gnome,18,3⟩), (⟨5,3⟩, ⟨Team.Gnome,200,3⟩), (⟨4,5⟩, ⟨Team.Elf,122,7⟩), (⟨2,2⟩, ⟨Team.Gnome,39,3⟩), (⟨1,1⟩, ⟨Team.Gnome,200,3⟩)]⟩, 1⟩, ⟨7, 4398046511103, 4363416223614, 2181708111807⟩, ⟨1859205897728, 274945081600, 8589934592⟩⟩

def s7r27 : FastGame := ⟨⟨27, [⟨1,1⟩, ⟨2,2⟩, ⟨3,5⟩, ⟨4,5⟩, ⟨5,4⟩], ⟨⟨6,7⟩, [tW, tW, tW, tW, tW, tW, tW, tW, tG, tE, tE, tE, tE, tW, tW, tE, tG, tE, tE, tE, tW, tW, tE, tW, tE, tW, tG, tW, tW, tE, tE, tE, tW, tF, tW, tW, tE, tE, tE, tG, tE, tW, tW, tW, tW, tW, tW, tW, tW], [(⟨5,4⟩, ⟨Team.Gnome,200,3⟩), (⟨3,5⟩, ⟨Team.Gnome,11,3⟩), (⟨4,5⟩, ⟨Team.Elf,119,7⟩), (⟨2,2⟩, ⟨Team.Gnome,39,3⟩), (⟨1,1⟩, ⟨Team.Gnome,200,3⟩)]⟩, 1⟩, ⟨7, 4398046511103, 4363416223614, 2181708111807⟩, ⟨1584327990784, 549822988544, 8589934592⟩⟩

def s7r28 : FastGame := ⟨⟨28, [⟨1,1⟩, ⟨2,2⟩, ⟨3,5⟩, ⟨4,5⟩, ⟨5,5⟩], ⟨⟨6,7⟩, [tW, tW, tW, tW, tW, tW, tW, tW, tG, tE, tE, tE, tE, tW, tW, tE, tG, tE, tE, tE, tW, tW, tE, tW, tE, tW, tG, tW, tW, tE, tE, tE, tW, tF, tW, tW, tE, tE, tE, tE, tG, tW, tW, tW, tW, tW, tW, tW, tW], [(⟨4,5⟩, ⟨Team.Elf,113,7⟩), (⟨5,5⟩, ⟨Team.Gnome,200,3⟩), (⟨3,5⟩, ⟨Team.Gnome,4,3⟩), (⟨2,2⟩, ⟨Team.Gnome,39,3⟩), (⟨1,1⟩, ⟨Team.Gnome,200,3⟩)]⟩, 1⟩, ⟨7, 4398046511103, 4363416223614, 2181708111807⟩, ⟨1034572176896, 1099578802432, 8589934592⟩⟩

def s7r29 : FastGame := ⟨⟨29, [⟨1,1⟩, ⟨2,2⟩, ⟨4,5⟩, ⟨5,5⟩], ⟨⟨6,7⟩, [tW, tW, tW, tW, tW, tW, tW, tW, tG, tE, tE, tE, tE, tW, tW, tE, tG, tE, tE, tE, tW, tW, tE, tW, tE, tW, tE, tW, tW, tE, tE, tE, tW, tF, tW, tW, tE, tE, tE, tE, tG, tW, tW, tW, tW, tW, tW, tW, tW], [(⟨4,5⟩, ⟨Team.Elf,107,7⟩), (⟨5,5⟩, ⟨Team.Gnome,200,3⟩), (⟨2,2⟩, ⟨Team.Gnome,39,3⟩), (⟨1,1⟩, ⟨Team.Gnome,200,3⟩)]⟩, 1⟩, ⟨7, 4398046511103, 4363416223614, 2181708111807⟩, ⟨1034639285760, 1099511693568, 8589934592⟩⟩

def s7r30 : FastGame := ⟨⟨30, [⟨1,2⟩, ⟨2,3⟩, ⟨4,5⟩, ⟨5,5⟩], ⟨⟨6,7⟩, [tW, tW, tW, tW, tW, tW, tW, tW, tE, tG, tE, tE, tE, tW, tW, tE, tE, tG, tE, tE, tW, tW, tE, tW, tE, tW, tE, tW, tW, tE, tE, tE, tW, tF, tW, tW, tE, tE, tE, tE, tG, tW, tW, tW, tW, tW, tW, tW, tW], [(⟨4,5⟩, ⟨Team.Elf,104,7⟩), (⟨5,5⟩, ⟨Team.Gnome,193,3⟩), (⟨2,3⟩, ⟨Team.Gnome,39,3⟩), (⟨1,2⟩, ⟨Team.Gnome,200,3⟩)]⟩, 1⟩, ⟨7, 4398046511103, 4363416223614, 2181708111807⟩, ⟨1034639219968, 1099511759360, 8589934592⟩⟩

def s7r31 : FastGame := ⟨⟨31, [⟨1,3⟩, ⟨2,4⟩, ⟨4,5⟩, ⟨5,5⟩], ⟨⟨6,7⟩, [tW, tW, tW, tW, tW, tW, tW, tW, tE, tE, tG, tE, tE, tW, tW, tE, tE, tE, tG, tE, tW, tW, tE, tW, tE, tW, tE, tW, tW, tE, tE, tE, tW, tF, tW, tW, tE, tE, tE, tE, tG, tW, tW, tW, tW, tW, tW, tW, tW], [(⟨4,5⟩, ⟨Team.Elf,101,7⟩), (⟨5,5⟩, ⟨Team.Gnome,186,3⟩), (⟨2,4⟩, ⟨Team.Gnome,39,3⟩), (⟨1,3⟩, ⟨Team.Gnome,200,3⟩)]⟩, 1⟩, ⟨7, 4398046511103, 4363416223614, 2181708111807⟩, ⟨1034639088384, 1099511890944, 8589934592⟩⟩

def s7r32 : FastGame := ⟨⟨32, [⟨1,4⟩, ⟨2,5⟩, ⟨4,5⟩, ⟨5,5⟩], ⟨⟨6,7⟩, [tW, tW, tW, tW, tW, tW, tW, tW, tE, tE, tE, tG, tE, tW, tW, tE, tE, tE, tE, tG, tW, tW, tE, tW, tE, tW, tE, tW, tW, tE, tE, tE, tW, tF, tW, tW, tE, tE, tE, tE, tG, tW, tW, tW, tW, tW, tW, tW, tW], [(⟨4,5⟩, ⟨Team.Elf,98,7⟩), (⟨5,5⟩, ⟨Team.Gnome,179,3⟩), (⟨2,5⟩, ⟨Team.Gnome,39,3⟩), (⟨1,4⟩, ⟨Team.Gnome,200,3⟩)]⟩, 1⟩, ⟨7, 4398046511103, 4363416223614, 2181708111807⟩, ⟨1034638825216, 1099512154112, 8589934592⟩⟩

def s7r33 : FastGame := ⟨⟨33, [⟨1,4⟩, ⟨3,5⟩, ⟨4,5⟩, ⟨5,5⟩], ⟨⟨6,7⟩, [tW, tW, tW, tW, tW, tW, tW, tW, tE, tE, tE, tG, tE, tW, tW, tE, tE, tE, tE, tE, tW, tW, tE, tW, tE, tW, tG, tW, tW, tE, tE, tE, tW, tF, tW, tW, tE, tE, tE, tE, tG, tW, tW, tW, tW, tW, tW, tW, tW], [(⟨4,5⟩, ⟨Team.Elf,92,7⟩), (⟨3,5⟩, ⟨Team.Gnome,32,3⟩), (⟨5,5⟩, ⟨Team.Gnome,179,3⟩), (⟨1,4⟩, ⟨Team.Gnome,200,3⟩)]⟩, 1⟩, ⟨7, 4398046511103, 4363416223614, 2181708111807⟩, ⟨1034572240640, 1099578738688, 8589934592⟩⟩

def s7r34 : FastGame := ⟨⟨34, [⟨1,4⟩, ⟨3,5⟩, ⟨4,5⟩, ⟨5,5⟩], ⟨⟨6,7⟩, [tW, tW, tW, tW, tW, tW, tW, tW, tE, tE, tE, tG, tE, tW, tW, tE, tE, tE, tE, tE, tW, tW, tE, tW, tE, tW, tG, tW, tW, tE, tE, tE, tW, tF, tW, tW, tE, tE, tE, tE, tG, tW, tW, tW, tW, tW, tW, tW, tW], [(⟨4,5⟩, ⟨Team.Elf,86,7⟩), (⟨3,5⟩, ⟨Team.Gnome,25,3⟩), (⟨5,5⟩, ⟨Team.Gnome,179,3⟩), (⟨1,4⟩, ⟨Team.Gnome,200,3⟩)]⟩, 1⟩, ⟨7, 4398046511103, 4363416223614, 2181708111807⟩, ⟨1034572240640, 1099578738688, 8589934592⟩⟩

def s7r35 : FastGame := ⟨⟨35, [⟨1,4⟩, ⟨3,5⟩, ⟨4,5⟩, ⟨5,5⟩], ⟨⟨6,7⟩, [tW, tW, tW, tW, tW, tW, tW, tW, tE, tE, tE, tG, tE, tW, tW, tE, tE, tE, tE, tE, tW, tW, tE, tW, tE, tW, tG, tW, tW, tE, tE, tE, tW, tF, tW, tW, tE, tE, tE, tE, tG, tW, tW, tW, tW, tW, tW, tW, tW], [(⟨4,5⟩, ⟨Team.Elf,80,7⟩), (⟨3,5⟩, ⟨Team.Gnome,18,3⟩), (⟨5,5⟩, ⟨Team.Gnome,179,3⟩), (⟨1,4⟩, ⟨Team.Gnome,200,3⟩)]⟩, 1⟩, ⟨7, 4398046511103, 4363416223614, 2181708111807⟩, ⟨1034572240640, 1099578738688, 8589934592⟩⟩

def s7r36 : FastGame := ⟨⟨36, [⟨1,4⟩, ⟨3,5⟩, ⟨4,5⟩, ⟨5,5⟩], ⟨⟨6,7⟩, [tW, tW, tW, tW, tW, tW, tW, tW, tE, tE, tE, tG, tE, tW, tW, tE, tE, tE, tE, tE, tW, tW, tE, tW, tE, tW, tG, tW, tW, tE, tE, tE, tW, tF, tW, tW, tE, tE, tE, tE, tG, tW, tW, tW, tW, tW, tW, tW, tW], [(⟨4,5⟩, ⟨Team.Elf,74,7⟩), (⟨3,5⟩, ⟨Team.Gnome,11,3⟩), (⟨5,5⟩, ⟨Team.Gnome,179,3⟩), (⟨1,4⟩, ⟨Team.Gnome,200,3⟩)]⟩, 1⟩, ⟨7, 4398046511103, 4363416223614, 2181708111807⟩, ⟨1034572240640, 1099578738688, 8589934592⟩⟩

def s7r37 : FastGame := ⟨⟨37, [⟨1,4⟩, ⟨3,5⟩, ⟨4,5⟩, ⟨5,5⟩], ⟨⟨6,7⟩, [tW, tW, tW, tW, tW, tW, tW, tW, tE, tE, tE, tG, tE, tW, tW, tE, tE, tE, tE, tE, tW, tW, tE, tW, tE, tW, tG, tW, tW, tE, tE, tE, tW, tF, tW, tW, tE, tE, tE, tE, tG, tW, tW, tW, tW, tW, tW, tW, tW], [(⟨4,5⟩, ⟨Team.Elf,68,7⟩), (⟨3,5⟩, ⟨Team.Gnome,4,3⟩), (⟨5,5⟩, ⟨Team.Gnome,179,3⟩), (⟨1,4⟩, ⟨Team.Gnome,200,3⟩)]⟩, 1⟩, ⟨7, 4398046511103, 4363416223614, 2181708111807⟩, ⟨1034572240640, 1099578738688, 8589934592⟩⟩

def s7r38 : FastGame := ⟨⟨38, [⟨1,4⟩, ⟨4,5⟩, ⟨5,5⟩], ⟨⟨6,7⟩, [tW, tW, tW, tW, tW, tW, tW, tW, tE, tE, tE, tG, tE, tW, tW, tE, tE, tE, tE, tE, tW, tW, tE, tW, tE, tW, tE, tW, tW, tE, tE, tE, tW, tF, tW, tW, tE, tE, tE, tE, tG, tW, tW, tW, tW, tW, tW, tW, tW], [(⟨4,5⟩, ⟨Team.Elf,62,7⟩), (⟨5,5⟩, ⟨Team.Gnome,179,3⟩), (⟨1,4⟩, ⟨Team.Gnome,200,3⟩)]⟩, 1⟩, ⟨7, 4398046511103, 4363416223614, 2181708111807⟩, ⟨1034639349504, 1099511629824, 8589934592⟩⟩

def s7r39 : FastGame := ⟨⟨39, [⟨1,5⟩, ⟨4,5⟩, ⟨5,5⟩], ⟨⟨6,7⟩, [tW, tW, tW, tW, tW, tW, tW, tW, tE, tE, tE, tE, tG, tW, tW, tE, tE, tE, tE, tE, tW, tW, tE, tW, tE, tW, tE, tW, tW, tE, tE, tE, tW, tF, tW, tW, tE, tE, tE, tE, tG, tW, tW, tW, tW, tW, tW, tW, tW], [(⟨4,5⟩, ⟨Team.Elf,59,7⟩), (⟨5,5⟩, ⟨Team.Gnome,172,3⟩), (⟨1,5⟩, ⟨Team.Gnome,200,3⟩)]⟩, 1⟩, ⟨7, 4398046511103, 4363416223614, 2181708111807⟩, ⟨1034639347456, 1099511631872, 8589934592⟩⟩

def s7r40 : FastGame := ⟨⟨40, [⟨2,5⟩, ⟨4,5⟩, ⟨5,5⟩], ⟨⟨6,7⟩, [tW, tW, tW, tW, tW, tW, tW, tW, tE, tE, tE, tE, tE, tW, tW, tE, tE, tE, tE, tG, tW, tW, tE, tW, tE, tW, tE, tW, tW, tE, tE, tE, tW, tF, tW, tW, tE, tE, tE, tE, tG, tW, tW, tW, tW, tW, tW, tW, tW], [(⟨4,5⟩, ⟨Team.Elf,56,7⟩), (⟨5,5⟩, ⟨Team.Gnome,165,3⟩), (⟨2,5⟩, ⟨Team.Gnome,200,3⟩)]⟩, 1⟩, ⟨7, 4398046511103, 4363416223614, 2181708111807⟩, ⟨1034638827264, 1099512152064, 8589934592⟩⟩

def s7r41 : FastGame := ⟨⟨41, [⟨3,5⟩, ⟨4,5⟩, ⟨5,5⟩], ⟨⟨6,7⟩, [tW, tW, tW, tW, tW, tW, tW, tW, tE, tE, tE, tE, tE, tW, tW, tE, tE, tE, tE, tE, tW, tW, tE, tW, tE, tW, tG, tW, tW, tE, tE, tE, tW, tF, tW, tW, tE, tE, tE, tE, tG, tW, tW, tW, tW, tW, tW, tW, tW], [(⟨4,5⟩, ⟨Team.Elf,50,7⟩), (⟨5,5⟩, ⟨Team.Gnome,158,3⟩), (⟨3,5⟩, ⟨Team.Gnome,200,3⟩)]⟩, 1⟩, ⟨7, 4398046511103, 4363416223614, 2181708111807⟩, ⟨1034572242688, 1099578736640, 8589934592⟩⟩

def s7r42 : FastGame := ⟨⟨42, [⟨3,5⟩, ⟨4,5⟩, ⟨5,5⟩], ⟨⟨6,7⟩, [tW, tW, tW, tW, tW, tW, tW, tW, tE, tE, tE, tE, tE, tW, tW, tE, tE, tE, tE, tE, tW, tW, tE, tW, tE, tW, tG, tW, tW, tE, tE, tE, tW, tF, tW, tW, tE, tE, tE, tE, tG, tW, tW, tW, tW, tW, tW, tW, tW], [(⟨4,5⟩, ⟨Team.Elf,44,7⟩), (⟨5,5⟩, ⟨Team.Gnome,151,3⟩), (⟨3,5⟩, ⟨Team.Gnome,200,3⟩)]⟩, 1⟩, ⟨7, 4398046511103, 4363416223614, 2181708111807⟩, ⟨1034572242688, 1099578736640, 8589934592⟩⟩

def s7r43 : FastGame := ⟨⟨43, [⟨3,5⟩, ⟨4,5⟩, ⟨5,5⟩], ⟨⟨6,7⟩, [tW, tW, tW, tW, tW, tW, tW, tW, tE, tE, tE, tE, tE, tW, tW, tE, tE, tE, tE, tE, tW, tW, tE, tW, tE, tW, tG, tW, tW, tE, tE, tE, tW, tF, tW, tW, tE, tE, tE, tE, tG, tW, tW, tW, tW, tW, tW, tW, tW], [(⟨4,5⟩, ⟨Team.Elf,38,7⟩), (⟨5,5⟩, ⟨Team.Gnome,144,3⟩), (⟨3,5⟩, ⟨Team.Gnome,200,3⟩)]⟩, 1⟩, ⟨7, 4398046511103, 4363416223614, 2181708111807⟩, ⟨1034572242688, 1099578736640, 8589934592⟩⟩

def s7r44 : FastGame := ⟨⟨44, [⟨3,5⟩, ⟨4,5⟩, ⟨5,5⟩], ⟨⟨6,7⟩, [tW, tW, tW, tW, tW, tW, tW, tW, tE, tE, tE, tE, tE, tW, tW, tE, tE, tE, tE, tE, tW, tW, tE, tW, tE, tW, tG, tW, tW, tE, tE, tE, tW, tF, tW, tW, tE, tE, tE, tE, tG, tW, tW, tW, tW, tW, tW, tW, tW], [(⟨4,5⟩, ⟨Team.Elf,32,7⟩), (⟨5,5⟩, ⟨Team.Gnome,137,3⟩), (⟨3,5⟩, ⟨Team.Gnome,200,3⟩)]⟩, 1⟩, ⟨7, 4398046511103, 4363416223614, 2181708111807⟩, ⟨1034572242688, 1099578736640, 8589934592⟩⟩

def s7r45 : FastGame := ⟨⟨45, [⟨3,5⟩, ⟨4,5⟩, ⟨5,5⟩], ⟨⟨6,7⟩, [tW, tW, tW, tW, tW, tW, tW, tW, tE, tE, tE, tE, tE, tW, tW, tE, tE, tE, tE, tE, tW, tW, tE, tW, tE, tW, tG, tW, tW, tE, tE, tE, tW, tF, tW, tW, tE, tE, tE, tE, tG, tW, tW, tW, tW, tW, tW, tW, tW], [(⟨4,5⟩, ⟨Team.Elf,26,7⟩), (⟨5,5⟩, ⟨Team.Gnome,130,3⟩), (⟨3,5⟩, ⟨Team.Gnome,200,3⟩)]⟩, 1⟩, ⟨7, 4398046511103, 4363416223614, 2181708111807⟩, ⟨1034572242688, 1099578736640, 8589934592⟩⟩

def s7r46 : FastGame := ⟨⟨46, [⟨3,5⟩, ⟨4,5⟩, ⟨5,5⟩], ⟨⟨6,7⟩, [tW, tW, tW, tW, tW, tW, tW, tW, tE, tE, tE, tE, tE, tW, tW, tE, tE, tE, tE, tE, tW, tW, tE, tW, tE, tW, tG, tW, tW, tE, tE, tE, tW, tF, tW, tW, tE, tE, tE, tE, tG, tW, tW, tW, tW, tW, tW, tW, tW], [(⟨4,5⟩, ⟨Team.Elf,20,7⟩), (⟨5,5⟩, ⟨Team.Gnome,123,3⟩), (⟨3,5⟩, ⟨Team.Gnome,200,3⟩)]⟩, 1⟩, ⟨7, 4398046511103, 4363416223614, 2181708111807⟩, ⟨1034572242688, 1099578736640, 8589934592⟩⟩

def s7r47 : FastGame := ⟨⟨47, [⟨3,5⟩, ⟨4,5⟩, ⟨5,5⟩], ⟨⟨6,7⟩, [tW, tW, tW, tW, tW, tW, tW, tW, tE, tE, tE, tE, tE, tW, tW, tE, tE, tE, tE, tE, tW, tW, tE, tW, tE, tW, tG, tW, tW, tE, tE, tE, tW, tF, tW, tW, tE, tE, tE, tE, tG, tW, tW, tW, tW, tW, tW, tW, tW], [(⟨4,5⟩, ⟨Team.Elf,14,7⟩), (⟨5,5⟩, ⟨Team.Gnome,116,3⟩), (⟨3,5⟩, ⟨Team.Gnome,200,3⟩)]⟩, 1⟩, ⟨7, 4398046511103, 4363416223614, 2181708111807⟩, ⟨1034572242688, 1099578736640, 8589934592⟩⟩

def s7r48 : FastGame := ⟨⟨48, [⟨3,5⟩, ⟨4,5⟩, ⟨5,5⟩], ⟨⟨6,7⟩, [tW, tW, tW, tW, tW, tW, tW, tW, tE, tE, tE, tE, tE, tW, tW, tE, tE, tE, tE, tE, tW, tW, tE, tW, tE, tW, tG, tW, tW, tE, tE, tE, tW, tF, tW, tW, tE, tE, tE, tE, tG, tW, tW, tW, tW, tW, tW, tW, tW], [(⟨4,5⟩, ⟨Team.Elf,8,7⟩), (⟨5,5⟩, ⟨Team.Gnome,109,3⟩), (⟨3,5⟩, ⟨Team.Gnome,200,3⟩)]⟩, 1⟩, ⟨7, 4398046511103, 4363416223614, 2181708111807⟩, ⟨1034572242688, 1099578736640, 8589934592⟩⟩

def s7r49 : FastGame := ⟨⟨49, [⟨3,5⟩, ⟨4,5⟩, ⟨5,5⟩], ⟨⟨6,7⟩, [tW, tW, tW, tW, tW, tW, tW, tW, tE, tE, tE, tE, tE, tW, tW, tE, tE, tE, tE, tE, tW, tW, tE, tW, tE, tW, tG, tW, tW, tE, tE, tE, tW, tF, tW, tW, tE, tE, tE, tE, tG, tW, tW, tW, tW, tW, tW, tW, tW], [(⟨4,5⟩, ⟨Team.Elf,2,7⟩), (⟨5,5⟩, ⟨Team.Gnome,102,3⟩), (⟨3,5⟩, ⟨Team.Gnome,200,3⟩)]⟩, 1⟩, ⟨7, 4398046511103, 4363416223614, 2181708111807⟩, ⟨1034572242688, 1099578736640, 8589934592⟩⟩

def s7r50 : FastGame := ⟨⟨49, [], ⟨⟨6,7⟩, [tW, tW, tW, tW, tW, tW, tW, tW, tE, tE, tE, tE, tE, tW, tW, tE, tE, tE, tE, tE, tW, tW, tE, tW, tE, tW, tG, tW, tW, tE, tE, tE, tW, tE, tW, tW, tE, tE, tE, tE, tG, tW, tW, tW, tW, tW, tW, tW, tW], [(⟨5,5⟩, ⟨Team.Gnome,102,3⟩), (⟨3,5⟩, ⟨Team.Gnome,200,3⟩)]⟩, 2⟩, ⟨7, 4398046511103, 4363416223614, 2181708111807⟩, ⟨1043162177280, 1099578736640, 0⟩⟩

-- power 8: 51 states
def s8r0 : FastGame := ⟨⟨0, [⟨1,2⟩, ⟨2,4⟩, ⟨2,5⟩, ⟨3,5⟩, ⟨4,3⟩, ⟨4,5⟩], ⟨⟨6,7⟩, [tW, tW, tW, tW, tW, tW, tW, tW, tE, tG, tE, tE, tE, tW, tW, tE, tE, tE, tF, tG, tW, tW, tE, tW, tE, tW, tG, tW, tW, tE, tE, tG, tW, tF, tW, tW, tE, tE, tE, tE, tE, tW, tW, tW, tW, tW, tW, tW, tW], [(⟨4,5⟩, ⟨Team.Elf,200,8⟩), (⟨4,3⟩, ⟨Team.Gnome,200,3⟩), (⟨3,5⟩, ⟨Team.Gnome,200,3⟩), (⟨2,5⟩, ⟨Team.Gnome,200,3⟩), (⟨2,4⟩, ⟨Team.Elf,200,8⟩), (⟨1,2⟩, ⟨Team.Gnome,200,3⟩)]⟩, 0⟩, ⟨7, 4398046511103, 4363416223614, 2181708111807⟩, ⟨2131935599872, 2215117312, 8590196736⟩⟩

def s8r1 : FastGame := ⟨⟨1, [⟨1,3⟩, ⟨2,4⟩, ⟨2,5⟩, ⟨3,3⟩, ⟨3,5⟩, ⟨4,5⟩], ⟨⟨6,7⟩, [tW, tW, tW, tW, tW, tW, tW, tW, tE, tE, tG, tE, tE, tW, tW, tE, tE, tE, tF, tG, tW, tW, tE, tW, tG, tW, tG, tW, tW, tE, tE, tE, tW, tF, tW, tW, tE, tE, tE, tE, tE, tW, tW, tW, tW, tW, tW, tW, tW], [(⟨3,5⟩, ⟨Team.Gnome,192,3⟩), (⟨3,3⟩, ⟨Team.Gnome,200,3⟩), (⟨4,5⟩, ⟨Team.Elf,197,8⟩), (⟨2,4⟩, ⟨Team.Elf,197,8⟩), (⟨2,5⟩, ⟨Team.Gnome,192,3⟩), (⟨1,3⟩, ⟨Team.Gnome,200,3⟩)]⟩, 0⟩, ⟨7, 4398046511103, 4363416223614, 2181708111807⟩, ⟨2134066305792, 84411392, 8590196736⟩⟩

def s8r2 : FastGame := ⟨⟨2, [⟨1,4⟩, ⟨2,3⟩, ⟨2,4⟩, ⟨2,5⟩, ⟨3,5⟩, ⟨4,5⟩], ⟨⟨6,7⟩, [tW, tW, tW, tW, tW, tW, tW, tW, tE, tE, tE, tG, tE, tW, tW, tE, tE, tG, tF, tG, tW, tW, tE, tW, tE, tW, tG, tW, tW, tE, tE, tE, tW, tF, tW, tW, tE, tE, tE, tE, tE, tW, tW, tW, tW, tW, tW, tW, tW], [(⟨3,5⟩, ⟨Team.Gnome,184,3⟩), (⟨4,5⟩, ⟨Team.Elf,194,8⟩), (⟨2,4⟩, ⟨Team.Elf,188,8⟩), (⟨2,3⟩, ⟨Team.Gnome,200,3⟩), (⟨2,5⟩, ⟨Team.Gnome,184,3⟩), (⟨1,4⟩, ⟨Team.Gnome,200,3⟩)]⟩, 0⟩, ⟨7, 4398046511103, 4363416223614, 2181708111807⟩, ⟨2134082950912, 67766272, 8590196736⟩⟩

def s8r3 : FastGame := ⟨⟨3, [⟨1,4⟩, ⟨2,3⟩, ⟨2,4⟩, ⟨2,5⟩, ⟨3,5⟩, ⟨4,5⟩], ⟨⟨6,7⟩, [tW, tW, tW, tW, tW, tW, tW, tW, tE, tE, tE, tG, tE, tW, tW, tE, tE, tG, tF, tG, tW, tW, tE, tW, tE, tW, tG, tW, tW, tE, tE, tE, tW, tF, tW, tW, tE, tE, tE, tE, tE, tW, tW, tW, tW, tW, tW, tW, tW], [(⟨3,5⟩, ⟨Team.Gnome,176,3⟩), (⟨4,5⟩, ⟨Team.Elf,191,8⟩), (⟨2,4⟩, ⟨Team.Elf,179,8⟩), (⟨2,5⟩, ⟨Team.Gnome,176,3⟩), (⟨2,3⟩, ⟨Team.Gnome,200,3⟩), (⟨1,4⟩, ⟨Team.Gnome,200,3⟩)]⟩, 0⟩, ⟨7, 4398046511103, 4363416223614, 2181708111807⟩, ⟨2134082950912, 67766272, 8590196736⟩⟩

def s8r4 : FastGame := ⟨⟨4, [⟨1,4⟩, ⟨2,3⟩, ⟨2,4⟩, ⟨2,5⟩, ⟨3,5⟩, ⟨4,5⟩], ⟨⟨6,7⟩, [tW, tW, tW, tW, tW, tW, tW, tW, tE, tE, tE, tG, tE, tW, tW, tE, tE, tG, tF, tG, tW, tW, tE, tW, tE, tW, tG, tW, tW, tE, tE, tE, tW, tF, tW, tW, tE, tE, tE, tE, tE, tW, tW, tW, tW, tW, tW, tW, tW], [(⟨3,5⟩, ⟨Team.Gnome,168,3⟩), (⟨4,5⟩, ⟨Team.Elf,188,8⟩), (⟨2,4⟩, ⟨Team.Elf,170,8⟩), (⟨2,5⟩, ⟨Team.Gnome,168,3⟩), (⟨2,3⟩, ⟨Team.Gnome,200,3⟩), (⟨1,4⟩, ⟨Team.Gnome,200,3⟩)]⟩, 0⟩, ⟨7, 4398046511103, 4363416223614, 2181708111807⟩, ⟨2134082950912, 67766272, 8590196736⟩⟩

def s8r5 : FastGame := ⟨⟨5, [⟨1,4⟩, ⟨2,3⟩, ⟨2,4⟩, ⟨2,5⟩, ⟨3,5⟩, ⟨4,5⟩], ⟨⟨6,7⟩, [tW, tW, tW, tW, tW, tW, tW, tW, tE, tE, tE, tG, tE, tW, tW, tE, tE, tG, tF, tG, tW, tW, tE, tW, tE, tW, tG, tW, tW, tE, tE, tE, tW, tF, tW, tW, tE, tE, tE, tE, tE, tW, tW, tW, tW, tW, tW, tW, tW], [(⟨3,5⟩, ⟨Team.Gnome,160,3⟩), (⟨4,5⟩, ⟨Team.Elf,185,8⟩), (⟨2,4⟩, ⟨Team.Elf,161,8⟩), (⟨2,5⟩, ⟨Team.Gnome,160,3⟩), (⟨2,3⟩, ⟨Team.Gnome,200,3⟩), (⟨1,4⟩, ⟨Team.Gnome,200,3⟩)]⟩, 0⟩, ⟨7, 4398046511103, 4363416223614, 2181708111807⟩, ⟨2134082950912, 67766272, 8590196736⟩⟩

def s8r6 : FastGame := ⟨⟨6, [⟨1,4⟩, ⟨2,3⟩, ⟨2,4⟩, ⟨2,5⟩, ⟨3,5⟩, ⟨4,5⟩], ⟨⟨6,7⟩, [tW, tW, tW, tW, tW, tW, tW, tW, tE, tE, tE, tG, tE, tW, tW, tE, tE, tG, tF, tG, tW, tW, tE, tW, tE, tW, tG, tW, tW, tE, tE, tE, tW, tF, tW, tW, tE, tE, tE, tE, tE, tW, tW, tW, tW, tW, tW, tW, tW], [(⟨3,5⟩, ⟨Team.Gnome,152,3⟩), (⟨4,5⟩, ⟨Team.Elf,182,8⟩), (⟨2,4⟩, ⟨Team.Elf,152,8⟩), (⟨2,5⟩, ⟨Team.Gnome,152,3⟩), (⟨2,3⟩, ⟨Team.Gnome,200,3⟩), (⟨1,4⟩, ⟨Team.Gnome,200,3⟩)]⟩, 0⟩, ⟨7, 4398046511103, 4363416223614, 2181708111807⟩, ⟨2134082950912, 67766272, 8590196736⟩⟩

def s8r7 : FastGame := ⟨⟨7, [⟨1,4⟩, ⟨2,3⟩, ⟨2,4⟩, ⟨2,5⟩, ⟨3,5⟩, ⟨4,5⟩], ⟨⟨6,7⟩, [tW, tW, tW, tW, tW, tW, tW, tW, tE, tE, tE, tG, tE, tW, tW, tE, tE, tG, tF, tG, tW, tW, tE, tW, tE, tW, tG, tW, tW, tE, tE, tE, tW, tF, tW, tW, tE, tE, tE, tE, tE, tW, tW, tW, tW, tW, tW, tW, tW], [(⟨3,5⟩, ⟨Team.Gnome,144,3⟩), (⟨4,5⟩, ⟨Team.Elf,179,8⟩), (⟨2,4⟩, ⟨Team.Elf,143,8⟩), (⟨2,5⟩, ⟨Team.Gnome,144,3⟩), (⟨2,3⟩, ⟨Team.Gnome,200,3⟩), (⟨1,4⟩, ⟨Team.Gnome,200,3⟩)]⟩, 0⟩, ⟨7, 4398046511103, 4363416223614, 2181708111807⟩, ⟨2134082950912, 67766272, 8590196736⟩⟩

def s8r8 : FastGame := ⟨⟨8, [⟨1,4⟩, ⟨2,3⟩, ⟨2,4⟩, ⟨2,5⟩, ⟨3,5⟩, ⟨4,5⟩], ⟨⟨6,7⟩, [tW, tW, tW, tW, tW, tW, tW, tW, tE, tE, tE, tG, tE, tW, tW, tE, tE, tG, tF, tG, tW, tW, tE, tW, tE, tW, tG, tW, tW, tE, tE, tE, tW, tF, tW, tW, tE, tE, tE, tE, tE, tW, tW, tW, tW, tW, tW, tW, tW], [(⟨3,5⟩, ⟨Team.Gnome,136,3⟩), (⟨4,5⟩, ⟨Team.Elf,176,8⟩), (⟨2,4⟩, ⟨Team.Elf,134,8⟩), (⟨2,5⟩, ⟨Team.Gnome,136,3⟩), (⟨2,3⟩, ⟨Team.Gnome,200,3⟩), (⟨1,4⟩, ⟨Team.Gnome,200,3⟩)]⟩, 0⟩, ⟨7, 4398046511103, 4363416223614, 2181708111807⟩, ⟨2134082950912, 67766272, 8590196736⟩⟩

def s8r9 : FastGame := ⟨⟨9, [⟨1,4⟩, ⟨2,3⟩, ⟨2,4⟩, ⟨2,5⟩, ⟨3,5⟩, ⟨4,5⟩], ⟨⟨6,7⟩, [tW, tW, tW, tW, tW, tW, tW, tW, tE, tE, tE, tG, tE, tW, tW, tE, tE, tG, tF, tG, tW, tW, tE, tW, tE, tW, tG, tW, tW, tE, tE, tE, tW, tF, tW, tW, tE, tE, tE, tE, tE, tW, tW, tW, tW, tW, tW, tW, tW], [(⟨3,5⟩, ⟨Team.Gnome,128,3⟩), (⟨4,5⟩, ⟨Team.Elf,173,8⟩), (⟨2,4⟩, ⟨Team.Elf,125,8⟩), (⟨2,5⟩, ⟨Team.Gnome,128,3⟩), (⟨2,3⟩, ⟨Team.Gnome,200,3⟩), (⟨1,4⟩, ⟨Team.Gnome,200,3⟩)]⟩, 0⟩, ⟨7, 4398046511103, 4363416223614, 2181708111807⟩, ⟨2134082950912, 67766272, 8590196736⟩⟩

def s8r10 : FastGame := ⟨⟨10, [⟨1,4⟩, ⟨2,3⟩, ⟨2,4⟩, ⟨2,5⟩, ⟨3,5⟩, ⟨4,5⟩], ⟨⟨6,7⟩, [tW, tW, tW, tW, tW, tW, tW, tW, tE, tE, tE, tG, tE, tW, tW, tE, tE, tG, tF, tG, tW, tW, tE, tW, tE, tW, tG, tW, tW, tE, tE, tE, tW, tF, tW, tW, tE, tE, tE, tE, tE, tW, tW, tW, tW, tW, tW, tW, tW], [(⟨3,5⟩, ⟨Team.Gnome,120,3⟩), (⟨4,5⟩, ⟨Team.Elf,170,8⟩), (⟨2,4⟩, ⟨Team.Elf,116,8⟩), (⟨2,5⟩, ⟨Team.Gnome,120,3⟩), (⟨2,3⟩, ⟨Team.Gnome,200,3⟩), (⟨1,4⟩, ⟨Team.Gnome,200,3⟩)]⟩, 0⟩, ⟨7, 4398046511103, 4363416223614, 2181708111807⟩, ⟨2134082950912, 67766272, 8590196736⟩⟩

def s8r11 : FastGame := ⟨⟨11, [⟨1,4⟩, ⟨2,3⟩, ⟨2,4⟩, ⟨2,5⟩, ⟨3,5⟩, ⟨4,5⟩], ⟨⟨6,7⟩, [tW, tW, tW, tW, tW, tW, tW, tW, tE, tE, tE, tG, tE, tW, tW, tE, tE, tG, tF, tG, tW, tW, tE, tW, tE, tW, tG, tW, tW, tE, tE, tE, tW, tF, tW, tW, tE, tE, tE, tE, tE, tW, tW, tW, tW, tW, tW, tW, tW], [(⟨3,5⟩, ⟨Team.Gnome,112,3⟩), (⟨4,5⟩, ⟨Team.Elf,167,8⟩), (⟨2,4⟩, ⟨Team.Elf,107,8⟩), (⟨2,5⟩, ⟨Team.Gnome,112,3⟩), (⟨2,3⟩, ⟨Team.Gnome,200,3⟩), (⟨1,4⟩, ⟨Team.Gnome,200,3⟩)]⟩, 0⟩, ⟨7, 4398046511103, 4363416223614, 2181708111807⟩, ⟨2134082950912, 67766272, 8590196736⟩⟩

def s8r12 : FastGame := ⟨⟨12, [⟨1,4⟩, ⟨2,3⟩, ⟨2,4⟩, ⟨2,5⟩, ⟨3,5⟩, ⟨4,5⟩], ⟨⟨6,7⟩, [tW, tW, tW, tW, tW, tW, tW, tW, tE, tE, tE, tG, tE, tW, tW, tE, tE, tG, tF, tG, tW, tW, tE, tW, tE, tW, tG, tW, tW, tE, tE, tE, tW, tF, tW, tW, tE, tE, tE, tE, tE, tW, tW, tW, tW, tW, tW, tW, tW], [(⟨3,5⟩, ⟨Team.Gnome,104,3⟩), (⟨4,5⟩, ⟨Team.Elf,164,8⟩), (⟨2,4⟩, ⟨Team.Elf,98,8⟩), (⟨2,5⟩, ⟨Team.Gnome,104,3⟩), (⟨2,3⟩, ⟨Team.Gnome,200,3⟩), (⟨1,4⟩, ⟨Team.Gnome,200,3⟩)]⟩, 0⟩, ⟨7, 4398046511103, 4363416223614, 2181708111807⟩, ⟨2134082950912, 67766272, 8590196736⟩⟩

def s8r13 : FastGame := ⟨⟨13, [⟨1,4⟩, ⟨2,3⟩, ⟨2,4⟩, ⟨2,5⟩, ⟨3,5⟩, ⟨4,5⟩], ⟨⟨6,7⟩, [tW, tW, tW, tW, tW, tW, tW, tW, tE, tE, tE, tG, tE, tW, tW, tE, tE, tG, tF, tG, tW, tW, tE, tW, tE, tW, tG, tW, tW, tE, tE, tE, tW, tF, tW, tW, tE, tE, tE, tE, tE, tW, tW, tW, tW, tW, tW, tW, tW], [(⟨3,5⟩, ⟨Team.Gnome,96,3⟩), (⟨4,5⟩, ⟨Team.Elf,161,8⟩), (⟨2,4⟩, ⟨Team.Elf,89,8⟩), (⟨2,5⟩, ⟨Team.Gnome,96,3⟩), (⟨2,3⟩, ⟨Team.Gnome,200,3⟩), (⟨1,4⟩, ⟨Team.Gnome,200,3⟩)]⟩, 0⟩, ⟨7, 4398046511103, 4363416223614, 2181708111807⟩, ⟨2134082950912, 67766272, 8590196736⟩⟩

def s8r14 : FastGame := ⟨⟨14, [⟨1,4⟩, ⟨2,3⟩, ⟨2,4⟩, ⟨2,5⟩, ⟨3,5⟩, ⟨4,5⟩], ⟨⟨6,7⟩, [tW, tW, tW, tW, tW, tW, tW, tW, tE, tE, tE, tG, tE, tW, tW, tE, tE, tG, tF, tG, tW, tW, tE, tW, tE, tW, tG, tW, tW, tE, tE, tE, tW, tF, tW, tW, tE, tE, tE, tE, tE, tW, tW, tW, tW, tW, tW, tW, tW], [(⟨3,5⟩, ⟨Team.Gnome,88,3⟩), (⟨4,5⟩, ⟨Team.Elf,158,8⟩), (⟨2,4⟩, ⟨Team.Elf,80,8⟩), (⟨2,5⟩, ⟨Team.Gnome,88,3⟩), (⟨2,3⟩, ⟨Team.Gnome,200,3⟩), (⟨1,4⟩, ⟨Team.Gnome,200,3⟩)]⟩, 0⟩, ⟨7, 4398046511103, 4363416223614, 2181708111807⟩, ⟨2134082950912, 67766272, 8590196736⟩⟩

def s8r15 : FastGame := ⟨⟨15, [⟨1,4⟩, ⟨2,3⟩, ⟨2,4⟩, ⟨2,5⟩, ⟨3,5⟩, ⟨4,5⟩], ⟨⟨6,7⟩, [tW, tW, tW, tW, tW, tW, tW, tW, tE, tE, tE, tG, tE, tW, tW, tE, tE, tG, tF, tG, tW, tW, tE, tW, tE, tW, tG, tW, tW, tE, tE, tE, tW, tF, tW, tW, tE, tE, tE, tE, tE, tW, tW, tW, tW, tW, tW, tW, tW], [(⟨3,5⟩, ⟨Team.Gnome,80,3⟩), (⟨4,5⟩, ⟨Team.Elf,155,8⟩), (⟨2,4⟩, ⟨Team.Elf,71,8⟩), (⟨2,5⟩, ⟨Team.Gnome,80,3⟩), (⟨2,3⟩, ⟨Team.Gnome,200,3⟩), (⟨1,4⟩, ⟨Team.Gnome,200,3⟩)]⟩, 0⟩, ⟨7, 4398046511103, 4363416223614, 2181708111807⟩, ⟨2134082950912, 67766272, 8590196736⟩⟩

def s8r16 : FastGame := ⟨⟨16, [⟨1,4⟩, ⟨2,3⟩, ⟨2,4⟩, ⟨2,5⟩, ⟨3,5⟩, ⟨4,5⟩], ⟨⟨6,7⟩, [tW, tW, tW, tW, tW, tW, tW, tW, tE, tE, tE, tG, tE, tW, tW, tE, tE, tG, tF, tG, tW, tW, tE, tW, tE, tW, tG, tW, tW, tE, tE, tE, tW, tF, tW, tW, tE, tE, tE, tE, tE, tW, tW, tW, tW, tW, tW, tW, tW], [(⟨3,5⟩, ⟨Team.Gnome,72,3⟩), (⟨4,5⟩, ⟨Team.Elf,152,8⟩), (⟨2,4⟩, ⟨Team.Elf,62,8⟩), (⟨2,5⟩, ⟨Team.Gnome,72,3⟩), (⟨2,3⟩, ⟨Team.Gnome,200,3⟩), (⟨1,4⟩, ⟨Team.Gnome,200,3⟩)]⟩, 0⟩, ⟨7, 4398046511103, 4363416223614, 2181708111807⟩, ⟨2134082950912, 67766272, 8590196736⟩⟩

def s8r17 : FastGame := ⟨⟨17, [⟨1,4⟩, ⟨2,3⟩, ⟨2,4⟩, ⟨2,5⟩, ⟨3,5⟩, ⟨4,5⟩], ⟨⟨6,7⟩, [tW, tW, tW, tW, tW, tW, tW, tW, tE, tE, tE, tG, tE, tW, tW, tE, tE, tG, tF, tG, tW, tW, tE, tW, tE, tW, tG, tW, tW, tE, tE, tE, tW, tF, tW, tW, tE, tE, tE, tE, tE, tW, tW, tW, tW, tW, tW, tW, tW], [(⟨3,5⟩, ⟨Team.Gnome,64,3⟩), (⟨4,5⟩, ⟨Team.Elf,149,8⟩), (⟨2,4⟩, ⟨Team.Elf,53,8⟩), (⟨2,5⟩, ⟨Team.Gnome,64,3⟩), (⟨2,3⟩, ⟨Team.Gnome,200,3⟩), (⟨1,4⟩, ⟨Team.Gnome,200,3⟩)]⟩, 0⟩, ⟨7, 4398046511103, 4363416223614, 2181708111807⟩, ⟨2134082950912, 67766272, 8590196736⟩⟩

def s8r18 : FastGame := ⟨⟨18, [⟨1,4⟩, ⟨2,3⟩, ⟨2,4⟩, ⟨2,5⟩, ⟨3,5⟩, ⟨4,5⟩], ⟨⟨6,7⟩, [tW, tW, tW, tW, tW, tW, tW, tW, tE, tE, tE, tG, tE, tW, tW, tE, tE, tG, tF, tG, tW, tW, tE, tW, tE, tW, tG, tW, tW, tE, tE, tE, tW, tF, tW, tW, tE, tE, tE, tE, tE, tW, tW, tW, tW, tW, tW, tW, tW], [(⟨3,5⟩, ⟨Team.Gnome,56,3⟩), (⟨4,5⟩, ⟨Team.Elf,146,8⟩), (⟨2,4⟩, ⟨Team.Elf,44,8⟩), (⟨2,5⟩, ⟨Team.Gnome,56,3⟩), (⟨2,3⟩, ⟨Team.Gnome,200,3⟩), (⟨1,4⟩, ⟨Team.Gnome,200,3⟩)]⟩, 0⟩, ⟨7, 4398046511103, 4363416223614, 2181708111807⟩, ⟨2134082950912, 67766272, 8590196736⟩⟩

def s8r19 : FastGame := ⟨⟨19, [⟨1,4⟩, ⟨2,3⟩, ⟨2,4⟩, ⟨2,5⟩, ⟨3,5⟩, ⟨4,5⟩], ⟨⟨6,7⟩, [tW, tW, tW, tW, tW, tW, tW, tW, tE, tE, tE, tG, tE, tW, tW, tE, tE, tG, tF, tG, tW, tW, tE, tW, tE, tW, tG, tW, tW, tE, tE, tE, tW, tF, tW, tW, tE, tE, tE, tE, tE, tW, tW, tW, tW, tW, tW, tW, tW], [(⟨3,5⟩, ⟨Team.Gnome,48,3⟩), (⟨4,5⟩, ⟨Team.Elf,143,8⟩), (⟨2,4⟩, ⟨Team.Elf,35,8⟩), (⟨2,5⟩, ⟨Team.Gnome,48,3⟩), (⟨2,3⟩, ⟨Team.Gnome,200,3⟩), (⟨1,4⟩, ⟨Team.Gnome,200,3⟩)]⟩, 0⟩, ⟨7, 4398046511103, 4363416223614, 2181708111807⟩, ⟨2134082950912, 67766272, 8590196736⟩⟩

def s8r20 : FastGame := ⟨⟨20, [⟨1,4⟩, ⟨2,3⟩, ⟨2,4⟩, ⟨2,5⟩, ⟨3,5⟩, ⟨4,5⟩], ⟨⟨6,7⟩, [tW, tW, tW, tW, tW, tW, tW, tW, tE, tE, tE, tG, tE, tW, tW, tE, tE, tG, tF, tG, tW, tW, tE, tW, tE, tW, tG, tW, tW, tE, tE, tE, tW, tF, tW, tW, tE, tE, tE, tE, tE, tW, tW, tW, tW, tW, tW, tW, tW], [(⟨3,5⟩, ⟨Team.Gnome,40,3⟩), (⟨4,5⟩, ⟨Team.Elf,140,8⟩), (⟨2,4⟩, ⟨Team.Elf,26,8⟩), (⟨2,5⟩, ⟨Team.Gnome,40,3⟩), (⟨2,3⟩, ⟨Team.Gnome,200,3⟩), (⟨1,4⟩, ⟨Team.Gnome,200,3⟩)]⟩, 0⟩, ⟨7, 4398046511103, 4363416223614, 2181708111807⟩, ⟨2134082950912, 67766272, 8590196736⟩⟩

def s8r21 : FastGame := ⟨⟨21, [⟨1,4⟩, ⟨2,3⟩, ⟨2,4⟩, ⟨2,5⟩, ⟨3,5⟩, ⟨4,5⟩], ⟨⟨6,7⟩, [tW, tW, tW, tW, tW, tW, tW, tW, tE, tE, tE, tG, tE, tW, tW, tE, tE, tG, tF, tG, tW, tW, tE, tW, tE, tW, tG, tW, tW, tE, tE, tE, tW, tF, tW, tW, tE, tE, tE, tE, tE, tW, tW, tW, tW, tW, tW, tW, tW], [(⟨3,5⟩, ⟨Team.Gnome,32,3⟩), (⟨4,5⟩, ⟨Team.Elf,137,8⟩), (⟨2,4⟩, ⟨Team.Elf,17,8⟩), (⟨2,5⟩, ⟨Team.Gnome,32,3⟩), (⟨2,3⟩, ⟨Team.Gnome,200,3⟩), (⟨1,4⟩, ⟨Team.Gnome,200,3⟩)]⟩, 0⟩, ⟨7, 4398046511103, 4363416223614, 2181708111807⟩, ⟨2134082950912, 67766272, 8590196736⟩⟩

def s8r22 : FastGame := ⟨⟨22, [⟨1,4⟩, ⟨2,3⟩, ⟨2,4⟩, ⟨2,5⟩, ⟨3,5⟩, ⟨4,5⟩], ⟨⟨6,7⟩, [tW, tW, tW, tW, tW, tW, tW, tW, tE, tE, tE, tG, tE, tW, tW, tE, tE, tG, tF, tG, tW, tW, tE, tW, tE, tW, tG, tW, tW, tE, tE, tE, tW, tF, tW, tW, tE, tE, tE, tE, tE, tW, tW, tW, tW, tW, tW, tW, tW], [(⟨3,5⟩, ⟨Team.Gnome,24,3⟩), (⟨4,5⟩, ⟨Team.Elf,134,8⟩), (⟨2,4⟩, ⟨Team.Elf,8,8⟩), (⟨2,5⟩, ⟨Team.Gnome,24,3⟩), (⟨2,3⟩, ⟨Team.Gnome,200,3⟩), (⟨1,4⟩, ⟨Team.Gnome,200,3⟩)]⟩, 0⟩, ⟨7, 4398046511103, 4363416223614, 2181708111807⟩, ⟨2134082950912, 67766272, 8590196736⟩⟩

def s8r23 : FastGame := ⟨⟨23, [⟨1,4⟩, ⟨2,3⟩, ⟨2,5⟩, ⟨3,5⟩, ⟨4,5⟩], ⟨⟨6,7⟩, [tW, tW, tW, tW, tW, tW, tW, tW, tE, tE, tE, tG, tE, tW, tW, tE, tE, tG, tE, tG, tW, tW, tE, tW, tE, tW, tG, tW, tW, tE, tE, tE, tW, tF, tW, tW, tE, tE, tE, tE, tE, tW, tW, tW, tW, tW, tW, tW, tW], [(⟨3,5⟩, ⟨Team.Gnome,16,3⟩), (⟨4,5⟩, ⟨Team.Elf,131,8⟩), (⟨2,5⟩, ⟨Team.Gnome,16,3⟩), (⟨2,3⟩, ⟨Team.Gnome,200,3⟩), (⟨1,4⟩, ⟨Team.Gnome,200,3⟩)]⟩, 1⟩, ⟨7, 4398046511103, 4363416223614, 2181708111807⟩, ⟨2134083213056, 67766272, 8589934592⟩⟩

def s8r24 : FastGame := ⟨⟨24, [⟨1,3⟩, ⟨2,4⟩, ⟨3,3⟩, ⟨3,5⟩, ⟨4,5⟩], ⟨⟨6,7⟩, [tW, tW, tW, tW, tW, tW, tW, tW, tE, tE, tG, tE, tE, tW, tW, tE, tE, tE, tG, tE, tW, tW, tE, tW, tG, tW, tG, tW, tW, tE, tE, tE, tW, tF, tW, tW, tE, tE, tE, tE, tE, tW, tW, tW, tW, tW, tW, tW, tW], [(⟨3,5⟩, ⟨Team.Gnome,8,3⟩), (⟨4,5⟩, ⟨Team.Elf,128,8⟩), (⟨2,4⟩, ⟨Team.Gnome,16,3⟩), (⟨3,3⟩, ⟨Team.Gnome,200,3⟩), (⟨1,3⟩, ⟨Team.Gnome,200,3⟩)]⟩, 1⟩, ⟨7, 4398046511103, 4363416223614, 2181708111807⟩, ⟨2134066830080, 84149248, 8589934592⟩⟩

def s8r25 : FastGame := ⟨⟨25, [⟨1,2⟩, ⟨2,3⟩, ⟨4,3⟩, ⟨4,5⟩], ⟨⟨6,7⟩, [tW, tW, tW, tW, tW, tW, tW, tW, tE, tG, tE, tE, tE, tW, tW, tE, tE, tG, tE, tE, tW, tW, tE, tW, tE, tW, tE, tW, tW, tE, tE, tG, tW, tF, tW, tW, tE, tE, tE, tE, tE, tW, tW, tW, tW, tW, tW, tW, tW], [(⟨4,5⟩, ⟨Team.Elf,125,8⟩), (⟨4,3⟩, ⟨Team.Gnome,200,3⟩), (⟨2,3⟩, ⟨Team.Gnome,16,3⟩), (⟨1,2⟩, ⟨Team.Gnome,200,3⟩)]⟩, 1⟩, ⟨7, 4398046511103, 4363416223614, 2181708111807⟩, ⟨2132003364096, 2147615232, 8589934592⟩⟩

def s8r26 : FastGame := ⟨⟨26, [⟨1,3⟩, ⟨2,4⟩, ⟨3,5⟩, ⟨5,3⟩], ⟨⟨6,7⟩, [tW, tW, tW, tW, tW, tW, tW, tW, tE, tE, tG, tE, tE, tW, tW, tE, tE, tE, tG, tE, tW, tW, tE, tW, tE, tW, tF, tW, tW, tE, tE, tE, tW, tE, tW, tW, tE, tE, tG, tE, tE, tW, tW, tW, tW, tW, tW, tW, tW], [(⟨3,5⟩, ⟨Team.Elf,125,8⟩), (⟨5,3⟩, ⟨Team.Gnome,200,3⟩), (⟨2,4⟩, ⟨Team.Gnome,16,3⟩), (⟨1,3⟩, ⟨Team.Gnome,200,3⟩)]⟩, 1⟩, ⟨7, 4398046511103, 4363416223614, 2181708111807⟩, ⟨1867795634944, 274878170112, 67108864⟩⟩

def s8r27 : FastGame := ⟨⟨27, [⟨1,4⟩, ⟨2,5⟩, ⟨3,5⟩, ⟨5,4⟩], ⟨⟨6,7⟩, [tW, tW, tW, tW, tW, tW, tW, tW, tE, tE, tE, tG, tE, tW, tW, tE, tE, tE, tE, tG, tW, tW, tE, tW, tE, tW, tF, tW, tW, tE, tE, tE, tW, tE, tW, tW, tE, tE, tE, tG, tE, tW, tW, tW, tW, tW, tW, tW, tW], [(⟨5,4⟩, ⟨Team.Gnome,200,3⟩), (⟨2,5⟩, ⟨Team.Gnome,8,3⟩), (⟨3,5⟩, ⟨Team.Elf,122,8⟩), (⟨1,4⟩, ⟨Team.Gnome,200,3⟩)]⟩, 1⟩, ⟨7, 4398046511103, 4363416223614, 2181708111807⟩, ⟨1592917464832, 549756340224, 67108864⟩⟩

def s8r28 : FastGame := ⟨⟨28, [⟨1,4⟩, ⟨3,5⟩, ⟨5,5⟩], ⟨⟨6,7⟩, [tW, tW, tW, tW, tW, tW, tW, tW, tE, tE, tE, tG, tE, tW, tW, tE, tE, tE, tE, tE, tW, tW, tE, tW, tE, tW, tF, tW, tW, tE, tE, tE, tW, tE, tW, tW, tE, tE, tE, tE, tG, tW, tW, tW, tW, tW, tW, tW, tW], [(⟨5,5⟩, ⟨Team.Gnome,200,3⟩), (⟨3,5⟩, ⟨Team.Elf,119,8⟩), (⟨1,4⟩, ⟨Team.Gnome,200,3⟩)]⟩, 1⟩, ⟨7, 4398046511103, 4363416223614, 2181708111807⟩, ⟨1043162175232, 1099511629824, 67108864⟩⟩

def s8r29 : FastGame := ⟨⟨29, [⟨1,5⟩, ⟨2,5⟩, ⟨4,5⟩], ⟨⟨6,7⟩, [tW, tW, tW, tW, tW, tW, tW, tW, tE, tE, tE, tE, tG, tW, tW, tE, tE, tE, tE, tF, tW, tW, tE, tW, tE, tW, tE, tW, tW, tE, tE, tE, tW, tG, tW, tW, tE, tE, tE, tE, tE, tW, tW, tW, tW, tW, tW, tW, tW], [(⟨4,5⟩, ⟨Team.Gnome,200,3⟩), (⟨1,5⟩, ⟨Team.Gnome,192,3⟩), (⟨2,5⟩, ⟨Team.Elf,119,8⟩)]⟩, 1⟩, ⟨7, 4398046511103, 4363416223614, 2181708111807⟩, ⟨2134150450944, 8589938688, 524288⟩⟩

def s8r30 : FastGame := ⟨⟨30, [⟨1,5⟩, ⟨2,5⟩, ⟨3,5⟩], ⟨⟨6,7⟩, [tW, tW, tW, tW, tW, tW, tW, tW, tE, tE, tE, tE, tG, tW, tW, tE, tE, tE, tE, tF, tW, tW, tE, tW, tE, tW, tG, tW, tW, tE, tE, tE, tW, tE, tW, tW, tE, tE, tE, tE, tE, tW, tW, tW, tW, tW, tW, tW, tW], [(⟨2,5⟩, ⟨Team.Elf,113,8⟩), (⟨3,5⟩, ⟨Team.Gnome,200,3⟩), (⟨1,5⟩, ⟨Team.Gnome,184,3⟩)]⟩, 1⟩, ⟨7, 4398046511103, 4363416223614, 2181708111807⟩, ⟨2142673276672, 67112960, 524288⟩⟩

def s8r31 : FastGame := ⟨⟨31, [⟨1,5⟩, ⟨2,5⟩, ⟨3,5⟩], ⟨⟨6,7⟩, [tW, tW, tW, tW, tW, tW, tW, tW, tE, tE, tE, tE, tG, tW, tW, tE, tE, tE, tE, tF, tW, tW, tE, tW, tE, tW, tG, tW, tW, tE, tE, tE, tW, tE, tW, tW, tE, tE, tE, tE, tE, tW, tW, tW, tW, tW, tW, tW, tW], [(⟨2,5⟩, ⟨Team.Elf,107,8⟩), (⟨1,5⟩, ⟨Team.Gnome,176,3⟩), (⟨3,5⟩, ⟨Team.Gnome,200,3⟩)]⟩, 1⟩, ⟨7, 4398046511103, 4363416223614, 2181708111807⟩, ⟨2142673276672, 67112960, 524288⟩⟩

def s8r32 : FastGame := ⟨⟨32, [⟨1,5⟩, ⟨2,5⟩, ⟨3,5⟩], ⟨⟨6,7⟩, [tW, tW, tW, tW, tW, tW, tW, tW, tE, tE, tE, tE, tG, tW, tW, tE, tE, tE, tE, tF, tW, tW, tE, tW, tE, tW, tG, tW, tW, tE, tE, tE, tW, tE, tW, tW, tE, tE, tE, tE, tE, tW, tW, tW, tW, tW, tW, tW, tW], [(⟨2,5⟩, ⟨Team.Elf,101,8⟩), (⟨1,5⟩, ⟨Team.Gnome,168,3⟩), (⟨3,5⟩, ⟨Team.Gnome,200,3⟩)]⟩, 1⟩, ⟨7, 4398046511103, 4363416223614, 2181708111807⟩, ⟨2142673276672, 67112960, 524288⟩⟩

def s8r33 : FastGame := ⟨⟨33, [⟨1,5⟩, ⟨2,5⟩, ⟨3,5⟩], ⟨⟨6,7⟩, [tW, tW, tW, tW, tW, tW, tW, tW, tE, tE, tE, tE, tG, tW, tW, tE, tE, tE, tE, tF, tW, tW, tE, tW, tE, tW, tG, tW, tW, tE, tE, tE, tW, tE, tW, tW, tE, tE, tE, tE, tE, tW, tW, tW, tW, tW, tW, tW, tW], [(⟨2,5⟩, ⟨Team.Elf,95,8⟩), (⟨1,5⟩, ⟨Team.Gnome,160,3⟩), (⟨3,5⟩, ⟨Team.Gnome,200,3⟩)]⟩, 1⟩, ⟨7, 4398046511103, 4363416223614, 2181708111807⟩, ⟨2142673276672, 67112960, 524288⟩⟩

def s8r34 : FastGame := ⟨⟨34, [⟨1,5⟩, ⟨2,5⟩, ⟨3,5⟩], ⟨⟨6,7⟩, [tW, tW, tW, tW, tW, tW, tW, tW, tE, tE, tE, tE, tG, tW, tW, tE, tE, tE, tE, tF, tW, tW, tE, tW, tE, tW, tG, tW, tW, tE, tE, tE, tW, tE, tW, tW, tE, tE, tE, tE, tE, tW, tW, tW, tW, tW, tW, tW, tW], [(⟨2,5⟩, ⟨Team.Elf,89,8⟩), (⟨1,5⟩, ⟨Team.Gnome,152,3⟩), (⟨3,5⟩, ⟨Team.Gnome,200,3⟩)]⟩, 1⟩, ⟨7, 4398046511103, 4363416223614, 2181708111807⟩, ⟨2142673276672, 67112960, 524288⟩⟩

def s8r35 : FastGame := ⟨⟨35, [⟨1,5⟩, ⟨2,5⟩, ⟨3,5⟩], ⟨⟨6,7⟩, [tW, tW, tW, tW, tW, tW, tW, tW, tE, tE, tE, tE, tG, tW, tW, tE, tE, tE, tE, tF, tW, tW, tE, tW, tE, tW, tG, tW, tW, tE, tE, tE, tW, tE, tW, tW, tE, tE, tE, tE, tE, tW, tW, tW, tW, tW, tW, tW, tW], [(⟨2,5⟩, ⟨Team.Elf,83,8⟩), (⟨1,5⟩, ⟨Team.Gnome,144,3⟩), (⟨3,5⟩, ⟨Team.Gnome,200,3⟩)]⟩, 1⟩, ⟨7, 4398046511103, 4363416223614, 2181708111807⟩, ⟨2142673276672, 67112960, 524288⟩⟩

def s8r36 : FastGame := ⟨⟨36, [⟨1,5⟩, ⟨2,5⟩, ⟨3,5⟩], ⟨⟨6,7⟩, [tW, tW, tW, tW, tW, tW, tW, tW, tE, tE, tE, tE, tG, tW, tW, tE, tE, tE, tE, tF, tW, tW, tE, tW, tE, tW, tG, tW, tW, tE, tE, tE, tW, tE, tW, tW, tE, tE, tE, tE, tE, tW, tW, tW, tW, tW, tW, tW, tW], [(⟨2,5⟩, ⟨Team.Elf,77,8⟩), (⟨1,5⟩, ⟨Team.Gnome,136,3⟩), (⟨3,5⟩, ⟨Team.Gnome,200,3⟩)]⟩, 1⟩, ⟨7, 4398046511103, 4363416223614, 2181708111807⟩, ⟨2142673276672, 67112960, 524288⟩⟩

def s8r37 : FastGame := ⟨⟨37, [⟨1,5⟩, ⟨2,5⟩, ⟨3,5⟩], ⟨⟨6,7⟩, [tW, tW, tW, tW, tW, tW, tW, tW, tE, tE, tE, tE, tG, tW, tW, tE, tE, tE, tE, tF, tW, tW, tE, tW, tE, tW, tG, tW, tW, tE, tE, tE, tW, tE, tW, tW, tE, tE, tE, tE, tE, tW, tW, tW, tW, tW, tW, tW, tW], [(⟨2,5⟩, ⟨Team.Elf,71,8⟩), (⟨1,5⟩, ⟨Team.Gnome,128,3⟩), (⟨3,5⟩, ⟨Team.Gnome,200,3⟩)]⟩, 1⟩, ⟨7, 4398046511103, 4363416223614, 2181708111807⟩, ⟨2142673276672, 67112960, 524288⟩⟩

def s8r38 : FastGame := ⟨⟨38, [⟨1,5⟩, ⟨2,5⟩, ⟨3,5⟩], ⟨⟨6,7⟩, [tW, tW, tW, tW, tW, tW, tW, tW, tE, tE, tE, tE, tG, tW, tW, tE, tE, tE, tE, tF, tW, tW, tE, tW, tE, tW, tG, tW, tW, tE, tE, tE, tW, tE, tW, tW, tE, tE, tE, tE, tE, tW, tW, tW, tW, tW, tW, tW, tW], [(⟨2,5⟩, ⟨Team.Elf,65,8⟩), (⟨1,5⟩, ⟨Team.Gnome,120,3⟩), (⟨3,5⟩, ⟨Team.Gnome,200,3⟩)]⟩, 1⟩, ⟨7, 4398046511103, 4363416223614, 2181708111807⟩, ⟨2142673276672, 67112960, 524288⟩⟩

def s8r39 : FastGame := ⟨⟨39, [⟨1,5⟩, ⟨2,5⟩, ⟨3,5⟩], ⟨⟨6,7⟩, [tW, tW, tW, tW, tW, tW, tW, tW, tE, tE, tE, tE, tG, tW, tW, tE, tE, tE, tE, tF, tW, tW, tE, tW, tE, tW, tG, tW, tW, tE, tE, tE, tW, tE, tW, tW, tE, tE, tE, tE, tE, tW, tW, tW, tW, tW, tW, tW, tW], [(⟨2,5⟩, ⟨Team.Elf,59,8⟩), (⟨1,5⟩, ⟨Team.Gnome,112,3⟩), (⟨3,5⟩, ⟨Team.Gnome,200,3⟩)]⟩, 1⟩, ⟨7, 4398046511103, 4363416223614, 2181708111807⟩, ⟨2142673276672, 67112960, 524288⟩⟩

def s8r40 : FastGame := ⟨⟨40, [⟨1,5⟩, ⟨2,5⟩, ⟨3,5⟩], ⟨⟨6,7⟩, [tW, tW, tW, tW, tW, tW, tW, tW, tE, tE, tE, tE, tG, tW, tW, tE, tE, tE, tE, tF, tW, tW, tE, tW, tE, tW, tG, tW, tW, tE, tE, tE, tW, tE, tW, tW, tE, tE, tE, tE, tE, tW, tW, tW, tW, tW, tW, tW, tW], [(⟨2,5⟩, ⟨Team.Elf,53,8⟩), (⟨1,5⟩, ⟨Team.Gnome,104,3⟩), (⟨3,5⟩, ⟨Team.Gnome,200,3⟩)]⟩, 1⟩, ⟨7, 4398046511103, 4363416223614, 2181708111807⟩, ⟨2142673276672, 67112960, 524288⟩⟩

def s8r41 : FastGame := ⟨⟨41, [⟨1,5⟩, ⟨2,5⟩, ⟨3,5⟩], ⟨⟨6,7⟩, [tW, tW, tW, tW, tW, tW, tW, tW, tE, tE, tE, tE, tG, tW, tW, tE, tE, tE, tE, tF, tW, tW, tE, tW, tE, tW, tG, tW, tW, tE, tE, tE, tW, tE, tW, tW, tE, tE, tE, tE, tE, tW, tW, tW, tW, tW, tW, tW, tW], [(⟨2,5⟩, ⟨Team.Elf,47,8⟩), (⟨1,5⟩, ⟨Team.Gnome,96,3⟩), (⟨3,5⟩, ⟨Team.Gnome,200,3⟩)]⟩, 1⟩, ⟨7, 4398046511103, 4363416223614, 2181708111807⟩, ⟨2142673276672, 67112960, 524288⟩⟩

def s8r42 : FastGame := ⟨⟨42, [⟨1,5⟩, ⟨2,5⟩, ⟨3,5⟩], ⟨⟨6,7⟩, [tW, tW, tW, tW, tW, tW, tW, tW, tE, tE, tE, tE, tG, tW, tW, tE, tE, tE, tE, tF, tW, tW, tE, tW, tE, tW, tG, tW, tW, tE, tE, tE, tW, tE, tW, tW, tE, tE, tE, tE, tE, tW, tW, tW, tW, tW, tW, tW, tW], [(⟨2,5⟩, ⟨Team.Elf,41,8⟩), (⟨1,5⟩, ⟨Team.Gnome,88,3⟩), (⟨3,5⟩, ⟨Team.Gnome,200,3⟩)]⟩, 1⟩, ⟨7, 4398046511103, 4363416223614, 2181708111807⟩, ⟨2142673276672, 67112960, 524288⟩⟩

def s8r43 : FastGame := ⟨⟨43, [⟨1,5⟩, ⟨2,5⟩, ⟨3,5⟩], ⟨⟨6,7⟩, [tW, tW, tW, tW, tW, tW, tW, tW, tE, tE, tE, tE, tG, tW, tW, tE, tE, tE, tE, tF, tW, tW, tE, tW, tE, tW, tG, tW, tW, tE, tE, tE, tW, tE, tW, tW, tE, tE, tE, tE, tE, tW, tW, tW, tW, tW, tW, tW, tW], [(⟨2,5⟩, ⟨Team.Elf,35,8⟩), (⟨1,5⟩, ⟨Team.Gnome,80,3⟩), (⟨3,5⟩, ⟨Team.Gnome,200,3⟩)]⟩, 1⟩, ⟨7, 4398046511103, 4363416223614, 2181708111807⟩, ⟨2142673276672, 67112960, 524288⟩⟩

def s8r44 : FastGame := ⟨⟨44, [⟨1,5⟩, ⟨2,5⟩, ⟨3,5⟩], ⟨⟨6,7⟩, [tW, tW, tW, tW, tW, tW, tW, tW, tE, tE, tE, tE, tG, tW, tW, tE, tE, tE, tE, tF, tW, tW, tE, tW, tE, tW, tG, tW, tW, tE, tE, tE, tW, tE, tW, tW, tE, tE, tE, tE, tE, tW, tW, tW, tW, tW, tW, tW, tW], [(⟨2,5⟩, ⟨Team.Elf,29,8⟩), (⟨1,5⟩, ⟨Team.Gnome,72,3⟩), (⟨3,5⟩, ⟨Team.Gnome,200,3⟩)]⟩, 1⟩, ⟨7, 4398046511103, 4363416223614, 2181708111807⟩, ⟨2142673276672, 67112960, 524288⟩⟩

def s8r45 : FastGame := ⟨⟨45, [⟨1,5⟩, ⟨2,5⟩, ⟨3,5⟩], ⟨⟨6,7⟩, [tW, tW, tW, tW, tW, tW, tW, tW, tE, tE, tE, tE, tG, tW, tW, tE, tE, tE, tE, tF, tW, tW, tE, tW, tE, tW, tG, tW, tW, tE, tE, tE, tW, tE, tW, tW, tE, tE, tE, tE, tE, tW, tW, tW, tW, tW, tW, tW, tW], [(⟨2,5⟩, ⟨Team.Elf,23,8⟩), (⟨1,5⟩, ⟨Team.Gnome,64,3⟩), (⟨3,5⟩, ⟨Team.Gnome,200,3⟩)]⟩, 1⟩, ⟨7, 4398046511103, 4363416223614, 2181708111807⟩, ⟨2142673276672, 67112960, 524288⟩⟩

def s8r46 : FastGame := ⟨⟨46, [⟨1,5⟩, ⟨2,5⟩, ⟨3,5⟩], ⟨⟨6,7⟩, [tW, tW, tW, tW, tW, tW, tW, tW, tE, tE, tE, tE, tG, tW, tW, tE, tE, tE, tE, tF, tW, tW, tE, tW, tE, tW, tG, tW, tW, tE, tE, tE, tW, tE, tW, tW, tE, tE, tE, tE, tE, tW, tW, tW, tW, tW, tW, tW, tW], [(⟨2,5⟩, ⟨Team.Elf,17,8⟩), (⟨1,5⟩, ⟨Team.Gnome,56,3⟩), (⟨3,5⟩, ⟨Team.Gnome,200,3⟩)]⟩, 1⟩, ⟨7, 4398046511103, 4363416223614, 2181708111807⟩, ⟨2142673276672, 67112960, 524288⟩⟩

def s8r47 : FastGame := ⟨⟨47, [⟨1,5⟩, ⟨2,5⟩, ⟨3,5⟩], ⟨⟨6,7⟩, [tW, tW, tW, tW, tW, tW, tW, tW, tE, tE, tE, tE, tG, tW, tW, tE, tE, tE, tE, tF, tW, tW, tE, tW, tE, tW, tG, tW, tW, tE, tE, tE, tW, tE, tW, tW, tE, tE, tE, tE, tE, tW, tW, tW, tW, tW, tW, tW, tW], [(⟨2,5⟩, ⟨Team.Elf,11,8⟩), (⟨1,5⟩, ⟨Team.Gnome,48,3⟩), (⟨3,5⟩, ⟨Team.Gnome,200,3⟩)]⟩, 1⟩, ⟨7, 4398046511103, 4363416223614, 2181708111807⟩, ⟨2142673276672, 67112960, 524288⟩⟩

def s8r48 : FastGame := ⟨⟨48, [⟨1,5⟩, ⟨2,5⟩, ⟨3,5⟩], ⟨⟨6,7⟩, [tW, tW, tW, tW, tW, tW, tW, tW, tE, tE, tE, tE, tG, tW, tW, tE, tE, tE, tE, tF, tW, tW, tE, tW, tE, tW, tG, tW, tW, tE, tE, tE, tW, tE, tW, tW, tE, tE, tE, tE, tE, tW, tW, tW, tW, tW, tW, tW, tW], [(⟨2,5⟩, ⟨Team.Elf,5,8⟩), (⟨1,5⟩, ⟨Team.Gnome,40,3⟩), (⟨3,5⟩, ⟨Team.Gnome,200,3⟩)]⟩, 1⟩, ⟨7, 4398046511103, 4363416223614, 2181708111807⟩, ⟨2142673276672, 67112960, 524288⟩⟩

def s8r49 : FastGame := ⟨⟨49, [⟨1,5⟩, ⟨3,5⟩], ⟨⟨6,7⟩, [tW, tW, tW, tW, tW, tW, tW, tW, tE, tE, tE, tE, tG, tW, tW, tE, tE, tE, tE, tE, tW, tW, tE, tW, tE, tW, tG, tW, tW, tE, tE, tE, tW, tE, tW, tW, tE, tE, tE, tE, tE, tW, tW, tW, tW, tW, tW, tW, tW], [(⟨1,5⟩, ⟨Team.Gnome,32,3⟩), (⟨3,5⟩, ⟨Team.Gnome,200,3⟩)]⟩, 2⟩, ⟨7, 4398046511103, 4363416223614, 2181708111807⟩, ⟨2142673800960, 67112960, 0⟩⟩

def s8r50 : FastGame := ⟨⟨49, [⟨3,5⟩], ⟨⟨6,7⟩, [tW, tW, tW, tW, tW, tW, tW, tW, tE, tE, tE, tE, tG, tW, tW, tE, tE, tE, tE, tE, tW, tW, tE, tW, tE, tW, tG, tW, tW, tE, tE, tE, tW, tE, tW, tW, tE, tE, tE, tE, tE, tW, tW, tW, tW, tW, tW, tW, tW], [(⟨1,5⟩, ⟨Team.Gnome,32,3⟩), (⟨3,5⟩, ⟨Team.Gnome,200,3⟩)]⟩, 2⟩, ⟨7, 4398046511103, 4363416223614, 2181708111807⟩, ⟨2142673800960, 67112960, 0⟩⟩

-- power 9: 56 states
def s9r0 : FastGame := ⟨⟨0, [⟨1,2⟩, ⟨2,4⟩, ⟨2,5⟩, ⟨3,5⟩, ⟨4,3⟩, ⟨4,5⟩], ⟨⟨6,7⟩, [tW, tW, tW, tW, tW, tW, tW, tW, tE, tG, tE, tE, tE, tW, tW, tE, tE, tE, tF, tG, tW, tW, tE, tW, tE, tW, tG, tW, tW, tE, tE, tG, tW, tF, tW, tW, tE, tE, tE, tE, tE, tW, tW, tW, tW, tW, tW, tW, tW], [(⟨4,5⟩, ⟨Team.Elf,200,9⟩), (⟨4,3⟩, ⟨Team.Gnome,200,3⟩), (⟨3,5⟩, ⟨Team.Gnome,200,3⟩), (⟨2,5⟩, ⟨Team.Gnome,200,3⟩), (⟨2,4⟩, ⟨Team.Elf,200,9⟩), (⟨1,2⟩, ⟨Team.Gnome,200,3⟩)]⟩, 0⟩, ⟨7, 4398046511103, 4363416223614, 2181708111807⟩, ⟨2131935599872, 2215117312, 8590196736⟩⟩

def s9r1 : FastGame := ⟨⟨1, [⟨1,3⟩, ⟨2,4⟩, ⟨2,5⟩, ⟨3,3⟩, ⟨3,5⟩, ⟨4,5⟩], ⟨⟨6,7⟩, [tW, tW, tW, tW, tW, tW, tW, tW, tE, tE, tG, tE, tE, tW, tW, tE, tE, tE, tF, tG, tW, tW, tE, tW, tG, tW, tG, tW, tW, tE, tE, tE, tW, tF, tW, tW, tE, tE, tE, tE, tE, tW, tW, tW, tW, tW, tW, tW, tW], [(⟨3,5⟩, ⟨Team.Gnome,191,3⟩), (⟨3,3⟩, ⟨Team.Gnome,200,3⟩), (⟨4,5⟩, ⟨Team.Elf,197,9⟩), (⟨2,4⟩, ⟨Team.Elf,197,9⟩), (⟨2,5⟩, ⟨Team.Gnome,191,3⟩), (⟨1,3⟩, ⟨Team.Gnome,200,3⟩)]⟩, 0⟩, ⟨7, 4398046511103, 4363416223614, 2181708111807⟩, ⟨2134066305792, 84411392, 8590196736⟩⟩

def s9r2 : FastGame := ⟨⟨2, [⟨1,4⟩, ⟨2,3⟩, ⟨2,4⟩, ⟨2,5⟩, ⟨3,5⟩, ⟨4,5⟩], ⟨⟨6,7⟩, [tW, tW, tW, tW, tW, tW, tW, tW, tE, tE, tE, tG, tE, tW, tW, tE, tE, tG, tF, tG, tW, tW, tE, tW, tE, tW, tG, tW, tW, tE, tE, tE, tW, tF, tW, tW, tE, tE, tE, tE, tE, tW, tW, tW, tW, tW, tW, tW, tW], [(⟨3,5⟩, ⟨Team.Gnome,182,3⟩), (⟨4,5⟩, ⟨Team.Elf,194,9⟩), (⟨2,4⟩, ⟨Team.Elf,188,9⟩), (⟨2,3⟩, ⟨Team.Gnome,200,3⟩), (⟨2,5⟩, ⟨Team.Gnome,182,3⟩), (⟨1,4⟩, ⟨Team.Gnome,200,3⟩)]⟩, 0⟩, ⟨7, 4398046511103, 4363416223614, 2181708111807⟩, ⟨2134082950912, 67766272, 8590196736⟩⟩

def s9r3 : FastGame := ⟨⟨3, [⟨1,4⟩, ⟨2,3⟩, ⟨2,4⟩, ⟨2,5⟩, ⟨3,5⟩, ⟨4,5⟩], ⟨⟨6,7⟩, [tW, tW, tW, tW, tW, tW, tW, tW, tE, tE, tE, tG, tE, tW, tW, tE, tE, tG, tF, tG, tW, tW, tE, tW, tE, tW, tG, tW, tW, tE, tE, tE, tW, tF, tW, tW, tE, tE, tE, tE, tE, tW, tW, tW, tW, tW, tW, tW, tW], [(⟨3,5⟩, ⟨Team.Gnome,173,3⟩), (⟨4,5⟩, ⟨Team.Elf,191,9⟩), (⟨2,4⟩, ⟨Team.Elf,179,9⟩), (⟨2,5⟩, ⟨Team.Gnome,173,3⟩), (⟨2,3⟩, ⟨Team.Gnome,200,3⟩), (⟨1,4⟩, ⟨Team.Gnome,200,3⟩)]⟩, 0⟩, ⟨7, 4398046511103, 4363416223614, 2181708111807⟩, ⟨2134082950912, 67766272, 8590196736⟩⟩

def s9r4 : FastGame := ⟨⟨4, [⟨1,4⟩, ⟨2,3⟩, ⟨2,4⟩, ⟨2,5⟩, ⟨3,5⟩, ⟨4,5⟩], ⟨⟨6,7⟩, [tW, tW, tW, tW, tW, tW, tW, tW, tE, tE, tE, tG, tE, tW, tW, tE, tE, tG, tF, tG, tW, tW, tE, tW, tE, tW, tG, tW, tW, tE, tE, tE, tW, tF, tW, tW, tE, tE, tE, tE, tE, tW, tW, tW, tW, tW, tW, tW, tW], [(⟨3,5⟩, ⟨Team.Gnome,164,3⟩), (⟨4,5⟩, ⟨Team.Elf,188,9⟩), (⟨2,4⟩, ⟨Team.Elf,170,9⟩), (⟨2,5⟩, ⟨Team.Gnome,164,3⟩), (⟨2,3⟩, ⟨Team.Gnome,200,3⟩), (⟨1,4⟩, ⟨Team.Gnome,200,3⟩)]⟩, 0⟩, ⟨7, 4398046511103, 4363416223614, 2181708111807⟩, ⟨2134082950912, 67766272, 8590196736⟩⟩

def s9r5 : FastGame := ⟨⟨5, [⟨1,4⟩, ⟨2,3⟩, ⟨2,4⟩, ⟨2,5⟩, ⟨3,5⟩, ⟨4,5⟩], ⟨⟨6,7⟩, [tW, tW, tW, tW, tW, tW, tW, tW, tE, tE, tE, tG, tE, tW, tW, tE, tE, tG, tF, tG, tW, tW, tE, tW, tE, tW, tG, tW, tW, tE, tE, tE, tW, tF, tW, tW, tE, tE, tE, tE, tE, tW, tW, tW, tW, tW, tW, tW, tW], [(⟨3,5⟩, ⟨Team.Gnome,155,3⟩), (⟨4,5⟩, ⟨Team.Elf,185,9⟩), (⟨2,4⟩, ⟨Team.Elf,161,9⟩), (⟨2,5⟩, ⟨Team.Gnome,155,3⟩), (⟨2,3⟩, ⟨Team.Gnome,200,3⟩), (⟨1,4⟩, ⟨Team.Gnome,200,3⟩)]⟩, 0⟩, ⟨7, 4398046511103, 4363416223614, 2181708111807⟩, ⟨2134082950912, 67766272, 8590196736⟩⟩

def s9r6 : FastGame := ⟨⟨6, [⟨1,4⟩, ⟨2,3⟩, ⟨2,4⟩, ⟨2,5⟩, ⟨3,5⟩, ⟨4,5⟩], ⟨⟨6,7⟩, [tW, tW, tW, tW, tW, tW, tW, tW, tE, tE, tE, tG, tE, tW, tW, tE, tE, tG, tF, tG, tW, tW, tE, tW, tE, tW, tG, tW, tW, tE, tE, tE, tW, tF, tW, tW, tE, tE, tE, tE, tE, tW, tW, tW, tW, tW, tW, tW, tW], [(⟨3,5⟩, ⟨Team.Gnome,146,3⟩), (⟨4,5⟩, ⟨Team.Elf,182,9⟩), (⟨2,4⟩, ⟨Team.Elf,152,9⟩), (⟨2,5⟩, ⟨Team.Gnome,146,3⟩), (⟨2,3⟩, ⟨Team.Gnome,200,3⟩), (⟨1,4⟩, ⟨Team.Gnome,200,3⟩)]⟩, 0⟩, ⟨7, 4398046511103, 4363416223614, 2181708111807⟩, ⟨2134082950912, 67766272, 8590196736⟩⟩

def s9r7 : FastGame := ⟨⟨7, [⟨1,4⟩, ⟨2,3⟩, ⟨2,4⟩, ⟨2,5⟩, ⟨3,5⟩, ⟨4,5⟩], ⟨⟨6,7⟩, [tW, tW, tW, tW, tW, tW, tW, tW, tE, tE, tE, tG, tE, tW, tW, tE, tE, tG, tF, tG, tW, tW, tE, tW, tE, tW, tG, tW, tW, tE, tE, tE, tW, tF, tW, tW, tE, tE, tE, tE, tE, tW, tW, tW, tW, tW, tW, tW, tW], [(⟨3,5⟩, ⟨Team.Gnome,137,3⟩), (⟨4,5⟩, ⟨Team.Elf,179,9⟩), (⟨2,4⟩, ⟨Team.Elf,143,9⟩), (⟨2,5⟩, ⟨Team.Gnome,137,3⟩), (⟨2,3⟩, ⟨Team.Gnome,200,3⟩), (⟨1,4⟩, ⟨Team.Gnome,200,3⟩)]⟩, 0⟩, ⟨7, 4398046511103, 4363416223614, 2181708111807⟩, ⟨2134082950912, 67766272, 8590196736⟩⟩

def s9r8 : FastGame := ⟨⟨8, [⟨1,4⟩, ⟨2,3⟩, ⟨2,4⟩, ⟨2,5⟩, ⟨3,5⟩, ⟨4,5⟩], ⟨⟨6,7⟩, [tW, tW, tW, tW, tW, tW, tW, tW, tE, tE, tE, tG, tE, tW, tW, tE, tE, tG, tF, tG, tW, tW, tE, tW, tE, tW, tG, tW, tW, tE, tE, tE, tW, tF, tW, tW, tE, tE, tE, tE, tE, tW, tW, tW, tW, tW, tW, tW, tW], [(⟨3,5⟩, ⟨Team.Gnome,128,3⟩), (⟨4,5⟩, ⟨Team.Elf,176,9⟩), (⟨2,4⟩, ⟨Team.Elf,134,9⟩), (⟨2,5⟩, ⟨Team.Gnome,128,3⟩), (⟨2,3⟩, ⟨Team.Gnome,200,3⟩), (⟨1,4⟩, ⟨Team.Gnome,200,3⟩)]⟩, 0⟩, ⟨7, 4398046511103, 4363416223614, 2181708111807⟩, ⟨2134082950912, 67766272, 8590196736⟩⟩

def s9r9 : FastGame := ⟨⟨9, [⟨1,4⟩, ⟨2,3⟩, ⟨2,4⟩, ⟨2,5⟩, ⟨3,5⟩, ⟨4,5⟩], ⟨⟨6,7⟩, [tW, tW, tW, tW, tW, tW, tW, tW, tE, tE, tE, tG, tE, tW, tW, tE, tE, tG, tF, tG, tW, tW, tE, tW, tE, tW, tG, tW, tW, tE, tE, tE, tW, tF, tW, tW, tE, tE, tE, tE, tE, tW, tW, tW, tW, tW, tW, tW, tW], [(⟨3,5⟩, ⟨Team.Gnome,119,3⟩), (⟨4,5⟩, ⟨Team.Elf,173,9⟩), (⟨2,4⟩, ⟨Team.Elf,125,9⟩), (⟨2,5⟩, ⟨Team.Gnome,119,3⟩), (⟨2,3⟩, ⟨Team.Gnome,200,3⟩), (⟨1,4⟩, ⟨Team.Gnome,200,3⟩)]⟩, 0⟩, ⟨7, 4398046511103, 4363416223614, 2181708111807⟩, ⟨2134082950912, 67766272, 8590196736⟩⟩

def s9r10 : FastGame := ⟨⟨10, [⟨1,4⟩, ⟨2,3⟩, ⟨2,4⟩, ⟨2,5⟩, ⟨3,5⟩, ⟨4,5⟩], ⟨⟨6,7⟩, [tW, tW, tW, tW, tW, tW, tW, tW, tE, tE, tE, tG, tE, tW, tW, tE, tE, tG, tF, tG, tW, tW, tE, tW, tE, tW, tG, tW, tW, tE, tE, tE, tW, tF, tW, tW, tE, tE, tE, tE, tE, tW, tW, tW, tW, tW, tW, tW, tW], [(⟨3,5⟩, ⟨Team.Gnome,110,3⟩), (⟨4,5⟩, ⟨Team.Elf,170,9⟩), (⟨2,4⟩, ⟨Team.Elf,116,9⟩), (⟨2,5⟩, ⟨Team.Gnome,110,3⟩), (⟨2,3⟩, ⟨Team.Gnome,200,3⟩), (⟨1,4⟩, ⟨Team.Gnome,200,3⟩)]⟩, 0⟩, ⟨7, 4398046511103, 4363416223614, 2181708111807⟩, ⟨2134082950912, 67766272, 8590196736⟩⟩

def s9r11 : FastGame := ⟨⟨11, [⟨1,4⟩, ⟨2,3⟩, ⟨2,4⟩, ⟨2,5⟩, ⟨3,5⟩, ⟨4,5⟩], ⟨⟨6,7⟩, [tW, tW, tW, tW, tW, tW, tW, tW, tE, tE, tE, tG, tE, tW, tW, tE, tE, tG, tF, tG, tW, tW, tE, tW, tE, tW, tG, tW, tW, tE, tE, tE, tW, tF, tW, tW, tE, tE, tE, tE, tE, tW, tW, tW, tW, tW, tW, tW, tW], [(⟨3,5⟩, ⟨Team.Gnome,101,3⟩), (⟨4,5⟩, ⟨Team.Elf,167,9⟩), (⟨2,4⟩, ⟨Team.Elf,107,9⟩), (⟨2,5⟩, ⟨Team.Gnome,101,3⟩), (⟨2,3⟩, ⟨Team.Gnome,200,3⟩), (⟨1,4⟩, ⟨Team.Gnome,200,3⟩)]⟩, 0⟩, ⟨7, 4398046511103, 4363416223614, 2181708111807⟩, ⟨2134082950912, 67766272, 8590196736⟩⟩

def s9r12 : FastGame := ⟨⟨12, [⟨1,4⟩, ⟨2,3⟩, ⟨2,4⟩, ⟨2,5⟩, ⟨3,5⟩, ⟨4,5⟩], ⟨⟨6,7⟩, [tW, tW, tW, tW, tW, tW, tW, tW, tE, tE, tE, tG, tE, tW, tW, tE, tE, tG, tF, tG, tW, tW, tE, tW, tE, tW, tG, tW, tW, tE, tE, tE, tW, tF, tW, tW, tE, tE, tE, tE, tE, tW, tW, tW, tW, tW, tW, tW, tW], [(⟨3,5⟩, ⟨Team.Gnome,92,3⟩), (⟨4,5⟩, ⟨Team.Elf,164,9⟩), (⟨2,4⟩, ⟨Team.Elf,98,9⟩), (⟨2,5⟩, ⟨Team.Gnome,92,3⟩), (⟨2,3⟩, ⟨Team.Gnome,200,3⟩), (⟨1,4⟩, ⟨Team.Gnome,200,3⟩)]⟩, 0⟩, ⟨7, 4398046511103, 4363416223614, 2181708111807⟩, ⟨2134082950912, 67766272, 8590196736⟩⟩

def s9r13 : FastGame := ⟨⟨13, [⟨1,4⟩, ⟨2,3⟩, ⟨2,4⟩, ⟨2,5⟩, ⟨3,5⟩, ⟨4,5⟩], ⟨⟨6,7⟩, [tW, tW, tW, tW, tW, tW, tW, tW, tE, tE, tE, tG, tE, tW, tW, tE, tE, tG, tF, tG, tW, tW, tE, tW, tE, tW, tG, tW, tW, tE, tE, tE, tW, tF, tW, tW, tE, tE, tE, tE, tE, tW, tW, tW, tW, tW, tW, tW, tW], [(⟨3,5⟩, ⟨Team.Gnome,83,3⟩), (⟨4,5⟩, ⟨Team.Elf,161,9⟩), (⟨2,4⟩, ⟨Team.Elf,89,9⟩), (⟨2,5⟩, ⟨Team.Gnome,83,3⟩), (⟨2,3⟩, ⟨Team.Gnome,200,3⟩), (⟨1,4⟩, ⟨Team.Gnome,200,3⟩)]⟩, 0⟩, ⟨7, 4398046511103, 4363416223614, 2181708111807⟩, ⟨2134082950912, 67766272, 8590196736⟩⟩

def s9r14 : FastGame := ⟨⟨14, [⟨1,4⟩, ⟨2,3⟩, ⟨2,4⟩, ⟨2,5⟩, ⟨3,5⟩, ⟨4,5⟩], ⟨⟨6,7⟩, [tW, tW, tW, tW, tW, tW, tW, tW, tE, tE, tE, tG, tE, tW, tW, tE, tE, tG, tF, tG, tW, tW, tE, tW, tE, tW, tG, tW, tW, tE, tE, tE, tW, tF, tW, tW, tE, tE, tE, tE, tE, tW, tW, tW, tW, tW, tW, tW, tW], [(⟨3,5⟩, ⟨Team.Gnome,74,3⟩), (⟨4,5⟩, ⟨Team.Elf,158,9⟩), (⟨2,4⟩, ⟨Team.Elf,80,9⟩), (⟨2,5⟩, ⟨Team.Gnome,74,3⟩), (⟨2,3⟩, ⟨Team.Gnome,200,3⟩), (⟨1,4⟩, ⟨Team.Gnome,200,3⟩)]⟩, 0⟩, ⟨7, 4398046511103, 4363416223614, 2181708111807⟩, ⟨2134082950912, 67766272, 8590196736⟩⟩

def s9r15 : FastGame := ⟨⟨15, [⟨1,4⟩, ⟨2,3⟩, ⟨2,4⟩, ⟨2,5⟩, ⟨3,5⟩, ⟨4,5⟩], ⟨⟨6,7⟩, [tW, tW, tW, tW, tW, tW, tW, tW, tE, tE, tE, tG, tE, tW, tW, tE, tE, tG, tF, tG, tW, tW, tE, tW, tE, tW, tG, tW, tW, tE, tE, tE, tW, tF, tW, tW, tE, tE, tE, tE, tE, tW, tW, tW, tW, tW, tW, tW, tW], [(⟨3,5⟩, ⟨Team.Gnome,65,3⟩), (⟨4,5⟩, ⟨Team.Elf,155,9⟩), (⟨2,4⟩, ⟨Team.Elf,71,9⟩), (⟨2,5⟩, ⟨Team.Gnome,65,3⟩), (⟨2,3⟩, ⟨Team.Gnome,200,3⟩), (⟨1,4⟩, ⟨Team.Gnome,200,3⟩)]⟩, 0⟩, ⟨7, 4398046511103, 4363416223614, 2181708111807⟩, ⟨2134082950912, 67766272, 8590196736⟩⟩

def s9r16 : FastGame := ⟨⟨16, [⟨1,4⟩, ⟨2,3⟩, ⟨2,4⟩, ⟨2,5⟩, ⟨3,5⟩, ⟨4,5⟩], ⟨⟨6,7⟩, [tW, tW, tW, tW, tW, tW, tW, tW, tE, tE, tE, tG, tE, tW, tW, tE, tE, tG, tF, tG, tW, tW, tE, tW, tE, tW, tG, tW, tW, tE, tE, tE, tW, tF, tW, tW, tE, tE, tE, tE, tE, tW, tW, tW, tW, tW, tW, tW, tW], [(⟨3,5⟩, ⟨Team.Gnome,56,3⟩), (⟨4,5⟩, ⟨Team.Elf,152,9⟩), (⟨2,4⟩, ⟨Team.Elf,62,9⟩), (⟨2,5⟩, ⟨Team.Gnome,56,3⟩), (⟨2,3⟩, ⟨Team.Gnome,200,3⟩), (⟨1,4⟩, ⟨Team.Gnome,200,3⟩)]⟩, 0⟩, ⟨7, 4398046511103, 4363416223614, 2181708111807⟩, ⟨2134082950912, 67766272, 8590196736⟩⟩

def s9r17 : FastGame := ⟨⟨17, [⟨1,4⟩, ⟨2,3⟩, ⟨2,4⟩, ⟨2,5⟩, ⟨3,5⟩, ⟨4,5⟩], ⟨⟨6,7⟩, [tW, tW, tW, tW, tW, tW, tW, tW, tE, tE, tE, tG, tE, tW, tW, tE, tE, tG, tF, tG, tW, tW, tE, tW, tE, tW, tG, tW, tW, tE, tE, tE, tW, tF, tW, tW, tE, tE, tE, tE, tE, tW, tW, tW, tW, tW, tW, tW, tW], [(⟨3,5⟩, ⟨Team.Gnome,47,3⟩), (⟨4,5⟩, ⟨Team.Elf,149,9⟩), (⟨2,4⟩, ⟨Team.Elf,53,9⟩), (⟨2,5⟩, ⟨Team.Gnome,47,3⟩), (⟨2,3⟩, ⟨Team.Gnome,200,3⟩), (⟨1,4⟩, ⟨Team.Gnome,200,3⟩)]⟩, 0⟩, ⟨7, 4398046511103, 4363416223614, 2181708111807⟩, ⟨2134082950912, 67766272, 8590196736⟩⟩

def s9r18 : FastGame := ⟨⟨18, [⟨1,4⟩, ⟨2,3⟩, ⟨2,4⟩, ⟨2,5⟩, ⟨3,5⟩, ⟨4,5⟩], ⟨⟨6,7⟩, [tW, tW, tW, tW, tW, tW, tW, tW, tE, tE, tE, tG, tE, tW, tW, tE, tE, tG, tF, tG, tW, tW, tE, tW, tE, tW, tG, tW, tW, tE, tE, tE, tW, tF, tW, tW, tE, tE, tE, tE, tE, tW, tW, tW, tW, tW, tW, tW, tW], [(⟨3,5⟩, ⟨Team.Gnome,38,3⟩), (⟨4,5⟩, ⟨Team.Elf,146,9⟩), (⟨2,4⟩, ⟨Team.Elf,44,9⟩), (⟨2,5⟩, ⟨Team.Gnome,38,3⟩), (⟨2,3⟩, ⟨Team.Gnome,200,3⟩), (⟨1,4⟩, ⟨Team.Gnome,200,3⟩)]⟩, 0⟩, ⟨7, 4398046511103, 4363416223614, 2181708111807⟩, ⟨2134082950912, 67766272, 8590196736⟩⟩

def s9r19 : FastGame := ⟨⟨19, [⟨1,4⟩, ⟨2,3⟩, ⟨2,4⟩, ⟨2,5⟩, ⟨3,5⟩, ⟨4,5⟩], ⟨⟨6,7⟩, [tW, tW, tW, tW, tW, tW, tW, tW, tE, tE, tE, tG, tE, tW, tW, tE, tE, tG, tF, tG, tW, tW, tE, tW, tE, tW, tG, tW, tW, tE, tE, tE, tW, tF, tW, tW, tE, tE, tE, tE, tE, tW, tW, tW, tW, tW, tW, tW, tW], [(⟨3,5⟩, ⟨Team.Gnome,29,3⟩), (⟨4,5⟩, ⟨Team.Elf,143,9⟩), (⟨2,4⟩, ⟨Team.Elf,35,9⟩), (⟨2,5⟩, ⟨Team.Gnome,29,3⟩), (⟨2,3⟩, ⟨Team.Gnome,200,3⟩), (⟨1,4⟩, ⟨Team.Gnome,200,3⟩)]⟩, 0⟩, ⟨7, 4398046511103, 4363416223614, 2181708111807⟩, ⟨2134082950912, 67766272, 8590196736⟩⟩

def s9r20 : FastGame := ⟨⟨20, [⟨1,4⟩, ⟨2,3⟩, ⟨2,4⟩, ⟨2,5⟩, ⟨3,5⟩, ⟨4,5⟩], ⟨⟨6,7⟩, [tW, tW, tW, tW, tW, tW, tW, tW, tE, tE, tE, tG, tE, tW, tW, tE, tE, tG, tF, tG, tW, tW, tE, tW, tE, tW, tG, tW, tW, tE, tE, tE, tW, tF, tW, tW, tE, tE, tE, tE, tE, tW, tW, tW, tW, tW, tW, tW, tW], [(⟨3,5⟩, ⟨Team.Gnome,20,3⟩), (⟨4,5⟩, ⟨Team.Elf,140,9⟩), (⟨2,4⟩, ⟨Team.Elf,26,9⟩), (⟨2,5⟩, ⟨Team.Gnome,20,3⟩), (⟨2,3⟩, ⟨Team.Gnome,200,3⟩), (⟨1,4⟩, ⟨Team.Gnome,200,3⟩)]⟩, 0⟩, ⟨7, 4398046511103, 4363416223614, 2181708111807⟩, ⟨2134082950912, 67766272, 8590196736⟩⟩

def s9r21 : FastGame := ⟨⟨21, [⟨1,4⟩, ⟨2,3⟩, ⟨2,4⟩, ⟨2,5⟩, ⟨3,5⟩, ⟨4,5⟩], ⟨⟨6,7⟩, [tW, tW, tW, tW, tW, tW, tW, tW, tE, tE, tE, tG, tE, tW, tW, tE, tE, tG, tF, tG, tW, tW, tE, tW, tE, tW, tG, tW, tW, tE, tE, tE, tW, tF, tW, tW, tE, tE, tE, tE, tE, tW, tW, tW, tW, tW, tW, tW, tW], [(⟨3,5⟩, ⟨Team.Gnome,11,3⟩), (⟨4,5⟩, ⟨Team.Elf,137,9⟩), (⟨2,4⟩, ⟨Team.Elf,17,9⟩), (⟨2,5⟩, ⟨Team.Gnome,11,3⟩), (⟨2,3⟩, ⟨Team.Gnome,200,3⟩), (⟨1,4⟩, ⟨Team.Gnome,200,3⟩)]⟩, 0⟩, ⟨7, 4398046511103, 4363416223614, 2181708111807⟩, ⟨2134082950912, 67766272, 8590196736⟩⟩

def s9r22 : FastGame := ⟨⟨22, [⟨1,4⟩, ⟨2,3⟩, ⟨2,4⟩, ⟨2,5⟩, ⟨3,5⟩, ⟨4,5⟩], ⟨⟨6,7⟩, [tW, tW, tW, tW, tW, tW, tW, tW, tE, tE, tE, tG, tE, tW, tW, tE, tE, tG, tF, tG, tW, tW, tE, tW, tE, tW, tG, tW, tW, tE, tE, tE, tW, tF, tW, tW, tE, tE, tE, tE, tE, tW, tW, tW, tW, tW, tW, tW, tW], [(⟨3,5⟩, ⟨Team.Gnome,2,3⟩), (⟨4,5⟩, ⟨Team.Elf,134,9⟩), (⟨2,4⟩, ⟨Team.Elf,8,9⟩), (⟨2,5⟩, ⟨Team.Gnome,2,3⟩), (⟨2,3⟩, ⟨Team.Gnome,200,3⟩), (⟨1,4⟩, ⟨Team.Gnome,200,3⟩)]⟩, 0⟩, ⟨7, 4398046511103, 4363416223614, 2181708111807⟩, ⟨2134082950912, 67766272, 8590196736⟩⟩

def s9r23 : FastGame := ⟨⟨23, [⟨1,4⟩, ⟨2,3⟩, ⟨2,4⟩, ⟨4,5⟩], ⟨⟨6,7⟩, [tW, tW, tW, tW, tW, tW, tW, tW, tE, tE, tE, tG, tE, tW, tW, tE, tE, tG, tF, tE, tW, tW, tE, tW, tE, tW, tE, tW, tW, tE, tE, tE, tW, tF, tW, tW, tE, tE, tE, tE, tE, tW, tW, tW, tW, tW, tW, tW, tW], [(⟨4,5⟩, ⟨Team.Elf,131,9⟩), (⟨2,4⟩, ⟨Team.Elf,2,9⟩), (⟨2,3⟩, ⟨Team.Gnome,200,3⟩), (⟨1,4⟩, ⟨Team.Gnome,200,3⟩)]⟩, 0⟩, ⟨7, 4398046511103, 4363416223614, 2181708111807⟩, ⟨2134150584064, 133120, 8590196736⟩⟩

def s9r24 : FastGame := ⟨⟨24, [⟨1,4⟩, ⟨2,4⟩, ⟨3,5⟩], ⟨⟨6,7⟩, [tW, tW, tW, tW, tW, tW, tW, tW, tE, tE, tE, tG, tE, tW, tW, tE, tE, tE, tG, tE, tW, tW, tE, tW, tE, tW, tF, tW, tW, tE, tE, tE, tW, tE, tW, tW, tE, tE, tE, tE, tE, tW, tW, tW, tW, tW, tW, tW, tW], [(⟨3,5⟩, ⟨Team.Elf,131,9⟩), (⟨2,4⟩, ⟨Team.Gnome,200,3⟩), (⟨1,4⟩, ⟨Team.Gnome,200,3⟩)]⟩, 1⟩, ⟨7, 4398046511103, 4363416223614, 2181708111807⟩, ⟨2142673540864, 264192, 67108864⟩⟩

def s9r25 : FastGame := ⟨⟨25, [⟨1,5⟩, ⟨2,5⟩, ⟨3,5⟩], ⟨⟨6,7⟩, [tW, tW, tW, tW, tW, tW, tW, tW, tE, tE, tE, tE, tG, tW, tW, tE, tE, tE, tE, tG, tW, tW, tE, tW, tE, tW, tF, tW, tW, tE, tE, tE, tW, tE, tW, tW, tE, tE, tE, tE, tE, tW, tW, tW, tW, tW, tW, tW, tW], [(⟨2,5⟩, ⟨Team.Gnome,191,3⟩), (⟨3,5⟩, ⟨Team.Elf,128,9⟩), (⟨1,5⟩, ⟨Team.Gnome,200,3⟩)]⟩, 1⟩, ⟨7, 4398046511103, 4363416223614, 2181708111807⟩, ⟨2142673276672, 528384, 67108864⟩⟩

def s9r26 : FastGame := ⟨⟨26, [⟨1,4⟩, ⟨2,5⟩, ⟨3,5⟩], ⟨⟨6,7⟩, [tW, tW, tW, tW, tW, tW, tW, tW, tE, tE, tE, tG, tE, tW, tW, tE, tE, tE, tE, tG, tW, tW, tE, tW, tE, tW, tF, tW, tW, tE, tE, tE, tW, tE, tW, tW, tE, tE, tE, tE, tE, tW, tW, tW, tW, tW, tW, tW, tW], [(⟨2,5⟩, ⟨Team.Gnome,182,3⟩), (⟨3,5⟩, ⟨Team.Elf,125,9⟩), (⟨1,4⟩, ⟨Team.Gnome,200,3⟩)]⟩, 1⟩, ⟨7, 4398046511103, 4363416223614, 2181708111807⟩, ⟨2142673278720, 526336, 67108864⟩⟩

def s9r27 : FastGame := ⟨⟨27, [⟨1,3⟩, ⟨2,5⟩, ⟨3,5⟩], ⟨⟨6,7⟩, [tW, tW, tW, tW, tW, tW, tW, tW, tE, tE, tG, tE, tE, tW, tW, tE, tE, tE, tE, tG, tW, tW, tE, tW, tE, tW, tF, tW, tW, tE, tE, tE, tW, tE, tW, tW, tE, tE, tE, tE, tE, tW, tW, tW, tW, tW, tW, tW, tW], [(⟨2,5⟩, ⟨Team.Gnome,173,3⟩), (⟨3,5⟩, ⟨Team.Elf,122,9⟩), (⟨1,3⟩, ⟨Team.Gnome,200,3⟩)]⟩, 1⟩, ⟨7, 4398046511103, 4363416223614, 2181708111807⟩, ⟨2142673279744, 525312, 67108864⟩⟩

def s9r28 : FastGame := ⟨⟨28, [⟨2,3⟩, ⟨2,5⟩, ⟨3,5⟩], ⟨⟨6,7⟩, [tW, tW, tW, tW, tW, tW, tW, tW, tE, tE, tE, tE, tE, tW, tW, tE, tE, tG, tE, tG, tW, tW, tE, tW, tE, tW, tF, tW, tW, tE, tE, tE, tW, tE, tW, tW, tE, tE, tE, tE, tE, tW, tW, tW, tW, tW, tW, tW, tW], [(⟨2,5⟩, ⟨Team.Gnome,164,3⟩), (⟨3,5⟩, ⟨Team.Elf,119,9⟩), (⟨2,3⟩, ⟨Team.Gnome,200,3⟩)]⟩, 1⟩, ⟨7, 4398046511103, 4363416223614, 2181708111807⟩, ⟨2142673149696, 655360, 67108864⟩⟩

def s9r29 : FastGame := ⟨⟨29, [⟨2,5⟩, ⟨3,3⟩, ⟨3,5⟩], ⟨⟨6,7⟩, [tW, tW, tW, tW, tW, tW, tW, tW, tE, tE, tE, tE, tE, tW, tW, tE, tE, tE, tE, tG, tW, tW, tE, tW, tG, tW, tF, tW, tW, tE, tE, tE, tW, tE, tW, tW, tE, tE, tE, tE, tE, tW, tW, tW, tW, tW, tW, tW, tW], [(⟨2,5⟩, ⟨Team.Gnome,155,3⟩), (⟨3,5⟩, ⟨Team.Elf,116,9⟩), (⟨3,3⟩, ⟨Team.Gnome,200,3⟩)]⟩, 1⟩, ⟨7, 4398046511103, 4363416223614, 2181708111807⟩, ⟨2142656503552, 17301504, 67108864⟩⟩

def s9r30 : FastGame := ⟨⟨30, [⟨2,5⟩, ⟨3,5⟩, ⟨4,3⟩], ⟨⟨6,7⟩, [tW, tW, tW, tW, tW, tW, tW, tW, tE, tE, tE, tE, tE, tW, tW, tE, tE, tE, tE, tG, tW, tW, tE, tW, tE, tW, tF, tW, tW, tE, tE, tG, tW, tE, tW, tW, tE, tE, tE, tE, tE, tW, tW, tW, tW, tW, tW, tW, tW], [(⟨2,5⟩, ⟨Team.Gnome,146,3⟩), (⟨4,3⟩, ⟨Team.Gnome,200,3⟩), (⟨3,5⟩, ⟨Team.Elf,113,9⟩)]⟩, 1⟩, ⟨7, 4398046511103, 4363416223614, 2181708111807⟩, ⟨2140525797120, 2148007936, 67108864⟩⟩

def s9r31 : FastGame := ⟨⟨31, [⟨2,5⟩, ⟨3,5⟩, ⟨5,3⟩], ⟨⟨6,7⟩, [tW, tW, tW, tW, tW, tW, tW, tW, tE, tE, tE, tE, tE, tW, tW, tE, tE, tE, tE, tG, tW, tW, tE, tW, tE, tW, tF, tW, tW, tE, tE, tE, tW, tE, tW, tW, tE, tE, tG, tE, tE, tW, tW, tW, tW, tW, tW, tW, tW], [(⟨5,3⟩, ⟨Team.Gnome,200,3⟩), (⟨2,5⟩, ⟨Team.Gnome,137,3⟩), (⟨3,5⟩, ⟨Team.Elf,110,9⟩)]⟩, 1⟩, ⟨7, 4398046511103, 4363416223614, 2181708111807⟩, ⟨1867795373824, 274878431232, 67108864⟩⟩

def s9r32 : FastGame := ⟨⟨32, [⟨2,5⟩, ⟨3,5⟩, ⟨5,4⟩], ⟨⟨6,7⟩, [tW, tW, tW, tW, tW, tW, tW, tW, tE, tE, tE, tE, tE, tW, tW, tE, tE, tE, tE, tG, tW, tW, tE, tW, tE, tW, tF, tW, tW, tE, tE, tE, tW, tE, tW, tW, tE, tE, tE, tG, tE, tW, tW, tW, tW, tW, tW, tW, tW], [(⟨5,4⟩, ⟨Team.Gnome,200,3⟩), (⟨2,5⟩, ⟨Team.Gnome,128,3⟩), (⟨3,5⟩, ⟨Team.Elf,107,9⟩)]⟩, 1⟩, ⟨7, 4398046511103, 4363416223614, 2181708111807⟩, ⟨1592917466880, 549756338176, 67108864⟩⟩

def s9r33 : FastGame := ⟨⟨33, [⟨2,5⟩, ⟨3,5⟩, ⟨5,5⟩], ⟨⟨6,7⟩, [tW, tW, tW, tW, tW, tW, tW, tW, tE, tE, tE, tE, tE, tW, tW, tE, tE, tE, tE, tG, tW, tW, tE, tW, tE, tW, tF, tW, tW, tE, tE, tE, tW, tE, tW, tW, tE, tE, tE, tE, tG, tW, tW, tW, tW, tW, tW, tW, tW], [(⟨5,5⟩, ⟨Team.Gnome,200,3⟩), (⟨2,5⟩, ⟨Team.Gnome,119,3⟩), (⟨3,5⟩, ⟨Team.Elf,104,9⟩)]⟩, 1⟩, ⟨7, 4398046511103, 4363416223614, 2181708111807⟩, ⟨1043161652992, 1099512152064, 67108864⟩⟩

def s9r34 : FastGame := ⟨⟨34, [⟨2,5⟩, ⟨3,5⟩, ⟨4,5⟩], ⟨⟨6,7⟩, [tW, tW, tW, tW, tW, tW, tW, tW, tE, tE, tE, tE, tE, tW, tW, tE, tE, tE, tE, tG, tW, tW, tE, tW, tE, tW, tF, tW, tW, tE, tE, tE, tW, tG, tW, tW, tE, tE, tE, tE, tE, tW, tW, tW, tW, tW, tW, tW, tW], [(⟨3,5⟩, ⟨Team.Elf,98,9⟩), (⟨4,5⟩, ⟨Team.Gnome,200,3⟩), (⟨2,5⟩, ⟨Team.Gnome,110,3⟩)]⟩, 1⟩, ⟨7, 4398046511103, 4363416223614, 2181708111807⟩, ⟨2134083346176, 8590458880, 67108864⟩⟩

def s9r35 : FastGame := ⟨⟨35, [⟨2,5⟩, ⟨3,5⟩, ⟨4,5⟩], ⟨⟨6,7⟩, [tW, tW, tW, tW, tW, tW, tW, tW, tE, tE, tE, tE, tE, tW, tW, tE, tE, tE, tE, tG, tW, tW, tE, tW, tE, tW, tF, tW, tW, tE, tE, tE, tW, tG, tW, tW, tE, tE, tE, tE, tE, tW, tW, tW, tW, tW, tW, tW, tW], [(⟨3,5⟩, ⟨Team.Elf,92,9⟩), (⟨2,5⟩, ⟨Team.Gnome,101,3⟩), (⟨4,5⟩, ⟨Team.Gnome,200,3⟩)]⟩, 1⟩, ⟨7, 4398046511103, 4363416223614, 2181708111807⟩, ⟨2134083346176, 8590458880, 67108864⟩⟩

def s9r36 : FastGame := ⟨⟨36, [⟨2,5⟩, ⟨3,5⟩, ⟨4,5⟩], ⟨⟨6,7⟩, [tW, tW, tW, tW, tW, tW, tW, tW, tE, tE, tE, tE, tE, tW, tW, tE, tE, tE, tE, tG, tW, tW, tE, tW, tE, tW, tF, tW, tW, tE, tE, tE, tW, tG, tW, tW, tE, tE, tE, tE, tE, tW, tW, tW, tW, tW, tW, tW, tW], [(⟨3,5⟩, ⟨Team.Elf,86,9⟩), (⟨2,5⟩, ⟨Team.Gnome,92,3⟩), (⟨4,5⟩, ⟨Team.Gnome,200,3⟩)]⟩, 1⟩, ⟨7, 4398046511103, 4363416223614, 2181708111807⟩, ⟨2134083346176, 8590458880, 67108864⟩⟩

def s9r37 : FastGame := ⟨⟨37, [⟨2,5⟩, ⟨3,5⟩, ⟨4,5⟩], ⟨⟨6,7⟩, [tW, tW, tW, tW, tW, tW, tW, tW, tE, tE, tE, tE, tE, tW, tW, tE, tE, tE, tE, tG, tW, tW, tE, tW, tE, tW, tF, tW, tW, tE, tE, tE, tW, tG, tW, tW, tE, tE, tE, tE, tE, tW, tW, tW, tW, tW, tW, tW, tW], [(⟨3,5⟩, ⟨Team.Elf,80,9⟩), (⟨2,5⟩, ⟨Team.Gnome,83,3⟩), (⟨4,5⟩, ⟨Team.Gnome,200,3⟩)]⟩, 1⟩, ⟨7, 4398046511103, 4363416223614, 2181708111807⟩, ⟨2134083346176, 8590458880, 67108864⟩⟩

def s9r38 : FastGame := ⟨⟨38, [⟨2,5⟩, ⟨3,5⟩, ⟨4,5⟩], ⟨⟨6,7⟩, [tW, tW, tW, tW, tW, tW, tW, tW, tE, tE, tE, tE, tE, tW, tW, tE, tE, tE, tE, tG, tW, tW, tE, tW, tE, tW, tF, tW, tW, tE, tE, tE, tW, tG, tW, tW, tE, tE, tE, tE, tE, tW, tW, tW, tW, tW, tW, tW, tW], [(⟨3,5⟩, ⟨Team.Elf,74,9⟩), (⟨2,5⟩, ⟨Team.Gnome,74,3⟩), (⟨4,5⟩, ⟨Team.Gnome,200,3⟩)]⟩, 1⟩, ⟨7, 4398046511103, 4363416223614, 2181708111807⟩, ⟨2134083346176, 8590458880, 67108864⟩⟩

def s9r39 : FastGame := ⟨⟨39, [⟨2,5⟩, ⟨3,5⟩, ⟨4,5⟩], ⟨⟨6,7⟩, [tW, tW, tW, tW, tW, tW, tW, tW, tE, tE, tE, tE, tE, tW, tW, tE, tE, tE, tE, tG, tW, tW, tE, tW, tE, tW, tF, tW, tW, tE, tE, tE, tW, tG, tW, tW, tE, tE, tE, tE, tE, tW, tW, tW, tW, tW, tW, tW, tW], [(⟨3,5⟩, ⟨Team.Elf,68,9⟩), (⟨2,5⟩, ⟨Team.Gnome,65,3⟩), (⟨4,5⟩, ⟨Team.Gnome,200,3⟩)]⟩, 1⟩, ⟨7, 4398046511103, 4363416223614, 2181708111807⟩, ⟨2134083346176, 8590458880, 67108864⟩⟩

def s9r40 : FastGame := ⟨⟨40, [⟨2,5⟩, ⟨3,5⟩, ⟨4,5⟩], ⟨⟨6,7⟩, [tW, tW, tW, tW, tW, tW, tW, tW, tE, tE, tE, tE, tE, tW, tW, tE, tE, tE, tE, tG, tW, tW, tE, tW, tE, tW, tF, tW, tW, tE, tE, tE, tW, tG, tW, tW, tE, tE, tE, tE, tE, tW, tW, tW, tW, tW, tW, tW, tW], [(⟨3,5⟩, ⟨Team.Elf,62,9⟩), (⟨2,5⟩, ⟨Team.Gnome,56,3⟩), (⟨4,5⟩, ⟨Team.Gnome,200,3⟩)]⟩, 1⟩, ⟨7, 4398046511103, 4363416223614, 2181708111807⟩, ⟨2134083346176, 8590458880, 67108864⟩⟩

def s9r41 : FastGame := ⟨⟨41, [⟨2,5⟩, ⟨3,5⟩, ⟨4,5⟩], ⟨⟨6,7⟩, [tW, tW, tW, tW, tW, tW, tW, tW, tE, tE, tE, tE, tE, tW, tW, tE, tE, tE, tE, tG, tW, tW, tE, tW, tE, tW, tF, tW, tW, tE, tE, tE, tW, tG, tW, tW, tE, tE, tE, tE, tE, tW, tW, tW, tW, tW, tW, tW, tW], [(⟨3,5⟩, ⟨Team.Elf,56,9⟩), (⟨2,5⟩, ⟨Team.Gnome,47,3⟩), (⟨4,5⟩, ⟨Team.Gnome,200,3⟩)]⟩, 1⟩, ⟨7, 4398046511103, 4363416223614, 2181708111807⟩, ⟨2134083346176, 8590458880, 67108864⟩⟩

def s9r42 : FastGame := ⟨⟨42, [⟨2,5⟩, ⟨3,5⟩, ⟨4,5⟩], ⟨⟨6,7⟩, [tW, tW, tW, tW, tW, tW, tW, tW, tE, tE, tE, tE, tE, tW, tW, tE, tE, tE, tE, tG, tW, tW, tE, tW, tE, tW, tF, tW, tW, tE, tE, tE, tW, tG, tW, tW, tE, tE, tE, tE, tE, tW, tW, tW, tW, tW, tW, tW, tW], [(⟨3,5⟩, ⟨Team.Elf,50,9⟩), (⟨2,5⟩, ⟨Team.Gnome,38,3⟩), (⟨4,5⟩, ⟨Team.Gnome,200,3⟩)]⟩, 1⟩, ⟨7, 4398046511103, 4363416223614, 2181708111807⟩, ⟨2134083346176, 8590458880, 67108864⟩⟩

def s9r43 : FastGame := ⟨⟨43, [⟨2,5⟩, ⟨3,5⟩, ⟨4,5⟩], ⟨⟨6,7⟩, [tW, tW, tW, tW, tW, tW, tW, tW, tE, tE, tE, tE, tE, tW, tW, tE, tE, tE, tE, tG, tW, tW, tE, tW, tE, tW, tF, tW, tW, tE, tE, tE, tW, tG, tW, tW, tE, tE, tE, tE, tE, tW, tW, tW, tW, tW, tW, tW, tW], [(⟨3,5⟩, ⟨Team.Elf,44,9⟩), (⟨2,5⟩, ⟨Team.Gnome,29,3⟩), (⟨4,5⟩, ⟨Team.Gnome,200,3⟩)]⟩, 1⟩, ⟨7, 4398046511103, 4363416223614, 2181708111807⟩, ⟨2134083346176, 8590458880, 67108864⟩⟩

def s9r44 : FastGame := ⟨⟨44, [⟨2,5⟩, ⟨3,5⟩, ⟨4,5⟩], ⟨⟨6,7⟩, [tW, tW, tW, tW, tW, tW, tW, tW, tE, tE, tE, tE, tE, tW, tW, tE, tE, tE, tE, tG, tW, tW, tE, tW, tE, tW, tF, tW, tW, tE, tE, tE, tW, tG, tW, tW, tE, tE, tE, tE, tE, tW, tW, tW, tW, tW, tW, tW, tW], [(⟨3,5⟩, ⟨Team.Elf,38,9⟩), (⟨2,5⟩, ⟨Team.Gnome,20,3⟩), (⟨4,5⟩, ⟨Team.Gnome,200,3⟩)]⟩, 1⟩, ⟨7, 4398046511103, 4363416223614, 2181708111807⟩, ⟨2134083346176, 8590458880, 67108864⟩⟩

def s9r45 : FastGame := ⟨⟨45, [⟨2,5⟩, ⟨3,5⟩, ⟨4,5⟩], ⟨⟨6,7⟩, [tW, tW, tW, tW, tW, tW, tW, tW, tE, tE, tE, tE, tE, tW, tW, tE, tE, tE, tE, tG, tW, tW, tE, tW, tE, tW, tF, tW, tW, tE, tE, tE, tW, tG, tW, tW, tE, tE, tE, tE, tE, tW, tW, tW, tW, tW, tW, tW, tW], [(⟨3,5⟩, ⟨Team.Elf,32,9⟩), (⟨2,5⟩, ⟨Team.Gnome,11,3⟩), (⟨4,5⟩, ⟨Team.Gnome,200,3⟩)]⟩, 1⟩, ⟨7, 4398046511103, 4363416223614, 2181708111807⟩, ⟨2134083346176, 8590458880, 67108864⟩⟩

def s9r46 : FastGame := ⟨⟨46, [⟨2,5⟩, ⟨3,5⟩, ⟨4,5⟩], ⟨⟨6,7⟩, [tW, tW, tW, tW, tW, tW, tW, tW, tE, tE, tE, tE, tE, tW, tW, tE, tE, tE, tE, tG, tW, tW, tE, tW, tE, tW, tF, tW, tW, tE, tE, tE, tW, tG, tW, tW, tE, tE, tE, tE, tE, tW, tW, tW, tW, tW, tW, tW, tW], [(⟨3,5⟩, ⟨Team.Elf,26,9⟩), (⟨2,5⟩, ⟨Team.Gnome,2,3⟩), (⟨4,5⟩, ⟨Team.Gnome,200,3⟩)]⟩, 1⟩, ⟨7, 4398046511103, 4363416223614, 2181708111807⟩, ⟨2134083346176, 8590458880, 67108864⟩⟩

def s9r47 : FastGame := ⟨⟨47, [⟨3,5⟩, ⟨4,5⟩], ⟨⟨6,7⟩, [tW, tW, tW, tW, tW, tW, tW, tW, tE, tE, tE, tE, tE, tW, tW, tE, tE, tE, tE, tE, tW, tW, tE, tW, tE, tW, tF, tW, tW, tE, tE, tE, tW, tG, tW, tW, tE, tE, tE, tE, tE, tW, tW, tW, tW, tW, tW, tW, tW], [(⟨3,5⟩, ⟨Team.Elf,20,9⟩), (⟨4,5⟩, ⟨Team.Gnome,200,3⟩)]⟩, 1⟩, ⟨7, 4398046511103, 4363416223614, 2181708111807⟩, ⟨2134083870464, 8589934592, 67108864⟩⟩

def s9r48 : FastGame := ⟨⟨48, [⟨3,5⟩, ⟨4,5⟩], ⟨⟨6,7⟩, [tW, tW, tW, tW, tW, tW, tW, tW, tE, tE, tE, tE, tE, tW, tW, tE, tE, tE, tE, tE, tW, tW, tE, tW, tE, tW, tF, tW, tW, tE, tE, tE, tW, tG, tW, tW, tE, tE, tE, tE, tE, tW, tW, tW, tW, tW, tW, tW, tW], [(⟨3,5⟩, ⟨Team.Elf,17,9⟩), (⟨4,5⟩, ⟨Team.Gnome,191,3⟩)]⟩, 1⟩, ⟨7, 4398046511103, 4363416223614, 2181708111807⟩, ⟨2134083870464, 8589934592, 67108864⟩⟩

def s9r49 : FastGame := ⟨⟨49, [⟨3,5⟩, ⟨4,5⟩], ⟨⟨6,7⟩, [tW, tW, tW, tW, tW, tW, tW, tW, tE, tE, tE, tE, tE, tW, tW, tE, tE, tE, tE, tE, tW, tW, tE, tW, tE, tW, tF, tW, tW, tE, tE, tE, tW, tG, tW, tW, tE, tE, tE, tE, tE, tW, tW, tW, tW, tW, tW, tW, tW], [(⟨3,5⟩, ⟨Team.Elf,14,9⟩), (⟨4,5⟩, ⟨Team.Gnome,182,3⟩)]⟩, 1⟩, ⟨7, 4398046511103, 4363416223614, 2181708111807⟩, ⟨2134083870464, 8589934592, 67108864⟩⟩

def s9r50 : FastGame := ⟨⟨50, [⟨3,5⟩, ⟨4,5⟩], ⟨⟨6,7⟩, [tW, tW, tW, tW, tW, tW, tW, tW, tE, tE, tE, tE, tE, tW, tW, tE, tE, tE, tE, tE, tW, tW, tE, tW, tE, tW, tF, tW, tW, tE, tE, tE, tW, tG, tW, tW, tE, tE, tE, tE, tE, tW, tW, tW, tW, tW, tW, tW, tW], [(⟨3,5⟩, ⟨Team.Elf,11,9⟩), (⟨4,5⟩, ⟨Team.Gnome,173,3⟩)]⟩, 1⟩, ⟨7, 4398046511103, 4363416223614, 2181708111807⟩, ⟨2134083870464, 8589934592, 67108864⟩⟩

def s9r51 : FastGame := ⟨⟨51, [⟨3,5⟩, ⟨4,5⟩], ⟨⟨6,7⟩, [tW, tW, tW, tW, tW, tW, tW, tW, tE, tE, tE, tE, tE, tW, tW, tE, tE, tE, tE, tE, tW, tW, tE, tW, tE, tW, tF, tW, tW, tE, tE, tE, tW, tG, tW, tW, tE, tE, tE, tE, tE, tW, tW, tW, tW, tW, tW, tW, tW], [(⟨3,5⟩, ⟨Team.Elf,8,9⟩), (⟨4,5⟩, ⟨Team.Gnome,164,3⟩)]⟩, 1⟩, ⟨7, 4398046511103, 4363416223614, 2181708111807⟩, ⟨2134083870464, 8589934592, 67108864⟩⟩

def s9r52 : FastGame := ⟨⟨52, [⟨3,5⟩, ⟨4,5⟩], ⟨⟨6,7⟩, [tW, tW, tW, tW, tW, tW, tW, tW, tE, tE, tE, tE, tE, tW, tW, tE, tE, tE, tE, tE, tW, tW, tE, tW, tE, tW, tF, tW, tW, tE, tE, tE, tW, tG, tW, tW, tE, tE, tE, tE, tE, tW, tW, tW, tW, tW, tW, tW, tW], [(⟨3,5⟩, ⟨Team.Elf,5,9⟩), (⟨4,5⟩, ⟨Team.Gnome,155,3⟩)]⟩, 1⟩, ⟨7, 4398046511103, 4363416223614, 2181708111807⟩, ⟨2134083870464, 8589934592, 67108864⟩⟩

def s9r53 : FastGame := ⟨⟨53, [⟨3,5⟩, ⟨4,5⟩], ⟨⟨6,7⟩, [tW, tW, tW, tW, tW, tW, tW, tW, tE, tE, tE, tE, tE, tW, tW, tE, tE, tE, tE, tE, tW, tW, tE, tW, tE, tW, tF, tW, tW, tE, tE, tE, tW, tG, tW, tW, tE, tE, tE, tE, tE, tW, tW, tW, tW, tW, tW, tW, tW], [(⟨3,5⟩, ⟨Team.Elf,2,9⟩), (⟨4,5⟩, ⟨Team.Gnome,146,3⟩)]⟩, 1⟩, ⟨7, 4398046511103, 4363416223614, 2181708111807⟩, ⟨2134083870464, 8589934592, 67108864⟩⟩

def s9r54 : FastGame := ⟨⟨54, [⟨4,5⟩], ⟨⟨6,7⟩, [tW, tW, tW, tW, tW, tW, tW, tW, tE, tE, tE, tE, tE, tW, tW, tE, tE, tE, tE, tE, tW, tW, tE, tW, tE, tW, tE, tW, tW, tE, tE, tE, tW, tG, tW, tW, tE, tE, tE, tE, tE, tW, tW, tW, tW, tW, tW, tW, tW], [(⟨4,5⟩, ⟨Team.Gnome,137,3⟩)]⟩, 2⟩, ⟨7, 4398046511103, 4363416223614, 2181708111807⟩, ⟨2134150979328, 8589934592, 0⟩⟩

def s9r55 : FastGame := ⟨⟨54, [], ⟨⟨6,7⟩, [tW, tW, tW, tW, tW, tW, tW, tW, tE, tE, tE, tE, tE, tW, tW, tE, tE, tE, tE, tE, tW, tW, tE, tW, tE, tW, tE, tW, tW, tE, tE, tE, tW, tG, tW, tW, tE, tE, tE, tE, tE, tW, tW, tW, tW, tW, tW, tW, tW], [(⟨4,5⟩, ⟨Team.Gnome,137,3⟩)]⟩, 2⟩, ⟨7, 4398046511103, 4363416223614, 2181708111807⟩, ⟨2134150979328, 8589934592, 0⟩⟩

-- power 10: 60 states
def s10r0 : FastGame := ⟨⟨0, [⟨1,2⟩, ⟨2,4⟩, ⟨2,5⟩, ⟨3,5⟩, ⟨4,3⟩, ⟨4,5⟩], ⟨⟨6,7⟩, [tW, tW, tW, tW, tW, tW, tW, tW, tE, tG, tE, tE, tE, tW, tW, tE, tE, tE, tF, tG, tW, tW, tE, tW, tE, tW, tG, tW, tW, tE, tE, tG, tW, tF, tW, tW, tE, tE, tE, tE, tE, tW, tW, tW, tW, tW, tW, tW, tW], [(⟨4,5⟩, ⟨Team.Elf,200,10⟩), (⟨4,3⟩, ⟨Team.Gnome,200,3⟩), (⟨3,5⟩, ⟨Team.Gnome,200,3⟩), (⟨2,5⟩, ⟨Team.Gnome,200,3⟩), (⟨2,4⟩, ⟨Team.Elf,200,10⟩), (⟨1,2⟩, ⟨Team.Gnome,200,3⟩)]⟩, 0⟩, ⟨7, 4398046511103, 4363416223614, 2181708111807⟩, ⟨2131935599872, 2215117312, 8590196736⟩⟩

def s10r1 : FastGame := ⟨⟨1, [⟨1,3⟩, ⟨2,4⟩, ⟨2,5⟩, ⟨3,3⟩, ⟨3,5⟩, ⟨4,5⟩], ⟨⟨6,7⟩, [tW, tW, tW, tW, tW, tW, tW, tW, tE, tE, tG, tE, tE, tW, tW, tE, tE, tE, tF, tG, tW, tW, tE, tW, tG, tW, tG, tW, tW, tE, tE, tE, tW, tF, tW, tW, tE, tE, tE, tE, tE, tW, tW, tW, tW, tW, tW, tW, tW], [(⟨3,5⟩, ⟨Team.Gnome,190,3⟩), (⟨3,3⟩, ⟨Team.Gnome,200,3⟩), (⟨4,5⟩, ⟨Team.Elf,197,10⟩), (⟨2,4⟩, ⟨Team.Elf,197,10⟩), (⟨2,5⟩, ⟨Team.Gnome,190,3⟩), (⟨1,3⟩, ⟨Team.Gnome,200,3⟩)]⟩, 0⟩, ⟨7, 4398046511103, 4363416223614, 2181708111807⟩, ⟨2134066305792, 84411392, 8590196736⟩⟩

def s10r2 : FastGame := ⟨⟨2, [⟨1,4⟩, ⟨2,3⟩, ⟨2,4⟩, ⟨2,5⟩, ⟨3,5⟩, ⟨4,5⟩], ⟨⟨6,7⟩, [tW, tW, tW, tW, tW, tW, tW, tW, tE, tE, tE, tG, tE, tW, tW, tE, tE, tG, tF, tG, tW, tW, tE, tW, tE, tW, tG, tW, tW, tE, tE, tE, tW, tF, tW, tW, tE, tE, tE, tE, tE, tW, tW, tW, tW, tW, tW, tW, tW], [(⟨3,5⟩, ⟨Team.Gnome,180,3⟩), (⟨4,5⟩, ⟨Team.Elf,194,10⟩), (⟨2,4⟩, ⟨Team.Elf,188,10⟩), (⟨2,3⟩, ⟨Team.Gnome,200,3⟩), (⟨2,5⟩, ⟨Team.Gnome,180,3⟩), (⟨1,4⟩, ⟨Team.Gnome,200,3⟩)]⟩, 0⟩, ⟨7, 4398046511103, 4363416223614, 2181708111807⟩, ⟨2134082950912, 67766272, 8590196736⟩⟩

def s10r3 : FastGame := ⟨⟨3, [⟨1,4⟩, ⟨2,3⟩, ⟨2,4⟩, ⟨2,5⟩, ⟨3,5⟩, ⟨4,5⟩], ⟨⟨6,7⟩, [tW, tW, tW, tW, tW, tW, tW, tW, tE, tE, tE, tG, tE, tW, tW, tE, tE, tG, tF, tG, tW, tW, tE, tW, tE, tW, tG, tW, tW, tE, tE, tE, tW, tF, tW, tW, tE, tE, tE, tE, tE, tW, tW, tW, tW, tW, tW, tW, tW], [(⟨3,5⟩, ⟨Team.Gnome,170,3⟩), (⟨4,5⟩, ⟨Team.Elf,191,10⟩), (⟨2,4⟩, ⟨Team.Elf,179,10⟩), (⟨2,5⟩, ⟨Team.Gnome,170,3⟩), (⟨2,3⟩, ⟨Team.Gnome,200,3⟩), (⟨1,4⟩, ⟨Team.Gnome,200,3⟩)]⟩, 0⟩, ⟨7, 4398046511103, 4363416223614, 2181708111807⟩, ⟨2134082950912, 67766272, 8590196736⟩⟩

def s10r4 : FastGame := ⟨⟨4, [⟨1,4⟩, ⟨2,3⟩, ⟨2,4⟩, ⟨2,5⟩, ⟨3,5⟩, ⟨4,5⟩], ⟨⟨6,7⟩, [tW, tW, tW, tW, tW, tW, tW, tW, tE, tE, tE, tG, tE, tW, tW, tE, tE, tG, tF, tG, tW, tW, tE, tW, tE, tW, tG, tW, tW, tE, tE, tE, tW, tF, tW, tW, tE, tE, tE, tE, tE, tW, tW, tW, tW, tW, tW, tW, tW], [(⟨3,5⟩, ⟨Team.Gnome,160,3⟩), (⟨4,5⟩, ⟨Team.Elf,188,10⟩), (⟨2,4⟩, ⟨Team.Elf,170,10⟩), (⟨2,5⟩, ⟨Team.Gnome,160,3⟩), (⟨2,3⟩, ⟨Team.Gnome,200,3⟩), (⟨1,4⟩, ⟨Team.Gnome,200,3⟩)]⟩, 0⟩, ⟨7, 4398046511103, 4363416223614, 2181708111807⟩, ⟨2134082950912, 67766272, 8590196736⟩⟩

def s10r5 : FastGame := ⟨⟨5, [⟨1,4⟩, ⟨2,3⟩, ⟨2,4⟩, ⟨2,5⟩, ⟨3,5⟩, ⟨4,5⟩], ⟨⟨6,7⟩, [tW, tW, tW, tW, tW, tW, tW, tW, tE, tE, tE, tG, tE, tW, tW, tE, tE, tG, tF, tG, tW, tW, tE, tW, tE, tW, tG, tW, tW, tE, tE, tE, tW, tF, tW, tW, tE, tE, tE, tE, tE, tW, tW, tW, tW, tW, tW, tW, tW], [(⟨3,5⟩, ⟨Team.Gnome,150,3⟩), (⟨4,5⟩, ⟨Team.Elf,185,10⟩), (⟨2,4⟩, ⟨Team.Elf,161,10⟩), (⟨2,5⟩, ⟨Team.Gnome,150,3⟩), (⟨2,3⟩, ⟨Team.Gnome,200,3⟩), (⟨1,4⟩, ⟨Team.Gnome,200,3⟩)]⟩, 0⟩, ⟨7, 4398046511103, 4363416223614, 2181708111807⟩, ⟨2134082950912, 67766272, 8590196736⟩⟩

def s10r6 : FastGame := ⟨⟨6, [⟨1,4⟩, ⟨2,3⟩, ⟨2,4⟩, ⟨2,5⟩, ⟨3,5⟩, ⟨4,5⟩], ⟨⟨6,7⟩, [tW, tW, tW, tW, tW, tW, tW, tW, tE, tE, tE, tG, tE, tW, tW, tE, tE, tG, tF, tG, tW, tW, tE, tW, tE, tW, tG, tW, tW, tE, tE, tE, tW, tF, tW, tW, tE, tE, tE, tE, tE, tW, tW, tW, tW, tW, tW, tW, tW], [(⟨3,5⟩, ⟨Team.Gnome,140,3⟩), (⟨4,5⟩, ⟨Team.Elf,182,10⟩), (⟨2,4⟩, ⟨Team.Elf,152,10⟩), (⟨2,5⟩, ⟨Team.Gnome,140,3⟩), (⟨2,3⟩, ⟨Team.Gnome,200,3⟩), (⟨1,4⟩, ⟨Team.Gnome,200,3⟩)]⟩, 0⟩, ⟨7, 4398046511103, 4363416223614, 2181708111807⟩, ⟨2134082950912, 67766272, 8590196736⟩⟩

def s10r7 : FastGame := ⟨⟨7, [⟨1,4⟩, ⟨2,3⟩, ⟨2,4⟩, ⟨2,5⟩, ⟨3,5⟩, ⟨4,5⟩], ⟨⟨6,7⟩, [tW, tW, tW, tW, tW, tW, tW, tW, tE, tE, tE, tG, tE, tW, tW, tE, tE, tG, tF, tG, tW, tW, tE, tW, tE, tW, tG, tW, tW, tE, tE, tE, tW, tF, tW, tW, tE, tE, tE, tE, tE, tW, tW, tW, tW, tW, tW, tW, tW], [(⟨3,5⟩, ⟨Team.Gnome,130,3⟩), (⟨4,5⟩, ⟨Team.Elf,179,10⟩), (⟨2,4⟩, ⟨Team.Elf,143,10⟩), (⟨2,5⟩, ⟨Team.Gnome,130,3⟩), (⟨2,3⟩, ⟨Team.Gnome,200,3⟩), (⟨1,4⟩, ⟨Team.Gnome,200,3⟩)]⟩, 0⟩, ⟨7, 4398046511103, 4363416223614, 2181708111807⟩, ⟨2134082950912, 67766272, 8590196736⟩⟩

def s10r8 : FastGame := ⟨⟨8, [⟨1,4⟩, ⟨2,3⟩, ⟨2,4⟩, ⟨2,5⟩, ⟨3,5⟩, ⟨4,5⟩], ⟨⟨6,7⟩, [tW, tW, tW, tW, tW, tW, tW, tW, tE, tE, tE, tG, tE, tW, tW, tE, tE, tG, tF, tG, tW, tW, tE, tW, tE, tW, tG, tW, tW, tE, tE, tE, tW, tF, tW, tW, tE, tE, tE, tE, tE, tW, tW, tW, tW, tW, tW, tW, tW], [(⟨3,5⟩, ⟨Team.Gnome,120,3⟩), (⟨4,5⟩, ⟨Team.Elf,176,10⟩), (⟨2,4⟩, ⟨Team.Elf,134,10⟩), (⟨2,5⟩, ⟨Team.Gnome,120,3⟩), (⟨2,3⟩, ⟨Team.Gnome,200,3⟩), (⟨1,4⟩, ⟨Team.Gnome,200,3⟩)]⟩, 0⟩, ⟨7, 4398046511103, 4363416223614, 2181708111807⟩, ⟨2134082950912, 67766272, 8590196736⟩⟩

def s10r9 : FastGame := ⟨⟨9, [⟨1,4⟩, ⟨2,3⟩, ⟨2,4⟩, ⟨2,5⟩, ⟨3,5⟩, ⟨4,5⟩], ⟨⟨6,7⟩, [tW, tW, tW, tW, tW, tW, tW, tW, tE, tE, tE, tG, tE, tW, tW, tE, tE, tG, tF, tG, tW, tW, tE, tW, tE, tW, tG, tW, tW, tE, tE, tE, tW, tF, tW, tW, tE, tE, tE, tE, tE, tW, tW, tW, tW, tW, tW, tW, tW], [(⟨3,5⟩, ⟨Team.Gnome,110,3⟩), (⟨4,5⟩, ⟨Team.Elf,173,10⟩), (⟨2,4⟩, ⟨Team.Elf,125,10⟩), (⟨2,5⟩, ⟨Team.Gnome,110,3⟩), (⟨2,3⟩, ⟨Team.Gnome,200,3⟩), (⟨1,4⟩, ⟨Team.Gnome,200,3⟩)]⟩, 0⟩, ⟨7, 4398046511103, 4363416223614, 2181708111807⟩, ⟨2134082950912, 67766272, 8590196736⟩⟩

def s10r10 : FastGame := ⟨⟨10, [⟨1,4⟩, ⟨2,3⟩, ⟨2,4⟩, ⟨2,5⟩, ⟨3,5⟩, ⟨4,5⟩], ⟨⟨6,7⟩, [tW, tW, tW, tW, tW, tW, tW, tW, tE, tE, tE, tG, tE, tW, tW, tE, tE, tG, tF, tG, tW, tW, tE, tW, tE, tW, tG, tW, tW, tE, tE, tE, tW, tF, tW, tW, tE, tE, tE, tE, tE, tW, tW, tW, tW, tW, tW, tW, tW], [(⟨3,5⟩, ⟨Team.Gnome,100,3⟩), (⟨4,5⟩, ⟨Team.Elf,170,10⟩), (⟨2,4⟩, ⟨Team.Elf,116,10⟩), (⟨2,5⟩, ⟨Team.Gnome,100,3⟩), (⟨2,3⟩, ⟨Team.Gnome,200,3⟩), (⟨1,4⟩, ⟨Team.Gnome,200,3⟩)]⟩, 0⟩, ⟨7, 4398046511103, 4363416223614, 2181708111807⟩, ⟨2134082950912, 67766272, 8590196736⟩⟩

def s10r11 : FastGame := ⟨⟨11, [⟨1,4⟩, ⟨2,3⟩, ⟨2,4⟩, ⟨2,5⟩, ⟨3,5⟩, ⟨4,5⟩], ⟨⟨6,7⟩, [tW, tW, tW, tW, tW, tW, tW, tW, tE, tE, tE, tG, tE, tW, tW, tE, tE, tG, tF, tG, tW, tW, tE, tW, tE, tW, tG, tW, tW, tE, tE, tE, tW, tF, tW, tW, tE, tE, tE, tE, tE, tW, tW, tW, tW, tW, tW, tW, tW], [(⟨3,5⟩, ⟨Team.Gnome,90,3⟩), (⟨4,5⟩, ⟨Team.Elf,167,10⟩), (⟨2,4⟩, ⟨Team.Elf,107,10⟩), (⟨2,5⟩, ⟨Team.Gnome,90,3⟩), (⟨2,3⟩, ⟨Team.Gnome,200,3⟩), (⟨1,4⟩, ⟨Team.Gnome,200,3⟩)]⟩, 0⟩, ⟨7, 4398046511103, 4363416223614, 2181708111807⟩, ⟨2134082950912, 67766272, 8590196736⟩⟩

def s10r12 : FastGame := ⟨⟨12, [⟨1,4⟩, ⟨2,3⟩, ⟨2,4⟩, ⟨2,5⟩, ⟨3,5⟩, ⟨4,5⟩], ⟨⟨6,7⟩, [tW, tW, tW, tW, tW, tW, tW, tW, tE, tE, tE, tG, tE, tW, tW, tE, tE, tG, tF, tG, tW, tW, tE, tW, tE, tW, tG, tW, tW, tE, tE, tE, tW, tF, tW, tW, tE, tE, tE, tE, tE, tW, tW, tW, tW, tW, tW, tW, tW], [(⟨3,5⟩, ⟨Team.Gnome,80,3⟩), (⟨4,5⟩, ⟨Team.Elf,164,10⟩), (⟨2,4⟩, ⟨Team.Elf,98,10⟩), (⟨2,5⟩, ⟨Team.Gnome,80,3⟩), (⟨2,3⟩, ⟨Team.Gnome,200,3⟩), (⟨1,4⟩, ⟨Team.Gnome,200,3⟩)]⟩, 0⟩, ⟨7, 4398046511103, 4363416223614, 2181708111807⟩, ⟨2134082950912, 67766272, 8590196736⟩⟩

def s10r13 : FastGame := ⟨⟨13, [⟨1,4⟩, ⟨2,3⟩, ⟨2,4⟩, ⟨2,5⟩, ⟨3,5⟩, ⟨4,5⟩], ⟨⟨6,7⟩, [tW, tW, tW, tW, tW, tW, tW, tW, tE, tE, tE, tG, tE, tW, tW, tE, tE, tG, tF, tG, tW, tW, tE, tW, tE, tW, tG, tW, tW, tE, tE, tE, tW, tF, tW, tW, tE, tE, tE, tE, tE, tW, tW, tW, tW, tW, tW, tW, tW], [(⟨3,5⟩, ⟨Team.Gnome,70,3⟩), (⟨4,5⟩, ⟨Team.Elf,161,10⟩), (⟨2,4⟩, ⟨Team.Elf,89,10⟩), (⟨2,5⟩, ⟨Team.Gnome,70,3⟩), (⟨2,3⟩, ⟨Team.Gnome,200,3⟩), (⟨1,4⟩, ⟨Team.Gnome,200,3⟩)]⟩, 0⟩, ⟨7, 4398046511103, 4363416223614, 2181708111807⟩, ⟨2134082950912, 67766272, 8590196736⟩⟩

def s10r14 : FastGame := ⟨⟨14, [⟨1,4⟩, ⟨2,3⟩, ⟨2,4⟩, ⟨2,5⟩, ⟨3,5⟩, ⟨4,5⟩], ⟨⟨6,7⟩, [tW, tW, tW, tW, tW, tW, tW, tW, tE, tE, tE, tG, tE, tW, tW, tE, tE, tG, tF, tG, tW, tW, tE, tW, tE, tW, tG, tW, tW, tE, tE, tE, tW, tF, tW, tW, tE, tE, tE, tE, tE, tW, tW, tW, tW, tW, tW, tW, tW], [(⟨3,5⟩, ⟨Team.Gnome,60,3⟩), (⟨4,5⟩, ⟨Team.Elf,158,10⟩), (⟨2,4⟩, ⟨Team.Elf,80,10⟩), (⟨2,5⟩, ⟨Team.Gnome,60,3⟩), (⟨2,3⟩, ⟨Team.Gnome,200,3⟩), (⟨1,4⟩, ⟨Team.Gnome,200,3⟩)]⟩, 0⟩, ⟨7, 4398046511103, 4363416223614, 2181708111807⟩, ⟨2134082950912, 67766272, 8590196736⟩⟩

def s10r15 : FastGame := ⟨⟨15, [⟨1,4⟩, ⟨2,3⟩, ⟨2,4⟩, ⟨2,5⟩, ⟨3,5⟩, ⟨4,5⟩], ⟨⟨6,7⟩, [tW, tW, tW, tW, tW, tW, tW, tW, tE, tE, tE, tG, tE, tW, tW, tE, tE, tG, tF, tG, tW, tW, tE, tW, tE, tW, tG, tW, tW, tE, tE, tE, tW, tF, tW, tW, tE, tE, tE, tE, tE, tW, tW, tW, tW, tW, tW, tW, tW], [(⟨3,5⟩, ⟨Team.Gnome,50,3⟩), (⟨4,5⟩, ⟨Team.Elf,155,10⟩), (⟨2,4⟩, ⟨Team.Elf,71,10⟩), (⟨2,5⟩, ⟨Team.Gnome,50,3⟩), (⟨2,3⟩, ⟨Team.Gnome,200,3⟩), (⟨1,4⟩, ⟨Team.Gnome,200,3⟩)]⟩, 0⟩, ⟨7, 4398046511103, 4363416223614, 2181708111807⟩, ⟨2134082950912, 67766272, 8590196736⟩⟩

def s10r16 : FastGame := ⟨⟨16, [⟨1,4⟩, ⟨2,3⟩, ⟨2,4⟩, ⟨2,5⟩, ⟨3,5⟩, ⟨4,5⟩], ⟨⟨6,7⟩, [tW, tW, tW, tW, tW, tW, tW, tW, tE, tE, tE, tG, tE, tW, tW, tE, tE, tG, tF, tG, tW, tW, tE, tW, tE, tW, tG, tW, tW, tE, tE, tE, tW, tF, tW, tW, tE, tE, tE, tE, tE, tW, tW, tW, tW, tW, tW, tW, tW], [(⟨3,5⟩, ⟨Team.Gnome,40,3⟩), (⟨4,5⟩, ⟨Team.Elf,152,10⟩), (⟨2,4⟩, ⟨Team.Elf,62,10⟩), (⟨2,5⟩, ⟨Team.Gnome,40,3⟩), (⟨2,3⟩, ⟨Team.Gnome,200,3⟩), (⟨1,4⟩, ⟨Team.Gnome,200,3⟩)]⟩, 0⟩, ⟨7, 4398046511103, 4363416223614, 2181708111807⟩, ⟨2134082950912, 67766272, 8590196736⟩⟩

def s10r17 : FastGame := ⟨⟨17, [⟨1,4⟩, ⟨2,3⟩, ⟨2,4⟩, ⟨2,5⟩, ⟨3,5⟩, ⟨4,5⟩], ⟨⟨6,7⟩, [tW, tW, tW, tW, tW, tW, tW, tW, tE, tE, tE, tG, tE, tW, tW, tE, tE, tG, tF, tG, tW, tW, tE, tW, tE, tW, tG, tW, tW, tE, tE, tE, tW, tF, tW, tW, tE, tE, tE, tE, tE, tW, tW, tW, tW, tW, tW, tW, tW], [(⟨3,5⟩, ⟨Team.Gnome,30,3⟩), (⟨4,5⟩, ⟨Team.Elf,149,10⟩), (⟨2,4⟩, ⟨Team.Elf,53,10⟩), (⟨2,5⟩, ⟨Team.Gnome,30,3⟩), (⟨2,3⟩, ⟨Team.Gnome,200,3⟩), (⟨1,4⟩, ⟨Team.Gnome,200,3⟩)]⟩, 0⟩, ⟨7, 4398046511103, 4363416223614, 2181708111807⟩, ⟨2134082950912, 67766272, 8590196736⟩⟩

def s10r18 : FastGame := ⟨⟨18, [⟨1,4⟩, ⟨2,3⟩, ⟨2,4⟩, ⟨2,5⟩, ⟨3,5⟩, ⟨4,5⟩], ⟨⟨6,7⟩, [tW, tW, tW, tW, tW, tW, tW, tW, tE, tE, tE, tG, tE, tW, tW, tE, tE, tG, tF, tG, tW, tW, tE, tW, tE, tW, tG, tW, tW, tE, tE, tE, tW, tF, tW, tW, tE, tE, tE, tE, tE, tW, tW, tW, tW, tW, tW, tW, tW], [(⟨3,5⟩, ⟨Team.Gnome,20,3⟩), (⟨4,5⟩, ⟨Team.Elf,146,10⟩), (⟨2,4⟩, ⟨Team.Elf,44,10⟩), (⟨2,5⟩, ⟨Team.Gnome,20,3⟩), (⟨2,3⟩, ⟨Team.Gnome,200,3⟩), (⟨1,4⟩, ⟨Team.Gnome,200,3⟩)]⟩, 0⟩, ⟨7, 4398046511103, 4363416223614, 2181708111807⟩, ⟨2134082950912, 67766272, 8590196736⟩⟩

def s10r19 : FastGame := ⟨⟨19, [⟨1,4⟩, ⟨2,3⟩, ⟨2,4⟩, ⟨2,5⟩, ⟨3,5⟩, ⟨4,5⟩], ⟨⟨6,7⟩, [tW, tW, tW, tW, tW, tW, tW, tW, tE, tE, tE, tG, tE, tW, tW, tE, tE, tG, tF, tG, tW, tW, tE, tW, tE, tW, tG, tW, tW, tE, tE, tE, tW, tF, tW, tW, tE, tE, tE, tE, tE, tW, tW, tW, tW, tW, tW, tW, tW], [(⟨3,5⟩, ⟨Team.Gnome,10,3⟩), (⟨4,5⟩, ⟨Team.Elf,143,10⟩), (⟨2,4⟩, ⟨Team.Elf,35,10⟩), (⟨2,5⟩, ⟨Team.Gnome,10,3⟩), (⟨2,3⟩, ⟨Team.Gnome,200,3⟩), (⟨1,4⟩, ⟨Team.Gnome,200,3⟩)]⟩, 0⟩, ⟨7, 4398046511103, 4363416223614, 2181708111807⟩, ⟨2134082950912, 67766272, 8590196736⟩⟩

def s10r20 : FastGame := ⟨⟨20, [⟨1,4⟩, ⟨2,3⟩, ⟨2,4⟩, ⟨4,5⟩], ⟨⟨6,7⟩, [tW, tW, tW, tW, tW, tW, tW, tW, tE, tE, tE, tG, tE, tW, tW, tE, tE, tG, tF, tE, tW, tW, tE, tW, tE, tW, tE, tW, tW, tE, tE, tE, tW, tF, tW, tW, tE, tE, tE, tE, tE, tW, tW, tW, tW, tW, tW, tW, tW], [(⟨4,5⟩, ⟨Team.Elf,140,10⟩), (⟨2,4⟩, ⟨Team.Elf,29,10⟩), (⟨2,3⟩, ⟨Team.Gnome,200,3⟩), (⟨1,4⟩, ⟨Team.Gnome,200,3⟩)]⟩, 0⟩, ⟨7, 4398046511103, 4363416223614, 2181708111807⟩, ⟨2134150584064, 133120, 8590196736⟩⟩

def s10r21 : FastGame := ⟨⟨21, [⟨1,4⟩, ⟨2,3⟩, ⟨2,4⟩, ⟨3,5⟩], ⟨⟨6,7⟩, [tW, tW, tW, tW, tW, tW, tW, tW, tE, tE, tE, tG, tE, tW, tW, tE, tE, tG, tF, tE, tW, tW, tE, tW, tE, tW, tF, tW, tW, tE, tE, tE, tW, tE, tW, tW, tE, tE, tE, tE, tE, tW, tW, tW, tW, tW, tW, tW, tW], [(⟨3,5⟩, ⟨Team.Elf,140,10⟩), (⟨1,4⟩, ⟨Team.Gnome,190,3⟩), (⟨2,4⟩, ⟨Team.Elf,23,10⟩), (⟨2,3⟩, ⟨Team.Gnome,200,3⟩)]⟩, 0⟩, ⟨7, 4398046511103, 4363416223614, 2181708111807⟩, ⟨2142673409792, 133120, 67371008⟩⟩

def s10r22 : FastGame := ⟨⟨22, [⟨1,4⟩, ⟨2,3⟩, ⟨2,4⟩, ⟨2,5⟩], ⟨⟨6,7⟩, [tW, tW, tW, tW, tW, tW, tW, tW, tE, tE, tE, tG, tE, tW, tW, tE, tE, tG, tF, tF, tW, tW, tE, tW, tE, tW, tE, tW, tW, tE, tE, tE, tW, tE, tW, tW, tE, tE, tE, tE, tE, tW, tW, tW, tW, tW, tW, tW, tW], [(⟨2,5⟩, ⟨Team.Elf,140,10⟩), (⟨1,4⟩, ⟨Team.Gnome,180,3⟩), (⟨2,4⟩, ⟨Team.Elf,17,10⟩), (⟨2,3⟩, ⟨Team.Gnome,200,3⟩)]⟩, 0⟩, ⟨7, 4398046511103, 4363416223614, 2181708111807⟩, ⟨2142739994368, 133120, 786432⟩⟩

def s10r23 : FastGame := ⟨⟨23, [⟨1,4⟩, ⟨1,5⟩, ⟨2,3⟩, ⟨2,4⟩], ⟨⟨6,7⟩, [tW, tW, tW, tW, tW, tW, tW, tW, tE, tE, tE, tG, tF, tW, tW, tE, tE, tG, tF, tE, tW, tW, tE, tW, tE, tW, tE, tW, tW, tE, tE, tE, tW, tE, tW, tW, tE, tE, tE, tE, tE, tW, tW, tW, tW, tW, tW, tW, tW], [(⟨1,4⟩, ⟨Team.Gnome,160,3⟩), (⟨1,5⟩, ⟨Team.Elf,140,10⟩), (⟨2,4⟩, ⟨Team.Elf,11,10⟩), (⟨2,3⟩, ⟨Team.Gnome,200,3⟩)]⟩, 0⟩, ⟨7, 4398046511103, 4363416223614, 2181708111807⟩, ⟨2142740514560, 133120, 266240⟩⟩

def s10r24 : FastGame := ⟨⟨24, [⟨1,4⟩, ⟨1,5⟩, ⟨2,3⟩, ⟨2,4⟩], ⟨⟨6,7⟩, [tW, tW, tW, tW, tW, tW, tW, tW, tE, tE, tE, tG, tF, tW, tW, tE, tE, tG, tF, tE, tW, tW, tE, tW, tE, tW, tE, tW, tW, tE, tE, tE, tW, tE, tW, tW, tE, tE, tE, tE, tE, tW, tW, tW, tW, tW, tW, tW, tW], [(⟨1,4⟩, ⟨Team.Gnome,140,3⟩), (⟨2,4⟩, ⟨Team.Elf,5,10⟩), (⟨1,5⟩, ⟨Team.Elf,140,10⟩), (⟨2,3⟩, ⟨Team.Gnome,200,3⟩)]⟩, 0⟩, ⟨7, 4398046511103, 4363416223614, 2181708111807⟩, ⟨2142740514560, 133120, 266240⟩⟩

def s10r25 : FastGame := ⟨⟨25, [⟨1,4⟩, ⟨1,5⟩, ⟨2,3⟩], ⟨⟨6,7⟩, [tW, tW, tW, tW, tW, tW, tW, tW, tE, tE, tE, tG, tF, tW, tW, tE, tE, tG, tE, tE, tW, tW, tE, tW, tE, tW, tE, tW, tW, tE, tE, tE, tW, tE, tW, tW, tE, tE, tE, tE, tE, tW, tW, tW, tW, tW, tW, tW, tW], [(⟨1,4⟩, ⟨Team.Gnome,130,3⟩), (⟨1,5⟩, ⟨Team.Elf,140,10⟩), (⟨2,3⟩, ⟨Team.Gnome,200,3⟩)]⟩, 1⟩, ⟨7, 4398046511103, 4363416223614, 2181708111807⟩, ⟨2142740776704, 133120, 4096⟩⟩

def s10r26 : FastGame := ⟨⟨26, [⟨1,4⟩, ⟨1,5⟩, ⟨2,4⟩], ⟨⟨6,7⟩, [tW, tW, tW, tW, tW, tW, tW, tW, tE, tE, tE, tG, tF, tW, tW, tE, tE, tE, tG, tE, tW, tW, tE, tW, tE, tW, tE, tW, tW, tE, tE, tE, tW, tE, tW, tW, tE, tE, tE, tE, tE, tW, tW, tW, tW, tW, tW, tW, tW], [(⟨2,4⟩, ⟨Team.Gnome,200,3⟩), (⟨1,4⟩, ⟨Team.Gnome,120,3⟩), (⟨1,5⟩, ⟨Team.Elf,137,10⟩)]⟩, 1⟩, ⟨7, 4398046511103, 4363416223614, 2181708111807⟩, ⟨2142740645632, 264192, 4096⟩⟩

def s10r27 : FastGame := ⟨⟨27, [⟨1,4⟩, ⟨1,5⟩, ⟨2,5⟩], ⟨⟨6,7⟩, [tW, tW, tW, tW, tW, tW, tW, tW, tE, tE, tE, tG, tF, tW, tW, tE, tE, tE, tE, tG, tW, tW, tE, tW, tE, tW, tE, tW, tW, tE, tE, tE, tW, tE, tW, tW, tE, tE, tE, tE, tE, tW, tW, tW, tW, tW, tW, tW, tW], [(⟨1,5⟩, ⟨Team.Elf,131,10⟩), (⟨2,5⟩, ⟨Team.Gnome,200,3⟩), (⟨1,4⟩, ⟨Team.Gnome,110,3⟩)]⟩, 1⟩, ⟨7, 4398046511103, 4363416223614, 2181708111807⟩, ⟨2142740383488, 526336, 4096⟩⟩

def s10r28 : FastGame := ⟨⟨28, [⟨1,4⟩, ⟨1,5⟩, ⟨2,5⟩], ⟨⟨6,7⟩, [tW, tW, tW, tW, tW, tW, tW, tW, tE, tE, tE, tG, tF, tW, tW, tE, tE, tE, tE, tG, tW, tW, tE, tW, tE, tW, tE, tW, tW, tE, tE, tE, tW, tE, tW, tW, tE, tE, tE, tE, tE, tW, tW, tW, tW, tW, tW, tW, tW], [(⟨1,5⟩, ⟨Team.Elf,125,10⟩), (⟨1,4⟩, ⟨Team.Gnome,100,3⟩), (⟨2,5⟩, ⟨Team.Gnome,200,3⟩)]⟩, 1⟩, ⟨7, 4398046511103, 4363416223614, 2181708111807⟩, ⟨2142740383488, 526336, 4096⟩⟩

def s10r29 : FastGame := ⟨⟨29, [⟨1,4⟩, ⟨1,5⟩, ⟨2,5⟩], ⟨⟨6,7⟩, [tW, tW, tW, tW, tW, tW, tW, tW, tE, tE, tE, tG, tF, tW, tW, tE, tE, tE, tE, tG, tW, tW, tE, tW, tE, tW, tE, tW, tW, tE, tE, tE, tW, tE, tW, tW, tE, tE, tE, tE, tE, tW, tW, tW, tW, tW, tW, tW, tW], [(⟨1,5⟩, ⟨Team.Elf,119,10⟩), (⟨1,4⟩, ⟨Team.Gnome,90,3⟩), (⟨2,5⟩, ⟨Team.Gnome,200,3⟩)]⟩, 1⟩, ⟨7, 4398046511103, 4363416223614, 2181708111807⟩, ⟨2142740383488, 526336, 4096⟩⟩

def s10r30 : FastGame := ⟨⟨30, [⟨1,4⟩, ⟨1,5⟩, ⟨2,5⟩], ⟨⟨6,7⟩, [tW, tW, tW, tW, tW, tW, tW, tW, tE, tE, tE, tG, tF, tW, tW, tE, tE, tE, tE, tG, tW, tW, tE, tW, tE, tW, tE, tW, tW, tE, tE, tE, tW, tE, tW, tW, tE, tE, tE, tE, tE, tW, tW, tW, tW, tW, tW, tW, tW], [(⟨1,5⟩, ⟨Team.Elf,113,10⟩), (⟨1,4⟩, ⟨Team.Gnome,80,3⟩), (⟨2,5⟩, ⟨Team.Gnome,200,3⟩)]⟩, 1⟩, ⟨7, 4398046511103, 4363416223614, 2181708111807⟩, ⟨2142740383488, 526336, 4096⟩⟩

def s10r31 : FastGame := ⟨⟨31, [⟨1,4⟩, ⟨1,5⟩, ⟨2,5⟩], ⟨⟨6,7⟩, [tW, tW, tW, tW, tW, tW, tW, tW, tE, tE, tE, tG, tF, tW, tW, tE, tE, tE, tE, tG, tW, tW, tE, tW, tE, tW, tE, tW, tW, tE, tE, tE, tW, tE, tW, tW, tE, tE, tE, tE, tE, tW, tW, tW, tW, tW, tW, tW, tW], [(⟨1,5⟩, ⟨Team.Elf,107,10⟩), (⟨1,4⟩, ⟨Team.Gnome,70,3⟩), (⟨2,5⟩, ⟨Team.Gnome,200,3⟩)]⟩, 1⟩, ⟨7, 4398046511103, 4363416223614, 2181708111807⟩, ⟨2142740383488, 526336, 4096⟩⟩

def s10r32 : FastGame := ⟨⟨32, [⟨1,4⟩, ⟨1,5⟩, ⟨2,5⟩], ⟨⟨6,7⟩, [tW, tW, tW, tW, tW, tW, tW, tW, tE, tE, tE, tG, tF, tW, tW, tE, tE, tE, tE, tG, tW, tW, tE, tW, tE, tW, tE, tW, tW, tE, tE, tE, tW, tE, tW, tW, tE, tE, tE, tE, tE, tW, tW, tW, tW, tW, tW, tW, tW], [(⟨1,5⟩, ⟨Team.Elf,101,10⟩), (⟨1,4⟩, ⟨Team.Gnome,60,3⟩), (⟨2,5⟩, ⟨Team.Gnome,200,3⟩)]⟩, 1⟩, ⟨7, 4398046511103, 4363416223614, 2181708111807⟩, ⟨2142740383488, 526336, 4096⟩⟩

def s10r33 : FastGame := ⟨⟨33, [⟨1,4⟩, ⟨1,5⟩, ⟨2,5⟩], ⟨⟨6,7⟩, [tW, tW, tW, tW, tW, tW, tW, tW, tE, tE, tE, tG, tF, tW, tW, tE, tE, tE, tE, tG, tW, tW, tE, tW, tE, tW, tE, tW, tW, tE, tE, tE, tW, tE, tW, tW, tE, tE, tE, tE, tE, tW, tW, tW, tW, tW, tW, tW, tW], [(⟨1,5⟩, ⟨Team.Elf,95,10⟩), (⟨1,4⟩, ⟨Team.Gnome,50,3⟩), (⟨2,5⟩, ⟨Team.Gnome,200,3⟩)]⟩, 1⟩, ⟨7, 4398046511103, 4363416223614, 2181708111807⟩, ⟨2142740383488, 526336, 4096⟩⟩

def s10r34 : FastGame := ⟨⟨34, [⟨1,4⟩, ⟨1,5⟩, ⟨2,5⟩], ⟨⟨6,7⟩, [tW, tW, tW, tW, tW, tW, tW, tW, tE, tE, tE, tG, tF, tW, tW, tE, tE, tE, tE, tG, tW, tW, tE, tW, tE, tW, tE, tW, tW, tE, tE, tE, tW, tE, tW, tW, tE, tE, tE, tE, tE, tW, tW, tW, tW, tW, tW, tW, tW], [(⟨1,5⟩, ⟨Team.Elf,89,10⟩), (⟨1,4⟩, ⟨Team.Gnome,40,3⟩), (⟨2,5⟩, ⟨Team.Gnome,200,3⟩)]⟩, 1⟩, ⟨7, 4398046511103, 4363416223614, 2181708111807⟩, ⟨2142740383488, 526336, 4096⟩⟩

def s10r35 : FastGame := ⟨⟨35, [⟨1,4⟩, ⟨1,5⟩, ⟨2,5⟩], ⟨⟨6,7⟩, [tW, tW, tW, tW, tW, tW, tW, tW, tE, tE, tE, tG, tF, tW, tW, tE, tE, tE, tE, tG, tW, tW, tE, tW, tE, tW, tE, tW, tW, tE, tE, tE, tW, tE, tW, tW, tE, tE, tE, tE, tE, tW, tW, tW, tW, tW, tW, tW, tW], [(⟨1,5⟩, ⟨Team.Elf,83,10⟩), (⟨1,4⟩, ⟨Team.Gnome,30,3⟩), (⟨2,5⟩, ⟨Team.Gnome,200,3⟩)]⟩, 1⟩, ⟨7, 4398046511103, 4363416223614, 2181708111807⟩, ⟨2142740383488, 526336, 4096⟩⟩

def s10r36 : FastGame := ⟨⟨36, [⟨1,4⟩, ⟨1,5⟩, ⟨2,5⟩], ⟨⟨6,7⟩, [tW, tW, tW, tW, tW, tW, tW, tW, tE, tE, tE, tG, tF, tW, tW, tE, tE, tE, tE, tG, tW, tW, tE, tW, tE, tW, tE, tW, tW, tE, tE, tE, tW, tE, tW, tW, tE, tE, tE, tE, tE, tW, tW, tW, tW, tW, tW, tW, tW], [(⟨1,5⟩, ⟨Team.Elf,77,10⟩), (⟨1,4⟩, ⟨Team.Gnome,20,3⟩), (⟨2,5⟩, ⟨Team.Gnome,200,3⟩)]⟩, 1⟩, ⟨7, 4398046511103, 4363416223614, 2181708111807⟩, ⟨2142740383488, 526336, 4096⟩⟩

def s10r37 : FastGame := ⟨⟨37, [⟨1,4⟩, ⟨1,5⟩, ⟨2,5⟩], ⟨⟨6,7⟩, [tW, tW, tW, tW, tW, tW, tW, tW, tE, tE, tE, tG, tF, tW, tW, tE, tE, tE, tE, tG, tW, tW, tE, tW, tE, tW, tE, tW, tW, tE, tE, tE, tW, tE, tW, tW, tE, tE, tE, tE, tE, tW, tW, tW, tW, tW, tW, tW, tW], [(⟨1,5⟩, ⟨Team.Elf,71,10⟩), (⟨1,4⟩, ⟨Team.Gnome,10,3⟩), (⟨2,5⟩, ⟨Team.Gnome,200,3⟩)]⟩, 1⟩, ⟨7, 4398046511103, 4363416223614, 2181708111807⟩, ⟨2142740383488, 526336, 4096⟩⟩

def s10r38 : FastGame := ⟨⟨38, [⟨1,5⟩, ⟨2,5⟩], ⟨⟨6,7⟩, [tW, tW, tW, tW, tW, tW, tW, tW, tE, tE, tE, tE, tF, tW, tW, tE, tE, tE, tE, tG, tW, tW, tE, tW, tE, tW, tE, tW, tW, tE, tE, tE, tW, tE, tW, tW, tE, tE, tE, tE, tE, tW, tW, tW, tW, tW, tW, tW, tW], [(⟨1,5⟩, ⟨Team.Elf,65,10⟩), (⟨2,5⟩, ⟨Team.Gnome,200,3⟩)]⟩, 1⟩, ⟨7, 4398046511103, 4363416223614, 2181708111807⟩, ⟨2142740385536, 524288, 4096⟩⟩

def s10r39 : FastGame := ⟨⟨39, [⟨1,5⟩, ⟨2,5⟩], ⟨⟨6,7⟩, [tW, tW, tW, tW, tW, tW, tW, tW, tE, tE, tE, tE, tF, tW, tW, tE, tE, tE, tE, tG, tW, tW, tE, tW, tE, tW, tE, tW, tW, tE, tE, tE, tW, tE, tW, tW, tE, tE, tE, tE, tE, tW, tW, tW, tW, tW, tW, tW, tW], [(⟨1,5⟩, ⟨Team.Elf,62,10⟩), (⟨2,5⟩, ⟨Team.Gnome,190,3⟩)]⟩, 1⟩, ⟨7, 4398046511103, 4363416223614, 2181708111807⟩, ⟨2142740385536, 524288, 4096⟩⟩

def s10r40 : FastGame := ⟨⟨40, [⟨1,5⟩, ⟨2,5⟩], ⟨⟨6,7⟩, [tW, tW, tW, tW, tW, tW, tW, tW, tE, tE, tE, tE, tF, tW, tW, tE, tE, tE, tE, tG, tW, tW, tE, tW, tE, tW, tE, tW, tW, tE, tE, tE, tW, tE, tW, tW, tE, tE, tE, tE, tE, tW, tW, tW, tW, tW, tW, tW, tW], [(⟨1,5⟩, ⟨Team.Elf,59,10⟩), (⟨2,5⟩, ⟨Team.Gnome,180,3⟩)]⟩, 1⟩, ⟨7, 4398046511103, 4363416223614, 2181708111807⟩, ⟨2142740385536, 524288, 4096⟩⟩

def s10r41 : FastGame := ⟨⟨41, [⟨1,5⟩, ⟨2,5⟩], ⟨⟨6,7⟩, [tW, tW, tW, tW, tW, tW, tW, tW, tE, tE, tE, tE, tF, tW, tW, tE, tE, tE, tE, tG, tW, tW, tE, tW, tE, tW, tE, tW, tW, tE, tE, tE, tW, tE, tW, tW, tE, tE, tE, tE, tE, tW, tW, tW, tW, tW, tW, tW, tW], [(⟨1,5⟩, ⟨Team.Elf,56,10⟩), (⟨2,5⟩, ⟨Team.Gnome,170,3⟩)]⟩, 1⟩, ⟨7, 4398046511103, 4363416223614, 2181708111807⟩, ⟨2142740385536, 524288, 4096⟩⟩

def s10r42 : FastGame := ⟨⟨42, [⟨1,5⟩, ⟨2,5⟩], ⟨⟨6,7⟩, [tW, tW, tW, tW, tW, tW, tW, tW, tE, tE, tE, tE, tF, tW, tW, tE, tE, tE, tE, tG, tW, tW, tE, tW, tE, tW, tE, tW, tW, tE, tE, tE, tW, tE, tW, tW, tE, tE, tE, tE, tE, tW, tW, tW, tW, tW, tW, tW, tW], [(⟨1,5⟩, ⟨Team.Elf,53,10⟩), (⟨2,5⟩, ⟨Team.Gnome,160,3⟩)]⟩, 1⟩, ⟨7, 4398046511103, 4363416223614, 2181708111807⟩, ⟨2142740385536, 524288, 4096⟩⟩

def s10r43 : FastGame := ⟨⟨43, [⟨1,5⟩, ⟨2,5⟩], ⟨⟨6,7⟩, [tW, tW, tW, tW, tW, tW, tW, tW, tE, tE, tE, tE, tF, tW, tW, tE, tE, tE, tE, tG, tW, tW, tE, tW, tE, tW, tE, tW, tW, tE, tE, tE, tW, tE, tW, tW, tE, tE, tE, tE, tE, tW, tW, tW, tW, tW, tW, tW, tW], [(⟨1,5⟩, ⟨Team.Elf,50,10⟩), (⟨2,5⟩, ⟨Team.Gnome,150,3⟩)]⟩, 1⟩, ⟨7, 4398046511103, 4363416223614, 2181708111807⟩, ⟨2142740385536, 524288, 4096⟩⟩

def s10r44 : FastGame := ⟨⟨44, [⟨1,5⟩, ⟨2,5⟩], ⟨⟨6,7⟩, [tW, tW, tW, tW, tW, tW, tW, tW, tE, tE, tE, tE, tF, tW, tW, tE, tE, tE, tE, tG, tW, tW, tE, tW, tE, tW, tE, tW, tW, tE, tE, tE, tW, tE, tW, tW, tE, tE, tE, tE, tE, tW, tW, tW, tW, tW, tW, tW, tW], [(⟨1,5⟩, ⟨Team.Elf,47,10⟩), (⟨2,5⟩, ⟨Team.Gnome,140,3⟩)]⟩, 1⟩, ⟨7, 4398046511103, 4363416223614, 2181708111807⟩, ⟨2142740385536, 524288, 4096⟩⟩

def s10r45 : FastGame := ⟨⟨45, [⟨1,5⟩, ⟨2,5⟩], ⟨⟨6,7⟩, [tW, tW, tW, tW, tW, tW, tW, tW, tE, tE, tE, tE, tF, tW, tW, tE, tE, tE, tE, tG, tW, tW, tE, tW, tE, tW, tE, tW, tW, tE, tE, tE, tW, tE, tW, tW, tE, tE, tE, tE, tE, tW, tW, tW, tW, tW, tW, tW, tW], [(⟨1,5⟩, ⟨Team.Elf,44,10⟩), (⟨2,5⟩, ⟨Team.Gnome,130,3⟩)]⟩, 1⟩, ⟨7, 4398046511103, 4363416223614, 2181708111807⟩, ⟨2142740385536, 524288, 4096⟩⟩

def s10r46 : FastGame := ⟨⟨46, [⟨1,5⟩, ⟨2,5⟩], ⟨⟨6,7⟩, [tW, tW, tW, tW, tW, tW, tW, tW, tE, tE, tE, tE, tF, tW, tW, tE, tE, tE, tE, tG, tW, tW, tE, tW, tE, tW, tE, tW, tW, tE, tE, tE, tW, tE, tW, tW, tE, tE, tE, tE, tE, tW, tW, tW, tW, tW, tW, tW, tW], [(⟨1,5⟩, ⟨Team.Elf,41,10⟩), (⟨2,5⟩, ⟨Team.Gnome,120,3⟩)]⟩, 1⟩, ⟨7, 4398046511103, 4363416223614, 2181708111807⟩, ⟨2142740385536, 524288, 4096⟩⟩

def s10r47 : FastGame := ⟨⟨47, [⟨1,5⟩, ⟨2,5⟩], ⟨⟨6,7⟩, [tW, tW, tW, tW, tW, tW, tW, tW, tE, tE, tE, tE, tF, tW, tW, tE, tE, tE, tE, tG, tW, tW, tE, tW, tE, tW, tE, tW, tW, tE, tE, tE, tW, tE, tW, tW, tE, tE, tE, tE, tE, tW, tW, tW, tW, tW, tW, tW, tW], [(⟨1,5⟩, ⟨Team.Elf,38,10⟩), (⟨2,5⟩, ⟨Team.Gnome,110,3⟩)]⟩, 1⟩, ⟨7, 4398046511103, 4363416223614, 2181708111807⟩, ⟨2142740385536, 524288, 4096⟩⟩

def s10r48 : FastGame := ⟨⟨48, [⟨1,5⟩, ⟨2,5⟩], ⟨⟨6,7⟩, [tW, tW, tW, tW, tW, tW, tW, tW, tE, tE, tE, tE, tF, tW, tW, tE, tE, tE, tE, tG, tW, tW, tE, tW, tE, tW, tE, tW, tW, tE, tE, tE, tW, tE, tW, tW, tE, tE, tE, tE, tE, tW, tW, tW, tW, tW, tW, tW, tW], [(⟨1,5⟩, ⟨Team.Elf,35,10⟩), (⟨2,5⟩, ⟨Team.Gnome,100,3⟩)]⟩, 1⟩, ⟨7, 4398046511103, 4363416223614, 2181708111807⟩, ⟨2142740385536, 524288, 4096⟩⟩

def s10r49 : FastGame := ⟨⟨49, [⟨1,5⟩, ⟨2,5⟩], ⟨⟨6,7⟩, [tW, tW, tW, tW, tW, tW, tW, tW, tE, tE, tE, tE, tF, tW, tW, tE, tE, tE, tE, tG, tW, tW, tE, tW, tE, tW, tE, tW, tW, tE, tE, tE, tW, tE, tW, tW, tE, tE, tE, tE, tE, tW, tW, tW, tW, tW, tW, tW, tW], [(⟨1,5⟩, ⟨Team.Elf,32,10⟩), (⟨2,5⟩, ⟨Team.Gnome,90,3⟩)]⟩, 1⟩, ⟨7, 4398046511103, 4363416223614, 2181708111807⟩, ⟨2142740385536, 524288, 4096⟩⟩

def s10r50 : FastGame := ⟨⟨50, [⟨1,5⟩, ⟨2,5⟩], ⟨⟨6,7⟩, [tW, tW, tW, tW, tW, tW, tW, tW, tE, tE, tE, tE, tF, tW, tW, tE, tE, tE, tE, tG, tW, tW, tE, tW, tE, tW, tE, tW, tW, tE, tE, tE, tW, tE, tW, tW, tE, tE, tE, tE, tE, tW, tW, tW, tW, tW, tW, tW, tW], [(⟨1,5⟩, ⟨Team.Elf,29,10⟩), (⟨2,5⟩, ⟨Team.Gnome,80,3⟩)]⟩, 1⟩, ⟨7, 4398046511103, 4363416223614, 2181708111807⟩, ⟨2142740385536, 524288, 4096⟩⟩

def s10r51 : FastGame := ⟨⟨51, [⟨1,5⟩, ⟨2,5⟩], ⟨⟨6,7⟩, [tW, tW, tW, tW, tW, tW, tW, tW, tE, tE, tE, tE, tF, tW, tW, tE, tE, tE, tE, tG, tW, tW, tE, tW, tE, tW, tE, tW, tW, tE, tE, tE, tW, tE, tW, tW, tE, tE, tE, tE, tE, tW, tW, tW, tW, tW, tW, tW, tW], [(⟨1,5⟩, ⟨Team.Elf,26,10⟩), (⟨2,5⟩, ⟨Team.Gnome,70,3⟩)]⟩, 1⟩, ⟨7, 4398046511103, 4363416223614, 2181708111807⟩, ⟨2142740385536, 524288, 4096⟩⟩

def s10r52 : FastGame := ⟨⟨52, [⟨1,5⟩, ⟨2,5⟩], ⟨⟨6,7⟩, [tW, tW, tW, tW, tW, tW, tW, tW, tE, tE, tE, tE, tF, tW, tW, tE, tE, tE, tE, tG, tW, tW, tE, tW, tE, tW, tE, tW, tW, tE, tE, tE, tW, tE, tW, tW, tE, tE, tE, tE, tE, tW, tW, tW, tW, tW, tW, tW, tW], [(⟨1,5⟩, ⟨Team.Elf,23,10⟩), (⟨2,5⟩, ⟨Team.Gnome,60,3⟩)]⟩, 1⟩, ⟨7, 4398046511103, 4363416223614, 2181708111807⟩, ⟨2142740385536, 524288, 4096⟩⟩

def s10r53 : FastGame := ⟨⟨53, [⟨1,5⟩, ⟨2,5⟩], ⟨⟨6,7⟩, [tW, tW, tW, tW, tW, tW, tW, tW, tE, tE, tE, tE, tF, tW, tW, tE, tE, tE, tE, tG, tW, tW, tE, tW, tE, tW, tE, tW, tW, tE, tE, tE, tW, tE, tW, tW, tE, tE, tE, tE, tE, tW, tW, tW, tW, tW, tW, tW, tW], [(⟨1,5⟩, ⟨Team.Elf,20,10⟩), (⟨2,5⟩, ⟨Team.Gnome,50,3⟩)]⟩, 1⟩, ⟨7, 4398046511103, 4363416223614, 2181708111807⟩, ⟨2142740385536, 524288, 4096⟩⟩

def s10r54 : FastGame := ⟨⟨54, [⟨1,5⟩, ⟨2,5⟩], ⟨⟨6,7⟩, [tW, tW, tW, tW, tW, tW, tW, tW, tE, tE, tE, tE, tF, tW, tW, tE, tE, tE, tE, tG, tW, tW, tE, tW, tE, tW, tE, tW, tW, tE, tE, tE, tW, tE, tW, tW, tE, tE, tE, tE, tE, tW, tW, tW, tW, tW, tW, tW, tW], [(⟨1,5⟩, ⟨Team.Elf,17,10⟩), (⟨2,5⟩, ⟨Team.Gnome,40,3⟩)]⟩, 1⟩, ⟨7, 4398046511103, 4363416223614, 2181708111807⟩, ⟨2142740385536, 524288, 4096⟩⟩

def s10r55 : FastGame := ⟨⟨55, [⟨1,5⟩, ⟨2,5⟩], ⟨⟨6,7⟩, [tW, tW, tW, tW, tW, tW, tW, tW, tE, tE, tE, tE, tF, tW, tW, tE, tE, tE, tE, tG, tW, tW, tE, tW, tE, tW, tE, tW, tW, tE, tE, tE, tW, tE, tW, tW, tE, tE, tE, tE, tE, tW, tW, tW, tW, tW, tW, tW, tW], [(⟨1,5⟩, ⟨Team.Elf,14,10⟩), (⟨2,5⟩, ⟨Team.Gnome,30,3⟩)]⟩, 1⟩, ⟨7, 4398046511103, 4363416223614, 2181708111807⟩, ⟨2142740385536, 524288, 4096⟩⟩

def s10r56 : FastGame := ⟨⟨56, [⟨1,5⟩, ⟨2,5⟩], ⟨⟨6,7⟩, [tW, tW, tW, tW, tW, tW, tW, tW, tE, tE, tE, tE, tF, tW, tW, tE, tE, tE, tE, tG, tW, tW, tE, tW, tE, tW, tE, tW, tW, tE, tE, tE, tW, tE, tW, tW, tE, tE, tE, tE, tE, tW, tW, tW, tW, tW, tW, tW, tW], [(⟨1,5⟩, ⟨Team.Elf,11,10⟩), (⟨2,5⟩, ⟨Team.Gnome,20,3⟩)]⟩, 1⟩, ⟨7, 4398046511103, 4363416223614, 2181708111807⟩, ⟨2142740385536, 524288, 4096⟩⟩

def s10r57 : FastGame := ⟨⟨57, [⟨1,5⟩, ⟨2,5⟩], ⟨⟨6,7⟩, [tW, tW, tW, tW, tW, tW, tW, tW, tE, tE, tE, tE, tF, tW, tW, tE, tE, tE, tE, tG, tW, tW, tE, tW, tE, tW, tE, tW, tW, tE, tE, tE, tW, tE, tW, tW, tE, tE, tE, tE, tE, tW, tW, tW, tW, tW, tW, tW, tW], [(⟨1,5⟩, ⟨Team.Elf,8,10⟩), (⟨2,5⟩, ⟨Team.Gnome,10,3⟩)]⟩, 1⟩, ⟨7, 4398046511103, 4363416223614, 2181708111807⟩, ⟨2142740385536, 524288, 4096⟩⟩

def s10r58 : FastGame := ⟨⟨58, [⟨1,5⟩], ⟨⟨6,7⟩, [tW, tW, tW, tW, tW, tW, tW, tW, tE, tE, tE, tE, tF, tW, tW, tE, tE, tE, tE, tE, tW, tW, tE, tW, tE, tW, tE, tW, tW, tE, tE, tE, tW, tE, tW, tW, tE, tE, tE, tE, tE, tW, tW, tW, tW, tW, tW, tW, tW], [(⟨1,5⟩, ⟨Team.Elf,8,10⟩)]⟩, 1⟩, ⟨7, 4398046511103, 4363416223614, 2181708111807⟩, ⟨2142740909824, 0, 4096⟩⟩

def s10r59 : FastGame := ⟨⟨58, [], ⟨⟨6,7⟩, [tW, tW, tW, tW, tW, tW, tW, tW, tE, tE, tE, tE, tF, tW, tW, tE, tE, tE, tE, tE, tW, tW, tE, tW, tE, tW, tE, tW, tW, tE, tE, tE, tW, tE, tW, tW, tE, tE, tE, tE, tE, tW, tW, tW, tW, tW, tW, tW, tW], [(⟨1,5⟩, ⟨Team.Elf,8,10⟩)]⟩, 1⟩, ⟨7, 4398046511103, 4363416223614, 2181708111807⟩, ⟨2142740909824, 0, 4096⟩⟩

-- power 11: 55 states
def s11r0 : FastGame := ⟨⟨0, [⟨1,2⟩, ⟨2,4⟩, ⟨2,5⟩, ⟨3,5⟩, ⟨4,3⟩, ⟨4,5⟩], ⟨⟨6,7⟩, [tW, tW, tW, tW, tW, tW, tW, tW, tE, tG, tE, tE, tE, tW, tW, tE, tE, tE, tF, tG, tW, tW, tE, tW, tE, tW, tG, tW, tW, tE, tE, tG, tW, tF, tW, tW, tE, tE, tE, tE, tE, tW, tW, tW, tW, tW, tW, tW, tW], [(⟨4,5⟩, ⟨Team.Elf,200,11⟩), (⟨4,3⟩, ⟨Team.Gnome,200,3⟩), (⟨3,5⟩, ⟨Team.Gnome,200,3⟩), (⟨2,5⟩, ⟨Team.Gnome,200,3⟩), (⟨2,4⟩, ⟨Team.Elf,200,11⟩), (⟨1,2⟩, ⟨Team.Gnome,200,3⟩)]⟩, 0⟩, ⟨7, 4398046511103, 4363416223614, 2181708111807⟩, ⟨2131935599872, 2215117312, 8590196736⟩⟩

def s11r1 : FastGame := ⟨⟨1, [⟨1,3⟩, ⟨2,4⟩, ⟨2,5⟩, ⟨3,3⟩, ⟨3,5⟩, ⟨4,5⟩], ⟨⟨6,7⟩, [tW, tW, tW, tW, tW, tW, tW, tW, tE, tE, tG, tE, tE, tW, tW, tE, tE, tE, tF, tG, tW, tW, tE, tW, tG, tW, tG, tW, tW, tE, tE, tE, tW, tF, tW, tW, tE, tE, tE, tE, tE, tW, tW, tW, tW, tW, tW, tW, tW], [(⟨3,5⟩, ⟨Team.Gnome,189,3⟩), (⟨3,3⟩, ⟨Team.Gnome,200,3⟩), (⟨4,5⟩, ⟨Team.Elf,197,11⟩), (⟨2,4⟩, ⟨Team.Elf,197,11⟩), (⟨2,5⟩, ⟨Team.Gnome,189,3⟩), (⟨1,3⟩, ⟨Team.Gnome,200,3⟩)]⟩, 0⟩, ⟨7, 4398046511103, 4363416223614, 2181708111807⟩, ⟨2134066305792, 84411392, 8590196736⟩⟩

def s11r2 : FastGame := ⟨⟨2, [⟨1,4⟩, ⟨2,3⟩, ⟨2,4⟩, ⟨2,5⟩, ⟨3,5⟩, ⟨4,5⟩], ⟨⟨6,7⟩, [tW, tW, tW, tW, tW, tW, tW, tW, tE, tE, tE, tG, tE, tW, tW, tE, tE, tG, tF, tG, tW, tW, tE, tW, tE, tW, tG, tW, tW, tE, tE, tE, tW, tF, tW, tW, tE, tE, tE, tE, tE, tW, tW, tW, tW, tW, tW, tW, tW], [(⟨3,5⟩, ⟨Team.Gnome,178,3⟩), (⟨4,5⟩, ⟨Team.Elf,194,11⟩), (⟨2,4⟩, ⟨Team.Elf,188,11⟩), (⟨2,3⟩, ⟨Team.Gnome,200,3⟩), (⟨2,5⟩, ⟨Team.Gnome,178,3⟩), (⟨1,4⟩, ⟨Team.Gnome,200,3⟩)]⟩, 0⟩, ⟨7, 4398046511103, 4363416223614, 2181708111807⟩, ⟨2134082950912, 67766272, 8590196736⟩⟩

def s11r3 : FastGame := ⟨⟨3, [⟨1,4⟩, ⟨2,3⟩, ⟨2,4⟩, ⟨2,5⟩, ⟨3,5⟩, ⟨4,5⟩], ⟨⟨6,7⟩, [tW, tW, tW, tW, tW, tW, tW, tW, tE, tE, tE, tG, tE, tW, tW, tE, tE, tG, tF, tG, tW, tW, tE, tW, tE, tW, tG, tW, tW, tE, tE, tE, tW, tF, tW, tW, tE, tE, tE, tE, tE, tW, tW, tW, tW, tW, tW, tW, tW], [(⟨3,5⟩, ⟨Team.Gnome,167,3⟩), (⟨4,5⟩, ⟨Team.Elf,191,11⟩), (⟨2,4⟩, ⟨Team.Elf,179,11⟩), (⟨2,5⟩, ⟨Team.Gnome,167,3⟩), (⟨2,3⟩, ⟨Team.Gnome,200,3⟩), (⟨1,4⟩, ⟨Team.Gnome,200,3⟩)]⟩, 0⟩, ⟨7, 4398046511103, 4363416223614, 2181708111807⟩, ⟨2134082950912, 67766272, 8590196736⟩⟩

def s11r4 : FastGame := ⟨⟨4, [⟨1,4⟩, ⟨2,3⟩, ⟨2,4⟩, ⟨2,5⟩, ⟨3,5⟩, ⟨4,5⟩], ⟨⟨6,7⟩, [tW, tW, tW, tW, tW, tW, tW, tW, tE, tE, tE, tG, tE, tW, tW, tE, tE, tG, tF, tG, tW, tW, tE, tW, tE, tW, tG, tW, tW, tE, tE, tE, tW, tF, tW, tW, tE, tE, tE, tE, tE, tW, tW, tW, tW, tW, tW, tW, tW], [(⟨3,5⟩, ⟨Team.Gnome,156,3⟩), (⟨4,5⟩, ⟨Team.Elf,188,11⟩), (⟨2,4⟩, ⟨Team.Elf,170,11⟩), (⟨2,5⟩, ⟨Team.Gnome,156,3⟩), (⟨2,3⟩, ⟨Team.Gnome,200,3⟩), (⟨1,4⟩, ⟨Team.Gnome,200,3⟩)]⟩, 0⟩, ⟨7, 4398046511103, 4363416223614, 2181708111807⟩, ⟨2134082950912, 67766272, 8590196736⟩⟩

def s11r5 : FastGame := ⟨⟨5, [⟨1,4⟩, ⟨2,3⟩, ⟨2,4⟩, ⟨2,5⟩, ⟨3,5⟩, ⟨4,5⟩], ⟨⟨6,7⟩, [tW, tW, tW, tW, tW, tW, tW, tW, tE, tE, tE, tG, tE, tW, tW, tE, tE, tG, tF, tG, tW, tW, tE, tW, tE, tW, tG, tW, tW, tE, tE, tE, tW, tF, tW, tW, tE, tE, tE, tE, tE, tW, tW, tW, tW, tW, tW, tW, tW], [(⟨3,5⟩, ⟨Team.Gnome,145,3⟩), (⟨4,5⟩, ⟨Team.Elf,185,11⟩), (⟨2,4⟩, ⟨Team.Elf,161,11⟩), (⟨2,5⟩, ⟨Team.Gnome,145,3⟩), (⟨2,3⟩, ⟨Team.Gnome,200,3⟩), (⟨1,4⟩, ⟨Team.Gnome,200,3⟩)]⟩, 0⟩, ⟨7, 4398046511103, 4363416223614, 2181708111807⟩, ⟨2134082950912, 67766272, 8590196736⟩⟩

def s11r6 : FastGame := ⟨⟨6, [⟨1,4⟩, ⟨2,3⟩, ⟨2,4⟩, ⟨2,5⟩, ⟨3,5⟩, ⟨4,5⟩], ⟨⟨6,7⟩, [tW, tW, tW, tW, tW, tW, tW, tW, tE, tE, tE, tG, tE, tW, tW, tE, tE, tG, tF, tG, tW, tW, tE, tW, tE, tW, tG, tW, tW, tE, tE, tE, tW, tF, tW, tW, tE, tE, tE, tE, tE, tW, tW, tW, tW, tW, tW, tW, tW], [(⟨3,5⟩, ⟨Team.Gnome,134,3⟩), (⟨4,5⟩, ⟨Team.Elf,182,11⟩), (⟨2,4⟩, ⟨Team.Elf,152,11⟩), (⟨2,5⟩, ⟨Team.Gnome,134,3⟩), (⟨2,3⟩, ⟨Team.Gnome,200,3⟩), (⟨1,4⟩, ⟨Team.Gnome,200,3⟩)]⟩, 0⟩, ⟨7, 4398046511103, 4363416223614, 2181708111807⟩, ⟨2134082950912, 67766272, 8590196736⟩⟩

def s11r7 : FastGame := ⟨⟨7, [⟨1,4⟩, ⟨2,3⟩, ⟨2,4⟩, ⟨2,5⟩, ⟨3,5⟩, ⟨4,5⟩], ⟨⟨6,7⟩, [tW, tW, tW, tW, tW, tW, tW, tW, tE, tE, tE, tG, tE, tW, tW, tE, tE, tG, tF, tG, tW, tW, tE, tW, tE, tW, tG, tW, tW, tE, tE, tE, tW, tF, tW, tW, tE, tE, tE, tE, tE, tW, tW, tW, tW, tW, tW, tW, tW], [(⟨3,5⟩, ⟨Team.Gnome,123,3⟩), (⟨4,5⟩, ⟨Team.Elf,179,11⟩), (⟨2,4⟩, ⟨Team.Elf,143,11⟩), (⟨2,5⟩, ⟨Team.Gnome,123,3⟩), (⟨2,3⟩, ⟨Team.Gnome,200,3⟩), (⟨1,4⟩, ⟨Team.Gnome,200,3⟩)]⟩, 0⟩, ⟨7, 4398046511103, 4363416223614, 2181708111807⟩, ⟨2134082950912, 67766272, 8590196736⟩⟩

def s11r8 : FastGame := ⟨⟨8, [⟨1,4⟩, ⟨2,3⟩, ⟨2,4⟩, ⟨2,5⟩, ⟨3,5⟩, ⟨4,5⟩], ⟨⟨6,7⟩, [tW, tW, tW, tW, tW, tW, tW, tW, tE, tE, tE, tG, tE, tW, tW, tE, tE, tG, tF, tG, tW, tW, tE, tW, tE, tW, tG, tW, tW, tE, tE, tE, tW, tF, tW, tW, tE, tE, tE, tE, tE, tW, tW, tW, tW, tW, tW, tW, tW], [(⟨3,5⟩, ⟨Team.Gnome,112,3⟩), (⟨4,5⟩, ⟨Team.Elf,176,11⟩), (⟨2,4⟩, ⟨Team.Elf,134,11⟩), (⟨2,5⟩, ⟨Team.Gnome,112,3⟩), (⟨2,3⟩, ⟨Team.Gnome,200,3⟩), (⟨1,4⟩, ⟨Team.Gnome,200,3⟩)]⟩, 0⟩, ⟨7, 4398046511103, 4363416223614, 2181708111807⟩, ⟨2134082950912, 67766272, 8590196736⟩⟩

def s11r9 : FastGame := ⟨⟨9, [⟨1,4⟩, ⟨2,3⟩, ⟨2,4⟩, ⟨2,5⟩, ⟨3,5⟩, ⟨4,5⟩], ⟨⟨6,7⟩, [tW, tW, tW, tW, tW, tW, tW, tW, tE, tE, tE, tG, tE, tW, tW, tE, tE, tG, tF, tG, tW, tW, tE, tW, tE, tW, tG, tW, tW, tE, tE, tE, tW, tF, tW, tW, tE, tE, tE, tE, tE, tW, tW, tW, tW, tW, tW, tW, tW], [(⟨3,5⟩, ⟨Team.Gnome,101,3⟩), (⟨4,5⟩, ⟨Team.Elf,173,11⟩), (⟨2,4⟩, ⟨Team.Elf,125,11⟩), (⟨2,5⟩, ⟨Team.Gnome,101,3⟩), (⟨2,3⟩, ⟨Team.Gnome,200,3⟩), (⟨1,4⟩, ⟨Team.Gnome,200,3⟩)]⟩, 0⟩, ⟨7, 4398046511103, 4363416223614, 2181708111807⟩, ⟨2134082950912, 67766272, 8590196736⟩⟩

def s11r10 : FastGame := ⟨⟨10, [⟨1,4⟩, ⟨2,3⟩, ⟨2,4⟩, ⟨2,5⟩, ⟨3,5⟩, ⟨4,5⟩], ⟨⟨6,7⟩, [tW, tW, tW, tW, tW, tW, tW, tW, tE, tE, tE, tG, tE, tW, tW, tE, tE, tG, tF, tG, tW, tW, tE, tW, tE, tW, tG, tW, tW, tE, tE, tE, tW, tF, tW, tW, tE, tE, tE, tE, tE, tW, tW, tW, tW, tW, tW, tW, tW], [(⟨3,5⟩, ⟨Team.Gnome,90,3⟩), (⟨4,5⟩, ⟨Team.Elf,170,11⟩), (⟨2,4⟩, ⟨Team.Elf,116,11⟩), (⟨2,5⟩, ⟨Team.Gnome,90,3⟩), (⟨2,3⟩, ⟨Team.Gnome,200,3⟩), (⟨1,4⟩, ⟨Team.Gnome,200,3⟩)]⟩, 0⟩, ⟨7, 4398046511103, 4363416223614, 2181708111807⟩, ⟨2134082950912, 67766272, 8590196736⟩⟩

def s11r11 : FastGame := ⟨⟨11, [⟨1,4⟩, ⟨2,3⟩, ⟨2,4⟩, ⟨2,5⟩, ⟨3,5⟩, ⟨4,5⟩], ⟨⟨6,7⟩, [tW, tW, tW, tW, tW, tW, tW, tW, tE, tE, tE, tG, tE, tW, tW, tE, tE, tG, tF, tG, tW, tW, tE, tW, tE, tW, tG, tW, tW, tE, tE, tE, tW, tF, tW, tW, tE, tE, tE, tE, tE, tW, tW, tW, tW, tW, tW, tW, tW], [(⟨3,5⟩, ⟨Team.Gnome,79,3⟩), (⟨4,5⟩, ⟨Team.Elf,167,11⟩), (⟨2,4⟩, ⟨Team.Elf,107,11⟩), (⟨2,5⟩, ⟨Team.Gnome,79,3⟩), (⟨2,3⟩, ⟨Team.Gnome,200,3⟩), (⟨1,4⟩, ⟨Team.Gnome,200,3⟩)]⟩, 0⟩, ⟨7, 4398046511103, 4363416223614, 2181708111807⟩, ⟨2134082950912, 67766272, 8590196736⟩⟩

def s11r12 : FastGame := ⟨⟨12, [⟨1,4⟩, ⟨2,3⟩, ⟨2,4⟩, ⟨2,5⟩, ⟨3,5⟩, ⟨4,5⟩], ⟨⟨6,7⟩, [tW, tW, tW, tW, tW, tW, tW, tW, tE, tE, tE, tG, tE, tW, tW, tE, tE, tG, tF, tG, tW, tW, tE, tW, tE, tW, tG, tW, tW, tE, tE, tE, tW, tF, tW, tW, tE, tE, tE, tE, tE, tW, tW, tW, tW, tW, tW, tW, tW], [(⟨3,5⟩, ⟨Team.Gnome,68,3⟩), (⟨4,5⟩, ⟨Team.Elf,164,11⟩), (⟨2,4⟩, ⟨Team.Elf,98,11⟩), (⟨2,5⟩, ⟨Team.Gnome,68,3⟩), (⟨2,3⟩, ⟨Team.Gnome,200,3⟩), (⟨1,4⟩, ⟨Team.Gnome,200,3⟩)]⟩, 0⟩, ⟨7, 4398046511103, 4363416223614, 2181708111807⟩, ⟨2134082950912, 67766272, 8590196736⟩⟩

def s11r13 : FastGame := ⟨⟨13, [⟨1,4⟩, ⟨2,3⟩, ⟨2,4⟩, ⟨2,5⟩, ⟨3,5⟩, ⟨4,5⟩], ⟨⟨6,7⟩, [tW, tW, tW, tW, tW, tW, tW, tW, tE, tE, tE, tG, tE, tW, tW, tE, tE, tG, tF, tG, tW, tW, tE, tW, tE, tW, tG, tW, tW, tE, tE, tE, tW, tF, tW, tW, tE, tE, tE, tE, tE, tW, tW, tW, tW, tW, tW, tW, tW], [(⟨3,5⟩, ⟨Team.Gnome,57,3⟩), (⟨4,5⟩, ⟨Team.Elf,161,11⟩), (⟨2,4⟩, ⟨Team.Elf,89,11⟩), (⟨2,5⟩, ⟨Team.Gnome,57,3⟩), (⟨2,3⟩, ⟨Team.Gnome,200,3⟩), (⟨1,4⟩, ⟨Team.Gnome,200,3⟩)]⟩, 0⟩, ⟨7, 4398046511103, 4363416223614, 2181708111807⟩, ⟨2134082950912, 67766272, 8590196736⟩⟩

def s11r14 : FastGame := ⟨⟨14, [⟨1,4⟩, ⟨2,3⟩, ⟨2,4⟩, ⟨2,5⟩, ⟨3,5⟩, ⟨4,5⟩], ⟨⟨6,7⟩, [tW, tW, tW, tW, tW, tW, tW, tW, tE, tE, tE, tG, tE, tW, tW, tE, tE, tG, tF, tG, tW, tW, tE, tW, tE, tW, tG, tW, tW, tE, tE, tE, tW, tF, tW, tW, tE, tE, tE, tE, tE, tW, tW, tW, tW, tW, tW, tW, tW], [(⟨3,5⟩, ⟨Team.Gnome,46,3⟩), (⟨4,5⟩, ⟨Team.Elf,158,11⟩), (⟨2,4⟩, ⟨Team.Elf,80,11⟩), (⟨2,5⟩, ⟨Team.Gnome,46,3⟩), (⟨2,3⟩, ⟨Team.Gnome,200,3⟩), (⟨1,4⟩, ⟨Team.Gnome,200,3⟩)]⟩, 0⟩, ⟨7, 4398046511103, 4363416223614, 2181708111807⟩, ⟨2134082950912, 67766272, 8590196736⟩⟩

def s11r15 : FastGame := ⟨⟨15, [⟨1,4⟩, ⟨2,3⟩, ⟨2,4⟩, ⟨2,5⟩, ⟨3,5⟩, ⟨4,5⟩], ⟨⟨6,7⟩, [tW, tW, tW, tW, tW, tW, tW, tW, tE, tE, tE, tG, tE, tW, tW, tE, tE, tG, tF, tG, tW, tW, tE, tW, tE, tW, tG, tW, tW, tE, tE, tE, tW, tF, tW, tW, tE, tE, tE, tE, tE, tW, tW, tW, tW, tW, tW, tW, tW], [(⟨3,5⟩, ⟨Team.Gnome,35,3⟩), (⟨4,5⟩, ⟨Team.Elf,155,11⟩), (⟨2,4⟩, ⟨Team.Elf,71,11⟩), (⟨2,5⟩, ⟨Team.Gnome,35,3⟩), (⟨2,3⟩, ⟨Team.Gnome,200,3⟩), (⟨1,4⟩, ⟨Team.Gnome,200,3⟩)]⟩, 0⟩, ⟨7, 4398046511103, 4363416223614, 2181708111807⟩, ⟨2134082950912, 67766272, 8590196736⟩⟩

def s11r16 : FastGame := ⟨⟨16, [⟨1,4⟩, ⟨2,3⟩, ⟨2,4⟩, ⟨2,5⟩, ⟨3,5⟩, ⟨4,5⟩], ⟨⟨6,7⟩, [tW, tW, tW, tW, tW, tW, tW, tW, tE, tE, tE, tG, tE, tW, tW, tE, tE, tG, tF, tG, tW, tW, tE, tW, tE, tW, tG, tW, tW, tE, tE, tE, tW, tF, tW, tW, tE, tE, tE, tE, tE, tW, tW, tW, tW, tW, tW, tW, tW], [(⟨3,5⟩, ⟨Team.Gnome,24,3⟩), (⟨4,5⟩, ⟨Team.Elf,152,11⟩), (⟨2,4⟩, ⟨Team.Elf,62,11⟩), (⟨2,5⟩, ⟨Team.Gnome,24,3⟩), (⟨2,3⟩, ⟨Team.Gnome,200,3⟩), (⟨1,4⟩, ⟨Team.Gnome,200,3⟩)]⟩, 0⟩, ⟨7, 4398046511103, 4363416223614, 2181708111807⟩, ⟨2134082950912, 67766272, 8590196736⟩⟩

def s11r17 : FastGame := ⟨⟨17, [⟨1,4⟩, ⟨2,3⟩, ⟨2,4⟩, ⟨2,5⟩, ⟨3,5⟩, ⟨4,5⟩], ⟨⟨6,7⟩, [tW, tW, tW, tW, tW, tW, tW, tW, tE, tE, tE, tG, tE, tW, tW, tE, tE, tG, tF, tG, tW, tW, tE, tW, tE, tW, tG, tW, tW, tE, tE, tE, tW, tF, tW, tW, tE, tE, tE, tE, tE, tW, tW, tW, tW, tW, tW, tW, tW], [(⟨3,5⟩, ⟨Team.Gnome,13,3⟩), (⟨4,5⟩, ⟨Team.Elf,149,11⟩), (⟨2,4⟩, ⟨Team.Elf,53,11⟩), (⟨2,5⟩, ⟨Team.Gnome,13,3⟩), (⟨2,3⟩, ⟨Team.Gnome,200,3⟩), (⟨1,4⟩, ⟨Team.Gnome,200,3⟩)]⟩, 0⟩, ⟨7, 4398046511103, 4363416223614, 2181708111807⟩, ⟨2134082950912, 67766272, 8590196736⟩⟩

def s11r18 : FastGame := ⟨⟨18, [⟨1,4⟩, ⟨2,3⟩, ⟨2,4⟩, ⟨2,5⟩, ⟨3,5⟩, ⟨4,5⟩], ⟨⟨6,7⟩, [tW, tW, tW, tW, tW, tW, tW, tW, tE, tE, tE, tG, tE, tW, tW, tE, tE, tG, tF, tG, tW, tW, tE, tW, tE, tW, tG, tW, tW, tE, tE, tE, tW, tF, tW, tW, tE, tE, tE, tE, tE, tW, tW, tW, tW, tW, tW, tW, tW], [(⟨3,5⟩, ⟨Team.Gnome,2,3⟩), (⟨4,5⟩, ⟨Team.Elf,146,11⟩), (⟨2,4⟩, ⟨Team.Elf,44,11⟩), (⟨2,5⟩, ⟨Team.Gnome,2,3⟩), (⟨2,3⟩, ⟨Team.Gnome,200,3⟩), (⟨1,4⟩, ⟨Team.Gnome,200,3⟩)]⟩, 0⟩, ⟨7, 4398046511103, 4363416223614, 2181708111807⟩, ⟨2134082950912, 67766272, 8590196736⟩⟩

def s11r19 : FastGame := ⟨⟨19, [⟨1,4⟩, ⟨2,3⟩, ⟨2,4⟩, ⟨4,5⟩], ⟨⟨6,7⟩, [tW, tW, tW, tW, tW, tW, tW, tW, tE, tE, tE, tG, tE, tW, tW, tE, tE, tG, tF, tE, tW, tW, tE, tW, tE, tW, tE, tW, tW, tE, tE, tE, tW, tF, tW, tW, tE, tE, tE, tE, tE, tW, tW, tW, tW, tW, tW, tW, tW], [(⟨4,5⟩, ⟨Team.Elf,143,11⟩), (⟨2,4⟩, ⟨Team.Elf,38,11⟩), (⟨2,3⟩, ⟨Team.Gnome,200,3⟩), (⟨1,4⟩, ⟨Team.Gnome,200,3⟩)]⟩, 0⟩, ⟨7, 4398046511103, 4363416223614, 2181708111807⟩, ⟨2134150584064, 133120, 8590196736⟩⟩

def s11r20 : FastGame := ⟨⟨20, [⟨1,4⟩, ⟨2,3⟩, ⟨2,4⟩, ⟨3,5⟩], ⟨⟨6,7⟩, [tW, tW, tW, tW, tW, tW, tW, tW, tE, tE, tE, tG, tE, tW, tW, tE, tE, tG, tF, tE, tW, tW, tE, tW, tE, tW, tF, tW, tW, tE, tE, tE, tW, tE, tW, tW, tE, tE, tE, tE, tE, tW, tW, tW, tW, tW, tW, tW, tW], [(⟨3,5⟩, ⟨Team.Elf,143,11⟩), (⟨1,4⟩, ⟨Team.Gnome,189,3⟩), (⟨2,4⟩, ⟨Team.Elf,32,11⟩), (⟨2,3⟩, ⟨Team.Gnome,200,3⟩)]⟩, 0⟩, ⟨7, 4398046511103, 4363416223614, 2181708111807⟩, ⟨2142673409792, 133120, 67371008⟩⟩

def s11r21 : FastGame := ⟨⟨21, [⟨1,4⟩, ⟨2,3⟩, ⟨2,4⟩, ⟨2,5⟩], ⟨⟨6,7⟩, [tW, tW, tW, tW, tW, tW, tW, tW, tE, tE, tE, tG, tE, tW, tW, tE, tE, tG, tF, tF, tW, tW, tE, tW, tE, tW, tE, tW, tW, tE, tE, tE, tW, tE, tW, tW, tE, tE, tE, tE, tE, tW, tW, tW, tW, tW, tW, tW, tW], [(⟨2,5⟩, ⟨Team.Elf,143,11⟩), (⟨1,4⟩, ⟨Team.Gnome,178,3⟩), (⟨2,4⟩, ⟨Team.Elf,26,11⟩), (⟨2,3⟩, ⟨Team.Gnome,200,3⟩)]⟩, 0⟩, ⟨7, 4398046511103, 4363416223614, 2181708111807⟩, ⟨2142739994368, 133120, 786432⟩⟩

def s11r22 : FastGame := ⟨⟨22, [⟨1,4⟩, ⟨1,5⟩, ⟨2,3⟩, ⟨2,4⟩], ⟨⟨6,7⟩, [tW, tW, tW, tW, tW, tW, tW, tW, tE, tE, tE, tG, tF, tW, tW, tE, tE, tG, tF, tE, tW, tW, tE, tW, tE, tW, tE, tW, tW, tE, tE, tE, tW, tE, tW, tW, tE, tE, tE, tE, tE, tW, tW, tW, tW, tW, tW, tW, tW], [(⟨1,4⟩, ⟨Team.Gnome,156,3⟩), (⟨1,5⟩, ⟨Team.Elf,143,11⟩), (⟨2,4⟩, ⟨Team.Elf,20,11⟩), (⟨2,3⟩, ⟨Team.Gnome,200,3⟩)]⟩, 0⟩, ⟨7, 4398046511103, 4363416223614, 2181708111807⟩, ⟨2142740514560, 133120, 266240⟩⟩

def s11r23 : FastGame := ⟨⟨23, [⟨1,4⟩, ⟨1,5⟩, ⟨2,3⟩, ⟨2,4⟩], ⟨⟨6,7⟩, [tW, tW, tW, tW, tW, tW, tW, tW, tE, tE, tE, tG, tF, tW, tW, tE, tE, tG, tF, tE, tW, tW, tE, tW, tE, tW, tE, tW, tW, tE, tE, tE, tW, tE, tW, tW, tE, tE, tE, tE, tE, tW, tW, tW, tW, tW, tW, tW, tW], [(⟨1,4⟩, ⟨Team.Gnome,134,3⟩), (⟨2,4⟩, ⟨Team.Elf,14,11⟩), (⟨1,5⟩, ⟨Team.Elf,143,11⟩), (⟨2,3⟩, ⟨Team.Gnome,200,3⟩)]⟩, 0⟩, ⟨7, 4398046511103, 4363416223614, 2181708111807⟩, ⟨2142740514560, 133120, 266240⟩⟩

def s11r24 : FastGame := ⟨⟨24, [⟨1,4⟩, ⟨1,5⟩, ⟨2,3⟩, ⟨2,4⟩], ⟨⟨6,7⟩, [tW, tW, tW, tW, tW, tW, tW, tW, tE, tE, tE, tG, tF, tW, tW, tE, tE, tG, tF, tE, tW, tW, tE, tW, tE, tW, tE, tW, tW, tE, tE, tE, tW, tE, tW, tW, tE, tE, tE, tE, tE, tW, tW, tW, tW, tW, tW, tW, tW], [(⟨1,4⟩, ⟨Team.Gnome,112,3⟩), (⟨2,4⟩, ⟨Team.Elf,8,11⟩), (⟨1,5⟩, ⟨Team.Elf,143,11⟩), (⟨2,3⟩, ⟨Team.Gnome,200,3⟩)]⟩, 0⟩, ⟨7, 4398046511103, 4363416223614, 2181708111807⟩, ⟨2142740514560, 133120, 266240⟩⟩

def s11r25 : FastGame := ⟨⟨25, [⟨1,4⟩, ⟨1,5⟩, ⟨2,3⟩, ⟨2,4⟩], ⟨⟨6,7⟩, [tW, tW, tW, tW, tW, tW, tW, tW, tE, tE, tE, tG, tF, tW, tW, tE, tE, tG, tF, tE, tW, tW, tE, tW, tE, tW, tE, tW, tW, tE, tE, tE, tW, tE, tW, tW, tE, tE, tE, tE, tE, tW, tW, tW, tW, tW, tW, tW, tW], [(⟨1,4⟩, ⟨Team.Gnome,90,3⟩), (⟨2,4⟩, ⟨Team.Elf,2,11⟩), (⟨1,5⟩, ⟨Team.Elf,143,11⟩), (⟨2,3⟩, ⟨Team.Gnome,200,3⟩)]⟩, 0⟩, ⟨7, 4398046511103, 4363416223614, 2181708111807⟩, ⟨2142740514560, 133120, 266240⟩⟩

def s11r26 : FastGame := ⟨⟨26, [⟨1,4⟩, ⟨1,5⟩, ⟨2,4⟩], ⟨⟨6,7⟩, [tW, tW, tW, tW, tW, tW, tW, tW, tE, tE, tE, tG, tF, tW, tW, tE, tE, tE, tG, tE, tW, tW, tE, tW, tE, tW, tE, tW, tW, tE, tE, tE, tW, tE, tW, tW, tE, tE, tE, tE, tE, tW, tW, tW, tW, tW, tW, tW, tW], [(⟨2,4⟩, ⟨Team.Gnome,200,3⟩), (⟨1,4⟩, ⟨Team.Gnome,79,3⟩), (⟨1,5⟩, ⟨Team.Elf,143,11⟩)]⟩, 1⟩, ⟨7, 4398046511103, 4363416223614, 2181708111807⟩, ⟨2142740645632, 264192, 4096⟩⟩

def s11r27 : FastGame := ⟨⟨27, [⟨1,4⟩, ⟨1,5⟩, ⟨2,5⟩], ⟨⟨6,7⟩, [tW, tW, tW, tW, tW, tW, tW, tW, tE, tE, tE, tG, tF, tW, tW, tE, tE, tE, tE, tG, tW, tW, tE, tW, tE, tW, tE, tW, tW, tE, tE, tE, tW, tE, tW, tW, tE, tE, tE, tE, tE, tW, tW, tW, tW, tW, tW, tW, tW], [(⟨1,5⟩, ⟨Team.Elf,137,11⟩), (⟨2,5⟩, ⟨Team.Gnome,200,3⟩), (⟨1,4⟩, ⟨Team.Gnome,68,3⟩)]⟩, 1⟩, ⟨7, 4398046511103, 4363416223614, 2181708111807⟩, ⟨2142740383488, 526336, 4096⟩⟩

def s11r28 : FastGame := ⟨⟨28, [⟨1,4⟩, ⟨1,5⟩, ⟨2,5⟩], ⟨⟨6,7⟩, [tW, tW, tW, tW, tW, tW, tW, tW, tE, tE, tE, tG, tF, tW, tW, tE, tE, tE, tE, tG, tW, tW, tE, tW, tE, tW, tE, tW, tW, tE, tE, tE, tW, tE, tW, tW, tE, tE, tE, tE, tE, tW, tW, tW, tW, tW, tW, tW, tW], [(⟨1,5⟩, ⟨Team.Elf,131,11⟩), (⟨1,4⟩, ⟨Team.Gnome,57,3⟩), (⟨2,5⟩, ⟨Team.Gnome,200,3⟩)]⟩, 1⟩, ⟨7, 4398046511103, 4363416223614, 2181708111807⟩, ⟨2142740383488, 526336, 4096⟩⟩

def s11r29 : FastGame := ⟨⟨29, [⟨1,4⟩, ⟨1,5⟩, ⟨2,5⟩], ⟨⟨6,7⟩, [tW, tW, tW, tW, tW, tW, tW, tW, tE, tE, tE, tG, tF, tW, tW, tE, tE, tE, tE, tG, tW, tW, tE, tW, tE, tW, tE, tW, tW, tE, tE, tE, tW, tE, tW, tW, tE, tE, tE, tE, tE, tW, tW, tW, tW, tW, tW, tW, tW], [(⟨1,5⟩, ⟨Team.Elf,125,11⟩), (⟨1,4⟩, ⟨Team.Gnome,46,3⟩), (⟨2,5⟩, ⟨Team.Gnome,200,3⟩)]⟩, 1⟩, ⟨7, 4398046511103, 4363416223614, 2181708111807⟩, ⟨2142740383488, 526336, 4096⟩⟩

def s11r30 : FastGame := ⟨⟨30, [⟨1,4⟩, ⟨1,5⟩, ⟨2,5⟩], ⟨⟨6,7⟩, [tW, tW, tW, tW, tW, tW, tW, tW, tE, tE, tE, tG, tF, tW, tW, tE, tE, tE, tE, tG, tW, tW, tE, tW, tE, tW, tE, tW, tW, tE, tE, tE, tW, tE, tW, tW, tE, tE, tE, tE, tE, tW, tW, tW, tW, tW, tW, tW, tW], [(⟨1,5⟩, ⟨Team.Elf,119,11⟩), (⟨1,4⟩, ⟨Team.Gnome,35,3⟩), (⟨2,5⟩, ⟨Team.Gnome,200,3⟩)]⟩, 1⟩, ⟨7, 4398046511103, 4363416223614, 2181708111807⟩, ⟨2142740383488, 526336, 4096⟩⟩

def s11r31 : FastGame := ⟨⟨31, [⟨1,4⟩, ⟨1,5⟩, ⟨2,5⟩], ⟨⟨6,7⟩, [tW, tW, tW, tW, tW, tW, tW, tW, tE, tE, tE, tG, tF, tW, tW, tE, tE, tE, tE, tG, tW, tW, tE, tW, tE, tW, tE, tW, tW, tE, tE, tE, tW, tE, tW, tW, tE, tE, tE, tE, tE, tW, tW, tW, tW, tW, tW, tW, tW], [(⟨1,5⟩, ⟨Team.Elf,113,11⟩), (⟨1,4⟩, ⟨Team.Gnome,24,3⟩), (⟨2,5⟩, ⟨Team.Gnome,200,3⟩)]⟩, 1⟩, ⟨7, 4398046511103, 4363416223614, 2181708111807⟩, ⟨2142740383488, 526336, 4096⟩⟩

def s11r32 : FastGame := ⟨⟨32, [⟨1,4⟩, ⟨1,5⟩, ⟨2,5⟩], ⟨⟨6,7⟩, [tW, tW, tW, tW, tW, tW, tW, tW, tE, tE, tE, tG, tF, tW, tW, tE, tE, tE, tE, tG, tW, tW, tE, tW, tE, tW, tE, tW, tW, tE, tE, tE, tW, tE, tW, tW, tE, tE, tE, tE, tE, tW, tW, tW, tW, tW, tW, tW, tW], [(⟨1,5⟩, ⟨Team.Elf,107,11⟩), (⟨1,4⟩, ⟨Team.Gnome,13,3⟩), (⟨2,5⟩, ⟨Team.Gnome,200,3⟩)]⟩, 1⟩, ⟨7, 4398046511103, 4363416223614, 2181708111807⟩, ⟨2142740383488, 526336, 4096⟩⟩

def s11r33 : FastGame := ⟨⟨33, [⟨1,4⟩, ⟨1,5⟩, ⟨2,5⟩], ⟨⟨6,7⟩, [tW, tW, tW, tW, tW, tW, tW, tW, tE, tE, tE, tG, tF, tW, tW, tE, tE, tE, tE, tG, tW, tW, tE, tW, tE, tW, tE, tW, tW, tE, tE, tE, tW, tE, tW, tW, tE, tE, tE, tE, tE, tW, tW, tW, tW, tW, tW, tW, tW], [(⟨1,5⟩, ⟨Team.Elf,101,11⟩), (⟨1,4⟩, ⟨Team.Gnome,2,3⟩), (⟨2,5⟩, ⟨Team.Gnome,200,3⟩)]⟩, 1⟩, ⟨7, 4398046511103, 4363416223614, 2181708111807⟩, ⟨2142740383488, 526336, 4096⟩⟩

def s11r34 : FastGame := ⟨⟨34, [⟨1,5⟩, ⟨2,5⟩], ⟨⟨6,7⟩, [tW, tW, tW, tW, tW, tW, tW, tW, tE, tE, tE, tE, tF, tW, tW, tE, tE, tE, tE, tG, tW, tW, tE, tW, tE, tW, tE, tW, tW, tE, tE, tE, tW, tE, tW, tW, tE, tE, tE, tE, tE, tW, tW, tW, tW, tW, tW, tW, tW], [(⟨1,5⟩, ⟨Team.Elf,95,11⟩), (⟨2,5⟩, ⟨Team.Gnome,200,3⟩)]⟩, 1⟩, ⟨7, 4398046511103, 4363416223614, 2181708111807⟩, ⟨2142740385536, 524288, 4096⟩⟩

def s11r35 : FastGame := ⟨⟨35, [⟨1,5⟩, ⟨2,5⟩], ⟨⟨6,7⟩, [tW, tW, tW, tW, tW, tW, tW, tW, tE, tE, tE, tE, tF, tW, tW, tE, tE, tE, tE, tG, tW, tW, tE, tW, tE, tW, tE, tW, tW, tE, tE, tE, tW, tE, tW, tW, tE, tE, tE, tE, tE, tW, tW, tW, tW, tW, tW, tW, tW], [(⟨1,5⟩, ⟨Team.Elf,92,11⟩), (⟨2,5⟩, ⟨Team.Gnome,189,3⟩)]⟩, 1⟩, ⟨7, 4398046511103, 4363416223614, 2181708111807⟩, ⟨2142740385536, 524288, 4096⟩⟩

def s11r36 : FastGame := ⟨⟨36, [⟨1,5⟩, ⟨2,5⟩], ⟨⟨6,7⟩, [tW, tW, tW, tW, tW, tW, tW, tW, tE, tE, tE, tE, tF, tW, tW, tE, tE, tE, tE, tG, tW, tW, tE, tW, tE, tW, tE, tW, tW, tE, tE, tE, tW, tE, tW, tW, tE, tE, tE, tE, tE, tW, tW, tW, tW, tW, tW, tW, tW], [(⟨1,5⟩, ⟨Team.Elf,89,11⟩), (⟨2,5⟩, ⟨Team.Gnome,178,3⟩)]⟩, 1⟩, ⟨7, 4398046511103, 4363416223614, 2181708111807⟩, ⟨2142740385536, 524288, 4096⟩⟩

def s11r37 : FastGame := ⟨⟨37, [⟨1,5⟩, ⟨2,5⟩], ⟨⟨6,7⟩, [tW, tW, tW, tW, tW, tW, tW, tW, tE, tE, tE, tE, tF, tW, tW, tE, tE, tE, tE, tG, tW, tW, tE, tW, tE, tW, tE, tW, tW, tE, tE, tE, tW, tE, tW, tW, tE, tE, tE, tE, tE, tW, tW, tW, tW, tW, tW, tW, tW], [(⟨1,5⟩, ⟨Team.Elf,86,11⟩), (⟨2,5⟩, ⟨Team.Gnome,167,3⟩)]⟩, 1⟩, ⟨7, 4398046511103, 4363416223614, 2181708111807⟩, ⟨2142740385536, 524288, 4096⟩⟩

def s11r38 : FastGame := ⟨⟨38, [⟨1,5⟩, ⟨2,5⟩], ⟨⟨6,7⟩, [tW, tW, tW, tW, tW, tW, tW, tW, tE, tE, tE, tE, tF, tW, tW, tE, tE, tE, tE, tG, tW, tW, tE, tW, tE, tW, tE, tW, tW, tE, tE, tE, tW, tE, tW, tW, tE, tE, tE, tE, tE, tW, tW, tW, tW, tW, tW, tW, tW], [(⟨1,5⟩, ⟨Team.Elf,83,11⟩), (⟨2,5⟩, ⟨Team.Gnome,156,3⟩)]⟩, 1⟩, ⟨7, 4398046511103, 4363416223614, 2181708111807⟩, ⟨2142740385536, 524288, 4096⟩⟩

def s11r39 : FastGame := ⟨⟨39, [⟨1,5⟩, ⟨2,5⟩], ⟨⟨6,7⟩, [tW, tW, tW, tW, tW, tW, tW, tW, tE, tE, tE, tE, tF, tW, tW, tE, tE, tE, tE, tG, tW, tW, tE, tW, tE, tW, tE, tW, tW, tE, tE, tE, tW, tE, tW, tW, tE, tE, tE, tE, tE, tW, tW, tW, tW, tW, tW, tW, tW], [(⟨1,5⟩, ⟨Team.Elf,80,11⟩), (⟨2,5⟩, ⟨Team.Gnome,145,3⟩)]⟩, 1⟩, ⟨7, 4398046511103, 4363416223614, 2181708111807⟩, ⟨2142740385536, 524288, 4096⟩⟩

def s11r40 : FastGame := ⟨⟨40, [⟨1,5⟩, ⟨2,5⟩], ⟨⟨6,7⟩, [tW, tW, tW, tW, tW, tW, tW, tW, tE, tE, tE, tE, tF, tW, tW, tE, tE, tE, tE, tG, tW, tW, tE, tW, tE, tW, tE, tW, tW, tE, tE, tE, tW, tE, tW, tW, tE, tE, tE, tE, tE, tW, tW, tW, tW, tW, tW, tW, tW], [(⟨1,5⟩, ⟨Team.Elf,77,11⟩), (⟨2,5⟩, ⟨Team.Gnome,134,3⟩)]⟩, 1⟩, ⟨7, 4398046511103, 4363416223614, 2181708111807⟩, ⟨2142740385536, 524288, 4096⟩⟩

def s11r41 : FastGame := ⟨⟨41, [⟨1,5⟩, ⟨2,5⟩], ⟨⟨6,7⟩, [tW, tW, tW, tW, tW, tW, tW, tW, tE, tE, tE, tE, tF, tW, tW, tE, tE, tE, tE, tG, tW, tW, tE, tW, tE, tW, tE, tW, tW, tE, tE, tE, tW, tE, tW, tW, tE, tE, tE, tE, tE, tW, tW, tW, tW, tW, tW, tW, tW], [(⟨1,5⟩, ⟨Team.Elf,74,11⟩), (⟨2,5⟩, ⟨Team.Gnome,123,3⟩)]⟩, 1⟩, ⟨7, 4398046511103, 4363416223614, 2181708111807⟩, ⟨2142740385536, 524288, 4096⟩⟩

def s11r42 : FastGame := ⟨⟨42, [⟨1,5⟩, ⟨2,5⟩], ⟨⟨6,7⟩, [tW, tW, tW, tW, tW, tW, tW, tW, tE, tE, tE, tE, tF, tW, tW, tE, tE, tE, tE, tG, tW, tW, tE, tW, tE, tW, tE, tW, tW, tE, tE, tE, tW, tE, tW, tW, tE, tE, tE, tE, tE, tW, tW, tW, tW, tW, tW, tW, tW], [(⟨1,5⟩, ⟨Team.Elf,71,11⟩), (⟨2,5⟩, ⟨Team.Gnome,112,3⟩)]⟩, 1⟩, ⟨7, 4398046511103, 4363416223614, 2181708111807⟩, ⟨2142740385536, 524288, 4096⟩⟩

def s11r43 : FastGame := ⟨⟨43, [⟨1,5⟩, ⟨2,5⟩], ⟨⟨6,7⟩, [tW, tW, tW, tW, tW, tW, tW, tW, tE, tE, tE, tE, tF, tW, tW, tE, tE, tE, tE, tG, tW, tW, tE, tW, tE, tW, tE, tW, tW, tE, tE, tE, tW, tE, tW, tW, tE, tE, tE, tE, tE, tW, tW, tW, tW, tW, tW, tW, tW], [(⟨1,5⟩, ⟨Team.Elf,68,11⟩), (⟨2,5⟩, ⟨Team.Gnome,101,3⟩)]⟩, 1⟩, ⟨7, 4398046511103, 4363416223614, 2181708111807⟩, ⟨2142740385536, 524288, 4096⟩⟩

def s11r44 : FastGame := ⟨⟨44, [⟨1,5⟩, ⟨2,5⟩], ⟨⟨6,7⟩, [tW, tW, tW, tW, tW, tW, tW, tW, tE, tE, tE, tE, tF, tW, tW, tE, tE, tE, tE, tG, tW, tW, tE, tW, tE, tW, tE, tW, tW, tE, tE, tE, tW, tE, tW, tW, tE, tE, tE, tE, tE, tW, tW, tW, tW, tW, tW, tW, tW], [(⟨1,5⟩, ⟨Team.Elf,65,11⟩), (⟨2,5⟩, ⟨Team.Gnome,90,3⟩)]⟩, 1⟩, ⟨7, 4398046511103, 4363416223614, 2181708111807⟩, ⟨2142740385536, 524288, 4096⟩⟩

def s11r45 : FastGame := ⟨⟨45, [⟨1,5⟩, ⟨2,5⟩], ⟨⟨6,7⟩, [tW, tW, tW, tW, tW, tW, tW, tW, tE, tE, tE, tE, tF, tW, tW, tE, tE, tE, tE, tG, tW, tW, tE, tW, tE, tW, tE, tW, tW, tE, tE, tE, tW, tE, tW, tW, tE, tE, tE, tE, tE, tW, tW, tW, tW, tW, tW, tW, tW], [(⟨1,5⟩, ⟨Team.Elf,62,11⟩), (⟨2,5⟩, ⟨Team.Gnome,79,3⟩)]⟩, 1⟩, ⟨7, 4398046511103, 4363416223614, 2181708111807⟩, ⟨2142740385536, 524288, 4096⟩⟩

def s11r46 : FastGame := ⟨⟨46, [⟨1,5⟩, ⟨2,5⟩], ⟨⟨6,7⟩, [tW, tW, tW, tW, tW, tW, tW, tW, tE, tE, tE, tE, tF, tW, tW, tE, tE, tE, tE, tG, tW, tW, tE, tW, tE, tW, tE, tW, tW, tE, tE, tE, tW, tE, tW, tW, tE, tE, tE, tE, tE, tW, tW, tW, tW, tW, tW, tW, tW], [(⟨1,5⟩, ⟨Team.Elf,59,11⟩), (⟨2,5⟩, ⟨Team.Gnome,68,3⟩)]⟩, 1⟩, ⟨7, 4398046511103, 4363416223614, 2181708111807⟩, ⟨2142740385536, 524288, 4096⟩⟩

def s11r47 : FastGame := ⟨⟨47, [⟨1,5⟩, ⟨2,5⟩], ⟨⟨6,7⟩, [tW, tW, tW, tW, tW, tW, tW, tW, tE, tE, tE, tE, tF, tW, tW, tE, tE, tE, tE, tG, tW, tW, tE, tW, tE, tW, tE, tW, tW, tE, tE, tE, tW, tE, tW, tW, tE, tE, tE, tE, tE, tW, tW, tW, tW, tW, tW, tW, tW], [(⟨1,5⟩, ⟨Team.Elf,56,11⟩), (⟨2,5⟩, ⟨Team.Gnome,57,3⟩)]⟩, 1⟩, ⟨7, 4398046511103, 4363416223614, 2181708111807⟩, ⟨2142740385536, 524288, 4096⟩⟩

def s11r48 : FastGame := ⟨⟨48, [⟨1,5⟩, ⟨2,5⟩], ⟨⟨6,7⟩, [tW, tW, tW, tW, tW, tW, tW, tW, tE, tE, tE, tE, tF, tW, tW, tE, tE, tE, tE, tG, tW, tW, tE, tW, tE, tW, tE, tW, tW, tE, tE, tE, tW, tE, tW, tW, tE, tE, tE, tE, tE, tW, tW, tW, tW, tW, tW, tW, tW], [(⟨1,5⟩, ⟨Team.Elf,53,11⟩), (⟨2,5⟩, ⟨Team.Gnome,46,3⟩)]⟩, 1⟩, ⟨7, 4398046511103, 4363416223614, 2181708111807⟩, ⟨2142740385536, 524288, 4096⟩⟩

def s11r49 : FastGame := ⟨⟨49, [⟨1,5⟩, ⟨2,5⟩], ⟨⟨6,7⟩, [tW, tW, tW, tW, tW, tW, tW, tW, tE, tE, tE, tE, tF, tW, tW, tE, tE, tE, tE, tG, tW, tW, tE, tW, tE, tW, tE, tW, tW, tE, tE, tE, tW, tE, tW, tW, tE, tE, tE, tE, tE, tW, tW, tW, tW, tW, tW, tW, tW], [(⟨1,5⟩, ⟨Team.Elf,50,11⟩), (⟨2,5⟩, ⟨Team.Gnome,35,3⟩)]⟩, 1⟩, ⟨7, 4398046511103, 4363416223614, 2181708111807⟩, ⟨2142740385536, 524288, 4096⟩⟩

def s11r50 : FastGame := ⟨⟨50, [⟨1,5⟩, ⟨2,5⟩], ⟨⟨6,7⟩, [tW, tW, tW, tW, tW, tW, tW, tW, tE, tE, tE, tE, tF, tW, tW, tE, tE, tE, tE, tG, tW, tW, tE, tW, tE, tW, tE, tW, tW, tE, tE, tE, tW, tE, tW, tW, tE, tE, tE, tE, tE, tW, tW, tW, tW, tW, tW, tW, tW], [(⟨1,5⟩, ⟨Team.Elf,47,11⟩), (⟨2,5⟩, ⟨Team.Gnome,24,3⟩)]⟩, 1⟩, ⟨7, 4398046511103, 4363416223614, 2181708111807⟩, ⟨2142740385536, 524288, 4096⟩⟩

def s11r51 : FastGame := ⟨⟨51, [⟨1,5⟩, ⟨2,5⟩], ⟨⟨6,7⟩, [tW, tW, tW, tW, tW, tW, tW, tW, tE, tE, tE, tE, tF, tW, tW, tE, tE, tE, tE, tG, tW, tW, tE, tW, tE, tW, tE, tW, tW, tE, tE, tE, tW, tE, tW, tW, tE, tE, tE, tE, tE, tW, tW, tW, tW, tW, tW, tW, tW], [(⟨1,5⟩, ⟨Team.Elf,44,11⟩), (⟨2,5⟩, ⟨Team.Gnome,13,3⟩)]⟩, 1⟩, ⟨7, 4398046511103, 4363416223614, 2181708111807⟩, ⟨2142740385536, 524288, 4096⟩⟩

def s11r52 : FastGame := ⟨⟨52, [⟨1,5⟩, ⟨2,5⟩], ⟨⟨6,7⟩, [tW, tW, tW, tW, tW, tW, tW, tW, tE, tE, tE, tE, tF, tW, tW, tE, tE, tE, tE, tG, tW, tW, tE, tW, tE, tW, tE, tW, tW, tE, tE, tE, tW, tE, tW, tW, tE, tE, tE, tE, tE, tW, tW, tW, tW, tW, tW, tW, tW], [(⟨1,5⟩, ⟨Team.Elf,41,11⟩), (⟨2,5⟩, ⟨Team.Gnome,2,3⟩)]⟩, 1⟩, ⟨7, 4398046511103, 4363416223614, 2181708111807⟩, ⟨2142740385536, 524288, 4096⟩⟩

def s11r53 : FastGame := ⟨⟨53, [⟨1,5⟩], ⟨⟨6,7⟩, [tW, tW, tW, tW, tW, tW, tW, tW, tE, tE, tE, tE, tF, tW, tW, tE, tE, tE, tE, tE, tW, tW, tE, tW, tE, tW, tE, tW, tW, tE, tE, tE, tW, tE, tW, tW, tE, tE, tE, tE, tE, tW, tW, tW, tW, tW, tW, tW, tW], [(⟨1,5⟩, ⟨Team.Elf,41,11⟩)]⟩, 1⟩, ⟨7, 4398046511103, 4363416223614, 2181708111807⟩, ⟨2142740909824, 0, 4096⟩⟩

def s11r54 : FastGame := ⟨⟨53, [], ⟨⟨6,7⟩, [tW, tW, tW, tW, tW, tW, tW, tW, tE, tE, tE, tE, tF, tW, tW, tE, tE, tE, tE, tE, tW, tW, tE, tW, tE, tW, tE, tW, tW, tE, tE, tE, tW, tE, tW, tW, tE, tE, tE, tE, tE, tW, tW, tW, tW, tW, tW, tW, tW], [(⟨1,5⟩, ⟨Team.Elf,41,11⟩)]⟩, 1⟩, ⟨7, 4398046511103, 4363416223614, 2181708111807⟩, ⟨2142740909824, 0, 4096⟩⟩

-- power 12: 46 states
def s12r0 : FastGame := ⟨⟨0, [⟨1,2⟩, ⟨2,4⟩, ⟨2,5⟩, ⟨3,5⟩, ⟨4,3⟩, ⟨4,5⟩], ⟨⟨6,7⟩, [tW, tW, tW, tW, tW, tW, tW, tW, tE, tG, tE, tE, tE, tW, tW, tE, tE, tE, tF, tG, tW, tW, tE, tW, tE, tW, tG, tW, tW, tE, tE, tG, tW, tF, tW, tW, tE, tE, tE, tE, tE, tW, tW, tW, tW, tW, tW, tW, tW], [(⟨4,5⟩, ⟨Team.Elf,200,12⟩), (⟨4,3⟩, ⟨Team.Gnome,200,3⟩), (⟨3,5⟩, ⟨Team.Gnome,200,3⟩), (⟨2,5⟩, ⟨Team.Gnome,200,3⟩), (⟨2,4⟩, ⟨Team.Elf,200,12⟩), (⟨1,2⟩, ⟨Team.Gnome,200,3⟩)]⟩, 0⟩, ⟨7, 4398046511103, 4363416223614, 2181708111807⟩, ⟨2131935599872, 2215117312, 8590196736⟩⟩

def s12r1 : FastGame := ⟨⟨1, [⟨1,3⟩, ⟨2,4⟩, ⟨2,5⟩, ⟨3,3⟩, ⟨3,5⟩, ⟨4,5⟩], ⟨⟨6,7⟩, [tW, tW, tW, tW, tW, tW, tW, tW, tE, tE, tG, tE, tE, tW, tW, tE, tE, tE, tF, tG, tW, tW, tE, tW, tG, tW, tG, tW, tW, tE, tE, tE, tW, tF, tW, tW, tE, tE, tE, tE, tE, tW, tW, tW, tW, tW, tW, tW, tW], [(⟨3,5⟩, ⟨Team.Gnome,188,3⟩), (⟨3,3⟩, ⟨Team.Gnome,200,3⟩), (⟨4,5⟩, ⟨Team.Elf,197,12⟩), (⟨2,4⟩, ⟨Team.Elf,197,12⟩), (⟨2,5⟩, ⟨Team.Gnome,188,3⟩), (⟨1,3⟩, ⟨Team.Gnome,200,3⟩)]⟩, 0⟩, ⟨7, 4398046511103, 4363416223614, 2181708111807⟩, ⟨2134066305792, 84411392, 8590196736⟩⟩

def s12r2 : FastGame := ⟨⟨2, [⟨1,4⟩, ⟨2,3⟩, ⟨2,4⟩, ⟨2,5⟩, ⟨3,5⟩, ⟨4,5⟩], ⟨⟨6,7⟩, [tW, tW, tW, tW, tW, tW, tW, tW, tE, tE, tE, tG, tE, tW, tW, tE, tE, tG, tF, tG, tW, tW, tE, tW, tE, tW, tG, tW, tW, tE, tE, tE, tW, tF, tW, tW, tE, tE, tE, tE, tE, tW, tW, tW, tW, tW, tW, tW, tW], [(⟨3,5⟩, ⟨Team.Gnome,176,3⟩), (⟨4,5⟩, ⟨Team.Elf,194,12⟩), (⟨2,4⟩, ⟨Team.Elf,188,12⟩), (⟨2,3⟩, ⟨Team.Gnome,200,3⟩), (⟨2,5⟩, ⟨Team.Gnome,176,3⟩), (⟨1,4⟩, ⟨Team.Gnome,200,3⟩)]⟩, 0⟩, ⟨7, 4398046511103, 4363416223614, 2181708111807⟩, ⟨2134082950912, 67766272, 8590196736⟩⟩

def s12r3 : FastGame := ⟨⟨3, [⟨1,4⟩, ⟨2,3⟩, ⟨2,4⟩, ⟨2,5⟩, ⟨3,5⟩, ⟨4,5⟩], ⟨⟨6,7⟩, [tW, tW, tW, tW, tW, tW, tW, tW, tE, tE, tE, tG, tE, tW, tW, tE, tE, tG, tF, tG, tW, tW, tE, tW, tE, tW, tG, tW, tW, tE, tE, tE, tW, tF, tW, tW, tE, tE, tE, tE, tE, tW, tW, tW, tW, tW, tW, tW, tW], [(⟨3,5⟩, ⟨Team.Gnome,164,3⟩), (⟨4,5⟩, ⟨Team.Elf,191,12⟩), (⟨2,4⟩, ⟨Team.Elf,179,12⟩), (⟨2,5⟩, ⟨Team.Gnome,164,3⟩), (⟨2,3⟩, ⟨Team.Gnome,200,3⟩), (⟨1,4⟩, ⟨Team.Gnome,200,3⟩)]⟩, 0⟩, ⟨7, 4398046511103, 4363416223614, 2181708111807⟩, ⟨2134082950912, 67766272, 8590196736⟩⟩

def s12r4 : FastGame := ⟨⟨4, [⟨1,4⟩, ⟨2,3⟩, ⟨2,4⟩, ⟨2,5⟩, ⟨3,5⟩, ⟨4,5⟩], ⟨⟨6,7⟩, [tW, tW, tW, tW, tW, tW, tW, tW, tE, tE, tE, tG, tE, tW, tW, tE, tE, tG, tF, tG, tW, tW, tE, tW, tE, tW, tG, tW, tW, tE, tE, tE, tW, tF, tW, tW, tE, tE, tE, tE, tE, tW, tW, tW, tW, tW, tW, tW, tW], [(⟨3,5⟩, ⟨Team.Gnome,152,3⟩), (⟨4,5⟩, ⟨Team.Elf,188,12⟩), (⟨2,4⟩, ⟨Team.Elf,170,12⟩), (⟨2,5⟩, ⟨Team.Gnome,152,3⟩), (⟨2,3⟩, ⟨Team.Gnome,200,3⟩), (⟨1,4⟩, ⟨Team.Gnome,200,3⟩)]⟩, 0⟩, ⟨7, 4398046511103, 4363416223614, 2181708111807⟩, ⟨2134082950912, 67766272, 8590196736⟩⟩

def s12r5 : FastGame := ⟨⟨5, [⟨1,4⟩, ⟨2,3⟩, ⟨2,4⟩, ⟨2,5⟩, ⟨3,5⟩, ⟨4,5⟩], ⟨⟨6,7⟩, [tW, tW, tW, tW, tW, tW, tW, tW, tE, tE, tE, tG, tE, tW, tW, tE, tE, tG, tF, tG, tW, tW, tE, tW, tE, tW, tG, tW, tW, tE, tE, tE, tW, tF, tW, tW, tE, tE, tE, tE, tE, tW, tW, tW, tW, tW, tW, tW, tW], [(⟨3,5⟩, ⟨Team.Gnome,140,3⟩), (⟨4,5⟩, ⟨Team.Elf,185,12⟩), (⟨2,4⟩, ⟨Team.Elf,161,12⟩), (⟨2,5⟩, ⟨Team.Gnome,140,3⟩), (⟨2,3⟩, ⟨Team.Gnome,200,3⟩), (⟨1,4⟩, ⟨Team.Gnome,200,3⟩)]⟩, 0⟩, ⟨7, 4398046511103, 4363416223614, 2181708111807⟩, ⟨2134082950912, 67766272, 8590196736⟩⟩

def s12r6 : FastGame := ⟨⟨6, [⟨1,4⟩, ⟨2,3⟩, ⟨2,4⟩, ⟨2,5⟩, ⟨3,5⟩, ⟨4,5⟩], ⟨⟨6,7⟩, [tW, tW, tW, tW, tW, tW, tW, tW, tE, tE, tE, tG, tE, tW, tW, tE, tE, tG, tF, tG, tW, tW, tE, tW, tE, tW, tG, tW, tW, tE, tE, tE, tW, tF, tW, tW, tE, tE, tE, tE, tE, tW, tW, tW, tW, tW, tW, tW, tW], [(⟨3,5⟩, ⟨Team.Gnome,128,3⟩), (⟨4,5⟩, ⟨Team.Elf,182,12⟩), (⟨2,4⟩, ⟨Team.Elf,152,12⟩), (⟨2,5⟩, ⟨Team.Gnome,128,3⟩), (⟨2,3⟩, ⟨Team.Gnome,200,3⟩), (⟨1,4⟩, ⟨Team.Gnome,200,3⟩)]⟩, 0⟩, ⟨7, 4398046511103, 4363416223614, 2181708111807⟩, ⟨2134082950912, 67766272, 8590196736⟩⟩

def s12r7 : FastGame := ⟨⟨7, [⟨1,4⟩, ⟨2,3⟩, ⟨2,4⟩, ⟨2,5⟩, ⟨3,5⟩, ⟨4,5⟩], ⟨⟨6,7⟩, [tW, tW, tW, tW, tW, tW, tW, tW, tE, tE, tE, tG, tE, tW, tW, tE, tE, tG, tF, tG, tW, tW, tE, tW, tE, tW, tG, tW, tW, tE, tE, tE, tW, tF, tW, tW, tE, tE, tE, tE, tE, tW, tW, tW, tW, tW, tW, tW, tW], [(⟨3,5⟩, ⟨Team.Gnome,116,3⟩), (⟨4,5⟩, ⟨Team.Elf,179,12⟩), (⟨2,4⟩, ⟨Team.Elf,143,12⟩), (⟨2,5⟩, ⟨Team.Gnome,116,3⟩), (⟨2,3⟩, ⟨Team.Gnome,200,3⟩), (⟨1,4⟩, ⟨Team.Gnome,200,3⟩)]⟩, 0⟩, ⟨7, 4398046511103, 4363416223614, 2181708111807⟩, ⟨2134082950912, 67766272, 8590196736⟩⟩

def s12r8 : FastGame := ⟨⟨8, [⟨1,4⟩, ⟨2,3⟩, ⟨2,4⟩, ⟨2,5⟩, ⟨3,5⟩, ⟨4,5⟩], ⟨⟨6,7⟩, [tW, tW, tW, tW, tW, tW, tW, tW, tE, tE, tE, tG, tE, tW, tW, tE, tE, tG, tF, tG, tW, tW, tE, tW, tE, tW, tG, tW, tW, tE, tE, tE, tW, tF, tW, tW, tE, tE, tE, tE, tE, tW, tW, tW, tW, tW, tW, tW, tW], [(⟨3,5⟩, ⟨Team.Gnome,104,3⟩), (⟨4,5⟩, ⟨Team.Elf,176,12⟩), (⟨2,4⟩, ⟨Team.Elf,134,12⟩), (⟨2,5⟩, ⟨Team.Gnome,104,3⟩), (⟨2,3⟩, ⟨Team.Gnome,200,3⟩), (⟨1,4⟩, ⟨Team.Gnome,200,3⟩)]⟩, 0⟩, ⟨7, 4398046511103, 4363416223614, 2181708111807⟩, ⟨2134082950912, 67766272, 8590196736⟩⟩

def s12r9 : FastGame := ⟨⟨9, [⟨1,4⟩, ⟨2,3⟩, ⟨2,4⟩, ⟨2,5⟩, ⟨3,5⟩, ⟨4,5⟩], ⟨⟨6,7⟩, [tW, tW, tW, tW, tW, tW, tW, tW, tE, tE, tE, tG, tE, tW, tW, tE, tE, tG, tF, tG, tW, tW, tE, tW, tE, tW, tG, tW, tW, tE, tE, tE, tW, tF, tW, tW, tE, tE, tE, tE, tE, tW, tW, tW, tW, tW, tW, tW, tW], [(⟨3,5⟩, ⟨Team.Gnome,92,3⟩), (⟨4,5⟩, ⟨Team.Elf,173,12⟩), (⟨2,4⟩, ⟨Team.Elf,125,12⟩), (⟨2,5⟩, ⟨Team.Gnome,92,3⟩), (⟨2,3⟩, ⟨Team.Gnome,200,3⟩), (⟨1,4⟩, ⟨Team.Gnome,200,3⟩)]⟩, 0⟩, ⟨7, 4398046511103, 4363416223614, 2181708111807⟩, ⟨2134082950912, 67766272, 8590196736⟩⟩

def s12r10 : FastGame := ⟨⟨10, [⟨1,4⟩, ⟨2,3⟩, ⟨2,4⟩, ⟨2,5⟩, ⟨3,5⟩, ⟨4,5⟩], ⟨⟨6,7⟩, [tW, tW, tW, tW, tW, tW, tW, tW, tE, tE, tE, tG, tE, tW, tW, tE, tE, tG, tF, tG, tW, tW, tE, tW, tE, tW, tG, tW, tW, tE, tE, tE, tW, tF, tW, tW, tE, tE, tE, tE, tE, tW, tW, tW, tW, tW, tW, tW, tW], [(⟨3,5⟩, ⟨Team.Gnome,80,3⟩), (⟨4,5⟩, ⟨Team.Elf,170,12⟩), (⟨2,4⟩, ⟨Team.Elf,116,12⟩), (⟨2,5⟩, ⟨Team.Gnome,80,3⟩), (⟨2,3⟩, ⟨Team.Gnome,200,3⟩), (⟨1,4⟩, ⟨Team.Gnome,200,3⟩)]⟩, 0⟩, ⟨7, 4398046511103, 4363416223614, 2181708111807⟩, ⟨2134082950912, 67766272, 8590196736⟩⟩

def s12r11 : FastGame := ⟨⟨11, [⟨1,4⟩, ⟨2,3⟩, ⟨2,4⟩, ⟨2,5⟩, ⟨3,5⟩, ⟨4,5⟩], ⟨⟨6,7⟩, [tW, tW, tW, tW, tW, tW, tW, tW, tE, tE, tE, tG, tE, tW, tW, tE, tE, tG, tF, tG, tW, tW, tE, tW, tE, tW, tG, tW, tW, tE, tE, tE, tW, tF, tW, tW, tE, tE, tE, tE, tE, tW, tW, tW, tW, tW, tW, tW, tW], [(⟨3,5⟩, ⟨Team.Gnome,68,3⟩), (⟨4,5⟩, ⟨Team.Elf,167,12⟩), (⟨2,4⟩, ⟨Team.Elf,107,12⟩), (⟨2,5⟩, ⟨Team.Gnome,68,3⟩), (⟨2,3⟩, ⟨Team.Gnome,200,3⟩), (⟨1,4⟩, ⟨Team.Gnome,200,3⟩)]⟩, 0⟩, ⟨7, 4398046511103, 4363416223614, 2181708111807⟩, ⟨2134082950912, 67766272, 8590196736⟩⟩

def s12r12 : FastGame := ⟨⟨12, [⟨1,4⟩, ⟨2,3⟩, ⟨2,4⟩, ⟨2,5⟩, ⟨3,5⟩, ⟨4,5⟩], ⟨⟨6,7⟩, [tW, tW, tW, tW, tW, tW, tW, tW, tE, tE, tE, tG, tE, tW, tW, tE, tE, tG, tF, tG, tW, tW, tE, tW, tE, tW, tG, tW, tW, tE, tE, tE, tW, tF, tW, tW, tE, tE, tE, tE, tE, tW, tW, tW, tW, tW, tW, tW, tW], [(⟨3,5⟩, ⟨Team.Gnome,56,3⟩), (⟨4,5⟩, ⟨Team.Elf,164,12⟩), (⟨2,4⟩, ⟨Team.Elf,98,12⟩), (⟨2,5⟩, ⟨Team.Gnome,56,3⟩), (⟨2,3⟩, ⟨Team.Gnome,200,3⟩), (⟨1,4⟩, ⟨Team.Gnome,200,3⟩)]⟩, 0⟩, ⟨7, 4398046511103, 4363416223614, 2181708111807⟩, ⟨2134082950912, 67766272, 8590196736⟩⟩

def s12r13 : FastGame := ⟨⟨13, [⟨1,4⟩, ⟨2,3⟩, ⟨2,4⟩, ⟨2,5⟩, ⟨3,5⟩, ⟨4,5⟩], ⟨⟨6,7⟩, [tW, tW, tW, tW, tW, tW, tW, tW, tE, tE, tE, tG, tE, tW, tW, tE, tE, tG, tF, tG, tW, tW, tE, tW, tE, tW, tG, tW, tW, tE, tE, tE, tW, tF, tW, tW, tE, tE, tE, tE, tE, tW, tW, tW, tW, tW, tW, tW, tW], [(⟨3,5⟩, ⟨Team.Gnome,44,3⟩), (⟨4,5⟩, ⟨Team.Elf,161,12⟩), (⟨2,4⟩, ⟨Team.Elf,89,12⟩), (⟨2,5⟩, ⟨Team.Gnome,44,3⟩), (⟨2,3⟩, ⟨Team.Gnome,200,3⟩), (⟨1,4⟩, ⟨Team.Gnome,200,3⟩)]⟩, 0⟩, ⟨7, 4398046511103, 4363416223614, 2181708111807⟩, ⟨2134082950912, 67766272, 8590196736⟩⟩

def s12r14 : FastGame := ⟨⟨14, [⟨1,4⟩, ⟨2,3⟩, ⟨2,4⟩, ⟨2,5⟩, ⟨3,5⟩, ⟨4,5⟩], ⟨⟨6,7⟩, [tW, tW, tW, tW, tW, tW, tW, tW, tE, tE, tE, tG, tE, tW, tW, tE, tE, tG, tF, tG, tW, tW, tE, tW, tE, tW, tG, tW, tW, tE, tE, tE, tW, tF, tW, tW, tE, tE, tE, tE, tE, tW, tW, tW, tW, tW, tW, tW, tW], [(⟨3,5⟩, ⟨Team.Gnome,32,3⟩), (⟨4,5⟩, ⟨Team.Elf,158,12⟩), (⟨2,4⟩, ⟨Team.Elf,80,12⟩), (⟨2,5⟩, ⟨Team.Gnome,32,3⟩), (⟨2,3⟩, ⟨Team.Gnome,200,3⟩), (⟨1,4⟩, ⟨Team.Gnome,200,3⟩)]⟩, 0⟩, ⟨7, 4398046511103, 4363416223614, 2181708111807⟩, ⟨2134082950912, 67766272, 8590196736⟩⟩

def s12r15 : FastGame := ⟨⟨15, [⟨1,4⟩, ⟨2,3⟩, ⟨2,4⟩, ⟨2,5⟩, ⟨3,5⟩, ⟨4,5⟩], ⟨⟨6,7⟩, [tW, tW, tW, tW, tW, tW, tW, tW, tE, tE, tE, tG, tE, tW, tW, tE, tE, tG, tF, tG, tW, tW, tE, tW, tE, tW, tG, tW, tW, tE, tE, tE, tW, tF, tW, tW, tE, tE, tE, tE, tE, tW, tW, tW, tW, tW, tW, tW, tW], [(⟨3,5⟩, ⟨Team.Gnome,20,3⟩), (⟨4,5⟩, ⟨Team.Elf,155,12⟩), (⟨2,4⟩, ⟨Team.Elf,71,12⟩), (⟨2,5⟩, ⟨Team.Gnome,20,3⟩), (⟨2,3⟩, ⟨Team.Gnome,200,3⟩), (⟨1,4⟩, ⟨Team.Gnome,200,3⟩)]⟩, 0⟩, ⟨7, 4398046511103, 4363416223614, 2181708111807⟩, ⟨2134082950912, 67766272, 8590196736⟩⟩

def s12r16 : FastGame := ⟨⟨16, [⟨1,4⟩, ⟨2,3⟩, ⟨2,4⟩, ⟨2,5⟩, ⟨3,5⟩, ⟨4,5⟩], ⟨⟨6,7⟩, [tW, tW, tW, tW, tW, tW, tW, tW, tE, tE, tE, tG, tE, tW, tW, tE, tE, tG, tF, tG, tW, tW, tE, tW, tE, tW, tG, tW, tW, tE, tE, tE, tW, tF, tW, tW, tE, tE, tE, tE, tE, tW, tW, tW, tW, tW, tW, tW, tW], [(⟨3,5⟩, ⟨Team.Gnome,8,3⟩), (⟨4,5⟩, ⟨Team.Elf,152,12⟩), (⟨2,4⟩, ⟨Team.Elf,62,12⟩), (⟨2,5⟩, ⟨Team.Gnome,8,3⟩), (⟨2,3⟩, ⟨Team.Gnome,200,3⟩), (⟨1,4⟩, ⟨Team.Gnome,200,3⟩)]⟩, 0⟩, ⟨7, 4398046511103, 4363416223614, 2181708111807⟩, ⟨2134082950912, 67766272, 8590196736⟩⟩

def s12r17 : FastGame := ⟨⟨17, [⟨1,4⟩, ⟨2,3⟩, ⟨2,4⟩, ⟨4,5⟩], ⟨⟨6,7⟩, [tW, tW, tW, tW, tW, tW, tW, tW, tE, tE, tE, tG, tE, tW, tW, tE, tE, tG, tF, tE, tW, tW, tE, tW, tE, tW, tE, tW, tW, tE, tE, tE, tW, tF, tW, tW, tE, tE, tE, tE, tE, tW, tW, tW, tW, tW, tW, tW, tW], [(⟨4,5⟩, ⟨Team.Elf,149,12⟩), (⟨2,4⟩, ⟨Team.Elf,56,12⟩), (⟨2,3⟩, ⟨Team.Gnome,200,3⟩), (⟨1,4⟩, ⟨Team.Gnome,200,3⟩)]⟩, 0⟩, ⟨7, 4398046511103, 4363416223614, 2181708111807⟩, ⟨2134150584064, 133120, 8590196736⟩⟩

def s12r18 : FastGame := ⟨⟨18, [⟨1,4⟩, ⟨2,3⟩, ⟨2,4⟩, ⟨3,5⟩], ⟨⟨6,7⟩, [tW, tW, tW, tW, tW, tW, tW, tW, tE, tE, tE, tG, tE, tW, tW, tE, tE, tG, tF, tE, tW, tW, tE, tW, tE, tW, tF, tW, tW, tE, tE, tE, tW, tE, tW, tW, tE, tE, tE, tE, tE, tW, tW, tW, tW, tW, tW, tW, tW], [(⟨3,5⟩, ⟨Team.Elf,149,12⟩), (⟨1,4⟩, ⟨Team.Gnome,188,3⟩), (⟨2,4⟩, ⟨Team.Elf,50,12⟩), (⟨2,3⟩, ⟨Team.Gnome,200,3⟩)]⟩, 0⟩, ⟨7, 4398046511103, 4363416223614, 2181708111807⟩, ⟨2142673409792, 133120, 67371008⟩⟩

def s12r19 : FastGame := ⟨⟨19, [⟨1,4⟩, ⟨2,3⟩, ⟨2,4⟩, ⟨2,5⟩], ⟨⟨6,7⟩, [tW, tW, tW, tW, tW, tW, tW, tW, tE, tE, tE, tG, tE, tW, tW, tE, tE, tG, tF, tF, tW, tW, tE, tW, tE, tW, tE, tW, tW, tE, tE, tE, tW, tE, tW, tW, tE, tE, tE, tE, tE, tW, tW, tW, tW, tW, tW, tW, tW], [(⟨2,5⟩, ⟨Team.Elf,149,12⟩), (⟨1,4⟩, ⟨Team.Gnome,176,3⟩), (⟨2,4⟩, ⟨Team.Elf,44,12⟩), (⟨2,3⟩, ⟨Team.Gnome,200,3⟩)]⟩, 0⟩, ⟨7, 4398046511103, 4363416223614, 2181708111807⟩, ⟨2142739994368, 133120, 786432⟩⟩

def s12r20 : FastGame := ⟨⟨20, [⟨1,4⟩, ⟨1,5⟩, ⟨2,3⟩, ⟨2,4⟩], ⟨⟨6,7⟩, [tW, tW, tW, tW, tW, tW, tW, tW, tE, tE, tE, tG, tF, tW, tW, tE, tE, tG, tF, tE, tW, tW, tE, tW, tE, tW, tE, tW, tW, tE, tE, tE, tW, tE, tW, tW, tE, tE, tE, tE, tE, tW, tW, tW, tW, tW, tW, tW, tW], [(⟨1,4⟩, ⟨Team.Gnome,152,3⟩), (⟨1,5⟩, ⟨Team.Elf,149,12⟩), (⟨2,4⟩, ⟨Team.Elf,38,12⟩), (⟨2,3⟩, ⟨Team.Gnome,200,3⟩)]⟩, 0⟩, ⟨7, 4398046511103, 4363416223614, 2181708111807⟩, ⟨2142740514560, 133120, 266240⟩⟩

def s12r21 : FastGame := ⟨⟨21, [⟨1,4⟩, ⟨1,5⟩, ⟨2,3⟩, ⟨2,4⟩], ⟨⟨6,7⟩, [tW, tW, tW, tW, tW, tW, tW, tW, tE, tE, tE, tG, tF, tW, tW, tE, tE, tG, tF, tE, tW, tW, tE, tW, tE, tW, tE, tW, tW, tE, tE, tE, tW, tE, tW, tW, tE, tE, tE, tE, tE, tW, tW, tW, tW, tW, tW, tW, tW], [(⟨1,4⟩, ⟨Team.Gnome,128,3⟩), (⟨2,4⟩, ⟨Team.Elf,32,12⟩), (⟨1,5⟩, ⟨Team.Elf,149,12⟩), (⟨2,3⟩, ⟨Team.Gnome,200,3⟩)]⟩, 0⟩, ⟨7, 4398046511103, 4363416223614, 2181708111807⟩, ⟨2142740514560, 133120, 266240⟩⟩

def s12r22 : FastGame := ⟨⟨22, [⟨1,4⟩, ⟨1,5⟩, ⟨2,3⟩, ⟨2,4⟩], ⟨⟨6,7⟩, [tW, tW, tW, tW, tW, tW, tW, tW, tE, tE, tE, tG, tF, tW, tW, tE, tE, tG, tF, tE, tW, tW, tE, tW, tE, tW, tE, tW, tW, tE, tE, tE, tW, tE, tW, tW, tE, tE, tE, tE, tE, tW, tW, tW, tW, tW, tW, tW, tW], [(⟨1,4⟩, ⟨Team.Gnome,104,3⟩), (⟨2,4⟩, ⟨Team.Elf,26,12⟩), (⟨1,5⟩, ⟨Team.Elf,149,12⟩), (⟨2,3⟩, ⟨Team.Gnome,200,3⟩)]⟩, 0⟩, ⟨7, 4398046511103, 4363416223614, 2181708111807⟩, ⟨2142740514560, 133120, 266240⟩⟩

def s12r23 : FastGame := ⟨⟨23, [⟨1,4⟩, ⟨1,5⟩, ⟨2,3⟩, ⟨2,4⟩], ⟨⟨6,7⟩, [tW, tW, tW, tW, tW, tW, tW, tW, tE, tE, tE, tG, tF, tW, tW, tE, tE, tG, tF, tE, tW, tW, tE, tW, tE, tW, tE, tW, tW, tE, tE, tE, tW, tE, tW, tW, tE, tE, tE, tE, tE, tW, tW, tW, tW, tW, tW, tW, tW], [(⟨1,4⟩, ⟨Team.Gnome,80,3⟩), (⟨2,4⟩, ⟨Team.Elf,20,12⟩), (⟨1,5⟩, ⟨Team.Elf,149,12⟩), (⟨2,3⟩, ⟨Team.Gnome,200,3⟩)]⟩, 0⟩, ⟨7, 4398046511103, 4363416223614, 2181708111807⟩, ⟨2142740514560, 133120, 266240⟩⟩

def s12r24 : FastGame := ⟨⟨24, [⟨1,4⟩, ⟨1,5⟩, ⟨2,3⟩, ⟨2,4⟩], ⟨⟨6,7⟩, [tW, tW, tW, tW, tW, tW, tW, tW, tE, tE, tE, tG, tF, tW, tW, tE, tE, tG, tF, tE, tW, tW, tE, tW, tE, tW, tE, tW, tW, tE, tE, tE, tW, tE, tW, tW, tE, tE, tE, tE, tE, tW, tW, tW, tW, tW, tW, tW, tW], [(⟨1,4⟩, ⟨Team.Gnome,56,3⟩), (⟨2,4⟩, ⟨Team.Elf,14,12⟩), (⟨1,5⟩, ⟨Team.Elf,149,12⟩), (⟨2,3⟩, ⟨Team.Gnome,200,3⟩)]⟩, 0⟩, ⟨7, 4398046511103, 4363416223614, 2181708111807⟩, ⟨2142740514560, 133120, 266240⟩⟩

def s12r25 : FastGame := ⟨⟨25, [⟨1,4⟩, ⟨1,5⟩, ⟨2,3⟩, ⟨2,4⟩], ⟨⟨6,7⟩, [tW, tW, tW, tW, tW, tW, tW, tW, tE, tE, tE, tG, tF, tW, tW, tE, tE, tG, tF, tE, tW, tW, tE, tW, tE, tW, tE, tW, tW, tE, tE, tE, tW, tE, tW, tW, tE, tE, tE, tE, tE, tW, tW, tW, tW, tW, tW, tW, tW], [(⟨1,4⟩, ⟨Team.Gnome,32,3⟩), (⟨2,4⟩, ⟨Team.Elf,8,12⟩), (⟨1,5⟩, ⟨Team.Elf,149,12⟩), (⟨2,3⟩, ⟨Team.Gnome,200,3⟩)]⟩, 0⟩, ⟨7, 4398046511103, 4363416223614, 2181708111807⟩, ⟨2142740514560, 133120, 266240⟩⟩

def s12r26 : FastGame := ⟨⟨26, [⟨1,4⟩, ⟨1,5⟩, ⟨2,3⟩, ⟨2,4⟩], ⟨⟨6,7⟩, [tW, tW, tW, tW, tW, tW, tW, tW, tE, tE, tE, tG, tF, tW, tW, tE, tE, tG, tF, tE, tW, tW, tE, tW, tE, tW, tE, tW, tW, tE, tE, tE, tW, tE, tW, tW, tE, tE, tE, tE, tE, tW, tW, tW, tW, tW, tW, tW, tW], [(⟨1,4⟩, ⟨Team.Gnome,8,3⟩), (⟨2,4⟩, ⟨Team.Elf,2,12⟩), (⟨1,5⟩, ⟨Team.Elf,149,12⟩), (⟨2,3⟩, ⟨Team.Gnome,200,3⟩)]⟩, 0⟩, ⟨7, 4398046511103, 4363416223614, 2181708111807⟩, ⟨2142740514560, 133120, 266240⟩⟩

def s12r27 : FastGame := ⟨⟨27, [⟨1,3⟩, ⟨1,5⟩], ⟨⟨6,7⟩, [tW, tW, tW, tW, tW, tW, tW, tW, tE, tE, tG, tE, tF, tW, tW, tE, tE, tE, tE, tE, tW, tW, tE, tW, tE, tW, tE, tW, tW, tE, tE, tE, tW, tE, tW, tW, tE, tE, tE, tE, tE, tW, tW, tW, tW, tW, tW, tW, tW], [(⟨1,3⟩, ⟨Team.Gnome,200,3⟩), (⟨1,5⟩, ⟨Team.Elf,149,12⟩)]⟩, 1⟩, ⟨7, 4398046511103, 4363416223614, 2181708111807⟩, ⟨2142740908800, 1024, 4096⟩⟩

def s12r28 : FastGame := ⟨⟨28, [⟨1,4⟩, ⟨1,5⟩], ⟨⟨6,7⟩, [tW, tW, tW, tW, tW, tW, tW, tW, tE, tE, tE, tG, tF, tW, tW, tE, tE, tE, tE, tE, tW, tW, tE, tW, tE, tW, tE, tW, tW, tE, tE, tE, tW, tE, tW, tW, tE, tE, tE, tE, tE, tW, tW, tW, tW, tW, tW, tW, tW], [(⟨1,4⟩, ⟨Team.Gnome,188,3⟩), (⟨1,5⟩, ⟨Team.Elf,146,12⟩)]⟩, 1⟩, ⟨7, 4398046511103, 4363416223614, 2181708111807⟩, ⟨2142740907776, 2048, 4096⟩⟩

def s12r29 : FastGame := ⟨⟨29, [⟨1,4⟩, ⟨1,5⟩], ⟨⟨6,7⟩, [tW, tW, tW, tW, tW, tW, tW, tW, tE, tE, tE, tG, tF, tW, tW, tE, tE, tE, tE, tE, tW, tW, tE, tW, tE, tW, tE, tW, tW, tE, tE, tE, tW, tE, tW, tW, tE, tE, tE, tE, tE, tW, tW, tW, tW, tW, tW, tW, tW], [(⟨1,4⟩, ⟨Team.Gnome,176,3⟩), (⟨1,5⟩, ⟨Team.Elf,143,12⟩)]⟩, 1⟩, ⟨7, 4398046511103, 4363416223614, 2181708111807⟩, ⟨2142740907776, 2048, 4096⟩⟩

def s12r30 : FastGame := ⟨⟨30, [⟨1,4⟩, ⟨1,5⟩], ⟨⟨6,7⟩, [tW, tW, tW, tW, tW, tW, tW, tW, tE, tE, tE, tG, tF, tW, tW, tE, tE, tE, tE, tE, tW, tW, tE, tW, tE, tW, tE, tW, tW, tE, tE, tE, tW, tE, tW, tW, tE, tE, tE, tE, tE, tW, tW, tW, tW, tW, tW, tW, tW], [(⟨1,4⟩, ⟨Team.Gnome,164,3⟩), (⟨1,5⟩, ⟨Team.Elf,140,12⟩)]⟩, 1⟩, ⟨7, 4398046511103, 4363416223614, 2181708111807⟩, ⟨2142740907776, 2048, 4096⟩⟩

def s12r31 : FastGame := ⟨⟨31, [⟨1,4⟩, ⟨1,5⟩], ⟨⟨6,7⟩, [tW, tW, tW, tW, tW, tW, tW, tW, tE, tE, tE, tG, tF, tW, tW, tE, tE, tE, tE, tE, tW, tW, tE, tW, tE, tW, tE, tW, tW, tE, tE, tE, tW, tE, tW, tW, tE, tE, tE, tE, tE, tW, tW, tW, tW, tW, tW, tW, tW], [(⟨1,4⟩, ⟨Team.Gnome,152,3⟩), (⟨1,5⟩, ⟨Team.Elf,137,12⟩)]⟩, 1⟩, ⟨7, 4398046511103, 4363416223614, 2181708111807⟩, ⟨2142740907776, 2048, 4096⟩⟩

def s12r32 : FastGame := ⟨⟨32, [⟨1,4⟩, ⟨1,5⟩], ⟨⟨6,7⟩, [tW, tW, tW, tW, tW, tW, tW, tW, tE, tE, tE, tG, tF, tW, tW, tE, tE, tE, tE, tE, tW, tW, tE, tW, tE, tW, tE, tW, tW, tE, tE, tE, tW, tE, tW, tW, tE, tE, tE, tE, tE, tW, tW, tW, tW, tW, tW, tW, tW], [(⟨1,4⟩, ⟨Team.Gnome,140,3⟩), (⟨1,5⟩, ⟨Team.Elf,134,12⟩)]⟩, 1⟩, ⟨7, 4398046511103, 4363416223614, 2181708111807⟩, ⟨2142740907776, 2048, 4096⟩⟩

def s12r33 : FastGame := ⟨⟨33, [⟨1,4⟩, ⟨1,5⟩], ⟨⟨6,7⟩, [tW, tW, tW, tW, tW, tW, tW, tW, tE, tE, tE, tG, tF, tW, tW, tE, tE, tE, tE, tE, tW, tW, tE, tW, tE, tW, tE, tW, tW, tE, tE, tE, tW, tE, tW, tW, tE, tE, tE, tE, tE, tW, tW, tW, tW, tW, tW, tW, tW], [(⟨1,4⟩, ⟨Team.Gnome,128,3⟩), (⟨1,5⟩, ⟨Team.Elf,131,12⟩)]⟩, 1⟩, ⟨7, 4398046511103, 4363416223614, 2181708111807⟩, ⟨2142740907776, 2048, 4096⟩⟩

def s12r34 : FastGame := ⟨⟨34, [⟨1,4⟩, ⟨1,5⟩], ⟨⟨6,7⟩, [tW, tW, tW, tW, tW, tW, tW, tW, tE, tE, tE, tG, tF, tW, tW, tE, tE, tE, tE, tE, tW, tW, tE, tW, tE, tW, tE, tW, tW, tE, tE, tE, tW, tE, tW, tW, tE, tE, tE, tE, tE, tW, tW, tW, tW, tW, tW, tW, tW], [(⟨1,4⟩, ⟨Team.Gnome,116,3⟩), (⟨1,5⟩, ⟨Team.Elf,128,12⟩)]⟩, 1⟩, ⟨7, 4398046511103, 4363416223614, 2181708111807⟩, ⟨2142740907776, 2048, 4096⟩⟩

def s12r35 : FastGame := ⟨⟨35, [⟨1,4⟩, ⟨1,5⟩], ⟨⟨6,7⟩, [tW, tW, tW, tW, tW, tW, tW, tW, tE, tE, tE, tG, tF, tW, tW, tE, tE, tE, tE, tE, tW, tW, tE, tW, tE, tW, tE, tW, tW, tE, tE, tE, tW, tE, tW, tW, tE, tE, tE, tE, tE, tW, tW, tW, tW, tW, tW, tW, tW], [(⟨1,4⟩, ⟨Team.Gnome,104,3⟩), (⟨1,5⟩, ⟨Team.Elf,125,12⟩)]⟩, 1⟩, ⟨7, 4398046511103, 4363416223614, 2181708111807⟩, ⟨2142740907776, 2048, 4096⟩⟩

def s12r36 : FastGame := ⟨⟨36, [⟨1,4⟩, ⟨1,5⟩], ⟨⟨6,7⟩, [tW, tW, tW, tW, tW, tW, tW, tW, tE, tE, tE, tG, tF, tW, tW, tE, tE, tE, tE, tE, tW, tW, tE, tW, tE, tW, tE, tW, tW, tE, tE, tE, tW, tE, tW, tW, tE, tE, tE, tE, tE, tW, tW, tW, tW, tW, tW, tW, tW], [(⟨1,4⟩, ⟨Team.Gnome,92,3⟩), (⟨1,5⟩, ⟨Team.Elf,122,12⟩)]⟩, 1⟩, ⟨7, 4398046511103, 4363416223614, 2181708111807⟩, ⟨2142740907776, 2048, 4096⟩⟩

def s12r37 : FastGame := ⟨⟨37, [⟨1,4⟩, ⟨1,5⟩], ⟨⟨6,7⟩, [tW, tW, tW, tW, tW, tW, tW, tW, tE, tE, tE, tG, tF, tW, tW, tE, tE, tE, tE, tE, tW, tW, tE, tW, tE, tW, tE, tW, tW, tE, tE, tE, tW, tE, tW, tW, tE, tE, tE, tE, tE, tW, tW, tW, tW, tW, tW, tW, tW], [(⟨1,4⟩, ⟨Team.Gnome,80,3⟩), (⟨1,5⟩, ⟨Team.Elf,119,12⟩)]⟩, 1⟩, ⟨7, 4398046511103, 4363416223614, 2181708111807⟩, ⟨2142740907776, 2048, 4096⟩⟩

def s12r38 : FastGame := ⟨⟨38, [⟨1,4⟩, ⟨1,5⟩], ⟨⟨6,7⟩, [tW, tW, tW, tW, tW, tW, tW, tW, tE, tE, tE, tG, tF, tW, tW, tE, tE, tE, tE, tE, tW, tW, tE, tW, tE, tW, tE, tW, tW, tE, tE, tE, tW, tE, tW, tW, tE, tE, tE, tE, tE, tW, tW, tW, tW, tW, tW, tW, tW], [(⟨1,4⟩, ⟨Team.Gnome,68,3⟩), (⟨1,5⟩, ⟨Team.Elf,116,12⟩)]⟩, 1⟩, ⟨7, 4398046511103, 4363416223614, 2181708111807⟩, ⟨2142740907776, 2048, 4096⟩⟩

def s12r39 : FastGame := ⟨⟨39, [⟨1,4⟩, ⟨1,5⟩], ⟨⟨6,7⟩, [tW, tW, tW, tW, tW, tW, tW, tW, tE, tE, tE, tG, tF, tW, tW, tE, tE, tE, tE, tE, tW, tW, tE, tW, tE, tW, tE, tW, tW, tE, tE, tE, tW, tE, tW, tW, tE, tE, tE, tE, tE, tW, tW, tW, tW, tW, tW, tW, tW], [(⟨1,4⟩, ⟨Team.Gnome,56,3⟩), (⟨1,5⟩, ⟨Team.Elf,113,12⟩)]⟩, 1⟩, ⟨7, 4398046511103, 4363416223614, 2181708111807⟩, ⟨2142740907776, 2048, 4096⟩⟩

def s12r40 : FastGame := ⟨⟨40, [⟨1,4⟩, ⟨1,5⟩], ⟨⟨6,7⟩, [tW, tW, tW, tW, tW, tW, tW, tW, tE, tE, tE, tG, tF, tW, tW, tE, tE, tE, tE, tE, tW, tW, tE, tW, tE, tW, tE, tW, tW, tE, tE, tE, tW, tE, tW, tW, tE, tE, tE, tE, tE, tW, tW, tW, tW, tW, tW, tW, tW], [(⟨1,4⟩, ⟨Team.Gnome,44,3⟩), (⟨1,5⟩, ⟨Team.Elf,110,12⟩)]⟩, 1⟩, ⟨7, 4398046511103, 4363416223614, 2181708111807⟩, ⟨2142740907776, 2048, 4096⟩⟩

def s12r41 : FastGame := ⟨⟨41, [⟨1,4⟩, ⟨1,5⟩], ⟨⟨6,7⟩, [tW, tW, tW, tW, tW, tW, tW, tW, tE, tE, tE, tG, tF, tW, tW, tE, tE, tE, tE, tE, tW, tW, tE, tW, tE, tW, tE, tW, tW, tE, tE, tE, tW, tE, tW, tW, tE, tE, tE, tE, tE, tW, tW, tW, tW, tW, tW, tW, tW], [(⟨1,4⟩, ⟨Team.Gnome,32,3⟩), (⟨1,5⟩, ⟨Team.Elf,107,12⟩)]⟩, 1⟩, ⟨7, 4398046511103, 4363416223614, 2181708111807⟩, ⟨2142740907776, 2048, 4096⟩⟩

def s12r42 : FastGame := ⟨⟨42, [⟨1,4⟩, ⟨1,5⟩], ⟨⟨6,7⟩, [tW, tW, tW, tW, tW, tW, tW, tW, tE, tE, tE, tG, tF, tW, tW, tE, tE, tE, tE, tE, tW, tW, tE, tW, tE, tW, tE, tW, tW, tE, tE, tE, tW, tE, tW, tW, tE, tE, tE, tE, tE, tW, tW, tW, tW, tW, tW, tW, tW], [(⟨1,4⟩, ⟨Team.Gnome,20,3⟩), (⟨1,5⟩, ⟨Team.Elf,104,12⟩)]⟩, 1⟩, ⟨7, 4398046511103, 4363416223614, 2181708111807⟩, ⟨2142740907776, 2048, 4096⟩⟩

def s12r43 : FastGame := ⟨⟨43, [⟨1,4⟩, ⟨1,5⟩], ⟨⟨6,7⟩, [tW, tW, tW, tW, tW, tW, tW, tW, tE, tE, tE, tG, tF, tW, tW, tE, tE, tE, tE, tE, tW, tW, tE, tW, tE, tW, tE, tW, tW, tE, tE, tE, tW, tE, tW, tW, tE, tE, tE, tE, tE, tW, tW, tW, tW, tW, tW, tW, tW], [(⟨1,4⟩, ⟨Team.Gnome,8,3⟩), (⟨1,5⟩, ⟨Team.Elf,101,12⟩)]⟩, 1⟩, ⟨7, 4398046511103, 4363416223614, 2181708111807⟩, ⟨2142740907776, 2048, 4096⟩⟩

def s12r44 : FastGame := ⟨⟨44, [⟨1,5⟩], ⟨⟨6,7⟩, [tW, tW, tW, tW, tW, tW, tW, tW, tE, tE, tE, tE, tF, tW, tW, tE, tE, tE, tE, tE, tW, tW, tE, tW, tE, tW, tE, tW, tW, tE, tE, tE, tW, tE, tW, tW, tE, tE, tE, tE, tE, tW, tW, tW, tW, tW, tW, tW, tW], [(⟨1,5⟩, ⟨Team.Elf,98,12⟩)]⟩, 1⟩, ⟨7, 4398046511103, 4363416223614, 2181708111807⟩, ⟨2142740909824, 0, 4096⟩⟩

def s12r45 : FastGame := ⟨⟨44, [], ⟨⟨6,7⟩, [tW, tW, tW, tW, tW, tW, tW, tW, tE, tE, tE, tE, tF, tW, tW, tE, tE, tE, tE, tE, tW, tW, tE, tW, tE, tW, tE, tW, tW, tE, tE, tE, tW, tE, tW, tW, tE, tE, tE, tE, tE, tW, tW, tW, tW, tW, tW, tW, tW], [(⟨1,5⟩, ⟨Team.Elf,98,12⟩)]⟩, 1⟩, ⟨7, 4398046511103, 4363416223614, 2181708111807⟩, ⟨2142740909824, 0, 4096⟩⟩

-- power 13: 41 states
def s13r0 : FastGame := ⟨⟨0, [⟨1,2⟩, ⟨2,4⟩, ⟨2,5⟩, ⟨3,5⟩, ⟨4,3⟩, ⟨4,5⟩], ⟨⟨6,7⟩, [tW, tW, tW, tW, tW, tW, tW, tW, tE, tG, tE, tE, tE, tW, tW, tE, tE, tE, tF, tG, tW, tW, tE, tW, tE, tW, tG, tW, tW, tE, tE, tG, tW, tF, tW, tW, tE, tE, tE, tE, tE, tW, tW, tW, tW, tW, tW, tW, tW], [(⟨4,5⟩, ⟨Team.Elf,200,13⟩), (⟨4,3⟩, ⟨Team.Gnome,200,3⟩), (⟨3,5⟩, ⟨Team.Gnome,200,3⟩), (⟨2,5⟩, ⟨Team.Gnome,200,3⟩), (⟨2,4⟩, ⟨Team.Elf,200,13⟩), (⟨1,2⟩, ⟨Team.Gnome,200,3⟩)]⟩, 0⟩, ⟨7, 4398046511103, 4363416223614, 2181708111807⟩, ⟨2131935599872, 2215117312, 8590196736⟩⟩

def s13r1 : FastGame := ⟨⟨1, [⟨1,3⟩, ⟨2,4⟩, ⟨2,5⟩, ⟨3,3⟩, ⟨3,5⟩, ⟨4,5⟩], ⟨⟨6,7⟩, [tW, tW, tW, tW, tW, tW, tW, tW, tE, tE, tG, tE, tE, tW, tW, tE, tE, tE, tF, tG, tW, tW, tE, tW, tG, tW, tG, tW, tW, tE, tE, tE, tW, tF, tW, tW, tE, tE, tE, tE, tE, tW, tW, tW, tW, tW, tW, tW, tW], [(⟨3,5⟩, ⟨Team.Gnome,187,3⟩), (⟨3,3⟩, ⟨Team.Gnome,200,3⟩), (⟨4,5⟩, ⟨Team.Elf,197,13⟩), (⟨2,4⟩, ⟨Team.Elf,197,13⟩), (⟨2,5⟩, ⟨Team.Gnome,187,3⟩), (⟨1,3⟩, ⟨Team.Gnome,200,3⟩)]⟩, 0⟩, ⟨7, 4398046511103, 4363416223614, 2181708111807⟩, ⟨2134066305792, 84411392, 8590196736⟩⟩

def s13r2 : FastGame := ⟨⟨2, [⟨1,4⟩, ⟨2,3⟩, ⟨2,4⟩, ⟨2,5⟩, ⟨3,5⟩, ⟨4,5⟩], ⟨⟨6,7⟩, [tW, tW, tW, tW, tW, tW, tW, tW, tE, tE, tE, tG, tE, tW, tW, tE, tE, tG, tF, tG, tW, tW, tE, tW, tE, tW, tG, tW, tW, tE, tE, tE, tW, tF, tW, tW, tE, tE, tE, tE, tE, tW, tW, tW, tW, tW, tW, tW, tW], [(⟨3,5⟩, ⟨Team.Gnome,174,3⟩), (⟨4,5⟩, ⟨Team.Elf,194,13⟩), (⟨2,4⟩, ⟨Team.Elf,188,13⟩), (⟨2,3⟩, ⟨Team.Gnome,200,3⟩), (⟨2,5⟩, ⟨Team.Gnome,174,3⟩), (⟨1,4⟩, ⟨Team.Gnome,200,3⟩)]⟩, 0⟩, ⟨7, 4398046511103, 4363416223614, 2181708111807⟩, ⟨2134082950912, 67766272, 8590196736⟩⟩

def s13r3 : FastGame := ⟨⟨3, [⟨1,4⟩, ⟨2,3⟩, ⟨2,4⟩, ⟨2,5⟩, ⟨3,5⟩, ⟨4,5⟩], ⟨⟨6,7⟩, [tW, tW, tW, tW, tW, tW, tW, tW, tE, tE, tE, tG, tE, tW, tW, tE, tE, tG, tF, tG, tW, tW, tE, tW, tE, tW, tG, tW, tW, tE, tE, tE, tW, tF, tW, tW, tE, tE, tE, tE, tE, tW, tW, tW, tW, tW, tW, tW, tW], [(⟨3,5⟩, ⟨Team.Gnome,161,3⟩), (⟨4,5⟩, ⟨Team.Elf,191,13⟩), (⟨2,4⟩, ⟨Team.Elf,179,13⟩), (⟨2,5⟩, ⟨Team.Gnome,161,3⟩), (⟨2,3⟩, ⟨Team.Gnome,200,3⟩), (⟨1,4⟩, ⟨Team.Gnome,200,3⟩)]⟩, 0⟩, ⟨7, 4398046511103, 4363416223614, 2181708111807⟩, ⟨2134082950912, 67766272, 8590196736⟩⟩

def s13r4 : FastGame := ⟨⟨4, [⟨1,4⟩, ⟨2,3⟩, ⟨2,4⟩, ⟨2,5⟩, ⟨3,5⟩, ⟨4,5⟩], ⟨⟨6,7⟩, [tW, tW, tW, tW, tW, tW, tW, tW, tE, tE, tE, tG, tE, tW, tW, tE, tE, tG, tF, tG, tW, tW, tE, tW, tE, tW, tG, tW, tW, tE, tE, tE, tW, tF, tW, tW, tE, tE, tE, tE, tE, tW, tW, tW, tW, tW, tW, tW, tW], [(⟨3,5⟩, ⟨Team.Gnome,148,3⟩), (⟨4,5⟩, ⟨Team.Elf,188,13⟩), (⟨2,4⟩, ⟨Team.Elf,170,13⟩), (⟨2,5⟩, ⟨Team.Gnome,148,3⟩), (⟨2,3⟩, ⟨Team.Gnome,200,3⟩), (⟨1,4⟩, ⟨Team.Gnome,200,3⟩)]⟩, 0⟩, ⟨7, 4398046511103, 4363416223614, 2181708111807⟩, ⟨2134082950912, 67766272, 8590196736⟩⟩

def s13r5 : FastGame := ⟨⟨5, [⟨1,4⟩, ⟨2,3⟩, ⟨2,4⟩, ⟨2,5⟩, ⟨3,5⟩, ⟨4,5⟩], ⟨⟨6,7⟩, [tW, tW, tW, tW, tW, tW, tW, tW, tE, tE, tE, tG, tE, tW, tW, tE, tE, tG, tF, tG, tW, tW, tE, tW, tE, tW, tG, tW, tW, tE, tE, tE, tW, tF, tW, tW, tE, tE, tE, tE, tE, tW, tW, tW, tW, tW, tW, tW, tW], [(⟨3,5⟩, ⟨Team.Gnome,135,3⟩), (⟨4,5⟩, ⟨Team.Elf,185,13⟩), (⟨2,4⟩, ⟨Team.Elf,161,13⟩), (⟨2,5⟩, ⟨Team.Gnome,135,3⟩), (⟨2,3⟩, ⟨Team.Gnome,200,3⟩), (⟨1,4⟩, ⟨Team.Gnome,200,3⟩)]⟩, 0⟩, ⟨7, 4398046511103, 4363416223614, 2181708111807⟩, ⟨2134082950912, 67766272, 8590196736⟩⟩

def s13r6 : FastGame := ⟨⟨6, [⟨1,4⟩, ⟨2,3⟩, ⟨2,4⟩, ⟨2,5⟩, ⟨3,5⟩, ⟨4,5⟩], ⟨⟨6,7⟩, [tW, tW, tW, tW, tW, tW, tW, tW, tE, tE, tE, tG, tE, tW, tW, tE, tE, tG, tF, tG, tW, tW, tE, tW, tE, tW, tG, tW, tW, tE, tE, tE, tW, tF, tW, tW, tE, tE, tE, tE, tE, tW, tW, tW, tW, tW, tW, tW, tW], [(⟨3,5⟩, ⟨Team.Gnome,122,3⟩), (⟨4,5⟩, ⟨Team.Elf,182,13⟩), (⟨2,4⟩, ⟨Team.Elf,152,13⟩), (⟨2,5⟩, ⟨Team.Gnome,122,3⟩), (⟨2,3⟩, ⟨Team.Gnome,200,3⟩), (⟨1,4⟩, ⟨Team.Gnome,200,3⟩)]⟩, 0⟩, ⟨7, 4398046511103, 4363416223614, 2181708111807⟩, ⟨2134082950912, 67766272, 8590196736⟩⟩

def s13r7 : FastGame := ⟨⟨7, [⟨1,4⟩, ⟨2,3⟩, ⟨2,4⟩, ⟨2,5⟩, ⟨3,5⟩, ⟨4,5⟩], ⟨⟨6,7⟩, [tW, tW, tW, tW, tW, tW, tW, tW, tE, tE, tE, tG, tE, tW, tW, tE, tE, tG, tF, tG, tW, tW, tE, tW, tE, tW, tG, tW, tW, tE, tE, tE, tW, tF, tW, tW, tE, tE, tE, tE, tE, tW, tW, tW, tW, tW, tW, tW, tW], [(⟨3,5⟩, ⟨Team.Gnome,109,3⟩), (⟨4,5⟩, ⟨Team.Elf,179,13⟩), (⟨2,4⟩, ⟨Team.Elf,143,13⟩), (⟨2,5⟩, ⟨Team.Gnome,109,3⟩), (⟨2,3⟩, ⟨Team.Gnome,200,3⟩), (⟨1,4⟩, ⟨Team.Gnome,200,3⟩)]⟩, 0⟩, ⟨7, 4398046511103, 4363416223614, 2181708111807⟩, ⟨2134082950912, 67766272, 8590196736⟩⟩

def s13r8 : FastGame := ⟨⟨8, [⟨1,4⟩, ⟨2,3⟩, ⟨2,4⟩, ⟨2,5⟩, ⟨3,5⟩, ⟨4,5⟩], ⟨⟨6,7⟩, [tW, tW, tW, tW, tW, tW, tW, tW, tE, tE, tE, tG, tE, tW, tW, tE, tE, tG, tF, tG, tW, tW, tE, tW, tE, tW, tG, tW, tW, tE, tE, tE, tW, tF, tW, tW, tE, tE, tE, tE, tE, tW, tW, tW, tW, tW, tW, tW, tW], [(⟨3,5⟩, ⟨Team.Gnome,96,3⟩), (⟨4,5⟩, ⟨Team.Elf,176,13⟩), (⟨2,4⟩, ⟨Team.Elf,134,13⟩), (⟨2,5⟩, ⟨Team.Gnome,96,3⟩), (⟨2,3⟩, ⟨Team.Gnome,200,3⟩), (⟨1,4⟩, ⟨Team.Gnome,200,3⟩)]⟩, 0⟩, ⟨7, 4398046511103, 4363416223614, 2181708111807⟩, ⟨2134082950912, 67766272, 8590196736⟩⟩

def s13r9 : FastGame := ⟨⟨9, [⟨1,4⟩, ⟨2,3⟩, ⟨2,4⟩, ⟨2,5⟩, ⟨3,5⟩, ⟨4,5⟩], ⟨⟨6,7⟩, [tW, tW, tW, tW, tW, tW, tW, tW, tE, tE, tE, tG, tE, tW, tW, tE, tE, tG, tF, tG, tW, tW, tE, tW, tE, tW, tG, tW, tW, tE, tE, tE, tW, tF, tW, tW, tE, tE, tE, tE, tE, tW, tW, tW, tW, tW, tW, tW, tW], [(⟨3,5⟩, ⟨Team.Gnome,83,3⟩), (⟨4,5⟩, ⟨Team.Elf,173,13⟩), (⟨2,4⟩, ⟨Team.Elf,125,13⟩), (⟨2,5⟩, ⟨Team.Gnome,83,3⟩), (⟨2,3⟩, ⟨Team.Gnome,200,3⟩), (⟨1,4⟩, ⟨Team.Gnome,200,3⟩)]⟩, 0⟩, ⟨7, 4398046511103, 4363416223614, 2181708111807⟩, ⟨2134082950912, 67766272, 8590196736⟩⟩

def s13r10 : FastGame := ⟨⟨10, [⟨1,4⟩, ⟨2,3⟩, ⟨2,4⟩, ⟨2,5⟩, ⟨3,5⟩, ⟨4,5⟩], ⟨⟨6,7⟩, [tW, tW, tW, tW, tW, tW, tW, tW, tE, tE, tE, tG, tE, tW, tW, tE, tE, tG, tF, tG, tW, tW, tE, tW, tE, tW, tG, tW, tW, tE, tE, tE, tW, tF, tW, tW, tE, tE, tE, tE, tE, tW, tW, tW, tW, tW, tW, tW, tW], [(⟨3,5⟩, ⟨Team.Gnome,70,3⟩), (⟨4,5⟩, ⟨Team.Elf,170,13⟩), (⟨2,4⟩, ⟨Team.Elf,116,13⟩), (⟨2,5⟩, ⟨Team.Gnome,70,3⟩), (⟨2,3⟩, ⟨Team.Gnome,200,3⟩), (⟨1,4⟩, ⟨Team.Gnome,200,3⟩)]⟩, 0⟩, ⟨7, 4398046511103, 4363416223614, 2181708111807⟩, ⟨2134082950912, 67766272, 8590196736⟩⟩

def s13r11 : FastGame := ⟨⟨11, [⟨1,4⟩, ⟨2,3⟩, ⟨2,4⟩, ⟨2,5⟩, ⟨3,5⟩, ⟨4,5⟩], ⟨⟨6,7⟩, [tW, tW, tW, tW, tW, tW, tW, tW, tE, tE, tE, tG, tE, tW, tW, tE, tE, tG, tF, tG, tW, tW, tE, tW, tE, tW, tG, tW, tW, tE, tE, tE, tW, tF, tW, tW, tE, tE, tE, tE, tE, tW, tW, tW, tW, tW, tW, tW, tW], [(⟨3,5⟩, ⟨Team.Gnome,57,3⟩), (⟨4,5⟩, ⟨Team.Elf,167,13⟩), (⟨2,4⟩, ⟨Team.Elf,107,13⟩), (⟨2,5⟩, ⟨Team.Gnome,57,3⟩), (⟨2,3⟩, ⟨Team.Gnome,200,3⟩), (⟨1,4⟩, ⟨Team.Gnome,200,3⟩)]⟩, 0⟩, ⟨7, 4398046511103, 4363416223614, 2181708111807⟩, ⟨2134082950912, 67766272, 8590196736⟩⟩

def s13r12 : FastGame := ⟨⟨12, [⟨1,4⟩, ⟨2,3⟩, ⟨2,4⟩, ⟨2,5⟩, ⟨3,5⟩, ⟨4,5⟩], ⟨⟨6,7⟩, [tW, tW, tW, tW, tW, tW, tW, tW, tE, tE, tE, tG, tE, tW, tW, tE, tE, tG, tF, tG, tW, tW, tE, tW, tE, tW, tG, tW, tW, tE, tE, tE, tW, tF, tW, tW, tE, tE, tE, tE, tE, tW, tW, tW, tW, tW, tW, tW, tW], [(⟨3,5⟩, ⟨Team.Gnome,44,3⟩), (⟨4,5⟩, ⟨Team.Elf,164,13⟩), (⟨2,4⟩, ⟨Team.Elf,98,13⟩), (⟨2,5⟩, ⟨Team.Gnome,44,3⟩), (⟨2,3⟩, ⟨Team.Gnome,200,3⟩), (⟨1,4⟩, ⟨Team.Gnome,200,3⟩)]⟩, 0⟩, ⟨7, 4398046511103, 4363416223614, 2181708111807⟩, ⟨2134082950912, 67766272, 8590196736⟩⟩

def s13r13 : FastGame := ⟨⟨13, [⟨1,4⟩, ⟨2,3⟩, ⟨2,4⟩, ⟨2,5⟩, ⟨3,5⟩, ⟨4,5⟩], ⟨⟨6,7⟩, [tW, tW, tW, tW, tW, tW, tW, tW, tE, tE, tE, tG, tE, tW, tW, tE, tE, tG, tF, tG, tW, tW, tE, tW, tE, tW, tG, tW, tW, tE, tE, tE, tW, tF, tW, tW, tE, tE, tE, tE, tE, tW, tW, tW, tW, tW, tW, tW, tW], [(⟨3,5⟩, ⟨Team.Gnome,31,3⟩), (⟨4,5⟩, ⟨Team.Elf,161,13⟩), (⟨2,4⟩, ⟨Team.Elf,89,13⟩), (⟨2,5⟩, ⟨Team.Gnome,31,3⟩), (⟨2,3⟩, ⟨Team.Gnome,200,3⟩), (⟨1,4⟩, ⟨Team.Gnome,200,3⟩)]⟩, 0⟩, ⟨7, 4398046511103, 4363416223614, 2181708111807⟩, ⟨2134082950912, 67766272, 8590196736⟩⟩

def s13r14 : FastGame := ⟨⟨14, [⟨1,4⟩, ⟨2,3⟩, ⟨2,4⟩, ⟨2,5⟩, ⟨3,5⟩, ⟨4,5⟩], ⟨⟨6,7⟩, [tW, tW, tW, tW, tW, tW, tW, tW, tE, tE, tE, tG, tE, tW, tW, tE, tE, tG, tF, tG, tW, tW, tE, tW, tE, tW, tG, tW, tW, tE, tE, tE, tW, tF, tW, tW, tE, tE, tE, tE, tE, tW, tW, tW, tW, tW, tW, tW, tW], [(⟨3,5⟩, ⟨Team.Gnome,18,3⟩), (⟨4,5⟩, ⟨Team.Elf,158,13⟩), (⟨2,4⟩, ⟨Team.Elf,80,13⟩), (⟨2,5⟩, ⟨Team.Gnome,18,3⟩), (⟨2,3⟩, ⟨Team.Gnome,200,3⟩), (⟨1,4⟩, ⟨Team.Gnome,200,3⟩)]⟩, 0⟩, ⟨7, 4398046511103, 4363416223614, 2181708111807⟩, ⟨2134082950912, 67766272, 8590196736⟩⟩

def s13r15 : FastGame := ⟨⟨15, [⟨1,4⟩, ⟨2,3⟩, ⟨2,4⟩, ⟨2,5⟩, ⟨3,5⟩, ⟨4,5⟩], ⟨⟨6,7⟩, [tW, tW, tW, tW, tW, tW, tW, tW, tE, tE, tE, tG, tE, tW, tW, tE, tE, tG, tF, tG, tW, tW, tE, tW, tE, tW, tG, tW, tW, tE, tE, tE, tW, tF, tW, tW, tE, tE, tE, tE, tE, tW, tW, tW, tW, tW, tW, tW, tW], [(⟨3,5⟩, ⟨Team.Gnome,5,3⟩), (⟨4,5⟩, ⟨Team.Elf,155,13⟩), (⟨2,4⟩, ⟨Team.Elf,71,13⟩), (⟨2,5⟩, ⟨Team.Gnome,5,3⟩), (⟨2,3⟩, ⟨Team.Gnome,200,3⟩), (⟨1,4⟩, ⟨Team.Gnome,200,3⟩)]⟩, 0⟩, ⟨7, 4398046511103, 4363416223614, 2181708111807⟩, ⟨2134082950912, 67766272, 8590196736⟩⟩

def s13r16 : FastGame := ⟨⟨16, [⟨1,4⟩, ⟨2,3⟩, ⟨2,4⟩, ⟨4,5⟩], ⟨⟨6,7⟩, [tW, tW, tW, tW, tW, tW, tW, tW, tE, tE, tE, tG, tE, tW, tW, tE, tE, tG, tF, tE, tW, tW, tE, tW, tE, tW, tE, tW, tW, tE, tE, tE, tW, tF, tW, tW, tE, tE, tE, tE, tE, tW, tW, tW, tW, tW, tW, tW, tW], [(⟨4,5⟩, ⟨Team.Elf,152,13⟩), (⟨2,4⟩, ⟨Team.Elf,65,13⟩), (⟨2,3⟩, ⟨Team.Gnome,200,3⟩), (⟨1,4⟩, ⟨Team.Gnome,200,3⟩)]⟩, 0⟩, ⟨7, 4398046511103, 4363416223614, 2181708111807⟩, ⟨2134150584064, 133120, 8590196736⟩⟩

def s13r17 : FastGame := ⟨⟨17, [⟨1,4⟩, ⟨2,3⟩, ⟨2,4⟩, ⟨3,5⟩], ⟨⟨6,7⟩, [tW, tW, tW, tW, tW, tW, tW, tW, tE, tE, tE, tG, tE, tW, tW, tE, tE, tG, tF, tE, tW, tW, tE, tW, tE, tW, tF, tW, tW, tE, tE, tE, tW, tE, tW, tW, tE, tE, tE, tE, tE, tW, tW, tW, tW, tW, tW, tW, tW], [(⟨3,5⟩, ⟨Team.Elf,152,13⟩), (⟨1,4⟩, ⟨Team.Gnome,187,3⟩), (⟨2,4⟩, ⟨Team.Elf,59,13⟩), (⟨2,3⟩, ⟨Team.Gnome,200,3⟩)]⟩, 0⟩, ⟨7, 4398046511103, 4363416223614, 2181708111807⟩, ⟨2142673409792, 133120, 67371008⟩⟩

def s13r18 : FastGame := ⟨⟨18, [⟨1,4⟩, ⟨2,3⟩, ⟨2,4⟩, ⟨2,5⟩], ⟨⟨6,7⟩, [tW, tW, tW, tW, tW, tW, tW, tW, tE, tE, tE, tG, tE, tW, tW, tE, tE, tG, tF, tF, tW, tW, tE, tW, tE, tW, tE, tW, tW, tE, tE, tE, tW, tE, tW, tW, tE, tE, tE, tE, tE, tW, tW, tW, tW, tW, tW, tW, tW], [(⟨2,5⟩, ⟨Team.Elf,152,13⟩), (⟨1,4⟩, ⟨Team.Gnome,174,3⟩), (⟨2,4⟩, ⟨Team.Elf,53,13⟩), (⟨2,3⟩, ⟨Team.Gnome,200,3⟩)]⟩, 0⟩, ⟨7, 4398046511103, 4363416223614, 2181708111807⟩, ⟨2142739994368, 133120, 786432⟩⟩

def s13r19 : FastGame := ⟨⟨19, [⟨1,4⟩, ⟨1,5⟩, ⟨2,3⟩, ⟨2,4⟩], ⟨⟨6,7⟩, [tW, tW, tW, tW, tW, tW, tW, tW, tE, tE, tE, tG, tF, tW, tW, tE, tE, tG, tF, tE, tW, tW, tE, tW, tE, tW, tE, tW, tW, tE, tE, tE, tW, tE, tW, tW, tE, tE, tE, tE, tE, tW, tW, tW, tW, tW, tW, tW, tW], [(⟨1,4⟩, ⟨Team.Gnome,148,3⟩), (⟨1,5⟩, ⟨Team.Elf,152,13⟩), (⟨2,4⟩, ⟨Team.Elf,47,13⟩), (⟨2,3⟩, ⟨Team.Gnome,200,3⟩)]⟩, 0⟩, ⟨7, 4398046511103, 4363416223614, 2181708111807⟩, ⟨2142740514560, 133120, 266240⟩⟩

def s13r20 : FastGame := ⟨⟨20, [⟨1,4⟩, ⟨1,5⟩, ⟨2,3⟩, ⟨2,4⟩], ⟨⟨6,7⟩, [tW, tW, tW, tW, tW, tW, tW, tW, tE, tE, tE, tG, tF, tW, tW, tE, tE, tG, tF, tE, tW, tW, tE, tW, tE, tW, tE, tW, tW, tE, tE, tE, tW, tE, tW, tW, tE, tE, tE, tE, tE, tW, tW, tW, tW, tW, tW, tW, tW], [(⟨1,4⟩, ⟨Team.Gnome,122,3⟩), (⟨2,4⟩, ⟨Team.Elf,41,13⟩), (⟨1,5⟩, ⟨Team.Elf,152,13⟩), (⟨2,3⟩, ⟨Team.Gnome,200,3⟩)]⟩, 0⟩, ⟨7, 4398046511103, 4363416223614, 2181708111807⟩, ⟨2142740514560, 133120, 266240⟩⟩

def s13r21 : FastGame := ⟨⟨21, [⟨1,4⟩, ⟨1,5⟩, ⟨2,3⟩, ⟨2,4⟩], ⟨⟨6,7⟩, [tW, tW, tW, tW, tW, tW, tW, tW, tE, tE, tE, tG, tF, tW, tW, tE, tE, tG, tF, tE, tW, tW, tE, tW, tE, tW, tE, tW, tW, tE, tE, tE, tW, tE, tW, tW, tE, tE, tE, tE, tE, tW, tW, tW, tW, tW, tW, tW, tW], [(⟨1,4⟩, ⟨Team.Gnome,96,3⟩), (⟨2,4⟩, ⟨Team.Elf,35,13⟩), (⟨1,5⟩, ⟨Team.Elf,152,13⟩), (⟨2,3⟩, ⟨Team.Gnome,200,3⟩)]⟩, 0⟩, ⟨7, 4398046511103, 4363416223614, 2181708111807⟩, ⟨2142740514560, 133120, 266240⟩⟩

def s13r22 : FastGame := ⟨⟨22, [⟨1,4⟩, ⟨1,5⟩, ⟨2,3⟩, ⟨2,4⟩], ⟨⟨6,7⟩, [tW, tW, tW, tW, tW, tW, tW, tW, tE, tE, tE, tG, tF, tW, tW, tE, tE, tG, tF, tE, tW, tW, tE, tW, tE, tW, tE, tW, tW, tE, tE, tE, tW, tE, tW, tW, tE, tE, tE, tE, tE, tW, tW, tW, tW, tW, tW, tW, tW], [(⟨1,4⟩, ⟨Team.Gnome,70,3⟩), (⟨2,4⟩, ⟨Team.Elf,29,13⟩), (⟨1,5⟩, ⟨Team.Elf,152,13⟩), (⟨2,3⟩, ⟨Team.Gnome,200,3⟩)]⟩, 0⟩, ⟨7, 4398046511103, 4363416223614, 2181708111807⟩, ⟨2142740514560, 133120, 266240⟩⟩

def s13r23 : FastGame := ⟨⟨23, [⟨1,4⟩, ⟨1,5⟩, ⟨2,3⟩, ⟨2,4⟩], ⟨⟨6,7⟩, [tW, tW, tW, tW, tW, tW, tW, tW, tE, tE, tE, tG, tF, tW, tW, tE, tE, tG, tF, tE, tW, tW, tE, tW, tE, tW, tE, tW, tW, tE, tE, tE, tW, tE, tW, tW, tE, tE, tE, tE, tE, tW, tW, tW, tW, tW, tW, tW, tW], [(⟨1,4⟩, ⟨Team.Gnome,44,3⟩), (⟨2,4⟩, ⟨Team.Elf,23,13⟩), (⟨1,5⟩, ⟨Team.Elf,152,13⟩), (⟨2,3⟩, ⟨Team.Gnome,200,3⟩)]⟩, 0⟩, ⟨7, 4398046511103, 4363416223614, 2181708111807⟩, ⟨2142740514560, 133120, 266240⟩⟩

def s13r24 : FastGame := ⟨⟨24, [⟨1,4⟩, ⟨1,5⟩, ⟨2,3⟩, ⟨2,4⟩], ⟨⟨6,7⟩, [tW, tW, tW, tW, tW, tW, tW, tW, tE, tE, tE, tG, tF, tW, tW, tE, tE, tG, tF, tE, tW, tW, tE, tW, tE, tW, tE, tW, tW, tE, tE, tE, tW, tE, tW, tW, tE, tE, tE, tE, tE, tW, tW, tW, tW, tW, tW, tW, tW], [(⟨1,4⟩, ⟨Team.Gnome,18,3⟩), (⟨2,4⟩, ⟨Team.Elf,17,13⟩), (⟨1,5⟩, ⟨Team.Elf,152,13⟩), (⟨2,3⟩, ⟨Team.Gnome,200,3⟩)]⟩, 0⟩, ⟨7, 4398046511103, 4363416223614, 2181708111807⟩, ⟨2142740514560, 133120, 266240⟩⟩

def s13r25 : FastGame := ⟨⟨25, [⟨1,5⟩, ⟨2,3⟩, ⟨2,4⟩], ⟨⟨6,7⟩, [tW, tW, tW, tW, tW, tW, tW, tW, tE, tE, tE, tE, tF, tW, tW, tE, tE, tG, tF, tE, tW, tW, tE, tW, tE, tW, tE, tW, tW, tE, tE, tE, tW, tE, tW, tW, tE, tE, tE, tE, tE, tW, tW, tW, tW, tW, tW, tW, tW], [(⟨2,4⟩, ⟨Team.Elf,11,13⟩), (⟨1,5⟩, ⟨Team.Elf,152,13⟩), (⟨2,3⟩, ⟨Team.Gnome,200,3⟩)]⟩, 0⟩, ⟨7, 4398046511103, 4363416223614, 2181708111807⟩, ⟨2142740516608, 131072, 266240⟩⟩

def s13r26 : FastGame := ⟨⟨26, [⟨1,4⟩, ⟨2,3⟩, ⟨2,4⟩], ⟨⟨6,7⟩, [tW, tW, tW, tW, tW, tW, tW, tW, tE, tE, tE, tF, tE, tW, tW, tE, tE, tG, tF, tE, tW, tW, tE, tW, tE, tW, tE, tW, tW, tE, tE, tE, tW, tE, tW, tW, tE, tE, tE, tE, tE, tW, tW, tW, tW, tW, tW, tW, tW], [(⟨2,3⟩, ⟨Team.Gnome,187,3⟩), (⟨2,4⟩, ⟨Team.Elf,8,13⟩), (⟨1,4⟩, ⟨Team.Elf,152,13⟩)]⟩, 0⟩, ⟨7, 4398046511103, 4363416223614, 2181708111807⟩, ⟨2142740518656, 131072, 264192⟩⟩

def s13r27 : FastGame := ⟨⟨27, [⟨1,3⟩, ⟨2,3⟩, ⟨2,4⟩], ⟨⟨6,7⟩, [tW, tW, tW, tW, tW, tW, tW, tW, tE, tE, tF, tE, tE, tW, tW, tE, tE, tG, tF, tE, tW, tW, tE, tW, tE, tW, tE, tW, tW, tE, tE, tE, tW, tE, tW, tW, tE, tE, tE, tE, tE, tW, tW, tW, tW, tW, tW, tW, tW], [(⟨2,3⟩, ⟨Team.Gnome,161,3⟩), (⟨2,4⟩, ⟨Team.Elf,5,13⟩), (⟨1,3⟩, ⟨Team.Elf,152,13⟩)]⟩, 0⟩, ⟨7, 4398046511103, 4363416223614, 2181708111807⟩, ⟨2142740519680, 131072, 263168⟩⟩

def s13r28 : FastGame := ⟨⟨28, [⟨1,3⟩, ⟨2,3⟩, ⟨2,4⟩], ⟨⟨6,7⟩, [tW, tW, tW, tW, tW, tW, tW, tW, tE, tE, tF, tE, tE, tW, tW, tE, tE, tG, tF, tE, tW, tW, tE, tW, tE, tW, tE, tW, tW, tE, tE, tE, tW, tE, tW, tW, tE, tE, tE, tE, tE, tW, tW, tW, tW, tW, tW, tW, tW], [(⟨2,3⟩, ⟨Team.Gnome,135,3⟩), (⟨2,4⟩, ⟨Team.Elf,2,13⟩), (⟨1,3⟩, ⟨Team.Elf,152,13⟩)]⟩, 0⟩, ⟨7, 4398046511103, 4363416223614, 2181708111807⟩, ⟨2142740519680, 131072, 263168⟩⟩

def s13r29 : FastGame := ⟨⟨29, [⟨1,3⟩, ⟨2,3⟩], ⟨⟨6,7⟩, [tW, tW, tW, tW, tW, tW, tW, tW, tE, tE, tF, tE, tE, tW, tW, tE, tE, tG, tE, tE, tW, tW, tE, tW, tE, tW, tE, tW, tW, tE, tE, tE, tW, tE, tW, tW, tE, tE, tE, tE, tE, tW, tW, tW, tW, tW, tW, tW, tW], [(⟨2,3⟩, ⟨Team.Gnome,122,3⟩), (⟨1,3⟩, ⟨Team.Elf,152,13⟩)]⟩, 1⟩, ⟨7, 4398046511103, 4363416223614, 2181708111807⟩, ⟨2142740781824, 131072, 1024⟩⟩

def s13r30 : FastGame := ⟨⟨30, [⟨1,3⟩, ⟨2,3⟩], ⟨⟨6,7⟩, [tW, tW, tW, tW, tW, tW, tW, tW, tE, tE, tF, tE, tE, tW, tW, tE, tE, tG, tE, tE, tW, tW, tE, tW, tE, tW, tE, tW, tW, tE, tE, tE, tW, tE, tW, tW, tE, tE, tE, tE, tE, tW, tW, tW, tW, tW, tW, tW, tW], [(⟨1,3⟩, ⟨Team.Elf,149,13⟩), (⟨2,3⟩, ⟨Team.Gnome,109,3⟩)]⟩, 1⟩, ⟨7, 4398046511103, 4363416223614, 2181708111807⟩, ⟨2142740781824, 131072, 1024⟩⟩

def s13r31 : FastGame := ⟨⟨31, [⟨1,3⟩, ⟨2,3⟩], ⟨⟨6,7⟩, [tW, tW, tW, tW, tW, tW, tW, tW, tE, tE, tF, tE, tE, tW, tW, tE, tE, tG, tE, tE, tW, tW, tE, tW, tE, tW, tE, tW, tW, tE, tE, tE, tW, tE, tW, tW, tE, tE, tE, tE, tE, tW, tW, tW, tW, tW, tW, tW, tW], [(⟨1,3⟩, ⟨Team.Elf,146,13⟩), (⟨2,3⟩, ⟨Team.Gnome,96,3⟩)]⟩, 1⟩, ⟨7, 4398046511103, 4363416223614, 2181708111807⟩, ⟨2142740781824, 131072, 1024⟩⟩

def s13r32 : FastGame := ⟨⟨32, [⟨1,3⟩, ⟨2,3⟩], ⟨⟨6,7⟩, [tW, tW, tW, tW, tW, tW, tW, tW, tE, tE, tF, tE, tE, tW, tW, tE, tE, tG, tE, tE, tW, tW, tE, tW, tE, tW, tE, tW, tW, tE, tE, tE, tW, tE, tW, tW, tE, tE, tE, tE, tE, tW, tW, tW, tW, tW, tW, tW, tW], [(⟨1,3⟩, ⟨Team.Elf,143,13⟩), (⟨2,3⟩, ⟨Team.Gnome,83,3⟩)]⟩, 1⟩, ⟨7, 4398046511103, 4363416223614, 2181708111807⟩, ⟨2142740781824, 131072, 1024⟩⟩

def s13r33 : FastGame := ⟨⟨33, [⟨1,3⟩, ⟨2,3⟩], ⟨⟨6,7⟩, [tW, tW, tW, tW, tW, tW, tW, tW, tE, tE, tF, tE, tE, tW, tW, tE, tE, tG, tE, tE, tW, tW, tE, tW, tE, tW, tE, tW, tW, tE, tE, tE, tW, tE, tW, tW, tE, tE, tE, tE, tE, tW, tW, tW, tW, tW, tW, tW, tW], [(⟨1,3⟩, ⟨Team.Elf,140,13⟩), (⟨2,3⟩, ⟨Team.Gnome,70,3⟩)]⟩, 1⟩, ⟨7, 4398046511103, 4363416223614, 2181708111807⟩, ⟨2142740781824, 131072, 1024⟩⟩

def s13r34 : FastGame := ⟨⟨34, [⟨1,3⟩, ⟨2,3⟩], ⟨⟨6,7⟩, [tW, tW, tW, tW, tW, tW, tW, tW, tE, tE, tF, tE, tE, tW, tW, tE, tE, tG, tE, tE, tW, tW, tE, tW, tE, tW, tE, tW, tW, tE, tE, tE, tW, tE, tW, tW, tE, tE, tE, tE, tE, tW, tW, tW, tW, tW, tW, tW, tW], [(⟨1,3⟩, ⟨Team.Elf,137,13⟩), (⟨2,3⟩, ⟨Team.Gnome,57,3⟩)]⟩, 1⟩, ⟨7, 4398046511103, 4363416223614, 2181708111807⟩, ⟨2142740781824, 131072, 1024⟩⟩

def s13r35 : FastGame := ⟨⟨35, [⟨1,3⟩, ⟨2,3⟩], ⟨⟨6,7⟩, [tW, tW, tW, tW, tW, tW, tW, tW, tE, tE, tF, tE, tE, tW, tW, tE, tE, tG, tE, tE, tW, tW, tE, tW, tE, tW, tE, tW, tW, tE, tE, tE, tW, tE, tW, tW, tE, tE, tE, tE, tE, tW, tW, tW, tW, tW, tW, tW, tW], [(⟨1,3⟩, ⟨Team.Elf,134,13⟩), (⟨2,3⟩, ⟨Team.Gnome,44,3⟩)]⟩, 1⟩, ⟨7, 4398046511103, 4363416223614, 2181708111807⟩, ⟨2142740781824, 131072, 1024⟩⟩

def s13r36 : FastGame := ⟨⟨36, [⟨1,3⟩, ⟨2,3⟩], ⟨⟨6,7⟩, [tW, tW, tW, tW, tW, tW, tW, tW, tE, tE, tF, tE, tE, tW, tW, tE, tE, tG, tE, tE, tW, tW, tE, tW, tE, tW, tE, tW, tW, tE, tE, tE, tW, tE, tW, tW, tE, tE, tE, tE, tE, tW, tW, tW, tW, tW, tW, tW, tW], [(⟨1,3⟩, ⟨Team.Elf,131,13⟩), (⟨2,3⟩, ⟨Team.Gnome,31,3⟩)]⟩, 1⟩, ⟨7, 4398046511103, 4363416223614, 2181708111807⟩, ⟨2142740781824, 131072, 1024⟩⟩

def s13r37 : FastGame := ⟨⟨37, [⟨1,3⟩, ⟨2,3⟩], ⟨⟨6,7⟩, [tW, tW, tW, tW, tW, tW, tW, tW, tE, tE, tF, tE, tE, tW, tW, tE, tE, tG, tE, tE, tW, tW, tE, tW, tE, tW, tE, tW, tW, tE, tE, tE, tW, tE, tW, tW, tE, tE, tE, tE, tE, tW, tW, tW, tW, tW, tW, tW, tW], [(⟨1,3⟩, ⟨Team.Elf,128,13⟩), (⟨2,3⟩, ⟨Team.Gnome,18,3⟩)]⟩, 1⟩, ⟨7, 4398046511103, 4363416223614, 2181708111807⟩, ⟨2142740781824, 131072, 1024⟩⟩

def s13r38 : FastGame := ⟨⟨38, [⟨1,3⟩, ⟨2,3⟩], ⟨⟨6,7⟩, [tW, tW, tW, tW, tW, tW, tW, tW, tE, tE, tF, tE, tE, tW, tW, tE, tE, tG, tE, tE, tW, tW, tE, tW, tE, tW, tE, tW, tW, tE, tE, tE, tW, tE, tW, tW, tE, tE, tE, tE, tE, tW, tW, tW, tW, tW, tW, tW, tW], [(⟨1,3⟩, ⟨Team.Elf,125,13⟩), (⟨2,3⟩, ⟨Team.Gnome,5,3⟩)]⟩, 1⟩, ⟨7, 4398046511103, 4363416223614, 2181708111807⟩, ⟨2142740781824, 131072, 1024⟩⟩

def s13r39 : FastGame := ⟨⟨39, [⟨1,3⟩], ⟨⟨6,7⟩, [tW, tW, tW, tW, tW, tW, tW, tW, tE, tE, tF, tE, tE, tW, tW, tE, tE, tE, tE, tE, tW, tW, tE, tW, tE, tW, tE, tW, tW, tE, tE, tE, tW, tE, tW, tW, tE, tE, tE, tE, tE, tW, tW, tW, tW, tW, tW, tW, tW], [(⟨1,3⟩, ⟨Team.Elf,125,13⟩)]⟩, 1⟩, ⟨7, 4398046511103, 4363416223614, 2181708111807⟩, ⟨2142740912896, 0, 1024⟩⟩

def s13r40 : FastGame := ⟨⟨39, [], ⟨⟨6,7⟩, [tW, tW, tW, tW, tW, tW, tW, tW, tE, tE, tF, tE, tE, tW, tW, tE, tE, tE, tE, tE, tW, tW, tE, tW, tE, tW, tE, tW, tW, tE, tE, tE, tW, tE, tW, tW, tE, tE, tE, tE, tE, tW, tW, tW, tW, tW, tW, tW, tW], [(⟨1,3⟩, ⟨Team.Elf,125,13⟩)]⟩, 1⟩, ⟨7, 4398046511103, 4363416223614, 2181708111807⟩, ⟨2142740912896, 0, 1024⟩⟩

-- power 14: 35 states
def s14r0 : FastGame := ⟨⟨0, [⟨1,2⟩, ⟨2,4⟩, ⟨2,5⟩, ⟨3,5⟩, ⟨4,3⟩, ⟨4,5⟩], ⟨⟨6,7⟩, [tW, tW, tW, tW, tW, tW, tW, tW, tE, tG, tE, tE, tE, tW, tW, tE, tE, tE, tF, tG, tW, tW, tE, tW, tE, tW, tG, tW, tW, tE, tE, tG, tW, tF, tW, tW, tE, tE, tE, tE, tE, tW, tW, tW, tW, tW, tW, tW, tW], [(⟨4,5⟩, ⟨Team.Elf,200,14⟩), (⟨4,3⟩, ⟨Team.Gnome,200,3⟩), (⟨3,5⟩, ⟨Team.Gnome,200,3⟩), (⟨2,5⟩, ⟨Team.Gnome,200,3⟩), (⟨2,4⟩, ⟨Team.Elf,200,14⟩), (⟨1,2⟩, ⟨Team.Gnome,200,3⟩)]⟩, 0⟩, ⟨7, 4398046511103, 4363416223614, 2181708111807⟩, ⟨2131935599872, 2215117312, 8590196736⟩⟩

def s14r1 : FastGame := ⟨⟨1, [⟨1,3⟩, ⟨2,4⟩, ⟨2,5⟩, ⟨3,3⟩, ⟨3,5⟩, ⟨4,5⟩], ⟨⟨6,7⟩, [tW, tW, tW, tW, tW, tW, tW, tW, tE, tE, tG, tE, tE, tW, tW, tE, tE, tE, tF, tG, tW, tW, tE, tW, tG, tW, tG, tW, tW, tE, tE, tE, tW, tF, tW, tW, tE, tE, tE, tE, tE, tW, tW, tW, tW, tW, tW, tW, tW], [(⟨3,5⟩, ⟨Team.Gnome,186,3⟩), (⟨3,3⟩, ⟨Team.Gnome,200,3⟩), (⟨4,5⟩, ⟨Team.Elf,197,14⟩), (⟨2,4⟩, ⟨Team.Elf,197,14⟩), (⟨2,5⟩, ⟨Team.Gnome,186,3⟩), (⟨1,3⟩, ⟨Team.Gnome,200,3⟩)]⟩, 0⟩, ⟨7, 4398046511103, 4363416223614, 2181708111807⟩, ⟨2134066305792, 84411392, 8590196736⟩⟩

def s14r2 : FastGame := ⟨⟨2, [⟨1,4⟩, ⟨2,3⟩, ⟨2,4⟩, ⟨2,5⟩, ⟨3,5⟩, ⟨4,5⟩], ⟨⟨6,7⟩, [tW, tW, tW, tW, tW, tW, tW, tW, tE, tE, tE, tG, tE, tW, tW, tE, tE, tG, tF, tG, tW, tW, tE, tW, tE, tW, tG, tW, tW, tE, tE, tE, tW, tF, tW, tW, tE, tE, tE, tE, tE, tW, tW, tW, tW, tW, tW, tW, tW], [(⟨3,5⟩, ⟨Team.Gnome,172,3⟩), (⟨4,5⟩, ⟨Team.Elf,194,14⟩), (⟨2,4⟩, ⟨Team.Elf,188,14⟩), (⟨2,3⟩, ⟨Team.Gnome,200,3⟩), (⟨2,5⟩, ⟨Team.Gnome,172,3⟩), (⟨1,4⟩, ⟨Team.Gnome,200,3⟩)]⟩, 0⟩, ⟨7, 4398046511103, 4363416223614, 2181708111807⟩, ⟨2134082950912, 67766272, 8590196736⟩⟩

def s14r3 : FastGame := ⟨⟨3, [⟨1,4⟩, ⟨2,3⟩, ⟨2,4⟩, ⟨2,5⟩, ⟨3,5⟩, ⟨4,5⟩], ⟨⟨6,7⟩, [tW, tW, tW, tW, tW, tW, tW, tW, tE, tE, tE, tG, tE, tW, tW, tE, tE, tG, tF, tG, tW, tW, tE, tW, tE, tW, tG, tW, tW, tE, tE, tE, tW, tF, tW, tW, tE, tE, tE, tE, tE, tW, tW, tW, tW, tW, tW, tW, tW], [(⟨3,5⟩, ⟨Team.Gnome,158,3⟩), (⟨4,5⟩, ⟨Team.Elf,191,14⟩), (⟨2,4⟩, ⟨Team.Elf,179,14⟩), (⟨2,5⟩, ⟨Team.Gnome,158,3⟩), (⟨2,3⟩, ⟨Team.Gnome,200,3⟩), (⟨1,4⟩, ⟨Team.Gnome,200,3⟩)]⟩, 0⟩, ⟨7, 4398046511103, 4363416223614, 2181708111807⟩, ⟨2134082950912, 67766272, 8590196736⟩⟩

def s14r4 : FastGame := ⟨⟨4, [⟨1,4⟩, ⟨2,3⟩, ⟨2,4⟩, ⟨2,5⟩, ⟨3,5⟩, ⟨4,5⟩], ⟨⟨6,7⟩, [tW, tW, tW, tW, tW, tW, tW, tW, tE, tE, tE, tG, tE, tW, tW, tE, tE, tG, tF, tG, tW, tW, tE, tW, tE, tW, tG, tW, tW, tE, tE, tE, tW, tF, tW, tW, tE, tE, tE, tE, tE, tW, tW, tW, tW, tW, tW, tW, tW], [(⟨3,5⟩, ⟨Team.Gnome,144,3⟩), (⟨4,5⟩, ⟨Team.Elf,188,14⟩), (⟨2,4⟩, ⟨Team.Elf,170,14⟩), (⟨2,5⟩, ⟨Team.Gnome,144,3⟩), (⟨2,3⟩, ⟨Team.Gnome,200,3⟩), (⟨1,4⟩, ⟨Team.Gnome,200,3⟩)]⟩, 0⟩, ⟨7, 4398046511103, 4363416223614, 2181708111807⟩, ⟨2134082950912, 67766272, 8590196736⟩⟩

def s14r5 : FastGame := ⟨⟨5, [⟨1,4⟩, ⟨2,3⟩, ⟨2,4⟩, ⟨2,5⟩, ⟨3,5⟩, ⟨4,5⟩], ⟨⟨6,7⟩, [tW, tW, tW, tW, tW, tW, tW, tW, tE, tE, tE, tG, tE, tW, tW, tE, tE, tG, tF, tG, tW, tW, tE, tW, tE, tW, tG, tW, tW, tE, tE, tE, tW, tF, tW, tW, tE, tE, tE, tE, tE, tW, tW, tW, tW, tW, tW, tW, tW], [(⟨3,5⟩, ⟨Team.Gnome,130,3⟩), (⟨4,5⟩, ⟨Team.Elf,185,14⟩), (⟨2,4⟩, ⟨Team.Elf,161,14⟩), (⟨2,5⟩, ⟨Team.Gnome,130,3⟩), (⟨2,3⟩, ⟨Team.Gnome,200,3⟩), (⟨1,4⟩, ⟨Team.Gnome,200,3⟩)]⟩, 0⟩, ⟨7, 4398046511103, 4363416223614, 2181708111807⟩, ⟨2134082950912, 67766272, 8590196736⟩⟩

def s14r6 : FastGame := ⟨⟨6, [⟨1,4⟩, ⟨2,3⟩, ⟨2,4⟩, ⟨2,5⟩, ⟨3,5⟩, ⟨4,5⟩], ⟨⟨6,7⟩, [tW, tW, tW, tW, tW, tW, tW, tW, tE, tE, tE, tG, tE, tW, tW, tE, tE, tG, tF, tG, tW, tW, tE, tW, tE, tW, tG, tW, tW, tE, tE, tE, tW, tF, tW, tW, tE, tE, tE, tE, tE, tW, tW, tW, tW, tW, tW, tW, tW], [(⟨3,5⟩, ⟨Team.Gnome,116,3⟩), (⟨4,5⟩, ⟨Team.Elf,182,14⟩), (⟨2,4⟩, ⟨Team.Elf,152,14⟩), (⟨2,5⟩, ⟨Team.Gnome,116,3⟩), (⟨2,3⟩, ⟨Team.Gnome,200,3⟩), (⟨1,4⟩, ⟨Team.Gnome,200,3⟩)]⟩, 0⟩, ⟨7, 4398046511103, 4363416223614, 2181708111807⟩, ⟨2134082950912, 67766272, 8590196736⟩⟩

def s14r7 : FastGame := ⟨⟨7, [⟨1,4⟩, ⟨2,3⟩, ⟨2,4⟩, ⟨2,5⟩, ⟨3,5⟩, ⟨4,5⟩], ⟨⟨6,7⟩, [tW, tW, tW, tW, tW, tW, tW, tW, tE, tE, tE, tG, tE, tW, tW, tE, tE, tG, tF, tG, tW, tW, tE, tW, tE, tW, tG, tW, tW, tE, tE, tE, tW, tF, tW, tW, tE, tE, tE, tE, tE, tW, tW, tW, tW, tW, tW, tW, tW], [(⟨3,5⟩, ⟨Team.Gnome,102,3⟩), (⟨4,5⟩, ⟨Team.Elf,179,14⟩), (⟨2,4⟩, ⟨Team.Elf,143,14⟩), (⟨2,5⟩, ⟨Team.Gnome,102,3⟩), (⟨2,3⟩, ⟨Team.Gnome,200,3⟩), (⟨1,4⟩, ⟨Team.Gnome,200,3⟩)]⟩, 0⟩, ⟨7, 4398046511103, 4363416223614, 2181708111807⟩, ⟨2134082950912, 67766272, 8590196736⟩⟩

def s14r8 : FastGame := ⟨⟨8, [⟨1,4⟩, ⟨2,3⟩, ⟨2,4⟩, ⟨2,5⟩, ⟨3,5⟩, ⟨4,5⟩], ⟨⟨6,7⟩, [tW, tW, tW, tW, tW, tW, tW, tW, tE, tE, tE, tG, tE, tW, tW, tE, tE, tG, tF, tG, tW, tW, tE, tW, tE, tW, tG, tW, tW, tE, tE, tE, tW, tF, tW, tW, tE, tE, tE, tE, tE, tW, tW, tW, tW, tW, tW, tW, tW], [(⟨3,5⟩, ⟨Team.Gnome,88,3⟩), (⟨4,5⟩, ⟨Team.Elf,176,14⟩), (⟨2,4⟩, ⟨Team.Elf,134,14⟩), (⟨2,5⟩, ⟨Team.Gnome,88,3⟩), (⟨2,3⟩, ⟨Team.Gnome,200,3⟩), (⟨1,4⟩, ⟨Team.Gnome,200,3⟩)]⟩, 0⟩, ⟨7, 4398046511103, 4363416223614, 2181708111807⟩, ⟨2134082950912, 67766272, 8590196736⟩⟩

def s14r9 : FastGame := ⟨⟨9, [⟨1,4⟩, ⟨2,3⟩, ⟨2,4⟩, ⟨2,5⟩, ⟨3,5⟩, ⟨4,5⟩], ⟨⟨6,7⟩, [tW, tW, tW, tW, tW, tW, tW, tW, tE, tE, tE, tG, tE, tW, tW, tE, tE, tG, tF, tG, tW, tW, tE, tW, tE, tW, tG, tW, tW, tE, tE, tE, tW, tF, tW, tW, tE, tE, tE, tE, tE, tW, tW, tW, tW, tW, tW, tW, tW], [(⟨3,5⟩, ⟨Team.Gnome,74,3⟩), (⟨4,5⟩, ⟨Team.Elf,173,14⟩), (⟨2,4⟩, ⟨Team.Elf,125,14⟩), (⟨2,5⟩, ⟨Team.Gnome,74,3⟩), (⟨2,3⟩, ⟨Team.Gnome,200,3⟩), (⟨1,4⟩, ⟨Team.Gnome,200,3⟩)]⟩, 0⟩, ⟨7, 4398046511103, 4363416223614, 2181708111807⟩, ⟨2134082950912, 67766272, 8590196736⟩⟩

def s14r10 : FastGame := ⟨⟨10, [⟨1,4⟩, ⟨2,3⟩, ⟨2,4⟩, ⟨2,5⟩, ⟨3,5⟩, ⟨4,5⟩], ⟨⟨6,7⟩, [tW, tW, tW, tW, tW, tW, tW, tW, tE, tE, tE, tG, tE, tW, tW, tE, tE, tG, tF, tG, tW, tW, tE, tW, tE, tW, tG, tW, tW, tE, tE, tE, tW, tF, tW, tW, tE, tE, tE, tE, tE, tW, tW, tW, tW, tW, tW, tW, tW], [(⟨3,5⟩, ⟨Team.Gnome,60,3⟩), (⟨4,5⟩, ⟨Team.Elf,170,14⟩), (⟨2,4⟩, ⟨Team.Elf,116,14⟩), (⟨2,5⟩, ⟨Team.Gnome,60,3⟩), (⟨2,3⟩, ⟨Team.Gnome,200,3⟩), (⟨1,4⟩, ⟨Team.Gnome,200,3⟩)]⟩, 0⟩, ⟨7, 4398046511103, 4363416223614, 2181708111807⟩, ⟨2134082950912, 67766272, 8590196736⟩⟩

def s14r11 : FastGame := ⟨⟨11, [⟨1,4⟩, ⟨2,3⟩, ⟨2,4⟩, ⟨2,5⟩, ⟨3,5⟩, ⟨4,5⟩], ⟨⟨6,7⟩, [tW, tW, tW, tW, tW, tW, tW, tW, tE, tE, tE, tG, tE, tW, tW, tE, tE, tG, tF, tG, tW, tW, tE, tW, tE, tW, tG, tW, tW, tE, tE, tE, tW, tF, tW, tW, tE, tE, tE, tE, tE, tW, tW, tW, tW, tW, tW, tW, tW], [(⟨3,5⟩, ⟨Team.Gnome,46,3⟩), (⟨4,5⟩, ⟨Team.Elf,167,14⟩), (⟨2,4⟩, ⟨Team.Elf,107,14⟩), (⟨2,5⟩, ⟨Team.Gnome,46,3⟩), (⟨2,3⟩, ⟨Team.Gnome,200,3⟩), (⟨1,4⟩, ⟨Team.Gnome,200,3⟩)]⟩, 0⟩, ⟨7, 4398046511103, 4363416223614, 2181708111807⟩, ⟨2134082950912, 67766272, 8590196736⟩⟩

def s14r12 : FastGame := ⟨⟨12, [⟨1,4⟩, ⟨2,3⟩, ⟨2,4⟩, ⟨2,5⟩, ⟨3,5⟩, ⟨4,5⟩], ⟨⟨6,7⟩, [tW, tW, tW, tW, tW, tW, tW, tW, tE, tE, tE, tG, tE, tW, tW, tE, tE, tG, tF, tG, tW, tW, tE, tW, tE, tW, tG, tW, tW, tE, tE, tE, tW, tF, tW, tW, tE, tE, tE, tE, tE, tW, tW, tW, tW, tW, tW, tW, tW], [(⟨3,5⟩, ⟨Team.Gnome,32,3⟩), (⟨4,5⟩, ⟨Team.Elf,164,14⟩), (⟨2,4⟩, ⟨Team.Elf,98,14⟩), (⟨2,5⟩, ⟨Team.Gnome,32,3⟩), (⟨2,3⟩, ⟨Team.Gnome,200,3⟩), (⟨1,4⟩, ⟨Team.Gnome,200,3⟩)]⟩, 0⟩, ⟨7, 4398046511103, 4363416223614, 2181708111807⟩, ⟨2134082950912, 67766272, 8590196736⟩⟩

def s14r13 : FastGame := ⟨⟨13, [⟨1,4⟩, ⟨2,3⟩, ⟨2,4⟩, ⟨2,5⟩, ⟨3,5⟩, ⟨4,5⟩], ⟨⟨6,7⟩, [tW, tW, tW, tW, tW, tW, tW, tW, tE, tE, tE, tG, tE, tW, tW, tE, tE, tG, tF, tG, tW, tW, tE, tW, tE, tW, tG, tW, tW, tE, tE, tE, tW, tF, tW, tW, tE, tE, tE, tE, tE, tW, tW, tW, tW, tW, tW, tW, tW], [(⟨3,5⟩, ⟨Team.Gnome,18,3⟩), (⟨4,5⟩, ⟨Team.Elf,161,14⟩), (⟨2,4⟩, ⟨Team.Elf,89,14⟩), (⟨2,5⟩, ⟨Team.Gnome,18,3⟩), (⟨2,3⟩, ⟨Team.Gnome,200,3⟩), (⟨1,4⟩, ⟨Team.Gnome,200,3⟩)]⟩, 0⟩, ⟨7, 4398046511103, 4363416223614, 2181708111807⟩, ⟨2134082950912, 67766272, 8590196736⟩⟩

def s14r14 : FastGame := ⟨⟨14, [⟨1,4⟩, ⟨2,3⟩, ⟨2,4⟩, ⟨2,5⟩, ⟨3,5⟩, ⟨4,5⟩], ⟨⟨6,7⟩, [tW, tW, tW, tW, tW, tW, tW, tW, tE, tE, tE, tG, tE, tW, tW, tE, tE, tG, tF, tG, tW, tW, tE, tW, tE, tW, tG, tW, tW, tE, tE, tE, tW, tF, tW, tW, tE, tE, tE, tE, tE, tW, tW, tW, tW, tW, tW, tW, tW], [(⟨3,5⟩, ⟨Team.Gnome,4,3⟩), (⟨4,5⟩, ⟨Team.Elf,158,14⟩), (⟨2,4⟩, ⟨Team.Elf,80,14⟩), (⟨2,5⟩, ⟨Team.Gnome,4,3⟩), (⟨2,3⟩, ⟨Team.Gnome,200,3⟩), (⟨1,4⟩, ⟨Team.Gnome,200,3⟩)]⟩, 0⟩, ⟨7, 4398046511103, 4363416223614, 2181708111807⟩, ⟨2134082950912, 67766272, 8590196736⟩⟩

def s14r15 : FastGame := ⟨⟨15, [⟨1,4⟩, ⟨2,3⟩, ⟨2,4⟩, ⟨4,5⟩], ⟨⟨6,7⟩, [tW, tW, tW, tW, tW, tW, tW, tW, tE, tE, tE, tG, tE, tW, tW, tE, tE, tG, tF, tE, tW, tW, tE, tW, tE, tW, tE, tW, tW, tE, tE, tE, tW, tF, tW, tW, tE, tE, tE, tE, tE, tW, tW, tW, tW, tW, tW, tW, tW], [(⟨4,5⟩, ⟨Team.Elf,155,14⟩), (⟨2,4⟩, ⟨Team.Elf,74,14⟩), (⟨2,3⟩, ⟨Team.Gnome,200,3⟩), (⟨1,4⟩, ⟨Team.Gnome,200,3⟩)]⟩, 0⟩, ⟨7, 4398046511103, 4363416223614, 2181708111807⟩, ⟨2134150584064, 133120, 8590196736⟩⟩

def s14r16 : FastGame := ⟨⟨16, [⟨1,4⟩, ⟨2,3⟩, ⟨2,4⟩, ⟨3,5⟩], ⟨⟨6,7⟩, [tW, tW, tW, tW, tW, tW, tW, tW, tE, tE, tE, tG, tE, tW, tW, tE, tE, tG, tF, tE, tW, tW, tE, tW, tE, tW, tF, tW, tW, tE, tE, tE, tW, tE, tW, tW, tE, tE, tE, tE, tE, tW, tW, tW, tW, tW, tW, tW, tW], [(⟨3,5⟩, ⟨Team.Elf,155,14⟩), (⟨1,4⟩, ⟨Team.Gnome,186,3⟩), (⟨2,4⟩, ⟨Team.Elf,68,14⟩), (⟨2,3⟩, ⟨Team.Gnome,200,3⟩)]⟩, 0⟩, ⟨7, 4398046511103, 4363416223614, 2181708111807⟩, ⟨2142673409792, 133120, 67371008⟩⟩

def s14r17 : FastGame := ⟨⟨17, [⟨1,4⟩, ⟨2,3⟩, ⟨2,4⟩, ⟨2,5⟩], ⟨⟨6,7⟩, [tW, tW, tW, tW, tW, tW, tW, tW, tE, tE, tE, tG, tE, tW, tW, tE, tE, tG, tF, tF, tW, tW, tE, tW, tE, tW, tE, tW, tW, tE, tE, tE, tW, tE, tW, tW, tE, tE, tE, tE, tE, tW, tW, tW, tW, tW, tW, tW, tW], [(⟨2,5⟩, ⟨Team.Elf,155,14⟩), (⟨1,4⟩, ⟨Team.Gnome,172,3⟩), (⟨2,4⟩, ⟨Team.Elf,62,14⟩), (⟨2,3⟩, ⟨Team.Gnome,200,3⟩)]⟩, 0⟩, ⟨7, 4398046511103, 4363416223614, 2181708111807⟩, ⟨2142739994368, 133120, 786432⟩⟩

def s14r18 : FastGame := ⟨⟨18, [⟨1,4⟩, ⟨1,5⟩, ⟨2,3⟩, ⟨2,4⟩], ⟨⟨6,7⟩, [tW, tW, tW, tW, tW, tW, tW, tW, tE, tE, tE, tG, tF, tW, tW, tE, tE, tG, tF, tE, tW, tW, tE, tW, tE, tW, tE, tW, tW, tE, tE, tE, tW, tE, tW, tW, tE, tE, tE, tE, tE, tW, tW, tW, tW, tW, tW, tW, tW], [(⟨1,4⟩, ⟨Team.Gnome,144,3⟩), (⟨1,5⟩, ⟨Team.Elf,155,14⟩), (⟨2,4⟩, ⟨Team.Elf,56,14⟩), (⟨2,3⟩, ⟨Team.Gnome,200,3⟩)]⟩, 0⟩, ⟨7, 4398046511103, 4363416223614, 2181708111807⟩, ⟨2142740514560, 133120, 266240⟩⟩

def s14r19 : FastGame := ⟨⟨19, [⟨1,4⟩, ⟨1,5⟩, ⟨2,3⟩, ⟨2,4⟩], ⟨⟨6,7⟩, [tW, tW, tW, tW, tW, tW, tW, tW, tE, tE, tE, tG, tF, tW, tW, tE, tE, tG, tF, tE, tW, tW, tE, tW, tE, tW, tE, tW, tW, tE, tE, tE, tW, tE, tW, tW, tE, tE, tE, tE, tE, tW, tW, tW, tW, tW, tW, tW, tW], [(⟨1,4⟩, ⟨Team.Gnome,116,3⟩), (⟨2,4⟩, ⟨Team.Elf,50,14⟩), (⟨1,5⟩, ⟨Team.Elf,155,14⟩), (⟨2,3⟩, ⟨Team.Gnome,200,3⟩)]⟩, 0⟩, ⟨7, 4398046511103, 4363416223614, 2181708111807⟩, ⟨2142740514560, 133120, 266240⟩⟩

def s14r20 : FastGame := ⟨⟨20, [⟨1,4⟩, ⟨1,5⟩, ⟨2,3⟩, ⟨2,4⟩], ⟨⟨6,7⟩, [tW, tW, tW, tW, tW, tW, tW, tW, tE, tE, tE, tG, tF, tW, tW, tE, tE, tG, tF, tE, tW, tW, tE, tW, tE, tW, tE, tW, tW, tE, tE, tE, tW, tE, tW, tW, tE, tE, tE, tE, tE, tW, tW, tW, tW, tW, tW, tW, tW], [(⟨1,4⟩, ⟨Team.Gnome,88,3⟩), (⟨2,4⟩, ⟨Team.Elf,44,14⟩), (⟨1,5⟩, ⟨Team.Elf,155,14⟩), (⟨2,3⟩, ⟨Team.Gnome,200,3⟩)]⟩, 0⟩, ⟨7, 4398046511103, 4363416223614, 2181708111807⟩, ⟨2142740514560, 133120, 266240⟩⟩

def s14r21 : FastGame := ⟨⟨21, [⟨1,4⟩, ⟨1,5⟩, ⟨2,3⟩, ⟨2,4⟩], ⟨⟨6,7⟩, [tW, tW, tW, tW, tW, tW, tW, tW, tE, tE, tE, tG, tF, tW, tW, tE, tE, tG, tF, tE, tW, tW, tE, tW, tE, tW, tE, tW, tW, tE, tE, tE, tW, tE, tW, tW, tE, tE, tE, tE, tE, tW, tW, tW, tW, tW, tW, tW, tW], [(⟨1,4⟩, ⟨Team.Gnome,60,3⟩), (⟨2,4⟩, ⟨Team.Elf,38,14⟩), (⟨1,5⟩, ⟨Team.Elf,155,14⟩), (⟨2,3⟩, ⟨Team.Gnome,200,3⟩)]⟩, 0⟩, ⟨7, 4398046511103, 4363416223614, 2181708111807⟩, ⟨2142740514560, 133120, 266240⟩⟩

def s14r22 : FastGame := ⟨⟨22, [⟨1,4⟩, ⟨1,5⟩, ⟨2,3⟩, ⟨2,4⟩], ⟨⟨6,7⟩, [tW, tW, tW, tW, tW, tW, tW, tW, tE, tE, tE, tG, tF, tW, tW, tE, tE, tG, tF, tE, tW, tW, tE, tW, tE, tW, tE, tW, tW, tE, tE, tE, tW, tE, tW, tW, tE, tE, tE, tE, tE, tW, tW, tW, tW, tW, tW, tW, tW], [(⟨1,4⟩, ⟨Team.Gnome,32,3⟩), (⟨2,4⟩, ⟨Team.Elf,32,14⟩), (⟨1,5⟩, ⟨Team.Elf,155,14⟩), (⟨2,3⟩, ⟨Team.Gnome,200,3⟩)]⟩, 0⟩, ⟨7, 4398046511103, 4363416223614, 2181708111807⟩, ⟨2142740514560, 133120, 266240⟩⟩

def s14r23 : FastGame := ⟨⟨23, [⟨1,4⟩, ⟨1,5⟩, ⟨2,3⟩, ⟨2,4⟩], ⟨⟨6,7⟩, [tW, tW, tW, tW, tW, tW, tW, tW, tE, tE, tE, tG, tF, tW, tW, tE, tE, tG, tF, tE, tW, tW, tE, tW, tE, tW, tE, tW, tW, tE, tE, tE, tW, tE, tW, tW, tE, tE, tE, tE, tE, tW, tW, tW, tW, tW, tW, tW, tW], [(⟨1,4⟩, ⟨Team.Gnome,4,3⟩), (⟨2,4⟩, ⟨Team.Elf,26,14⟩), (⟨1,5⟩, ⟨Team.Elf,155,14⟩), (⟨2,3⟩, ⟨Team.Gnome,200,3⟩)]⟩, 0⟩, ⟨7, 4398046511103, 4363416223614, 2181708111807⟩, ⟨2142740514560, 133120, 266240⟩⟩

def s14r24 : FastGame := ⟨⟨24, [⟨1,5⟩, ⟨2,3⟩, ⟨2,4⟩], ⟨⟨6,7⟩, [tW, tW, tW, tW, tW, tW, tW, tW, tE, tE, tE, tE, tF, tW, tW, tE, tE, tG, tF, tE, tW, tW, tE, tW, tE, tW, tE, tW, tW, tE, tE, tE, tW, tE, tW, tW, tE, tE, tE, tE, tE, tW, tW, tW, tW, tW, tW, tW, tW], [(⟨2,3⟩, ⟨Team.Gnome,186,3⟩), (⟨2,4⟩, ⟨Team.Elf,20,14⟩), (⟨1,5⟩, ⟨Team.Elf,155,14⟩)]⟩, 0⟩, ⟨7, 4398046511103, 4363416223614, 2181708111807⟩, ⟨2142740516608, 131072, 266240⟩⟩

def s14r25 : FastGame := ⟨⟨25, [⟨1,4⟩, ⟨2,3⟩, ⟨2,4⟩], ⟨⟨6,7⟩, [tW, tW, tW, tW, tW, tW, tW, tW, tE, tE, tE, tF, tE, tW, tW, tE, tE, tG, tF, tE, tW, tW, tE, tW, tE, tW, tE, tW, tW, tE, tE, tE, tW, tE, tW, tW, tE, tE, tE, tE, tE, tW, tW, tW, tW, tW, tW, tW, tW], [(⟨2,3⟩, ⟨Team.Gnome,172,3⟩), (⟨2,4⟩, ⟨Team.Elf,17,14⟩), (⟨1,4⟩, ⟨Team.Elf,155,14⟩)]⟩, 0⟩, ⟨7, 4398046511103, 4363416223614, 2181708111807⟩, ⟨2142740518656, 131072, 264192⟩⟩

def s14r26 : FastGame := ⟨⟨26, [⟨1,3⟩, ⟨2,3⟩, ⟨2,4⟩], ⟨⟨6,7⟩, [tW, tW, tW, tW, tW, tW, tW, tW, tE, tE, tF, tE, tE, tW, tW, tE, tE, tG, tF, tE, tW, tW, tE, tW, tE, tW, tE, tW, tW, tE, tE, tE, tW, tE, tW, tW, tE, tE, tE, tE, tE, tW, tW, tW, tW, tW, tW, tW, tW], [(⟨2,3⟩, ⟨Team.Gnome,144,3⟩), (⟨2,4⟩, ⟨Team.Elf,14,14⟩), (⟨1,3⟩, ⟨Team.Elf,155,14⟩)]⟩, 0⟩, ⟨7, 4398046511103, 4363416223614, 2181708111807⟩, ⟨2142740519680, 131072, 263168⟩⟩

def s14r27 : FastGame := ⟨⟨27, [⟨1,3⟩, ⟨2,3⟩, ⟨2,4⟩], ⟨⟨6,7⟩, [tW, tW, tW, tW, tW, tW, tW, tW, tE, tE, tF, tE, tE, tW, tW, tE, tE, tG, tF, tE, tW, tW, tE, tW, tE, tW, tE, tW, tW, tE, tE, tE, tW, tE, tW, tW, tE, tE, tE, tE, tE, tW, tW, tW, tW, tW, tW, tW, tW], [(⟨2,3⟩, ⟨Team.Gnome,116,3⟩), (⟨2,4⟩, ⟨Team.Elf,11,14⟩), (⟨1,3⟩, ⟨Team.Elf,155,14⟩)]⟩, 0⟩, ⟨7, 4398046511103, 4363416223614, 2181708111807⟩, ⟨2142740519680, 131072, 263168⟩⟩

def s14r28 : FastGame := ⟨⟨28, [⟨1,3⟩, ⟨2,3⟩, ⟨2,4⟩], ⟨⟨6,7⟩, [tW, tW, tW, tW, tW, tW, tW, tW, tE, tE, tF, tE, tE, tW, tW, tE, tE, tG, tF, tE, tW, tW, tE, tW, tE, tW, tE, tW, tW, tE, tE, tE, tW, tE, tW, tW, tE, tE, tE, tE, tE, tW, tW, tW, tW, tW, tW, tW, tW], [(⟨2,3⟩, ⟨Team.Gnome,88,3⟩), (⟨2,4⟩, ⟨Team.Elf,8,14⟩), (⟨1,3⟩, ⟨Team.Elf,155,14⟩)]⟩, 0⟩, ⟨7, 4398046511103, 4363416223614, 2181708111807⟩, ⟨2142740519680, 131072, 263168⟩⟩

def s14r29 : FastGame := ⟨⟨29, [⟨1,3⟩, ⟨2,3⟩, ⟨2,4⟩], ⟨⟨6,7⟩, [tW, tW, tW, tW, tW, tW, tW, tW, tE, tE, tF, tE, tE, tW, tW, tE, tE, tG, tF, tE, tW, tW, tE, tW, tE, tW, tE, tW, tW, tE, tE, tE, tW, tE, tW, tW, tE, tE, tE, tE, tE, tW, tW, tW, tW, tW, tW, tW, tW], [(⟨2,3⟩, ⟨Team.Gnome,60,3⟩), (⟨2,4⟩, ⟨Team.Elf,5,14⟩), (⟨1,3⟩, ⟨Team.Elf,155,14⟩)]⟩, 0⟩, ⟨7, 4398046511103, 4363416223614, 2181708111807⟩, ⟨2142740519680, 131072, 263168⟩⟩

def s14r30 : FastGame := ⟨⟨30, [⟨1,3⟩, ⟨2,3⟩, ⟨2,4⟩], ⟨⟨6,7⟩, [tW, tW, tW, tW, tW, tW, tW, tW, tE, tE, tF, tE, tE, tW, tW, tE, tE, tG, tF, tE, tW, tW, tE, tW, tE, tW, tE, tW, tW, tE, tE, tE, tW, tE, tW, tW, tE, tE, tE, tE, tE, tW, tW, tW, tW, tW, tW, tW, tW], [(⟨2,3⟩, ⟨Team.Gnome,32,3⟩), (⟨2,4⟩, ⟨Team.Elf,2,14⟩), (⟨1,3⟩, ⟨Team.Elf,155,14⟩)]⟩, 0⟩, ⟨7, 4398046511103, 4363416223614, 2181708111807⟩, ⟨2142740519680, 131072, 263168⟩⟩

def s14r31 : FastGame := ⟨⟨31, [⟨1,3⟩, ⟨2,3⟩], ⟨⟨6,7⟩, [tW, tW, tW, tW, tW, tW, tW, tW, tE, tE, tF, tE, tE, tW, tW, tE, tE, tG, tE, tE, tW, tW, tE, tW, tE, tW, tE, tW, tW, tE, tE, tE, tW, tE, tW, tW, tE, tE, tE, tE, tE, tW, tW, tW, tW, tW, tW, tW, tW], [(⟨2,3⟩, ⟨Team.Gnome,18,3⟩), (⟨1,3⟩, ⟨Team.Elf,155,14⟩)]⟩, 1⟩, ⟨7, 4398046511103, 4363416223614, 2181708111807⟩, ⟨2142740781824, 131072, 1024⟩⟩

def s14r32 : FastGame := ⟨⟨32, [⟨1,3⟩, ⟨2,3⟩], ⟨⟨6,7⟩, [tW, tW, tW, tW, tW, tW, tW, tW, tE, tE, tF, tE, tE, tW, tW, tE, tE, tG, tE, tE, tW, tW, tE, tW, tE, tW, tE, tW, tW, tE, tE, tE, tW, tE, tW, tW, tE, tE, tE, tE, tE, tW, tW, tW, tW, tW, tW, tW, tW], [(⟨1,3⟩, ⟨Team.Elf,152,14⟩), (⟨2,3⟩, ⟨Team.Gnome,4,3⟩)]⟩, 1⟩, ⟨7, 4398046511103, 4363416223614, 2181708111807⟩, ⟨2142740781824, 131072, 1024⟩⟩

def s14r33 : FastGame := ⟨⟨33, [⟨1,3⟩], ⟨⟨6,7⟩, [tW, tW, tW, tW, tW, tW, tW, tW, tE, tE, tF, tE, tE, tW, tW, tE, tE, tE, tE, tE, tW, tW, tE, tW, tE, tW, tE, tW, tW, tE, tE, tE, tW, tE, tW, tW, tE, tE, tE, tE, tE, tW, tW, tW, tW, tW, tW, tW, tW], [(⟨1,3⟩, ⟨Team.Elf,152,14⟩)]⟩, 1⟩, ⟨7, 4398046511103, 4363416223614, 2181708111807⟩, ⟨2142740912896, 0, 1024⟩⟩

def s14r34 : FastGame := ⟨⟨33, [], ⟨⟨6,7⟩, [tW, tW, tW, tW, tW, tW, tW, tW, tE, tE, tF, tE, tE, tW, tW, tE, tE, tE, tE, tE, tW, tW, tE, tW, tE, tW, tE, tW, tW, tE, tE, tE, tW, tE, tW, tW, tE, tE, tE, tE, tE, tW, tW, tW, tW, tW, tW, tW, tW], [(⟨1,3⟩, ⟨Team.Elf,152,14⟩)]⟩, 1⟩, ⟨7, 4398046511103, 4363416223614, 2181708111807⟩, ⟨2142740912896, 0, 1024⟩⟩

-- power 15: 31 states
def s15r0 : FastGame := ⟨⟨0, [⟨1,2⟩, ⟨2,4⟩, ⟨2,5⟩, ⟨3,5⟩, ⟨4,3⟩, ⟨4,5⟩], ⟨⟨6,7⟩, [tW, tW, tW, tW, tW, tW, tW, tW, tE, tG, tE, tE, tE, tW, tW, tE, tE, tE, tF, tG, tW, tW, tE, tW, tE, tW, tG, tW, tW, tE, tE, tG, tW, tF, tW, tW, tE, tE, tE, tE, tE, tW, tW, tW, tW, tW, tW, tW, tW], [(⟨4,5⟩, ⟨Team.Elf,200,15⟩), (⟨4,3⟩, ⟨Team.Gnome,200,3⟩), (⟨3,5⟩, ⟨Team.Gnome,200,3⟩), (⟨2,5⟩, ⟨Team.Gnome,200,3⟩), (⟨2,4⟩, ⟨Team.Elf,200,15⟩), (⟨1,2⟩, ⟨Team.Gnome,200,3⟩)]⟩, 0⟩, ⟨7, 4398046511103, 4363416223614, 2181708111807⟩, ⟨2131935599872, 2215117312, 8590196736⟩⟩

def s15r1 : FastGame := ⟨⟨1, [⟨1,3⟩, ⟨2,4⟩, ⟨2,5⟩, ⟨3,3⟩, ⟨3,5⟩, ⟨4,5⟩], ⟨⟨6,7⟩, [tW, tW, tW, tW, tW, tW, tW, tW, tE, tE, tG, tE, tE, tW, tW, tE, tE, tE, tF, tG, tW, tW, tE, tW, tG, tW, tG, tW, tW, tE, tE, tE, tW, tF, tW, tW, tE, tE, tE, tE, tE, tW, tW, tW, tW, tW, tW, tW, tW], [(⟨3,5⟩, ⟨Team.Gnome,185,3⟩), (⟨3,3⟩, ⟨Team.Gnome,200,3⟩), (⟨4,5⟩, ⟨Team.Elf,197,15⟩), (⟨2,4⟩, ⟨Team.Elf,197,15⟩), (⟨2,5⟩, ⟨Team.Gnome,185,3⟩), (⟨1,3⟩, ⟨Team.Gnome,200,3⟩)]⟩, 0⟩, ⟨7, 4398046511103, 4363416223614, 2181708111807⟩, ⟨2134066305792, 84411392, 8590196736⟩⟩

def s15r2 : FastGame := ⟨⟨2, [⟨1,4⟩, ⟨2,3⟩, ⟨2,4⟩, ⟨2,5⟩, ⟨3,5⟩, ⟨4,5⟩], ⟨⟨6,7⟩, [tW, tW, tW, tW, tW, tW, tW, tW, tE, tE, tE, tG, tE, tW, tW, tE, tE, tG, tF, tG, tW, tW, tE, tW, tE, tW, tG, tW, tW, tE, tE, tE, tW, tF, tW, tW, tE, tE, tE, tE, tE, tW, tW, tW, tW, tW, tW, tW, tW], [(⟨3,5⟩, ⟨Team.Gnome,170,3⟩), (⟨4,5⟩, ⟨Team.Elf,194,15⟩), (⟨2,4⟩, ⟨Team.Elf,188,15⟩), (⟨2,3⟩, ⟨Team.Gnome,200,3⟩), (⟨2,5⟩, ⟨Team.Gnome,170,3⟩), (⟨1,4⟩, ⟨Team.Gnome,200,3⟩)]⟩, 0⟩, ⟨7, 4398046511103, 4363416223614, 2181708111807⟩, ⟨2134082950912, 67766272, 8590196736⟩⟩

def s15r3 : FastGame := ⟨⟨3, [⟨1,4⟩, ⟨2,3⟩, ⟨2,4⟩, ⟨2,5⟩, ⟨3,5⟩, ⟨4,5⟩], ⟨⟨6,7⟩, [tW, tW, tW, tW, tW, tW, tW, tW, tE, tE, tE, tG, tE, tW, tW, tE, tE, tG, tF, tG, tW, tW, tE, tW, tE, tW, tG, tW, tW, tE, tE, tE, tW, tF, tW, tW, tE, tE, tE, tE, tE, tW, tW, tW, tW, tW, tW, tW, tW], [(⟨3,5⟩, ⟨Team.Gnome,155,3⟩), (⟨4,5⟩, ⟨Team.Elf,191,15⟩), (⟨2,4⟩, ⟨Team.Elf,179,15⟩), (⟨2,5⟩, ⟨Team.Gnome,155,3⟩), (⟨2,3⟩, ⟨Team.Gnome,200,3⟩), (⟨1,4⟩, ⟨Team.Gnome,200,3⟩)]⟩, 0⟩, ⟨7, 4398046511103, 4363416223614, 2181708111807⟩, ⟨2134082950912, 67766272, 8590196736⟩⟩

def s15r4 : FastGame := ⟨⟨4, [⟨1,4⟩, ⟨2,3⟩, ⟨2,4⟩, ⟨2,5⟩, ⟨3,5⟩, ⟨4,5⟩], ⟨⟨6,7⟩, [tW, tW, tW, tW, tW, tW, tW, tW, tE, tE, tE, tG, tE, tW, tW, tE, tE, tG, tF, tG, tW, tW, tE, tW, tE, tW, tG, tW, tW, tE, tE, tE, tW, tF, tW, tW, tE, tE, tE, tE, tE, tW, tW, tW, tW, tW, tW, tW, tW], [(⟨3,5⟩, ⟨Team.Gnome,140,3⟩), (⟨4,5⟩, ⟨Team.Elf,188,15⟩), (⟨2,4⟩, ⟨Team.Elf,170,15⟩), (⟨2,5⟩, ⟨Team.Gnome,140,3⟩), (⟨2,3⟩, ⟨Team.Gnome,200,3⟩), (⟨1,4⟩, ⟨Team.Gnome,200,3⟩)]⟩, 0⟩, ⟨7, 4398046511103, 4363416223614, 2181708111807⟩, ⟨2134082950912, 67766272, 8590196736⟩⟩

def s15r5 : FastGame := ⟨⟨5, [⟨1,4⟩, ⟨2,3⟩, ⟨2,4⟩, ⟨2,5⟩, ⟨3,5⟩, ⟨4,5⟩], ⟨⟨6,7⟩, [tW, tW, tW, tW, tW, tW, tW, tW, tE, tE, tE, tG, tE, tW, tW, tE, tE, tG, tF, tG, tW, tW, tE, tW, tE, tW, tG, tW, tW, tE, tE, tE, tW, tF, tW, tW, tE, tE, tE, tE, tE, tW, tW, tW, tW, tW, tW, tW, tW], [(⟨3,5⟩, ⟨Team.Gnome,125,3⟩), (⟨4,5⟩, ⟨Team.Elf,185,15⟩), (⟨2,4⟩, ⟨Team.Elf,161,15⟩), (⟨2,5⟩, ⟨Team.Gnome,125,3⟩), (⟨2,3⟩, ⟨Team.Gnome,200,3⟩), (⟨1,4⟩, ⟨Team.Gnome,200,3⟩)]⟩, 0⟩, ⟨7, 4398046511103, 4363416223614, 2181708111807⟩, ⟨2134082950912, 67766272, 8590196736⟩⟩

def s15r6 : FastGame := ⟨⟨6, [⟨1,4⟩, ⟨2,3⟩, ⟨2,4⟩, ⟨2,5⟩, ⟨3,5⟩, ⟨4,5⟩], ⟨⟨6,7⟩, [tW, tW, tW, tW, tW, tW, tW, tW, tE, tE, tE, tG, tE, tW, tW, tE, tE, tG, tF, tG, tW, tW, tE, tW, tE, tW, tG, tW, tW, tE, tE, tE, tW, tF, tW, tW, tE, tE, tE, tE, tE, tW, tW, tW, tW, tW, tW, tW, tW], [(⟨3,5⟩, ⟨Team.Gnome,110,3⟩), (⟨4,5⟩, ⟨Team.Elf,182,15⟩), (⟨2,4⟩, ⟨Team.Elf,152,15⟩), (⟨2,5⟩, ⟨Team.Gnome,110,3⟩), (⟨2,3⟩, ⟨Team.Gnome,200,3⟩), (⟨1,4⟩, ⟨Team.Gnome,200,3⟩)]⟩, 0⟩, ⟨7, 4398046511103, 4363416223614, 2181708111807⟩, ⟨2134082950912, 67766272, 8590196736⟩⟩

def s15r7 : FastGame := ⟨⟨7, [⟨1,4⟩, ⟨2,3⟩, ⟨2,4⟩, ⟨2,5⟩, ⟨3,5⟩, ⟨4,5⟩], ⟨⟨6,7⟩, [tW, tW, tW, tW, tW, tW, tW, tW, tE, tE, tE, tG, tE, tW, tW, tE, tE, tG, tF, tG, tW, tW, tE, tW, tE, tW, tG, tW, tW, tE, tE, tE, tW, tF, tW, tW, tE, tE, tE, tE, tE, tW, tW, tW, tW, tW, tW, tW, tW], [(⟨3,5⟩, ⟨Team.Gnome,95,3⟩), (⟨4,5⟩, ⟨Team.Elf,179,15⟩), (⟨2,4⟩, ⟨Team.Elf,143,15⟩), (⟨2,5⟩, ⟨Team.Gnome,95,3⟩), (⟨2,3⟩, ⟨Team.Gnome,200,3⟩), (⟨1,4⟩, ⟨Team.Gnome,200,3⟩)]⟩, 0⟩, ⟨7, 4398046511103, 4363416223614, 2181708111807⟩, ⟨2134082950912, 67766272, 8590196736⟩⟩

def s15r8 : FastGame := ⟨⟨8, [⟨1,4⟩, ⟨2,3⟩, ⟨2,4⟩, ⟨2,5⟩, ⟨3,5⟩, ⟨4,5⟩], ⟨⟨6,7⟩, [tW, tW, tW, tW, tW, tW, tW, tW, tE, tE, tE, tG, tE, tW, tW, tE, tE, tG, tF, tG, tW, tW, tE, tW, tE, tW, tG, tW, tW, tE, tE, tE, tW, tF, tW, tW, tE, tE, tE, tE, tE, tW, tW, tW, tW, tW, tW, tW, tW], [(⟨3,5⟩, ⟨Team.Gnome,80,3⟩), (⟨4,5⟩, ⟨Team.Elf,176,15⟩), (⟨2,4⟩, ⟨Team.Elf,134,15⟩), (⟨2,5⟩, ⟨Team.Gnome,80,3⟩), (⟨2,3⟩, ⟨Team.Gnome,200,3⟩), (⟨1,4⟩, ⟨Team.Gnome,200,3⟩)]⟩, 0⟩, ⟨7, 4398046511103, 4363416223614, 2181708111807⟩, ⟨2134082950912, 67766272, 8590196736⟩⟩

def s15r9 : FastGame := ⟨⟨9, [⟨1,4⟩, ⟨2,3⟩, ⟨2,4⟩, ⟨2,5⟩, ⟨3,5⟩, ⟨4,5⟩], ⟨⟨6,7⟩, [tW, tW, tW, tW, tW, tW, tW, tW, tE, tE, tE, tG, tE, tW, tW, tE, tE, tG, tF, tG, tW, tW, tE, tW, tE, tW, tG, tW, tW, tE, tE, tE, tW, tF, tW, tW, tE, tE, tE, tE, tE, tW, tW, tW, tW, tW, tW, tW, tW], [(⟨3,5⟩, ⟨Team.Gnome,65,3⟩), (⟨4,5⟩, ⟨Team.Elf,173,15⟩), (⟨2,4⟩, ⟨Team.Elf,125,15⟩), (⟨2,5⟩, ⟨Team.Gnome,65,3⟩), (⟨2,3⟩, ⟨Team.Gnome,200,3⟩), (⟨1,4⟩, ⟨Team.Gnome,200,3⟩)]⟩, 0⟩, ⟨7, 4398046511103, 4363416223614, 2181708111807⟩, ⟨2134082950912, 67766272, 8590196736⟩⟩

def s15r10 : FastGame := ⟨⟨10, [⟨1,4⟩, ⟨2,3⟩, ⟨2,4⟩, ⟨2,5⟩, ⟨3,5⟩, ⟨4,5⟩], ⟨⟨6,7⟩, [tW, tW, tW, tW, tW, tW, tW, tW, tE, tE, tE, tG, tE, tW, tW, tE, tE, tG, tF, tG, tW, tW, tE, tW, tE, tW, tG, tW, tW, tE, tE, tE, tW, tF, tW, tW, tE, tE, tE, tE, tE, tW, tW, tW, tW, tW, tW, tW, tW], [(⟨3,5⟩, ⟨Team.Gnome,50,3⟩), (⟨4,5⟩, ⟨Team.Elf,170,15⟩), (⟨2,4⟩, ⟨Team.Elf,116,15⟩), (⟨2,5⟩, ⟨Team.Gnome,50,3⟩), (⟨2,3⟩, ⟨Team.Gnome,200,3⟩), (⟨1,4⟩, ⟨Team.Gnome,200,3⟩)]⟩, 0⟩, ⟨7, 4398046511103, 4363416223614, 2181708111807⟩, ⟨2134082950912, 67766272, 8590196736⟩⟩

def s15r11 : FastGame := ⟨⟨11, [⟨1,4⟩, ⟨2,3⟩, ⟨2,4⟩, ⟨2,5⟩, ⟨3,5⟩, ⟨4,5⟩], ⟨⟨6,7⟩, [tW, tW, tW, tW, tW, tW, tW, tW, tE, tE, tE, tG, tE, tW, tW, tE, tE, tG, tF, tG, tW, tW, tE, tW, tE, tW, tG, tW, tW, tE, tE, tE, tW, tF, tW, tW, tE, tE, tE, tE, tE, tW, tW, tW, tW, tW, tW, tW, tW], [(⟨3,5⟩, ⟨Team.Gnome,35,3⟩), (⟨4,5⟩, ⟨Team.Elf,167,15⟩), (⟨2,4⟩, ⟨Team.Elf,107,15⟩), (⟨2,5⟩, ⟨Team.Gnome,35,3⟩), (⟨2,3⟩, ⟨Team.Gnome,200,3⟩), (⟨1,4⟩, ⟨Team.Gnome,200,3⟩)]⟩, 0⟩, ⟨7, 4398046511103, 4363416223614, 2181708111807⟩, ⟨2134082950912, 67766272, 8590196736⟩⟩

def s15r12 : FastGame := ⟨⟨12, [⟨1,4⟩, ⟨2,3⟩, ⟨2,4⟩, ⟨2,5⟩, ⟨3,5⟩, ⟨4,5⟩], ⟨⟨6,7⟩, [tW, tW, tW, tW, tW, tW, tW, tW, tE, tE, tE, tG, tE, tW, tW, tE, tE, tG, tF, tG, tW, tW, tE, tW, tE, tW, tG, tW, tW, tE, tE, tE, tW, tF, tW, tW, tE, tE, tE, tE, tE, tW, tW, tW, tW, tW, tW, tW, tW], [(⟨3,5⟩, ⟨Team.Gnome,20,3⟩), (⟨4,5⟩, ⟨Team.Elf,164,15⟩), (⟨2,4⟩, ⟨Team.Elf,98,15⟩), (⟨2,5⟩, ⟨Team.Gnome,20,3⟩), (⟨2,3⟩, ⟨Team.Gnome,200,3⟩), (⟨1,4⟩, ⟨Team.Gnome,200,3⟩)]⟩, 0⟩, ⟨7, 4398046511103, 4363416223614, 2181708111807⟩, ⟨2134082950912, 67766272, 8590196736⟩⟩

def s15r13 : FastGame := ⟨⟨13, [⟨1,4⟩, ⟨2,3⟩, ⟨2,4⟩, ⟨2,5⟩, ⟨3,5⟩, ⟨4,5⟩], ⟨⟨6,7⟩, [tW, tW, tW, tW, tW, tW, tW, tW, tE, tE, tE, tG, tE, tW, tW, tE, tE, tG, tF, tG, tW, tW, tE, tW, tE, tW, tG, tW, tW, tE, tE, tE, tW, tF, tW, tW, tE, tE, tE, tE, tE, tW, tW, tW, tW, tW, tW, tW, tW], [(⟨3,5⟩, ⟨Team.Gnome,5,3⟩), (⟨4,5⟩, ⟨Team.Elf,161,15⟩), (⟨2,4⟩, ⟨Team.Elf,89,15⟩), (⟨2,5⟩, ⟨Team.Gnome,5,3⟩), (⟨2,3⟩, ⟨Team.Gnome,200,3⟩), (⟨1,4⟩, ⟨Team.Gnome,200,3⟩)]⟩, 0⟩, ⟨7, 4398046511103, 4363416223614, 2181708111807⟩, ⟨2134082950912, 67766272, 8590196736⟩⟩

def s15r14 : FastGame := ⟨⟨14, [⟨1,4⟩, ⟨2,3⟩, ⟨2,4⟩, ⟨4,5⟩], ⟨⟨6,7⟩, [tW, tW, tW, tW, tW, tW, tW, tW, tE, tE, tE, tG, tE, tW, tW, tE, tE, tG, tF, tE, tW, tW, tE, tW, tE, tW, tE, tW, tW, tE, tE, tE, tW, tF, tW, tW, tE, tE, tE, tE, tE, tW, tW, tW, tW, tW, tW, tW, tW], [(⟨4,5⟩, ⟨Team.Elf,158,15⟩), (⟨2,4⟩, ⟨Team.Elf,83,15⟩), (⟨2,3⟩, ⟨Team.Gnome,200,3⟩), (⟨1,4⟩, ⟨Team.Gnome,200,3⟩)]⟩, 0⟩, ⟨7, 4398046511103, 4363416223614, 2181708111807⟩, ⟨2134150584064, 133120, 8590196736⟩⟩

def s15r15 : FastGame := ⟨⟨15, [⟨1,4⟩, ⟨2,3⟩, ⟨2,4⟩, ⟨3,5⟩], ⟨⟨6,7⟩, [tW, tW, tW, tW, tW, tW, tW, tW, tE, tE, tE, tG, tE, tW, tW, tE, tE, tG, tF, tE, tW, tW, tE, tW, tE, tW, tF, tW, tW, tE, tE, tE, tW, tE, tW, tW, tE, tE, tE, tE, tE, tW, tW, tW, tW, tW, tW, tW, tW], [(⟨3,5⟩, ⟨Team.Elf,158,15⟩), (⟨1,4⟩, ⟨Team.Gnome,185,3⟩), (⟨2,4⟩, ⟨Team.Elf,77,15⟩), (⟨2,3⟩, ⟨Team.Gnome,200,3⟩)]⟩, 0⟩, ⟨7, 4398046511103, 4363416223614, 2181708111807⟩, ⟨2142673409792, 133120, 67371008⟩⟩

def s15r16 : FastGame := ⟨⟨16, [⟨1,4⟩, ⟨2,3⟩, ⟨2,4⟩, ⟨2,5⟩], ⟨⟨6,7⟩, [tW, tW, tW, tW, tW, tW, tW, tW, tE, tE, tE, tG, tE, tW, tW, tE, tE, tG, tF, tF, tW, tW, tE, tW, tE, tW, tE, tW, tW, tE, tE, tE, tW, tE, tW, tW, tE, tE, tE, tE, tE, tW, tW, tW, tW, tW, tW, tW, tW], [(⟨2,5⟩, ⟨Team.Elf,158,15⟩), (⟨1,4⟩, ⟨Team.Gnome,170,3⟩), (⟨2,4⟩, ⟨Team.Elf,71,15⟩), (⟨2,3⟩, ⟨Team.Gnome,200,3⟩)]⟩, 0⟩, ⟨7, 4398046511103, 4363416223614, 2181708111807⟩, ⟨2142739994368, 133120, 786432⟩⟩

def s15r17 : FastGame := ⟨⟨17, [⟨1,4⟩, ⟨1,5⟩, ⟨2,3⟩, ⟨2,4⟩], ⟨⟨6,7⟩, [tW, tW, tW, tW, tW, tW, tW, tW, tE, tE, tE, tG, tF, tW, tW, tE, tE, tG, tF, tE, tW, tW, tE, tW, tE, tW, tE, tW, tW, tE, tE, tE, tW, tE, tW, tW, tE, tE, tE, tE, tE, tW, tW, tW, tW, tW, tW, tW, tW], [(⟨1,4⟩, ⟨Team.Gnome,140,3⟩), (⟨1,5⟩, ⟨Team.Elf,158,15⟩), (⟨2,4⟩, ⟨Team.Elf,65,15⟩), (⟨2,3⟩, ⟨Team.Gnome,200,3⟩)]⟩, 0⟩, ⟨7, 4398046511103, 4363416223614, 2181708111807⟩, ⟨2142740514560, 133120, 266240⟩⟩

def s15r18 : FastGame := ⟨⟨18, [⟨1,4⟩, ⟨1,5⟩, ⟨2,3⟩, ⟨2,4⟩], ⟨⟨6,7⟩, [tW, tW, tW, tW, tW, tW, tW, tW, tE, tE, tE, tG, tF, tW, tW, tE, tE, tG, tF, tE, tW, tW, tE, tW, tE, tW, tE, tW, tW, tE, tE, tE, tW, tE, tW, tW, tE, tE, tE, tE, tE, tW, tW, tW, tW, tW, tW, tW, tW], [(⟨1,4⟩, ⟨Team.Gnome,110,3⟩), (⟨2,4⟩, ⟨Team.Elf,59,15⟩), (⟨1,5⟩, ⟨Team.Elf,158,15⟩), (⟨2,3⟩, ⟨Team.Gnome,200,3⟩)]⟩, 0⟩, ⟨7, 4398046511103, 4363416223614, 2181708111807⟩, ⟨2142740514560, 133120, 266240⟩⟩

def s15r19 : FastGame := ⟨⟨19, [⟨1,4⟩, ⟨1,5⟩, ⟨2,3⟩, ⟨2,4⟩], ⟨⟨6,7⟩, [tW, tW, tW, tW, tW, tW, tW, tW, tE, tE, tE, tG, tF, tW, tW, tE, tE, tG, tF, tE, tW, tW, tE, tW, tE, tW, tE, tW, tW, tE, tE, tE, tW, tE, tW, tW, tE, tE, tE, tE, tE, tW, tW, tW, tW, tW, tW, tW, tW], [(⟨1,4⟩, ⟨Team.Gnome,80,3⟩), (⟨2,4⟩, ⟨Team.Elf,53,15⟩), (⟨1,5⟩, ⟨Team.Elf,158,15⟩), (⟨2,3⟩, ⟨Team.Gnome,200,3⟩)]⟩, 0⟩, ⟨7, 4398046511103, 4363416223614, 2181708111807⟩, ⟨2142740514560, 133120, 266240⟩⟩

def s15r20 : FastGame := ⟨⟨20, [⟨1,4⟩, ⟨1,5⟩, ⟨2,3⟩, ⟨2,4⟩], ⟨⟨6,7⟩, [tW, tW, tW, tW, tW, tW, tW, tW, tE, tE, tE, tG, tF, tW, tW, tE, tE, tG, tF, tE, tW, tW, tE, tW, tE, tW, tE, tW, tW, tE, tE, tE, tW, tE, tW, tW, tE, tE, tE, tE, tE, tW, tW, tW, tW, tW, tW, tW, tW], [(⟨1,4⟩, ⟨Team.Gnome,50,3⟩), (⟨2,4⟩, ⟨Team.Elf,47,15⟩), (⟨1,5⟩, ⟨Team.Elf,158,15⟩), (⟨2,3⟩, ⟨Team.Gnome,200,3⟩)]⟩, 0⟩, ⟨7, 4398046511103, 4363416223614, 2181708111807⟩, ⟨2142740514560, 133120, 266240⟩⟩

def s15r21 : FastGame := ⟨⟨21, [⟨1,4⟩, ⟨1,5⟩, ⟨2,3⟩, ⟨2,4⟩], ⟨⟨6,7⟩, [tW, tW, tW, tW, tW, tW, tW, tW, tE, tE, tE, tG, tF, tW, tW, tE, tE, tG, tF, tE, tW, tW, tE, tW, tE, tW, tE, tW, tW, tE, tE, tE, tW, tE, tW, tW, tE, tE, tE, tE, tE, tW, tW, tW, tW, tW, tW, tW, tW], [(⟨1,4⟩, ⟨Team.Gnome,20,3⟩), (⟨2,4⟩, ⟨Team.Elf,41,15⟩), (⟨1,5⟩, ⟨Team.Elf,158,15⟩), (⟨2,3⟩, ⟨Team.Gnome,200,3⟩)]⟩, 0⟩, ⟨7, 4398046511103, 4363416223614, 2181708111807⟩, ⟨2142740514560, 133120, 266240⟩⟩

def s15r22 : FastGame := ⟨⟨22, [⟨1,5⟩, ⟨2,3⟩, ⟨2,4⟩], ⟨⟨6,7⟩, [tW, tW, tW, tW, tW, tW, tW, tW, tE, tE, tE, tE, tF, tW, tW, tE, tE, tG, tF, tE, tW, tW, tE, tW, tE, tW, tE, tW, tW, tE, tE, tE, tW, tE, tW, tW, tE, tE, tE, tE, tE, tW, tW, tW, tW, tW, tW, tW, tW], [(⟨2,4⟩, ⟨Team.Elf,35,15⟩), (⟨1,5⟩, ⟨Team.Elf,158,15⟩), (⟨2,3⟩, ⟨Team.Gnome,200,3⟩)]⟩, 0⟩, ⟨7, 4398046511103, 4363416223614, 2181708111807⟩, ⟨2142740516608, 131072, 266240⟩⟩

def s15r23 : FastGame := ⟨⟨23, [⟨1,4⟩, ⟨2,3⟩, ⟨2,4⟩], ⟨⟨6,7⟩, [tW, tW, tW, tW, tW, tW, tW, tW, tE, tE, tE, tF, tE, tW, tW, tE, tE, tG, tF, tE, tW, tW, tE, tW, tE, tW, tE, tW, tW, tE, tE, tE, tW, tE, tW, tW, tE, tE, tE, tE, tE, tW, tW, tW, tW, tW, tW, tW, tW], [(⟨2,3⟩, ⟨Team.Gnome,185,3⟩), (⟨2,4⟩, ⟨Team.Elf,32,15⟩), (⟨1,4⟩, ⟨Team.Elf,158,15⟩)]⟩, 0⟩, ⟨7, 4398046511103, 4363416223614, 2181708111807⟩, ⟨2142740518656, 131072, 264192⟩⟩

def s15r24 : FastGame := ⟨⟨24, [⟨1,3⟩, ⟨2,3⟩, ⟨2,4⟩], ⟨⟨6,7⟩, [tW, tW, tW, tW, tW, tW, tW, tW, tE, tE, tF, tE, tE, tW, tW, tE, tE, tG, tF, tE, tW, tW, tE, tW, tE, tW, tE, tW, tW, tE, tE, tE, tW, tE, tW, tW, tE, tE, tE, tE, tE, tW, tW, tW, tW, tW, tW, tW, tW], [(⟨2,3⟩, ⟨Team.Gnome,155,3⟩), (⟨2,4⟩, ⟨Team.Elf,29,15⟩), (⟨1,3⟩, ⟨Team.Elf,158,15⟩)]⟩, 0⟩, ⟨7, 4398046511103, 4363416223614, 2181708111807⟩, ⟨2142740519680, 131072, 263168⟩⟩

def s15r25 : FastGame := ⟨⟨25, [⟨1,3⟩, ⟨2,3⟩, ⟨2,4⟩], ⟨⟨6,7⟩, [tW, tW, tW, tW, tW, tW, tW, tW, tE, tE, tF, tE, tE, tW, tW, tE, tE, tG, tF, tE, tW, tW, tE, tW, tE, tW, tE, tW, tW, tE, tE, tE, tW, tE, tW, tW, tE, tE, tE, tE, tE, tW, tW, tW, tW, tW, tW, tW, tW], [(⟨2,3⟩, ⟨Team.Gnome,125,3⟩), (⟨2,4⟩, ⟨Team.Elf,26,15⟩), (⟨1,3⟩, ⟨Team.Elf,158,15⟩)]⟩, 0⟩, ⟨7, 4398046511103, 4363416223614, 2181708111807⟩, ⟨2142740519680, 131072, 263168⟩⟩

def s15r26 : FastGame := ⟨⟨26, [⟨1,3⟩, ⟨2,3⟩, ⟨2,4⟩], ⟨⟨6,7⟩, [tW, tW, tW, tW, tW, tW, tW, tW, tE, tE, tF, tE, tE, tW, tW, tE, tE, tG, tF, tE, tW, tW, tE, tW, tE, tW, tE, tW, tW, tE, tE, tE, tW, tE, tW, tW, tE, tE, tE, tE, tE, tW, tW, tW, tW, tW, tW, tW, tW], [(⟨2,3⟩, ⟨Team.Gnome,95,3⟩), (⟨2,4⟩, ⟨Team.Elf,23,15⟩), (⟨1,3⟩, ⟨Team.Elf,158,15⟩)]⟩, 0⟩, ⟨7, 4398046511103, 4363416223614, 2181708111807⟩, ⟨2142740519680, 131072, 263168⟩⟩

def s15r27 : FastGame := ⟨⟨27, [⟨1,3⟩, ⟨2,3⟩, ⟨2,4⟩], ⟨⟨6,7⟩, [tW, tW, tW, tW, tW, tW, tW, tW, tE, tE, tF, tE, tE, tW, tW, tE, tE, tG, tF, tE, tW, tW, tE, tW, tE, tW, tE, tW, tW, tE, tE, tE, tW, tE, tW, tW, tE, tE, tE, tE, tE, tW, tW, tW, tW, tW, tW, tW, tW], [(⟨2,3⟩, ⟨Team.Gnome,65,3⟩), (⟨2,4⟩, ⟨Team.Elf,20,15⟩), (⟨1,3⟩, ⟨Team.Elf,158,15⟩)]⟩, 0⟩, ⟨7, 4398046511103, 4363416223614, 2181708111807⟩, ⟨2142740519680, 131072, 263168⟩⟩

def s15r28 : FastGame := ⟨⟨28, [⟨1,3⟩, ⟨2,3⟩, ⟨2,4⟩], ⟨⟨6,7⟩, [tW, tW, tW, tW, tW, tW, tW, tW, tE, tE, tF, tE, tE, tW, tW, tE, tE, tG, tF, tE, tW, tW, tE, tW, tE, tW, tE, tW, tW, tE, tE, tE, tW, tE, tW, tW, tE, tE, tE, tE, tE, tW, tW, tW, tW, tW, tW, tW, tW], [(⟨2,3⟩, ⟨Team.Gnome,35,3⟩), (⟨2,4⟩, ⟨Team.Elf,17,15⟩), (⟨1,3⟩, ⟨Team.Elf,158,15⟩)]⟩, 0⟩, ⟨7, 4398046511103, 4363416223614, 2181708111807⟩, ⟨2142740519680, 131072, 263168⟩⟩

def s15r29 : FastGame := ⟨⟨29, [⟨1,3⟩, ⟨2,3⟩, ⟨2,4⟩], ⟨⟨6,7⟩, [tW, tW, tW, tW, tW, tW, tW, tW, tE, tE, tF, tE, tE, tW, tW, tE, tE, tG, tF, tE, tW, tW, tE, tW, tE, tW, tE, tW, tW, tE, tE, tE, tW, tE, tW, tW, tE, tE, tE, tE, tE, tW, tW, tW, tW, tW, tW, tW, tW], [(⟨2,3⟩, ⟨Team.Gnome,5,3⟩), (⟨2,4⟩, ⟨Team.Elf,14,15⟩), (⟨1,3⟩, ⟨Team.Elf,158,15⟩)]⟩, 0⟩, ⟨7, 4398046511103, 4363416223614, 2181708111807⟩, ⟨2142740519680, 131072, 263168⟩⟩

def s15r30 : FastGame := ⟨⟨29, [], ⟨⟨6,7⟩, [tW, tW, tW, tW, tW, tW, tW, tW, tE, tE, tF, tE, tE, tW, tW, tE, tE, tE, tF, tE, tW, tW, tE, tW, tE, tW, tE, tW, tW, tE, tE, tE, tW, tE, tW, tW, tE, tE, tE, tE, tE, tW, tW, tW, tW, tW, tW, tW, tW], [(⟨2,4⟩, ⟨Team.Elf,14,15⟩), (⟨1,3⟩, ⟨Team.Elf,158,15⟩)]⟩, 0⟩, ⟨7, 4398046511103, 4363416223614, 2181708111807⟩, ⟨2142740650752, 0, 263168⟩⟩

/-! ### Claim C5: attack-target selection order -/

/-- The adjacent-enemy candidate list of the attack phase, as a named
sub-expression of `attackPhase`. -/
def attackCands (board : Board) (this_pos : Point) (enemy_team : Team) :
    List (Point × Unit) :=
  (this_pos.neighbors.filterMap
      (fun adj => (lookupAL board.units adj).map (fun u => (adj, u)))).filter
    (fun e => e.2.team == enemy_team)

/-! ### Claim C6: turn-queue discipline -/

instance : IsTotal Point Point.le := ⟨by
  intro a b
  unfold Point.le
  omega⟩

instance : IsTrans Point Point.le := ⟨by
  intro a b c
  unfold Point.le
  omega⟩

/-! ### Claim-level bundles and witnesses -/

def bC5 : Board :=
  ⟨⟨1, 2⟩, [Tile.Gnome, Tile.Elf],
    [(⟨0, 0⟩, ⟨Team.Gnome, 200, 3⟩), (⟨0, 1⟩, ⟨Team.Elf, 200, 3⟩)]⟩

def bC5h : Board :=
  ⟨⟨1, 2⟩, [Tile.Gnome, Tile.Elf],
    [(⟨0, 1⟩, ⟨Team.Elf, 197, 3⟩), (⟨0, 0⟩, ⟨Team.Gnome, 200, 3⟩)]⟩

def gC3 : Game := ⟨7, [⟨0, 0⟩], ⟨⟨1, 1⟩, [Tile.Gnome], [(⟨0, 0⟩, ⟨Team.Gnome, 50, 3⟩)]⟩, 2⟩

def gC6 : Game := ⟨5, [], bC5, 1⟩

def bG : Board := ⟨⟨0, 1⟩, [Tile.Gnome], [(⟨0, 0⟩, ⟨Team.Gnome, 200, 3⟩)]⟩

/-! ### Claim C1: destination-first pathfinding rule (spec side) and the
code's direction-first rule -/

/-- Spec-side: a cell a unit may walk through. -/
def specPassable (b : Board) (p : Point) : Bool := b.get p == some Tile.Empty

/-- Spec-side BFS layer expansion over passable cells. -/
def specStep2 (b : Board) (vis frontier : List Point) : List Point :=
  ((frontier.bind Point.neighbors).filter
    (fun q => specPassable b q && !((vis ++ frontier).contains q))).dedup

/-- Spec-side BFS distance search towards a fixed target cell. -/
def specDistAux (b : Board) (t : Point) : Nat → List Point → List Point → Nat → Option Nat
  | 0, _, _, _ => none
  | fuel + 1, vis, frontier, d =>
    if frontier.contains t then some d
    else
      let fr2 := specStep2 b vis frontier
      if fr2.isEmpty then none
      else specDistAux b t fuel (vis ++ frontier) fr2 (d + 1)

/-- Spec-side distance between two passable cells. -/
def specDistance (b : Board) (s t : Point) : Option Nat :=
  if specPassable b s then specDistAux b t (b.map.length + 2) [] [s] 0 else none

/-- Spec-side distance from the unit's own (occupied) cell. -/
def specDistFromUnit (b : Board) (pos t : Point) : Option Nat :=
  specDistAux b t (b.map.length + 2) [pos]
    ((pos.neighbors.filter (fun q => specPassable b q)).dedup) 1

/-- Spec-side target cells: passable cells orthogonally adjacent to an
enemy-team unit. -/
def specTargets (b : Board) (et : Team) : List Point :=
  (((b.units.filter (fun e => e.2.team == et)).bind (fun e => e.1.neighbors)).filter
    (fun q => specPassable b q)).dedup

/-- Spec-side destination: the reading-order-least target among those at
minimal distance from the unit. -/
def specBestDest (b : Board) (pos : Point) (et : Team) : Option (Nat × Point) :=
  minByKey hpPointLt (fun k => k)
    ((specTargets b et).filterMap
      (fun t => (specDistFromUnit b pos t).map (fun d => (d, t))))

/-- Spec-side direction: pick the destination first, then the earliest
direction in canonical order whose step cell minimizes the distance to that
destination. -/
def specDirection (b : Board) (pos : Point) (et : Team) : Option Direction :=
  match specBestDest b pos et with
  | none => none
  | some (_, dest) =>
    (minByKey Nat.blt (fun e => e.2)
      (directions.filterMap (fun dir =>
        (specDistance b (pos.step dir) dest).map (fun ds => (dir, ds))))).map
      (fun e => e.1)

def cexBytes : List Nat :=
  [35, 35, 35, 35, 35, 35, 35, 10, 35, 46, 69, 46, 46, 71, 35, 10, 35, 46, 35, 35, 35,
   35, 35, 10, 35, 71, 35, 35, 35, 35, 35, 10, 35, 35, 35, 35, 35, 35, 35, 10]

/-- The per-direction candidate list of `find_enemy_direction`, as a named
sub-expression of the source function. -/
def dirCands (b : Board) (start : Point) (team : Team) : List (Direction × Nat) :=
  (((directions.map (fun d => (d, start.step d))).filterMap
      (fun e => (b.get e.2).map (fun t => (e.1, e.2, t)))).filter
    (fun e => !(e.2.2 == Tile.Wall) && !(e.2.2.is_team team))).filterMap
      (fun e => (b.distance_to_closest_unit e.2.1 team.enemy).map (fun dist => (e.1, dist)))

def bC1 : Board :=
  ⟨⟨1, 3⟩, [Tile.Elf, Tile.Empty, Tile.Gnome, Tile.Empty, Tile.Empty, Tile.Empty],
    [(⟨0, 2⟩, ⟨Team.Gnome, 200, 3⟩), (⟨0, 0⟩, ⟨Team.Elf, 200, 3⟩)]⟩

/-! ### Claim C7: grid / registry agreement -/

/-- The grid and the unit registry agree: a team tile sits exactly where a
unit of that team is registered. -/
def Agree (b : Board) : Prop :=
  ∀ p : Point,
    (∀ tm : Team, b.get p = some (teamTile tm) →
      ∃ u, lookupAL b.units p = some u ∧ u.team = tm) ∧
    (∀ u, lookupAL b.units p = some u → b.get p = some (teamTile u.team))

/-! ### Claim C9: none-result characterization of the pathfinder -/

/-- Spec-side reachability: cells reachable from `s` by orthogonal steps
through `Empty` cells (the start cell itself is not constrained). -/
inductive ReachE (b : Board) (s : Point) : Point → Prop
  | refl : ReachE b s s
  | step {q r : Point} : ReachE b s q → r ∈ q.neighbors →
      b.get r = some Tile.Empty → ReachE b s r

/-- Invariant of the frontier BFS used to prove completeness: the visited
set is goal-free, the closure of the visited set lies inside
visited-or-frontier, and `ghost` counts distinct visited cells. -/
structure LoopInv (b : Board) (goal : Team) (s : Point) (frontier vis : Nat)
    (ghost : List Point) : Prop where
  hs : ∀ j, (1 <<< b.index_of_point s).testBit j = true →
    (vis ||| frontier).testBit j = true
  closed : ∀ j, (adjacent b.geo vis &&& (b.tileMasks.emptyM &&& b.geo.full)).testBit j =
    true → (vis ||| frontier).testBit j = true
  vnog : ∀ j, vis.testBit j = true →
    (adjacent b.geo (b.tileMasks.teamM goal &&& b.geo.full)).testBit j = false
  fmask : maskB frontier (b.size.x.toNat * b.size.y.toNat)
  vmask : maskB vis (b.size.x.toNat * b.size.y.toNat)
  fdis : ∀ j, frontier.testBit j = true → vis.testBit j = false
  gnodup : ghost.Nodup
  gbounds : ∀ q ∈ ghost, b.bounds_check q = true
  gvis : ∀ q ∈ ghost, vis.testBit (b.index_of_point q) = true



/-! ### Bridges between the boolean comparators and propositions -/

theorem intEqb_iff {a b : Int} : intEqb a b = true ↔ a = b := by
  cases a <;> cases b <;> simp [intEqb, Nat.beq_eq]

theorem intLtb_iff {a b : Int} : intLtb a b = true ↔ a < b := by
  cases a <;> cases b <;> simp [intLtb, Int.negSucc_eq] <;> omega

theorem intLeb_iff {a b : Int} : intLeb a b = true ↔ a ≤ b := by
  cases a <;> cases b <;> simp [intLeb, Int.negSucc_eq] <;> omega

theorem Point.eqb_iff {a b : Point} : a.eqb b = true ↔ a = b := by
  cases a; cases b
  simp [Point.eqb, intEqb_iff, and_comm]

theorem Point.beq_iff {a b : Point} : (a == b) = true ↔ a = b := Point.eqb_iff

theorem Point.ltb_iff {a b : Point} :
    a.ltb b = true ↔ a.y < b.y ∨ (a.y = b.y ∧ a.x < b.x) := by
  simp [Point.ltb, intLtb_iff, intEqb_iff]

theorem Point.leb_iff {a b : Point} :
    a.leb b = true ↔ a.y < b.y ∨ (a.y = b.y ∧ a.x ≤ b.x) := by
  simp [Point.leb, intLtb_iff, intEqb_iff, intLeb_iff]

theorem openEntryLt_iff {e f : Point × Nat} :
    openEntryLt e f = true ↔
      e.2 < f.2 ∨ (e.2 = f.2 ∧ (e.1.y < f.1.y ∨ (e.1.y = f.1.y ∧ e.1.x < f.1.x))) := by
  simp [openEntryLt, Nat.blt_eq, Nat.beq_eq, Point.ltb_iff]

/-! ### The open-set minimum -/

theorem foldlMin_mem {α : Type} (lt : α → α → Bool) :
    ∀ (xs : List α) (a : α), xs.foldl (fun best y => if lt y best then y else best) a ∈ a :: xs := by
  intro xs
  induction xs with
  | nil => intro a; simp
  | cons y ys ih =>
    intro a
    simp only [List.foldl_cons]
    by_cases hc : lt y a = true
    · rw [if_pos hc]
      rcases List.mem_cons.mp (ih y) with h | h
      · rw [h]; simp
      · simp [List.mem_cons, h]
    · rw [if_neg hc]
      rcases List.mem_cons.mp (ih a) with h | h
      · rw [h]; simp
      · simp [List.mem_cons, h]

theorem openMin_mem {l : List (Point × Nat)} {e : Point × Nat} (h : openMin l = some e) :
    e ∈ l := by
  match l, h with
  | x :: xs, h =>
    simp only [openMin, Option.some.injEq] at h
    subst h
    exact foldlMin_mem openEntryLt xs x

theorem openEntryLt_trans {a b c : Point × Nat} (h1 : openEntryLt a b = true)
    (h2 : openEntryLt b c = true) : openEntryLt a c = true := by
  rw [openEntryLt_iff] at h1 h2 ⊢
  omega

theorem openEntryLt_not_lt_trans {a b c : Point × Nat} (h1 : openEntryLt a b = false)
    (h2 : openEntryLt b c = false) : openEntryLt a c = false := by
  rw [(Bool.not_eq_true _).symm] at h1 h2 ⊢
  rw [openEntryLt_iff] at h1 h2 ⊢
  omega

theorem foldlMin_min {α : Type} (lt : α → α → Bool)
    (htr : ∀ x y z, lt x y = true → lt y z = true → lt x z = true)
    (hntr : ∀ x y z, lt x y = false → lt y z = false → lt x z = false)
    (hirr : ∀ x, lt x x = false) :
    ∀ (xs : List α) (a : α) (e : α), e ∈ a :: xs →
        lt e (xs.foldl (fun best y => if lt y best then y else best) a) = false := by
  intro xs
  induction xs with
  | nil =>
    intro a e he
    simp at he
    subst he
    simp [hirr]
  | cons y ys ih =>
    intro a e he
    simp only [List.foldl_cons]
    by_cases hc : lt y a = true
    · simp only [hc, if_true]
      rcases List.mem_cons.mp he with h | h
      · have hy : lt y (ys.foldl (fun best z => if lt z best then z else best) y) = false :=
          ih y y (by simp)
        rw [h]
        by_contra hcon
        rw [Bool.not_eq_false] at hcon
        exact absurd (htr _ _ _ hc hcon) (by simp [hy])
      · exact ih y e h
    · simp only [hc, if_false]
      rcases List.mem_cons.mp he with h | h
      · exact ih a e (by simp [h])
      · rcases List.mem_cons.mp h with h' | h'
        · have ha : lt a (ys.foldl (fun best z => if lt z best then z else best) a) = false :=
            ih a a (by simp)
          rw [h']
          exact hntr _ _ _ (by simpa using hc) ha
        · exact ih a e (by simp [h'])

theorem openMin_not_lt {l : List (Point × Nat)} {e : Point × Nat} (h : openMin l = some e)
    {f : Point × Nat} (hf : f ∈ l) : openEntryLt f e = false := by
  match l, h with
  | x :: xs, h =>
    simp only [openMin, Option.some.injEq] at h
    subst h
    refine foldlMin_min openEntryLt ?_ ?_ ?_ xs x f hf
    · exact fun x y z => openEntryLt_trans
    · exact fun x y z => openEntryLt_not_lt_trans
    · intro x; rw [(Bool.not_eq_true _).symm, openEntryLt_iff]; omega

theorem openMin_eq_none {l : List (Point × Nat)} : openMin l = none ↔ l = [] := by
  cases l <;> simp [openMin]

theorem mem_keysOf {l : List (Point × Nat)} {q : Point} :
    q ∈ keysOf l ↔ ∃ m, (q, m) ∈ l := by
  constructor
  · intro h
    obtain ⟨e, hm, he⟩ := List.mem_map.mp h
    refine ⟨e.2, ?_⟩
    rw [← he]
    simpa using hm
  · rintro ⟨m, hm⟩
    exact List.mem_map.mpr ⟨(q, m), hm, rfl⟩

theorem olookup_eq_some_of_mem {opn : List (Point × Nat)}
    (hnd : (keysOf opn).Nodup) {q : Point} {m : Nat} (h : (q, m) ∈ opn) :
    olookup opn q = some m := by
  induction opn with
  | nil => simp at h
  | cons e rest ih =>
    obtain ⟨k, n⟩ := e
    simp only [keysOf, List.map_cons, List.nodup_cons] at hnd
    rcases List.mem_cons.mp h with h' | h'
    · cases h'
      simp [olookup, Point.eqb_iff.mpr rfl]
    · have hkq : k.eqb q = false := by
        by_contra hc
        rw [Bool.not_eq_false] at hc
        have : k = q := Point.eqb_iff.mp hc
        subst this
        exact hnd.1 (mem_keysOf.mpr ⟨m, h'⟩)
      simp only [olookup, hkq, Bool.false_eq_true, if_false]
      exact ih hnd.2 h'

theorem mem_of_olookup_eq_some {opn : List (Point × Nat)} {q : Point} {m : Nat}
    (h : olookup opn q = some m) : (q, m) ∈ opn := by
  induction opn with
  | nil => simp [olookup] at h
  | cons e rest ih =>
    obtain ⟨k, n⟩ := e
    by_cases hc : k.eqb q = true
    · have : k = q := Point.eqb_iff.mp hc
      subst this
      simp only [olookup, hc, if_true, Option.some.injEq] at h
      subst h
      simp
    · simp only [olookup, hc, Bool.false_eq_true, if_false] at h
      exact List.mem_cons_of_mem _ (ih h)

theorem olookup_openInsertMin (opn : List (Point × Nat)) (p : Point) (d : Nat) (q : Point) :
    olookup (openInsertMin opn p d) q =
      if p = q then
        (match olookup opn p with
         | some d0 => some (min d0 d)
         | none => some d)
      else olookup opn q := by
  induction opn with
  | nil =>
    by_cases h : p = q <;>
      simp [openInsertMin, olookup, h, Point.eqb_iff]
  | cons e rest ih =>
    obtain ⟨k, n⟩ := e
    by_cases hkp : k.eqb p = true
    · have hkp' : k = p := Point.eqb_iff.mp hkp
      subst hkp'
      by_cases hq : k = q
      · subst hq
        simp [openInsertMin, olookup, Point.eqb_iff.mpr rfl, hkp]
      · have h1 : Point.eqb k q = false := by
          by_contra hc
          rw [Bool.not_eq_false] at hc
          exact hq (Point.eqb_iff.mp hc)
        simp [openInsertMin, olookup, hkp, h1, hq]
    · have hkp' : ¬k = p := fun hh => by simp [hh, Point.eqb_iff.mpr] at hkp
      by_cases hq : k = q
      · have hpk : ¬p = q := fun hh => hkp' (hq.trans hh.symm)
        have hkq : Point.eqb k q = true := Point.eqb_iff.mpr hq
        have h2 : Point.eqb k p = false := by simpa using hkp
        simp [openInsertMin, olookup, h2, hkq, hpk]
      · have h1 : Point.eqb k q = false := by
          by_contra hc
          rw [Bool.not_eq_false] at hc
          exact hq (Point.eqb_iff.mp hc)
        have h2 : Point.eqb k p = false := by simpa using hkp
        simp only [openInsertMin, h2, Bool.false_eq_true, if_false, olookup, h1, ih]



theorem olookup_filter_ne (opn : List (Point × Nat)) (cur q : Point) :
    olookup (opn.filter (fun e => !(e.1.eqb cur))) q =
      if q = cur then none else olookup opn q := by
  induction opn with
  | nil => by_cases h : q = cur <;> simp [olookup, h]
  | cons e rest ih =>
    obtain ⟨k, n⟩ := e
    by_cases hkc : k.eqb cur = true
    · have : k = cur := Point.eqb_iff.mp hkc
      subst this
      by_cases hq : q = k
      · subst hq
        simp only [List.filter_cons]
        simp [hkc, ih, olookup]
      · have hkq : Point.eqb k q = false := by
          by_contra hc
          rw [Bool.not_eq_false] at hc
          exact hq (Point.eqb_iff.mp hc).symm
        simp only [List.filter_cons]
        simp [hkc, ih, olookup, hkq, hq]
    · by_cases hq : k = q
      · subst hq
        have hqc : ¬k = cur := fun hh => by simp [hh, Point.eqb_iff.mpr] at hkc
        simp only [List.filter_cons]
        simp [hkc, olookup, Point.eqb_iff.mpr rfl, hqc]
      · have hkq : Point.eqb k q = false := by
          by_contra hc
          rw [Bool.not_eq_false] at hc
          exact hq (Point.eqb_iff.mp hc)
        simp only [List.filter_cons]
        simp [hkc, olookup, hkq, ih]

theorem olookup_expand (dd : Nat) :
    ∀ (L : List Point) (acc : List (Point × Nat)) (q : Point),
      olookup (L.foldl (fun acc p => openInsertMin acc p dd) acc) q =
        if q ∈ L then
          (match olookup acc q with
           | some d0 => some (min d0 dd)
           | none => some dd)
        else olookup acc q := by
  intro L
  induction L with
  | nil => intro acc q; simp
  | cons p L' ih =>
    intro acc q
    simp only [List.foldl_cons]
    rw [ih]
    by_cases hq : q ∈ L'
    · simp only [hq, if_true, List.mem_cons, or_true, if_true]
      rw [olookup_openInsertMin]
      by_cases hpq : p = q
      · subst hpq
        cases hold : olookup acc p with
        | none => simp
        | some d0 => simp [Nat.min_assoc]
      · simp [hpq]
    · by_cases hpq : q = p
      · subst hpq
        simp only [hq, if_false, List.mem_cons, true_or, if_true]
        rw [olookup_openInsertMin]
        simp
      · have : ¬q ∈ (p :: L') := by simp [hpq, hq]
        simp only [hq, if_false, this, if_false]
        rw [olookup_openInsertMin]
        rw [if_neg (fun hh : p = q => hpq hh.symm)]

theorem keysOf_filter_key (g : Point → Bool) (opn : List (Point × Nat)) :
    keysOf (opn.filter (fun e => g e.1)) = (keysOf opn).filter g := by
  induction opn with
  | nil => simp [keysOf]
  | cons e rest ih =>
    simp only [List.filter_cons, keysOf, List.map_cons]
    by_cases h : g e.1 = true
    · simp [h, keysOf] at ih ⊢; exact ih
    · simp only [h, Bool.false_eq_true, if_false]
      simp [h, keysOf] at ih ⊢; exact ih

theorem mem_keysOf_openInsertMin {opn : List (Point × Nat)} {p : Point} {d : Nat} {q : Point} :
    q ∈ keysOf (openInsertMin opn p d) ↔ q = p ∨ q ∈ keysOf opn := by
  induction opn with
  | nil => simp [openInsertMin, keysOf]
  | cons e rest ih =>
    obtain ⟨k, n⟩ := e
    by_cases hc : k.eqb p = true
    · have hkp : k = p := Point.eqb_iff.mp hc
      subst hkp
      simp only [openInsertMin, hc, if_true, keysOf, List.map_cons, List.mem_cons]
      tauto
    · simp only [openInsertMin, hc, Bool.false_eq_true, if_false, keysOf, List.map_cons,
        List.mem_cons]
      simp only [keysOf] at ih
      tauto



theorem nodup_keysOf_openInsertMin {opn : List (Point × Nat)} {p : Point} {d : Nat}
    (h : (keysOf opn).Nodup) : (keysOf (openInsertMin opn p d)).Nodup := by
  induction opn with
  | nil => simp [openInsertMin, keysOf]
  | cons e rest ih =>
    obtain ⟨k, n⟩ := e
    simp only [keysOf, List.map_cons, List.nodup_cons] at h
    by_cases hc : k.eqb p = true
    · have hkp : k = p := Point.eqb_iff.mp hc
      subst hkp
      simp only [openInsertMin, hc, if_true, keysOf, List.map_cons, List.nodup_cons]
      exact ⟨h.1, h.2⟩
    · simp only [openInsertMin, hc, Bool.false_eq_true, if_false, keysOf, List.map_cons,
        List.nodup_cons]
      refine ⟨?_, ih h.2⟩
      intro hmem
      rcases mem_keysOf_openInsertMin.mp hmem with h' | h'
      · exact hc (by rw [h']; exact Point.eqb_iff.mpr rfl)
      · exact h.1 h'

theorem mem_keysOf_expand (dd : Nat) :
    ∀ (L : List Point) (acc : List (Point × Nat)) (q : Point),
      q ∈ keysOf (L.foldl (fun acc p => openInsertMin acc p dd) acc) ↔
        q ∈ keysOf acc ∨ q ∈ L := by
  intro L
  induction L with
  | nil => intro acc q; simp
  | cons p L' ih =>
    intro acc q
    simp only [List.foldl_cons]
    rw [ih]
    rw [mem_keysOf_openInsertMin]
    simp only [List.mem_cons]
    tauto

theorem nodup_keysOf_expand (dd : Nat) :
    ∀ (L : List Point) (acc : List (Point × Nat)),
      (keysOf acc).Nodup → (keysOf (L.foldl (fun acc p => openInsertMin acc p dd) acc)).Nodup := by
  intro L
  induction L with
  | nil => intro acc h; exact h
  | cons p L' ih =>
    intro acc h
    simp only [List.foldl_cons]
    exact ih _ (nodup_keysOf_openInsertMin h)



/-! ### Board geometry: indices and bounds -/

theorem bounds_check_iff {b : Board} {p : Point} :
    b.bounds_check p = true ↔ 0 ≤ p.x ∧ 0 ≤ p.y ∧ p.x < b.size.x ∧ p.y < b.size.y := by
  simp [Board.bounds_check, intLeb_iff, intLtb_iff, and_assoc]

theorem idx_lt {b : Board} (hwf : WFB b) {p : Point} (hp : b.bounds_check p = true) :
    b.index_of_point p < b.size.x.toNat * b.size.y.toNat := by
  obtain ⟨h1, h2, h3, h4⟩ := bounds_check_iff.mp hp
  have hx : p.x.toNat < b.size.x.toNat := by omega
  have hy : p.y.toNat < b.size.y.toNat := by omega
  unfold Board.index_of_point
  calc p.y.toNat * b.size.x.toNat + p.x.toNat
      < (p.y.toNat + 1) * b.size.x.toNat := by rw [Nat.succ_mul]; omega
    _ ≤ b.size.y.toNat * b.size.x.toNat := Nat.mul_le_mul_right _ (by omega)
    _ = b.size.x.toNat * b.size.y.toNat := Nat.mul_comm _ _

theorem idx_mod {b : Board} {p : Point} (hp : b.bounds_check p = true) :
    b.index_of_point p % b.size.x.toNat = p.x.toNat := by
  obtain ⟨h1, h2, h3, h4⟩ := bounds_check_iff.mp hp
  have hx : p.x.toNat < b.size.x.toNat := by omega
  unfold Board.index_of_point
  rw [Nat.mul_comm, Nat.mul_add_mod, Nat.mod_eq_of_lt hx]

theorem idx_div {b : Board} {p : Point} (hp : b.bounds_check p = true) :
    b.index_of_point p / b.size.x.toNat = p.y.toNat := by
  obtain ⟨h1, h2, h3, h4⟩ := bounds_check_iff.mp hp
  have hx : p.x.toNat < b.size.x.toNat := by omega
  have hW : 0 < b.size.x.toNat := by omega
  unfold Board.index_of_point
  rw [Nat.mul_comm, Nat.mul_add_div hW, Nat.div_eq_of_lt hx, Nat.add_zero]

theorem idx_inj {b : Board} {p q : Point} (hp : b.bounds_check p = true)
    (hq : b.bounds_check q = true) (h : b.index_of_point p = b.index_of_point q) : p = q := by
  have hxp := idx_mod hp
  have hxq := idx_mod hq
  have hyp := idx_div hp
  have hyq := idx_div hq
  obtain ⟨h1, h2, h3, h4⟩ := bounds_check_iff.mp hp
  obtain ⟨g1, g2, g3, g4⟩ := bounds_check_iff.mp hq
  have hx' : p.x.toNat = q.x.toNat := by rw [← idx_mod hp, h, idx_mod hq]
  have hy' : p.y.toNat = q.y.toNat := by rw [← idx_div hp, h, idx_div hq]
  have hxe : p.x = q.x := by omega
  have hye : p.y = q.y := by omega
  cases p
  cases q
  exact congrArg₂ Point.mk hye hxe

theorem exists_point_of_idx {b : Board} (hwf : WFB b) {i : Nat}
    (hi : i < b.size.x.toNat * b.size.y.toNat) :
    ∃ p : Point, b.bounds_check p = true ∧ b.index_of_point p = i := by
  obtain ⟨hN, hx0, hy0⟩ := hwf
  have hW : 0 < b.size.x.toNat := by
    rcases Nat.eq_zero_or_pos b.size.x.toNat with h | h
    · rw [h, Nat.zero_mul] at hi; simp at hi
    · exact h
  have hlt : i < b.size.x.toNat * b.size.y.toNat := hi
  have hm : i % b.size.x.toNat < b.size.x.toNat := Nat.mod_lt _ hW
  have hd : i / b.size.x.toNat < b.size.y.toNat := by
    rw [Nat.div_lt_iff_lt_mul hW]
    calc i < b.size.x.toNat * b.size.y.toNat := hlt
      _ = b.size.y.toNat * b.size.x.toNat := Nat.mul_comm _ _
  refine ⟨⟨((i / b.size.x.toNat : Nat) : Int), ((i % b.size.x.toNat : Nat) : Int)⟩, ?_, ?_⟩
  · rw [bounds_check_iff]
    refine ⟨?_, ?_, ?_, ?_⟩
    · show (0 : Int) ≤ ((i % b.size.x.toNat : Nat) : Int)
      positivity
    · show (0 : Int) ≤ ((i / b.size.x.toNat : Nat) : Int)
      positivity
    · show ((i % b.size.x.toNat : Nat) : Int) < b.size.x
      omega
    · show ((i / b.size.x.toNat : Nat) : Int) < b.size.y
      omega
  · show ((i / b.size.x.toNat : Nat) : Int).toNat * b.size.x.toNat
        + ((i % b.size.x.toNat : Nat) : Int).toNat = i
    simp only [Int.toNat_natCast]
    rw [Nat.mul_comm, Nat.div_add_mod]



/-! ### Bit characterisation of the derived masks -/

theorem testBit_maskOf (f : Tile → Bool) :
    ∀ (l : List Tile) (i : Nat),
      (maskOf f l).testBit i = (match l.get? i with | some t => f t | none => false) := by
  intro l
  induction l with
  | nil => intro i; simp [maskOf, List.get?]
  | cons t ts ih =>
    intro i
    cases i with
    | zero =>
      have h2 : ((if f t then 1 else 0) + 2 * maskOf f ts) % 2 = if f t then 1 else 0 := by
        cases hf : f t <;> simp <;> omega
      cases hf : f t <;>
        simp [maskOf, Nat.testBit_zero, h2, hf, List.get?]
    | succ i =>
      have h2 : ((if f t then 1 else 0) + 2 * maskOf f ts) / 2 = maskOf f ts := by
        cases hf : f t <;> simp <;> omega
      rw [show maskOf f (t :: ts) = (if f t then 1 else 0) + 2 * maskOf f ts from rfl]
      rw [Nat.testBit_add_one, h2, ih]
      simp [List.get?]

theorem maskB_maskOf (f : Tile → Bool) (l : List Tile) : maskB (maskOf f l) l.length := by
  intro i hi
  rw [testBit_maskOf] at hi
  by_contra hcon
  rw [List.get?_eq_none.mpr (by omega)] at hi
  simp at hi

theorem tile_bit {b : Board} (f : Tile → Bool) {p : Point} (hp : b.bounds_check p = true) :
    (maskOf f b.map).testBit (b.index_of_point p) =
      (match b.get p with | some t => f t | none => false) := by
  rw [testBit_maskOf]
  unfold Board.get
  rw [if_pos hp]

theorem testBit_colMask (W x : Nat) :
    ∀ (h i : Nat), (colMask W x h).testBit i = true ↔ ∃ r, r < h ∧ i = r * W + x := by
  intro h
  induction h with
  | zero => intro i; simp [colMask]
  | succ h ih =>
    intro i
    rw [show colMask W x (h + 1) = (1 <<< x) ||| (colMask W x h <<< W) from rfl]
    rw [Nat.testBit_or, Nat.one_shiftLeft, Nat.testBit_shiftLeft]
    constructor
    · intro hb
      rcases Bool.or_eq_true _ _ |>.mp hb with h1 | h1
      · refine ⟨0, by omega, ?_⟩
        have := Nat.testBit_two_pow (n := x) (m := i)
        rw [this] at h1
        simp at h1
        omega
      · rw [Bool.and_eq_true, decide_eq_true_eq] at h1
        obtain ⟨hWi, hbit⟩ := h1
        obtain ⟨r, hr, he⟩ := (ih (i - W)).mp hbit
        refine ⟨r + 1, by omega, ?_⟩
        rw [Nat.succ_mul]
        omega
    · rintro ⟨r, hr, rfl⟩
      rw [Bool.or_eq_true]
      cases r with
      | zero =>
        refine Or.inl ?_
        rw [Nat.testBit_two_pow]
        simp
      | succ r =>
        refine Or.inr ?_
        rw [Bool.and_eq_true, decide_eq_true_eq]
        constructor
        · rw [Nat.succ_mul]; omega
        · rw [ih ((r + 1) * W + x - W)]
          refine ⟨r, by omega, ?_⟩
          rw [Nat.succ_mul]
          omega



theorem rowMod (W y k : Nat) : (y * W + k) % W = k % W := by
  rw [Nat.mul_comm, Nat.mul_add_mod]

theorem rowDiv {W : Nat} (hW : 0 < W) (y k : Nat) : (y * W + k) / W = y + k / W := by
  rw [Nat.mul_comm, Nat.mul_add_div hW]

theorem testBit_geo_full {b : Board} (hwf : WFB b) {i : Nat} :
    b.geo.full.testBit i = decide (i < b.size.x.toNat * b.size.y.toNat) := by
  show ((1 <<< (b.size.x.toNat * b.size.y.toNat)) - 1).testBit i = _
  rw [Nat.one_shiftLeft, Nat.testBit_two_pow_sub_one]

theorem maskB_of_land_full {b : Board} (hwf : WFB b) (S : Nat) :
    maskB (S &&& b.geo.full) (b.size.x.toNat * b.size.y.toNat) := by
  intro i hi
  rw [Nat.testBit_and, testBit_geo_full hwf] at hi
  simp at hi
  exact hi.2

theorem widthPos {b : Board} (hwf : WFB b) {i : Nat}
    (hi : i < b.size.x.toNat * b.size.y.toNat) :
    0 < b.size.x.toNat ∧ 0 < b.size.y.toNat := by
  constructor
  · by_contra h
    have h0 : b.size.x.toNat = 0 := by omega
    rw [h0, Nat.zero_mul] at hi
    omega
  · by_contra h
    have h0 : b.size.y.toNat = 0 := by omega
    rw [h0, Nat.mul_zero] at hi
    omega

theorem colMask_bit_iff_mod {b : Board} (hwf : WFB b) {x : Nat} (hx : x < b.size.x.toNat)
    {i : Nat} (hi : i < b.size.x.toNat * b.size.y.toNat) :
    (colMask b.size.x.toNat x b.size.y.toNat).testBit i = true ↔ i % b.size.x.toNat = x := by
  have hW : 0 < b.size.x.toNat := (widthPos hwf hi).1
  rw [testBit_colMask]
  constructor
  · rintro ⟨r, hr, rfl⟩
    rw [rowMod, Nat.mod_eq_of_lt hx]
  · intro hmod
    refine ⟨i / b.size.x.toNat, ?_, ?_⟩
    · rw [Nat.div_lt_iff_lt_mul hW]
      rw [Nat.mul_comm] at hi
      exact hi
    · conv_lhs => rw [← Nat.div_add_mod i b.size.x.toNat]
      rw [hmod, Nat.mul_comm]

theorem testBit_geo_noLeft {b : Board} (hwf : WFB b) {i : Nat} :
    b.geo.noLeft.testBit i = true ↔
      i < b.size.x.toNat * b.size.y.toNat ∧ i % b.size.x.toNat ≠ 0 := by
  show ((b.geo.full ^^^ (colMask b.size.x.toNat 0 b.size.y.toNat &&& b.geo.full)).testBit i
    = true) ↔ _
  rw [Nat.testBit_xor, Nat.testBit_and, testBit_geo_full hwf]
  by_cases hi : i < b.size.x.toNat * b.size.y.toNat
  · have hW : 0 < b.size.x.toNat := (widthPos hwf hi).1
    rw [decide_eq_true hi]
    simp only [Bool.and_true, Bool.true_xor, Bool.not_eq_true']
    rw [← Bool.not_eq_true]
    rw [colMask_bit_iff_mod hwf hW hi]
    simp [hi]
  · rw [decide_eq_false hi]
    simp only [Bool.and_false, Bool.false_xor]
    constructor
    · intro h; exact absurd h (by simp)
    · intro h; exact absurd h.1 hi

theorem testBit_geo_noRight {b : Board} (hwf : WFB b) {i : Nat} :
    b.geo.noRight.testBit i = true ↔
      i < b.size.x.toNat * b.size.y.toNat ∧ i % b.size.x.toNat ≠ b.size.x.toNat - 1 := by
  show ((b.geo.full ^^^
      (colMask b.size.x.toNat (b.size.x.toNat - 1) b.size.y.toNat &&& b.geo.full)).testBit i
    = true) ↔ _
  rw [Nat.testBit_xor, Nat.testBit_and, testBit_geo_full hwf]
  by_cases hi : i < b.size.x.toNat * b.size.y.toNat
  · have hW : 0 < b.size.x.toNat := (widthPos hwf hi).1
    rw [decide_eq_true hi]
    simp only [Bool.and_true, Bool.true_xor, Bool.not_eq_true']
    rw [← Bool.not_eq_true]
    rw [colMask_bit_iff_mod hwf (by omega) hi]
    simp [hi]
  · rw [decide_eq_false hi]
    simp only [Bool.and_false, Bool.false_xor]
    constructor
    · intro h; exact absurd h (by simp)
    · intro h; exact absurd h.1 hi



theorem step_flip_ud {p q : Point} : q = p.step Direction.Up ↔ p = q.step Direction.Down := by
  cases p with
  | mk py px =>
    cases q with
    | mk qy qx =>
      simp only [Point.step, Point.mk.injEq]
      constructor <;> rintro ⟨h1, h2⟩ <;> constructor <;> omega

theorem step_flip_lr {p q : Point} : q = p.step Direction.Left ↔ p = q.step Direction.Right := by
  cases p with
  | mk py px =>
    cases q with
    | mk qy qx =>
      simp only [Point.step, Point.mk.injEq]
      constructor <;> rintro ⟨h1, h2⟩ <;> constructor <;> omega

theorem mem_neighbors {p q : Point} :
    q ∈ p.neighbors ↔ q = p.step Direction.Up ∨ q = p.step Direction.Left ∨
      q = p.step Direction.Right ∨ q = p.step Direction.Down := by
  simp [Point.neighbors, directions]

theorem neighbors_mem_of_mem {p q : Point} (h : q ∈ p.neighbors) : p ∈ q.neighbors := by
  rw [mem_neighbors] at h ⊢
  rcases h with h | h | h | h
  · exact Or.inr (Or.inr (Or.inr (step_flip_ud.mp h)))
  · exact Or.inr (Or.inr (Or.inl (step_flip_lr.mp h)))
  · exact Or.inr (Or.inl ((step_flip_lr (p := q) (q := p)).mpr h))
  · exact Or.inl ((step_flip_ud (p := q) (q := p)).mpr h)

theorem neighbors_comm {p q : Point} : q ∈ p.neighbors ↔ p ∈ q.neighbors :=
  ⟨neighbors_mem_of_mem, neighbors_mem_of_mem⟩

theorem step_down_iff {b : Board} (hwf : WFB b) {p q : Point} (hp : b.bounds_check p = true)
    (hq : b.bounds_check q = true) :
    q = p.step Direction.Down ↔ b.index_of_point q = b.index_of_point p + b.size.x.toNat := by
  obtain ⟨h1, h2, h3, h4⟩ := bounds_check_iff.mp hp
  obtain ⟨g1, g2, g3, g4⟩ := bounds_check_iff.mp hq
  have hW : 0 < b.size.x.toNat := (widthPos hwf (idx_lt hwf hp)).1
  constructor
  · intro h
    subst h
    show (p.y + 1).toNat * b.size.x.toNat + p.x.toNat = _
    have hy1 : (p.y + 1).toNat = p.y.toNat + 1 := by omega
    rw [hy1, Nat.succ_mul]
    unfold Board.index_of_point
    omega
  · intro h
    have hxq := idx_mod hq
    have hyq := idx_div hq
    have hxp := idx_mod hp
    have hyp := idx_div hp
    rw [h] at hxq hyq
    rw [Nat.add_mod_right] at hxq
    rw [Nat.add_div_right _ hW] at hyq
    rw [hxp] at hxq
    rw [hyp] at hyq
    have hex : q.x = p.x := by omega
    have hey : q.y = p.y + 1 := by omega
    show q = (⟨p.y + 1, p.x⟩ : Point)
    cases q
    exact congrArg₂ Point.mk hey hex

theorem step_right_iff {b : Board} (hwf : WFB b) {p q : Point} (hp : b.bounds_check p = true)
    (hq : b.bounds_check q = true) :
    q = p.step Direction.Right ↔
      (b.index_of_point q = b.index_of_point p + 1 ∧
        b.index_of_point q % b.size.x.toNat ≠ 0) := by
  obtain ⟨h1, h2, h3, h4⟩ := bounds_check_iff.mp hp
  obtain ⟨g1, g2, g3, g4⟩ := bounds_check_iff.mp hq
  have hW : 0 < b.size.x.toNat := (widthPos hwf (idx_lt hwf hp)).1
  constructor
  · intro h
    have hxq := idx_mod hq
    subst h
    constructor
    · show p.y.toNat * b.size.x.toNat + (p.x + 1).toNat = _
      have hx1 : (p.x + 1).toNat = p.x.toNat + 1 := by omega
      rw [hx1]
      unfold Board.index_of_point
      omega
    · rw [hxq]
      show ¬(p.x + 1).toNat = 0
      omega
  · rintro ⟨h, hmod⟩
    have hxq := idx_mod hq
    have hyq := idx_div hq
    have hxp := idx_mod hp
    have hyp := idx_div hp
    by_cases hedge : p.x.toNat + 1 < b.size.x.toNat
    · have hq' : b.index_of_point q = p.y.toNat * b.size.x.toNat + (p.x.toNat + 1) := by
        rw [h]
        unfold Board.index_of_point
        omega
      rw [hq', rowMod, Nat.mod_eq_of_lt hedge] at hxq
      rw [hq', rowDiv hW, Nat.div_eq_of_lt hedge, Nat.add_zero] at hyq
      have hex : q.x = p.x + 1 := by omega
      have hey : q.y = p.y := by omega
      show q = (⟨p.y, p.x + 1⟩ : Point)
      cases q
      exact congrArg₂ Point.mk hey hex
    · exfalso
      have hxW : p.x.toNat + 1 = b.size.x.toNat := by
        have : p.x.toNat < b.size.x.toNat := by omega
        omega
      have hq' : b.index_of_point q = (p.y.toNat + 1) * b.size.x.toNat := by
        rw [h]
        unfold Board.index_of_point
        rw [Nat.succ_mul]
        omega
      rw [hq', Nat.mul_mod_left] at hxq
      exact hmod (by rw [hq', Nat.mul_mod_left])



theorem geo_W (b : Board) : b.geo.W = b.size.x.toNat := rfl

theorem mod_pred {W j : Nat} (hW : 0 < W) (hj : 1 ≤ j) (h0 : j % W = 0) :
    (j - 1) % W = W - 1 := by
  have hd := Nat.div_add_mod j W
  have hq1 : 1 ≤ j / W := by
    rcases Nat.eq_zero_or_pos (j / W) with he | he
    · rw [he, Nat.mul_zero] at hd; omega
    · exact he
  have e1 : j / W = (j / W - 1) + 1 := by omega
  have hsplit : W * ((j / W - 1) + 1) = W * (j / W - 1) + W := by
    rw [Nat.mul_add, Nat.mul_one]
  rw [e1] at hd
  have hj1 : j - 1 = W * (j / W - 1) + (W - 1) := by omega
  rw [hj1, Nat.mul_add_mod, Nat.mod_eq_of_lt (by omega)]

theorem mod_succ_of {W j : Nat} (hW : 0 < W) (h : j % W = W - 1) : (j + 1) % W = 0 := by
  have hd := Nat.div_add_mod j W
  have h2 : j + 1 = W * (j / W + 1) := by
    rw [Nat.mul_add, Nat.mul_one]
    omega
  rw [h2, Nat.mul_mod_right]

theorem testBit_adjacent {b : Board} (hwf : WFB b) (S j : Nat) :
    (adjacent b.geo S).testBit j = true ↔
      j < b.size.x.toNat * b.size.y.toNat ∧
        ((S.testBit (1 + j) = true ∧ 1 + j < b.size.x.toNat * b.size.y.toNat ∧
            (1 + j) % b.size.x.toNat ≠ 0) ∨
         (1 ≤ j ∧ S.testBit (j - 1) = true ∧ j - 1 < b.size.x.toNat * b.size.y.toNat ∧
            (j - 1) % b.size.x.toNat ≠ b.size.x.toNat - 1) ∨
         S.testBit (b.size.x.toNat + j) = true ∨
         (b.size.x.toNat ≤ j ∧ S.testBit (j - b.size.x.toNat) = true)) := by
  show ((((S &&& b.geo.noLeft) >>> 1) ||| ((S &&& b.geo.noRight) <<< 1) |||
      (S >>> b.size.x.toNat) ||| (S <<< b.size.x.toNat)) &&& b.geo.full).testBit j = true ↔ _
  rw [Nat.testBit_and, Nat.testBit_or, Nat.testBit_or, Nat.testBit_or,
    Nat.testBit_shiftRight, Nat.testBit_shiftRight, Nat.testBit_shiftLeft,
    Nat.testBit_shiftLeft, Nat.testBit_and, Nat.testBit_and, testBit_geo_full hwf]
  simp only [Bool.and_eq_true, Bool.or_eq_true, decide_eq_true_eq]
  rw [testBit_geo_noLeft hwf, testBit_geo_noRight hwf]
  constructor
  · rintro ⟨h, hj⟩
    exact ⟨hj, by tauto⟩
  · rintro ⟨hj, h⟩
    exact ⟨by tauto, hj⟩

theorem adjacent_point_iff {b : Board} (hwf : WFB b) {S : Nat}
    (hS : maskB S (b.size.x.toNat * b.size.y.toNat))
    {q : Point} (hq : b.bounds_check q = true) :
    (adjacent b.geo S).testBit (b.index_of_point q) = true ↔
      ∃ p : Point, b.bounds_check p = true ∧ S.testBit (b.index_of_point p) = true ∧
        q ∈ p.neighbors := by
  have hjlt := idx_lt hwf hq
  have hW : 0 < b.size.x.toNat := (widthPos hwf hjlt).1
  rw [testBit_adjacent hwf]
  constructor
  · rintro ⟨hj, h1 | h2 | h3 | h4⟩
    · obtain ⟨hb, hlt, hmod⟩ := h1
      obtain ⟨p, hp, hip⟩ := exists_point_of_idx hwf hlt
      refine ⟨p, hp, by rw [hip]; exact hb, ?_⟩
      rw [mem_neighbors]
      refine Or.inr (Or.inl ?_)
      rw [step_flip_lr]
      rw [(step_right_iff hwf hq hp : _ ↔ _)]
      exact ⟨by omega, by rw [hip]; omega⟩
    · obtain ⟨h1j, hb, hlt, hmod⟩ := h2
      obtain ⟨p, hp, hip⟩ := exists_point_of_idx hwf hlt
      refine ⟨p, hp, by rw [hip]; exact hb, ?_⟩
      rw [mem_neighbors]
      refine Or.inr (Or.inr (Or.inl ?_))
      rw [(step_right_iff hwf hp hq : _ ↔ _)]
      exact ⟨by omega, fun h0 => hmod (mod_pred hW h1j h0)⟩
    · have hlt : b.size.x.toNat + b.index_of_point q < b.size.x.toNat * b.size.y.toNat :=
        hS _ h3
      obtain ⟨p, hp, hip⟩ := exists_point_of_idx hwf hlt
      refine ⟨p, hp, by rw [hip]; exact h3, ?_⟩
      rw [mem_neighbors]
      refine Or.inl ?_
      rw [step_flip_ud]
      rw [(step_down_iff hwf hq hp : _ ↔ _)]
      omega
    · obtain ⟨hWj, hb⟩ := h4
      have hlt : b.index_of_point q - b.size.x.toNat < b.size.x.toNat * b.size.y.toNat := by
        omega
      obtain ⟨p, hp, hip⟩ := exists_point_of_idx hwf hlt
      refine ⟨p, hp, by rw [hip]; exact hb, ?_⟩
      rw [mem_neighbors]
      refine Or.inr (Or.inr (Or.inr ?_))
      rw [(step_down_iff hwf hp hq : _ ↔ _)]
      omega
  · rintro ⟨p, hp, hb, hn⟩
    have hplt := idx_lt hwf hp
    refine ⟨hjlt, ?_⟩
    rw [mem_neighbors] at hn
    rcases hn with h | h | h | h
    · -- q = p.step Up, so p = q.step Down : idx p = idx q + W
      refine Or.inr (Or.inr (Or.inl ?_))
      have := (step_down_iff hwf hq hp).mp (step_flip_ud.mp h)
      rw [← Nat.add_comm (b.size.x.toNat) (b.index_of_point q)] at this
      rw [← this]
      exact hb
    · -- q = p.step Left, so p = q.step Right : idx p = idx q + 1
      refine Or.inl ?_
      obtain ⟨he, hm⟩ := (step_right_iff hwf hq hp).mp (step_flip_lr.mp h)
      rw [Nat.add_comm 1 (b.index_of_point q), ← he]
      exact ⟨hb, hplt, hm⟩
    · -- q = p.step Right : idx q = idx p + 1
      refine Or.inr (Or.inl ?_)
      obtain ⟨he, hm⟩ := (step_right_iff hwf hp hq).mp h
      have hsub : b.index_of_point q - 1 = b.index_of_point p := by omega
      refine ⟨by omega, by rw [hsub]; exact hb, by rw [hsub]; exact hplt, ?_⟩
      rw [hsub]
      intro h0
      exact hm (by rw [he]; exact mod_succ_of hW h0)
    · -- q = p.step Down : idx q = idx p + W
      refine Or.inr (Or.inr (Or.inr ?_))
      have he := (step_down_iff hwf hp hq).mp h
      refine ⟨by omega, ?_⟩
      have hsub : b.index_of_point q - b.size.x.toNat = b.index_of_point p := by omega
      rw [hsub]
      exact hb



theorem pcontains_iff {l : List Point} {q : Point} : l.contains q = true ↔ q ∈ l :=
  List.elem_iff

theorem tile_beq_iff {t t' : Tile} : (t == t') = true ↔ t = t' := by
  cases t <;> cases t' <;> simp [BEq.beq, Tile.beq] <;> intro h <;> exact h

theorem natBeq_iff {a b : Nat} : (a.beq b = true) ↔ a = b := by
  constructor
  · exact Nat.eq_of_beq_eq_true
  · intro h
    subst h
    exact Nat.beq_refl a

theorem succ_beq_self_false (d : Nat) : ((d + 1).beq d) = false := by
  cases h : (d + 1).beq d
  · rfl
  · exact absurd (Nat.eq_of_beq_eq_true h) (by omega)

theorem optTile_beq_iff {o : Option Tile} {t : Tile} : (o == some t) = true ↔ o = some t := by
  cases o with
  | none =>
    rw [show ((none : Option Tile) == some t) = false from rfl]
    simp
  | some t' =>
    show (t' == t) = true ↔ _
    rw [tile_beq_iff]
    simp

theorem get_some_bounds {b : Board} {p : Point} {t : Tile} (h : b.get p = some t) :
    b.bounds_check p = true := by
  unfold Board.get at h
  by_cases hb : b.bounds_check p = true
  · exact hb
  · rw [if_neg hb] at h
    exact absurd h (by simp)

theorem hasGoalNbr_iff {b : Board} {goal : Team} {c : Point} :
    hasGoalNbr b goal c = true ↔
      ∃ q ∈ c.neighbors, ∃ t, b.get q = some t ∧ t.is_team goal = true := by
  unfold hasGoalNbr
  rw [List.any_eq_true]
  constructor
  · rintro ⟨t, ht, hteam⟩
    obtain ⟨q, hq, hget⟩ := List.mem_filterMap.mp ht
    exact ⟨q, hq, t, hget, hteam⟩
  · rintro ⟨q, hq, t, hget, hteam⟩
    exact ⟨t, List.mem_filterMap.mpr ⟨q, hq, hget⟩, hteam⟩

theorem layerCount_openInsertMin (d : Nat) (opn : List (Point × Nat)) (p : Point) :
    layerCount d (openInsertMin opn p (d + 1)) = layerCount d opn := by
  induction opn with
  | nil =>
    show (List.filter _ [(p, d + 1)]).length = (List.filter _ []).length
    simp [List.filter_cons, succ_beq_self_false]
  | cons e rest ih =>
    obtain ⟨k, n⟩ := e
    by_cases hc : k.eqb p = true
    · have hmin : (min n (d + 1)).beq d = n.beq d := by
        rcases Nat.lt_or_ge n (d + 1) with h | h
        · rw [Nat.min_def, if_pos (by omega)]
        · have h1 : min n (d + 1) = d + 1 := by
            rw [Nat.min_def]
            split <;> omega
          rw [h1, succ_beq_self_false]
          cases hn : n.beq d
          · rfl
          · exact absurd (Nat.eq_of_beq_eq_true hn) (by omega)
      simp only [openInsertMin, hc, if_true, layerCount, List.filter_cons, hmin]
      cases hn : n.beq d <;> simp
    · simp only [openInsertMin, hc, Bool.false_eq_true, if_false, layerCount,
        List.filter_cons]
      simp only [layerCount] at ih
      cases hn : n.beq d <;> simp [ih]

theorem layerCount_expand (d : Nat) :
    ∀ (L : List Point) (acc : List (Point × Nat)),
      layerCount d (L.foldl (fun acc p => openInsertMin acc p (d + 1)) acc) =
        layerCount d acc := by
  intro L
  induction L with
  | nil => intro acc; rfl
  | cons p L' ih =>
    intro acc
    simp only [List.foldl_cons]
    rw [ih, layerCount_openInsertMin]

theorem layerCount_filter_current {d : Nat} {opn : List (Point × Nat)} {c : Point}
    (hnd : (keysOf opn).Nodup) (hmem : (c, d) ∈ opn) :
    layerCount d (opn.filter (fun e => !(e.1.eqb c))) + 1 = layerCount d opn := by
  induction opn with
  | nil => simp at hmem
  | cons e rest ih =>
    obtain ⟨k, n⟩ := e
    simp only [keysOf, List.map_cons, List.nodup_cons] at hnd
    by_cases hkc : k.eqb c = true
    · have hk : k = c := Point.eqb_iff.mp hkc
      subst hk
      have hned : n = d := by
        rcases List.mem_cons.mp hmem with h' | h'
        · cases h'; rfl
        · exact absurd (mem_keysOf.mpr ⟨d, h'⟩) hnd.1
      subst hned
      have hrest : rest.filter (fun e => !(e.1.eqb k)) = rest := by
        apply List.filter_eq_self.mpr
        intro e he
        by_contra hcon
        have : e.1.eqb k = true := by
          cases h : e.1.eqb k
          · exact absurd (by simp [h]) hcon
          · rfl
        have : e.1 = k := Point.eqb_iff.mp this
        exact hnd.1 (mem_keysOf.mpr ⟨e.2, by rw [← this]; exact he⟩)
      simp only [List.filter_cons, hkc, Bool.not_true, Bool.false_eq_true, if_false, hrest]
      simp [layerCount, List.filter_cons, Nat.beq_refl]
    · have hmem' : (c, d) ∈ rest := by
        rcases List.mem_cons.mp hmem with h' | h'
        · cases h'; simp [Point.eqb_iff.mpr rfl] at hkc
        · exact h'
      have ihh := ih hnd.2 hmem'
      simp only [List.filter_cons, hkc, Bool.not_false, if_true]
      simp only [layerCount, List.filter_cons] at ihh ⊢
      cases hn : n.beq d
      · simp only [Bool.false_eq_true, if_false]
        exact ihh
      · simp only [if_true, List.length_cons]
        omega



theorem pcontains_false_iff {l : List Point} {q : Point} : l.contains q = false ↔ q ∉ l := by
  rw [← pcontains_iff]
  cases l.contains q <;> simp

theorem pcontains_append_false {l1 l2 : List Point} {q : Point} :
    (l1 ++ l2).contains q = false ↔ l1.contains q = false ∧ l2.contains q = false := by
  rw [pcontains_false_iff, pcontains_false_iff, pcontains_false_iff, List.mem_append]
  tauto

theorem pcontains_cons {a : Point} {l : List Point} {q : Point} :
    (a :: l).contains q = ((q == a) || l.contains q) := by
  show List.elem q (a :: l) = _
  cases h : q == a <;> simp [List.elem, h]

theorem pbeq_false_iff {a q : Point} : (q == a) = false ↔ ¬q = a := by
  rw [← Point.beq_iff]
  cases (q == a) <;> simp

theorem Nxt_mono {b : Board} {V₀ : List Point} {L : Point → Prop} {ps : List Point}
    {q c : Point} (h : Nxt b V₀ L ps q) : Nxt b V₀ L (c :: ps) q := by
  obtain ⟨h1, h2, h3, c₀, hm, hn⟩ := h
  exact ⟨h1, h2, h3, c₀, List.mem_cons_of_mem _ hm, hn⟩

theorem innerStep {b : Board} {d : Nat} {L : Point → Prop} {V₀ : List Point}
    {opn : List (Point × Nat)} {processed : List Point}
    (hLV : ∀ q, L q → V₀.contains q = false)
    (inv : InnerInv b d L V₀ opn processed)
    {current : Point} (hcl : L current) (hcp : current ∉ processed) :
    InnerInv b d L V₀
      ((current.neighbors.filter (fun p =>
          !((current :: (processed ++ V₀)).contains p) && (b.get p == some Tile.Empty))).foldl
        (fun acc p => openInsertMin acc p (d + 1))
        (opn.filter (fun e => !(e.1.eqb current))))
      (current :: processed) := by
  have hbool : ∀ x : Bool, ((!x) = true ↔ x = false) := by decide
  have hpsm : ∀ q, q ∈ (current.neighbors.filter (fun p =>
      !((current :: (processed ++ V₀)).contains p) && (b.get p == some Tile.Empty))) ↔
      (q ∈ current.neighbors ∧ ¬q = current ∧ (processed ++ V₀).contains q = false ∧
        b.get q = some Tile.Empty) := by
    intro q
    rw [List.mem_filter, Bool.and_eq_true, hbool, optTile_beq_iff, pcontains_cons,
      Bool.or_eq_false_iff, pbeq_false_iff, and_assoc]
  have hbase_nodup : (keysOf (opn.filter (fun e => !(e.1.eqb current)))).Nodup := by
    rw [keysOf_filter_key (fun p => !(p.eqb current)) opn]
    exact inv.nodup.filter _
  constructor
  · exact nodup_keysOf_expand _ _ _ hbase_nodup
  · intro q hq
    rcases (mem_keysOf_expand _ _ _ q).mp hq with h | h
    · rw [keysOf_filter_key (fun p => !(p.eqb current)) opn] at h
      exact inv.keys_bounds q (List.mem_of_mem_filter h)
    · exact get_some_bounds ((hpsm q).mp h).2.2.2
  · intro q hLq hqp'
    have hqc : ¬q = current := fun h => hqp' (by rw [h]; exact List.mem_cons_self _ _)
    have hqp : q ∉ processed := fun h => hqp' (List.mem_cons_of_mem _ h)
    have hold : olookup opn q = some d := inv.inv_d q hLq hqp
    rw [olookup_expand]
    by_cases hq : q ∈ (current.neighbors.filter (fun p =>
        !((current :: (processed ++ V₀)).contains p) && (b.get p == some Tile.Empty)))
    · rw [if_pos hq, olookup_filter_ne, if_neg hqc, hold]
      show some (min d (d + 1)) = some d
      rw [Nat.min_def, if_pos (by omega)]
    · rw [if_neg hq, olookup_filter_ne, if_neg hqc]
      exact hold
  · intro q v hlk
    rw [olookup_expand] at hlk
    by_cases hq : q ∈ (current.neighbors.filter (fun p =>
        !((current :: (processed ++ V₀)).contains p) && (b.get p == some Tile.Empty)))
    · obtain ⟨hqn, hqc, hcf, hemp⟩ := (hpsm q).mp hq
      obtain ⟨hpf, hvf⟩ := pcontains_append_false.mp hcf
      have hqp : q ∉ processed := pcontains_false_iff.mp hpf
      rw [if_pos hq, olookup_filter_ne, if_neg hqc] at hlk
      cases hold : olookup opn q with
      | none =>
        rw [hold] at hlk
        have hv : v = d + 1 := by
          have := hlk
          simp only [Option.some.injEq] at this
          omega
        refine Or.inr ⟨hv, ?_, hvf, hemp, current, List.mem_cons_self _ _, hqn⟩
        intro hLq
        rw [inv.inv_d q hLq hqp] at hold
        exact Option.noConfusion hold
      | some w =>
        rw [hold] at hlk
        have hv : v = min w (d + 1) := by
          simp only [Option.some.injEq] at hlk
          omega
        rcases inv.inv_shape q w hold with ⟨hwd, hLq, hqp2⟩ | ⟨hwd, hnx⟩
        · refine Or.inl ⟨?_, hLq, ?_⟩
          · rw [hv, hwd, Nat.min_def, if_pos (by omega)]
          · intro hmem
            rcases List.mem_cons.mp hmem with h' | h'
            · exact hqc h'
            · exact hqp2 h'
        · refine Or.inr ⟨?_, Nxt_mono hnx⟩
          rw [hv, hwd, Nat.min_self]
    · rw [if_neg hq, olookup_filter_ne] at hlk
      by_cases hqc : q = current
      · rw [if_pos hqc] at hlk
        exact Option.noConfusion hlk
      · rw [if_neg hqc] at hlk
        rcases inv.inv_shape q v hlk with ⟨hvd, hLq, hqp⟩ | ⟨hvd, hnx⟩
        · refine Or.inl ⟨hvd, hLq, ?_⟩
          intro hmem
          rcases List.mem_cons.mp hmem with h' | h'
          · exact hqc h'
          · exact hqp h'
        · exact Or.inr ⟨hvd, Nxt_mono hnx⟩
  · intro q hnx
    obtain ⟨hnl, hv0, hemp, c₀, hc₀, hqn⟩ := hnx
    have hqc : ¬q = current := fun h => hnl (h ▸ hcl)
    rw [olookup_expand]
    by_cases hq : q ∈ (current.neighbors.filter (fun p =>
        !((current :: (processed ++ V₀)).contains p) && (b.get p == some Tile.Empty)))
    · rw [if_pos hq, olookup_filter_ne, if_neg hqc]
      cases hold : olookup opn q with
      | none => rfl
      | some w =>
        rcases inv.inv_shape q w hold with ⟨_, hLq, _⟩ | ⟨hwd, _⟩
        · exact absurd hLq hnl
        · rw [hwd]
          show some (min (d + 1) (d + 1)) = some (d + 1)
          rw [Nat.min_self]
    · rw [if_neg hq, olookup_filter_ne, if_neg hqc]
      rcases List.mem_cons.mp hc₀ with hce | hcp₀
      · exfalso
        subst hce
        apply hq
        rw [hpsm q]
        refine ⟨hqn, hqc, ?_, hemp⟩
        rw [pcontains_append_false]
        refine ⟨?_, hv0⟩
        rw [pcontains_false_iff]
        intro hmem
        exact hnl (inv.proc_sub q hmem)
      · exact inv.inv_next q ⟨hnl, hv0, hemp, c₀, hcp₀, hqn⟩
  · intro c hcm
    rcases List.mem_cons.mp hcm with h | h
    · rw [h]; exact hcl
    · exact inv.proc_sub c h
  · rw [List.cons_append, List.nodup_cons]
    refine ⟨?_, inv.vis_nodup⟩
    rw [List.mem_append]
    rintro (h | h)
    · exact hcp h
    · exact pcontains_false_iff.mp (hLV current hcl) h

theorem innerExtract {b : Board} {d : Nat} {L : Point → Prop} {V₀ : List Point}
    {opn : List (Point × Nat)} {processed : List Point}
    (inv : InnerInv b d L V₀ opn processed)
    {w : Point} (hw : L w) (hwp : w ∉ processed) :
    ∃ current, openMin opn = some (current, d) ∧ L current ∧ current ∉ processed := by
  have hwlk : olookup opn w = some d := inv.inv_d w hw hwp
  have hwmem : (w, d) ∈ opn := mem_of_olookup_eq_some hwlk
  cases he : openMin opn with
  | none =>
    rw [openMin_eq_none] at he
    rw [he] at hwmem
    exact absurd hwmem (List.not_mem_nil _)
  | some e₀ =>
    obtain ⟨c, dc⟩ := e₀
    have hmem : (c, dc) ∈ opn := openMin_mem he
    have hlk : olookup opn c = some dc := olookup_eq_some_of_mem inv.nodup hmem
    have hmin : openEntryLt (w, d) (c, dc) = false := openMin_not_lt he hwmem
    have hle : dc ≤ d := by
      by_contra hcon
      have hlt : openEntryLt (w, d) (c, dc) = true := by
        rw [openEntryLt_iff]
        left
        show d < dc
        omega
      rw [hlt] at hmin
      exact Bool.noConfusion hmin
    rcases inv.inv_shape c dc hlk with ⟨hdc, hLc, hcpr⟩ | ⟨hdc, _⟩
    · refine ⟨c, ?_, hLc, hcpr⟩
      rw [hdc]
    · omega

theorem dtcuLoop_succ (b : Board) (goal : Team) (fuel : Nat) (opn : List (Point × Nat))
    (visited : List Point) :
    dtcuLoop b goal (fuel + 1) opn visited =
      match dtcuStep b goal opn visited with
      | (some r, _, _) => r
      | (none, opn', visited') => dtcuLoop b goal fuel opn' visited' := rfl

theorem dtcuStep_none {b : Board} {goal : Team} {opn : List (Point × Nat)}
    {visited : List Point} (hmin : openMin opn = none) :
    dtcuStep b goal opn visited = (some none, opn, visited) := by
  unfold dtcuStep
  rw [hmin]

theorem dtcuStep_exit {b : Board} {goal : Team} {opn : List (Point × Nat)}
    {visited : List Point} {current : Point} {d : Nat}
    (hmin : openMin opn = some (current, d)) (ht : hasGoalNbr b goal current = true) :
    dtcuStep b goal opn visited = (some (some (d + 1)), opn, visited) := by
  unfold dtcuStep
  rw [hmin]
  unfold hasGoalNbr at ht
  simp only [ht, if_true]

theorem dtcuStep_go {b : Board} {goal : Team} {opn : List (Point × Nat)}
    {visited : List Point} {current : Point} {d : Nat}
    (hmin : openMin opn = some (current, d)) (hng : hasGoalNbr b goal current = false) :
    dtcuStep b goal opn visited =
      (none,
       (current.neighbors.filter (fun p =>
           !((current :: visited).contains p) && (b.get p == some Tile.Empty))).foldl
         (fun acc p => openInsertMin acc p (d + 1)) (opn.filter (fun e => !(e.1.eqb current))),
       current :: visited) := by
  unfold dtcuStep
  rw [hmin]
  unfold hasGoalNbr at hng
  simp only [hng, Bool.false_eq_true, if_false]

theorem layerCount_pos {b : Board} {d : Nat} {L : Point → Prop} {V₀ : List Point}
    {opn : List (Point × Nat)} {processed : List Point}
    (inv : InnerInv b d L V₀ opn processed)
    {c : Point} (hc : L c) (hcp : c ∉ processed) : 0 < layerCount d opn := by
  have h1 : olookup opn c = some d := inv.inv_d c hc hcp
  have h2 : (c, d) ∈ opn := mem_of_olookup_eq_some h1
  have h3 : (c, d) ∈ opn.filter (fun e => e.2.beq d) :=
    List.mem_filter.mpr ⟨h2, Nat.beq_refl d⟩
  unfold layerCount
  exact List.length_pos.mpr (fun hnil => by
    rw [hnil] at h3
    exact absurd h3 (List.not_mem_nil _))

theorem inner_complete (b : Board) (goal : Team) (d : Nat) (L : Point → Prop) (V₀ : List Point)
    (hLV : ∀ q, L q → V₀.contains q = false)
    (hnt : ∀ c, L c → hasGoalNbr b goal c = false) :
    ∀ (m : Nat) (opn : List (Point × Nat)) (processed : List Point),
      InnerInv b d L V₀ opn processed → layerCount d opn = m →
      ∃ opn' processed',
        (∀ f, dtcuLoop b goal (m + f) opn (processed ++ V₀) =
          dtcuLoop b goal f opn' (processed' ++ V₀)) ∧
        InnerInv b d L V₀ opn' processed' ∧
        (∀ q, L q → q ∈ processed') ∧
        processed'.length = processed.length + m := by
  intro m
  induction m with
  | zero =>
    intro opn processed inv hcount
    refine ⟨opn, processed, fun f => by rw [Nat.zero_add], inv, ?_, by omega⟩
    intro q hLq
    by_contra hqp
    have := layerCount_pos inv hLq hqp
    omega
  | succ m ih =>
    intro opn processed inv hcount
    have hex : ∃ w, L w ∧ w ∉ processed := by
      have hpos : 0 < (opn.filter (fun e => e.2.beq d)).length := by
        unfold layerCount at hcount
        omega
      obtain ⟨e, hmem⟩ := List.exists_mem_of_length_pos hpos
      obtain ⟨q, v⟩ := e
      obtain ⟨hin, hval⟩ := List.mem_filter.mp hmem
      have hvd : v = d := natBeq_iff.mp hval
      subst hvd
      have hlk : olookup opn q = some v := olookup_eq_some_of_mem inv.nodup hin
      rcases inv.inv_shape q v hlk with ⟨_, hLq, hqp⟩ | ⟨hvd1, _⟩
      · exact ⟨q, hLq, hqp⟩
      · omega
    obtain ⟨w, hw, hwp⟩ := hex
    obtain ⟨current, hmin, hcl, hcp⟩ := innerExtract inv hw hwp
    have hstep := @dtcuStep_go b goal opn (processed ++ V₀) _ _ hmin (hnt current hcl)
    have inv1 := innerStep hLV inv hcl hcp
    have hmemcd : (current, d) ∈ opn := mem_of_olookup_eq_some (inv.inv_d current hcl hcp)
    have hcount1 : layerCount d
        ((current.neighbors.filter (fun p =>
            !((current :: (processed ++ V₀)).contains p) && (b.get p == some Tile.Empty))).foldl
          (fun acc p => openInsertMin acc p (d + 1))
          (opn.filter (fun e => !(e.1.eqb current)))) = m := by
      rw [layerCount_expand]
      have := layerCount_filter_current inv.nodup hmemcd
      omega
    obtain ⟨opn', processed', heq, inv', hcomp, hlen⟩ := ih _ (current :: processed) inv1 hcount1
    refine ⟨opn', processed', ?_, inv', hcomp, ?_⟩
    · intro f
      have hf : m + 1 + f = (m + f) + 1 := by omega
      rw [hf]
      show dtcuLoop b goal ((m + f) + 1) opn (processed ++ V₀) = _
      rw [dtcuLoop_succ, hstep]
      exact heq f
    · rw [hlen]
      simp only [List.length_cons]
      omega

theorem inner_touch (b : Board) (goal : Team) (d : Nat) (L : Point → Prop) (V₀ : List Point)
    (hLV : ∀ q, L q → V₀.contains q = false) :
    ∀ (m : Nat) (opn : List (Point × Nat)) (processed : List Point),
      InnerInv b d L V₀ opn processed → layerCount d opn = m →
      (∃ c, L c ∧ c ∉ processed ∧ hasGoalNbr b goal c = true) →
      ∀ f, dtcuLoop b goal (m + f + 1) opn (processed ++ V₀) = some (d + 1) := by
  intro m
  induction m with
  | zero =>
    rintro opn processed inv hcount ⟨c, hc, hcp, _⟩ f
    have := layerCount_pos inv hc hcp
    omega
  | succ m ih =>
    rintro opn processed inv hcount ⟨c, hc, hcp, hctouch⟩ f
    obtain ⟨current, hmin, hcl, hcpr⟩ := innerExtract inv hc hcp
    by_cases htc : hasGoalNbr b goal current = true
    · have hf : m + 1 + f + 1 = (m + f + 1) + 1 := by omega
      rw [hf]
      show dtcuLoop b goal ((m + f + 1) + 1) opn (processed ++ V₀) = _
      rw [dtcuLoop_succ, dtcuStep_exit hmin htc]
    · have hng : hasGoalNbr b goal current = false := by
        cases h : hasGoalNbr b goal current
        · rfl
        · exact absurd h htc
      have hstep := @dtcuStep_go b goal opn (processed ++ V₀) _ _ hmin hng
      have inv1 := innerStep hLV inv hcl hcpr
      have hmemcd : (current, d) ∈ opn := mem_of_olookup_eq_some (inv.inv_d current hcl hcpr)
      have hcount1 : layerCount d
          ((current.neighbors.filter (fun p =>
              !((current :: (processed ++ V₀)).contains p) && (b.get p == some Tile.Empty))).foldl
            (fun acc p => openInsertMin acc p (d + 1))
            (opn.filter (fun e => !(e.1.eqb current)))) = m := by
        rw [layerCount_expand]
        have := layerCount_filter_current inv.nodup hmemcd
        omega
      have hcnotcur : ¬c = current := by
        intro h
        rw [h] at hctouch
        rw [hctouch] at hng
        exact Bool.noConfusion hng
      have hex1 : ∃ c', L c' ∧ c' ∉ (current :: processed) ∧ hasGoalNbr b goal c' = true := by
        refine ⟨c, hc, ?_, hctouch⟩
        intro hmem
        rcases List.mem_cons.mp hmem with h | h
        · exact hcnotcur h
        · exact hcp h
      have hrec := ih _ (current :: processed) inv1 hcount1 hex1 f
      have hf : m + 1 + f + 1 = (m + f + 1) + 1 := by omega
      rw [hf]
      show dtcuLoop b goal ((m + f + 1) + 1) opn (processed ++ V₀) = _
      rw [dtcuLoop_succ, hstep]
      exact hrec

theorem teamM_eq (b : Board) (tm : Team) :
    b.tileMasks.teamM tm = maskOf (fun t => t == teamTile tm) b.map := by
  cases tm <;> rfl

theorem is_team_iff {t : Tile} {tm : Team} : t.is_team tm = true ↔ t = teamTile tm := by
  cases t <;> cases tm <;> simp [Tile.is_team, teamTile]

theorem teamM_bit_iff {b : Board} {tm : Team} {p : Point} (hp : b.bounds_check p = true) :
    (b.tileMasks.teamM tm).testBit (b.index_of_point p) = true ↔
      b.get p = some (teamTile tm) := by
  rw [teamM_eq, tile_bit (fun t => t == teamTile tm) hp]
  cases hg : b.get p with
  | none => simp
  | some t =>
    rw [tile_beq_iff]
    constructor
    · intro h; rw [h]
    · intro h; exact Option.some.injEq _ _ ▸ (by cases h; rfl)

theorem emptyM_bit_iff {b : Board} {p : Point} (hp : b.bounds_check p = true) :
    b.tileMasks.emptyM.testBit (b.index_of_point p) = true ↔ b.get p = some Tile.Empty := by
  rw [show b.tileMasks.emptyM = maskOf (fun t => t == Tile.Empty) b.map from rfl,
    tile_bit (fun t => t == Tile.Empty) hp]
  cases hg : b.get p with
  | none => simp
  | some t =>
    rw [tile_beq_iff]
    constructor
    · intro h; rw [h]
    · intro h; exact Option.some.injEq _ _ ▸ (by cases h; rfl)

theorem touch_bit_iff {b : Board} (hwf : WFB b) {goal : Team} {c : Point}
    (hc : b.bounds_check c = true) :
    (adjacent b.geo (b.tileMasks.teamM goal &&& b.geo.full)).testBit (b.index_of_point c)
        = true ↔ hasGoalNbr b goal c = true := by
  rw [adjacent_point_iff hwf (maskB_of_land_full hwf _) hc, hasGoalNbr_iff]
  constructor
  · rintro ⟨p, hp, hbit, hcn⟩
    rw [Nat.testBit_and, Bool.and_eq_true] at hbit
    have h1 : b.get p = some (teamTile goal) := (teamM_bit_iff hp).mp hbit.1
    exact ⟨p, neighbors_mem_of_mem hcn, teamTile goal, h1, is_team_iff.mpr rfl⟩
  · rintro ⟨q, hq, t, hget, histeam⟩
    have hqb := get_some_bounds hget
    refine ⟨q, hqb, ?_, neighbors_mem_of_mem hq⟩
    rw [Nat.testBit_and, Bool.and_eq_true]
    constructor
    · rw [teamM_bit_iff hqb, ← is_team_iff.mp histeam]
      exact hget
    · rw [testBit_geo_full hwf]
      exact decide_eq_true (idx_lt hwf hqb)

theorem nodup_bounded_length_le {b : Board} (hwf : WFB b) {l : List Point}
    (hnd : l.Nodup) (hb : ∀ q ∈ l, b.bounds_check q = true) :
    l.length ≤ b.size.x.toNat * b.size.y.toNat := by
  have hmapnd : (l.map (fun q => b.index_of_point q)).Nodup := by
    refine List.Nodup.map_on ?_ hnd
    intro x hx y hy hxy
    exact idx_inj (hb x hx) (hb y hy) hxy
  have hsub : (l.map (fun q => b.index_of_point q))
      ⊆ List.range (b.size.x.toNat * b.size.y.toNat) := by
    intro i hi
    obtain ⟨q, hq, hqi⟩ := List.mem_map.mp hi
    rw [List.mem_range, ← hqi]
    exact idx_lt hwf (hb q hq)
  have hle := (hmapnd.subperm hsub).length_le
  rw [List.length_map, List.length_range] at hle
  exact hle



theorem layerLoop_succ (mk : Geo) (emp adjGoal fuel d frontier vis : Nat) :
    layerLoop mk emp adjGoal (fuel + 1) d frontier vis =
      if frontier == 0 then none
      else if frontier &&& adjGoal != 0 then some (d + 1)
      else layerLoop mk emp adjGoal fuel (d + 1)
        (adjacent mk frontier &&& emp &&& (mk.full ^^^ (vis ||| frontier)))
        (vis ||| frontier) := rfl

theorem pcontains_append {l1 l2 : List Point} {q : Point} :
    (l1 ++ l2).contains q = (l1.contains q || l2.contains q) := by
  cases h : (l1 ++ l2).contains q
  · have hm := pcontains_false_iff.mp h
    rw [List.mem_append] at hm
    push_neg at hm
    rw [pcontains_false_iff.mpr hm.1, pcontains_false_iff.mpr hm.2]
    rfl
  · have hm := pcontains_iff.mp h
    rw [List.mem_append] at hm
    rcases hm with h1 | h2
    · rw [pcontains_iff.mpr h1]
      rfl
    · rw [pcontains_iff.mpr h2]
      cases l1.contains q <;> rfl

theorem outer_hLV {b : Board} {d M V : Nat} {opn : List (Point × Nat)}
    {visited : List Point} (rel : LayerRel b d M V opn visited) :
    ∀ q, LM b M q → visited.contains q = false := by
  rintro q ⟨hqb, hbit⟩
  cases h : visited.contains q
  · rfl
  · have hV := (rel.vis q hqb).mp h
    rw [rel.disj _ hbit] at hV
    exact Bool.noConfusion hV

theorem outer_inv0 {b : Board} {d M V : Nat} {opn : List (Point × Nat)}
    {visited : List Point} (rel : LayerRel b d M V opn visited) :
    InnerInv b d (LM b M) visited opn [] := by
  constructor
  · exact rel.nodup
  · exact rel.keys_bounds
  · rintro q ⟨hqb, hbit⟩ _
    rw [rel.look q hqb, if_pos hbit]
  · intro q v hlk
    have hqb : b.bounds_check q = true :=
      rel.keys_bounds q (mem_keysOf.mpr ⟨v, mem_of_olookup_eq_some hlk⟩)
    rw [rel.look q hqb] at hlk
    by_cases hbit : M.testBit (b.index_of_point q) = true
    · rw [if_pos hbit] at hlk
      refine Or.inl ⟨?_, ⟨hqb, hbit⟩, List.not_mem_nil q⟩
      exact (Option.some.injEq _ _ ▸ hlk).symm
    · rw [if_neg hbit] at hlk
      exact Option.noConfusion hlk
  · rintro q ⟨_, _, _, c, hc, _⟩
    exact absurd hc (List.not_mem_nil c)
  · intro c hc
    exact absurd hc (List.not_mem_nil c)
  · exact rel.vis_nodup

theorem outer_count {b : Board} (hwf : WFB b) {d M V : Nat} {opn : List (Point × Nat)}
    {visited : List Point} (rel : LayerRel b d M V opn visited) :
    layerCount d opn = opn.length ∧
      opn.length + visited.length ≤ b.size.x.toNat * b.size.y.toNat := by
  have hall : ∀ e ∈ opn, (e.2.beq d) = true := by
    intro e he
    have hqb : b.bounds_check e.1 = true :=
      rel.keys_bounds e.1 (mem_keysOf.mpr ⟨e.2, he⟩)
    have hlk : olookup opn e.1 = some e.2 := olookup_eq_some_of_mem rel.nodup he
    rw [rel.look e.1 hqb] at hlk
    by_cases hbit : M.testBit (b.index_of_point e.1) = true
    · rw [if_pos hbit] at hlk
      rw [natBeq_iff]
      exact (Option.some.injEq _ _ ▸ hlk).symm
    · rw [if_neg hbit] at hlk
      exact Option.noConfusion hlk
  constructor
  · unfold layerCount
    rw [List.filter_eq_self.mpr hall]
  · have hnd : (keysOf opn ++ visited).Nodup := by
      rw [List.nodup_append]
      refine ⟨rel.nodup, rel.vis_nodup, ?_⟩
      intro q hq1 hq2
      have hqb := rel.keys_bounds q hq1
      obtain ⟨v, hv⟩ := mem_keysOf.mp hq1
      have hlk := olookup_eq_some_of_mem rel.nodup hv
      rw [rel.look q hqb] at hlk
      by_cases hbit : M.testBit (b.index_of_point q) = true
      · have hV := (rel.vis q hqb).mp (pcontains_iff.mpr hq2)
        rw [rel.disj _ hbit] at hV
        exact Bool.noConfusion hV
      · rw [if_neg hbit] at hlk
        exact Option.noConfusion hlk
    have hball : ∀ q ∈ keysOf opn ++ visited, b.bounds_check q = true := by
      intro q hq
      rcases List.mem_append.mp hq with h | h
      · exact rel.keys_bounds q h
      · exact rel.vis_bounds q h
    have hle := nodup_bounded_length_le hwf hnd hball
    rw [List.length_append] at hle
    have : (keysOf opn).length = opn.length := List.length_map _ _
    omega



theorem outer_step_rel {b : Board} (hwf : WFB b) {d M V : Nat} {opn : List (Point × Nat)}
    {visited : List Point} (rel : LayerRel b d M V opn visited)
    {opn' : List (Point × Nat)} {processed' : List Point}
    (inv' : InnerInv b d (LM b M) visited opn' processed')
    (hcomp : ∀ q, LM b M q → q ∈ processed') :
    LayerRel b (d + 1)
      (adjacent b.geo M &&& (b.tileMasks.emptyM &&& b.geo.full) &&& (b.geo.full ^^^ (V ||| M)))
      (V ||| M) opn' (processed' ++ visited) := by
  have hfull : ∀ q, b.bounds_check q = true →
      b.geo.full.testBit (b.index_of_point q) = true := by
    intro q hq
    rw [testBit_geo_full hwf]
    exact decide_eq_true (idx_lt hwf hq)
  have hM'bit : ∀ q, b.bounds_check q = true →
      ((adjacent b.geo M &&& (b.tileMasks.emptyM &&& b.geo.full) &&&
          (b.geo.full ^^^ (V ||| M))).testBit (b.index_of_point q) = true ↔
        ((∃ p, b.bounds_check p = true ∧ M.testBit (b.index_of_point p) = true ∧
            q ∈ p.neighbors) ∧
          b.get q = some Tile.Empty ∧
          V.testBit (b.index_of_point q) = false ∧
          M.testBit (b.index_of_point q) = false)) := by
    intro q hq
    rw [Nat.testBit_and, Nat.testBit_and, Bool.and_eq_true, Bool.and_eq_true,
      adjacent_point_iff hwf rel.maskM hq,
      Nat.testBit_and, Bool.and_eq_true, emptyM_bit_iff hq,
      Nat.testBit_xor, hfull q hq, Bool.true_xor, Nat.testBit_or]
    have hsplit : ∀ x y : Bool, ((!(x || y)) = true ↔ (x = false ∧ y = false)) := by decide
    rw [hsplit]
    constructor
    · rintro ⟨⟨ha, he, _⟩, hv, hm⟩
      exact ⟨ha, he, hv, hm⟩
    · rintro ⟨ha, he, hv, hm⟩
      exact ⟨⟨ha, he, rfl⟩, hv, hm⟩
  have hproc : ∀ q, b.bounds_check q = true →
      (q ∈ processed' ↔ M.testBit (b.index_of_point q) = true) := by
    intro q hq
    constructor
    · intro h
      exact (inv'.proc_sub q h).2
    · intro h
      exact hcomp q ⟨hq, h⟩
  have hvisx : ∀ q, b.bounds_check q = true →
      (visited.contains q = false ↔ V.testBit (b.index_of_point q) = false) := by
    intro q hq
    have hiff := rel.vis q hq
    constructor
    · intro h
      cases hv : V.testBit (b.index_of_point q)
      · rfl
      · rw [hiff.mpr hv] at h
        exact Bool.noConfusion h
    · intro h
      cases hc : visited.contains q
      · rfl
      · rw [hiff.mp hc] at h
        exact Bool.noConfusion h
  constructor
  · exact inv'.nodup
  · exact inv'.keys_bounds
  · intro q hq
    by_cases hbit : (adjacent b.geo M &&& (b.tileMasks.emptyM &&& b.geo.full) &&&
        (b.geo.full ^^^ (V ||| M))).testBit (b.index_of_point q) = true
    · rw [if_pos hbit]
      obtain ⟨⟨p, hpb, hpm, hpn⟩, hemp, hv, hm⟩ := (hM'bit q hq).mp hbit
      refine inv'.inv_next q ⟨?_, ?_, hemp, p, hcomp p ⟨hpb, hpm⟩, hpn⟩
      · rintro ⟨_, hmm⟩
        rw [hmm] at hm
        exact Bool.noConfusion hm
      · exact (hvisx q hq).mpr hv
    · rw [if_neg hbit]
      cases hlk : olookup opn' q with
      | none => rfl
      | some v =>
        exfalso
        rcases inv'.inv_shape q v hlk with ⟨_, hLq, hqp⟩ | ⟨_, hnl, hvf, hemp, c, hcm, hqn⟩
        · exact hqp (hcomp q hLq)
        · apply hbit
          rw [hM'bit q hq]
          have hLc := inv'.proc_sub c hcm
          refine ⟨⟨c, hLc.1, hLc.2, hqn⟩, hemp, (hvisx q hq).mp hvf, ?_⟩
          cases hmq : M.testBit (b.index_of_point q)
          · rfl
          · exact absurd ⟨hq, hmq⟩ hnl
  · intro q hq
    rw [pcontains_append, Bool.or_eq_true, Nat.testBit_or, Bool.or_eq_true]
    have h1 : processed'.contains q = true ↔ M.testBit (b.index_of_point q) = true := by
      rw [pcontains_iff]
      exact hproc q hq
    have h2 := rel.vis q hq
    tauto
  · exact inv'.vis_nodup
  · intro q hq
    rcases List.mem_append.mp hq with h | h
    · exact (inv'.proc_sub q h).1
    · exact rel.vis_bounds q h
  · intro i hi
    rw [Nat.testBit_and, Bool.and_eq_true, Nat.testBit_and, Bool.and_eq_true,
      Nat.testBit_and, Bool.and_eq_true] at hi
    have hfb := hi.1.2.2
    rw [testBit_geo_full hwf] at hfb
    exact of_decide_eq_true hfb
  · intro i hi
    rw [Nat.testBit_or, Bool.or_eq_true] at hi
    rcases hi with h | h
    · exact rel.maskV i h
    · exact rel.maskM i h
  · intro i hi
    rw [Nat.testBit_and, Bool.and_eq_true] at hi
    have hx := hi.2
    have hfb : b.geo.full.testBit i = true := by
      have hfb2 := hi.1
      rw [Nat.testBit_and, Bool.and_eq_true, Nat.testBit_and, Bool.and_eq_true] at hfb2
      exact hfb2.2.2
    rw [Nat.testBit_xor, hfb, Bool.true_xor] at hx
    cases hv : (V ||| M).testBit i
    · rfl
    · rw [hv] at hx
      exact Bool.noConfusion hx



theorem dtcu_eq_layerLoop {b : Board} (hwf : WFB b) (goal : Team) :
    ∀ (g : Nat) (d M V : Nat) (opn : List (Point × Nat)) (visited : List Point) (f : Nat),
      LayerRel b d M V opn visited →
      b.size.x.toNat * b.size.y.toNat + 1 ≤ f + visited.length →
      b.size.x.toNat * b.size.y.toNat + 1 ≤ g + visited.length →
      dtcuLoop b goal f opn visited =
        layerLoop b.geo (b.tileMasks.emptyM &&& b.geo.full)
          (adjacent b.geo (b.tileMasks.teamM goal &&& b.geo.full)) g d M V := by
  intro g
  induction g with
  | zero =>
    intro d M V opn visited f rel hf hg
    exfalso
    have hvb := nodup_bounded_length_le hwf rel.vis_nodup rel.vis_bounds
    omega
  | succ g ih =>
    intro d M V opn visited f rel hf hg
    have hvlen := nodup_bounded_length_le hwf rel.vis_nodup rel.vis_bounds
    obtain ⟨f', rfl⟩ : ∃ f', f = f' + 1 := ⟨f - 1, by omega⟩
    rw [layerLoop_succ]
    by_cases hM : M = 0
    · subst hM
      have hopn : opn = [] := by
        cases hop : opn with
        | nil => rfl
        | cons e rest =>
          exfalso
          have hmemk : e.1 ∈ keysOf opn := by
            rw [hop]
            exact List.mem_map.mpr ⟨e, List.mem_cons_self _ _, rfl⟩
          have hb := rel.keys_bounds e.1 hmemk
          have hmem : (e.1, e.2) ∈ opn := by
            rw [hop]
            exact List.mem_cons_self _ _
          have hlk : olookup opn e.1 = some e.2 := olookup_eq_some_of_mem rel.nodup hmem
          rw [rel.look e.1 hb, Nat.zero_testBit] at hlk
          simp at hlk
      rw [hopn, dtcuLoop_succ, dtcuStep_none (openMin_eq_none.mpr rfl)]
      rfl
    · have hMne : (M == 0) = false := by
        cases h : (M == 0)
        · rfl
        · exact absurd (beq_iff_eq.mp h) hM
      simp only [hMne, Bool.false_eq_true, if_false]
      obtain ⟨hmeq, hcount⟩ := outer_count hwf rel
      have hLV := outer_hLV rel
      have inv0 := outer_inv0 rel
      have hm1 : 1 ≤ opn.length := by
        obtain ⟨i0, hbit0⟩ := Nat.ne_zero_implies_bit_true hM
        have hi0N : i0 < b.size.x.toNat * b.size.y.toNat := rel.maskM i0 hbit0
        obtain ⟨w0, hw0b, hw0i⟩ := exists_point_of_idx hwf hi0N
        have hlk : olookup opn w0 = some d := by
          rw [rel.look w0 hw0b, hw0i, if_pos hbit0]
        have hmem := mem_of_olookup_eq_some hlk
        cases hop : opn with
        | nil =>
          rw [hop] at hmem
          exact absurd hmem (List.not_mem_nil _)
        | cons e rest => simp [hop]
      by_cases hT : (M &&& adjacent b.geo (b.tileMasks.teamM goal &&& b.geo.full)) = 0
      · -- the frontier does not touch the goal: complete the layer and recurse
        have hTb : ((M &&& adjacent b.geo (b.tileMasks.teamM goal &&& b.geo.full)) != 0)
            = false := by
          rw [hT]
          rfl
        simp only [hTb, Bool.false_eq_true, if_false]
        have hnt : ∀ c, LM b M c → hasGoalNbr b goal c = false := by
          rintro c ⟨hcb, hcbit⟩
          cases hgn : hasGoalNbr b goal c
          · rfl
          · exfalso
            have hag := (touch_bit_iff hwf hcb).mpr hgn
            have : (M &&& adjacent b.geo (b.tileMasks.teamM goal &&&
                b.geo.full)).testBit (b.index_of_point c) = true := by
              rw [Nat.testBit_and, hcbit, hag]
              rfl
            rw [hT, Nat.zero_testBit] at this
            exact Bool.noConfusion this
        obtain ⟨opn', processed', heq, inv', hcomp, hlen⟩ :=
          inner_complete b goal d (LM b M) visited hLV hnt (layerCount d opn) opn [] inv0 rfl
        have heq' : dtcuLoop b goal (opn.length + (f' + 1 - opn.length)) opn visited =
            dtcuLoop b goal (f' + 1 - opn.length) opn' (processed' ++ visited) := by
          have := heq (f' + 1 - opn.length)
          rw [hmeq] at this
          exact this
        have hfeq : f' + 1 = opn.length + (f' + 1 - opn.length) := by omega
        rw [hfeq, heq']
        have hplen : processed'.length = opn.length := by
          rw [hlen, hmeq]
          simp
        have rel' := outer_step_rel hwf rel inv' hcomp
        have hlen' : (processed' ++ visited).length = opn.length + visited.length := by
          rw [List.length_append, hplen]
        refine ih (d + 1) _ _ opn' (processed' ++ visited) _ rel' ?_ ?_
        · rw [hlen']
          omega
        · rw [hlen']
          omega
      · -- the frontier touches the goal: both sides stop with distance d + 1
        have hTb : ((M &&& adjacent b.geo (b.tileMasks.teamM goal &&& b.geo.full)) != 0)
            = true := by
          have h0 : ((M &&& adjacent b.geo (b.tileMasks.teamM goal &&& b.geo.full)) == 0)
              = false := by
            cases h : (M &&& adjacent b.geo (b.tileMasks.teamM goal &&& b.geo.full)) == 0
            · rfl
            · exact absurd (beq_iff_eq.mp h) hT
          show (!((M &&& adjacent b.geo (b.tileMasks.teamM goal &&& b.geo.full)) == 0)) = true
          rw [h0]
          rfl
        simp only [hTb, if_true]
        obtain ⟨i1, hbit1⟩ := Nat.ne_zero_implies_bit_true hT
        rw [Nat.testBit_and, Bool.and_eq_true] at hbit1
        have hi1N : i1 < b.size.x.toNat * b.size.y.toNat := rel.maskM i1 hbit1.1
        obtain ⟨c, hcb, hci⟩ := exists_point_of_idx hwf hi1N
        have hLc : LM b M c := ⟨hcb, by rw [hci]; exact hbit1.1⟩
        have hctouch : hasGoalNbr b goal c = true := by
          rw [← touch_bit_iff hwf hcb, hci]
          exact hbit1.2
        have htc := inner_touch b goal d (LM b M) visited hLV (layerCount d opn) opn [] inv0
          rfl ⟨c, hLc, List.not_mem_nil c, hctouch⟩ (f' - opn.length)
        rw [hmeq] at htc
        have hfeq : f' + 1 = opn.length + (f' - opn.length) + 1 := by omega
        rw [hfeq]
        exact htc



theorem testBit_one_shift (i j : Nat) : (1 <<< i).testBit j = decide (i = j) := by
  rw [Nat.one_shiftLeft, Nat.testBit_two_pow]

theorem dtcu_eq_fast {b : Board} (hwf : WFB b) (goal : Team) {p : Point}
    (hp : b.bounds_check p = true) (hemp : b.get p = some Tile.Empty) :
    b.distance_to_closest_unit p goal =
      layerLoop b.geo (b.tileMasks.emptyM &&& b.geo.full)
        (adjacent b.geo (b.tileMasks.teamM goal &&& b.geo.full))
        (b.map.length + 2) 0 (1 <<< b.index_of_point p) 0 := by
  unfold Board.distance_to_closest_unit
  have hpre : (b.get p).any (fun t => t.is_team goal) = false := by
    rw [hemp]
    show Tile.Empty.is_team goal = false
    cases goal <;> rfl
  simp only [hpre, Bool.false_eq_true, if_false]
  refine dtcu_eq_layerLoop hwf goal (b.map.length + 2) 0 (1 <<< b.index_of_point p) 0
    [(p, 0)] [] (b.map.length + 2) ?_ ?_ ?_
  rotate_left
  · have h1 := hwf.1
    simp only [List.length_nil]
    omega
  · have h1 := hwf.1
    simp only [List.length_nil]
    omega
  constructor
  · show ([p] : List Point).Nodup
    simp
  · intro q hq
    have hq' : q ∈ ([p] : List Point) := hq
    have hqp : q = p := by simpa using hq'
    rw [hqp]
    exact hp
  · intro q hq
    rw [testBit_one_shift]
    show (if p.eqb q then some 0 else none) = _
    by_cases hpq : p = q
    · rw [if_pos (Point.eqb_iff.mpr hpq), hpq, if_pos (by rw [decide_eq_true_eq])]
    · have hii : ¬b.index_of_point p = b.index_of_point q :=
        fun h => hpq (idx_inj hp hq h)
      rw [if_neg (fun h : p.eqb q = true => hpq (Point.eqb_iff.mp h)),
        if_neg (fun h => hii (by
          rw [decide_eq_true_eq] at h
          exact h))]
  · intro q hq
    constructor
    · intro h
      exact absurd h (by simp [List.contains])
    · intro h
      rw [Nat.zero_testBit] at h
      exact Bool.noConfusion h
  · exact List.nodup_nil
  · intro q hq
    exact absurd hq (List.not_mem_nil q)
  · intro i hi
    rw [testBit_one_shift, decide_eq_true_eq] at hi
    rw [← hi]
    exact idx_lt hwf hp
  · intro i hi
    rw [Nat.zero_testBit] at hi
    exact Bool.noConfusion hi
  · intro i _
    exact Nat.zero_testBit i

theorem idx_lt_len {b : Board} (hwf : WFB b) {p : Point} (hp : b.bounds_check p = true) :
    b.index_of_point p < b.map.length := Nat.lt_of_lt_of_le (idx_lt hwf hp) hwf.1

theorem get_of_bounds {b : Board} (hwf : WFB b) {p : Point}
    (hp : b.bounds_check p = true) : ∃ t, b.get p = some t := by
  have hlt := idx_lt_len hwf hp
  unfold Board.get
  rw [if_pos hp]
  exact ⟨b.map.get ⟨b.index_of_point p, hlt⟩, List.get?_eq_get hlt⟩

theorem shiftmod_eq_testBit (m i : Nat) : (((m >>> i) % 2) == 1) = m.testBit i := by
  rw [Nat.shiftRight_eq_div_pow]
  cases h : ((m / 2 ^ i % 2) == 1)
  · rw [Nat.testBit_to_div_mod, decide_eq_false]
    intro hc
    rw [beq_iff_eq.mpr hc] at h
    exact Bool.noConfusion h
  · rw [Nat.testBit_to_div_mod, decide_eq_true (beq_iff_eq.mp h)]



theorem teamTile_ne_wall (tm : Team) : (teamTile tm == Tile.Wall) = false := by
  cases tm <;> rfl

theorem teamTile_enemy_not_own (tm : Team) : (teamTile tm.enemy).is_team tm = false := by
  cases tm <;> rfl

theorem empty_not_team (tm : Team) : Tile.Empty.is_team tm = false := by
  cases tm <;> rfl

theorem dtcu_enemy_adjacent_start {b : Board} {goal : Team} {p : Point}
    (hget : b.get p = some (teamTile goal)) :
    b.distance_to_closest_unit p goal = some 0 := by
  unfold Board.distance_to_closest_unit
  rw [hget]
  rw [if_pos]
  show (teamTile goal).is_team goal = true
  exact is_team_iff.mpr rfl

theorem candFast_eq {b : Board} (hwf : WFB b) (team : Team) (p : Point) :
    candFast b b.geo b.tileMasks team p = candSpec b team p := by
  by_cases hb : b.bounds_check p = true
  · obtain ⟨t, hget⟩ := get_of_bounds hwf hb
    have hspec : candSpec b team p =
        (if (!(t == Tile.Wall) && !(t.is_team team)) then
          b.distance_to_closest_unit p team.enemy else none) := by
      unfold candSpec
      rw [hget]
    rw [hspec]
    show (if b.bounds_check p then _ else _) = _
    rw [if_pos hb]
    show (if (((b.tileMasks.teamM team.enemy >>> b.index_of_point p) % 2) == 1) then some 0
      else if (((b.tileMasks.emptyM >>> b.index_of_point p) % 2) == 1) then
        layerLoop b.geo (b.tileMasks.emptyM &&& b.geo.full)
          (adjacent b.geo (b.tileMasks.teamM team.enemy &&& b.geo.full))
          (b.map.length + 2) 0 (1 <<< b.index_of_point p) 0
      else none) = _
    rw [shiftmod_eq_testBit, shiftmod_eq_testBit]
    have henemy : (b.tileMasks.teamM team.enemy).testBit (b.index_of_point p) = true ↔
        t = teamTile team.enemy := by
      rw [teamM_bit_iff hb, hget]
      constructor
      · intro h
        exact Option.some.injEq _ _ ▸ h
      · intro h
        rw [h]
    have hempb : b.tileMasks.emptyM.testBit (b.index_of_point p) = true ↔
        t = Tile.Empty := by
      rw [emptyM_bit_iff hb, hget]
      constructor
      · intro h
        exact Option.some.injEq _ _ ▸ h
      · intro h
        rw [h]
    by_cases h1 : t = teamTile team.enemy
    · rw [if_pos (henemy.mpr h1)]
      subst h1
      rw [teamTile_ne_wall, teamTile_enemy_not_own]
      show some 0 = (if (!false && !false) then _ else _)
      rw [if_pos (show ((!false && !false) = true) from rfl), dtcu_enemy_adjacent_start hget]
    · have hene : (b.tileMasks.teamM team.enemy).testBit (b.index_of_point p) = false := by
        cases h : (b.tileMasks.teamM team.enemy).testBit (b.index_of_point p)
        · rfl
        · exact absurd (henemy.mp h) h1
      rw [hene]
      show (if false = true then _ else _) = _
      rw [if_neg (Bool.false_ne_true)]
      by_cases h2 : t = Tile.Empty
      · rw [if_pos (hempb.mpr h2)]
        subst h2
        rw [show (Tile.Empty == Tile.Wall) = false from rfl, empty_not_team]
        show _ = (if (!false && !false) then _ else _)
        rw [if_pos (show ((!false && !false) = true) from rfl)]
        exact (dtcu_eq_fast hwf team.enemy hb hget).symm
      · have hempf : b.tileMasks.emptyM.testBit (b.index_of_point p) = false := by
          cases h : b.tileMasks.emptyM.testBit (b.index_of_point p)
          · rfl
          · exact absurd (hempb.mp h) h2
        rw [hempf]
        show (if false = true then _ else _) = _
        rw [if_neg (Bool.false_ne_true)]
        cases t with
        | Empty => exact absurd rfl h2
        | Wall =>
          show none = (if (!true && _) then _ else _)
          rw [if_neg (fun h => Bool.noConfusion h)]
        | Gnome =>
          cases team with
          | Gnome =>
            show none = (if (!false && !true) then _ else _)
            rw [if_neg (fun h => Bool.noConfusion h)]
          | Elf => exact absurd rfl h1
        | Elf =>
          cases team with
          | Elf =>
            show none = (if (!false && !true) then _ else _)
            rw [if_neg (fun h => Bool.noConfusion h)]
          | Gnome => exact absurd rfl h1
  · have hbf : b.bounds_check p = false := by
      cases h : b.bounds_check p
      · rfl
      · exact absurd h hb
    have hget : b.get p = none := by
      unfold Board.get
      rw [if_neg hb]
    have hspec : candSpec b team p = none := by
      unfold candSpec
      rw [hget]
    rw [hspec]
    show (if b.bounds_check p then _ else _) = _
    rw [if_neg hb]



theorem cands_pipeline {b : Board} (hwf : WFB b) (team : Team) (start : Point) :
    ∀ (l : List Direction),
      ((((l.map (fun d => (d, start.step d))).filterMap
          (fun e => (b.get e.2).map (fun t => (e.1, e.2, t)))).filter
        (fun e => !(e.2.2 == Tile.Wall) && !(e.2.2.is_team team))).filterMap
          (fun e => (b.distance_to_closest_unit e.2.1 team.enemy).map
            (fun dist => (e.1, dist))))
      = (l.map (fun d => (d, candFast b b.geo b.tileMasks team (start.step d)))).filterMap
          (fun e => e.2.map (fun dist => (e.1, dist))) := by
  intro l
  induction l with
  | nil => rfl
  | cons dd rest ih =>
    simp only [List.map_cons, List.filterMap_cons]
    rw [candFast_eq hwf team (start.step dd)]
    cases hg : b.get (start.step dd) with
    | none =>
      have hcs : candSpec b team (start.step dd) = none := by
        unfold candSpec
        rw [hg]
      rw [hcs]
      exact ih
    | some t =>
      have hcs : candSpec b team (start.step dd) =
          (if (!(t == Tile.Wall) && !(t.is_team team)) then
            b.distance_to_closest_unit (start.step dd) team.enemy else none) := by
        unfold candSpec
        rw [hg]
      rw [hcs]
      show ((((dd, start.step dd, t) :: (rest.map (fun d => (d, start.step d))).filterMap
          (fun e => (b.get e.2).map (fun t => (e.1, e.2, t)))).filter
        (fun e => !(e.2.2 == Tile.Wall) && !(e.2.2.is_team team))).filterMap
          (fun e => (b.distance_to_closest_unit e.2.1 team.enemy).map
            (fun dist => (e.1, dist)))) = _
      rw [List.filter_cons]
      by_cases hc : (!(t == Tile.Wall) && !(t.is_team team)) = true
      · rw [if_pos hc, if_pos hc, List.filterMap_cons]
        rw [show ((dd, start.step dd, t).2.1) = start.step dd from rfl,
          show ((dd, start.step dd, t).1) = dd from rfl]
        cases hd : b.distance_to_closest_unit (start.step dd) team.enemy with
        | none => exact ih
        | some dist => exact congrArg _ ih
      · rw [if_neg hc, if_neg hc]
        exact ih



theorem find_eq {b : Board} (hwf : WFB b) (start : Point) :
    findFast b b.geo b.tileMasks start = b.find_enemy_direction start := by
  unfold findFast Board.find_enemy_direction
  cases hu : lookupAL b.units start with
  | none => rfl
  | some u =>
    show (match minByKey Nat.blt (fun e => e.2)
        ((directions.map (fun d => (d, candFast b b.geo b.tileMasks u.team
          (start.step d)))).filterMap (fun e => e.2.map (fun dist => (e.1, dist)))) with
      | none => none
      | some (dir, dist) => if 0 < dist then some dir else none) =
      (match minByKey Nat.blt (fun e => e.2)
          ((((directions.map (fun d => (d, start.step d))).filterMap
              (fun e => (b.get e.2).map (fun t => (e.1, e.2, t)))).filter
            (fun e => !(e.2.2 == Tile.Wall) && !(e.2.2.is_team u.team))).filterMap
              (fun e => (b.distance_to_closest_unit e.2.1 u.team.enemy).map
                (fun dist => (e.1, dist)))) with
      | none => none
      | some (dir, dist) => if 0 < dist then some dir else none)
    rw [cands_pipeline hwf u.team start directions]



theorem tile_beq_comm (a b : Tile) : (a == b) = (b == a) := by
  cases a <;> cases b <;> rfl

theorem get?_set_self {α : Type} :
    ∀ (l : List α) (i : Nat) (a : α), i < l.length → (l.set i a).get? i = some a := by
  intro l
  induction l with
  | nil => intro i a h; simp at h
  | cons x xs ih =>
    intro i a h
    cases i with
    | zero => rfl
    | succ i =>
      show (xs.set i a).get? i = some a
      exact ih i a (by simp at h; omega)

theorem get?_set_other {α : Type} :
    ∀ (l : List α) (i j : Nat) (a : α), ¬i = j → (l.set i a).get? j = l.get? j := by
  intro l
  induction l with
  | nil => intro i j a h; simp
  | cons x xs ih =>
    intro i j a h
    cases i with
    | zero =>
      cases j with
      | zero => exact absurd rfl h
      | succ j => rfl
    | succ i =>
      cases j with
      | zero => rfl
      | succ j =>
        show (xs.set i a).get? j = xs.get? j
        exact ih i j a (fun hc => h (by rw [hc]))

theorem get?_some_lt {α : Type} {l : List α} {i : Nat} {a : α} (h : l.get? i = some a) :
    i < l.length := by
  by_contra hc
  rw [List.get?_eq_none.mpr (by omega)] at h
  exact Option.noConfusion h

theorem maskOf_set_component (t : Tile) {l : List Tile} {i : Nat} {told : Tile}
    (hget : l.get? i = some told) (tnew : Tile) :
    maskOf (fun x => x == t) (l.set i tnew) =
      (if (t == tnew) then
        (if (t == told) then maskOf (fun x => x == t) l ^^^ (1 <<< i)
         else maskOf (fun x => x == t) l) ||| (1 <<< i)
       else (if (t == told) then maskOf (fun x => x == t) l ^^^ (1 <<< i)
         else maskOf (fun x => x == t) l)) := by
  have hlt : i < l.length := get?_some_lt hget
  have hbit : (maskOf (fun x => x == t) l).testBit i = (told == t) := by
    rw [testBit_maskOf, hget]
  apply Nat.eq_of_testBit_eq
  intro j
  by_cases hij : j = i
  · subst hij
    rw [testBit_maskOf, get?_set_self l j tnew hlt]
    show (tnew == t) = _
    cases htn : (t == tnew) with
    | true =>
      rw [if_pos rfl, Nat.testBit_or, testBit_one_shift, decide_eq_true rfl, Bool.or_true,
        tile_beq_comm tnew t]
      exact htn
    | false =>
      rw [if_neg Bool.false_ne_true]
      cases hto : (t == told) with
      | true =>
        rw [if_pos rfl, Nat.testBit_xor, testBit_one_shift, decide_eq_true rfl, hbit,
          tile_beq_comm tnew t, htn, tile_beq_comm told t, hto]
        rfl
      | false =>
        rw [if_neg Bool.false_ne_true, hbit, tile_beq_comm tnew t, htn,
          tile_beq_comm told t, hto]
  · rw [testBit_maskOf, get?_set_other l i j tnew (fun hc => hij hc.symm)]
    have hone : (1 <<< i).testBit j = false := by
      rw [testBit_one_shift, decide_eq_false (fun hc => hij hc.symm)]
    have hcore : ∀ m : Nat, m.testBit j =
        (if (t == told) then m ^^^ (1 <<< i) else m).testBit j := by
      intro m
      cases hto : (t == told) with
      | true =>
        rw [if_pos rfl, Nat.testBit_xor, hone, Bool.xor_false]
      | false =>
        rw [if_neg Bool.false_ne_true]
    cases htn : (t == tnew) with
    | true =>
      rw [if_pos rfl, Nat.testBit_or, hone, Bool.or_false, ← hcore, testBit_maskOf]
    | false =>
      rw [if_neg Bool.false_ne_true, ← hcore, testBit_maskOf]

theorem tileMasks_setTile {b : Board} {p : Point} {told : Tile}
    (hget : b.get p = some told) (tnew : Tile) :
    (b.setTile p tnew).tileMasks =
      b.tileMasks.write (b.index_of_point p) told tnew := by
  have hget' : b.map.get? (b.index_of_point p) = some told := by
    unfold Board.get at hget
    by_cases hb : b.bounds_check p = true
    · rw [if_pos hb] at hget
      exact hget
    · rw [if_neg hb] at hget
      exact Option.noConfusion hget
  show TileMasks.mk _ _ _ = TileMasks.mk _ _ _
  simp only [TileMasks.mk.injEq]
  refine ⟨?_, ?_, ?_⟩
  · exact maskOf_set_component Tile.Empty hget' tnew
  · exact maskOf_set_component Tile.Gnome hget' tnew
  · exact maskOf_set_component Tile.Elf hget' tnew



theorem ebind_ok {α β : Type} (a : α) (f : α → Except String β) :
    ((Except.ok a : Except String α) >>= f) = f a := rfl

theorem ebind_err {α β : Type} (e : String) (f : α → Except String β) :
    ((Except.error e : Except String α) >>= f) = Except.error e := rfl

theorem emap_ok {α β : Type} (a : α) (f : α → β) :
    (Except.ok a : Except String α).map f = Except.ok (f a) := rfl

theorem emap_err {α β : Type} (e : String) (f : α → β) :
    (Except.error e : Except String α).map f = (Except.error e : Except String β) := rfl

theorem WFB_setTile {b : Board} (hwf : WFB b) (p : Point) (t : Tile) :
    WFB (b.setTile p t) := by
  obtain ⟨h1, h2, h3⟩ := hwf
  refine ⟨?_, h2, h3⟩
  show _ ≤ (b.map.set _ _).length
  rw [List.length_set]
  exact h1

theorem moveFast_eq {b : Board} (pos : Point) (dir : Direction) :
    moveFast b b.tileMasks pos dir =
      (b.move_unit pos dir).map (fun r => (r.1, r.2, r.2.tileMasks)) := by
  unfold moveFast Board.move_unit
  split
  · rename_i unit hu
    split
    · rename_i old_tile hot
      split
      · rfl
      · simp only []
        split
        · rename_i goal_tile hgt
          split
          · rename_i hge
            have hge' : goal_tile = Tile.Empty := tile_beq_iff.mp hge
            subst hge'
            show Except.ok (pos.step dir,
                ({ size := ((b.setTile pos Tile.Empty).setTile (pos.step dir) old_tile).size,
                   map := ((b.setTile pos Tile.Empty).setTile (pos.step dir) old_tile).map,
                   units := insertAL (pos.step dir) unit (eraseAL pos b.units) } : Board),
                (b.tileMasks.write (b.index_of_point pos) old_tile Tile.Empty).write
                  (b.index_of_point (pos.step dir)) Tile.Empty old_tile) =
              Except.ok (pos.step dir,
                ({ size := ((b.setTile pos Tile.Empty).setTile (pos.step dir) old_tile).size,
                   map := ((b.setTile pos Tile.Empty).setTile (pos.step dir) old_tile).map,
                   units := insertAL (pos.step dir) unit (eraseAL pos b.units) } : Board),
                ({ size := ((b.setTile pos Tile.Empty).setTile (pos.step dir) old_tile).size,
                   map := ((b.setTile pos Tile.Empty).setTile (pos.step dir) old_tile).map,
                   units := insertAL (pos.step dir) unit (eraseAL pos b.units) } : Board).tileMasks)
            refine congrArg Except.ok (congrArg _ (congrArg _ ?_))
            have htm1 := tileMasks_setTile hot Tile.Empty
            have htm2 := tileMasks_setTile hgt old_tile
            show _ = ((b.setTile pos Tile.Empty).setTile (pos.step dir) old_tile).tileMasks
            rw [htm2, htm1]
            rfl
          · rfl
        · rfl
    · rfl
  · rfl



theorem attackFast_eq {b : Board} (attacker attacked : Point) :
    attackFast b b.tileMasks attacker attacked =
      (b.attack attacker attacked).map (fun r => (r.1, r.2, r.2.tileMasks)) := by
  unfold attackFast Board.attack
  split
  · rename_i au hau
    split
    · rename_i tu htu
      simp only []
      split
      · split
        · rename_i tile htile
          split
          · rename_i hteam
            show Except.ok (some (tu.take_damage au.attack),
                ({ size := (b.setTile attacked Tile.Empty).size,
                   map := (b.setTile attacked Tile.Empty).map,
                   units := eraseAL attacked b.units } : Board),
                b.tileMasks.write (b.index_of_point attacked) tile Tile.Empty) =
              Except.ok (some (tu.take_damage au.attack),
                ({ size := (b.setTile attacked Tile.Empty).size,
                   map := (b.setTile attacked Tile.Empty).map,
                   units := eraseAL attacked b.units } : Board),
                ({ size := (b.setTile attacked Tile.Empty).size,
                   map := (b.setTile attacked Tile.Empty).map,
                   units := eraseAL attacked b.units } : Board).tileMasks)
            refine congrArg Except.ok (congrArg _ (congrArg _ ?_))
            have htm := tileMasks_setTile htile Tile.Empty
            show _ = (b.setTile attacked Tile.Empty).tileMasks
            rw [htm]
          · rfl
        · rfl
      · rfl
    · rfl
  · rfl



theorem attackPhaseFast_eq {board : Board} (queue : List Point) (de : Nat)
    (this_pos : Point) (et : Team) :
    attackPhaseFast board board.tileMasks queue de this_pos et =
      (attackPhase board queue de this_pos et).map (fun r => (r.1, r.1.tileMasks, r.2)) := by
  unfold attackPhaseFast attackPhase
  simp only []
  split
  · rfl
  · rename_i attacked w hmin
    rw [attackFast_eq this_pos attacked]
    cases hat : board.attack this_pos attacked with
    | error e => rfl
    | ok r =>
      obtain ⟨defeated, board'⟩ := r
      cases defeated with
      | none => rfl
      | some u => rfl



theorem progressFast_eq {fg : FastGame} (hwf : fg.WF) :
    progressFast fg = (fg.game.progress).map
      (fun r => (r.1, (⟨r.2, fg.geo, r.2.board.tileMasks⟩ : FastGame))) := by
  obtain ⟨hgeo, htm, hwfb⟩ := hwf
  unfold progressFast Game.progress
  simp only []
  split
  · rfl
  · rename_i this_pos rest hq
    split
    · rename_i u hu
      split
      · rw [htm]
        rfl
      · rw [hgeo, htm, find_eq hwfb]
        cases hfd : fg.game.board.find_enemy_direction this_pos with
        | some dir =>
          simp only []
          rw [moveFast_eq this_pos dir]
          cases hmv : fg.game.board.move_unit this_pos dir with
          | error e => rfl
          | ok r =>
            obtain ⟨p', b'⟩ := r
            show (attackPhaseFast b' b'.tileMasks rest fg.game.defeated_elves p'
                u.team.enemy >>= _) =
              Except.map _ (attackPhase b' rest fg.game.defeated_elves p'
                u.team.enemy >>= _)
            rw [attackPhaseFast_eq rest fg.game.defeated_elves p' u.team.enemy]
            cases hap : attackPhase b' rest fg.game.defeated_elves p' u.team.enemy with
            | error e => rfl
            | ok r2 =>
              obtain ⟨board2, queue2, de2⟩ := r2
              show (if queue2.isEmpty = true then _ else _) =
                Except.map _ (if queue2.isEmpty = true then _ else _)
              split
              · unfold Game.start_new_turn
                simp only []
                split
                · rfl
                · rfl
              · rfl
        | none =>
          simp only []
          show (attackPhaseFast fg.game.board fg.game.board.tileMasks rest
              fg.game.defeated_elves this_pos u.team.enemy >>= _) =
            Except.map _ (attackPhase fg.game.board rest fg.game.defeated_elves this_pos
              u.team.enemy >>= _)
          rw [attackPhaseFast_eq rest fg.game.defeated_elves this_pos u.team.enemy]
          cases hap : attackPhase fg.game.board rest fg.game.defeated_elves this_pos
              u.team.enemy with
          | error e => rfl
          | ok r2 =>
            obtain ⟨board2, queue2, de2⟩ := r2
            show (if queue2.isEmpty = true then _ else _) =
              Except.map _ (if queue2.isEmpty = true then _ else _)
            split
            · unfold Game.start_new_turn
              simp only []
              split
              · rfl
              · rfl
            · rfl
    · rfl



theorem geo_eq_of_size {b1 b2 : Board} (h : b1.size = b2.size) : b1.geo = b2.geo := by
  unfold Board.geo
  rw [h]

theorem move_unit_preserves {b : Board} {pos : Point} {dir : Direction} {p' : Point}
    {b' : Board} (hwf : WFB b) (h : b.move_unit pos dir = .ok (p', b')) :
    WFB b' ∧ b'.size = b.size := by
  unfold Board.move_unit at h
  split at h
  · split at h
    · rename_i old_tile hot
      split at h
      · exact Except.noConfusion h
      · simp only [] at h
        split at h
        · split at h
          · simp only [Except.ok.injEq, Prod.mk.injEq] at h
            obtain ⟨h1, h2⟩ := h
            rw [← h2]
            exact ⟨WFB_setTile (WFB_setTile hwf pos Tile.Empty) (pos.step dir) old_tile, rfl⟩
          · exact Except.noConfusion h
        · exact Except.noConfusion h
    · exact Except.noConfusion h
  · exact Except.noConfusion h

theorem attack_preserves {b : Board} {attacker attacked : Point} {r : Option Unit}
    {b' : Board} (hwf : WFB b) (h : b.attack attacker attacked = .ok (r, b')) :
    WFB b' ∧ b'.size = b.size := by
  unfold Board.attack at h
  split at h
  · split at h
    · rename_i tu htu
      simp only [] at h
      split at h
      · split at h
        · rename_i tile htile
          split at h
          · simp only [Except.ok.injEq, Prod.mk.injEq] at h
            obtain ⟨h1, h2⟩ := h
            rw [← h2]
            exact ⟨WFB_setTile hwf attacked Tile.Empty, rfl⟩
          · exact Except.noConfusion h
        · exact Except.noConfusion h
      · simp only [Except.ok.injEq, Prod.mk.injEq] at h
        obtain ⟨h1, h28⟩ := h
        rw [← h28]
        exact ⟨hwf, rfl⟩
    · exact Except.noConfusion h
  · exact Except.noConfusion h

theorem attackPhase_preserves {board : Board} {queue : List Point} {de : Nat}
    {this_pos : Point} {et : Team} {board2 : Board} {q2 : List Point} {de2 : Nat}
    (hwf : WFB board)
    (h : attackPhase board queue de this_pos et = .ok (board2, q2, de2)) :
    WFB board2 ∧ board2.size = board.size := by
  unfold attackPhase at h
  simp only [] at h
  split at h
  · simp only [Except.ok.injEq, Prod.mk.injEq] at h
    rw [← h.1]
    exact ⟨hwf, rfl⟩
  · rename_i attacked w hmin
    cases hat : board.attack this_pos attacked with
    | error e =>
      rw [hat, ebind_err] at h
      exact Except.noConfusion h
    | ok rr =>
      obtain ⟨defeated, b1⟩ := rr
      rw [hat, ebind_ok] at h
      obtain ⟨hw1, hs1⟩ := attack_preserves hwf hat
      cases defeated with
      | none =>
        simp only [Except.ok.injEq, Prod.mk.injEq] at h
        rw [← h.1]
        exact ⟨hw1, hs1⟩
      | some u =>
        simp only [Except.ok.injEq, Prod.mk.injEq] at h
        rw [← h.1]
        exact ⟨hw1, hs1⟩

theorem progress_preserves {g : Game} (hwfb : WFB g.board) {s : GameState} {g' : Game}
    (h : g.progress = .ok (s, g')) :
    WFB g'.board ∧ g'.board.size = g.board.size := by
  unfold Game.progress at h
  split at h
  · exact Except.noConfusion h
  · rename_i this_pos rest hq
    split at h
    · rename_i u hu
      split at h
      · rename_i dir hfd
        simp only [] at h
        split at h
        · simp only [Except.ok.injEq, Prod.mk.injEq] at h
          rw [← h.2]
          exact ⟨hwfb, rfl⟩
        · cases hmv : g.board.move_unit this_pos dir with
          | error e =>
            rw [hmv, ebind_err] at h
            exact Except.noConfusion h
          | ok rr =>
            obtain ⟨p', b'⟩ := rr
            rw [hmv, ebind_ok] at h
            obtain ⟨hw1, hs1⟩ := move_unit_preserves hwfb hmv
            simp only [] at h
            cases hap : attackPhase b' rest g.defeated_elves p' u.team.enemy with
            | error e =>
              rw [hap, ebind_err] at h
              exact Except.noConfusion h
            | ok r2 =>
              obtain ⟨board2, queue2, de2⟩ := r2
              rw [hap, ebind_ok] at h
              obtain ⟨hw2, hs2⟩ := attackPhase_preserves hw1 hap
              simp only [] at h
              split at h
              · unfold Game.start_new_turn at h
                simp only [] at h
                split at h
                · exact Except.noConfusion h
                · rw [ebind_ok] at h
                  simp only [Except.ok.injEq, Prod.mk.injEq] at h
                  rw [← h.2]
                  exact ⟨hw2, by rw [hs2, hs1]⟩
              · simp only [Except.ok.injEq, Prod.mk.injEq] at h
                rw [← h.2]
                exact ⟨hw2, by rw [hs2, hs1]⟩
      · rename_i hfd
        simp only [] at h
        split at h
        · simp only [Except.ok.injEq, Prod.mk.injEq] at h
          rw [← h.2]
          exact ⟨hwfb, rfl⟩
        · rw [ebind_ok] at h
          simp only [] at h
          cases hap : attackPhase g.board rest g.defeated_elves this_pos u.team.enemy with
          | error e =>
            rw [hap, ebind_err] at h
            exact Except.noConfusion h
          | ok r2 =>
            obtain ⟨board2, queue2, de2⟩ := r2
            rw [hap, ebind_ok] at h
            obtain ⟨hw2, hs2⟩ := attackPhase_preserves hwfb hap
            simp only [] at h
            split at h
            · unfold Game.start_new_turn at h
              simp only [] at h
              split at h
              · exact Except.noConfusion h
              · rw [ebind_ok] at h
                simp only [Except.ok.injEq, Prod.mk.injEq] at h
                rw [← h.2]
                exact ⟨hw2, by rw [hs2]⟩
            · simp only [Except.ok.injEq, Prod.mk.injEq] at h
              rw [← h.2]
              exact ⟨hw2, by rw [hs2]⟩
    · exact Except.noConfusion h



theorem WF_step {fg : FastGame} (hwf : fg.WF) {s : GameState} {g' : Game}
    (hp : fg.game.progress = .ok (s, g')) :
    FastGame.WF ⟨g', fg.geo, g'.board.tileMasks⟩ := by
  obtain ⟨hgeo, htm, hwfb⟩ := hwf
  obtain ⟨hw, hs⟩ := progress_preserves hwfb hp
  exact ⟨by rw [hgeo]; exact (geo_eq_of_size hs).symm, rfl, hw⟩

theorem makeTurnAuxFast_eq :
    ∀ (fuel old : Nat) (fg : FastGame), fg.WF →
      makeTurnAuxFast fuel old fg =
        (makeTurnAux fuel old fg.game).map
          (fun r => (r.1, (⟨r.2, fg.geo, r.2.board.tileMasks⟩ : FastGame))) := by
  intro fuel
  induction fuel with
  | zero => intro old fg hwf; rfl
  | succ fuel ih =>
    intro old fg hwf
    show (progressFast fg >>= _) = Except.map _ (fg.game.progress >>= _)
    rw [progressFast_eq hwf]
    cases hp : fg.game.progress with
    | error e => rfl
    | ok r =>
      obtain ⟨s, g'⟩ := r
      have hWF1 := WF_step hwf hp
      show (if (s == GameState.Over || !(g'.completed_turns == old)) then _ else _) =
        Except.map _ (if (s == GameState.Over || !(g'.completed_turns == old)) then _ else _)
      split
      · rfl
      · show makeTurnAuxFast fuel old ⟨g', fg.geo, g'.board.tileMasks⟩ = _
        rw [ih old ⟨g', fg.geo, g'.board.tileMasks⟩ hWF1]

theorem makeTurnAux_preserves :
    ∀ (fuel old : Nat) (g : Game), WFB g.board →
      ∀ {s : GameState} {g' : Game}, makeTurnAux fuel old g = .ok (s, g') →
        WFB g'.board ∧ g'.board.size = g.board.size := by
  intro fuel
  induction fuel with
  | zero =>
    intro old g hwfb s g' h
    exact Except.noConfusion h
  | succ fuel ih =>
    intro old g hwfb s g' h
    rw [show makeTurnAux (fuel + 1) old g = (g.progress >>= fun r =>
        if (r.1 == GameState.Over || !(r.2.completed_turns == old)) then .ok (r.1, r.2)
        else makeTurnAux fuel old r.2) from rfl] at h
    cases hp : g.progress with
    | error e =>
      rw [hp, ebind_err] at h
      exact Except.noConfusion h
    | ok r =>
      obtain ⟨s0, g0⟩ := r
      rw [hp, ebind_ok] at h
      obtain ⟨hw0, hs0⟩ := progress_preserves hwfb hp
      simp only [] at h
      split at h
      · simp only [Except.ok.injEq, Prod.mk.injEq] at h
        rw [← h.2]
        exact ⟨hw0, hs0⟩
      · obtain ⟨hw1, hs1⟩ := ih old g0 hw0 h
        exact ⟨hw1, by rw [hs1, hs0]⟩

theorem make_turn_fast_eq {fg : FastGame} (hwf : fg.WF) :
    FastGame.make_turn fg =
      (fg.game.make_turn).map
        (fun r => (r.1, (⟨r.2, fg.geo, r.2.board.tileMasks⟩ : FastGame))) :=
  makeTurnAuxFast_eq _ _ fg hwf

theorem make_turn_fast_sound {fg : FastGame} (hwf : fg.WF) {s : GameState} {fg' : FastGame}
    (h : FastGame.make_turn fg = .ok (s, fg')) :
    fg.game.make_turn = .ok (s, fg'.game) ∧ fg'.WF := by
  have he := make_turn_fast_eq hwf
  rw [h] at he
  cases hmt : fg.game.make_turn with
  | error e =>
    rw [hmt, emap_err] at he
    exact Except.noConfusion he
  | ok r =>
    obtain ⟨s0, g'⟩ := r
    rw [hmt, emap_ok] at he
    simp only [Except.ok.injEq, Prod.mk.injEq] at he
    obtain ⟨hs, hfg⟩ := he
    obtain ⟨hgeo, htm, hwfb⟩ := hwf
    obtain ⟨hw1, hsz⟩ := makeTurnAux_preserves _ _ fg.game hwfb hmt
    constructor
    · rw [hs, hfg]
    · rw [hfg]
      exact ⟨by rw [hgeo]; exact (geo_eq_of_size hsz).symm, rfl, hw1⟩

theorem runGame_succ (fuel : Nat) (g : Game) :
    runGame (fuel + 1) g = (g.make_turn >>= fun r =>
      match r.1 with
      | GameState.Over => .ok r.2
      | GameState.Going => runGame fuel r.2) := by
  show (g.make_turn >>= _) = _
  cases hmt : g.make_turn with
  | error e => rfl
  | ok r =>
    obtain ⟨s, g'⟩ := r
    cases s <;> rfl

theorem runGame_fast_going {fg fg' : FastGame} (hwf : fg.WF) (n : Nat)
    (h : FastGame.make_turn fg = .ok (GameState.Going, fg')) :
    runGame (n + 1) fg.game = runGame n fg'.game ∧ fg'.WF := by
  obtain ⟨hmt, hwf'⟩ := make_turn_fast_sound hwf h
  refine ⟨?_, hwf'⟩
  rw [runGame_succ, hmt, ebind_ok]

theorem runGame_fast_over {fg fg' : FastGame} (hwf : fg.WF) (n : Nat)
    (h : FastGame.make_turn fg = .ok (GameState.Over, fg')) :
    runGame (n + 1) fg.game = .ok fg'.game := by
  obtain ⟨hmt, hwf'⟩ := make_turn_fast_sound hwf h
  rw [runGame_succ, hmt, ebind_ok]

theorem m3r0 : FastGame.make_turn s3r0 = .ok (GameState.Going, s3r1) := by decide!

theorem m3r1 : FastGame.make_turn s3r1 = .ok (GameState.Going, s3r2) := by decide!

theorem m3r2 : FastGame.make_turn s3r2 = .ok (GameState.Going, s3r3) := by decide!

theorem m3r3 : FastGame.make_turn s3r3 = .ok (GameState.Going, s3r4) := by decide!

theorem m3r4 : FastGame.make_turn s3r4 = .ok (GameState.Going, s3r5) := by decide!

theorem m3r5 : FastGame.make_turn s3r5 = .ok (GameState.Going, s3r6) := by decide!

theorem m3r6 : FastGame.make_turn s3r6 = .ok (GameState.Going, s3r7) := by decide!

theorem m3r7 : FastGame.make_turn s3r7 = .ok (GameState.Going, s3r8) := by decide!

theorem m3r8 : FastGame.make_turn s3r8 = .ok (GameState.Going, s3r9) := by decide!

theorem m3r9 : FastGame.make_turn s3r9 = .ok (GameState.Going, s3r10) := by decide!

theorem m3r10 : FastGame.make_turn s3r10 = .ok (GameState.Going, s3r11) := by decide!

theorem m3r11 : FastGame.make_turn s3r11 = .ok (GameState.Going, s3r12) := by decide!

theorem m3r12 : FastGame.make_turn s3r12 = .ok (GameState.Going, s3r13) := by decide!

theorem m3r13 : FastGame.make_turn s3r13 = .ok (GameState.Going, s3r14) := by decide!

theorem m3r14 : FastGame.make_turn s3r14 = .ok (GameState.Going, s3r15) := by decide!

theorem m3r15 : FastGame.make_turn s3r15 = .ok (GameState.Going, s3r16) := by decide!

theorem m3r16 : FastGame.make_turn s3r16 = .ok (GameState.Going, s3r17) := by decide!

theorem m3r17 : FastGame.make_turn s3r17 = .ok (GameState.Going, s3r18) := by decide!

theorem m3r18 : FastGame.make_turn s3r18 = .ok (GameState.Going, s3r19) := by decide!

theorem m3r19 : FastGame.make_turn s3r19 = .ok (GameState.Going, s3r20) := by decide!

theorem m3r20 : FastGame.make_turn s3r20 = .ok (GameState.Going, s3r21) := by decide!

theorem m3r21 : FastGame.make_turn s3r21 = .ok (GameState.Going, s3r22) := by decide!

theorem m3r22 : FastGame.make_turn s3r22 = .ok (GameState.Going, s3r23) := by decide!

theorem m3r23 : FastGame.make_turn s3r23 = .ok (GameState.Going, s3r24) := by decide!

theorem m3r24 : FastGame.make_turn s3r24 = .ok (GameState.Going, s3r25) := by decide!

theorem m3r25 : FastGame.make_turn s3r25 = .ok (GameState.Going, s3r26) := by decide!

theorem m3r26 : FastGame.make_turn s3r26 = .ok (GameState.Going, s3r27) := by decide!

theorem m3r27 : FastGame.make_turn s3r27 = .ok (GameState.Going, s3r28) := by decide!

theorem m3r28 : FastGame.make_turn s3r28 = .ok (GameState.Going, s3r29) := by decide!

theorem m3r29 : FastGame.make_turn s3r29 = .ok (GameState.Going, s3r30) := by decide!

theorem m3r30 : FastGame.make_turn s3r30 = .ok (GameState.Going, s3r31) := by decide!

theorem m3r31 : FastGame.make_turn s3r31 = .ok (GameState.Going, s3r32) := by decide!

theorem m3r32 : FastGame.make_turn s3r32 = .ok (GameState.Going, s3r33) := by decide!

theorem m3r33 : FastGame.make_turn s3r33 = .ok (GameState.Going, s3r34) := by decide!

theorem m3r34 : FastGame.make_turn s3r34 = .ok (GameState.Going, s3r35) := by decide!

theorem m3r35 : FastGame.make_turn s3r35 = .ok (GameState.Going, s3r36) := by decide!

theorem m3r36 : FastGame.make_turn s3r36 = .ok (GameState.Going, s3r37) := by decide!

theorem m3r37 : FastGame.make_turn s3r37 = .ok (GameState.Going, s3r38) := by decide!

theorem m3r38 : FastGame.make_turn s3r38 = .ok (GameState.Going, s3r39) := by decide!

theorem m3r39 : FastGame.make_turn s3r39 = .ok (GameState.Going, s3r40) := by decide!

theorem m3r40 : FastGame.make_turn s3r40 = .ok (GameState.Going, s3r41) := by decide!

theorem m3r41 : FastGame.make_turn s3r41 = .ok (GameState.Going, s3r42) := by decide!

theorem m3r42 : FastGame.make_turn s3r42 = .ok (GameState.Going, s3r43) := by decide!

theorem m3r43 : FastGame.make_turn s3r43 = .ok (GameState.Going, s3r44) := by decide!

theorem m3r44 : FastGame.make_turn s3r44 = .ok (GameState.Going, s3r45) := by decide!

theorem m3r45 : FastGame.make_turn s3r45 = .ok (GameState.Going, s3r46) := by decide!

theorem m3r46 : FastGame.make_turn s3r46 = .ok (GameState.Going, s3r47) := by decide!

theorem m3r47 : FastGame.make_turn s3r47 = .ok (GameState.Over, s3r48) := by decide!

theorem m4r0 : FastGame.make_turn s4r0 = .ok (GameState.Going, s4r1) := by decide!

theorem m4r1 : FastGame.make_turn s4r1 = .ok (GameState.Going, s4r2) := by decide!

theorem m4r2 : FastGame.make_turn s4r2 = .ok (GameState.Going, s4r3) := by decide!

theorem m4r3 : FastGame.make_turn s4r3 = .ok (GameState.Going, s4r4) := by decide!

theorem m4r4 : FastGame.make_turn s4r4 = .ok (GameState.Going, s4r5) := by decide!

theorem m4r5 : FastGame.make_turn s4r5 = .ok (GameState.Going, s4r6) := by decide!

theorem m4r6 : FastGame.make_turn s4r6 = .ok (GameState.Going, s4r7) := by decide!

theorem m4r7 : FastGame.make_turn s4r7 = .ok (GameState.Going, s4r8) := by decide!

theorem m4r8 : FastGame.make_turn s4r8 = .ok (GameState.Going, s4r9) := by decide!

theorem m4r9 : FastGame.make_turn s4r9 = .ok (GameState.Going, s4r10) := by decide!

theorem m4r10 : FastGame.make_turn s4r10 = .ok (GameState.Going, s4r11) := by decide!

theorem m4r11 : FastGame.make_turn s4r11 = .ok (GameState.Going, s4r12) := by decide!

theorem m4r12 : FastGame.make_turn s4r12 = .ok (GameState.Going, s4r13) := by decide!

theorem m4r13 : FastGame.make_turn s4r13 = .ok (GameState.Going, s4r14) := by decide!

theorem m4r14 : FastGame.make_turn s4r14 = .ok (GameState.Going, s4r15) := by decide!

theorem m4r15 : FastGame.make_turn s4r15 = .ok (GameState.Going, s4r16) := by decide!

theorem m4r16 : FastGame.make_turn s4r16 = .ok (GameState.Going, s4r17) := by decide!

theorem m4r17 : FastGame.make_turn s4r17 = .ok (GameState.Going, s4r18) := by decide!

theorem m4r18 : FastGame.make_turn s4r18 = .ok (GameState.Going, s4r19) := by decide!

theorem m4r19 : FastGame.make_turn s4r19 = .ok (GameState.Going, s4r20) := by decide!

theorem m4r20 : FastGame.make_turn s4r20 = .ok (GameState.Going, s4r21) := by decide!

theorem m4r21 : FastGame.make_turn s4r21 = .ok (GameState.Going, s4r22) := by decide!

theorem m4r22 : FastGame.make_turn s4r22 = .ok (GameState.Going, s4r23) := by decide!

theorem m4r23 : FastGame.make_turn s4r23 = .ok (GameState.Going, s4r24) := by decide!

theorem m4r24 : FastGame.make_turn s4r24 = .ok (GameState.Going, s4r25) := by decide!

theorem m4r25 : FastGame.make_turn s4r25 = .ok (GameState.Going, s4r26) := by decide!

theorem m4r26 : FastGame.make_turn s4r26 = .ok (GameState.Going, s4r27) := by decide!

theorem m4r27 : FastGame.make_turn s4r27 = .ok (GameState.Going, s4r28) := by decide!

theorem m4r28 : FastGame.make_turn s4r28 = .ok (GameState.Going, s4r29) := by decide!

theorem m4r29 : FastGame.make_turn s4r29 = .ok (GameState.Going, s4r30) := by decide!

theorem m4r30 : FastGame.make_turn s4r30 = .ok (GameState.Going, s4r31) := by decide!

theorem m4r31 : FastGame.make_turn s4r31 = .ok (GameState.Going, s4r32) := by decide!

theorem m4r32 : FastGame.make_turn s4r32 = .ok (GameState.Going, s4r33) := by decide!

theorem m4r33 : FastGame.make_turn s4r33 = .ok (GameState.Going, s4r34) := by decide!

theorem m4r34 : FastGame.make_turn s4r34 = .ok (GameState.Going, s4r35) := by decide!

theorem m4r35 : FastGame.make_turn s4r35 = .ok (GameState.Going, s4r36) := by decide!

theorem m4r36 : FastGame.make_turn s4r36 = .ok (GameState.Going, s4r37) := by decide!

theorem m4r37 : FastGame.make_turn s4r37 = .ok (GameState.Going, s4r38) := by decide!

theorem m4r38 : FastGame.make_turn s4r38 = .ok (GameState.Going, s4r39) := by decide!

theorem m4r39 : FastGame.make_turn s4r39 = .ok (GameState.Going, s4r40) := by decide!

theorem m4r40 : FastGame.make_turn s4r40 = .ok (GameState.Going, s4r41) := by decide!

theorem m4r41 : FastGame.make_turn s4r41 = .ok (GameState.Going, s4r42) := by decide!

theorem m4r42 : FastGame.make_turn s4r42 = .ok (GameState.Going, s4r43) := by decide!

theorem m4r43 : FastGame.make_turn s4r43 = .ok (GameState.Going, s4r44) := by decide!

theorem m4r44 : FastGame.make_turn s4r44 = .ok (GameState.Going, s4r45) := by decide!

theorem m4r45 : FastGame.make_turn s4r45 = .ok (GameState.Going, s4r46) := by decide!

theorem m4r46 : FastGame.make_turn s4r46 = .ok (GameState.Going, s4r47) := by decide!

theorem m4r47 : FastGame.make_turn s4r47 = .ok (GameState.Over, s4r48) := by decide!

theorem m5r0 : FastGame.make_turn s5r0 = .ok (GameState.Going, s5r1) := by decide!

theorem m5r1 : FastGame.make_turn s5r1 = .ok (GameState.Going, s5r2) := by decide!

theorem m5r2 : FastGame.make_turn s5r2 = .ok (GameState.Going, s5r3) := by decide!

theorem m5r3 : FastGame.make_turn s5r3 = .ok (GameState.Going, s5r4) := by decide!

theorem m5r4 : FastGame.make_turn s5r4 = .ok (GameState.Going, s5r5) := by decide!

theorem m5r5 : FastGame.make_turn s5r5 = .ok (GameState.Going, s5r6) := by decide!

theorem m5r6 : FastGame.make_turn s5r6 = .ok (GameState.Going, s5r7) := by decide!

theorem m5r7 : FastGame.make_turn s5r7 = .ok (GameState.Going, s5r8) := by decide!

theorem m5r8 : FastGame.make_turn s5r8 = .ok (GameState.Going, s5r9) := by decide!

theorem m5r9 : FastGame.make_turn s5r9 = .ok (GameState.Going, s5r10) := by decide!

theorem m5r10 : FastGame.make_turn s5r10 = .ok (GameState.Going, s5r11) := by decide!

theorem m5r11 : FastGame.make_turn s5r11 = .ok (GameState.Going, s5r12) := by decide!

theorem m5r12 : FastGame.make_turn s5r12 = .ok (GameState.Going, s5r13) := by decide!

theorem m5r13 : FastGame.make_turn s5r13 = .ok (GameState.Going, s5r14) := by decide!

theorem m5r14 : FastGame.make_turn s5r14 = .ok (GameState.Going, s5r15) := by decide!

theorem m5r15 : FastGame.make_turn s5r15 = .ok (GameState.Going, s5r16) := by decide!

theorem m5r16 : FastGame.make_turn s5r16 = .ok (GameState.Going, s5r17) := by decide!

theorem m5r17 : FastGame.make_turn s5r17 = .ok (GameState.Going, s5r18) := by decide!

theorem m5r18 : FastGame.make_turn s5r18 = .ok (GameState.Going, s5r19) := by decide!

theorem m5r19 : FastGame.make_turn s5r19 = .ok (GameState.Going, s5r20) := by decide!

theorem m5r20 : FastGame.make_turn s5r20 = .ok (GameState.Going, s5r21) := by decide!

theorem m5r21 : FastGame.make_turn s5r21 = .ok (GameState.Going, s5r22) := by decide!

theorem m5r22 : FastGame.make_turn s5r22 = .ok (GameState.Going, s5r23) := by decide!

theorem m5r23 : FastGame.make_turn s5r23 = .ok (GameState.Going, s5r24) := by decide!

theorem m5r24 : FastGame.make_turn s5r24 = .ok (GameState.Going, s5r25) := by decide!

theorem m5r25 : FastGame.make_turn s5r25 = .ok (GameState.Going, s5r26) := by decide!

theorem m5r26 : FastGame.make_turn s5r26 = .ok (GameState.Going, s5r27) := by decide!

theorem m5r27 : FastGame.make_turn s5r27 = .ok (GameState.Going, s5r28) := by decide!

theorem m5r28 : FastGame.make_turn s5r28 = .ok (GameState.Going, s5r29) := by decide!

theorem m5r29 : FastGame.make_turn s5r29 = .ok (GameState.Going, s5r30) := by decide!

theorem m5r30 : FastGame.make_turn s5r30 = .ok (GameState.Going, s5r31) := by decide!

theorem m5r31 : FastGame.make_turn s5r31 = .ok (GameState.Going, s5r32) := by decide!

theorem m5r32 : FastGame.make_turn s5r32 = .ok (GameState.Going, s5r33) := by decide!

theorem m5r33 : FastGame.make_turn s5r33 = .ok (GameState.Going, s5r34) := by decide!

theorem m5r34 : FastGame.make_turn s5r34 = .ok (GameState.Going, s5r35) := by decide!

theorem m5r35 : FastGame.make_turn s5r35 = .ok (GameState.Going, s5r36) := by decide!

theorem m5r36 : FastGame.make_turn s5r36 = .ok (GameState.Going, s5r37) := by decide!

theorem m5r37 : FastGame.make_turn s5r37 = .ok (GameState.Going, s5r38) := by decide!

theorem m5r38 : FastGame.make_turn s5r38 = .ok (GameState.Going, s5r39) := by decide!

theorem m5r39 : FastGame.make_turn s5r39 = .ok (GameState.Going, s5r40) := by decide!

theorem m5r40 : FastGame.make_turn s5r40 = .ok (GameState.Going, s5r41) := by decide!

theorem m5r41 : FastGame.make_turn s5r41 = .ok (GameState.Going, s5r42) := by decide!

theorem m5r42 : FastGame.make_turn s5r42 = .ok (GameState.Going, s5r43) := by decide!

theorem m5r43 : FastGame.make_turn s5r43 = .ok (GameState.Going, s5r44) := by decide!

theorem m5r44 : FastGame.make_turn s5r44 = .ok (GameState.Going, s5r45) := by decide!

theorem m5r45 : FastGame.make_turn s5r45 = .ok (GameState.Going, s5r46) := by decide!

theorem m5r46 : FastGame.make_turn s5r46 = .ok (GameState.Going, s5r47) := by decide!

theorem m5r47 : FastGame.make_turn s5r47 = .ok (GameState.Going, s5r48) := by decide!

theorem m5r48 : FastGame.make_turn s5r48 = .ok (GameState.Over, s5r49) := by decide!

theorem m6r0 : FastGame.make_turn s6r0 = .ok (GameState.Going, s6r1) := by decide!

theorem m6r1 : FastGame.make_turn s6r1 = .ok (GameState.Going, s6r2) := by decide!

theorem m6r2 : FastGame.make_turn s6r2 = .ok (GameState.Going, s6r3) := by decide!

theorem m6r3 : FastGame.make_turn s6r3 = .ok (GameState.Going, s6r4) := by decide!

theorem m6r4 : FastGame.make_turn s6r4 = .ok (GameState.Going, s6r5) := by decide!

theorem m6r5 : FastGame.make_turn s6r5 = .ok (GameState.Going, s6r6) := by decide!

theorem m6r6 : FastGame.make_turn s6r6 = .ok (GameState.Going, s6r7) := by decide!

theorem m6r7 : FastGame.make_turn s6r7 = .ok (GameState.Going, s6r8) := by decide!

theorem m6r8 : FastGame.make_turn s6r8 = .ok (GameState.Going, s6r9) := by decide!

theorem m6r9 : FastGame.make_turn s6r9 = .ok (GameState.Going, s6r10) := by decide!

theorem m6r10 : FastGame.make_turn s6r10 = .ok (GameState.Going, s6r11) := by decide!

theorem m6r11 : FastGame.make_turn s6r11 = .ok (GameState.Going, s6r12) := by decide!

theorem m6r12 : FastGame.make_turn s6r12 = .ok (GameState.Going, s6r13) := by decide!

theorem m6r13 : FastGame.make_turn s6r13 = .ok (GameState.Going, s6r14) := by decide!

theorem m6r14 : FastGame.make_turn s6r14 = .ok (GameState.Going, s6r15) := by decide!

theorem m6r15 : FastGame.make_turn s6r15 = .ok (GameState.Going, s6r16) := by decide!

theorem m6r16 : FastGame.make_turn s6r16 = .ok (GameState.Going, s6r17) := by decide!

theorem m6r17 : FastGame.make_turn s6r17 = .ok (GameState.Going, s6r18) := by decide!

theorem m6r18 : FastGame.make_turn s6r18 = .ok (GameState.Going, s6r19) := by decide!

theorem m6r19 : FastGame.make_turn s6r19 = .ok (GameState.Going, s6r20) := by decide!

theorem m6r20 : FastGame.make_turn s6r20 = .ok (GameState.Going, s6r21) := by decide!

theorem m6r21 : FastGame.make_turn s6r21 = .ok (GameState.Going, s6r22) := by decide!

theorem m6r22 : FastGame.make_turn s6r22 = .ok (GameState.Going, s6r23) := by decide!

theorem m6r23 : FastGame.make_turn s6r23 = .ok (GameState.Going, s6r24) := by decide!

theorem m6r24 : FastGame.make_turn s6r24 = .ok (GameState.Going, s6r25) := by decide!

theorem m6r25 : FastGame.make_turn s6r25 = .ok (GameState.Going, s6r26) := by decide!

theorem m6r26 : FastGame.make_turn s6r26 = .ok (GameState.Going, s6r27) := by decide!

theorem m6r27 : FastGame.make_turn s6r27 = .ok (GameState.Going, s6r28) := by decide!

theorem m6r28 : FastGame.make_turn s6r28 = .ok (GameState.Going, s6r29) := by decide!

theorem m6r29 : FastGame.make_turn s6r29 = .ok (GameState.Going, s6r30) := by decide!

theorem m6r30 : FastGame.make_turn s6r30 = .ok (GameState.Going, s6r31) := by decide!

theorem m6r31 : FastGame.make_turn s6r31 = .ok (GameState.Going, s6r32) := by decide!

theorem m6r32 : FastGame.make_turn s6r32 = .ok (GameState.Going, s6r33) := by decide!

theorem m6r33 : FastGame.make_turn s6r33 = .ok (GameState.Going, s6r34) := by decide!

theorem m6r34 : FastGame.make_turn s6r34 = .ok (GameState.Going, s6r35) := by decide!

theorem m6r35 : FastGame.make_turn s6r35 = .ok (GameState.Going, s6r36) := by decide!

theorem m6r36 : FastGame.make_turn s6r36 = .ok (GameState.Going, s6r37) := by decide!

theorem m6r37 : FastGame.make_turn s6r37 = .ok (GameState.Going, s6r38) := by decide!

theorem m6r38 : FastGame.make_turn s6r38 = .ok (GameState.Going, s6r39) := by decide!

theorem m6r39 : FastGame.make_turn s6r39 = .ok (GameState.Going, s6r40) := by decide!

theorem m6r40 : FastGame.make_turn s6r40 = .ok (GameState.Going, s6r41) := by decide!

theorem m6r41 : FastGame.make_turn s6r41 = .ok (GameState.Going, s6r42) := by decide!

theorem m6r42 : FastGame.make_turn s6r42 = .ok (GameState.Going, s6r43) := by decide!

theorem m6r43 : FastGame.make_turn s6r43 = .ok (GameState.Going, s6r44) := by decide!

theorem m6r44 : FastGame.make_turn s6r44 = .ok (GameState.Going, s6r45) := by decide!

theorem m6r45 : FastGame.make_turn s6r45 = .ok (GameState.Going, s6r46) := by decide!

theorem m6r46 : FastGame.make_turn s6r46 = .ok (GameState.Going, s6r47) := by decide!

theorem m6r47 : FastGame.make_turn s6r47 = .ok (GameState.Going, s6r48) := by decide!

theorem m6r48 : FastGame.make_turn s6r48 = .ok (GameState.Going, s6r49) := by decide!

theorem m6r49 : FastGame.make_turn s6r49 = .ok (GameState.Over, s6r50) := by decide!

theorem m7r0 : FastGame.make_turn s7r0 = .ok (GameState.Going, s7r1) := by decide!

theorem m7r1 : FastGame.make_turn s7r1 = .ok (GameState.Going, s7r2) := by decide!

theorem m7r2 : FastGame.make_turn s7r2 = .ok (GameState.Going, s7r3) := by decide!

theorem m7r3 : FastGame.make_turn s7r3 = .ok (GameState.Going, s7r4) := by decide!

theorem m7r4 : FastGame.make_turn s7r4 = .ok (GameState.Going, s7r5) := by decide!

theorem m7r5 : FastGame.make_turn s7r5 = .ok (GameState.Going, s7r6) := by decide!

theorem m7r6 : FastGame.make_turn s7r6 = .ok (GameState.Going, s7r7) := by decide!

theorem m7r7 : FastGame.make_turn s7r7 = .ok (GameState.Going, s7r8) := by decide!

theorem m7r8 : FastGame.make_turn s7r8 = .ok (GameState.Going, s7r9) := by decide!

theorem m7r9 : FastGame.make_turn s7r9 = .ok (GameState.Going, s7r10) := by decide!

theorem m7r10 : FastGame.make_turn s7r10 = .ok (GameState.Going, s7r11) := by decide!

theorem m7r11 : FastGame.make_turn s7r11 = .ok (GameState.Going, s7r12) := by decide!

theorem m7r12 : FastGame.make_turn s7r12 = .ok (GameState.Going, s7r13) := by decide!

theorem m7r13 : FastGame.make_turn s7r13 = .ok (GameState.Going, s7r14) := by decide!

theorem m7r14 : FastGame.make_turn s7r14 = .ok (GameState.Going, s7r15) := by decide!

theorem m7r15 : FastGame.make_turn s7r15 = .ok (GameState.Going, s7r16) := by decide!

theorem m7r16 : FastGame.make_turn s7r16 = .ok (GameState.Going, s7r17) := by decide!

theorem m7r17 : FastGame.make_turn s7r17 = .ok (GameState.Going, s7r18) := by decide!

theorem m7r18 : FastGame.make_turn s7r18 = .ok (GameState.Going, s7r19) := by decide!

theorem m7r19 : FastGame.make_turn s7r19 = .ok (GameState.Going, s7r20) := by decide!

theorem m7r20 : FastGame.make_turn s7r20 = .ok (GameState.Going, s7r21) := by decide!

theorem m7r21 : FastGame.make_turn s7r21 = .ok (GameState.Going, s7r22) := by decide!

theorem m7r22 : FastGame.make_turn s7r22 = .ok (GameState.Going, s7r23) := by decide!

theorem m7r23 : FastGame.make_turn s7r23 = .ok (GameState.Going, s7r24) := by decide!

theorem m7r24 : FastGame.make_turn s7r24 = .ok (GameState.Going, s7r25) := by decide!

theorem m7r25 : FastGame.make_turn s7r25 = .ok (GameState.Going, s7r26) := by decide!

theorem m7r26 : FastGame.make_turn s7r26 = .ok (GameState.Going, s7r27) := by decide!

theorem m7r27 : FastGame.make_turn s7r27 = .ok (GameState.Going, s7r28) := by decide!

theorem m7r28 : FastGame.make_turn s7r28 = .ok (GameState.Going, s7r29) := by decide!

theorem m7r29 : FastGame.make_turn s7r29 = .ok (GameState.Going, s7r30) := by decide!

theorem m7r30 : FastGame.make_turn s7r30 = .ok (GameState.Going, s7r31) := by decide!

theorem m7r31 : FastGame.make_turn s7r31 = .ok (GameState.Going, s7r32) := by decide!

theorem m7r32 : FastGame.make_turn s7r32 = .ok (GameState.Going, s7r33) := by decide!

theorem m7r33 : FastGame.make_turn s7r33 = .ok (GameState.Going, s7r34) := by decide!

theorem m7r34 : FastGame.make_turn s7r34 = .ok (GameState.Going, s7r35) := by decide!

theorem m7r35 : FastGame.make_turn s7r35 = .ok (GameState.Going, s7r36) := by decide!

theorem m7r36 : FastGame.make_turn s7r36 = .ok (GameState.Going, s7r37) := by decide!

theorem m7r37 : FastGame.make_turn s7r37 = .ok (GameState.Going, s7r38) := by decide!

theorem m7r38 : FastGame.make_turn s7r38 = .ok (GameState.Going, s7r39) := by decide!

theorem m7r39 : FastGame.make_turn s7r39 = .ok (GameState.Going, s7r40) := by decide!

theorem m7r40 : FastGame.make_turn s7r40 = .ok (GameState.Going, s7r41) := by decide!

theorem m7r41 : FastGame.make_turn s7r41 = .ok (GameState.Going, s7r42) := by decide!

theorem m7r42 : FastGame.make_turn s7r42 = .ok (GameState.Going, s7r43) := by decide!

theorem m7r43 : FastGame.make_turn s7r43 = .ok (GameState.Going, s7r44) := by decide!

theorem m7r44 : FastGame.make_turn s7r44 = .ok (GameState.Going, s7r45) := by decide!

theorem m7r45 : FastGame.make_turn s7r45 = .ok (GameState.Going, s7r46) := by decide!

theorem m7r46 : FastGame.make_turn s7r46 = .ok (GameState.Going, s7r47) := by decide!

theorem m7r47 : FastGame.make_turn s7r47 = .ok (GameState.Going, s7r48) := by decide!

theorem m7r48 : FastGame.make_turn s7r48 = .ok (GameState.Going, s7r49) := by decide!

theorem m7r49 : FastGame.make_turn s7r49 = .ok (GameState.Over, s7r50) := by decide!

theorem m8r0 : FastGame.make_turn s8r0 = .ok (GameState.Going, s8r1) := by decide!

theorem m8r1 : FastGame.make_turn s8r1 = .ok (GameState.Going, s8r2) := by decide!

theorem m8r2 : FastGame.make_turn s8r2 = .ok (GameState.Going, s8r3) := by decide!

theorem m8r3 : FastGame.make_turn s8r3 = .ok (GameState.Going, s8r4) := by decide!

theorem m8r4 : FastGame.make_turn s8r4 = .ok (GameState.Going, s8r5) := by decide!

theorem m8r5 : FastGame.make_turn s8r5 = .ok (GameState.Going, s8r6) := by decide!

theorem m8r6 : FastGame.make_turn s8r6 = .ok (GameState.Going, s8r7) := by decide!

theorem m8r7 : FastGame.make_turn s8r7 = .ok (GameState.Going, s8r8) := by decide!

theorem m8r8 : FastGame.make_turn s8r8 = .ok (GameState.Going, s8r9) := by decide!

theorem m8r9 : FastGame.make_turn s8r9 = .ok (GameState.Going, s8r10) := by decide!

theorem m8r10 : FastGame.make_turn s8r10 = .ok (GameState.Going, s8r11) := by decide!

theorem m8r11 : FastGame.make_turn s8r11 = .ok (GameState.Going, s8r12) := by decide!

theorem m8r12 : FastGame.make_turn s8r12 = .ok (GameState.Going, s8r13) := by decide!

theorem m8r13 : FastGame.make_turn s8r13 = .ok (GameState.Going, s8r14) := by decide!

theorem m8r14 : FastGame.make_turn s8r14 = .ok (GameState.Going, s8r15) := by decide!

theorem m8r15 : FastGame.make_turn s8r15 = .ok (GameState.Going, s8r16) := by decide!

theorem m8r16 : FastGame.make_turn s8r16 = .ok (GameState.Going, s8r17) := by decide!

theorem m8r17 : FastGame.make_turn s8r17 = .ok (GameState.Going, s8r18) := by decide!

theorem m8r18 : FastGame.make_turn s8r18 = .ok (GameState.Going, s8r19) := by decide!

theorem m8r19 : FastGame.make_turn s8r19 = .ok (GameState.Going, s8r20) := by decide!

theorem m8r20 : FastGame.make_turn s8r20 = .ok (GameState.Going, s8r21) := by decide!

theorem m8r21 : FastGame.make_turn s8r21 = .ok (GameState.Going, s8r22) := by decide!

theorem m8r22 : FastGame.make_turn s8r22 = .ok (GameState.Going, s8r23) := by decide!

theorem m8r23 : FastGame.make_turn s8r23 = .ok (GameState.Going, s8r24) := by decide!

theorem m8r24 : FastGame.make_turn s8r24 = .ok (GameState.Going, s8r25) := by decide!

theorem m8r25 : FastGame.make_turn s8r25 = .ok (GameState.Going, s8r26) := by decide!

theorem m8r26 : FastGame.make_turn s8r26 = .ok (GameState.Going, s8r27) := by decide!

theorem m8r27 : FastGame.make_turn s8r27 = .ok (GameState.Going, s8r28) := by decide!

theorem m8r28 : FastGame.make_turn s8r28 = .ok (GameState.Going, s8r29) := by decide!

theorem m8r29 : FastGame.make_turn s8r29 = .ok (GameState.Going, s8r30) := by decide!

theorem m8r30 : FastGame.make_turn s8r30 = .ok (GameState.Going, s8r31) := by decide!

theorem m8r31 : FastGame.make_turn s8r31 = .ok (GameState.Going, s8r32) := by decide!

theorem m8r32 : FastGame.make_turn s8r32 = .ok (GameState.Going, s8r33) := by decide!

theorem m8r33 : FastGame.make_turn s8r33 = .ok (GameState.Going, s8r34) := by decide!

theorem m8r34 : FastGame.make_turn s8r34 = .ok (GameState.Going, s8r35) := by decide!

theorem m8r35 : FastGame.make_turn s8r35 = .ok (GameState.Going, s8r36) := by decide!

theorem m8r36 : FastGame.make_turn s8r36 = .ok (GameState.Going, s8r37) := by decide!

theorem m8r37 : FastGame.make_turn s8r37 = .ok (GameState.Going, s8r38) := by decide!

theorem m8r38 : FastGame.make_turn s8r38 = .ok (GameState.Going, s8r39) := by decide!

theorem m8r39 : FastGame.make_turn s8r39 = .ok (GameState.Going, s8r40) := by decide!

theorem m8r40 : FastGame.make_turn s8r40 = .ok (GameState.Going, s8r41) := by decide!

theorem m8r41 : FastGame.make_turn s8r41 = .ok (GameState.Going, s8r42) := by decide!

theorem m8r42 : FastGame.make_turn s8r42 = .ok (GameState.Going, s8r43) := by decide!

theorem m8r43 : FastGame.make_turn s8r43 = .ok (GameState.Going, s8r44) := by decide!

theorem m8r44 : FastGame.make_turn s8r44 = .ok (GameState.Going, s8r45) := by decide!

theorem m8r45 : FastGame.make_turn s8r45 = .ok (GameState.Going, s8r46) := by decide!

theorem m8r46 : FastGame.make_turn s8r46 = .ok (GameState.Going, s8r47) := by decide!

theorem m8r47 : FastGame.make_turn s8r47 = .ok (GameState.Going, s8r48) := by decide!

theorem m8r48 : FastGame.make_turn s8r48 = .ok (GameState.Going, s8r49) := by decide!

theorem m8r49 : FastGame.make_turn s8r49 = .ok (GameState.Over, s8r50) := by decide!

theorem m9r0 : FastGame.make_turn s9r0 = .ok (GameState.Going, s9r1) := by decide!

theorem m9r1 : FastGame.make_turn s9r1 = .ok (GameState.Going, s9r2) := by decide!

theorem m9r2 : FastGame.make_turn s9r2 = .ok (GameState.Going, s9r3) := by decide!

theorem m9r3 : FastGame.make_turn s9r3 = .ok (GameState.Going, s9r4) := by decide!

theorem m9r4 : FastGame.make_turn s9r4 = .ok (GameState.Going, s9r5) := by decide!

theorem m9r5 : FastGame.make_turn s9r5 = .ok (GameState.Going, s9r6) := by decide!

theorem m9r6 : FastGame.make_turn s9r6 = .ok (GameState.Going, s9r7) := by decide!

theorem m9r7 : FastGame.make_turn s9r7 = .ok (GameState.Going, s9r8) := by decide!

theorem m9r8 : FastGame.make_turn s9r8 = .ok (GameState.Going, s9r9) := by decide!

theorem m9r9 : FastGame.make_turn s9r9 = .ok (GameState.Going, s9r10) := by decide!

theorem m9r10 : FastGame.make_turn s9r10 = .ok (GameState.Going, s9r11) := by decide!

theorem m9r11 : FastGame.make_turn s9r11 = .ok (GameState.Going, s9r12) := by decide!

theorem m9r12 : FastGame.make_turn s9r12 = .ok (GameState.Going, s9r13) := by decide!

theorem m9r13 : FastGame.make_turn s9r13 = .ok (GameState.Going, s9r14) := by decide!

theorem m9r14 : FastGame.make_turn s9r14 = .ok (GameState.Going, s9r15) := by decide!

theorem m9r15 : FastGame.make_turn s9r15 = .ok (GameState.Going, s9r16) := by decide!

theorem m9r16 : FastGame.make_turn s9r16 = .ok (GameState.Going, s9r17) := by decide!

theorem m9r17 : FastGame.make_turn s9r17 = .ok (GameState.Going, s9r18) := by decide!

theorem m9r18 : FastGame.make_turn s9r18 = .ok (GameState.Going, s9r19) := by decide!

theorem m9r19 : FastGame.make_turn s9r19 = .ok (GameState.Going, s9r20) := by decide!

theorem m9r20 : FastGame.make_turn s9r20 = .ok (GameState.Going, s9r21) := by decide!

theorem m9r21 : FastGame.make_turn s9r21 = .ok (GameState.Going, s9r22) := by decide!

theorem m9r22 : FastGame.make_turn s9r22 = .ok (GameState.Going, s9r23) := by decide!

theorem m9r23 : FastGame.make_turn s9r23 = .ok (GameState.Going, s9r24) := by decide!

theorem m9r24 : FastGame.make_turn s9r24 = .ok (GameState.Going, s9r25) := by decide!

theorem m9r25 : FastGame.make_turn s9r25 = .ok (GameState.Going, s9r26) := by decide!

theorem m9r26 : FastGame.make_turn s9r26 = .ok (GameState.Going, s9r27) := by decide!

theorem m9r27 : FastGame.make_turn s9r27 = .ok (GameState.Going, s9r28) := by decide!

theorem m9r28 : FastGame.make_turn s9r28 = .ok (GameState.Going, s9r29) := by decide!

theorem m9r29 : FastGame.make_turn s9r29 = .ok (GameState.Going, s9r30) := by decide!

theorem m9r30 : FastGame.make_turn s9r30 = .ok (GameState.Going, s9r31) := by decide!

theorem m9r31 : FastGame.make_turn s9r31 = .ok (GameState.Going, s9r32) := by decide!

theorem m9r32 : FastGame.make_turn s9r32 = .ok (GameState.Going, s9r33) := by decide!

theorem m9r33 : FastGame.make_turn s9r33 = .ok (GameState.Going, s9r34) := by decide!

theorem m9r34 : FastGame.make_turn s9r34 = .ok (GameState.Going, s9r35) := by decide!

theorem m9r35 : FastGame.make_turn s9r35 = .ok (GameState.Going, s9r36) := by decide!

theorem m9r36 : FastGame.make_turn s9r36 = .ok (GameState.Going, s9r37) := by decide!

theorem m9r37 : FastGame.make_turn s9r37 = .ok (GameState.Going, s9r38) := by decide!

theorem m9r38 : FastGame.make_turn s9r38 = .ok (GameState.Going, s9r39) := by decide!

theorem m9r39 : FastGame.make_turn s9r39 = .ok (GameState.Going, s9r40) := by decide!

theorem m9r40 : FastGame.make_turn s9r40 = .ok (GameState.Going, s9r41) := by decide!

theorem m9r41 : FastGame.make_turn s9r41 = .ok (GameState.Going, s9r42) := by decide!

theorem m9r42 : FastGame.make_turn s9r42 = .ok (GameState.Going, s9r43) := by decide!

theorem m9r43 : FastGame.make_turn s9r43 = .ok (GameState.Going, s9r44) := by decide!

theorem m9r44 : FastGame.make_turn s9r44 = .ok (GameState.Going, s9r45) := by decide!

theorem m9r45 : FastGame.make_turn s9r45 = .ok (GameState.Going, s9r46) := by decide!

theorem m9r46 : FastGame.make_turn s9r46 = .ok (GameState.Going, s9r47) := by decide!

theorem m9r47 : FastGame.make_turn s9r47 = .ok (GameState.Going, s9r48) := by decide!

theorem m9r48 : FastGame.make_turn s9r48 = .ok (GameState.Going, s9r49) := by decide!

theorem m9r49 : FastGame.make_turn s9r49 = .ok (GameState.Going, s9r50) := by decide!

theorem m9r50 : FastGame.make_turn s9r50 = .ok (GameState.Going, s9r51) := by decide!

theorem m9r51 : FastGame.make_turn s9r51 = .ok (GameState.Going, s9r52) := by decide!

theorem m9r52 : FastGame.make_turn s9r52 = .ok (GameState.Going, s9r53) := by decide!

theorem m9r53 : FastGame.make_turn s9r53 = .ok (GameState.Going, s9r54) := by decide!

theorem m9r54 : FastGame.make_turn s9r54 = .ok (GameState.Over, s9r55) := by decide!

theorem m10r0 : FastGame.make_turn s10r0 = .ok (GameState.Going, s10r1) := by decide!

theorem m10r1 : FastGame.make_turn s10r1 = .ok (GameState.Going, s10r2) := by decide!

theorem m10r2 : FastGame.make_turn s10r2 = .ok (GameState.Going, s10r3) := by decide!

theorem m10r3 : FastGame.make_turn s10r3 = .ok (GameState.Going, s10r4) := by decide!

theorem m10r4 : FastGame.make_turn s10r4 = .ok (GameState.Going, s10r5) := by decide!

theorem m10r5 : FastGame.make_turn s10r5 = .ok (GameState.Going, s10r6) := by decide!

theorem m10r6 : FastGame.make_turn s10r6 = .ok (GameState.Going, s10r7) := by decide!

theorem m10r7 : FastGame.make_turn s10r7 = .ok (GameState.Going, s10r8) := by decide!

theorem m10r8 : FastGame.make_turn s10r8 = .ok (GameState.Going, s10r9) := by decide!

theorem m10r9 : FastGame.make_turn s10r9 = .ok (GameState.Going, s10r10) := by decide!

theorem m10r10 : FastGame.make_turn s10r10 = .ok (GameState.Going, s10r11) := by decide!

theorem m10r11 : FastGame.make_turn s10r11 = .ok (GameState.Going, s10r12) := by decide!

theorem m10r12 : FastGame.make_turn s10r12 = .ok (GameState.Going, s10r13) := by decide!

theorem m10r13 : FastGame.make_turn s10r13 = .ok (GameState.Going, s10r14) := by decide!

theorem m10r14 : FastGame.make_turn s10r14 = .ok (GameState.Going, s10r15) := by decide!

theorem m10r15 : FastGame.make_turn s10r15 = .ok (GameState.Going, s10r16) := by decide!

theorem m10r16 : FastGame.make_turn s10r16 = .ok (GameState.Going, s10r17) := by decide!

theorem m10r17 : FastGame.make_turn s10r17 = .ok (GameState.Going, s10r18) := by decide!

theorem m10r18 : FastGame.make_turn s10r18 = .ok (GameState.Going, s10r19) := by decide!

theorem m10r19 : FastGame.make_turn s10r19 = .ok (GameState.Going, s10r20) := by decide!

theorem m10r20 : FastGame.make_turn s10r20 = .ok (GameState.Going, s10r21) := by decide!

theorem m10r21 : FastGame.make_turn s10r21 = .ok (GameState.Going, s10r22) := by decide!

theorem m10r22 : FastGame.make_turn s10r22 = .ok (GameState.Going, s10r23) := by decide!

theorem m10r23 : FastGame.make_turn s10r23 = .ok (GameState.Going, s10r24) := by decide!

theorem m10r24 : FastGame.make_turn s10r24 = .ok (GameState.Going, s10r25) := by decide!

theorem m10r25 : FastGame.make_turn s10r25 = .ok (GameState.Going, s10r26) := by decide!

theorem m10r26 : FastGame.make_turn s10r26 = .ok (GameState.Going, s10r27) := by decide!

theorem m10r27 : FastGame.make_turn s10r27 = .ok (GameState.Going, s10r28) := by decide!

theorem m10r28 : FastGame.make_turn s10r28 = .ok (GameState.Going, s10r29) := by decide!

theorem m10r29 : FastGame.make_turn s10r29 = .ok (GameState.Going, s10r30) := by decide!

theorem m10r30 : FastGame.make_turn s10r30 = .ok (GameState.Going, s10r31) := by decide!

theorem m10r31 : FastGame.make_turn s10r31 = .ok (GameState.Going, s10r32) := by decide!

theorem m10r32 : FastGame.make_turn s10r32 = .ok (GameState.Going, s10r33) := by decide!

theorem m10r33 : FastGame.make_turn s10r33 = .ok (GameState.Going, s10r34) := by decide!

theorem m10r34 : FastGame.make_turn s10r34 = .ok (GameState.Going, s10r35) := by decide!

theorem m10r35 : FastGame.make_turn s10r35 = .ok (GameState.Going, s10r36) := by decide!

theorem m10r36 : FastGame.make_turn s10r36 = .ok (GameState.Going, s10r37) := by decide!

theorem m10r37 : FastGame.make_turn s10r37 = .ok (GameState.Going, s10r38) := by decide!

theorem m10r38 : FastGame.make_turn s10r38 = .ok (GameState.Going, s10r39) := by decide!

theorem m10r39 : FastGame.make_turn s10r39 = .ok (GameState.Going, s10r40) := by decide!

theorem m10r40 : FastGame.make_turn s10r40 = .ok (GameState.Going, s10r41) := by decide!

theorem m10r41 : FastGame.make_turn s10r41 = .ok (GameState.Going, s10r42) := by decide!

theorem m10r42 : FastGame.make_turn s10r42 = .ok (GameState.Going, s10r43) := by decide!

theorem m10r43 : FastGame.make_turn s10r43 = .ok (GameState.Going, s10r44) := by decide!

theorem m10r44 : FastGame.make_turn s10r44 = .ok (GameState.Going, s10r45) := by decide!

theorem m10r45 : FastGame.make_turn s10r45 = .ok (GameState.Going, s10r46) := by decide!

theorem m10r46 : FastGame.make_turn s10r46 = .ok (GameState.Going, s10r47) := by decide!

theorem m10r47 : FastGame.make_turn s10r47 = .ok (GameState.Going, s10r48) := by decide!

theorem m10r48 : FastGame.make_turn s10r48 = .ok (GameState.Going, s10r49) := by decide!

theorem m10r49 : FastGame.make_turn s10r49 = .ok (GameState.Going, s10r50) := by decide!

theorem m10r50 : FastGame.make_turn s10r50 = .ok (GameState.Going, s10r51) := by decide!

theorem m10r51 : FastGame.make_turn s10r51 = .ok (GameState.Going, s10r52) := by decide!

theorem m10r52 : FastGame.make_turn s10r52 = .ok (GameState.Going, s10r53) := by decide!

theorem m10r53 : FastGame.make_turn s10r53 = .ok (GameState.Going, s10r54) := by decide!

theorem m10r54 : FastGame.make_turn s10r54 = .ok (GameState.Going, s10r55) := by decide!

theorem m10r55 : FastGame.make_turn s10r55 = .ok (GameState.Going, s10r56) := by decide!

theorem m10r56 : FastGame.make_turn s10r56 = .ok (GameState.Going, s10r57) := by decide!

theorem m10r57 : FastGame.make_turn s10r57 = .ok (GameState.Going, s10r58) := by decide!

theorem m10r58 : FastGame.make_turn s10r58 = .ok (GameState.Over, s10r59) := by decide!

theorem m11r0 : FastGame.make_turn s11r0 = .ok (GameState.Going, s11r1) := by decide!

theorem m11r1 : FastGame.make_turn s11r1 = .ok (GameState.Going, s11r2) := by decide!

theorem m11r2 : FastGame.make_turn s11r2 = .ok (GameState.Going, s11r3) := by decide!

theorem m11r3 : FastGame.make_turn s11r3 = .ok (GameState.Going, s11r4) := by decide!

theorem m11r4 : FastGame.make_turn s11r4 = .ok (GameState.Going, s11r5) := by decide!

theorem m11r5 : FastGame.make_turn s11r5 = .ok (GameState.Going, s11r6) := by decide!

theorem m11r6 : FastGame.make_turn s11r6 = .ok (GameState.Going, s11r7) := by decide!

theorem m11r7 : FastGame.make_turn s11r7 = .ok (GameState.Going, s11r8) := by decide!

theorem m11r8 : FastGame.make_turn s11r8 = .ok (GameState.Going, s11r9) := by decide!

theorem m11r9 : FastGame.make_turn s11r9 = .ok (GameState.Going, s11r10) := by decide!

theorem m11r10 : FastGame.make_turn s11r10 = .ok (GameState.Going, s11r11) := by decide!

theorem m11r11 : FastGame.make_turn s11r11 = .ok (GameState.Going, s11r12) := by decide!

theorem m11r12 : FastGame.make_turn s11r12 = .ok (GameState.Going, s11r13) := by decide!

theorem m11r13 : FastGame.make_turn s11r13 = .ok (GameState.Going, s11r14) := by decide!

theorem m11r14 : FastGame.make_turn s11r14 = .ok (GameState.Going, s11r15) := by decide!

theorem m11r15 : FastGame.make_turn s11r15 = .ok (GameState.Going, s11r16) := by decide!

theorem m11r16 : FastGame.make_turn s11r16 = .ok (GameState.Going, s11r17) := by decide!

theorem m11r17 : FastGame.make_turn s11r17 = .ok (GameState.Going, s11r18) := by decide!

theorem m11r18 : FastGame.make_turn s11r18 = .ok (GameState.Going, s11r19) := by decide!

theorem m11r19 : FastGame.make_turn s11r19 = .ok (GameState.Going, s11r20) := by decide!

theorem m11r20 : FastGame.make_turn s11r20 = .ok (GameState.Going, s11r21) := by decide!

theorem m11r21 : FastGame.make_turn s11r21 = .ok (GameState.Going, s11r22) := by decide!

theorem m11r22 : FastGame.make_turn s11r22 = .ok (GameState.Going, s11r23) := by decide!

theorem m11r23 : FastGame.make_turn s11r23 = .ok (GameState.Going, s11r24) := by decide!

theorem m11r24 : FastGame.make_turn s11r24 = .ok (GameState.Going, s11r25) := by decide!

theorem m11r25 : FastGame.make_turn s11r25 = .ok (GameState.Going, s11r26) := by decide!

theorem m11r26 : FastGame.make_turn s11r26 = .ok (GameState.Going, s11r27) := by decide!

theorem m11r27 : FastGame.make_turn s11r27 = .ok (GameState.Going, s11r28) := by decide!

theorem m11r28 : FastGame.make_turn s11r28 = .ok (GameState.Going, s11r29) := by decide!

theorem m11r29 : FastGame.make_turn s11r29 = .ok (GameState.Going, s11r30) := by decide!

theorem m11r30 : FastGame.make_turn s11r30 = .ok (GameState.Going, s11r31) := by decide!

theorem m11r31 : FastGame.make_turn s11r31 = .ok (GameState.Going, s11r32) := by decide!

theorem m11r32 : FastGame.make_turn s11r32 = .ok (GameState.Going, s11r33) := by decide!

theorem m11r33 : FastGame.make_turn s11r33 = .ok (GameState.Going, s11r34) := by decide!

theorem m11r34 : FastGame.make_turn s11r34 = .ok (GameState.Going, s11r35) := by decide!

theorem m11r35 : FastGame.make_turn s11r35 = .ok (GameState.Going, s11r36) := by decide!

theorem m11r36 : FastGame.make_turn s11r36 = .ok (GameState.Going, s11r37) := by decide!

theorem m11r37 : FastGame.make_turn s11r37 = .ok (GameState.Going, s11r38) := by decide!

theorem m11r38 : FastGame.make_turn s11r38 = .ok (GameState.Going, s11r39) := by decide!

theorem m11r39 : FastGame.make_turn s11r39 = .ok (GameState.Going, s11r40) := by decide!

theorem m11r40 : FastGame.make_turn s11r40 = .ok (GameState.Going, s11r41) := by decide!

theorem m11r41 : FastGame.make_turn s11r41 = .ok (GameState.Going, s11r42) := by decide!

theorem m11r42 : FastGame.make_turn s11r42 = .ok (GameState.Going, s11r43) := by decide!

theorem m11r43 : FastGame.make_turn s11r43 = .ok (GameState.Going, s11r44) := by decide!

theorem m11r44 : FastGame.make_turn s11r44 = .ok (GameState.Going, s11r45) := by decide!

theorem m11r45 : FastGame.make_turn s11r45 = .ok (GameState.Going, s11r46) := by decide!

theorem m11r46 : FastGame.make_turn s11r46 = .ok (GameState.Going, s11r47) := by decide!

theorem m11r47 : FastGame.make_turn s11r47 = .ok (GameState.Going, s11r48) := by decide!

theorem m11r48 : FastGame.make_turn s11r48 = .ok (GameState.Going, s11r49) := by decide!

theorem m11r49 : FastGame.make_turn s11r49 = .ok (GameState.Going, s11r50) := by decide!

theorem m11r50 : FastGame.make_turn s11r50 = .ok (GameState.Going, s11r51) := by decide!

theorem m11r51 : FastGame.make_turn s11r51 = .ok (GameState.Going, s11r52) := by decide!

theorem m11r52 : FastGame.make_turn s11r52 = .ok (GameState.Going, s11r53) := by decide!

theorem m11r53 : FastGame.make_turn s11r53 = .ok (GameState.Over, s11r54) := by decide!

theorem m12r0 : FastGame.make_turn s12r0 = .ok (GameState.Going, s12r1) := by decide!

theorem m12r1 : FastGame.make_turn s12r1 = .ok (GameState.Going, s12r2) := by decide!

theorem m12r2 : FastGame.make_turn s12r2 = .ok (GameState.Going, s12r3) := by decide!

theorem m12r3 : FastGame.make_turn s12r3 = .ok (GameState.Going, s12r4) := by decide!

theorem m12r4 : FastGame.make_turn s12r4 = .ok (GameState.Going, s12r5) := by decide!

theorem m12r5 : FastGame.make_turn s12r5 = .ok (GameState.Going, s12r6) := by decide!

theorem m12r6 : FastGame.make_turn s12r6 = .ok (GameState.Going, s12r7) := by decide!

theorem m12r7 : FastGame.make_turn s12r7 = .ok (GameState.Going, s12r8) := by decide!

theorem m12r8 : FastGame.make_turn s12r8 = .ok (GameState.Going, s12r9) := by decide!

theorem m12r9 : FastGame.make_turn s12r9 = .ok (GameState.Going, s12r10) := by decide!

theorem m12r10 : FastGame.make_turn s12r10 = .ok (GameState.Going, s12r11) := by decide!

theorem m12r11 : FastGame.make_turn s12r11 = .ok (GameState.Going, s12r12) := by decide!

theorem m12r12 : FastGame.make_turn s12r12 = .ok (GameState.Going, s12r13) := by decide!

theorem m12r13 : FastGame.make_turn s12r13 = .ok (GameState.Going, s12r14) := by decide!

theorem m12r14 : FastGame.make_turn s12r14 = .ok (GameState.Going, s12r15) := by decide!

theorem m12r15 : FastGame.make_turn s12r15 = .ok (GameState.Going, s12r16) := by decide!

theorem m12r16 : FastGame.make_turn s12r16 = .ok (GameState.Going, s12r17) := by decide!

theorem m12r17 : FastGame.make_turn s12r17 = .ok (GameState.Going, s12r18) := by decide!

theorem m12r18 : FastGame.make_turn s12r18 = .ok (GameState.Going, s12r19) := by decide!

theorem m12r19 : FastGame.make_turn s12r19 = .ok (GameState.Going, s12r20) := by decide!

theorem m12r20 : FastGame.make_turn s12r20 = .ok (GameState.Going, s12r21) := by decide!

theorem m12r21 : FastGame.make_turn s12r21 = .ok (GameState.Going, s12r22) := by decide!

theorem m12r22 : FastGame.make_turn s12r22 = .ok (GameState.Going, s12r23) := by decide!

theorem m12r23 : FastGame.make_turn s12r23 = .ok (GameState.Going, s12r24) := by decide!

theorem m12r24 : FastGame.make_turn s12r24 = .ok (GameState.Going, s12r25) := by decide!

theorem m12r25 : FastGame.make_turn s12r25 = .ok (GameState.Going, s12r26) := by decide!

theorem m12r26 : FastGame.make_turn s12r26 = .ok (GameState.Going, s12r27) := by decide!

theorem m12r27 : FastGame.make_turn s12r27 = .ok (GameState.Going, s12r28) := by decide!

theorem m12r28 : FastGame.make_turn s12r28 = .ok (GameState.Going, s12r29) := by decide!

theorem m12r29 : FastGame.make_turn s12r29 = .ok (GameState.Going, s12r30) := by decide!

theorem m12r30 : FastGame.make_turn s12r30 = .ok (GameState.Going, s12r31) := by decide!

theorem m12r31 : FastGame.make_turn s12r31 = .ok (GameState.Going, s12r32) := by decide!

theorem m12r32 : FastGame.make_turn s12r32 = .ok (GameState.Going, s12r33) := by decide!

theorem m12r33 : FastGame.make_turn s12r33 = .ok (GameState.Going, s12r34) := by decide!

theorem m12r34 : FastGame.make_turn s12r34 = .ok (GameState.Going, s12r35) := by decide!

theorem m12r35 : FastGame.make_turn s12r35 = .ok (GameState.Going, s12r36) := by decide!

theorem m12r36 : FastGame.make_turn s12r36 = .ok (GameState.Going, s12r37) := by decide!

theorem m12r37 : FastGame.make_turn s12r37 = .ok (GameState.Going, s12r38) := by decide!

theorem m12r38 : FastGame.make_turn s12r38 = .ok (GameState.Going, s12r39) := by decide!

theorem m12r39 : FastGame.make_turn s12r39 = .ok (GameState.Going, s12r40) := by decide!

theorem m12r40 : FastGame.make_turn s12r40 = .ok (GameState.Going, s12r41) := by decide!

theorem m12r41 : FastGame.make_turn s12r41 = .ok (GameState.Going, s12r42) := by decide!

theorem m12r42 : FastGame.make_turn s12r42 = .ok (GameState.Going, s12r43) := by decide!

theorem m12r43 : FastGame.make_turn s12r43 = .ok (GameState.Going, s12r44) := by decide!

theorem m12r44 : FastGame.make_turn s12r44 = .ok (GameState.Over, s12r45) := by decide!

theorem m13r0 : FastGame.make_turn s13r0 = .ok (GameState.Going, s13r1) := by decide!

theorem m13r1 : FastGame.make_turn s13r1 = .ok (GameState.Going, s13r2) := by decide!

theorem m13r2 : FastGame.make_turn s13r2 = .ok (GameState.Going, s13r3) := by decide!

theorem m13r3 : FastGame.make_turn s13r3 = .ok (GameState.Going, s13r4) := by decide!

theorem m13r4 : FastGame.make_turn s13r4 = .ok (GameState.Going, s13r5) := by decide!

theorem m13r5 : FastGame.make_turn s13r5 = .ok (GameState.Going, s13r6) := by decide!

theorem m13r6 : FastGame.make_turn s13r6 = .ok (GameState.Going, s13r7) := by decide!

theorem m13r7 : FastGame.make_turn s13r7 = .ok (GameState.Going, s13r8) := by decide!

theorem m13r8 : FastGame.make_turn s13r8 = .ok (GameState.Going, s13r9) := by decide!

theorem m13r9 : FastGame.make_turn s13r9 = .ok (GameState.Going, s13r10) := by decide!

theorem m13r10 : FastGame.make_turn s13r10 = .ok (GameState.Going, s13r11) := by decide!

theorem m13r11 : FastGame.make_turn s13r11 = .ok (GameState.Going, s13r12) := by decide!

theorem m13r12 : FastGame.make_turn s13r12 = .ok (GameState.Going, s13r13) := by decide!

theorem m13r13 : FastGame.make_turn s13r13 = .ok (GameState.Going, s13r14) := by decide!

theorem m13r14 : FastGame.make_turn s13r14 = .ok (GameState.Going, s13r15) := by decide!

theorem m13r15 : FastGame.make_turn s13r15 = .ok (GameState.Going, s13r16) := by decide!

theorem m13r16 : FastGame.make_turn s13r16 = .ok (GameState.Going, s13r17) := by decide!

theorem m13r17 : FastGame.make_turn s13r17 = .ok (GameState.Going, s13r18) := by decide!

theorem m13r18 : FastGame.make_turn s13r18 = .ok (GameState.Going, s13r19) := by decide!

theorem m13r19 : FastGame.make_turn s13r19 = .ok (GameState.Going, s13r20) := by decide!

theorem m13r20 : FastGame.make_turn s13r20 = .ok (GameState.Going, s13r21) := by decide!

theorem m13r21 : FastGame.make_turn s13r21 = .ok (GameState.Going, s13r22) := by decide!

theorem m13r22 : FastGame.make_turn s13r22 = .ok (GameState.Going, s13r23) := by decide!

theorem m13r23 : FastGame.make_turn s13r23 = .ok (GameState.Going, s13r24) := by decide!

theorem m13r24 : FastGame.make_turn s13r24 = .ok (GameState.Going, s13r25) := by decide!

theorem m13r25 : FastGame.make_turn s13r25 = .ok (GameState.Going, s13r26) := by decide!

theorem m13r26 : FastGame.make_turn s13r26 = .ok (GameState.Going, s13r27) := by decide!

theorem m13r27 : FastGame.make_turn s13r27 = .ok (GameState.Going, s13r28) := by decide!

theorem m13r28 : FastGame.make_turn s13r28 = .ok (GameState.Going, s13r29) := by decide!

theorem m13r29 : FastGame.make_turn s13r29 = .ok (GameState.Going, s13r30) := by decide!

theorem m13r30 : FastGame.make_turn s13r30 = .ok (GameState.Going, s13r31) := by decide!

theorem m13r31 : FastGame.make_turn s13r31 = .ok (GameState.Going, s13r32) := by decide!

theorem m13r32 : FastGame.make_turn s13r32 = .ok (GameState.Going, s13r33) := by decide!

theorem m13r33 : FastGame.make_turn s13r33 = .ok (GameState.Going, s13r34) := by decide!

theorem m13r34 : FastGame.make_turn s13r34 = .ok (GameState.Going, s13r35) := by decide!

theorem m13r35 : FastGame.make_turn s13r35 = .ok (GameState.Going, s13r36) := by decide!

theorem m13r36 : FastGame.make_turn s13r36 = .ok (GameState.Going, s13r37) := by decide!

theorem m13r37 : FastGame.make_turn s13r37 = .ok (GameState.Going, s13r38) := by decide!

theorem m13r38 : FastGame.make_turn s13r38 = .ok (GameState.Going, s13r39) := by decide!

theorem m13r39 : FastGame.make_turn s13r39 = .ok (GameState.Over, s13r40) := by decide!

theorem m14r0 : FastGame.make_turn s14r0 = .ok (GameState.Going, s14r1) := by decide!

theorem m14r1 : FastGame.make_turn s14r1 = .ok (GameState.Going, s14r2) := by decide!

theorem m14r2 : FastGame.make_turn s14r2 = .ok (GameState.Going, s14r3) := by decide!

theorem m14r3 : FastGame.make_turn s14r3 = .ok (GameState.Going, s14r4) := by decide!

theorem m14r4 : FastGame.make_turn s14r4 = .ok (GameState.Going, s14r5) := by decide!

theorem m14r5 : FastGame.make_turn s14r5 = .ok (GameState.Going, s14r6) := by decide!

theorem m14r6 : FastGame.make_turn s14r6 = .ok (GameState.Going, s14r7) := by decide!

theorem m14r7 : FastGame.make_turn s14r7 = .ok (GameState.Going, s14r8) := by decide!

theorem m14r8 : FastGame.make_turn s14r8 = .ok (GameState.Going, s14r9) := by decide!

theorem m14r9 : FastGame.make_turn s14r9 = .ok (GameState.Going, s14r10) := by decide!

theorem m14r10 : FastGame.make_turn s14r10 = .ok (GameState.Going, s14r11) := by decide!

theorem m14r11 : FastGame.make_turn s14r11 = .ok (GameState.Going, s14r12) := by decide!

theorem m14r12 : FastGame.make_turn s14r12 = .ok (GameState.Going, s14r13) := by decide!

theorem m14r13 : FastGame.make_turn s14r13 = .ok (GameState.Going, s14r14) := by decide!

theorem m14r14 : FastGame.make_turn s14r14 = .ok (GameState.Going, s14r15) := by decide!

theorem m14r15 : FastGame.make_turn s14r15 = .ok (GameState.Going, s14r16) := by decide!

theorem m14r16 : FastGame.make_turn s14r16 = .ok (GameState.Going, s14r17) := by decide!

theorem m14r17 : FastGame.make_turn s14r17 = .ok (GameState.Going, s14r18) := by decide!

theorem m14r18 : FastGame.make_turn s14r18 = .ok (GameState.Going, s14r19) := by decide!

theorem m14r19 : FastGame.make_turn s14r19 = .ok (GameState.Going, s14r20) := by decide!

theorem m14r20 : FastGame.make_turn s14r20 = .ok (GameState.Going, s14r21) := by decide!

theorem m14r21 : FastGame.make_turn s14r21 = .ok (GameState.Going, s14r22) := by decide!

theorem m14r22 : FastGame.make_turn s14r22 = .ok (GameState.Going, s14r23) := by decide!

theorem m14r23 : FastGame.make_turn s14r23 = .ok (GameState.Going, s14r24) := by decide!

theorem m14r24 : FastGame.make_turn s14r24 = .ok (GameState.Going, s14r25) := by decide!

theorem m14r25 : FastGame.make_turn s14r25 = .ok (GameState.Going, s14r26) := by decide!

theorem m14r26 : FastGame.make_turn s14r26 = .ok (GameState.Going, s14r27) := by decide!

theorem m14r27 : FastGame.make_turn s14r27 = .ok (GameState.Going, s14r28) := by decide!

theorem m14r28 : FastGame.make_turn s14r28 = .ok (GameState.Going, s14r29) := by decide!

theorem m14r29 : FastGame.make_turn s14r29 = .ok (GameState.Going, s14r30) := by decide!

theorem m14r30 : FastGame.make_turn s14r30 = .ok (GameState.Going, s14r31) := by decide!

theorem m14r31 : FastGame.make_turn s14r31 = .ok (GameState.Going, s14r32) := by decide!

theorem m14r32 : FastGame.make_turn s14r32 = .ok (GameState.Going, s14r33) := by decide!

theorem m14r33 : FastGame.make_turn s14r33 = .ok (GameState.Over, s14r34) := by decide!

theorem m15r0 : FastGame.make_turn s15r0 = .ok (GameState.Going, s15r1) := by decide!

theorem m15r1 : FastGame.make_turn s15r1 = .ok (GameState.Going, s15r2) := by decide!

theorem m15r2 : FastGame.make_turn s15r2 = .ok (GameState.Going, s15r3) := by decide!

theorem m15r3 : FastGame.make_turn s15r3 = .ok (GameState.Going, s15r4) := by decide!

theorem m15r4 : FastGame.make_turn s15r4 = .ok (GameState.Going, s15r5) := by decide!

theorem m15r5 : FastGame.make_turn s15r5 = .ok (GameState.Going, s15r6) := by decide!

theorem m15r6 : FastGame.make_turn s15r6 = .ok (GameState.Going, s15r7) := by decide!

theorem m15r7 : FastGame.make_turn s15r7 = .ok (GameState.Going, s15r8) := by decide!

theorem m15r8 : FastGame.make_turn s15r8 = .ok (GameState.Going, s15r9) := by decide!

theorem m15r9 : FastGame.make_turn s15r9 = .ok (GameState.Going, s15r10) := by decide!

theorem m15r10 : FastGame.make_turn s15r10 = .ok (GameState.Going, s15r11) := by decide!

theorem m15r11 : FastGame.make_turn s15r11 = .ok (GameState.Going, s15r12) := by decide!

theorem m15r12 : FastGame.make_turn s15r12 = .ok (GameState.Going, s15r13) := by decide!

theorem m15r13 : FastGame.make_turn s15r13 = .ok (GameState.Going, s15r14) := by decide!

theorem m15r14 : FastGame.make_turn s15r14 = .ok (GameState.Going, s15r15) := by decide!

theorem m15r15 : FastGame.make_turn s15r15 = .ok (GameState.Going, s15r16) := by decide!

theorem m15r16 : FastGame.make_turn s15r16 = .ok (GameState.Going, s15r17) := by decide!

theorem m15r17 : FastGame.make_turn s15r17 = .ok (GameState.Going, s15r18) := by decide!

theorem m15r18 : FastGame.make_turn s15r18 = .ok (GameState.Going, s15r19) := by decide!

theorem m15r19 : FastGame.make_turn s15r19 = .ok (GameState.Going, s15r20) := by decide!

theorem m15r20 : FastGame.make_turn s15r20 = .ok (GameState.Going, s15r21) := by decide!

theorem m15r21 : FastGame.make_turn s15r21 = .ok (GameState.Going, s15r22) := by decide!

theorem m15r22 : FastGame.make_turn s15r22 = .ok (GameState.Going, s15r23) := by decide!

theorem m15r23 : FastGame.make_turn s15r23 = .ok (GameState.Going, s15r24) := by decide!

theorem m15r24 : FastGame.make_turn s15r24 = .ok (GameState.Going, s15r25) := by decide!

theorem m15r25 : FastGame.make_turn s15r25 = .ok (GameState.Going, s15r26) := by decide!

theorem m15r26 : FastGame.make_turn s15r26 = .ok (GameState.Going, s15r27) := by decide!

theorem m15r27 : FastGame.make_turn s15r27 = .ok (GameState.Going, s15r28) := by decide!

theorem m15r28 : FastGame.make_turn s15r28 = .ok (GameState.Going, s15r29) := by decide!

theorem m15r29 : FastGame.make_turn s15r29 = .ok (GameState.Over, s15r30) := by decide!

theorem runp3 : runGame 200 (s3r0.game) = .ok (s3r48.game) := by
  have w0 : FastGame.WF s3r0 := ⟨by decide!, by decide!, by decide!, by decide!, by decide!⟩
  have x0 := runGame_fast_going w0 199 m3r0
  have e0 : runGame 200 (s3r0.game) = runGame 199 (s3r1.game) := x0.1
  have w1 : FastGame.WF s3r1 := x0.2
  have x1 := runGame_fast_going w1 198 m3r1
  have e1 : runGame 199 (s3r1.game) = runGame 198 (s3r2.game) := x1.1
  have w2 : FastGame.WF s3r2 := x1.2
  have x2 := runGame_fast_going w2 197 m3r2
  have e2 : runGame 198 (s3r2.game) = runGame 197 (s3r3.game) := x2.1
  have w3 : FastGame.WF s3r3 := x2.2
  have x3 := runGame_fast_going w3 196 m3r3
  have e3 : runGame 197 (s3r3.game) = runGame 196 (s3r4.game) := x3.1
  have w4 : FastGame.WF s3r4 := x3.2
  have x4 := runGame_fast_going w4 195 m3r4
  have e4 : runGame 196 (s3r4.game) = runGame 195 (s3r5.game) := x4.1
  have w5 : FastGame.WF s3r5 := x4.2
  have x5 := runGame_fast_going w5 194 m3r5
  have e5 : runGame 195 (s3r5.game) = runGame 194 (s3r6.game) := x5.1
  have w6 : FastGame.WF s3r6 := x5.2
  have x6 := runGame_fast_going w6 193 m3r6
  have e6 : runGame 194 (s3r6.game) = runGame 193 (s3r7.game) := x6.1
  have w7 : FastGame.WF s3r7 := x6.2
  have x7 := runGame_fast_going w7 192 m3r7
  have e7 : runGame 193 (s3r7.game) = runGame 192 (s3r8.game) := x7.1
  have w8 : FastGame.WF s3r8 := x7.2
  have x8 := runGame_fast_going w8 191 m3r8
  have e8 : runGame 192 (s3r8.game) = runGame 191 (s3r9.game) := x8.1
  have w9 : FastGame.WF s3r9 := x8.2
  have x9 := runGame_fast_going w9 190 m3r9
  have e9 : runGame 191 (s3r9.game) = runGame 190 (s3r10.game) := x9.1
  have w10 : FastGame.WF s3r10 := x9.2
  have x10 := runGame_fast_going w10 189 m3r10
  have e10 : runGame 190 (s3r10.game) = runGame 189 (s3r11.game) := x10.1
  have w11 : FastGame.WF s3r11 := x10.2
  have x11 := runGame_fast_going w11 188 m3r11
  have e11 : runGame 189 (s3r11.game) = runGame 188 (s3r12.game) := x11.1
  have w12 : FastGame.WF s3r12 := x11.2
  have x12 := runGame_fast_going w12 187 m3r12
  have e12 : runGame 188 (s3r12.game) = runGame 187 (s3r13.game) := x12.1
  have w13 : FastGame.WF s3r13 := x12.2
  have x13 := runGame_fast_going w13 186 m3r13
  have e13 : runGame 187 (s3r13.game) = runGame 186 (s3r14.game) := x13.1
  have w14 : FastGame.WF s3r14 := x13.2
  have x14 := runGame_fast_going w14 185 m3r14
  have e14 : runGame 186 (s3r14.game) = runGame 185 (s3r15.game) := x14.1
  have w15 : FastGame.WF s3r15 := x14.2
  have x15 := runGame_fast_going w15 184 m3r15
  have e15 : runGame 185 (s3r15.game) = runGame 184 (s3r16.game) := x15.1
  have w16 : FastGame.WF s3r16 := x15.2
  have x16 := runGame_fast_going w16 183 m3r16
  have e16 : runGame 184 (s3r16.game) = runGame 183 (s3r17.game) := x16.1
  have w17 : FastGame.WF s3r17 := x16.2
  have x17 := runGame_fast_going w17 182 m3r17
  have e17 : runGame 183 (s3r17.game) = runGame 182 (s3r18.game) := x17.1
  have w18 : FastGame.WF s3r18 := x17.2
  have x18 := runGame_fast_going w18 181 m3r18
  have e18 : runGame 182 (s3r18.game) = runGame 181 (s3r19.game) := x18.1
  have w19 : FastGame.WF s3r19 := x18.2
  have x19 := runGame_fast_going w19 180 m3r19
  have e19 : runGame 181 (s3r19.game) = runGame 180 (s3r20.game) := x19.1
  have w20 : FastGame.WF s3r20 := x19.2
  have x20 := runGame_fast_going w20 179 m3r20
  have e20 : runGame 180 (s3r20.game) = runGame 179 (s3r21.game) := x20.1
  have w21 : FastGame.WF s3r21 := x20.2
  have x21 := runGame_fast_going w21 178 m3r21
  have e21 : runGame 179 (s3r21.game) = runGame 178 (s3r22.game) := x21.1
  have w22 : FastGame.WF s3r22 := x21.2
  have x22 := runGame_fast_going w22 177 m3r22
  have e22 : runGame 178 (s3r22.game) = runGame 177 (s3r23.game) := x22.1
  have w23 : FastGame.WF s3r23 := x22.2
  have x23 := runGame_fast_going w23 176 m3r23
  have e23 : runGame 177 (s3r23.game) = runGame 176 (s3r24.game) := x23.1
  have w24 : FastGame.WF s3r24 := x23.2
  have x24 := runGame_fast_going w24 175 m3r24
  have e24 : runGame 176 (s3r24.game) = runGame 175 (s3r25.game) := x24.1
  have w25 : FastGame.WF s3r25 := x24.2
  have x25 := runGame_fast_going w25 174 m3r25
  have e25 : runGame 175 (s3r25.game) = runGame 174 (s3r26.game) := x25.1
  have w26 : FastGame.WF s3r26 := x25.2
  have x26 := runGame_fast_going w26 173 m3r26
  have e26 : runGame 174 (s3r26.game) = runGame 173 (s3r27.game) := x26.1
  have w27 : FastGame.WF s3r27 := x26.2
  have x27 := runGame_fast_going w27 172 m3r27
  have e27 : runGame 173 (s3r27.game) = runGame 172 (s3r28.game) := x27.1
  have w28 : FastGame.WF s3r28 := x27.2
  have x28 := runGame_fast_going w28 171 m3r28
  have e28 : runGame 172 (s3r28.game) = runGame 171 (s3r29.game) := x28.1
  have w29 : FastGame.WF s3r29 := x28.2
  have x29 := runGame_fast_going w29 170 m3r29
  have e29 : runGame 171 (s3r29.game) = runGame 170 (s3r30.game) := x29.1
  have w30 : FastGame.WF s3r30 := x29.2
  have x30 := runGame_fast_going w30 169 m3r30
  have e30 : runGame 170 (s3r30.game) = runGame 169 (s3r31.game) := x30.1
  have w31 : FastGame.WF s3r31 := x30.2
  have x31 := runGame_fast_going w31 168 m3r31
  have e31 : runGame 169 (s3r31.game) = runGame 168 (s3r32.game) := x31.1
  have w32 : FastGame.WF s3r32 := x31.2
  have x32 := runGame_fast_going w32 167 m3r32
  have e32 : runGame 168 (s3r32.game) = runGame 167 (s3r33.game) := x32.1
  have w33 : FastGame.WF s3r33 := x32.2
  have x33 := runGame_fast_going w33 166 m3r33
  have e33 : runGame 167 (s3r33.game) = runGame 166 (s3r34.game) := x33.1
  have w34 : FastGame.WF s3r34 := x33.2
  have x34 := runGame_fast_going w34 165 m3r34
  have e34 : runGame 166 (s3r34.game) = runGame 165 (s3r35.game) := x34.1
  have w35 : FastGame.WF s3r35 := x34.2
  have x35 := runGame_fast_going w35 164 m3r35
  have e35 : runGame 165 (s3r35.game) = runGame 164 (s3r36.game) := x35.1
  have w36 : FastGame.WF s3r36 := x35.2
  have x36 := runGame_fast_going w36 163 m3r36
  have e36 : runGame 164 (s3r36.game) = runGame 163 (s3r37.game) := x36.1
  have w37 : FastGame.WF s3r37 := x36.2
  have x37 := runGame_fast_going w37 162 m3r37
  have e37 : runGame 163 (s3r37.game) = runGame 162 (s3r38.game) := x37.1
  have w38 : FastGame.WF s3r38 := x37.2
  have x38 := runGame_fast_going w38 161 m3r38
  have e38 : runGame 162 (s3r38.game) = runGame 161 (s3r39.game) := x38.1
  have w39 : FastGame.WF s3r39 := x38.2
  have x39 := runGame_fast_going w39 160 m3r39
  have e39 : runGame 161 (s3r39.game) = runGame 160 (s3r40.game) := x39.1
  have w40 : FastGame.WF s3r40 := x39.2
  have x40 := runGame_fast_going w40 159 m3r40
  have e40 : runGame 160 (s3r40.game) = runGame 159 (s3r41.game) := x40.1
  have w41 : FastGame.WF s3r41 := x40.2
  have x41 := runGame_fast_going w41 158 m3r41
  have e41 : runGame 159 (s3r41.game) = runGame 158 (s3r42.game) := x41.1
  have w42 : FastGame.WF s3r42 := x41.2
  have x42 := runGame_fast_going w42 157 m3r42
  have e42 : runGame 158 (s3r42.game) = runGame 157 (s3r43.game) := x42.1
  have w43 : FastGame.WF s3r43 := x42.2
  have x43 := runGame_fast_going w43 156 m3r43
  have e43 : runGame 157 (s3r43.game) = runGame 156 (s3r44.game) := x43.1
  have w44 : FastGame.WF s3r44 := x43.2
  have x44 := runGame_fast_going w44 155 m3r44
  have e44 : runGame 156 (s3r44.game) = runGame 155 (s3r45.game) := x44.1
  have w45 : FastGame.WF s3r45 := x44.2
  have x45 := runGame_fast_going w45 154 m3r45
  have e45 : runGame 155 (s3r45.game) = runGame 154 (s3r46.game) := x45.1
  have w46 : FastGame.WF s3r46 := x45.2
  have x46 := runGame_fast_going w46 153 m3r46
  have e46 : runGame 154 (s3r46.game) = runGame 153 (s3r47.game) := x46.1
  have w47 : FastGame.WF s3r47 := x46.2
  have efin : runGame 153 (s3r47.game) = .ok (s3r48.game) := runGame_fast_over w47 152 m3r47
  rw [e0, e1, e2, e3, e4, e5, e6, e7, e8, e9, e10, e11, e12, e13, e14, e15, e16, e17, e18, e19, e20, e21, e22, e23, e24, e25, e26, e27, e28, e29, e30, e31, e32, e33, e34, e35, e36, e37, e38, e39, e40, e41, e42, e43, e44, e45, e46, efin]

theorem playp3 : playGame combat1 3 200 = .ok (s3r48.game) := by
  show (Board.with_elven_power combat1 3 >>= fun b => runGame 200 (Game.from_board b)) = _
  have hb : Board.with_elven_power combat1 3 = .ok (s3r0.game.board) := by decide!
  rw [hb, ebind_ok]
  have hg : Game.from_board (s3r0.game.board) = s3r0.game := by decide!
  rw [hg]
  exact runp3

theorem runp4 : runGame 200 (s4r0.game) = .ok (s4r48.game) := by
  have w0 : FastGame.WF s4r0 := ⟨by decide!, by decide!, by decide!, by decide!, by decide!⟩
  have x0 := runGame_fast_going w0 199 m4r0
  have e0 : runGame 200 (s4r0.game) = runGame 199 (s4r1.game) := x0.1
  have w1 : FastGame.WF s4r1 := x0.2
  have x1 := runGame_fast_going w1 198 m4r1
  have e1 : runGame 199 (s4r1.game) = runGame 198 (s4r2.game) := x1.1
  have w2 : FastGame.WF s4r2 := x1.2
  have x2 := runGame_fast_going w2 197 m4r2
  have e2 : runGame 198 (s4r2.game) = runGame 197 (s4r3.game) := x2.1
  have w3 : FastGame.WF s4r3 := x2.2
  have x3 := runGame_fast_going w3 196 m4r3
  have e3 : runGame 197 (s4r3.game) = runGame 196 (s4r4.game) := x3.1
  have w4 : FastGame.WF s4r4 := x3.2
  have x4 := runGame_fast_going w4 195 m4r4
  have e4 : runGame 196 (s4r4.game) = runGame 195 (s4r5.game) := x4.1
  have w5 : FastGame.WF s4r5 := x4.2
  have x5 := runGame_fast_going w5 194 m4r5
  have e5 : runGame 195 (s4r5.game) = runGame 194 (s4r6.game) := x5.1
  have w6 : FastGame.WF s4r6 := x5.2
  have x6 := runGame_fast_going w6 193 m4r6
  have e6 : runGame 194 (s4r6.game) = runGame 193 (s4r7.game) := x6.1
  have w7 : FastGame.WF s4r7 := x6.2
  have x7 := runGame_fast_going w7 192 m4r7
  have e7 : runGame 193 (s4r7.game) = runGame 192 (s4r8.game) := x7.1
  have w8 : FastGame.WF s4r8 := x7.2
  have x8 := runGame_fast_going w8 191 m4r8
  have e8 : runGame 192 (s4r8.game) = runGame 191 (s4r9.game) := x8.1
  have w9 : FastGame.WF s4r9 := x8.2
  have x9 := runGame_fast_going w9 190 m4r9
  have e9 : runGame 191 (s4r9.game) = runGame 190 (s4r10.game) := x9.1
  have w10 : FastGame.WF s4r10 := x9.2
  have x10 := runGame_fast_going w10 189 m4r10
  have e10 : runGame 190 (s4r10.game) = runGame 189 (s4r11.game) := x10.1
  have w11 : FastGame.WF s4r11 := x10.2
  have x11 := runGame_fast_going w11 188 m4r11
  have e11 : runGame 189 (s4r11.game) = runGame 188 (s4r12.game) := x11.1
  have w12 : FastGame.WF s4r12 := x11.2
  have x12 := runGame_fast_going w12 187 m4r12
  have e12 : runGame 188 (s4r12.game) = runGame 187 (s4r13.game) := x12.1
  have w13 : FastGame.WF s4r13 := x12.2
  have x13 := runGame_fast_going w13 186 m4r13
  have e13 : runGame 187 (s4r13.game) = runGame 186 (s4r14.game) := x13.1
  have w14 : FastGame.WF s4r14 := x13.2
  have x14 := runGame_fast_going w14 185 m4r14
  have e14 : runGame 186 (s4r14.game) = runGame 185 (s4r15.game) := x14.1
  have w15 : FastGame.WF s4r15 := x14.2
  have x15 := runGame_fast_going w15 184 m4r15
  have e15 : runGame 185 (s4r15.game) = runGame 184 (s4r16.game) := x15.1
  have w16 : FastGame.WF s4r16 := x15.2
  have x16 := runGame_fast_going w16 183 m4r16
  have e16 : runGame 184 (s4r16.game) = runGame 183 (s4r17.game) := x16.1
  have w17 : FastGame.WF s4r17 := x16.2
  have x17 := runGame_fast_going w17 182 m4r17
  have e17 : runGame 183 (s4r17.game) = runGame 182 (s4r18.game) := x17.1
  have w18 : FastGame.WF s4r18 := x17.2
  have x18 := runGame_fast_going w18 181 m4r18
  have e18 : runGame 182 (s4r18.game) = runGame 181 (s4r19.game) := x18.1
  have w19 : FastGame.WF s4r19 := x18.2
  have x19 := runGame_fast_going w19 180 m4r19
  have e19 : runGame 181 (s4r19.game) = runGame 180 (s4r20.game) := x19.1
  have w20 : FastGame.WF s4r20 := x19.2
  have x20 := runGame_fast_going w20 179 m4r20
  have e20 : runGame 180 (s4r20.game) = runGame 179 (s4r21.game) := x20.1
  have w21 : FastGame.WF s4r21 := x20.2
  have x21 := runGame_fast_going w21 178 m4r21
  have e21 : runGame 179 (s4r21.game) = runGame 178 (s4r22.game) := x21.1
  have w22 : FastGame.WF s4r22 := x21.2
  have x22 := runGame_fast_going w22 177 m4r22
  have e22 : runGame 178 (s4r22.game) = runGame 177 (s4r23.game) := x22.1
  have w23 : FastGame.WF s4r23 := x22.2
  have x23 := runGame_fast_going w23 176 m4r23
  have e23 : runGame 177 (s4r23.game) = runGame 176 (s4r24.game) := x23.1
  have w24 : FastGame.WF s4r24 := x23.2
  have x24 := runGame_fast_going w24 175 m4r24
  have e24 : runGame 176 (s4r24.game) = runGame 175 (s4r25.game) := x24.1
  have w25 : FastGame.WF s4r25 := x24.2
  have x25 := runGame_fast_going w25 174 m4r25
  have e25 : runGame 175 (s4r25.game) = runGame 174 (s4r26.game) := x25.1
  have w26 : FastGame.WF s4r26 := x25.2
  have x26 := runGame_fast_going w26 173 m4r26
  have e26 : runGame 174 (s4r26.game) = runGame 173 (s4r27.game) := x26.1
  have w27 : FastGame.WF s4r27 := x26.2
  have x27 := runGame_fast_going w27 172 m4r27
  have e27 : runGame 173 (s4r27.game) = runGame 172 (s4r28.game) := x27.1
  have w28 : FastGame.WF s4r28 := x27.2
  have x28 := runGame_fast_going w28 171 m4r28
  have e28 : runGame 172 (s4r28.game) = runGame 171 (s4r29.game) := x28.1
  have w29 : FastGame.WF s4r29 := x28.2
  have x29 := runGame_fast_going w29 170 m4r29
  have e29 : runGame 171 (s4r29.game) = runGame 170 (s4r30.game) := x29.1
  have w30 : FastGame.WF s4r30 := x29.2
  have x30 := runGame_fast_going w30 169 m4r30
  have e30 : runGame 170 (s4r30.game) = runGame 169 (s4r31.game) := x30.1
  have w31 : FastGame.WF s4r31 := x30.2
  have x31 := runGame_fast_going w31 168 m4r31
  have e31 : runGame 169 (s4r31.game) = runGame 168 (s4r32.game) := x31.1
  have w32 : FastGame.WF s4r32 := x31.2
  have x32 := runGame_fast_going w32 167 m4r32
  have e32 : runGame 168 (s4r32.game) = runGame 167 (s4r33.game) := x32.1
  have w33 : FastGame.WF s4r33 := x32.2
  have x33 := runGame_fast_going w33 166 m4r33
  have e33 : runGame 167 (s4r33.game) = runGame 166 (s4r34.game) := x33.1
  have w34 : FastGame.WF s4r34 := x33.2
  have x34 := runGame_fast_going w34 165 m4r34
  have e34 : runGame 166 (s4r34.game) = runGame 165 (s4r35.game) := x34.1
  have w35 : FastGame.WF s4r35 := x34.2
  have x35 := runGame_fast_going w35 164 m4r35
  have e35 : runGame 165 (s4r35.game) = runGame 164 (s4r36.game) := x35.1
  have w36 : FastGame.WF s4r36 := x35.2
  have x36 := runGame_fast_going w36 163 m4r36
  have e36 : runGame 164 (s4r36.game) = runGame 163 (s4r37.game) := x36.1
  have w37 : FastGame.WF s4r37 := x36.2
  have x37 := runGame_fast_going w37 162 m4r37
  have e37 : runGame 163 (s4r37.game) = runGame 162 (s4r38.game) := x37.1
  have w38 : FastGame.WF s4r38 := x37.2
  have x38 := runGame_fast_going w38 161 m4r38
  have e38 : runGame 162 (s4r38.game) = runGame 161 (s4r39.game) := x38.1
  have w39 : FastGame.WF s4r39 := x38.2
  have x39 := runGame_fast_going w39 160 m4r39
  have e39 : runGame 161 (s4r39.game) = runGame 160 (s4r40.game) := x39.1
  have w40 : FastGame.WF s4r40 := x39.2
  have x40 := runGame_fast_going w40 159 m4r40
  have e40 : runGame 160 (s4r40.game) = runGame 159 (s4r41.game) := x40.1
  have w41 : FastGame.WF s4r41 := x40.2
  have x41 := runGame_fast_going w41 158 m4r41
  have e41 : runGame 159 (s4r41.game) = runGame 158 (s4r42.game) := x41.1
  have w42 : FastGame.WF s4r42 := x41.2
  have x42 := runGame_fast_going w42 157 m4r42
  have e42 : runGame 158 (s4r42.game) = runGame 157 (s4r43.game) := x42.1
  have w43 : FastGame.WF s4r43 := x42.2
  have x43 := runGame_fast_going w43 156 m4r43
  have e43 : runGame 157 (s4r43.game) = runGame 156 (s4r44.game) := x43.1
  have w44 : FastGame.WF s4r44 := x43.2
  have x44 := runGame_fast_going w44 155 m4r44
  have e44 : runGame 156 (s4r44.game) = runGame 155 (s4r45.game) := x44.1
  have w45 : FastGame.WF s4r45 := x44.2
  have x45 := runGame_fast_going w45 154 m4r45
  have e45 : runGame 155 (s4r45.game) = runGame 154 (s4r46.game) := x45.1
  have w46 : FastGame.WF s4r46 := x45.2
  have x46 := runGame_fast_going w46 153 m4r46
  have e46 : runGame 154 (s4r46.game) = runGame 153 (s4r47.game) := x46.1
  have w47 : FastGame.WF s4r47 := x46.2
  have efin : runGame 153 (s4r47.game) = .ok (s4r48.game) := runGame_fast_over w47 152 m4r47
  rw [e0, e1, e2, e3, e4, e5, e6, e7, e8, e9, e10, e11, e12, e13, e14, e15, e16, e17, e18, e19, e20, e21, e22, e23, e24, e25, e26, e27, e28, e29, e30, e31, e32, e33, e34, e35, e36, e37, e38, e39, e40, e41, e42, e43, e44, e45, e46, efin]

theorem playp4 : playGame combat1 4 200 = .ok (s4r48.game) := by
  show (Board.with_elven_power combat1 4 >>= fun b => runGame 200 (Game.from_board b)) = _
  have hb : Board.with_elven_power combat1 4 = .ok (s4r0.game.board) := by decide!
  rw [hb, ebind_ok]
  have hg : Game.from_board (s4r0.game.board) = s4r0.game := by decide!
  rw [hg]
  exact runp4

theorem runp5 : runGame 200 (s5r0.game) = .ok (s5r49.game) := by
  have w0 : FastGame.WF s5r0 := ⟨by decide!, by decide!, by decide!, by decide!, by decide!⟩
  have x0 := runGame_fast_going w0 199 m5r0
  have e0 : runGame 200 (s5r0.game) = runGame 199 (s5r1.game) := x0.1
  have w1 : FastGame.WF s5r1 := x0.2
  have x1 := runGame_fast_going w1 198 m5r1
  have e1 : runGame 199 (s5r1.game) = runGame 198 (s5r2.game) := x1.1
  have w2 : FastGame.WF s5r2 := x1.2
  have x2 := runGame_fast_going w2 197 m5r2
  have e2 : runGame 198 (s5r2.game) = runGame 197 (s5r3.game) := x2.1
  have w3 : FastGame.WF s5r3 := x2.2
  have x3 := runGame_fast_going w3 196 m5r3
  have e3 : runGame 197 (s5r3.game) = runGame 196 (s5r4.game) := x3.1
  have w4 : FastGame.WF s5r4 := x3.2
  have x4 := runGame_fast_going w4 195 m5r4
  have e4 : runGame 196 (s5r4.game) = runGame 195 (s5r5.game) := x4.1
  have w5 : FastGame.WF s5r5 := x4.2
  have x5 := runGame_fast_going w5 194 m5r5
  have e5 : runGame 195 (s5r5.game) = runGame 194 (s5r6.game) := x5.1
  have w6 : FastGame.WF s5r6 := x5.2
  have x6 := runGame_fast_going w6 193 m5r6
  have e6 : runGame 194 (s5r6.game) = runGame 193 (s5r7.game) := x6.1
  have w7 : FastGame.WF s5r7 := x6.2
  have x7 := runGame_fast_going w7 192 m5r7
  have e7 : runGame 193 (s5r7.game) = runGame 192 (s5r8.game) := x7.1
  have w8 : FastGame.WF s5r8 := x7.2
  have x8 := runGame_fast_going w8 191 m5r8
  have e8 : runGame 192 (s5r8.game) = runGame 191 (s5r9.game) := x8.1
  have w9 : FastGame.WF s5r9 := x8.2
  have x9 := runGame_fast_going w9 190 m5r9
  have e9 : runGame 191 (s5r9.game) = runGame 190 (s5r10.game) := x9.1
  have w10 : FastGame.WF s5r10 := x9.2
  have x10 := runGame_fast_going w10 189 m5r10
  have e10 : runGame 190 (s5r10.game) = runGame 189 (s5r11.game) := x10.1
  have w11 : FastGame.WF s5r11 := x10.2
  have x11 := runGame_fast_going w11 188 m5r11
  have e11 : runGame 189 (s5r11.game) = runGame 188 (s5r12.game) := x11.1
  have w12 : FastGame.WF s5r12 := x11.2
  have x12 := runGame_fast_going w12 187 m5r12
  have e12 : runGame 188 (s5r12.game) = runGame 187 (s5r13.game) := x12.1
  have w13 : FastGame.WF s5r13 := x12.2
  have x13 := runGame_fast_going w13 186 m5r13
  have e13 : runGame 187 (s5r13.game) = runGame 186 (s5r14.game) := x13.1
  have w14 : FastGame.WF s5r14 := x13.2
  have x14 := runGame_fast_going w14 185 m5r14
  have e14 : runGame 186 (s5r14.game) = runGame 185 (s5r15.game) := x14.1
  have w15 : FastGame.WF s5r15 := x14.2
  have x15 := runGame_fast_going w15 184 m5r15
  have e15 : runGame 185 (s5r15.game) = runGame 184 (s5r16.game) := x15.1
  have w16 : FastGame.WF s5r16 := x15.2
  have x16 := runGame_fast_going w16 183 m5r16
  have e16 : runGame 184 (s5r16.game) = runGame 183 (s5r17.game) := x16.1
  have w17 : FastGame.WF s5r17 := x16.2
  have x17 := runGame_fast_going w17 182 m5r17
  have e17 : runGame 183 (s5r17.game) = runGame 182 (s5r18.game) := x17.1
  have w18 : FastGame.WF s5r18 := x17.2
  have x18 := runGame_fast_going w18 181 m5r18
  have e18 : runGame 182 (s5r18.game) = runGame 181 (s5r19.game) := x18.1
  have w19 : FastGame.WF s5r19 := x18.2
  have x19 := runGame_fast_going w19 180 m5r19
  have e19 : runGame 181 (s5r19.game) = runGame 180 (s5r20.game) := x19.1
  have w20 : FastGame.WF s5r20 := x19.2
  have x20 := runGame_fast_going w20 179 m5r20
  have e20 : runGame 180 (s5r20.game) = runGame 179 (s5r21.game) := x20.1
  have w21 : FastGame.WF s5r21 := x20.2
  have x21 := runGame_fast_going w21 178 m5r21
  have e21 : runGame 179 (s5r21.game) = runGame 178 (s5r22.game) := x21.1
  have w22 : FastGame.WF s5r22 := x21.2
  have x22 := runGame_fast_going w22 177 m5r22
  have e22 : runGame 178 (s5r22.game) = runGame 177 (s5r23.game) := x22.1
  have w23 : FastGame.WF s5r23 := x22.2
  have x23 := runGame_fast_going w23 176 m5r23
  have e23 : runGame 177 (s5r23.game) = runGame 176 (s5r24.game) := x23.1
  have w24 : FastGame.WF s5r24 := x23.2
  have x24 := runGame_fast_going w24 175 m5r24
  have e24 : runGame 176 (s5r24.game) = runGame 175 (s5r25.game) := x24.1
  have w25 : FastGame.WF s5r25 := x24.2
  have x25 := runGame_fast_going w25 174 m5r25
  have e25 : runGame 175 (s5r25.game) = runGame 174 (s5r26.game) := x25.1
  have w26 : FastGame.WF s5r26 := x25.2
  have x26 := runGame_fast_going w26 173 m5r26
  have e26 : runGame 174 (s5r26.game) = runGame 173 (s5r27.game) := x26.1
  have w27 : FastGame.WF s5r27 := x26.2
  have x27 := runGame_fast_going w27 172 m5r27
  have e27 : runGame 173 (s5r27.game) = runGame 172 (s5r28.game) := x27.1
  have w28 : FastGame.WF s5r28 := x27.2
  have x28 := runGame_fast_going w28 171 m5r28
  have e28 : runGame 172 (s5r28.game) = runGame 171 (s5r29.game) := x28.1
  have w29 : FastGame.WF s5r29 := x28.2
  have x29 := runGame_fast_going w29 170 m5r29
  have e29 : runGame 171 (s5r29.game) = runGame 170 (s5r30.game) := x29.1
  have w30 : FastGame.WF s5r30 := x29.2
  have x30 := runGame_fast_going w30 169 m5r30
  have e30 : runGame 170 (s5r30.game) = runGame 169 (s5r31.game) := x30.1
  have w31 : FastGame.WF s5r31 := x30.2
  have x31 := runGame_fast_going w31 168 m5r31
  have e31 : runGame 169 (s5r31.game) = runGame 168 (s5r32.game) := x31.1
  have w32 : FastGame.WF s5r32 := x31.2
  have x32 := runGame_fast_going w32 167 m5r32
  have e32 : runGame 168 (s5r32.game) = runGame 167 (s5r33.game) := x32.1
  have w33 : FastGame.WF s5r33 := x32.2
  have x33 := runGame_fast_going w33 166 m5r33
  have e33 : runGame 167 (s5r33.game) = runGame 166 (s5r34.game) := x33.1
  have w34 : FastGame.WF s5r34 := x33.2
  have x34 := runGame_fast_going w34 165 m5r34
  have e34 : runGame 166 (s5r34.game) = runGame 165 (s5r35.game) := x34.1
  have w35 : FastGame.WF s5r35 := x34.2
  have x35 := runGame_fast_going w35 164 m5r35
  have e35 : runGame 165 (s5r35.game) = runGame 164 (s5r36.game) := x35.1
  have w36 : FastGame.WF s5r36 := x35.2
  have x36 := runGame_fast_going w36 163 m5r36
  have e36 : runGame 164 (s5r36.game) = runGame 163 (s5r37.game) := x36.1
  have w37 : FastGame.WF s5r37 := x36.2
  have x37 := runGame_fast_going w37 162 m5r37
  have e37 : runGame 163 (s5r37.game) = runGame 162 (s5r38.game) := x37.1
  have w38 : FastGame.WF s5r38 := x37.2
  have x38 := runGame_fast_going w38 161 m5r38
  have e38 : runGame 162 (s5r38.game) = runGame 161 (s5r39.game) := x38.1
  have w39 : FastGame.WF s5r39 := x38.2
  have x39 := runGame_fast_going w39 160 m5r39
  have e39 : runGame 161 (s5r39.game) = runGame 160 (s5r40.game) := x39.1
  have w40 : FastGame.WF s5r40 := x39.2
  have x40 := runGame_fast_going w40 159 m5r40
  have e40 : runGame 160 (s5r40.game) = runGame 159 (s5r41.game) := x40.1
  have w41 : FastGame.WF s5r41 := x40.2
  have x41 := runGame_fast_going w41 158 m5r41
  have e41 : runGame 159 (s5r41.game) = runGame 158 (s5r42.game) := x41.1
  have w42 : FastGame.WF s5r42 := x41.2
  have x42 := runGame_fast_going w42 157 m5r42
  have e42 : runGame 158 (s5r42.game) = runGame 157 (s5r43.game) := x42.1
  have w43 : FastGame.WF s5r43 := x42.2
  have x43 := runGame_fast_going w43 156 m5r43
  have e43 : runGame 157 (s5r43.game) = runGame 156 (s5r44.game) := x43.1
  have w44 : FastGame.WF s5r44 := x43.2
  have x44 := runGame_fast_going w44 155 m5r44
  have e44 : runGame 156 (s5r44.game) = runGame 155 (s5r45.game) := x44.1
  have w45 : FastGame.WF s5r45 := x44.2
  have x45 := runGame_fast_going w45 154 m5r45
  have e45 : runGame 155 (s5r45.game) = runGame 154 (s5r46.game) := x45.1
  have w46 : FastGame.WF s5r46 := x45.2
  have x46 := runGame_fast_going w46 153 m5r46
  have e46 : runGame 154 (s5r46.game) = runGame 153 (s5r47.game) := x46.1
  have w47 : FastGame.WF s5r47 := x46.2
  have x47 := runGame_fast_going w47 152 m5r47
  have e47 : runGame 153 (s5r47.game) = runGame 152 (s5r48.game) := x47.1
  have w48 : FastGame.WF s5r48 := x47.2
  have efin : runGame 152 (s5r48.game) = .ok (s5r49.game) := runGame_fast_over w48 151 m5r48
  rw [e0, e1, e2, e3, e4, e5, e6, e7, e8, e9, e10, e11, e12, e13, e14, e15, e16, e17, e18, e19, e20, e21, e22, e23, e24, e25, e26, e27, e28, e29, e30, e31, e32, e33, e34, e35, e36, e37, e38, e39, e40, e41, e42, e43, e44, e45, e46, e47, efin]

theorem playp5 : playGame combat1 5 200 = .ok (s5r49.game) := by
  show (Board.with_elven_power combat1 5 >>= fun b => runGame 200 (Game.from_board b)) = _
  have hb : Board.with_elven_power combat1 5 = .ok (s5r0.game.board) := by decide!
  rw [hb, ebind_ok]
  have hg : Game.from_board (s5r0.game.board) = s5r0.game := by decide!
  rw [hg]
  exact runp5

theorem runp6 : runGame 200 (s6r0.game) = .ok (s6r50.game) := by
  have w0 : FastGame.WF s6r0 := ⟨by decide!, by decide!, by decide!, by decide!, by decide!⟩
  have x0 := runGame_fast_going w0 199 m6r0
  have e0 : runGame 200 (s6r0.game) = runGame 199 (s6r1.game) := x0.1
  have w1 : FastGame.WF s6r1 := x0.2
  have x1 := runGame_fast_going w1 198 m6r1
  have e1 : runGame 199 (s6r1.game) = runGame 198 (s6r2.game) := x1.1
  have w2 : FastGame.WF s6r2 := x1.2
  have x2 := runGame_fast_going w2 197 m6r2
  have e2 : runGame 198 (s6r2.game) = runGame 197 (s6r3.game) := x2.1
  have w3 : FastGame.WF s6r3 := x2.2
  have x3 := runGame_fast_going w3 196 m6r3
  have e3 : runGame 197 (s6r3.game) = runGame 196 (s6r4.game) := x3.1
  have w4 : FastGame.WF s6r4 := x3.2
  have x4 := runGame_fast_going w4 195 m6r4
  have e4 : runGame 196 (s6r4.game) = runGame 195 (s6r5.game) := x4.1
  have w5 : FastGame.WF s6r5 := x4.2
  have x5 := runGame_fast_going w5 194 m6r5
  have e5 : runGame 195 (s6r5.game) = runGame 194 (s6r6.game) := x5.1
  have w6 : FastGame.WF s6r6 := x5.2
  have x6 := runGame_fast_going w6 193 m6r6
  have e6 : runGame 194 (s6r6.game) = runGame 193 (s6r7.game) := x6.1
  have w7 : FastGame.WF s6r7 := x6.2
  have x7 := runGame_fast_going w7 192 m6r7
  have e7 : runGame 193 (s6r7.game) = runGame 192 (s6r8.game) := x7.1
  have w8 : FastGame.WF s6r8 := x7.2
  have x8 := runGame_fast_going w8 191 m6r8
  have e8 : runGame 192 (s6r8.game) = runGame 191 (s6r9.game) := x8.1
  have w9 : FastGame.WF s6r9 := x8.2
  have x9 := runGame_fast_going w9 190 m6r9
  have e9 : runGame 191 (s6r9.game) = runGame 190 (s6r10.game) := x9.1
  have w10 : FastGame.WF s6r10 := x9.2
  have x10 := runGame_fast_going w10 189 m6r10
  have e10 : runGame 190 (s6r10.game) = runGame 189 (s6r11.game) := x10.1
  have w11 : FastGame.WF s6r11 := x10.2
  have x11 := runGame_fast_going w11 188 m6r11
  have e11 : runGame 189 (s6r11.game) = runGame 188 (s6r12.game) := x11.1
  have w12 : FastGame.WF s6r12 := x11.2
  have x12 := runGame_fast_going w12 187 m6r12
  have e12 : runGame 188 (s6r12.game) = runGame 187 (s6r13.game) := x12.1
  have w13 : FastGame.WF s6r13 := x12.2
  have x13 := runGame_fast_going w13 186 m6r13
  have e13 : runGame 187 (s6r13.game) = runGame 186 (s6r14.game) := x13.1
  have w14 : FastGame.WF s6r14 := x13.2
  have x14 := runGame_fast_going w14 185 m6r14
  have e14 : runGame 186 (s6r14.game) = runGame 185 (s6r15.game) := x14.1
  have w15 : FastGame.WF s6r15 := x14.2
  have x15 := runGame_fast_going w15 184 m6r15
  have e15 : runGame 185 (s6r15.game) = runGame 184 (s6r16.game) := x15.1
  have w16 : FastGame.WF s6r16 := x15.2
  have x16 := runGame_fast_going w16 183 m6r16
  have e16 : runGame 184 (s6r16.game) = runGame 183 (s6r17.game) := x16.1
  have w17 : FastGame.WF s6r17 := x16.2
  have x17 := runGame_fast_going w17 182 m6r17
  have e17 : runGame 183 (s6r17.game) = runGame 182 (s6r18.game) := x17.1
  have w18 : FastGame.WF s6r18 := x17.2
  have x18 := runGame_fast_going w18 181 m6r18
  have e18 : runGame 182 (s6r18.game) = runGame 181 (s6r19.game) := x18.1
  have w19 : FastGame.WF s6r19 := x18.2
  have x19 := runGame_fast_going w19 180 m6r19
  have e19 : runGame 181 (s6r19.game) = runGame 180 (s6r20.game) := x19.1
  have w20 : FastGame.WF s6r20 := x19.2
  have x20 := runGame_fast_going w20 179 m6r20
  have e20 : runGame 180 (s6r20.game) = runGame 179 (s6r21.game) := x20.1
  have w21 : FastGame.WF s6r21 := x20.2
  have x21 := runGame_fast_going w21 178 m6r21
  have e21 : runGame 179 (s6r21.game) = runGame 178 (s6r22.game) := x21.1
  have w22 : FastGame.WF s6r22 := x21.2
  have x22 := runGame_fast_going w22 177 m6r22
  have e22 : runGame 178 (s6r22.game) = runGame 177 (s6r23.game) := x22.1
  have w23 : FastGame.WF s6r23 := x22.2
  have x23 := runGame_fast_going w23 176 m6r23
  have e23 : runGame 177 (s6r23.game) = runGame 176 (s6r24.game) := x23.1
  have w24 : FastGame.WF s6r24 := x23.2
  have x24 := runGame_fast_going w24 175 m6r24
  have e24 : runGame 176 (s6r24.game) = runGame 175 (s6r25.game) := x24.1
  have w25 : FastGame.WF s6r25 := x24.2
  have x25 := runGame_fast_going w25 174 m6r25
  have e25 : runGame 175 (s6r25.game) = runGame 174 (s6r26.game) := x25.1
  have w26 : FastGame.WF s6r26 := x25.2
  have x26 := runGame_fast_going w26 173 m6r26
  have e26 : runGame 174 (s6r26.game) = runGame 173 (s6r27.game) := x26.1
  have w27 : FastGame.WF s6r27 := x26.2
  have x27 := runGame_fast_going w27 172 m6r27
  have e27 : runGame 173 (s6r27.game) = runGame 172 (s6r28.game) := x27.1
  have w28 : FastGame.WF s6r28 := x27.2
  have x28 := runGame_fast_going w28 171 m6r28
  have e28 : runGame 172 (s6r28.game) = runGame 171 (s6r29.game) := x28.1
  have w29 : FastGame.WF s6r29 := x28.2
  have x29 := runGame_fast_going w29 170 m6r29
  have e29 : runGame 171 (s6r29.game) = runGame 170 (s6r30.game) := x29.1
  have w30 : FastGame.WF s6r30 := x29.2
  have x30 := runGame_fast_going w30 169 m6r30
  have e30 : runGame 170 (s6r30.game) = runGame 169 (s6r31.game) := x30.1
  have w31 : FastGame.WF s6r31 := x30.2
  have x31 := runGame_fast_going w31 168 m6r31
  have e31 : runGame 169 (s6r31.game) = runGame 168 (s6r32.game) := x31.1
  have w32 : FastGame.WF s6r32 := x31.2
  have x32 := runGame_fast_going w32 167 m6r32
  have e32 : runGame 168 (s6r32.game) = runGame 167 (s6r33.game) := x32.1
  have w33 : FastGame.WF s6r33 := x32.2
  have x33 := runGame_fast_going w33 166 m6r33
  have e33 : runGame 167 (s6r33.game) = runGame 166 (s6r34.game) := x33.1
  have w34 : FastGame.WF s6r34 := x33.2
  have x34 := runGame_fast_going w34 165 m6r34
  have e34 : runGame 166 (s6r34.game) = runGame 165 (s6r35.game) := x34.1
  have w35 : FastGame.WF s6r35 := x34.2
  have x35 := runGame_fast_going w35 164 m6r35
  have e35 : runGame 165 (s6r35.game) = runGame 164 (s6r36.game) := x35.1
  have w36 : FastGame.WF s6r36 := x35.2
  have x36 := runGame_fast_going w36 163 m6r36
  have e36 : runGame 164 (s6r36.game) = runGame 163 (s6r37.game) := x36.1
  have w37 : FastGame.WF s6r37 := x36.2
  have x37 := runGame_fast_going w37 162 m6r37
  have e37 : runGame 163 (s6r37.game) = runGame 162 (s6r38.game) := x37.1
  have w38 : FastGame.WF s6r38 := x37.2
  have x38 := runGame_fast_going w38 161 m6r38
  have e38 : runGame 162 (s6r38.game) = runGame 161 (s6r39.game) := x38.1
  have w39 : FastGame.WF s6r39 := x38.2
  have x39 := runGame_fast_going w39 160 m6r39
  have e39 : runGame 161 (s6r39.game) = runGame 160 (s6r40.game) := x39.1
  have w40 : FastGame.WF s6r40 := x39.2
  have x40 := runGame_fast_going w40 159 m6r40
  have e40 : runGame 160 (s6r40.game) = runGame 159 (s6r41.game) := x40.1
  have w41 : FastGame.WF s6r41 := x40.2
  have x41 := runGame_fast_going w41 158 m6r41
  have e41 : runGame 159 (s6r41.game) = runGame 158 (s6r42.game) := x41.1
  have w42 : FastGame.WF s6r42 := x41.2
  have x42 := runGame_fast_going w42 157 m6r42
  have e42 : runGame 158 (s6r42.game) = runGame 157 (s6r43.game) := x42.1
  have w43 : FastGame.WF s6r43 := x42.2
  have x43 := runGame_fast_going w43 156 m6r43
  have e43 : runGame 157 (s6r43.game) = runGame 156 (s6r44.game) := x43.1
  have w44 : FastGame.WF s6r44 := x43.2
  have x44 := runGame_fast_going w44 155 m6r44
  have e44 : runGame 156 (s6r44.game) = runGame 155 (s6r45.game) := x44.1
  have w45 : FastGame.WF s6r45 := x44.2
  have x45 := runGame_fast_going w45 154 m6r45
  have e45 : runGame 155 (s6r45.game) = runGame 154 (s6r46.game) := x45.1
  have w46 : FastGame.WF s6r46 := x45.2
  have x46 := runGame_fast_going w46 153 m6r46
  have e46 : runGame 154 (s6r46.game) = runGame 153 (s6r47.game) := x46.1
  have w47 : FastGame.WF s6r47 := x46.2
  have x47 := runGame_fast_going w47 152 m6r47
  have e47 : runGame 153 (s6r47.game) = runGame 152 (s6r48.game) := x47.1
  have w48 : FastGame.WF s6r48 := x47.2
  have x48 := runGame_fast_going w48 151 m6r48
  have e48 : runGame 152 (s6r48.game) = runGame 151 (s6r49.game) := x48.1
  have w49 : FastGame.WF s6r49 := x48.2
  have efin : runGame 151 (s6r49.game) = .ok (s6r50.game) := runGame_fast_over w49 150 m6r49
  rw [e0, e1, e2, e3, e4, e5, e6, e7, e8, e9, e10, e11, e12, e13, e14, e15, e16, e17, e18, e19, e20, e21, e22, e23, e24, e25, e26, e27, e28, e29, e30, e31, e32, e33, e34, e35, e36, e37, e38, e39, e40, e41, e42, e43, e44, e45, e46, e47, e48, efin]

theorem playp6 : playGame combat1 6 200 = .ok (s6r50.game) := by
  show (Board.with_elven_power combat1 6 >>= fun b => runGame 200 (Game.from_board b)) = _
  have hb : Board.with_elven_power combat1 6 = .ok (s6r0.game.board) := by decide!
  rw [hb, ebind_ok]
  have hg : Game.from_board (s6r0.game.board) = s6r0.game := by decide!
  rw [hg]
  exact runp6

theorem runp7 : runGame 200 (s7r0.game) = .ok (s7r50.game) := by
  have w0 : FastGame.WF s7r0 := ⟨by decide!, by decide!, by decide!, by decide!, by decide!⟩
  have x0 := runGame_fast_going w0 199 m7r0
  have e0 : runGame 200 (s7r0.game) = runGame 199 (s7r1.game) := x0.1
  have w1 : FastGame.WF s7r1 := x0.2
  have x1 := runGame_fast_going w1 198 m7r1
  have e1 : runGame 199 (s7r1.game) = runGame 198 (s7r2.game) := x1.1
  have w2 : FastGame.WF s7r2 := x1.2
  have x2 := runGame_fast_going w2 197 m7r2
  have e2 : runGame 198 (s7r2.game) = runGame 197 (s7r3.game) := x2.1
  have w3 : FastGame.WF s7r3 := x2.2
  have x3 := runGame_fast_going w3 196 m7r3
  have e3 : runGame 197 (s7r3.game) = runGame 196 (s7r4.game) := x3.1
  have w4 : FastGame.WF s7r4 := x3.2
  have x4 := runGame_fast_going w4 195 m7r4
  have e4 : runGame 196 (s7r4.game) = runGame 195 (s7r5.game) := x4.1
  have w5 : FastGame.WF s7r5 := x4.2
  have x5 := runGame_fast_going w5 194 m7r5
  have e5 : runGame 195 (s7r5.game) = runGame 194 (s7r6.game) := x5.1
  have w6 : FastGame.WF s7r6 := x5.2
  have x6 := runGame_fast_going w6 193 m7r6
  have e6 : runGame 194 (s7r6.game) = runGame 193 (s7r7.game) := x6.1
  have w7 : FastGame.WF s7r7 := x6.2
  have x7 := runGame_fast_going w7 192 m7r7
  have e7 : runGame 193 (s7r7.game) = runGame 192 (s7r8.game) := x7.1
  have w8 : FastGame.WF s7r8 := x7.2
  have x8 := runGame_fast_going w8 191 m7r8
  have e8 : runGame 192 (s7r8.game) = runGame 191 (s7r9.game) := x8.1
  have w9 : FastGame.WF s7r9 := x8.2
  have x9 := runGame_fast_going w9 190 m7r9
  have e9 : runGame 191 (s7r9.game) = runGame 190 (s7r10.game) := x9.1
  have w10 : FastGame.WF s7r10 := x9.2
  have x10 := runGame_fast_going w10 189 m7r10
  have e10 : runGame 190 (s7r10.game) = runGame 189 (s7r11.game) := x10.1
  have w11 : FastGame.WF s7r11 := x10.2
  have x11 := runGame_fast_going w11 188 m7r11
  have e11 : runGame 189 (s7r11.game) = runGame 188 (s7r12.game) := x11.1
  have w12 : FastGame.WF s7r12 := x11.2
  have x12 := runGame_fast_going w12 187 m7r12
  have e12 : runGame 188 (s7r12.game) = runGame 187 (s7r13.game) := x12.1
  have w13 : FastGame.WF s7r13 := x12.2
  have x13 := runGame_fast_going w13 186 m7r13
  have e13 : runGame 187 (s7r13.game) = runGame 186 (s7r14.game) := x13.1
  have w14 : FastGame.WF s7r14 := x13.2
  have x14 := runGame_fast_going w14 185 m7r14
  have e14 : runGame 186 (s7r14.game) = runGame 185 (s7r15.game) := x14.1
  have w15 : FastGame.WF s7r15 := x14.2
  have x15 := runGame_fast_going w15 184 m7r15
  have e15 : runGame 185 (s7r15.game) = runGame 184 (s7r16.game) := x15.1
  have w16 : FastGame.WF s7r16 := x15.2
  have x16 := runGame_fast_going w16 183 m7r16
  have e16 : runGame 184 (s7r16.game) = runGame 183 (s7r17.game) := x16.1
  have w17 : FastGame.WF s7r17 := x16.2
  have x17 := runGame_fast_going w17 182 m7r17
  have e17 : runGame 183 (s7r17.game) = runGame 182 (s7r18.game) := x17.1
  have w18 : FastGame.WF s7r18 := x17.2
  have x18 := runGame_fast_going w18 181 m7r18
  have e18 : runGame 182 (s7r18.game) = runGame 181 (s7r19.game) := x18.1
  have w19 : FastGame.WF s7r19 := x18.2
  have x19 := runGame_fast_going w19 180 m7r19
  have e19 : runGame 181 (s7r19.game) = runGame 180 (s7r20.game) := x19.1
  have w20 : FastGame.WF s7r20 := x19.2
  have x20 := runGame_fast_going w20 179 m7r20
  have e20 : runGame 180 (s7r20.game) = runGame 179 (s7r21.game) := x20.1
  have w21 : FastGame.WF s7r21 := x20.2
  have x21 := runGame_fast_going w21 178 m7r21
  have e21 : runGame 179 (s7r21.game) = runGame 178 (s7r22.game) := x21.1
  have w22 : FastGame.WF s7r22 := x21.2
  have x22 := runGame_fast_going w22 177 m7r22
  have e22 : runGame 178 (s7r22.game) = runGame 177 (s7r23.game) := x22.1
  have w23 : FastGame.WF s7r23 := x22.2
  have x23 := runGame_fast_going w23 176 m7r23
  have e23 : runGame 177 (s7r23.game) = runGame 176 (s7r24.game) := x23.1
  have w24 : FastGame.WF s7r24 := x23.2
  have x24 := runGame_fast_going w24 175 m7r24
  have e24 : runGame 176 (s7r24.game) = runGame 175 (s7r25.game) := x24.1
  have w25 : FastGame.WF s7r25 := x24.2
  have x25 := runGame_fast_going w25 174 m7r25
  have e25 : runGame 175 (s7r25.game) = runGame 174 (s7r26.game) := x25.1
  have w26 : FastGame.WF s7r26 := x25.2
  have x26 := runGame_fast_going w26 173 m7r26
  have e26 : runGame 174 (s7r26.game) = runGame 173 (s7r27.game) := x26.1
  have w27 : FastGame.WF s7r27 := x26.2
  have x27 := runGame_fast_going w27 172 m7r27
  have e27 : runGame 173 (s7r27.game) = runGame 172 (s7r28.game) := x27.1
  have w28 : FastGame.WF s7r28 := x27.2
  have x28 := runGame_fast_going w28 171 m7r28
  have e28 : runGame 172 (s7r28.game) = runGame 171 (s7r29.game) := x28.1
  have w29 : FastGame.WF s7r29 := x28.2
  have x29 := runGame_fast_going w29 170 m7r29
  have e29 : runGame 171 (s7r29.game) = runGame 170 (s7r30.game) := x29.1
  have w30 : FastGame.WF s7r30 := x29.2
  have x30 := runGame_fast_going w30 169 m7r30
  have e30 : runGame 170 (s7r30.game) = runGame 169 (s7r31.game) := x30.1
  have w31 : FastGame.WF s7r31 := x30.2
  have x31 := runGame_fast_going w31 168 m7r31
  have e31 : runGame 169 (s7r31.game) = runGame 168 (s7r32.game) := x31.1
  have w32 : FastGame.WF s7r32 := x31.2
  have x32 := runGame_fast_going w32 167 m7r32
  have e32 : runGame 168 (s7r32.game) = runGame 167 (s7r33.game) := x32.1
  have w33 : FastGame.WF s7r33 := x32.2
  have x33 := runGame_fast_going w33 166 m7r33
  have e33 : runGame 167 (s7r33.game) = runGame 166 (s7r34.game) := x33.1
  have w34 : FastGame.WF s7r34 := x33.2
  have x34 := runGame_fast_going w34 165 m7r34
  have e34 : runGame 166 (s7r34.game) = runGame 165 (s7r35.game) := x34.1
  have w35 : FastGame.WF s7r35 := x34.2
  have x35 := runGame_fast_going w35 164 m7r35
  have e35 : runGame 165 (s7r35.game) = runGame 164 (s7r36.game) := x35.1
  have w36 : FastGame.WF s7r36 := x35.2
  have x36 := runGame_fast_going w36 163 m7r36
  have e36 : runGame 164 (s7r36.game) = runGame 163 (s7r37.game) := x36.1
  have w37 : FastGame.WF s7r37 := x36.2
  have x37 := runGame_fast_going w37 162 m7r37
  have e37 : runGame 163 (s7r37.game) = runGame 162 (s7r38.game) := x37.1
  have w38 : FastGame.WF s7r38 := x37.2
  have x38 := runGame_fast_going w38 161 m7r38
  have e38 : runGame 162 (s7r38.game) = runGame 161 (s7r39.game) := x38.1
  have w39 : FastGame.WF s7r39 := x38.2
  have x39 := runGame_fast_going w39 160 m7r39
  have e39 : runGame 161 (s7r39.game) = runGame 160 (s7r40.game) := x39.1
  have w40 : FastGame.WF s7r40 := x39.2
  have x40 := runGame_fast_going w40 159 m7r40
  have e40 : runGame 160 (s7r40.game) = runGame 159 (s7r41.game) := x40.1
  have w41 : FastGame.WF s7r41 := x40.2
  have x41 := runGame_fast_going w41 158 m7r41
  have e41 : runGame 159 (s7r41.game) = runGame 158 (s7r42.game) := x41.1
  have w42 : FastGame.WF s7r42 := x41.2
  have x42 := runGame_fast_going w42 157 m7r42
  have e42 : runGame 158 (s7r42.game) = runGame 157 (s7r43.game) := x42.1
  have w43 : FastGame.WF s7r43 := x42.2
  have x43 := runGame_fast_going w43 156 m7r43
  have e43 : runGame 157 (s7r43.game) = runGame 156 (s7r44.game) := x43.1
  have w44 : FastGame.WF s7r44 := x43.2
  have x44 := runGame_fast_going w44 155 m7r44
  have e44 : runGame 156 (s7r44.game) = runGame 155 (s7r45.game) := x44.1
  have w45 : FastGame.WF s7r45 := x44.2
  have x45 := runGame_fast_going w45 154 m7r45
  have e45 : runGame 155 (s7r45.game) = runGame 154 (s7r46.game) := x45.1
  have w46 : FastGame.WF s7r46 := x45.2
  have x46 := runGame_fast_going w46 153 m7r46
  have e46 : runGame 154 (s7r46.game) = runGame 153 (s7r47.game) := x46.1
  have w47 : FastGame.WF s7r47 := x46.2
  have x47 := runGame_fast_going w47 152 m7r47
  have e47 : runGame 153 (s7r47.game) = runGame 152 (s7r48.game) := x47.1
  have w48 : FastGame.WF s7r48 := x47.2
  have x48 := runGame_fast_going w48 151 m7r48
  have e48 : runGame 152 (s7r48.game) = runGame 151 (s7r49.game) := x48.1
  have w49 : FastGame.WF s7r49 := x48.2
  have efin : runGame 151 (s7r49.game) = .ok (s7r50.game) := runGame_fast_over w49 150 m7r49
  rw [e0, e1, e2, e3, e4, e5, e6, e7, e8, e9, e10, e11, e12, e13, e14, e15, e16, e17, e18, e19, e20, e21, e22, e23, e24, e25, e26, e27, e28, e29, e30, e31, e32, e33, e34, e35, e36, e37, e38, e39, e40, e41, e42, e43, e44, e45, e46, e47, e48, efin]

theorem playp7 : playGame combat1 7 200 = .ok (s7r50.game) := by
  show (Board.with_elven_power combat1 7 >>= fun b => runGame 200 (Game.from_board b)) = _
  have hb : Board.with_elven_power combat1 7 = .ok (s7r0.game.board) := by decide!
  rw [hb, ebind_ok]
  have hg : Game.from_board (s7r0.game.board) = s7r0.game := by decide!
  rw [hg]
  exact runp7

theorem runp8 : runGame 200 (s8r0.game) = .ok (s8r50.game) := by
  have w0 : FastGame.WF s8r0 := ⟨by decide!, by decide!, by decide!, by decide!, by decide!⟩
  have x0 := runGame_fast_going w0 199 m8r0
  have e0 : runGame 200 (s8r0.game) = runGame 199 (s8r1.game) := x0.1
  have w1 : FastGame.WF s8r1 := x0.2
  have x1 := runGame_fast_going w1 198 m8r1
  have e1 : runGame 199 (s8r1.game) = runGame 198 (s8r2.game) := x1.1
  have w2 : FastGame.WF s8r2 := x1.2
  have x2 := runGame_fast_going w2 197 m8r2
  have e2 : runGame 198 (s8r2.game) = runGame 197 (s8r3.game) := x2.1
  have w3 : FastGame.WF s8r3 := x2.2
  have x3 := runGame_fast_going w3 196 m8r3
  have e3 : runGame 197 (s8r3.game) = runGame 196 (s8r4.game) := x3.1
  have w4 : FastGame.WF s8r4 := x3.2
  have x4 := runGame_fast_going w4 195 m8r4
  have e4 : runGame 196 (s8r4.game) = runGame 195 (s8r5.game) := x4.1
  have w5 : FastGame.WF s8r5 := x4.2
  have x5 := runGame_fast_going w5 194 m8r5
  have e5 : runGame 195 (s8r5.game) = runGame 194 (s8r6.game) := x5.1
  have w6 : FastGame.WF s8r6 := x5.2
  have x6 := runGame_fast_going w6 193 m8r6
  have e6 : runGame 194 (s8r6.game) = runGame 193 (s8r7.game) := x6.1
  have w7 : FastGame.WF s8r7 := x6.2
  have x7 := runGame_fast_going w7 192 m8r7
  have e7 : runGame 193 (s8r7.game) = runGame 192 (s8r8.game) := x7.1
  have w8 : FastGame.WF s8r8 := x7.2
  have x8 := runGame_fast_going w8 191 m8r8
  have e8 : runGame 192 (s8r8.game) = runGame 191 (s8r9.game) := x8.1
  have w9 : FastGame.WF s8r9 := x8.2
  have x9 := runGame_fast_going w9 190 m8r9
  have e9 : runGame 191 (s8r9.game) = runGame 190 (s8r10.game) := x9.1
  have w10 : FastGame.WF s8r10 := x9.2
  have x10 := runGame_fast_going w10 189 m8r10
  have e10 : runGame 190 (s8r10.game) = runGame 189 (s8r11.game) := x10.1
  have w11 : FastGame.WF s8r11 := x10.2
  have x11 := runGame_fast_going w11 188 m8r11
  have e11 : runGame 189 (s8r11.game) = runGame 188 (s8r12.game) := x11.1
  have w12 : FastGame.WF s8r12 := x11.2
  have x12 := runGame_fast_going w12 187 m8r12
  have e12 : runGame 188 (s8r12.game) = runGame 187 (s8r13.game) := x12.1
  have w13 : FastGame.WF s8r13 := x12.2
  have x13 := runGame_fast_going w13 186 m8r13
  have e13 : runGame 187 (s8r13.game) = runGame 186 (s8r14.game) := x13.1
  have w14 : FastGame.WF s8r14 := x13.2
  have x14 := runGame_fast_going w14 185 m8r14
  have e14 : runGame 186 (s8r14.game) = runGame 185 (s8r15.game) := x14.1
  have w15 : FastGame.WF s8r15 := x14.2
  have x15 := runGame_fast_going w15 184 m8r15
  have e15 : runGame 185 (s8r15.game) = runGame 184 (s8r16.game) := x15.1
  have w16 : FastGame.WF s8r16 := x15.2
  have x16 := runGame_fast_going w16 183 m8r16
  have e16 : runGame 184 (s8r16.game) = runGame 183 (s8r17.game) := x16.1
  have w17 : FastGame.WF s8r17 := x16.2
  have x17 := runGame_fast_going w17 182 m8r17
  have e17 : runGame 183 (s8r17.game) = runGame 182 (s8r18.game) := x17.1
  have w18 : FastGame.WF s8r18 := x17.2
  have x18 := runGame_fast_going w18 181 m8r18
  have e18 : runGame 182 (s8r18.game) = runGame 181 (s8r19.game) := x18.1
  have w19 : FastGame.WF s8r19 := x18.2
  have x19 := runGame_fast_going w19 180 m8r19
  have e19 : runGame 181 (s8r19.game) = runGame 180 (s8r20.game) := x19.1
  have w20 : FastGame.WF s8r20 := x19.2
  have x20 := runGame_fast_going w20 179 m8r20
  have e20 : runGame 180 (s8r20.game) = runGame 179 (s8r21.game) := x20.1
  have w21 : FastGame.WF s8r21 := x20.2
  have x21 := runGame_fast_going w21 178 m8r21
  have e21 : runGame 179 (s8r21.game) = runGame 178 (s8r22.game) := x21.1
  have w22 : FastGame.WF s8r22 := x21.2
  have x22 := runGame_fast_going w22 177 m8r22
  have e22 : runGame 178 (s8r22.game) = runGame 177 (s8r23.game) := x22.1
  have w23 : FastGame.WF s8r23 := x22.2
  have x23 := runGame_fast_going w23 176 m8r23
  have e23 : runGame 177 (s8r23.game) = runGame 176 (s8r24.game) := x23.1
  have w24 : FastGame.WF s8r24 := x23.2
  have x24 := runGame_fast_going w24 175 m8r24
  have e24 : runGame 176 (s8r24.game) = runGame 175 (s8r25.game) := x24.1
  have w25 : FastGame.WF s8r25 := x24.2
  have x25 := runGame_fast_going w25 174 m8r25
  have e25 : runGame 175 (s8r25.game) = runGame 174 (s8r26.game) := x25.1
  have w26 : FastGame.WF s8r26 := x25.2
  have x26 := runGame_fast_going w26 173 m8r26
  have e26 : runGame 174 (s8r26.game) = runGame 173 (s8r27.game) := x26.1
  have w27 : FastGame.WF s8r27 := x26.2
  have x27 := runGame_fast_going w27 172 m8r27
  have e27 : runGame 173 (s8r27.game) = runGame 172 (s8r28.game) := x27.1
  have w28 : FastGame.WF s8r28 := x27.2
  have x28 := runGame_fast_going w28 171 m8r28
  have e28 : runGame 172 (s8r28.game) = runGame 171 (s8r29.game) := x28.1
  have w29 : FastGame.WF s8r29 := x28.2
  have x29 := runGame_fast_going w29 170 m8r29
  have e29 : runGame 171 (s8r29.game) = runGame 170 (s8r30.game) := x29.1
  have w30 : FastGame.WF s8r30 := x29.2
  have x30 := runGame_fast_going w30 169 m8r30
  have e30 : runGame 170 (s8r30.game) = runGame 169 (s8r31.game) := x30.1
  have w31 : FastGame.WF s8r31 := x30.2
  have x31 := runGame_fast_going w31 168 m8r31
  have e31 : runGame 169 (s8r31.game) = runGame 168 (s8r32.game) := x31.1
  have w32 : FastGame.WF s8r32 := x31.2
  have x32 := runGame_fast_going w32 167 m8r32
  have e32 : runGame 168 (s8r32.game) = runGame 167 (s8r33.game) := x32.1
  have w33 : FastGame.WF s8r33 := x32.2
  have x33 := runGame_fast_going w33 166 m8r33
  have e33 : runGame 167 (s8r33.game) = runGame 166 (s8r34.game) := x33.1
  have w34 : FastGame.WF s8r34 := x33.2
  have x34 := runGame_fast_going w34 165 m8r34
  have e34 : runGame 166 (s8r34.game) = runGame 165 (s8r35.game) := x34.1
  have w35 : FastGame.WF s8r35 := x34.2
  have x35 := runGame_fast_going w35 164 m8r35
  have e35 : runGame 165 (s8r35.game) = runGame 164 (s8r36.game) := x35.1
  have w36 : FastGame.WF s8r36 := x35.2
  have x36 := runGame_fast_going w36 163 m8r36
  have e36 : runGame 164 (s8r36.game) = runGame 163 (s8r37.game) := x36.1
  have w37 : FastGame.WF s8r37 := x36.2
  have x37 := runGame_fast_going w37 162 m8r37
  have e37 : runGame 163 (s8r37.game) = runGame 162 (s8r38.game) := x37.1
  have w38 : FastGame.WF s8r38 := x37.2
  have x38 := runGame_fast_going w38 161 m8r38
  have e38 : runGame 162 (s8r38.game) = runGame 161 (s8r39.game) := x38.1
  have w39 : FastGame.WF s8r39 := x38.2
  have x39 := runGame_fast_going w39 160 m8r39
  have e39 : runGame 161 (s8r39.game) = runGame 160 (s8r40.game) := x39.1
  have w40 : FastGame.WF s8r40 := x39.2
  have x40 := runGame_fast_going w40 159 m8r40
  have e40 : runGame 160 (s8r40.game) = runGame 159 (s8r41.game) := x40.1
  have w41 : FastGame.WF s8r41 := x40.2
  have x41 := runGame_fast_going w41 158 m8r41
  have e41 : runGame 159 (s8r41.game) = runGame 158 (s8r42.game) := x41.1
  have w42 : FastGame.WF s8r42 := x41.2
  have x42 := runGame_fast_going w42 157 m8r42
  have e42 : runGame 158 (s8r42.game) = runGame 157 (s8r43.game) := x42.1
  have w43 : FastGame.WF s8r43 := x42.2
  have x43 := runGame_fast_going w43 156 m8r43
  have e43 : runGame 157 (s8r43.game) = runGame 156 (s8r44.game) := x43.1
  have w44 : FastGame.WF s8r44 := x43.2
  have x44 := runGame_fast_going w44 155 m8r44
  have e44 : runGame 156 (s8r44.game) = runGame 155 (s8r45.game) := x44.1
  have w45 : FastGame.WF s8r45 := x44.2
  have x45 := runGame_fast_going w45 154 m8r45
  have e45 : runGame 155 (s8r45.game) = runGame 154 (s8r46.game) := x45.1
  have w46 : FastGame.WF s8r46 := x45.2
  have x46 := runGame_fast_going w46 153 m8r46
  have e46 : runGame 154 (s8r46.game) = runGame 153 (s8r47.game) := x46.1
  have w47 : FastGame.WF s8r47 := x46.2
  have x47 := runGame_fast_going w47 152 m8r47
  have e47 : runGame 153 (s8r47.game) = runGame 152 (s8r48.game) := x47.1
  have w48 : FastGame.WF s8r48 := x47.2
  have x48 := runGame_fast_going w48 151 m8r48
  have e48 : runGame 152 (s8r48.game) = runGame 151 (s8r49.game) := x48.1
  have w49 : FastGame.WF s8r49 := x48.2
  have efin : runGame 151 (s8r49.game) = .ok (s8r50.game) := runGame_fast_over w49 150 m8r49
  rw [e0, e1, e2, e3, e4, e5, e6, e7, e8, e9, e10, e11, e12, e13, e14, e15, e16, e17, e18, e19, e20, e21, e22, e23, e24, e25, e26, e27, e28, e29, e30, e31, e32, e33, e34, e35, e36, e37, e38, e39, e40, e41, e42, e43, e44, e45, e46, e47, e48, efin]

theorem playp8 : playGame combat1 8 200 = .ok (s8r50.game) := by
  show (Board.with_elven_power combat1 8 >>= fun b => runGame 200 (Game.from_board b)) = _
  have hb : Board.with_elven_power combat1 8 = .ok (s8r0.game.board) := by decide!
  rw [hb, ebind_ok]
  have hg : Game.from_board (s8r0.game.board) = s8r0.game := by decide!
  rw [hg]
  exact runp8

theorem runp9 : runGame 200 (s9r0.game) = .ok (s9r55.game) := by
  have w0 : FastGame.WF s9r0 := ⟨by decide!, by decide!, by decide!, by decide!, by decide!⟩
  have x0 := runGame_fast_going w0 199 m9r0
  have e0 : runGame 200 (s9r0.game) = runGame 199 (s9r1.game) := x0.1
  have w1 : FastGame.WF s9r1 := x0.2
  have x1 := runGame_fast_going w1 198 m9r1
  have e1 : runGame 199 (s9r1.game) = runGame 198 (s9r2.game) := x1.1
  have w2 : FastGame.WF s9r2 := x1.2
  have x2 := runGame_fast_going w2 197 m9r2
  have e2 : runGame 198 (s9r2.game) = runGame 197 (s9r3.game) := x2.1
  have w3 : FastGame.WF s9r3 := x2.2
  have x3 := runGame_fast_going w3 196 m9r3
  have e3 : runGame 197 (s9r3.game) = runGame 196 (s9r4.game) := x3.1
  have w4 : FastGame.WF s9r4 := x3.2
  have x4 := runGame_fast_going w4 195 m9r4
  have e4 : runGame 196 (s9r4.game) = runGame 195 (s9r5.game) := x4.1
  have w5 : FastGame.WF s9r5 := x4.2
  have x5 := runGame_fast_going w5 194 m9r5
  have e5 : runGame 195 (s9r5.game) = runGame 194 (s9r6.game) := x5.1
  have w6 : FastGame.WF s9r6 := x5.2
  have x6 := runGame_fast_going w6 193 m9r6
  have e6 : runGame 194 (s9r6.game) = runGame 193 (s9r7.game) := x6.1
  have w7 : FastGame.WF s9r7 := x6.2
  have x7 := runGame_fast_going w7 192 m9r7
  have e7 : runGame 193 (s9r7.game) = runGame 192 (s9r8.game) := x7.1
  have w8 : FastGame.WF s9r8 := x7.2
  have x8 := runGame_fast_going w8 191 m9r8
  have e8 : runGame 192 (s9r8.game) = runGame 191 (s9r9.game) := x8.1
  have w9 : FastGame.WF s9r9 := x8.2
  have x9 := runGame_fast_going w9 190 m9r9
  have e9 : runGame 191 (s9r9.game) = runGame 190 (s9r10.game) := x9.1
  have w10 : FastGame.WF s9r10 := x9.2
  have x10 := runGame_fast_going w10 189 m9r10
  have e10 : runGame 190 (s9r10.game) = runGame 189 (s9r11.game) := x10.1
  have w11 : FastGame.WF s9r11 := x10.2
  have x11 := runGame_fast_going w11 188 m9r11
  have e11 : runGame 189 (s9r11.game) = runGame 188 (s9r12.game) := x11.1
  have w12 : FastGame.WF s9r12 := x11.2
  have x12 := runGame_fast_going w12 187 m9r12
  have e12 : runGame 188 (s9r12.game) = runGame 187 (s9r13.game) := x12.1
  have w13 : FastGame.WF s9r13 := x12.2
  have x13 := runGame_fast_going w13 186 m9r13
  have e13 : runGame 187 (s9r13.game) = runGame 186 (s9r14.game) := x13.1
  have w14 : FastGame.WF s9r14 := x13.2
  have x14 := runGame_fast_going w14 185 m9r14
  have e14 : runGame 186 (s9r14.game) = runGame 185 (s9r15.game) := x14.1
  have w15 : FastGame.WF s9r15 := x14.2
  have x15 := runGame_fast_going w15 184 m9r15
  have e15 : runGame 185 (s9r15.game) = runGame 184 (s9r16.game) := x15.1
  have w16 : FastGame.WF s9r16 := x15.2
  have x16 := runGame_fast_going w16 183 m9r16
  have e16 : runGame 184 (s9r16.game) = runGame 183 (s9r17.game) := x16.1
  have w17 : FastGame.WF s9r17 := x16.2
  have x17 := runGame_fast_going w17 182 m9r17
  have e17 : runGame 183 (s9r17.game) = runGame 182 (s9r18.game) := x17.1
  have w18 : FastGame.WF s9r18 := x17.2
  have x18 := runGame_fast_going w18 181 m9r18
  have e18 : runGame 182 (s9r18.game) = runGame 181 (s9r19.game) := x18.1
  have w19 : FastGame.WF s9r19 := x18.2
  have x19 := runGame_fast_going w19 180 m9r19
  have e19 : runGame 181 (s9r19.game) = runGame 180 (s9r20.game) := x19.1
  have w20 : FastGame.WF s9r20 := x19.2
  have x20 := runGame_fast_going w20 179 m9r20
  have e20 : runGame 180 (s9r20.game) = runGame 179 (s9r21.game) := x20.1
  have w21 : FastGame.WF s9r21 := x20.2
  have x21 := runGame_fast_going w21 178 m9r21
  have e21 : runGame 179 (s9r21.game) = runGame 178 (s9r22.game) := x21.1
  have w22 : FastGame.WF s9r22 := x21.2
  have x22 := runGame_fast_going w22 177 m9r22
  have e22 : runGame 178 (s9r22.game) = runGame 177 (s9r23.game) := x22.1
  have w23 : FastGame.WF s9r23 := x22.2
  have x23 := runGame_fast_going w23 176 m9r23
  have e23 : runGame 177 (s9r23.game) = runGame 176 (s9r24.game) := x23.1
  have w24 : FastGame.WF s9r24 := x23.2
  have x24 := runGame_fast_going w24 175 m9r24
  have e24 : runGame 176 (s9r24.game) = runGame 175 (s9r25.game) := x24.1
  have w25 : FastGame.WF s9r25 := x24.2
  have x25 := runGame_fast_going w25 174 m9r25
  have e25 : runGame 175 (s9r25.game) = runGame 174 (s9r26.game) := x25.1
  have w26 : FastGame.WF s9r26 := x25.2
  have x26 := runGame_fast_going w26 173 m9r26
  have e26 : runGame 174 (s9r26.game) = runGame 173 (s9r27.game) := x26.1
  have w27 : FastGame.WF s9r27 := x26.2
  have x27 := runGame_fast_going w27 172 m9r27
  have e27 : runGame 173 (s9r27.game) = runGame 172 (s9r28.game) := x27.1
  have w28 : FastGame.WF s9r28 := x27.2
  have x28 := runGame_fast_going w28 171 m9r28
  have e28 : runGame 172 (s9r28.game) = runGame 171 (s9r29.game) := x28.1
  have w29 : FastGame.WF s9r29 := x28.2
  have x29 := runGame_fast_going w29 170 m9r29
  have e29 : runGame 171 (s9r29.game) = runGame 170 (s9r30.game) := x29.1
  have w30 : FastGame.WF s9r30 := x29.2
  have x30 := runGame_fast_going w30 169 m9r30
  have e30 : runGame 170 (s9r30.game) = runGame 169 (s9r31.game) := x30.1
  have w31 : FastGame.WF s9r31 := x30.2
  have x31 := runGame_fast_going w31 168 m9r31
  have e31 : runGame 169 (s9r31.game) = runGame 168 (s9r32.game) := x31.1
  have w32 : FastGame.WF s9r32 := x31.2
  have x32 := runGame_fast_going w32 167 m9r32
  have e32 : runGame 168 (s9r32.game) = runGame 167 (s9r33.game) := x32.1
  have w33 : FastGame.WF s9r33 := x32.2
  have x33 := runGame_fast_going w33 166 m9r33
  have e33 : runGame 167 (s9r33.game) = runGame 166 (s9r34.game) := x33.1
  have w34 : FastGame.WF s9r34 := x33.2
  have x34 := runGame_fast_going w34 165 m9r34
  have e34 : runGame 166 (s9r34.game) = runGame 165 (s9r35.game) := x34.1
  have w35 : FastGame.WF s9r35 := x34.2
  have x35 := runGame_fast_going w35 164 m9r35
  have e35 : runGame 165 (s9r35.game) = runGame 164 (s9r36.game) := x35.1
  have w36 : FastGame.WF s9r36 := x35.2
  have x36 := runGame_fast_going w36 163 m9r36
  have e36 : runGame 164 (s9r36.game) = runGame 163 (s9r37.game) := x36.1
  have w37 : FastGame.WF s9r37 := x36.2
  have x37 := runGame_fast_going w37 162 m9r37
  have e37 : runGame 163 (s9r37.game) = runGame 162 (s9r38.game) := x37.1
  have w38 : FastGame.WF s9r38 := x37.2
  have x38 := runGame_fast_going w38 161 m9r38
  have e38 : runGame 162 (s9r38.game) = runGame 161 (s9r39.game) := x38.1
  have w39 : FastGame.WF s9r39 := x38.2
  have x39 := runGame_fast_going w39 160 m9r39
  have e39 : runGame 161 (s9r39.game) = runGame 160 (s9r40.game) := x39.1
  have w40 : FastGame.WF s9r40 := x39.2
  have x40 := runGame_fast_going w40 159 m9r40
  have e40 : runGame 160 (s9r40.game) = runGame 159 (s9r41.game) := x40.1
  have w41 : FastGame.WF s9r41 := x40.2
  have x41 := runGame_fast_going w41 158 m9r41
  have e41 : runGame 159 (s9r41.game) = runGame 158 (s9r42.game) := x41.1
  have w42 : FastGame.WF s9r42 := x41.2
  have x42 := runGame_fast_going w42 157 m9r42
  have e42 : runGame 158 (s9r42.game) = runGame 157 (s9r43.game) := x42.1
  have w43 : FastGame.WF s9r43 := x42.2
  have x43 := runGame_fast_going w43 156 m9r43
  have e43 : runGame 157 (s9r43.game) = runGame 156 (s9r44.game) := x43.1
  have w44 : FastGame.WF s9r44 := x43.2
  have x44 := runGame_fast_going w44 155 m9r44
  have e44 : runGame 156 (s9r44.game) = runGame 155 (s9r45.game) := x44.1
  have w45 : FastGame.WF s9r45 := x44.2
  have x45 := runGame_fast_going w45 154 m9r45
  have e45 : runGame 155 (s9r45.game) = runGame 154 (s9r46.game) := x45.1
  have w46 : FastGame.WF s9r46 := x45.2
  have x46 := runGame_fast_going w46 153 m9r46
  have e46 : runGame 154 (s9r46.game) = runGame 153 (s9r47.game) := x46.1
  have w47 : FastGame.WF s9r47 := x46.2
  have x47 := runGame_fast_going w47 152 m9r47
  have e47 : runGame 153 (s9r47.game) = runGame 152 (s9r48.game) := x47.1
  have w48 : FastGame.WF s9r48 := x47.2
  have x48 := runGame_fast_going w48 151 m9r48
  have e48 : runGame 152 (s9r48.game) = runGame 151 (s9r49.game) := x48.1
  have w49 : FastGame.WF s9r49 := x48.2
  have x49 := runGame_fast_going w49 150 m9r49
  have e49 : runGame 151 (s9r49.game) = runGame 150 (s9r50.game) := x49.1
  have w50 : FastGame.WF s9r50 := x49.2
  have x50 := runGame_fast_going w50 149 m9r50
  have e50 : runGame 150 (s9r50.game) = runGame 149 (s9r51.game) := x50.1
  have w51 : FastGame.WF s9r51 := x50.2
  have x51 := runGame_fast_going w51 148 m9r51
  have e51 : runGame 149 (s9r51.game) = runGame 148 (s9r52.game) := x51.1
  have w52 : FastGame.WF s9r52 := x51.2
  have x52 := runGame_fast_going w52 147 m9r52
  have e52 : runGame 148 (s9r52.game) = runGame 147 (s9r53.game) := x52.1
  have w53 : FastGame.WF s9r53 := x52.2
  have x53 := runGame_fast_going w53 146 m9r53
  have e53 : runGame 147 (s9r53.game) = runGame 146 (s9r54.game) := x53.1
  have w54 : FastGame.WF s9r54 := x53.2
  have efin : runGame 146 (s9r54.game) = .ok (s9r55.game) := runGame_fast_over w54 145 m9r54
  rw [e0, e1, e2, e3, e4, e5, e6, e7, e8, e9, e10, e11, e12, e13, e14, e15, e16, e17, e18, e19, e20, e21, e22, e23, e24, e25, e26, e27, e28, e29, e30, e31, e32, e33, e34, e35, e36, e37, e38, e39, e40, e41, e42, e43, e44, e45, e46, e47, e48, e49, e50, e51, e52, e53, efin]

theorem playp9 : playGame combat1 9 200 = .ok (s9r55.game) := by
  show (Board.with_elven_power combat1 9 >>= fun b => runGame 200 (Game.from_board b)) = _
  have hb : Board.with_elven_power combat1 9 = .ok (s9r0.game.board) := by decide!
  rw [hb, ebind_ok]
  have hg : Game.from_board (s9r0.game.board) = s9r0.game := by decide!
  rw [hg]
  exact runp9

theorem runp10 : runGame 200 (s10r0.game) = .ok (s10r59.game) := by
  have w0 : FastGame.WF s10r0 := ⟨by decide!, by decide!, by decide!, by decide!, by decide!⟩
  have x0 := runGame_fast_going w0 199 m10r0
  have e0 : runGame 200 (s10r0.game) = runGame 199 (s10r1.game) := x0.1
  have w1 : FastGame.WF s10r1 := x0.2
  have x1 := runGame_fast_going w1 198 m10r1
  have e1 : runGame 199 (s10r1.game) = runGame 198 (s10r2.game) := x1.1
  have w2 : FastGame.WF s10r2 := x1.2
  have x2 := runGame_fast_going w2 197 m10r2
  have e2 : runGame 198 (s10r2.game) = runGame 197 (s10r3.game) := x2.1
  have w3 : FastGame.WF s10r3 := x2.2
  have x3 := runGame_fast_going w3 196 m10r3
  have e3 : runGame 197 (s10r3.game) = runGame 196 (s10r4.game) := x3.1
  have w4 : FastGame.WF s10r4 := x3.2
  have x4 := runGame_fast_going w4 195 m10r4
  have e4 : runGame 196 (s10r4.game) = runGame 195 (s10r5.game) := x4.1
  have w5 : FastGame.WF s10r5 := x4.2
  have x5 := runGame_fast_going w5 194 m10r5
  have e5 : runGame 195 (s10r5.game) = runGame 194 (s10r6.game) := x5.1
  have w6 : FastGame.WF s10r6 := x5.2
  have x6 := runGame_fast_going w6 193 m10r6
  have e6 : runGame 194 (s10r6.game) = runGame 193 (s10r7.game) := x6.1
  have w7 : FastGame.WF s10r7 := x6.2
  have x7 := runGame_fast_going w7 192 m10r7
  have e7 : runGame 193 (s10r7.game) = runGame 192 (s10r8.game) := x7.1
  have w8 : FastGame.WF s10r8 := x7.2
  have x8 := runGame_fast_going w8 191 m10r8
  have e8 : runGame 192 (s10r8.game) = runGame 191 (s10r9.game) := x8.1
  have w9 : FastGame.WF s10r9 := x8.2
  have x9 := runGame_fast_going w9 190 m10r9
  have e9 : runGame 191 (s10r9.game) = runGame 190 (s10r10.game) := x9.1
  have w10 : FastGame.WF s10r10 := x9.2
  have x10 := runGame_fast_going w10 189 m10r10
  have e10 : runGame 190 (s10r10.game) = runGame 189 (s10r11.game) := x10.1
  have w11 : FastGame.WF s10r11 := x10.2
  have x11 := runGame_fast_going w11 188 m10r11
  have e11 : runGame 189 (s10r11.game) = runGame 188 (s10r12.game) := x11.1
  have w12 : FastGame.WF s10r12 := x11.2
  have x12 := runGame_fast_going w12 187 m10r12
  have e12 : runGame 188 (s10r12.game) = runGame 187 (s10r13.game) := x12.1
  have w13 : FastGame.WF s10r13 := x12.2
  have x13 := runGame_fast_going w13 186 m10r13
  have e13 : runGame 187 (s10r13.game) = runGame 186 (s10r14.game) := x13.1
  have w14 : FastGame.WF s10r14 := x13.2
  have x14 := runGame_fast_going w14 185 m10r14
  have e14 : runGame 186 (s10r14.game) = runGame 185 (s10r15.game) := x14.1
  have w15 : FastGame.WF s10r15 := x14.2
  have x15 := runGame_fast_going w15 184 m10r15
  have e15 : runGame 185 (s10r15.game) = runGame 184 (s10r16.game) := x15.1
  have w16 : FastGame.WF s10r16 := x15.2
  have x16 := runGame_fast_going w16 183 m10r16
  have e16 : runGame 184 (s10r16.game) = runGame 183 (s10r17.game) := x16.1
  have w17 : FastGame.WF s10r17 := x16.2
  have x17 := runGame_fast_going w17 182 m10r17
  have e17 : runGame 183 (s10r17.game) = runGame 182 (s10r18.game) := x17.1
  have w18 : FastGame.WF s10r18 := x17.2
  have x18 := runGame_fast_going w18 181 m10r18
  have e18 : runGame 182 (s10r18.game) = runGame 181 (s10r19.game) := x18.1
  have w19 : FastGame.WF s10r19 := x18.2
  have x19 := runGame_fast_going w19 180 m10r19
  have e19 : runGame 181 (s10r19.game) = runGame 180 (s10r20.game) := x19.1
  have w20 : FastGame.WF s10r20 := x19.2
  have x20 := runGame_fast_going w20 179 m10r20
  have e20 : runGame 180 (s10r20.game) = runGame 179 (s10r21.game) := x20.1
  have w21 : FastGame.WF s10r21 := x20.2
  have x21 := runGame_fast_going w21 178 m10r21
  have e21 : runGame 179 (s10r21.game) = runGame 178 (s10r22.game) := x21.1
  have w22 : FastGame.WF s10r22 := x21.2
  have x22 := runGame_fast_going w22 177 m10r22
  have e22 : runGame 178 (s10r22.game) = runGame 177 (s10r23.game) := x22.1
  have w23 : FastGame.WF s10r23 := x22.2
  have x23 := runGame_fast_going w23 176 m10r23
  have e23 : runGame 177 (s10r23.game) = runGame 176 (s10r24.game) := x23.1
  have w24 : FastGame.WF s10r24 := x23.2
  have x24 := runGame_fast_going w24 175 m10r24
  have e24 : runGame 176 (s10r24.game) = runGame 175 (s10r25.game) := x24.1
  have w25 : FastGame.WF s10r25 := x24.2
  have x25 := runGame_fast_going w25 174 m10r25
  have e25 : runGame 175 (s10r25.game) = runGame 174 (s10r26.game) := x25.1
  have w26 : FastGame.WF s10r26 := x25.2
  have x26 := runGame_fast_going w26 173 m10r26
  have e26 : runGame 174 (s10r26.game) = runGame 173 (s10r27.game) := x26.1
  have w27 : FastGame.WF s10r27 := x26.2
  have x27 := runGame_fast_going w27 172 m10r27
  have e27 : runGame 173 (s10r27.game) = runGame 172 (s10r28.game) := x27.1
  have w28 : FastGame.WF s10r28 := x27.2
  have x28 := runGame_fast_going w28 171 m10r28
  have e28 : runGame 172 (s10r28.game) = runGame 171 (s10r29.game) := x28.1
  have w29 : FastGame.WF s10r29 := x28.2
  have x29 := runGame_fast_going w29 170 m10r29
  have e29 : runGame 171 (s10r29.game) = runGame 170 (s10r30.game) := x29.1
  have w30 : FastGame.WF s10r30 := x29.2
  have x30 := runGame_fast_going w30 169 m10r30
  have e30 : runGame 170 (s10r30.game) = runGame 169 (s10r31.game) := x30.1
  have w31 : FastGame.WF s10r31 := x30.2
  have x31 := runGame_fast_going w31 168 m10r31
  have e31 : runGame 169 (s10r31.game) = runGame 168 (s10r32.game) := x31.1
  have w32 : FastGame.WF s10r32 := x31.2
  have x32 := runGame_fast_going w32 167 m10r32
  have e32 : runGame 168 (s10r32.game) = runGame 167 (s10r33.game) := x32.1
  have w33 : FastGame.WF s10r33 := x32.2
  have x33 := runGame_fast_going w33 166 m10r33
  have e33 : runGame 167 (s10r33.game) = runGame 166 (s10r34.game) := x33.1
  have w34 : FastGame.WF s10r34 := x33.2
  have x34 := runGame_fast_going w34 165 m10r34
  have e34 : runGame 166 (s10r34.game) = runGame 165 (s10r35.game) := x34.1
  have w35 : FastGame.WF s10r35 := x34.2
  have x35 := runGame_fast_going w35 164 m10r35
  have e35 : runGame 165 (s10r35.game) = runGame 164 (s10r36.game) := x35.1
  have w36 : FastGame.WF s10r36 := x35.2
  have x36 := runGame_fast_going w36 163 m10r36
  have e36 : runGame 164 (s10r36.game) = runGame 163 (s10r37.game) := x36.1
  have w37 : FastGame.WF s10r37 := x36.2
  have x37 := runGame_fast_going w37 162 m10r37
  have e37 : runGame 163 (s10r37.game) = runGame 162 (s10r38.game) := x37.1
  have w38 : FastGame.WF s10r38 := x37.2
  have x38 := runGame_fast_going w38 161 m10r38
  have e38 : runGame 162 (s10r38.game) = runGame 161 (s10r39.game) := x38.1
  have w39 : FastGame.WF s10r39 := x38.2
  have x39 := runGame_fast_going w39 160 m10r39
  have e39 : runGame 161 (s10r39.game) = runGame 160 (s10r40.game) := x39.1
  have w40 : FastGame.WF s10r40 := x39.2
  have x40 := runGame_fast_going w40 159 m10r40
  have e40 : runGame 160 (s10r40.game) = runGame 159 (s10r41.game) := x40.1
  have w41 : FastGame.WF s10r41 := x40.2
  have x41 := runGame_fast_going w41 158 m10r41
  have e41 : runGame 159 (s10r41.game) = runGame 158 (s10r42.game) := x41.1
  have w42 : FastGame.WF s10r42 := x41.2
  have x42 := runGame_fast_going w42 157 m10r42
  have e42 : runGame 158 (s10r42.game) = runGame 157 (s10r43.game) := x42.1
  have w43 : FastGame.WF s10r43 := x42.2
  have x43 := runGame_fast_going w43 156 m10r43
  have e43 : runGame 157 (s10r43.game) = runGame 156 (s10r44.game) := x43.1
  have w44 : FastGame.WF s10r44 := x43.2
  have x44 := runGame_fast_going w44 155 m10r44
  have e44 : runGame 156 (s10r44.game) = runGame 155 (s10r45.game) := x44.1
  have w45 : FastGame.WF s10r45 := x44.2
  have x45 := runGame_fast_going w45 154 m10r45
  have e45 : runGame 155 (s10r45.game) = runGame 154 (s10r46.game) := x45.1
  have w46 : FastGame.WF s10r46 := x45.2
  have x46 := runGame_fast_going w46 153 m10r46
  have e46 : runGame 154 (s10r46.game) = runGame 153 (s10r47.game) := x46.1
  have w47 : FastGame.WF s10r47 := x46.2
  have x47 := runGame_fast_going w47 152 m10r47
  have e47 : runGame 153 (s10r47.game) = runGame 152 (s10r48.game) := x47.1
  have w48 : FastGame.WF s10r48 := x47.2
  have x48 := runGame_fast_going w48 151 m10r48
  have e48 : runGame 152 (s10r48.game) = runGame 151 (s10r49.game) := x48.1
  have w49 : FastGame.WF s10r49 := x48.2
  have x49 := runGame_fast_going w49 150 m10r49
  have e49 : runGame 151 (s10r49.game) = runGame 150 (s10r50.game) := x49.1
  have w50 : FastGame.WF s10r50 := x49.2
  have x50 := runGame_fast_going w50 149 m10r50
  have e50 : runGame 150 (s10r50.game) = runGame 149 (s10r51.game) := x50.1
  have w51 : FastGame.WF s10r51 := x50.2
  have x51 := runGame_fast_going w51 148 m10r51
  have e51 : runGame 149 (s10r51.game) = runGame 148 (s10r52.game) := x51.1
  have w52 : FastGame.WF s10r52 := x51.2
  have x52 := runGame_fast_going w52 147 m10r52
  have e52 : runGame 148 (s10r52.game) = runGame 147 (s10r53.game) := x52.1
  have w53 : FastGame.WF s10r53 := x52.2
  have x53 := runGame_fast_going w53 146 m10r53
  have e53 : runGame 147 (s10r53.game) = runGame 146 (s10r54.game) := x53.1
  have w54 : FastGame.WF s10r54 := x53.2
  have x54 := runGame_fast_going w54 145 m10r54
  have e54 : runGame 146 (s10r54.game) = runGame 145 (s10r55.game) := x54.1
  have w55 : FastGame.WF s10r55 := x54.2
  have x55 := runGame_fast_going w55 144 m10r55
  have e55 : runGame 145 (s10r55.game) = runGame 144 (s10r56.game) := x55.1
  have w56 : FastGame.WF s10r56 := x55.2
  have x56 := runGame_fast_going w56 143 m10r56
  have e56 : runGame 144 (s10r56.game) = runGame 143 (s10r57.game) := x56.1
  have w57 : FastGame.WF s10r57 := x56.2
  have x57 := runGame_fast_going w57 142 m10r57
  have e57 : runGame 143 (s10r57.game) = runGame 142 (s10r58.game) := x57.1
  have w58 : FastGame.WF s10r58 := x57.2
  have efin : runGame 142 (s10r58.game) = .ok (s10r59.game) := runGame_fast_over w58 141 m10r58
  rw [e0, e1, e2, e3, e4, e5, e6, e7, e8, e9, e10, e11, e12, e13, e14, e15, e16, e17, e18, e19, e20, e21, e22, e23, e24, e25, e26, e27, e28, e29, e30, e31, e32, e33, e34, e35, e36, e37, e38, e39, e40, e41, e42, e43, e44, e45, e46, e47, e48, e49, e50, e51, e52, e53, e54, e55, e56, e57, efin]

theorem playp10 : playGame combat1 10 200 = .ok (s10r59.game) := by
  show (Board.with_elven_power combat1 10 >>= fun b => runGame 200 (Game.from_board b)) = _
  have hb : Board.with_elven_power combat1 10 = .ok (s10r0.game.board) := by decide!
  rw [hb, ebind_ok]
  have hg : Game.from_board (s10r0.game.board) = s10r0.game := by decide!
  rw [hg]
  exact runp10

theorem runp11 : runGame 200 (s11r0.game) = .ok (s11r54.game) := by
  have w0 : FastGame.WF s11r0 := ⟨by decide!, by decide!, by decide!, by decide!, by decide!⟩
  have x0 := runGame_fast_going w0 199 m11r0
  have e0 : runGame 200 (s11r0.game) = runGame 199 (s11r1.game) := x0.1
  have w1 : FastGame.WF s11r1 := x0.2
  have x1 := runGame_fast_going w1 198 m11r1
  have e1 : runGame 199 (s11r1.game) = runGame 198 (s11r2.game) := x1.1
  have w2 : FastGame.WF s11r2 := x1.2
  have x2 := runGame_fast_going w2 197 m11r2
  have e2 : runGame 198 (s11r2.game) = runGame 197 (s11r3.game) := x2.1
  have w3 : FastGame.WF s11r3 := x2.2
  have x3 := runGame_fast_going w3 196 m11r3
  have e3 : runGame 197 (s11r3.game) = runGame 196 (s11r4.game) := x3.1
  have w4 : FastGame.WF s11r4 := x3.2
  have x4 := runGame_fast_going w4 195 m11r4
  have e4 : runGame 196 (s11r4.game) = runGame 195 (s11r5.game) := x4.1
  have w5 : FastGame.WF s11r5 := x4.2
  have x5 := runGame_fast_going w5 194 m11r5
  have e5 : runGame 195 (s11r5.game) = runGame 194 (s11r6.game) := x5.1
  have w6 : FastGame.WF s11r6 := x5.2
  have x6 := runGame_fast_going w6 193 m11r6
  have e6 : runGame 194 (s11r6.game) = runGame 193 (s11r7.game) := x6.1
  have w7 : FastGame.WF s11r7 := x6.2
  have x7 := runGame_fast_going w7 192 m11r7
  have e7 : runGame 193 (s11r7.game) = runGame 192 (s11r8.game) := x7.1
  have w8 : FastGame.WF s11r8 := x7.2
  have x8 := runGame_fast_going w8 191 m11r8
  have e8 : runGame 192 (s11r8.game) = runGame 191 (s11r9.game) := x8.1
  have w9 : FastGame.WF s11r9 := x8.2
  have x9 := runGame_fast_going w9 190 m11r9
  have e9 : runGame 191 (s11r9.game) = runGame 190 (s11r10.game) := x9.1
  have w10 : FastGame.WF s11r10 := x9.2
  have x10 := runGame_fast_going w10 189 m11r10
  have e10 : runGame 190 (s11r10.game) = runGame 189 (s11r11.game) := x10.1
  have w11 : FastGame.WF s11r11 := x10.2
  have x11 := runGame_fast_going w11 188 m11r11
  have e11 : runGame 189 (s11r11.game) = runGame 188 (s11r12.game) := x11.1
  have w12 : FastGame.WF s11r12 := x11.2
  have x12 := runGame_fast_going w12 187 m11r12
  have e12 : runGame 188 (s11r12.game) = runGame 187 (s11r13.game) := x12.1
  have w13 : FastGame.WF s11r13 := x12.2
  have x13 := runGame_fast_going w13 186 m11r13
  have e13 : runGame 187 (s11r13.game) = runGame 186 (s11r14.game) := x13.1
  have w14 : FastGame.WF s11r14 := x13.2
  have x14 := runGame_fast_going w14 185 m11r14
  have e14 : runGame 186 (s11r14.game) = runGame 185 (s11r15.game) := x14.1
  have w15 : FastGame.WF s11r15 := x14.2
  have x15 := runGame_fast_going w15 184 m11r15
  have e15 : runGame 185 (s11r15.game) = runGame 184 (s11r16.game) := x15.1
  have w16 : FastGame.WF s11r16 := x15.2
  have x16 := runGame_fast_going w16 183 m11r16
  have e16 : runGame 184 (s11r16.game) = runGame 183 (s11r17.game) := x16.1
  have w17 : FastGame.WF s11r17 := x16.2
  have x17 := runGame_fast_going w17 182 m11r17
  have e17 : runGame 183 (s11r17.game) = runGame 182 (s11r18.game) := x17.1
  have w18 : FastGame.WF s11r18 := x17.2
  have x18 := runGame_fast_going w18 181 m11r18
  have e18 : runGame 182 (s11r18.game) = runGame 181 (s11r19.game) := x18.1
  have w19 : FastGame.WF s11r19 := x18.2
  have x19 := runGame_fast_going w19 180 m11r19
  have e19 : runGame 181 (s11r19.game) = runGame 180 (s11r20.game) := x19.1
  have w20 : FastGame.WF s11r20 := x19.2
  have x20 := runGame_fast_going w20 179 m11r20
  have e20 : runGame 180 (s11r20.game) = runGame 179 (s11r21.game) := x20.1
  have w21 : FastGame.WF s11r21 := x20.2
  have x21 := runGame_fast_going w21 178 m11r21
  have e21 : runGame 179 (s11r21.game) = runGame 178 (s11r22.game) := x21.1
  have w22 : FastGame.WF s11r22 := x21.2
  have x22 := runGame_fast_going w22 177 m11r22
  have e22 : runGame 178 (s11r22.game) = runGame 177 (s11r23.game) := x22.1
  have w23 : FastGame.WF s11r23 := x22.2
  have x23 := runGame_fast_going w23 176 m11r23
  have e23 : runGame 177 (s11r23.game) = runGame 176 (s11r24.game) := x23.1
  have w24 : FastGame.WF s11r24 := x23.2
  have x24 := runGame_fast_going w24 175 m11r24
  have e24 : runGame 176 (s11r24.game) = runGame 175 (s11r25.game) := x24.1
  have w25 : FastGame.WF s11r25 := x24.2
  have x25 := runGame_fast_going w25 174 m11r25
  have e25 : runGame 175 (s11r25.game) = runGame 174 (s11r26.game) := x25.1
  have w26 : FastGame.WF s11r26 := x25.2
  have x26 := runGame_fast_going w26 173 m11r26
  have e26 : runGame 174 (s11r26.game) = runGame 173 (s11r27.game) := x26.1
  have w27 : FastGame.WF s11r27 := x26.2
  have x27 := runGame_fast_going w27 172 m11r27
  have e27 : runGame 173 (s11r27.game) = runGame 172 (s11r28.game) := x27.1
  have w28 : FastGame.WF s11r28 := x27.2
  have x28 := runGame_fast_going w28 171 m11r28
  have e28 : runGame 172 (s11r28.game) = runGame 171 (s11r29.game) := x28.1
  have w29 : FastGame.WF s11r29 := x28.2
  have x29 := runGame_fast_going w29 170 m11r29
  have e29 : runGame 171 (s11r29.game) = runGame 170 (s11r30.game) := x29.1
  have w30 : FastGame.WF s11r30 := x29.2
  have x30 := runGame_fast_going w30 169 m11r30
  have e30 : runGame 170 (s11r30.game) = runGame 169 (s11r31.game) := x30.1
  have w31 : FastGame.WF s11r31 := x30.2
  have x31 := runGame_fast_going w31 168 m11r31
  have e31 : runGame 169 (s11r31.game) = runGame 168 (s11r32.game) := x31.1
  have w32 : FastGame.WF s11r32 := x31.2
  have x32 := runGame_fast_going w32 167 m11r32
  have e32 : runGame 168 (s11r32.game) = runGame 167 (s11r33.game) := x32.1
  have w33 : FastGame.WF s11r33 := x32.2
  have x33 := runGame_fast_going w33 166 m11r33
  have e33 : runGame 167 (s11r33.game) = runGame 166 (s11r34.game) := x33.1
  have w34 : FastGame.WF s11r34 := x33.2
  have x34 := runGame_fast_going w34 165 m11r34
  have e34 : runGame 166 (s11r34.game) = runGame 165 (s11r35.game) := x34.1
  have w35 : FastGame.WF s11r35 := x34.2
  have x35 := runGame_fast_going w35 164 m11r35
  have e35 : runGame 165 (s11r35.game) = runGame 164 (s11r36.game) := x35.1
  have w36 : FastGame.WF s11r36 := x35.2
  have x36 := runGame_fast_going w36 163 m11r36
  have e36 : runGame 164 (s11r36.game) = runGame 163 (s11r37.game) := x36.1
  have w37 : FastGame.WF s11r37 := x36.2
  have x37 := runGame_fast_going w37 162 m11r37
  have e37 : runGame 163 (s11r37.game) = runGame 162 (s11r38.game) := x37.1
  have w38 : FastGame.WF s11r38 := x37.2
  have x38 := runGame_fast_going w38 161 m11r38
  have e38 : runGame 162 (s11r38.game) = runGame 161 (s11r39.game) := x38.1
  have w39 : FastGame.WF s11r39 := x38.2
  have x39 := runGame_fast_going w39 160 m11r39
  have e39 : runGame 161 (s11r39.game) = runGame 160 (s11r40.game) := x39.1
  have w40 : FastGame.WF s11r40 := x39.2
  have x40 := runGame_fast_going w40 159 m11r40
  have e40 : runGame 160 (s11r40.game) = runGame 159 (s11r41.game) := x40.1
  have w41 : FastGame.WF s11r41 := x40.2
  have x41 := runGame_fast_going w41 158 m11r41
  have e41 : runGame 159 (s11r41.game) = runGame 158 (s11r42.game) := x41.1
  have w42 : FastGame.WF s11r42 := x41.2
  have x42 := runGame_fast_going w42 157 m11r42
  have e42 : runGame 158 (s11r42.game) = runGame 157 (s11r43.game) := x42.1
  have w43 : FastGame.WF s11r43 := x42.2
  have x43 := runGame_fast_going w43 156 m11r43
  have e43 : runGame 157 (s11r43.game) = runGame 156 (s11r44.game) := x43.1
  have w44 : FastGame.WF s11r44 := x43.2
  have x44 := runGame_fast_going w44 155 m11r44
  have e44 : runGame 156 (s11r44.game) = runGame 155 (s11r45.game) := x44.1
  have w45 : FastGame.WF s11r45 := x44.2
  have x45 := runGame_fast_going w45 154 m11r45
  have e45 : runGame 155 (s11r45.game) = runGame 154 (s11r46.game) := x45.1
  have w46 : FastGame.WF s11r46 := x45.2
  have x46 := runGame_fast_going w46 153 m11r46
  have e46 : runGame 154 (s11r46.game) = runGame 153 (s11r47.game) := x46.1
  have w47 : FastGame.WF s11r47 := x46.2
  have x47 := runGame_fast_going w47 152 m11r47
  have e47 : runGame 153 (s11r47.game) = runGame 152 (s11r48.game) := x47.1
  have w48 : FastGame.WF s11r48 := x47.2
  have x48 := runGame_fast_going w48 151 m11r48
  have e48 : runGame 152 (s11r48.game) = runGame 151 (s11r49.game) := x48.1
  have w49 : FastGame.WF s11r49 := x48.2
  have x49 := runGame_fast_going w49 150 m11r49
  have e49 : runGame 151 (s11r49.game) = runGame 150 (s11r50.game) := x49.1
  have w50 : FastGame.WF s11r50 := x49.2
  have x50 := runGame_fast_going w50 149 m11r50
  have e50 : runGame 150 (s11r50.game) = runGame 149 (s11r51.game) := x50.1
  have w51 : FastGame.WF s11r51 := x50.2
  have x51 := runGame_fast_going w51 148 m11r51
  have e51 : runGame 149 (s11r51.game) = runGame 148 (s11r52.game) := x51.1
  have w52 : FastGame.WF s11r52 := x51.2
  have x52 := runGame_fast_going w52 147 m11r52
  have e52 : runGame 148 (s11r52.game) = runGame 147 (s11r53.game) := x52.1
  have w53 : FastGame.WF s11r53 := x52.2
  have efin : runGame 147 (s11r53.game) = .ok (s11r54.game) := runGame_fast_over w53 146 m11r53
  rw [e0, e1, e2, e3, e4, e5, e6, e7, e8, e9, e10, e11, e12, e13, e14, e15, e16, e17, e18, e19, e20, e21, e22, e23, e24, e25, e26, e27, e28, e29, e30, e31, e32, e33, e34, e35, e36, e37, e38, e39, e40, e41, e42, e43, e44, e45, e46, e47, e48, e49, e50, e51, e52, efin]

theorem playp11 : playGame combat1 11 200 = .ok (s11r54.game) := by
  show (Board.with_elven_power combat1 11 >>= fun b => runGame 200 (Game.from_board b)) = _
  have hb : Board.with_elven_power combat1 11 = .ok (s11r0.game.board) := by decide!
  rw [hb, ebind_ok]
  have hg : Game.from_board (s11r0.game.board) = s11r0.game := by decide!
  rw [hg]
  exact runp11

theorem runp12 : runGame 200 (s12r0.game) = .ok (s12r45.game) := by
  have w0 : FastGame.WF s12r0 := ⟨by decide!, by decide!, by decide!, by decide!, by decide!⟩
  have x0 := runGame_fast_going w0 199 m12r0
  have e0 : runGame 200 (s12r0.game) = runGame 199 (s12r1.game) := x0.1
  have w1 : FastGame.WF s12r1 := x0.2
  have x1 := runGame_fast_going w1 198 m12r1
  have e1 : runGame 199 (s12r1.game) = runGame 198 (s12r2.game) := x1.1
  have w2 : FastGame.WF s12r2 := x1.2
  have x2 := runGame_fast_going w2 197 m12r2
  have e2 : runGame 198 (s12r2.game) = runGame 197 (s12r3.game) := x2.1
  have w3 : FastGame.WF s12r3 := x2.2
  have x3 := runGame_fast_going w3 196 m12r3
  have e3 : runGame 197 (s12r3.game) = runGame 196 (s12r4.game) := x3.1
  have w4 : FastGame.WF s12r4 := x3.2
  have x4 := runGame_fast_going w4 195 m12r4
  have e4 : runGame 196 (s12r4.game) = runGame 195 (s12r5.game) := x4.1
  have w5 : FastGame.WF s12r5 := x4.2
  have x5 := runGame_fast_going w5 194 m12r5
  have e5 : runGame 195 (s12r5.game) = runGame 194 (s12r6.game) := x5.1
  have w6 : FastGame.WF s12r6 := x5.2
  have x6 := runGame_fast_going w6 193 m12r6
  have e6 : runGame 194 (s12r6.game) = runGame 193 (s12r7.game) := x6.1
  have w7 : FastGame.WF s12r7 := x6.2
  have x7 := runGame_fast_going w7 192 m12r7
  have e7 : runGame 193 (s12r7.game) = runGame 192 (s12r8.game) := x7.1
  have w8 : FastGame.WF s12r8 := x7.2
  have x8 := runGame_fast_going w8 191 m12r8
  have e8 : runGame 192 (s12r8.game) = runGame 191 (s12r9.game) := x8.1
  have w9 : FastGame.WF s12r9 := x8.2
  have x9 := runGame_fast_going w9 190 m12r9
  have e9 : runGame 191 (s12r9.game) = runGame 190 (s12r10.game) := x9.1
  have w10 : FastGame.WF s12r10 := x9.2
  have x10 := runGame_fast_going w10 189 m12r10
  have e10 : runGame 190 (s12r10.game) = runGame 189 (s12r11.game) := x10.1
  have w11 : FastGame.WF s12r11 := x10.2
  have x11 := runGame_fast_going w11 188 m12r11
  have e11 : runGame 189 (s12r11.game) = runGame 188 (s12r12.game) := x11.1
  have w12 : FastGame.WF s12r12 := x11.2
  have x12 := runGame_fast_going w12 187 m12r12
  have e12 : runGame 188 (s12r12.game) = runGame 187 (s12r13.game) := x12.1
  have w13 : FastGame.WF s12r13 := x12.2
  have x13 := runGame_fast_going w13 186 m12r13
  have e13 : runGame 187 (s12r13.game) = runGame 186 (s12r14.game) := x13.1
  have w14 : FastGame.WF s12r14 := x13.2
  have x14 := runGame_fast_going w14 185 m12r14
  have e14 : runGame 186 (s12r14.game) = runGame 185 (s12r15.game) := x14.1
  have w15 : FastGame.WF s12r15 := x14.2
  have x15 := runGame_fast_going w15 184 m12r15
  have e15 : runGame 185 (s12r15.game) = runGame 184 (s12r16.game) := x15.1
  have w16 : FastGame.WF s12r16 := x15.2
  have x16 := runGame_fast_going w16 183 m12r16
  have e16 : runGame 184 (s12r16.game) = runGame 183 (s12r17.game) := x16.1
  have w17 : FastGame.WF s12r17 := x16.2
  have x17 := runGame_fast_going w17 182 m12r17
  have e17 : runGame 183 (s12r17.game) = runGame 182 (s12r18.game) := x17.1
  have w18 : FastGame.WF s12r18 := x17.2
  have x18 := runGame_fast_going w18 181 m12r18
  have e18 : runGame 182 (s12r18.game) = runGame 181 (s12r19.game) := x18.1
  have w19 : FastGame.WF s12r19 := x18.2
  have x19 := runGame_fast_going w19 180 m12r19
  have e19 : runGame 181 (s12r19.game) = runGame 180 (s12r20.game) := x19.1
  have w20 : FastGame.WF s12r20 := x19.2
  have x20 := runGame_fast_going w20 179 m12r20
  have e20 : runGame 180 (s12r20.game) = runGame 179 (s12r21.game) := x20.1
  have w21 : FastGame.WF s12r21 := x20.2
  have x21 := runGame_fast_going w21 178 m12r21
  have e21 : runGame 179 (s12r21.game) = runGame 178 (s12r22.game) := x21.1
  have w22 : FastGame.WF s12r22 := x21.2
  have x22 := runGame_fast_going w22 177 m12r22
  have e22 : runGame 178 (s12r22.game) = runGame 177 (s12r23.game) := x22.1
  have w23 : FastGame.WF s12r23 := x22.2
  have x23 := runGame_fast_going w23 176 m12r23
  have e23 : runGame 177 (s12r23.game) = runGame 176 (s12r24.game) := x23.1
  have w24 : FastGame.WF s12r24 := x23.2
  have x24 := runGame_fast_going w24 175 m12r24
  have e24 : runGame 176 (s12r24.game) = runGame 175 (s12r25.game) := x24.1
  have w25 : FastGame.WF s12r25 := x24.2
  have x25 := runGame_fast_going w25 174 m12r25
  have e25 : runGame 175 (s12r25.game) = runGame 174 (s12r26.game) := x25.1
  have w26 : FastGame.WF s12r26 := x25.2
  have x26 := runGame_fast_going w26 173 m12r26
  have e26 : runGame 174 (s12r26.game) = runGame 173 (s12r27.game) := x26.1
  have w27 : FastGame.WF s12r27 := x26.2
  have x27 := runGame_fast_going w27 172 m12r27
  have e27 : runGame 173 (s12r27.game) = runGame 172 (s12r28.game) := x27.1
  have w28 : FastGame.WF s12r28 := x27.2
  have x28 := runGame_fast_going w28 171 m12r28
  have e28 : runGame 172 (s12r28.game) = runGame 171 (s12r29.game) := x28.1
  have w29 : FastGame.WF s12r29 := x28.2
  have x29 := runGame_fast_going w29 170 m12r29
  have e29 : runGame 171 (s12r29.game) = runGame 170 (s12r30.game) := x29.1
  have w30 : FastGame.WF s12r30 := x29.2
  have x30 := runGame_fast_going w30 169 m12r30
  have e30 : runGame 170 (s12r30.game) = runGame 169 (s12r31.game) := x30.1
  have w31 : FastGame.WF s12r31 := x30.2
  have x31 := runGame_fast_going w31 168 m12r31
  have e31 : runGame 169 (s12r31.game) = runGame 168 (s12r32.game) := x31.1
  have w32 : FastGame.WF s12r32 := x31.2
  have x32 := runGame_fast_going w32 167 m12r32
  have e32 : runGame 168 (s12r32.game) = runGame 167 (s12r33.game) := x32.1
  have w33 : FastGame.WF s12r33 := x32.2
  have x33 := runGame_fast_going w33 166 m12r33
  have e33 : runGame 167 (s12r33.game) = runGame 166 (s12r34.game) := x33.1
  have w34 : FastGame.WF s12r34 := x33.2
  have x34 := runGame_fast_going w34 165 m12r34
  have e34 : runGame 166 (s12r34.game) = runGame 165 (s12r35.game) := x34.1
  have w35 : FastGame.WF s12r35 := x34.2
  have x35 := runGame_fast_going w35 164 m12r35
  have e35 : runGame 165 (s12r35.game) = runGame 164 (s12r36.game) := x35.1
  have w36 : FastGame.WF s12r36 := x35.2
  have x36 := runGame_fast_going w36 163 m12r36
  have e36 : runGame 164 (s12r36.game) = runGame 163 (s12r37.game) := x36.1
  have w37 : FastGame.WF s12r37 := x36.2
  have x37 := runGame_fast_going w37 162 m12r37
  have e37 : runGame 163 (s12r37.game) = runGame 162 (s12r38.game) := x37.1
  have w38 : FastGame.WF s12r38 := x37.2
  have x38 := runGame_fast_going w38 161 m12r38
  have e38 : runGame 162 (s12r38.game) = runGame 161 (s12r39.game) := x38.1
  have w39 : FastGame.WF s12r39 := x38.2
  have x39 := runGame_fast_going w39 160 m12r39
  have e39 : runGame 161 (s12r39.game) = runGame 160 (s12r40.game) := x39.1
  have w40 : FastGame.WF s12r40 := x39.2
  have x40 := runGame_fast_going w40 159 m12r40
  have e40 : runGame 160 (s12r40.game) = runGame 159 (s12r41.game) := x40.1
  have w41 : FastGame.WF s12r41 := x40.2
  have x41 := runGame_fast_going w41 158 m12r41
  have e41 : runGame 159 (s12r41.game) = runGame 158 (s12r42.game) := x41.1
  have w42 : FastGame.WF s12r42 := x41.2
  have x42 := runGame_fast_going w42 157 m12r42
  have e42 : runGame 158 (s12r42.game) = runGame 157 (s12r43.game) := x42.1
  have w43 : FastGame.WF s12r43 := x42.2
  have x43 := runGame_fast_going w43 156 m12r43
  have e43 : runGame 157 (s12r43.game) = runGame 156 (s12r44.game) := x43.1
  have w44 : FastGame.WF s12r44 := x43.2
  have efin : runGame 156 (s12r44.game) = .ok (s12r45.game) := runGame_fast_over w44 155 m12r44
  rw [e0, e1, e2, e3, e4, e5, e6, e7, e8, e9, e10, e11, e12, e13, e14, e15, e16, e17, e18, e19, e20, e21, e22, e23, e24, e25, e26, e27, e28, e29, e30, e31, e32, e33, e34, e35, e36, e37, e38, e39, e40, e41, e42, e43, efin]

theorem playp12 : playGame combat1 12 200 = .ok (s12r45.game) := by
  show (Board.with_elven_power combat1 12 >>= fun b => runGame 200 (Game.from_board b)) = _
  have hb : Board.with_elven_power combat1 12 = .ok (s12r0.game.board) := by decide!
  rw [hb, ebind_ok]
  have hg : Game.from_board (s12r0.game.board) = s12r0.game := by decide!
  rw [hg]
  exact runp12

theorem runp13 : runGame 200 (s13r0.game) = .ok (s13r40.game) := by
  have w0 : FastGame.WF s13r0 := ⟨by decide!, by decide!, by decide!, by decide!, by decide!⟩
  have x0 := runGame_fast_going w0 199 m13r0
  have e0 : runGame 200 (s13r0.game) = runGame 199 (s13r1.game) := x0.1
  have w1 : FastGame.WF s13r1 := x0.2
  have x1 := runGame_fast_going w1 198 m13r1
  have e1 : runGame 199 (s13r1.game) = runGame 198 (s13r2.game) := x1.1
  have w2 : FastGame.WF s13r2 := x1.2
  have x2 := runGame_fast_going w2 197 m13r2
  have e2 : runGame 198 (s13r2.game) = runGame 197 (s13r3.game) := x2.1
  have w3 : FastGame.WF s13r3 := x2.2
  have x3 := runGame_fast_going w3 196 m13r3
  have e3 : runGame 197 (s13r3.game) = runGame 196 (s13r4.game) := x3.1
  have w4 : FastGame.WF s13r4 := x3.2
  have x4 := runGame_fast_going w4 195 m13r4
  have e4 : runGame 196 (s13r4.game) = runGame 195 (s13r5.game) := x4.1
  have w5 : FastGame.WF s13r5 := x4.2
  have x5 := runGame_fast_going w5 194 m13r5
  have e5 : runGame 195 (s13r5.game) = runGame 194 (s13r6.game) := x5.1
  have w6 : FastGame.WF s13r6 := x5.2
  have x6 := runGame_fast_going w6 193 m13r6
  have e6 : runGame 194 (s13r6.game) = runGame 193 (s13r7.game) := x6.1
  have w7 : FastGame.WF s13r7 := x6.2
  have x7 := runGame_fast_going w7 192 m13r7
  have e7 : runGame 193 (s13r7.game) = runGame 192 (s13r8.game) := x7.1
  have w8 : FastGame.WF s13r8 := x7.2
  have x8 := runGame_fast_going w8 191 m13r8
  have e8 : runGame 192 (s13r8.game) = runGame 191 (s13r9.game) := x8.1
  have w9 : FastGame.WF s13r9 := x8.2
  have x9 := runGame_fast_going w9 190 m13r9
  have e9 : runGame 191 (s13r9.game) = runGame 190 (s13r10.game) := x9.1
  have w10 : FastGame.WF s13r10 := x9.2
  have x10 := runGame_fast_going w10 189 m13r10
  have e10 : runGame 190 (s13r10.game) = runGame 189 (s13r11.game) := x10.1
  have w11 : FastGame.WF s13r11 := x10.2
  have x11 := runGame_fast_going w11 188 m13r11
  have e11 : runGame 189 (s13r11.game) = runGame 188 (s13r12.game) := x11.1
  have w12 : FastGame.WF s13r12 := x11.2
  have x12 := runGame_fast_going w12 187 m13r12
  have e12 : runGame 188 (s13r12.game) = runGame 187 (s13r13.game) := x12.1
  have w13 : FastGame.WF s13r13 := x12.2
  have x13 := runGame_fast_going w13 186 m13r13
  have e13 : runGame 187 (s13r13.game) = runGame 186 (s13r14.game) := x13.1
  have w14 : FastGame.WF s13r14 := x13.2
  have x14 := runGame_fast_going w14 185 m13r14
  have e14 : runGame 186 (s13r14.game) = runGame 185 (s13r15.game) := x14.1
  have w15 : FastGame.WF s13r15 := x14.2
  have x15 := runGame_fast_going w15 184 m13r15
  have e15 : runGame 185 (s13r15.game) = runGame 184 (s13r16.game) := x15.1
  have w16 : FastGame.WF s13r16 := x15.2
  have x16 := runGame_fast_going w16 183 m13r16
  have e16 : runGame 184 (s13r16.game) = runGame 183 (s13r17.game) := x16.1
  have w17 : FastGame.WF s13r17 := x16.2
  have x17 := runGame_fast_going w17 182 m13r17
  have e17 : runGame 183 (s13r17.game) = runGame 182 (s13r18.game) := x17.1
  have w18 : FastGame.WF s13r18 := x17.2
  have x18 := runGame_fast_going w18 181 m13r18
  have e18 : runGame 182 (s13r18.game) = runGame 181 (s13r19.game) := x18.1
  have w19 : FastGame.WF s13r19 := x18.2
  have x19 := runGame_fast_going w19 180 m13r19
  have e19 : runGame 181 (s13r19.game) = runGame 180 (s13r20.game) := x19.1
  have w20 : FastGame.WF s13r20 := x19.2
  have x20 := runGame_fast_going w20 179 m13r20
  have e20 : runGame 180 (s13r20.game) = runGame 179 (s13r21.game) := x20.1
  have w21 : FastGame.WF s13r21 := x20.2
  have x21 := runGame_fast_going w21 178 m13r21
  have e21 : runGame 179 (s13r21.game) = runGame 178 (s13r22.game) := x21.1
  have w22 : FastGame.WF s13r22 := x21.2
  have x22 := runGame_fast_going w22 177 m13r22
  have e22 : runGame 178 (s13r22.game) = runGame 177 (s13r23.game) := x22.1
  have w23 : FastGame.WF s13r23 := x22.2
  have x23 := runGame_fast_going w23 176 m13r23
  have e23 : runGame 177 (s13r23.game) = runGame 176 (s13r24.game) := x23.1
  have w24 : FastGame.WF s13r24 := x23.2
  have x24 := runGame_fast_going w24 175 m13r24
  have e24 : runGame 176 (s13r24.game) = runGame 175 (s13r25.game) := x24.1
  have w25 : FastGame.WF s13r25 := x24.2
  have x25 := runGame_fast_going w25 174 m13r25
  have e25 : runGame 175 (s13r25.game) = runGame 174 (s13r26.game) := x25.1
  have w26 : FastGame.WF s13r26 := x25.2
  have x26 := runGame_fast_going w26 173 m13r26
  have e26 : runGame 174 (s13r26.game) = runGame 173 (s13r27.game) := x26.1
  have w27 : FastGame.WF s13r27 := x26.2
  have x27 := runGame_fast_going w27 172 m13r27
  have e27 : runGame 173 (s13r27.game) = runGame 172 (s13r28.game) := x27.1
  have w28 : FastGame.WF s13r28 := x27.2
  have x28 := runGame_fast_going w28 171 m13r28
  have e28 : runGame 172 (s13r28.game) = runGame 171 (s13r29.game) := x28.1
  have w29 : FastGame.WF s13r29 := x28.2
  have x29 := runGame_fast_going w29 170 m13r29
  have e29 : runGame 171 (s13r29.game) = runGame 170 (s13r30.game) := x29.1
  have w30 : FastGame.WF s13r30 := x29.2
  have x30 := runGame_fast_going w30 169 m13r30
  have e30 : runGame 170 (s13r30.game) = runGame 169 (s13r31.game) := x30.1
  have w31 : FastGame.WF s13r31 := x30.2
  have x31 := runGame_fast_going w31 168 m13r31
  have e31 : runGame 169 (s13r31.game) = runGame 168 (s13r32.game) := x31.1
  have w32 : FastGame.WF s13r32 := x31.2
  have x32 := runGame_fast_going w32 167 m13r32
  have e32 : runGame 168 (s13r32.game) = runGame 167 (s13r33.game) := x32.1
  have w33 : FastGame.WF s13r33 := x32.2
  have x33 := runGame_fast_going w33 166 m13r33
  have e33 : runGame 167 (s13r33.game) = runGame 166 (s13r34.game) := x33.1
  have w34 : FastGame.WF s13r34 := x33.2
  have x34 := runGame_fast_going w34 165 m13r34
  have e34 : runGame 166 (s13r34.game) = runGame 165 (s13r35.game) := x34.1
  have w35 : FastGame.WF s13r35 := x34.2
  have x35 := runGame_fast_going w35 164 m13r35
  have e35 : runGame 165 (s13r35.game) = runGame 164 (s13r36.game) := x35.1
  have w36 : FastGame.WF s13r36 := x35.2
  have x36 := runGame_fast_going w36 163 m13r36
  have e36 : runGame 164 (s13r36.game) = runGame 163 (s13r37.game) := x36.1
  have w37 : FastGame.WF s13r37 := x36.2
  have x37 := runGame_fast_going w37 162 m13r37
  have e37 : runGame 163 (s13r37.game) = runGame 162 (s13r38.game) := x37.1
  have w38 : FastGame.WF s13r38 := x37.2
  have x38 := runGame_fast_going w38 161 m13r38
  have e38 : runGame 162 (s13r38.game) = runGame 161 (s13r39.game) := x38.1
  have w39 : FastGame.WF s13r39 := x38.2
  have efin : runGame 161 (s13r39.game) = .ok (s13r40.game) := runGame_fast_over w39 160 m13r39
  rw [e0, e1, e2, e3, e4, e5, e6, e7, e8, e9, e10, e11, e12, e13, e14, e15, e16, e17, e18, e19, e20, e21, e22, e23, e24, e25, e26, e27, e28, e29, e30, e31, e32, e33, e34, e35, e36, e37, e38, efin]

theorem playp13 : playGame combat1 13 200 = .ok (s13r40.game) := by
  show (Board.with_elven_power combat1 13 >>= fun b => runGame 200 (Game.from_board b)) = _
  have hb : Board.with_elven_power combat1 13 = .ok (s13r0.game.board) := by decide!
  rw [hb, ebind_ok]
  have hg : Game.from_board (s13r0.game.board) = s13r0.game := by decide!
  rw [hg]
  exact runp13

theorem runp14 : runGame 200 (s14r0.game) = .ok (s14r34.game) := by
  have w0 : FastGame.WF s14r0 := ⟨by decide!, by decide!, by decide!, by decide!, by decide!⟩
  have x0 := runGame_fast_going w0 199 m14r0
  have e0 : runGame 200 (s14r0.game) = runGame 199 (s14r1.game) := x0.1
  have w1 : FastGame.WF s14r1 := x0.2
  have x1 := runGame_fast_going w1 198 m14r1
  have e1 : runGame 199 (s14r1.game) = runGame 198 (s14r2.game) := x1.1
  have w2 : FastGame.WF s14r2 := x1.2
  have x2 := runGame_fast_going w2 197 m14r2
  have e2 : runGame 198 (s14r2.game) = runGame 197 (s14r3.game) := x2.1
  have w3 : FastGame.WF s14r3 := x2.2
  have x3 := runGame_fast_going w3 196 m14r3
  have e3 : runGame 197 (s14r3.game) = runGame 196 (s14r4.game) := x3.1
  have w4 : FastGame.WF s14r4 := x3.2
  have x4 := runGame_fast_going w4 195 m14r4
  have e4 : runGame 196 (s14r4.game) = runGame 195 (s14r5.game) := x4.1
  have w5 : FastGame.WF s14r5 := x4.2
  have x5 := runGame_fast_going w5 194 m14r5
  have e5 : runGame 195 (s14r5.game) = runGame 194 (s14r6.game) := x5.1
  have w6 : FastGame.WF s14r6 := x5.2
  have x6 := runGame_fast_going w6 193 m14r6
  have e6 : runGame 194 (s14r6.game) = runGame 193 (s14r7.game) := x6.1
  have w7 : FastGame.WF s14r7 := x6.2
  have x7 := runGame_fast_going w7 192 m14r7
  have e7 : runGame 193 (s14r7.game) = runGame 192 (s14r8.game) := x7.1
  have w8 : FastGame.WF s14r8 := x7.2
  have x8 := runGame_fast_going w8 191 m14r8
  have e8 : runGame 192 (s14r8.game) = runGame 191 (s14r9.game) := x8.1
  have w9 : FastGame.WF s14r9 := x8.2
  have x9 := runGame_fast_going w9 190 m14r9
  have e9 : runGame 191 (s14r9.game) = runGame 190 (s14r10.game) := x9.1
  have w10 : FastGame.WF s14r10 := x9.2
  have x10 := runGame_fast_going w10 189 m14r10
  have e10 : runGame 190 (s14r10.game) = runGame 189 (s14r11.game) := x10.1
  have w11 : FastGame.WF s14r11 := x10.2
  have x11 := runGame_fast_going w11 188 m14r11
  have e11 : runGame 189 (s14r11.game) = runGame 188 (s14r12.game) := x11.1
  have w12 : FastGame.WF s14r12 := x11.2
  have x12 := runGame_fast_going w12 187 m14r12
  have e12 : runGame 188 (s14r12.game) = runGame 187 (s14r13.game) := x12.1
  have w13 : FastGame.WF s14r13 := x12.2
  have x13 := runGame_fast_going w13 186 m14r13
  have e13 : runGame 187 (s14r13.game) = runGame 186 (s14r14.game) := x13.1
  have w14 : FastGame.WF s14r14 := x13.2
  have x14 := runGame_fast_going w14 185 m14r14
  have e14 : runGame 186 (s14r14.game) = runGame 185 (s14r15.game) := x14.1
  have w15 : FastGame.WF s14r15 := x14.2
  have x15 := runGame_fast_going w15 184 m14r15
  have e15 : runGame 185 (s14r15.game) = runGame 184 (s14r16.game) := x15.1
  have w16 : FastGame.WF s14r16 := x15.2
  have x16 := runGame_fast_going w16 183 m14r16
  have e16 : runGame 184 (s14r16.game) = runGame 183 (s14r17.game) := x16.1
  have w17 : FastGame.WF s14r17 := x16.2
  have x17 := runGame_fast_going w17 182 m14r17
  have e17 : runGame 183 (s14r17.game) = runGame 182 (s14r18.game) := x17.1
  have w18 : FastGame.WF s14r18 := x17.2
  have x18 := runGame_fast_going w18 181 m14r18
  have e18 : runGame 182 (s14r18.game) = runGame 181 (s14r19.game) := x18.1
  have w19 : FastGame.WF s14r19 := x18.2
  have x19 := runGame_fast_going w19 180 m14r19
  have e19 : runGame 181 (s14r19.game) = runGame 180 (s14r20.game) := x19.1
  have w20 : FastGame.WF s14r20 := x19.2
  have x20 := runGame_fast_going w20 179 m14r20
  have e20 : runGame 180 (s14r20.game) = runGame 179 (s14r21.game) := x20.1
  have w21 : FastGame.WF s14r21 := x20.2
  have x21 := runGame_fast_going w21 178 m14r21
  have e21 : runGame 179 (s14r21.game) = runGame 178 (s14r22.game) := x21.1
  have w22 : FastGame.WF s14r22 := x21.2
  have x22 := runGame_fast_going w22 177 m14r22
  have e22 : runGame 178 (s14r22.game) = runGame 177 (s14r23.game) := x22.1
  have w23 : FastGame.WF s14r23 := x22.2
  have x23 := runGame_fast_going w23 176 m14r23
  have e23 : runGame 177 (s14r23.game) = runGame 176 (s14r24.game) := x23.1
  have w24 : FastGame.WF s14r24 := x23.2
  have x24 := runGame_fast_going w24 175 m14r24
  have e24 : runGame 176 (s14r24.game) = runGame 175 (s14r25.game) := x24.1
  have w25 : FastGame.WF s14r25 := x24.2
  have x25 := runGame_fast_going w25 174 m14r25
  have e25 : runGame 175 (s14r25.game) = runGame 174 (s14r26.game) := x25.1
  have w26 : FastGame.WF s14r26 := x25.2
  have x26 := runGame_fast_going w26 173 m14r26
  have e26 : runGame 174 (s14r26.game) = runGame 173 (s14r27.game) := x26.1
  have w27 : FastGame.WF s14r27 := x26.2
  have x27 := runGame_fast_going w27 172 m14r27
  have e27 : runGame 173 (s14r27.game) = runGame 172 (s14r28.game) := x27.1
  have w28 : FastGame.WF s14r28 := x27.2
  have x28 := runGame_fast_going w28 171 m14r28
  have e28 : runGame 172 (s14r28.game) = runGame 171 (s14r29.game) := x28.1
  have w29 : FastGame.WF s14r29 := x28.2
  have x29 := runGame_fast_going w29 170 m14r29
  have e29 : runGame 171 (s14r29.game) = runGame 170 (s14r30.game) := x29.1
  have w30 : FastGame.WF s14r30 := x29.2
  have x30 := runGame_fast_going w30 169 m14r30
  have e30 : runGame 170 (s14r30.game) = runGame 169 (s14r31.game) := x30.1
  have w31 : FastGame.WF s14r31 := x30.2
  have x31 := runGame_fast_going w31 168 m14r31
  have e31 : runGame 169 (s14r31.game) = runGame 168 (s14r32.game) := x31.1
  have w32 : FastGame.WF s14r32 := x31.2
  have x32 := runGame_fast_going w32 167 m14r32
  have e32 : runGame 168 (s14r32.game) = runGame 167 (s14r33.game) := x32.1
  have w33 : FastGame.WF s14r33 := x32.2
  have efin : runGame 167 (s14r33.game) = .ok (s14r34.game) := runGame_fast_over w33 166 m14r33
  rw [e0, e1, e2, e3, e4, e5, e6, e7, e8, e9, e10, e11, e12, e13, e14, e15, e16, e17, e18, e19, e20, e21, e22, e23, e24, e25, e26, e27, e28, e29, e30, e31, e32, efin]

theorem playp14 : playGame combat1 14 200 = .ok (s14r34.game) := by
  show (Board.with_elven_power combat1 14 >>= fun b => runGame 200 (Game.from_board b)) = _
  have hb : Board.with_elven_power combat1 14 = .ok (s14r0.game.board) := by decide!
  rw [hb, ebind_ok]
  have hg : Game.from_board (s14r0.game.board) = s14r0.game := by decide!
  rw [hg]
  exact runp14

theorem runp15 : runGame 200 (s15r0.game) = .ok (s15r30.game) := by
  have w0 : FastGame.WF s15r0 := ⟨by decide!, by decide!, by decide!, by decide!, by decide!⟩
  have x0 := runGame_fast_going w0 199 m15r0
  have e0 : runGame 200 (s15r0.game) = runGame 199 (s15r1.game) := x0.1
  have w1 : FastGame.WF s15r1 := x0.2
  have x1 := runGame_fast_going w1 198 m15r1
  have e1 : runGame 199 (s15r1.game) = runGame 198 (s15r2.game) := x1.1
  have w2 : FastGame.WF s15r2 := x1.2
  have x2 := runGame_fast_going w2 197 m15r2
  have e2 : runGame 198 (s15r2.game) = runGame 197 (s15r3.game) := x2.1
  have w3 : FastGame.WF s15r3 := x2.2
  have x3 := runGame_fast_going w3 196 m15r3
  have e3 : runGame 197 (s15r3.game) = runGame 196 (s15r4.game) := x3.1
  have w4 : FastGame.WF s15r4 := x3.2
  have x4 := runGame_fast_going w4 195 m15r4
  have e4 : runGame 196 (s15r4.game) = runGame 195 (s15r5.game) := x4.1
  have w5 : FastGame.WF s15r5 := x4.2
  have x5 := runGame_fast_going w5 194 m15r5
  have e5 : runGame 195 (s15r5.game) = runGame 194 (s15r6.game) := x5.1
  have w6 : FastGame.WF s15r6 := x5.2
  have x6 := runGame_fast_going w6 193 m15r6
  have e6 : runGame 194 (s15r6.game) = runGame 193 (s15r7.game) := x6.1
  have w7 : FastGame.WF s15r7 := x6.2
  have x7 := runGame_fast_going w7 192 m15r7
  have e7 : runGame 193 (s15r7.game) = runGame 192 (s15r8.game) := x7.1
  have w8 : FastGame.WF s15r8 := x7.2
  have x8 := runGame_fast_going w8 191 m15r8
  have e8 : runGame 192 (s15r8.game) = runGame 191 (s15r9.game) := x8.1
  have w9 : FastGame.WF s15r9 := x8.2
  have x9 := runGame_fast_going w9 190 m15r9
  have e9 : runGame 191 (s15r9.game) = runGame 190 (s15r10.game) := x9.1
  have w10 : FastGame.WF s15r10 := x9.2
  have x10 := runGame_fast_going w10 189 m15r10
  have e10 : runGame 190 (s15r10.game) = runGame 189 (s15r11.game) := x10.1
  have w11 : FastGame.WF s15r11 := x10.2
  have x11 := runGame_fast_going w11 188 m15r11
  have e11 : runGame 189 (s15r11.game) = runGame 188 (s15r12.game) := x11.1
  have w12 : FastGame.WF s15r12 := x11.2
  have x12 := runGame_fast_going w12 187 m15r12
  have e12 : runGame 188 (s15r12.game) = runGame 187 (s15r13.game) := x12.1
  have w13 : FastGame.WF s15r13 := x12.2
  have x13 := runGame_fast_going w13 186 m15r13
  have e13 : runGame 187 (s15r13.game) = runGame 186 (s15r14.game) := x13.1
  have w14 : FastGame.WF s15r14 := x13.2
  have x14 := runGame_fast_going w14 185 m15r14
  have e14 : runGame 186 (s15r14.game) = runGame 185 (s15r15.game) := x14.1
  have w15 : FastGame.WF s15r15 := x14.2
  have x15 := runGame_fast_going w15 184 m15r15
  have e15 : runGame 185 (s15r15.game) = runGame 184 (s15r16.game) := x15.1
  have w16 : FastGame.WF s15r16 := x15.2
  have x16 := runGame_fast_going w16 183 m15r16
  have e16 : runGame 184 (s15r16.game) = runGame 183 (s15r17.game) := x16.1
  have w17 : FastGame.WF s15r17 := x16.2
  have x17 := runGame_fast_going w17 182 m15r17
  have e17 : runGame 183 (s15r17.game) = runGame 182 (s15r18.game) := x17.1
  have w18 : FastGame.WF s15r18 := x17.2
  have x18 := runGame_fast_going w18 181 m15r18
  have e18 : runGame 182 (s15r18.game) = runGame 181 (s15r19.game) := x18.1
  have w19 : FastGame.WF s15r19 := x18.2
  have x19 := runGame_fast_going w19 180 m15r19
  have e19 : runGame 181 (s15r19.game) = runGame 180 (s15r20.game) := x19.1
  have w20 : FastGame.WF s15r20 := x19.2
  have x20 := runGame_fast_going w20 179 m15r20
  have e20 : runGame 180 (s15r20.game) = runGame 179 (s15r21.game) := x20.1
  have w21 : FastGame.WF s15r21 := x20.2
  have x21 := runGame_fast_going w21 178 m15r21
  have e21 : runGame 179 (s15r21.game) = runGame 178 (s15r22.game) := x21.1
  have w22 : FastGame.WF s15r22 := x21.2
  have x22 := runGame_fast_going w22 177 m15r22
  have e22 : runGame 178 (s15r22.game) = runGame 177 (s15r23.game) := x22.1
  have w23 : FastGame.WF s15r23 := x22.2
  have x23 := runGame_fast_going w23 176 m15r23
  have e23 : runGame 177 (s15r23.game) = runGame 176 (s15r24.game) := x23.1
  have w24 : FastGame.WF s15r24 := x23.2
  have x24 := runGame_fast_going w24 175 m15r24
  have e24 : runGame 176 (s15r24.game) = runGame 175 (s15r25.game) := x24.1
  have w25 : FastGame.WF s15r25 := x24.2
  have x25 := runGame_fast_going w25 174 m15r25
  have e25 : runGame 175 (s15r25.game) = runGame 174 (s15r26.game) := x25.1
  have w26 : FastGame.WF s15r26 := x25.2
  have x26 := runGame_fast_going w26 173 m15r26
  have e26 : runGame 174 (s15r26.game) = runGame 173 (s15r27.game) := x26.1
  have w27 : FastGame.WF s15r27 := x26.2
  have x27 := runGame_fast_going w27 172 m15r27
  have e27 : runGame 173 (s15r27.game) = runGame 172 (s15r28.game) := x27.1
  have w28 : FastGame.WF s15r28 := x27.2
  have x28 := runGame_fast_going w28 171 m15r28
  have e28 : runGame 172 (s15r28.game) = runGame 171 (s15r29.game) := x28.1
  have w29 : FastGame.WF s15r29 := x28.2
  have efin : runGame 171 (s15r29.game) = .ok (s15r30.game) := runGame_fast_over w29 170 m15r29
  rw [e0, e1, e2, e3, e4, e5, e6, e7, e8, e9, e10, e11, e12, e13, e14, e15, e16, e17, e18, e19, e20, e21, e22, e23, e24, e25, e26, e27, e28, efin]

theorem playp15 : playGame combat1 15 200 = .ok (s15r30.game) := by
  show (Board.with_elven_power combat1 15 >>= fun b => runGame 200 (Game.from_board b)) = _
  have hb : Board.with_elven_power combat1 15 = .ok (s15r0.game.board) := by decide!
  rw [hb, ebind_ok]
  have hg : Game.from_board (s15r0.game.board) = s15r0.game := by decide!
  rw [hg]
  exact runp15





theorem searchFrom_cons (bytes : List Nat) (fuel p : Nat) (rest : List Nat) :
    searchFrom bytes fuel (p :: rest) =
      (playGame bytes p fuel >>= fun g =>
        if g.defeated_elves == 0 then .ok (some (p, g.checksum))
        else searchFrom bytes fuel rest) := rfl

theorem boost_result : boostSearch combat1 200 = .ok (some (15, 4988)) := by
  show searchFrom combat1 200 ((List.range 256).drop 4) = _
  rw [show (List.range 256).drop 4 = 4 :: (List.range 256).drop 5 from by decide!]
  rw [searchFrom_cons, playp4, ebind_ok]
  show (if (s4r48.game.defeated_elves == 0) then _ else _) = _
  rw [show (s4r48.game.defeated_elves == 0) = false from by decide!]
  simp only [Bool.false_eq_true, if_false]
  rw [show (List.range 256).drop 5 = 5 :: (List.range 256).drop 6 from by decide!]
  rw [searchFrom_cons, playp5, ebind_ok]
  show (if (s5r49.game.defeated_elves == 0) then _ else _) = _
  rw [show (s5r49.game.defeated_elves == 0) = false from by decide!]
  simp only [Bool.false_eq_true, if_false]
  rw [show (List.range 256).drop 6 = 6 :: (List.range 256).drop 7 from by decide!]
  rw [searchFrom_cons, playp6, ebind_ok]
  show (if (s6r50.game.defeated_elves == 0) then _ else _) = _
  rw [show (s6r50.game.defeated_elves == 0) = false from by decide!]
  simp only [Bool.false_eq_true, if_false]
  rw [show (List.range 256).drop 7 = 7 :: (List.range 256).drop 8 from by decide!]
  rw [searchFrom_cons, playp7, ebind_ok]
  show (if (s7r50.game.defeated_elves == 0) then _ else _) = _
  rw [show (s7r50.game.defeated_elves == 0) = false from by decide!]
  simp only [Bool.false_eq_true, if_false]
  rw [show (List.range 256).drop 8 = 8 :: (List.range 256).drop 9 from by decide!]
  rw [searchFrom_cons, playp8, ebind_ok]
  show (if (s8r50.game.defeated_elves == 0) then _ else _) = _
  rw [show (s8r50.game.defeated_elves == 0) = false from by decide!]
  simp only [Bool.false_eq_true, if_false]
  rw [show (List.range 256).drop 9 = 9 :: (List.range 256).drop 10 from by decide!]
  rw [searchFrom_cons, playp9, ebind_ok]
  show (if (s9r55.game.defeated_elves == 0) then _ else _) = _
  rw [show (s9r55.game.defeated_elves == 0) = false from by decide!]
  simp only [Bool.false_eq_true, if_false]
  rw [show (List.range 256).drop 10 = 10 :: (List.range 256).drop 11 from by decide!]
  rw [searchFrom_cons, playp10, ebind_ok]
  show (if (s10r59.game.defeated_elves == 0) then _ else _) = _
  rw [show (s10r59.game.defeated_elves == 0) = false from by decide!]
  simp only [Bool.false_eq_true, if_false]
  rw [show (List.range 256).drop 11 = 11 :: (List.range 256).drop 12 from by decide!]
  rw [searchFrom_cons, playp11, ebind_ok]
  show (if (s11r54.game.defeated_elves == 0) then _ else _) = _
  rw [show (s11r54.game.defeated_elves == 0) = false from by decide!]
  simp only [Bool.false_eq_true, if_false]
  rw [show (List.range 256).drop 12 = 12 :: (List.range 256).drop 13 from by decide!]
  rw [searchFrom_cons, playp12, ebind_ok]
  show (if (s12r45.game.defeated_elves == 0) then _ else _) = _
  rw [show (s12r45.game.defeated_elves == 0) = false from by decide!]
  simp only [Bool.false_eq_true, if_false]
  rw [show (List.range 256).drop 13 = 13 :: (List.range 256).drop 14 from by decide!]
  rw [searchFrom_cons, playp13, ebind_ok]
  show (if (s13r40.game.defeated_elves == 0) then _ else _) = _
  rw [show (s13r40.game.defeated_elves == 0) = false from by decide!]
  simp only [Bool.false_eq_true, if_false]
  rw [show (List.range 256).drop 14 = 14 :: (List.range 256).drop 15 from by decide!]
  rw [searchFrom_cons, playp14, ebind_ok]
  show (if (s14r34.game.defeated_elves == 0) then _ else _) = _
  rw [show (s14r34.game.defeated_elves == 0) = false from by decide!]
  simp only [Bool.false_eq_true, if_false]
  rw [show (List.range 256).drop 15 = 15 :: (List.range 256).drop 16 from by decide!]
  rw [searchFrom_cons, playp15, ebind_ok]
  show (if (s15r30.game.defeated_elves == 0) then _ else _) = _
  rw [show (s15r30.game.defeated_elves == 0) = true from by decide!]
  simp only [if_true]
  rw [show s15r30.game.checksum = 4988 from by decide!]

/-- C2: On the canonical 7x7 fixture, attack power 3 ends after 47 completed
rounds with 590 total hp and checksum 27730; the zero-loss boost search
returns power 15 with checksum 4988 = 29 * 172, with no elves lost. -/
theorem combat1_results :
    (playGame combat1 3 200).map
        (fun g => (g.completed_turns, g.board.total_hp, g.checksum)) =
      .ok (47, 590, 27730) ∧
    boostSearch combat1 200 = .ok (some (15, 4988)) ∧
    (playGame combat1 15 200).map
        (fun g => (g.completed_turns, g.board.total_hp, g.checksum, g.defeated_elves)) =
      .ok (29, 172, 4988, 0) := by
  refine ⟨?_, boost_result, ?_⟩
  · rw [playp3, emap_ok]
    rw [show (s3r48.game.completed_turns, s3r48.game.board.total_hp, s3r48.game.checksum)
      = (47, 590, 27730) from by decide!]
  · rw [playp15, emap_ok]
    rw [show (s15r30.game.completed_turns, s15r30.game.board.total_hp, s15r30.game.checksum,
      s15r30.game.defeated_elves) = (29, 172, 4988, 0) from by decide!]




/-! ### minByKey: membership, minimality, and first-ness -/

theorem minByKey_mem {α κ : Type} {lt : κ → κ → Bool} {key : α → κ} {l : List α} {e : α}
    (h : minByKey lt key l = some e) : e ∈ l := by
  match l, h with
  | x :: xs, h =>
    simp only [minByKey, Option.some.injEq] at h
    subst h
    exact foldlMin_mem (fun a b => lt (key a) (key b)) xs x

theorem minByKey_min {α κ : Type} {lt : κ → κ → Bool} {key : α → κ}
    (htr : ∀ x y z : κ, lt x y = true → lt y z = true → lt x z = true)
    (hntr : ∀ x y z : κ, lt x y = false → lt y z = false → lt x z = false)
    (hirr : ∀ x : κ, lt x x = false)
    {l : List α} {e : α} (h : minByKey lt key l = some e) :
    ∀ f ∈ l, lt (key f) (key e) = false := by
  match l, h with
  | x :: xs, h =>
    simp only [minByKey, Option.some.injEq] at h
    subst h
    intro f hf
    refine foldlMin_min (fun a b => lt (key a) (key b)) ?_ ?_ ?_ xs x f hf
    · exact fun a b c hab hbc => htr _ _ _ hab hbc
    · exact fun a b c hab hbc => hntr _ _ _ hab hbc
    · exact fun a => hirr _

theorem foldlMin_first {α : Type} (lt : α → α → Bool)
    (htr : ∀ x y z : α, lt x y = true → lt y z = true → lt x z = true)
    (hntr : ∀ x y z : α, lt x y = false → lt y z = false → lt x z = false)
    (hirr : ∀ x : α, lt x x = false)
    (hmix1 : ∀ m y a : α, lt y a = true → lt y m = false → lt m a = true)
    (hmix2 : ∀ m y a : α, lt m a = true → lt y a = false → lt m y = true) :
    ∀ (xs : List α) (a : α),
      ∃ l1 l2,
        a :: xs = l1 ++ (xs.foldl (fun best y => if lt y best then y else best) a) :: l2 ∧
        ∀ f ∈ l1, lt (xs.foldl (fun best y => if lt y best then y else best) a) f = true := by
  intro xs
  induction xs with
  | nil =>
    intro a
    exact ⟨[], [], rfl, fun f hf => absurd hf (List.not_mem_nil f)⟩
  | cons y ys ih =>
    intro a
    simp only [List.foldl_cons]
    by_cases hc : lt y a = true
    · rw [if_pos hc]
      obtain ⟨l1, l2, hdec, hmin⟩ := ih y
      refine ⟨a :: l1, l2, by rw [List.cons_append, ← hdec], ?_⟩
      have hym : lt y (ys.foldl (fun best z => if lt z best then z else best) y) = false :=
        foldlMin_min lt htr hntr hirr ys y y (by simp)
      intro f hf
      rcases List.mem_cons.mp hf with hfe | hfe
      · subst hfe
        exact hmix1 _ y f hc hym
      · exact hmin f hfe
    · have hcf : lt y a = false := by
        cases h : lt y a
        · rfl
        · exact absurd h hc
      rw [if_neg hc]
      obtain ⟨l1, l2, hdec, hmin⟩ := ih a
      cases l1 with
      | nil =>
        simp only [List.nil_append] at hdec
        have ha : a = ys.foldl (fun best z => if lt z best then z else best) a := by
          have := List.head_eq_of_cons_eq hdec
          exact this
        have hys : ys = l2 := List.tail_eq_of_cons_eq hdec
        refine ⟨[], y :: ys, ?_, fun f hf => absurd hf (List.not_mem_nil f)⟩
        rw [List.nil_append, ← ha]
      | cons p l1t =>
        rw [List.cons_append] at hdec
        have hap : a = p := List.head_eq_of_cons_eq hdec
        have hys : ys = l1t ++ (ys.foldl (fun best z => if lt z best then z else best) a) :: l2 :=
          List.tail_eq_of_cons_eq hdec
        refine ⟨a :: y :: l1t, l2, ?_, ?_⟩
        · rw [List.cons_append, List.cons_append, ← hys]
        · have hma : lt (ys.foldl (fun best z => if lt z best then z else best) a) a = true := by
            have := hmin p (List.mem_cons_self _ _)
            rw [← hap] at this
            exact this
          intro f hf
          rcases List.mem_cons.mp hf with hfe | hfe
          · subst hfe
            exact hma
          · rcases List.mem_cons.mp hfe with hfe2 | hfe2
            · subst hfe2
              exact hmix2 _ f a hma hcf
            · exact hmin f (List.mem_cons_of_mem _ hfe2)

theorem minByKey_first {α κ : Type} {lt : κ → κ → Bool} {key : α → κ}
    (htr : ∀ x y z : κ, lt x y = true → lt y z = true → lt x z = true)
    (hntr : ∀ x y z : κ, lt x y = false → lt y z = false → lt x z = false)
    (hirr : ∀ x : κ, lt x x = false)
    (hmix1 : ∀ m y a : κ, lt y a = true → lt y m = false → lt m a = true)
    (hmix2 : ∀ m y a : κ, lt m a = true → lt y a = false → lt m y = true)
    {l : List α} {e : α} (h : minByKey lt key l = some e) :
    ∃ l1 l2, l = l1 ++ e :: l2 ∧ ∀ f ∈ l1, lt (key e) (key f) = true := by
  match l, h with
  | x :: xs, h =>
    simp only [minByKey, Option.some.injEq] at h
    subst h
    exact foldlMin_first (fun a b => lt (key a) (key b))
      (fun p q r => htr _ _ _) (fun p q r => hntr _ _ _) (fun p => hirr _)
      (fun p q r => hmix1 _ _ _) (fun p q r => hmix2 _ _ _) xs x

/-! ### Claim C3: victory check -/

/-- C3: When the popped unit's team has already won (the registry holds only
its own team), `progress` returns `Over` with the board, round counter and
loss tally unchanged; the in-progress round is not counted. -/
theorem progress_over_of_team_won (g : Game) (p : Point) (rest : List Point) (u : Unit)
    (hq : g.to_be_moved = p :: rest)
    (hu : lookupAL g.board.units p = some u)
    (hw : g.board.team_won u.team = true) :
    g.progress = .ok (GameState.Over,
      { completed_turns := g.completed_turns, to_be_moved := rest,
        board := g.board, defeated_elves := g.defeated_elves }) := by
  unfold Game.progress
  simp only [hq, hu, hw, if_true]

/-! ### Association list and tile lemmas for C4 and C7 -/

theorem lookupAL_erase_self (l : List (Point × Unit)) (k : Point) :
    lookupAL (eraseAL k l) k = none := by
  induction l with
  | nil => rfl
  | cons e rest ih =>
    obtain ⟨q, v⟩ := e
    by_cases hc : q.eqb k = true
    · simp only [eraseAL, List.filter_cons, hc, Bool.not_true, Bool.false_eq_true, if_false]
      exact ih
    · have hcf : q.eqb k = false := by
        cases h : q.eqb k
        · rfl
        · exact absurd h hc
      simp only [eraseAL, List.filter_cons, hcf, Bool.not_false, if_true, lookupAL, hc,
        Bool.false_eq_true, if_false]
      exact ih

theorem lookupAL_erase_other (l : List (Point × Unit)) (k q : Point) (hne : ¬q = k) :
    lookupAL (eraseAL k l) q = lookupAL l q := by
  induction l with
  | nil => rfl
  | cons e rest ih =>
    obtain ⟨p, v⟩ := e
    by_cases hc : p.eqb k = true
    · have hpq : p.eqb q = false := by
        cases h : p.eqb q
        · rfl
        · exact absurd ((Point.eqb_iff.mp h).symm.trans (Point.eqb_iff.mp hc)) hne
      simp only [eraseAL, List.filter_cons, hc, Bool.not_true, Bool.false_eq_true, if_false,
        lookupAL, hpq]
      exact ih
    · have hcf : p.eqb k = false := by
        cases h : p.eqb k
        · rfl
        · exact absurd h hc
      simp only [eraseAL, List.filter_cons, hcf, Bool.not_false, if_true, lookupAL]
      by_cases hpq : p.eqb q = true
      · rw [hpq]
        rfl
      · have h2 : p.eqb q = false := by
          cases h : p.eqb q
          · rfl
          · exact absurd h hpq
        rw [h2]
        simp only [Bool.false_eq_true, if_false]
        exact ih

theorem lookupAL_insert_self (l : List (Point × Unit)) (k : Point) (v : Unit) :
    lookupAL (insertAL k v l) k = some v := by
  show (if k.eqb k then some v else _) = _
  rw [Point.eqb_iff.mpr rfl]
  rfl

theorem lookupAL_insert_other (l : List (Point × Unit)) (k q : Point) (v : Unit)
    (hne : ¬q = k) : lookupAL (insertAL k v l) q = lookupAL l q := by
  show (if k.eqb q then some v else lookupAL (eraseAL k l) q) = _
  have hk : k.eqb q = false := by
    cases h : k.eqb q
    · rfl
    · exact absurd (Point.eqb_iff.mp h).symm hne
  rw [hk]
  simp only [Bool.false_eq_true, if_false]
  exact lookupAL_erase_other l k q hne

theorem get_setTile_self {b : Board} {p : Point} (hb : b.bounds_check p = true)
    (hl : b.index_of_point p < b.map.length) (t : Tile) :
    (b.setTile p t).get p = some t := by
  show (if b.bounds_check p then (b.map.set (b.index_of_point p) t).get? (b.index_of_point p)
    else none) = some t
  rw [if_pos hb]
  exact get?_set_self _ _ _ hl

theorem get_setTile_other {b : Board} {p q : Point} (t : Tile)
    (hne : ¬b.index_of_point q = b.index_of_point p) :
    (b.setTile p t).get q = b.get q := by
  show (if b.bounds_check q then (b.map.set (b.index_of_point p) t).get? (b.index_of_point q)
    else none) = b.get q
  unfold Board.get
  by_cases hb : b.bounds_check q = true
  · rw [if_pos hb, if_pos hb]
    exact get?_set_other _ _ _ _ (fun hc => hne (hc.symm))
  · rw [if_neg hb, if_neg hb]

/-! ### Claim C4: saturating damage and defeat handling -/

theorem attack_behavior (b : Board) (attacker attacked : Point) (res : Option Unit)
    (b' : Board) (h : b.attack attacker attacked = .ok (res, b')) :
    ∃ au tu, lookupAL b.units attacker = some au ∧ lookupAL b.units attacked = some tu ∧
      (tu.take_damage au.attack).hp = tu.hp - au.attack ∧
      ((tu.hp ≤ au.attack ∧ res = some (tu.take_damage au.attack) ∧
          lookupAL b'.units attacked = none ∧ b'.get attacked = some Tile.Empty) ∨
       (au.attack < tu.hp ∧ res = none ∧
          lookupAL b'.units attacked = some (tu.take_damage au.attack))) := by
  unfold Board.attack at h
  split at h
  · rename_i au hau
    split at h
    · rename_i tu htu
      simp only [] at h
      refine ⟨au, tu, hau, htu, rfl, ?_⟩
      split at h
      · rename_i hdef
        have hhp : tu.hp - au.attack = 0 := beq_iff_eq.mp hdef
        split at h
        · rename_i tile htile
          split at h
          · simp only [Except.ok.injEq, Prod.mk.injEq] at h
            obtain ⟨h1, h2⟩ := h
            refine Or.inl ⟨by omega, h1.symm, ?_, ?_⟩
            · rw [← h2]
              exact lookupAL_erase_self _ _
            · rw [← h2]
              have hbnd := get_some_bounds htile
              have hlen : b.index_of_point attacked < b.map.length := by
                have : b.map.get? (b.index_of_point attacked) = some tile := by
                  unfold Board.get at htile
                  rw [if_pos hbnd] at htile
                  exact htile
                exact get?_some_lt this
              exact get_setTile_self hbnd hlen Tile.Empty
          · exact Except.noConfusion h
        · exact Except.noConfusion h
      · rename_i hdef
        have hhp : ¬tu.hp - au.attack = 0 := fun hc => hdef (beq_iff_eq.mpr hc)
        simp only [Except.ok.injEq, Prod.mk.injEq] at h
        obtain ⟨h1, h2⟩ := h
        refine Or.inr ⟨by omega, h1.symm, ?_⟩
        rw [← h2]
        show lookupAL (insertAL attacked (tu.take_damage au.attack) b.units) attacked = _
        exact lookupAL_insert_self _ _ _
    · exact Except.noConfusion h
  · exact Except.noConfusion h

theorem attackPhase_queue (board : Board) (queue : List Point) (de : Nat) (pos : Point)
    (et : Team) (b2 : Board) (q2 : List Point) (de2 : Nat)
    (h : attackPhase board queue de pos et = .ok (b2, q2, de2)) :
    (b2 = board ∧ q2 = queue ∧ de2 = de) ∨
    (∃ attacked du, board.attack pos attacked = .ok (some du, b2) ∧
      q2 = queue.erase attacked ∧
      de2 = (if du.team == Team.Elf then de + 1 else de)) ∨
    (∃ attacked, board.attack pos attacked = .ok (none, b2) ∧ q2 = queue ∧ de2 = de) := by
  unfold attackPhase at h
  simp only [] at h
  split at h
  · simp only [Except.ok.injEq, Prod.mk.injEq] at h
    exact Or.inl ⟨h.1.symm, h.2.1.symm, h.2.2.symm⟩
  · rename_i attacked w hmin
    cases ha : board.attack pos attacked with
    | error e =>
      rw [ha, ebind_err] at h
      exact Except.noConfusion h
    | ok r =>
      obtain ⟨defeated, board2⟩ := r
      rw [ha, ebind_ok] at h
      cases defeated with
      | none =>
        simp only [Except.ok.injEq, Prod.mk.injEq] at h
        refine Or.inr (Or.inr ⟨attacked, ?_, h.2.1.symm, h.2.2.symm⟩)
        rw [ha, h.1]
      | some du =>
        simp only [Except.ok.injEq, Prod.mk.injEq] at h
        refine Or.inr (Or.inl ⟨attacked, du, ?_, h.2.1.symm, h.2.2.symm⟩)
        rw [ha, h.1]

theorem attackPhase_as_cands (board : Board) (queue : List Point) (de : Nat)
    (this_pos : Point) (et : Team) :
    attackPhase board queue de this_pos et =
      match minByKey hpPointLt (fun e => (e.2.hp, e.1)) (attackCands board this_pos et) with
      | none => .ok (board, queue, de)
      | some (attacked, _) =>
        board.attack this_pos attacked >>= (fun x =>
          match x with
          | (defeated, board') =>
            match defeated with
            | none => .ok (board', queue, de)
            | some u =>
              .ok (board', queue.erase attacked,
                if u.team == Team.Elf then de + 1 else de)) := rfl

theorem hpPointLt_iff {a b : Nat × Point} :
    hpPointLt a b = true ↔
      a.1 < b.1 ∨ (a.1 = b.1 ∧ (a.2.y < b.2.y ∨ (a.2.y = b.2.y ∧ a.2.x < b.2.x))) := by
  simp [hpPointLt, Nat.blt_eq, Nat.beq_eq, Point.ltb_iff]

theorem hpPointLt_false_iff {a b : Nat × Point} :
    hpPointLt a b = false ↔
      ¬(a.1 < b.1 ∨ (a.1 = b.1 ∧ (a.2.y < b.2.y ∨ (a.2.y = b.2.y ∧ a.2.x < b.2.x)))) := by
  rw [← Bool.not_eq_true, hpPointLt_iff]

theorem hpPointLt_trans {x y z : Nat × Point} (h1 : hpPointLt x y = true)
    (h2 : hpPointLt y z = true) : hpPointLt x z = true := by
  rw [hpPointLt_iff] at h1 h2 ⊢
  omega

theorem hpPointLt_not_trans {x y z : Nat × Point} (h1 : hpPointLt x y = false)
    (h2 : hpPointLt y z = false) : hpPointLt x z = false := by
  rw [hpPointLt_false_iff] at h1 h2 ⊢
  omega

theorem hpPointLt_irrefl (x : Nat × Point) : hpPointLt x x = false := by
  rw [hpPointLt_false_iff]
  omega

theorem hpPointLt_trans3 : ∀ x y z : Nat × Point, hpPointLt x y = true →
    hpPointLt y z = true → hpPointLt x z = true :=
  fun _ _ _ h1 h2 => hpPointLt_trans h1 h2

theorem hpPointLt_not_trans3 : ∀ x y z : Nat × Point, hpPointLt x y = false →
    hpPointLt y z = false → hpPointLt x z = false :=
  fun _ _ _ h1 h2 => hpPointLt_not_trans h1 h2

/-- C5: The attack target is the adjacent enemy minimizing `(hp, position)`
with reading-order position tie-break: no candidate compares strictly below
the chosen one, and `attackPhase` attacks exactly that candidate; with no
adjacent enemy the phase leaves board, queue and tally unchanged. -/
theorem attack_target_selection_main (board : Board) (queue : List Point) (de : Nat)
    (this_pos : Point) (et : Team) :
    (attackCands board this_pos et = [] →
      attackPhase board queue de this_pos et = .ok (board, queue, de)) ∧
    (∀ (attacked : Point) (u : Unit),
      minByKey hpPointLt (fun e => (e.2.hp, e.1)) (attackCands board this_pos et) =
        some (attacked, u) →
      (attacked, u) ∈ attackCands board this_pos et ∧
      (∀ f ∈ attackCands board this_pos et,
        hpPointLt (f.2.hp, f.1) (u.hp, attacked) = false) ∧
      attackPhase board queue de this_pos et =
        (match board.attack this_pos attacked with
         | .error e => .error e
         | .ok (none, board') => .ok (board', queue, de)
         | .ok (some du, board') =>
           .ok (board', queue.erase attacked,
             if du.team == Team.Elf then de + 1 else de))) := by
  constructor
  · intro hc
    rw [attackPhase_as_cands, hc]
    rfl
  · intro attacked u hmin
    refine ⟨minByKey_mem hmin, ?_, ?_⟩
    · intro f hf
      exact minByKey_min hpPointLt_trans3 hpPointLt_not_trans3 hpPointLt_irrefl hmin f hf
    · rw [attackPhase_as_cands, hmin]
      show (board.attack this_pos attacked >>= (fun x =>
        match x with
        | (defeated, board') =>
          match defeated with
          | none => Except.ok (board', queue, de)
          | some u2 =>
            Except.ok (board', queue.erase attacked,
              if u2.team == Team.Elf then de + 1 else de))) = _
      cases ha : board.attack this_pos attacked with
      | error e => rfl
      | ok r =>
        obtain ⟨defeated, board2⟩ := r
        cases defeated with
        | none => rfl
        | some du => rfl

theorem sortKeys_sorted (units : List (Point × Unit)) :
    List.Sorted Point.le (sortKeys units) :=
  List.sorted_insertionSort Point.le (units.map Prod.fst)

theorem sortKeys_perm (units : List (Point × Unit)) :
    (sortKeys units).Perm (units.map Prod.fst) :=
  List.perm_insertionSort Point.le (units.map Prod.fst)

theorem start_new_turn_queue (g g' : Game) (h : g.start_new_turn = .ok g') :
    g'.board = g.board ∧ g'.defeated_elves = g.defeated_elves ∧
    g'.completed_turns = g.completed_turns + 1 ∧
    g'.to_be_moved = sortKeys g.board.units := by
  unfold Game.start_new_turn at h
  simp only [] at h
  split at h
  · exact Except.noConfusion h
  · simp only [Except.ok.injEq] at h
    rw [← h]
    exact ⟨rfl, rfl, rfl, rfl⟩

theorem progress_queue_evolution (g : Game) (p : Point) (rest : List Point)
    (s : GameState) (g' : Game) (hq : g.to_be_moved = p :: rest)
    (h : g.progress = .ok (s, g')) :
    g'.to_be_moved = rest ∨
    (∃ attacked, g'.to_be_moved = rest.erase attacked) ∨
    (g'.to_be_moved = sortKeys g'.board.units ∧
      g'.completed_turns = g.completed_turns + 1) := by
  unfold Game.progress at h
  rw [hq] at h
  simp only [] at h
  split at h
  · rename_i u hu
    split at h
    · simp only [Except.ok.injEq, Prod.mk.injEq] at h
      rw [← h.2]
      exact Or.inl rfl
    · split at h
      · rename_i dir hfd
        cases hmv : g.board.move_unit p dir with
        | error e =>
          rw [hmv, ebind_err] at h
          exact Except.noConfusion h
        | ok rr =>
          obtain ⟨p2, b2⟩ := rr
          rw [hmv, ebind_ok] at h
          simp only [] at h
          cases hap : attackPhase b2 rest g.defeated_elves p2 u.team.enemy with
          | error e =>
            rw [hap, ebind_err] at h
            exact Except.noConfusion h
          | ok r2 =>
            obtain ⟨board2, queue2, de2⟩ := r2
            rw [hap, ebind_ok] at h
            simp only [] at h
            split at h
            · unfold Game.start_new_turn at h
              simp only [] at h
              split at h
              · exact Except.noConfusion h
              · rw [ebind_ok] at h
                simp only [Except.ok.injEq, Prod.mk.injEq] at h
                rw [← h.2]
                exact Or.inr (Or.inr ⟨rfl, rfl⟩)
            · simp only [Except.ok.injEq, Prod.mk.injEq] at h
              rw [← h.2]
              rcases attackPhase_queue _ _ _ _ _ _ _ _ hap with h3 | h3 | h3
              · exact Or.inl h3.2.1
              · obtain ⟨attacked, du, _, hq2, _⟩ := h3
                exact Or.inr (Or.inl ⟨attacked, hq2⟩)
              · obtain ⟨attacked, _, hq2, _⟩ := h3
                exact Or.inl hq2
      · rename_i hfd
        rw [ebind_ok] at h
        simp only [] at h
        cases hap : attackPhase g.board rest g.defeated_elves p u.team.enemy with
        | error e =>
          rw [hap, ebind_err] at h
          exact Except.noConfusion h
        | ok r2 =>
          obtain ⟨board2, queue2, de2⟩ := r2
          rw [hap, ebind_ok] at h
          simp only [] at h
          split at h
          · unfold Game.start_new_turn at h
            simp only [] at h
            split at h
            · exact Except.noConfusion h
            · rw [ebind_ok] at h
              simp only [Except.ok.injEq, Prod.mk.injEq] at h
              rw [← h.2]
              exact Or.inr (Or.inr ⟨rfl, rfl⟩)
          · simp only [Except.ok.injEq, Prod.mk.injEq] at h
            rw [← h.2]
            rcases attackPhase_queue _ _ _ _ _ _ _ _ hap with h3 | h3 | h3
            · exact Or.inl h3.2.1
            · obtain ⟨attacked, du, _, hq2, _⟩ := h3
              exact Or.inr (Or.inl ⟨attacked, hq2⟩)
            · obtain ⟨attacked, _, hq2, _⟩ := h3
              exact Or.inl hq2
  · exact Except.noConfusion h

/-! ### Claim C10: numeric profile -/

theorem mem_insertAL {l : List (Point × Unit)} {k : Point} {v : Unit} {e : Point × Unit}
    (h : e ∈ insertAL k v l) : e = (k, v) ∨ e ∈ l := by
  have h2 : e ∈ (k, v) :: eraseAL k l := h
  cases h2 with
  | head => exact Or.inl rfl
  | tail _ h3 => exact Or.inr (List.mem_of_mem_filter h3)

theorem parse_units_start (power : Nat) :
    ∀ (bytes : List Nat) (st st2 : ParseState),
      bytes.foldlM (parseByte power) st = .ok st2 →
      (∀ e ∈ st.units, e.2.hp = 200 ∧
        e.2.attack = (if e.2.team == Team.Elf then power else 3)) →
      ∀ e ∈ st2.units, e.2.hp = 200 ∧
        e.2.attack = (if e.2.team == Team.Elf then power else 3) := by
  intro bytes
  induction bytes with
  | nil =>
    intro st st2 h hst
    have h2 : Except.ok st = Except.ok st2 := h
    cases h2
    exact hst
  | cons b rest ih =>
    intro st st2 h hst
    have h2 : (parseByte power st b >>= fun s2 => rest.foldlM (parseByte power) s2) =
        .ok st2 := h
    cases hp : parseByte power st b with
    | error e =>
      rw [hp, ebind_err] at h2
      exact Except.noConfusion h2
    | ok stm =>
      rw [hp, ebind_ok] at h2
      refine ih stm st2 h2 ?_
      unfold parseByte at hp
      split at hp
      · cases hp
        exact hst
      · split at hp
        · cases hp
          exact hst
        · split at hp
          · cases hp
            intro e he
            rcases mem_insertAL he with he2 | he2
            · rw [he2]
              exact ⟨rfl, rfl⟩
            · exact hst e he2
          · split at hp
            · cases hp
              intro e he
              rcases mem_insertAL he with he2 | he2
              · rw [he2]
                exact ⟨rfl, rfl⟩
              · exact hst e he2
            · split at hp
              · cases hp
                exact hst
              · exact Except.noConfusion hp

theorem board_units_start (bytes : List Nat) (power : Nat) (b : Board)
    (h : Board.with_elven_power bytes power = .ok b) :
    ∀ e ∈ b.units, e.2.hp = 200 ∧
      e.2.attack = (if e.2.team == Team.Elf then power else 3) := by
  unfold Board.with_elven_power at h
  cases hf : bytes.foldlM (parseByte power) ⟨[], ⟨0, 0⟩, [], ⟨0, 0⟩⟩ with
  | error e =>
    rw [hf, emap_err] at h
    exact Except.noConfusion h
  | ok st =>
    rw [hf, emap_ok] at h
    simp only [Except.ok.injEq] at h
    rw [← h]
    exact parse_units_start power bytes _ st hf (by intro e he; cases he)

theorem searchFrom_mem (bytes : List Nat) (fuel : Nat) :
    ∀ (l : List Nat) (power c : Nat),
      searchFrom bytes fuel l = .ok (some (power, c)) → power ∈ l := by
  intro l
  induction l with
  | nil =>
    intro power c h
    have h2 : (Except.ok none : Except String (Option (Nat × Nat))) = .ok (some (power, c)) := h
    simp only [Except.ok.injEq] at h2
    exact Option.noConfusion h2
  | cons p rest ih =>
    intro power c h
    unfold searchFrom at h
    cases hg : playGame bytes p fuel with
    | error e =>
      rw [hg, ebind_err] at h
      exact Except.noConfusion h
    | ok g =>
      rw [hg, ebind_ok] at h
      split at h
      · simp only [Except.ok.injEq, Option.some.injEq, Prod.mk.injEq] at h
        rw [← h.1]
        exact List.mem_cons_self p rest
      · exact List.mem_cons_of_mem p (ih power c h)

theorem range_drop_bounds : ∀ p ∈ (List.range 256).drop 4, 4 ≤ p ∧ p ≤ 255 := by decide

/-! ### Claim C8: parser acceptance -/

theorem parseByte_ok_iff (power : Nat) (st : ParseState) (b : Nat) :
    (∃ st2, parseByte power st b = .ok st2) ↔
      (b = 46 ∨ b = 35 ∨ b = 71 ∨ b = 69 ∨ b = 10) := by
  unfold parseByte
  constructor
  · rintro ⟨st2, h⟩
    by_contra hbad
    push_neg at hbad
    obtain ⟨n1, n2, n3, n4, n5⟩ := hbad
    rw [if_neg n1, if_neg n2, if_neg n3, if_neg n4, if_neg n5] at h
    exact Except.noConfusion h
  · intro hb
    rcases hb with h | h | h | h | h
    · subst h
      exact ⟨_, by rw [if_pos rfl]⟩
    · subst h
      exact ⟨_, by rw [if_neg (by omega), if_pos rfl]⟩
    · subst h
      exact ⟨_, by rw [if_neg (by omega), if_neg (by omega), if_pos rfl]⟩
    · subst h
      exact ⟨_, by rw [if_neg (by omega), if_neg (by omega), if_neg (by omega), if_pos rfl]⟩
    · subst h
      exact ⟨_, by rw [if_neg (by omega), if_neg (by omega), if_neg (by omega),
        if_neg (by omega), if_pos rfl]⟩

theorem foldlM_parse_ok_iff (power : Nat) :
    ∀ (bytes : List Nat) (st : ParseState),
      (∃ st2, bytes.foldlM (parseByte power) st = .ok st2) ↔
        ∀ c ∈ bytes, c = 46 ∨ c = 35 ∨ c = 71 ∨ c = 69 ∨ c = 10 := by
  intro bytes
  induction bytes with
  | nil =>
    intro st
    constructor
    · intro _ c hc
      exact absurd hc (List.not_mem_nil c)
    · intro _
      exact ⟨st, rfl⟩
  | cons b rest ih =>
    intro st
    constructor
    · rintro ⟨st2, h⟩ c hc
      have h2 : (parseByte power st b >>= fun s2 => rest.foldlM (parseByte power) s2) =
          .ok st2 := h
      cases hp : parseByte power st b with
      | error e =>
        rw [hp, ebind_err] at h2
        exact Except.noConfusion h2
      | ok stm =>
        rw [hp, ebind_ok] at h2
        rcases List.mem_cons.mp hc with hce | hce
        · rw [hce]
          exact (parseByte_ok_iff power st b).mp ⟨stm, hp⟩
        · exact (ih stm).mp ⟨st2, h2⟩ c hce
    · intro hall
      obtain ⟨stm, hp⟩ := (parseByte_ok_iff power st b).mpr (hall b (List.mem_cons_self b rest))
      obtain ⟨st2, h2⟩ := (ih stm).mpr (fun c hc => hall c (List.mem_cons_of_mem b hc))
      refine ⟨st2, ?_⟩
      show (parseByte power st b >>= fun s2 => rest.foldlM (parseByte power) s2) = .ok st2
      rw [hp, ebind_ok]
      exact h2

/-- C8: Amended parser boundary. The parser succeeds exactly when every byte
is one of the five legal map characters: a bad byte is rejected before any
simulation, but ragged rows and one-team maps are accepted, refuting the
rectangularity and two-team parts of the claim. -/
theorem parser_accepts_iff_bytes_legal (bytes : List Nat) (power : Nat) :
    (∃ b, Board.with_elven_power bytes power = .ok b) ↔
      ∀ c ∈ bytes, c = 46 ∨ c = 35 ∨ c = 71 ∨ c = 69 ∨ c = 10 := by
  constructor
  · rintro ⟨b, h⟩
    unfold Board.with_elven_power at h
    cases hf : bytes.foldlM (parseByte power) ⟨[], ⟨0, 0⟩, [], ⟨0, 0⟩⟩ with
    | error e =>
      rw [hf, emap_err] at h
      exact Except.noConfusion h
    | ok st =>
      exact (foldlM_parse_ok_iff power bytes _).mp ⟨st, hf⟩
  · intro hall
    obtain ⟨st, hf⟩ := (foldlM_parse_ok_iff power bytes ⟨[], ⟨0, 0⟩, [], ⟨0, 0⟩⟩).mpr hall
    refine ⟨⟨st.size, st.map, st.units⟩, ?_⟩
    unfold Board.with_elven_power
    rw [hf, emap_ok]

theorem ragged_and_one_team_accepted :
    (Board.new [46, 71, 10, 69, 10]).toOption.isSome = true ∧
    (Board.new [71, 10]).toOption.isSome = true ∧
    (Board.new [63, 10]).toOption.isSome = false := by
  refine ⟨?_, ?_, ?_⟩ <;> decide

theorem parser_accepts_witness :
    ∃ b, Board.with_elven_power [46, 10] 3 = .ok b :=
  (parser_accepts_iff_bytes_legal [46, 10] 3).mpr (by decide)

theorem victory_check_witness :
    Game.progress gC3 = .ok (GameState.Over,
      { completed_turns := 7, to_be_moved := [],
        board := ⟨⟨1, 1⟩, [Tile.Gnome], [(⟨0, 0⟩, ⟨Team.Gnome, 50, 3⟩)]⟩,
        defeated_elves := 2 }) :=
  progress_over_of_team_won gC3 ⟨0, 0⟩ [] ⟨Team.Gnome, 50, 3⟩ rfl rfl rfl

/-- C4: Damage saturates at zero (truncated subtraction on `Nat`); a defeated
unit is removed from the registry and its tile blanked in the same step,
while a surviving unit is re-inserted with the reduced hp; at the
attack-phase level the queue loses exactly the defeated unit's pending entry
and the elf loss tally is bumped exactly on an elf death. -/
theorem attack_damage_and_defeat :
    (∀ (b : Board) (attacker attacked : Point) (res : Option Unit) (b' : Board),
      b.attack attacker attacked = .ok (res, b') →
      ∃ au tu, lookupAL b.units attacker = some au ∧ lookupAL b.units attacked = some tu ∧
        (tu.take_damage au.attack).hp = tu.hp - au.attack ∧
        ((tu.hp ≤ au.attack ∧ res = some (tu.take_damage au.attack) ∧
            lookupAL b'.units attacked = none ∧ b'.get attacked = some Tile.Empty) ∨
         (au.attack < tu.hp ∧ res = none ∧
            lookupAL b'.units attacked = some (tu.take_damage au.attack)))) ∧
    (∀ (board : Board) (queue : List Point) (de : Nat) (pos : Point) (et : Team)
        (b2 : Board) (q2 : List Point) (de2 : Nat),
      attackPhase board queue de pos et = .ok (b2, q2, de2) →
      (b2 = board ∧ q2 = queue ∧ de2 = de) ∨
      (∃ attacked du, board.attack pos attacked = .ok (some du, b2) ∧
        q2 = queue.erase attacked ∧
        de2 = (if du.team == Team.Elf then de + 1 else de)) ∨
      (∃ attacked, board.attack pos attacked = .ok (none, b2) ∧ q2 = queue ∧ de2 = de)) :=
  ⟨fun b a1 a2 res b' h => attack_behavior b a1 a2 res b' h,
   fun board queue de pos et b2 q2 de2 h => attackPhase_queue board queue de pos et b2 q2 de2 h⟩

theorem attack_damage_and_defeat_witness :
    ∃ au tu, lookupAL bC5.units ⟨0, 0⟩ = some au ∧ lookupAL bC5.units ⟨0, 1⟩ = some tu ∧
      (tu.take_damage au.attack).hp = tu.hp - au.attack ∧
      ((tu.hp ≤ au.attack ∧ (none : Option Unit) = some (tu.take_damage au.attack) ∧
          lookupAL bC5h.units ⟨0, 1⟩ = none ∧ bC5h.get ⟨0, 1⟩ = some Tile.Empty) ∨
       (au.attack < tu.hp ∧ (none : Option Unit) = none ∧
          lookupAL bC5h.units ⟨0, 1⟩ = some (tu.take_damage au.attack))) :=
  attack_damage_and_defeat.1 bC5 ⟨0, 0⟩ ⟨0, 1⟩ none bC5h (by decide)

theorem attack_target_selection_witness :
    attackPhase bC5 [] 0 ⟨0, 0⟩ Team.Elf =
      (match bC5.attack ⟨0, 0⟩ ⟨0, 1⟩ with
       | .error e => .error e
       | .ok (none, board') => .ok (board', [], 0)
       | .ok (some du, board') =>
         .ok (board', List.erase [] ⟨0, 1⟩,
           if du.team == Team.Elf then 0 + 1 else 0)) :=
  ((attack_target_selection_main bC5 [] 0 ⟨0, 0⟩ Team.Elf).2 ⟨0, 1⟩ ⟨Team.Elf, 200, 3⟩
    (by decide)).2.2

/-- C6: The turn queue is built as the reading-order sort of the unit
positions (a sorted permutation of the registry's keys), both initially and
at each round refill, which also bumps the round counter; a mid-round step
only pops the front and possibly erases a single defeated unit's entry. -/
theorem turn_queue_discipline :
    (∀ b : Board, (Game.from_board b).to_be_moved = sortKeys b.units) ∧
    (∀ units : List (Point × Unit), List.Sorted Point.le (sortKeys units) ∧
      (sortKeys units).Perm (units.map Prod.fst)) ∧
    (∀ g g' : Game, g.start_new_turn = .ok g' →
      g'.board = g.board ∧ g'.defeated_elves = g.defeated_elves ∧
      g'.completed_turns = g.completed_turns + 1 ∧ g'.to_be_moved = sortKeys g.board.units) ∧
    (∀ (g : Game) (p : Point) (rest : List Point) (s : GameState) (g' : Game),
      g.to_be_moved = p :: rest → g.progress = .ok (s, g') →
      g'.to_be_moved = rest ∨ (∃ attacked, g'.to_be_moved = rest.erase attacked) ∨
      (g'.to_be_moved = sortKeys g'.board.units ∧
        g'.completed_turns = g.completed_turns + 1)) :=
  ⟨fun b => rfl,
   fun units => ⟨sortKeys_sorted units, sortKeys_perm units⟩,
   fun g g' h => start_new_turn_queue g g' h,
   fun g p rest s g' hq h => progress_queue_evolution g p rest s g' hq h⟩

theorem turn_queue_discipline_witness :
    (⟨6, [⟨0, 0⟩, ⟨0, 1⟩], bC5, 1⟩ : Game).board = gC6.board ∧
    (⟨6, [⟨0, 0⟩, ⟨0, 1⟩], bC5, 1⟩ : Game).defeated_elves = gC6.defeated_elves ∧
    (⟨6, [⟨0, 0⟩, ⟨0, 1⟩], bC5, 1⟩ : Game).completed_turns = gC6.completed_turns + 1 ∧
    (⟨6, [⟨0, 0⟩, ⟨0, 1⟩], bC5, 1⟩ : Game).to_be_moved = sortKeys gC6.board.units :=
  turn_queue_discipline.2.2.1 gC6 ⟨6, [⟨0, 0⟩, ⟨0, 1⟩], bC5, 1⟩ (by decide)

/-- C10: Hp after damage equals `max (hp - d) 0` over the integers; every
parsed unit starts at hp 200 with attack 3 for gnomes and the boost power
for elves; the boost search only probes and reports powers in 4..255. -/
theorem numeric_profile :
    (∀ (u : Unit) (d : Nat), ((u.take_damage d).hp : Int) = max ((u.hp : Int) - (d : Int)) 0) ∧
    (∀ (bytes : List Nat) (power : Nat) (b : Board),
      Board.with_elven_power bytes power = .ok b →
      ∀ e ∈ b.units, e.2.hp = 200 ∧
        e.2.attack = (if e.2.team == Team.Elf then power else 3)) ∧
    (∀ (bytes : List Nat) (fuel power c : Nat),
      boostSearch bytes fuel = .ok (some (power, c)) → 4 ≤ power ∧ power ≤ 255) := by
  refine ⟨?_, ?_, ?_⟩
  · intro u d
    show (((u.hp - d : Nat) : Int)) = _
    omega
  · exact fun bytes power b h => board_units_start bytes power b h
  · intro bytes fuel power c h
    have hm : power ∈ (List.range 256).drop 4 := searchFrom_mem bytes fuel _ power c h
    exact range_drop_bounds power hm

theorem numeric_profile_witness :
    ((⟨0, 0⟩, ⟨Team.Gnome, 200, 3⟩) : Point × Unit).2.hp = 200 ∧
    ((⟨0, 0⟩, ⟨Team.Gnome, 200, 3⟩) : Point × Unit).2.attack =
      (if ((⟨0, 0⟩, (⟨Team.Gnome, 200, 3⟩ : Unit)) : Point × Unit).2.team == Team.Elf
        then 5 else 3) :=
  numeric_profile.2.1 [71, 10] 5 bG (by decide) (⟨0, 0⟩, ⟨Team.Gnome, 200, 3⟩) (by decide)

theorem pathfinder_destination_rule_cex :
    (Board.new cexBytes).toOption.map (fun b =>
      (b.find_enemy_direction ⟨1, 2⟩, specDirection b ⟨1, 2⟩ Team.Gnome)) =
      some (some Direction.Left, some Direction.Right) := by decide

theorem find_eq_dirCands (b : Board) (start : Point) (u : Unit)
    (hu : lookupAL b.units start = some u) :
    b.find_enemy_direction start =
      match minByKey Nat.blt (fun e => e.2) (dirCands b start u.team) with
      | none => none
      | some (dir, dist) => if 0 < dist then some dir else none := by
  unfold Board.find_enemy_direction
  rw [hu]
  rfl

theorem natBlt_trans3 : ∀ x y z : Nat, Nat.blt x y = true → Nat.blt y z = true →
    Nat.blt x z = true := by
  intro x y z h1 h2
  simp only [Nat.blt_eq] at h1 h2 ⊢
  omega

theorem natBlt_not_trans3 : ∀ x y z : Nat, Nat.blt x y = false → Nat.blt y z = false →
    Nat.blt x z = false := by
  intro x y z h1 h2
  rw [← Bool.not_eq_true, Nat.blt_eq] at h1 h2 ⊢
  omega

theorem natBlt_irrefl : ∀ x : Nat, Nat.blt x x = false := by
  intro x
  rw [← Bool.not_eq_true, Nat.blt_eq]
  omega

theorem natBlt_mix1 : ∀ m y a : Nat, Nat.blt y a = true → Nat.blt y m = false →
    Nat.blt m a = true := by
  intro m y a h1 h2
  rw [← Bool.not_eq_true] at h2
  simp only [Nat.blt_eq] at h1 h2 ⊢
  omega

theorem natBlt_mix2 : ∀ m y a : Nat, Nat.blt m a = true → Nat.blt y a = false →
    Nat.blt m y = true := by
  intro m y a h1 h2
  rw [← Bool.not_eq_true] at h2
  simp only [Nat.blt_eq] at h1 h2 ⊢
  omega

/-- C1: Amended pathfinder rule. The spec's destination-first reading (pick
the reading-order-least closest destination, then the best first step towards
it) disagrees with the code on a concrete board; what the code guarantees is
that the returned direction is the first, in the canonical trial order
(Up, Left, Right, Down), among the per-direction candidates minimizing the
distance from the step cell to the closest enemy, and that minimum is
positive. -/
theorem pathfinder_direction_first_minimal (b : Board) (start : Point) (u : Unit)
    (hu : lookupAL b.units start = some u) (dir : Direction)
    (h : b.find_enemy_direction start = some dir) :
    ∃ dist l1 l2, dirCands b start u.team = l1 ++ (dir, dist) :: l2 ∧ 0 < dist ∧
      (∀ f ∈ l1, dist < f.2) ∧ (∀ f ∈ dirCands b start u.team, ¬f.2 < dist) := by
  rw [find_eq_dirCands b start u hu] at h
  cases hm : minByKey Nat.blt (fun e => e.2) (dirCands b start u.team) with
  | none =>
    rw [hm] at h
    exact Option.noConfusion h
  | some m =>
    obtain ⟨dir2, dist⟩ := m
    rw [hm] at h
    have h4 : (if 0 < dist then some dir2 else none) = some dir := h
    by_cases hd : 0 < dist
    · rw [if_pos hd] at h4
      injection h4 with h2
      subst h2
      obtain ⟨l1, l2, hdec, hfirst⟩ := minByKey_first natBlt_trans3 natBlt_not_trans3
        natBlt_irrefl natBlt_mix1 natBlt_mix2 hm
      have hmin := minByKey_min natBlt_trans3 natBlt_not_trans3 natBlt_irrefl hm
      refine ⟨dist, l1, l2, hdec, hd, ?_, ?_⟩
      · intro f hf
        have h3 := hfirst f hf
        rw [Nat.blt_eq] at h3
        exact h3
      · intro f hf
        have h3 := hmin f hf
        rw [← Bool.not_eq_true, Nat.blt_eq] at h3
        exact h3
    · rw [if_neg hd] at h4
      exact Option.noConfusion h4

theorem pathfinder_witness :
    ∃ dist l1 l2, dirCands bC1 ⟨0, 0⟩ Team.Elf = l1 ++ (Direction.Right, dist) :: l2 ∧
      0 < dist ∧ (∀ f ∈ l1, dist < f.2) ∧
      (∀ f ∈ dirCands bC1 ⟨0, 0⟩ Team.Elf, ¬f.2 < dist) :=
  pathfinder_direction_first_minimal bC1 ⟨0, 0⟩ ⟨Team.Elf, 200, 3⟩ (by decide)
    Direction.Right (by decide)

theorem is_team_eq_teamTile {t : Tile} {tm : Team} (h : t.is_team tm = true) :
    t = teamTile tm := by
  cases t <;> cases tm <;> first | rfl | exact Bool.noConfusion h

theorem teamTile_inj {a b : Team} (h : teamTile a = teamTile b) : a = b := by
  cases a <;> cases b <;> first | rfl | exact absurd h (by decide)

theorem point_step_ne (p : Point) (dir : Direction) : ¬p.step dir = p := by
  cases dir <;>
    · intro h
      have h2 := congrArg Point.y h
      have h3 := congrArg Point.x h
      simp only [Point.step] at h2 h3
      omega

theorem move_unit_agree {b : Board} (hwf : WFB b) (hA : Agree b) {pos : Point}
    {dir : Direction} {p2 : Point} {b2 : Board}
    (h : b.move_unit pos dir = .ok (p2, b2)) : Agree b2 := by
  unfold Board.move_unit at h
  split at h
  · rename_i unit hu
    split at h
    · rename_i old_tile ho
      split at h
      · exact Except.noConfusion h
      · rename_i hteam
        simp only [] at h
        split at h
        · rename_i goal_tile hg
          split at h
          · rename_i hge
            simp only [Except.ok.injEq, Prod.mk.injEq] at h
            obtain ⟨hp2, hb2⟩ := h
            have hbpos : b.bounds_check pos = true := get_some_bounds ho
            have hbgoal : b.bounds_check (pos.step dir) = true :=
              get_some_bounds (b := b.setTile pos Tile.Empty) hg
            have hne : ¬pos.step dir = pos := point_step_ne pos dir
            have hlpos : b.index_of_point pos < b.map.length := idx_lt_len hwf hbpos
            have hlgoal : b.index_of_point (pos.step dir) < b.map.length :=
              idx_lt_len hwf hbgoal
            have hteam2 : old_tile.is_team unit.team = true := by
              cases hh : old_tile.is_team unit.team
              · exact absurd (by rw [hh]; rfl) hteam
              · rfl
            have hot : old_tile = teamTile unit.team := is_team_eq_teamTile hteam2
            have hlen1 : (b.setTile pos Tile.Empty).map.length = b.map.length :=
              List.length_set b.map _ _
            have hgetg : ((b.setTile pos Tile.Empty).setTile (pos.step dir) old_tile).get
                (pos.step dir) = some old_tile := by
              refine get_setTile_self ?_ ?_ old_tile
              · exact hbgoal
              · show b.index_of_point (pos.step dir) < (b.setTile pos Tile.Empty).map.length
                rw [hlen1]
                exact hlgoal
            have hgetp : ((b.setTile pos Tile.Empty).setTile (pos.step dir) old_tile).get
                pos = some Tile.Empty := by
              have e1 : ((b.setTile pos Tile.Empty).setTile (pos.step dir) old_tile).get
                  pos = (b.setTile pos Tile.Empty).get pos := by
                refine get_setTile_other old_tile ?_
                show ¬b.index_of_point pos = b.index_of_point (pos.step dir)
                exact fun hc => hne (idx_inj hbgoal hbpos hc.symm)
              have e2 : (b.setTile pos Tile.Empty).get pos = some Tile.Empty :=
                get_setTile_self hbpos hlpos Tile.Empty
              exact e1.trans e2
            rw [← hb2]
            intro q
            by_cases hqg : q = pos.step dir
            · subst hqg
              constructor
              · intro tm hget
                have h3 : some old_tile = some (teamTile tm) := hgetg.symm.trans hget
                injection h3 with h4
                refine ⟨unit, ?_, teamTile_inj ((hot.symm.trans h4).symm).symm⟩
                exact lookupAL_insert_self (eraseAL pos b.units) (pos.step dir) unit
              · intro u hl
                have hl2 : lookupAL (insertAL (pos.step dir) unit (eraseAL pos b.units))
                    (pos.step dir) = some u := hl
                rw [lookupAL_insert_self] at hl2
                injection hl2 with hu2
                subst hu2
                exact hgetg.trans (congrArg some hot)
            · by_cases hqp : q = pos
              · subst hqp
                constructor
                · intro tm hget
                  have h3 : some Tile.Empty = some (teamTile tm) := hgetp.symm.trans hget
                  injection h3 with h4
                  cases tm <;> exact absurd h4 (by decide)
                · intro u hl
                  have hl2 : lookupAL (insertAL (q.step dir) unit (eraseAL q b.units)) q =
                      some u := hl
                  rw [lookupAL_insert_other _ _ _ _ (fun hc => hqg hc)] at hl2
                  rw [lookupAL_erase_self] at hl2
                  exact Option.noConfusion hl2
              · have hlk : lookupAL (insertAL (pos.step dir) unit (eraseAL pos b.units)) q =
                    lookupAL b.units q := by
                  rw [lookupAL_insert_other _ _ _ _ (fun hc => hqg hc)]
                  exact lookupAL_erase_other b.units pos q hqp
                by_cases hbq : b.bounds_check q = true
                · have hgq : ((b.setTile pos Tile.Empty).setTile (pos.step dir)
                      old_tile).get q = b.get q := by
                    have e1 : ((b.setTile pos Tile.Empty).setTile (pos.step dir)
                        old_tile).get q = (b.setTile pos Tile.Empty).get q := by
                      refine get_setTile_other old_tile ?_
                      show ¬b.index_of_point q = b.index_of_point (pos.step dir)
                      exact fun hc => hqg (idx_inj hbq hbgoal hc)
                    have e2 : (b.setTile pos Tile.Empty).get q = b.get q :=
                      get_setTile_other Tile.Empty (fun hc => hqp (idx_inj hbq hbpos hc))
                    exact e1.trans e2
                  constructor
                  · intro tm hget
                    obtain ⟨u, hu2, ht2⟩ := (hA q).1 tm (hgq.symm.trans hget)
                    exact ⟨u, hlk.trans hu2, ht2⟩
                  · intro u hl
                    exact hgq.trans ((hA q).2 u (hlk.symm.trans hl))
                · have hgq : ((b.setTile pos Tile.Empty).setTile (pos.step dir)
                      old_tile).get q = none := by
                    unfold Board.get
                    rw [if_neg (show ¬((b.setTile pos Tile.Empty).setTile (pos.step dir)
                      old_tile).bounds_check q = true from hbq)]
                  have hgb : b.get q = none := by
                    unfold Board.get
                    rw [if_neg hbq]
                  constructor
                  · intro tm hget
                    have h3 : (none : Option Tile) = some (teamTile tm) :=
                      hgq.symm.trans hget
                    exact Option.noConfusion h3
                  · intro u hl
                    have h3 := (hA q).2 u (hlk.symm.trans hl)
                    rw [hgb] at h3
                    exact Option.noConfusion h3
          · exact Except.noConfusion h
        · exact Except.noConfusion h
    · exact Except.noConfusion h
  · exact Except.noConfusion h

theorem attack_agree {b : Board} (hwf : WFB b) (hA : Agree b) {a1 a2 : Point}
    {res : Option Unit} {b2 : Board}
    (h : b.attack a1 a2 = .ok (res, b2)) : Agree b2 := by
  unfold Board.attack at h
  split at h
  · rename_i au hau
    split at h
    · rename_i tu htu
      simp only [] at h
      split at h
      · rename_i hdef
        split at h
        · rename_i tile htile
          split at h
          · rename_i hti
            simp only [Except.ok.injEq, Prod.mk.injEq] at h
            obtain ⟨hres, hb2⟩ := h
            rw [← hb2]
            have hba2 : b.bounds_check a2 = true := get_some_bounds htile
            have hla2 : b.index_of_point a2 < b.map.length := idx_lt_len hwf hba2
            intro q
            by_cases hq : q = a2
            · subst hq
              have hget : (b.setTile q Tile.Empty).get q = some Tile.Empty :=
                get_setTile_self hba2 hla2 Tile.Empty
              constructor
              · intro tm hg2
                have h3 : some Tile.Empty = some (teamTile tm) := hget.symm.trans hg2
                injection h3 with h4
                cases tm <;> exact absurd h4 (by decide)
              · intro u hl
                have hl2 : lookupAL (eraseAL q b.units) q = some u := hl
                rw [lookupAL_erase_self] at hl2
                exact Option.noConfusion hl2
            · have hlk : lookupAL (eraseAL a2 b.units) q = lookupAL b.units q :=
                lookupAL_erase_other b.units a2 q hq
              by_cases hbq : b.bounds_check q = true
              · have hgq : (b.setTile a2 Tile.Empty).get q = b.get q :=
                  get_setTile_other Tile.Empty (fun hc => hq (idx_inj hbq hba2 hc))
                constructor
                · intro tm hg2
                  obtain ⟨u, hu2, ht2⟩ := (hA q).1 tm (hgq.symm.trans hg2)
                  exact ⟨u, hlk.trans hu2, ht2⟩
                · intro u hl
                  exact hgq.trans ((hA q).2 u (hlk.symm.trans hl))
              · have hgq : (b.setTile a2 Tile.Empty).get q = none := by
                  unfold Board.get
                  rw [if_neg (show ¬(b.setTile a2 Tile.Empty).bounds_check q = true from hbq)]
                have hgb : b.get q = none := by
                  unfold Board.get
                  rw [if_neg hbq]
                constructor
                · intro tm hg2
                  exact Option.noConfusion (hgq.symm.trans hg2)
                · intro u hl
                  have h3 := (hA q).2 u (hlk.symm.trans hl)
                  rw [hgb] at h3
                  exact Option.noConfusion h3
          · exact Except.noConfusion h
        · exact Except.noConfusion h
      · rename_i hdef
        simp only [Except.ok.injEq, Prod.mk.injEq] at h
        obtain ⟨hres, hb2⟩ := h
        rw [← hb2]
        have hga2 : b.get a2 = some (teamTile tu.team) := (hA a2).2 tu htu
        intro q
        by_cases hq : q = a2
        · subst hq
          constructor
          · intro tm hg2
            have h3 : b.get q = some (teamTile tm) := hg2
            have h4 : teamTile tu.team = teamTile tm := by
              have h5 := hga2.symm.trans h3
              injection h5
            refine ⟨tu.take_damage au.attack, ?_, teamTile_inj h4⟩
            exact lookupAL_insert_self b.units q (tu.take_damage au.attack)
          · intro u hl
            have hl2 : lookupAL (insertAL q (tu.take_damage au.attack) b.units) q =
                some u := hl
            rw [lookupAL_insert_self] at hl2
            injection hl2 with hu2
            subst hu2
            exact hga2
        · have hlk : lookupAL (insertAL a2 (tu.take_damage au.attack) b.units) q =
              lookupAL b.units q := lookupAL_insert_other _ _ _ _ hq
          constructor
          · intro tm hg2
            obtain ⟨u, hu2, ht2⟩ := (hA q).1 tm hg2
            exact ⟨u, hlk.trans hu2, ht2⟩
          · intro u hl
            exact (hA q).2 u (hlk.symm.trans hl)
    · exact Except.noConfusion h
  · exact Except.noConfusion h

/-- C7: Amended agreement invariant. `move_unit` and `attack` preserve
grid/registry agreement on a well-formed board; but the parser does not
establish agreement, and a disagreeing board plays on silently with no
error, so the spec's claim that any inconsistency is a fatal internal error
is refuted by the counterexample. -/
theorem grid_registry_agreement (b : Board) (hwf : WFB b) (hA : Agree b) :
    (∀ (pos : Point) (dir : Direction) (p2 : Point) (b2 : Board),
      b.move_unit pos dir = .ok (p2, b2) → Agree b2) ∧
    (∀ (a1 a2 : Point) (res : Option Unit) (b2 : Board),
      b.attack a1 a2 = .ok (res, b2) → Agree b2) :=
  ⟨fun pos dir p2 b2 h => move_unit_agree hwf hA h,
   fun a1 a2 res b2 h => attack_agree hwf hA h⟩

theorem grid_registry_cex :
    ∃ b g, Board.new [46, 10, 71, 46, 10] = .ok b ∧
      b.get ⟨0, 1⟩ = some (teamTile Team.Gnome) ∧ lookupAL b.units ⟨0, 1⟩ = none ∧
      (Game.from_board b).make_turn = .ok (GameState.Over, g) := by
  refine ⟨⟨⟨1, 2⟩, [Tile.Empty, Tile.Gnome, Tile.Empty], [(⟨1, 0⟩, ⟨Team.Gnome, 200, 3⟩)]⟩,
    ⟨0, [], ⟨⟨1, 2⟩, [Tile.Empty, Tile.Gnome, Tile.Empty],
      [(⟨1, 0⟩, ⟨Team.Gnome, 200, 3⟩)]⟩, 0⟩, ?_, ?_, ?_, ?_⟩ <;> decide

theorem agree_bC5 : Agree bC5 := by
  intro p
  constructor
  · intro tm hget
    have hb := get_some_bounds hget
    have hbi := bounds_check_iff.mp hb
    have hy : p.y = 0 := by
      have h1 : (0 : Int) ≤ p.y := hbi.2.1
      have h2 : p.y < (1 : Int) := hbi.2.2.2
      omega
    have hx : p.x = 0 ∨ p.x = 1 := by
      have h1 : (0 : Int) ≤ p.x := hbi.1
      have h2 : p.x < (2 : Int) := hbi.2.2.1
      omega
    rcases hx with hx | hx
    · have hp : p = ⟨0, 0⟩ := by
        obtain ⟨py, px⟩ := p
        rw [show py = 0 from hy, show px = 0 from hx]
      rw [hp] at hget
      have hg0 : bC5.get ⟨0, 0⟩ = some Tile.Gnome := by decide
      have h3 := hg0.symm.trans hget
      injection h3 with h4
      cases tm
      · exact absurd h4 (by decide)
      · exact ⟨⟨Team.Gnome, 200, 3⟩, by rw [hp]; decide, rfl⟩
    · have hp : p = ⟨0, 1⟩ := by
        obtain ⟨py, px⟩ := p
        rw [show py = 0 from hy, show px = 1 from hx]
      rw [hp] at hget
      have hg0 : bC5.get ⟨0, 1⟩ = some Tile.Elf := by decide
      have h3 := hg0.symm.trans hget
      injection h3 with h4
      cases tm
      · exact ⟨⟨Team.Elf, 200, 3⟩, by rw [hp]; decide, rfl⟩
      · exact absurd h4 (by decide)
  · intro u hl
    have hl2 : (if Point.eqb ⟨0, 0⟩ p then some (⟨Team.Gnome, 200, 3⟩ : Unit)
        else if Point.eqb ⟨0, 1⟩ p then some ⟨Team.Elf, 200, 3⟩ else none) = some u := hl
    by_cases h0 : Point.eqb ⟨0, 0⟩ p = true
    · rw [if_pos h0] at hl2
      injection hl2 with hu
      have hp : p = ⟨0, 0⟩ := (Point.eqb_iff.mp h0).symm
      rw [hp, ← hu]
      decide
    · rw [if_neg h0] at hl2
      by_cases h1 : Point.eqb ⟨0, 1⟩ p = true
      · rw [if_pos h1] at hl2
        injection hl2 with hu
        have hp : p = ⟨0, 1⟩ := (Point.eqb_iff.mp h1).symm
        rw [hp, ← hu]
        decide
      · rw [if_neg h1] at hl2
        exact Option.noConfusion hl2

theorem grid_registry_witness : Agree bC5h :=
  (grid_registry_agreement bC5 ⟨by decide, by decide, by decide⟩ agree_bC5).2
    ⟨0, 0⟩ ⟨0, 1⟩ none bC5h (by decide)

theorem adjacent_or_subset {b : Board} (hwf : WFB b) (a c : Nat) (j : Nat)
    (h : (adjacent b.geo (a ||| c)).testBit j = true) :
    (adjacent b.geo a).testBit j = true ∨ (adjacent b.geo c).testBit j = true := by
  rw [testBit_adjacent hwf] at h
  rw [testBit_adjacent hwf, testBit_adjacent hwf]
  simp only [Nat.testBit_or, Bool.or_eq_true] at h
  obtain ⟨hj, hd⟩ := h
  rcases hd with ⟨h1, h2, h3⟩ | ⟨h0, h1, h2, h3⟩ | h1 | ⟨h0, h1⟩
  · rcases h1 with h1 | h1
    · exact Or.inl ⟨hj, Or.inl ⟨h1, h2, h3⟩⟩
    · exact Or.inr ⟨hj, Or.inl ⟨h1, h2, h3⟩⟩
  · rcases h1 with h1 | h1
    · exact Or.inl ⟨hj, Or.inr (Or.inl ⟨h0, h1, h2, h3⟩)⟩
    · exact Or.inr ⟨hj, Or.inr (Or.inl ⟨h0, h1, h2, h3⟩)⟩
  · rcases h1 with h1 | h1
    · exact Or.inl ⟨hj, Or.inr (Or.inr (Or.inl h1))⟩
    · exact Or.inr ⟨hj, Or.inr (Or.inr (Or.inl h1))⟩
  · rcases h1 with h1 | h1
    · exact Or.inl ⟨hj, Or.inr (Or.inr (Or.inr ⟨h0, h1⟩))⟩
    · exact Or.inr ⟨hj, Or.inr (Or.inr (Or.inr ⟨h0, h1⟩))⟩

theorem testBit_ne_zero {n j : Nat} (h : n.testBit j = true) : n ≠ 0 := by
  intro hc
  rw [hc, Nat.zero_testBit] at h
  exact Bool.noConfusion h

theorem emp_bit_lt {b : Board} (hwf : WFB b) {j : Nat}
    (h : (b.tileMasks.emptyM &&& b.geo.full).testBit j = true) :
    j < b.size.x.toNat * b.size.y.toNat := by
  rw [Nat.testBit_and, Bool.and_eq_true, testBit_geo_full hwf] at h
  exact of_decide_eq_true h.2

theorem layerLoop_sound {b : Board} (hwf : WFB b) (goal : Team) (s : Point) :
    ∀ (fuel d frontier vis D : Nat),
      (∀ j, frontier.testBit j = true → ∃ t, b.bounds_check t = true ∧
        b.index_of_point t = j ∧ ReachE b s t) →
      maskB frontier (b.size.x.toNat * b.size.y.toNat) →
      layerLoop b.geo (b.tileMasks.emptyM &&& b.geo.full)
        (adjacent b.geo (b.tileMasks.teamM goal &&& b.geo.full)) fuel d frontier vis =
        some D →
      ∃ t, ReachE b s t ∧ hasGoalNbr b goal t = true := by
  intro fuel
  induction fuel with
  | zero =>
    intro d frontier vis D hinv hmask h
    exact Option.noConfusion h
  | succ fuel ih =>
    intro d frontier vis D hinv hmask h
    rw [layerLoop_succ] at h
    by_cases hf0 : (frontier == 0) = true
    · rw [if_pos hf0] at h
      exact Option.noConfusion h
    · rw [if_neg hf0] at h
      by_cases htch : (frontier &&& adjacent b.geo (b.tileMasks.teamM goal &&& b.geo.full)
          != 0) = true
      · rw [if_pos htch] at h
        have hne : frontier &&& adjacent b.geo (b.tileMasks.teamM goal &&& b.geo.full) ≠
            0 := by
          intro hc
          rw [bne_iff_ne] at htch
          exact htch hc
        obtain ⟨j, hj⟩ := Nat.ne_zero_implies_bit_true hne
        rw [Nat.testBit_and, Bool.and_eq_true] at hj
        obtain ⟨t, hbt, hidx, hre⟩ := hinv j hj.1
        refine ⟨t, hre, (touch_bit_iff hwf hbt).mp ?_⟩
        rw [hidx]
        exact hj.2
      · rw [if_neg htch] at h
        refine ih (d + 1) _ _ D ?_ ?_ h
        · intro j hjf
          rw [Nat.testBit_and, Bool.and_eq_true] at hjf
          obtain ⟨hj1, hj2⟩ := hjf
          rw [Nat.testBit_and, Bool.and_eq_true] at hj1
          obtain ⟨hadj, hemp⟩ := hj1
          have hjlt : j < b.size.x.toNat * b.size.y.toNat := emp_bit_lt hwf hemp
          obtain ⟨q, hbq, hiq⟩ := exists_point_of_idx hwf hjlt
          subst hiq
          obtain ⟨p, hbp, hpbit, hqn⟩ := (adjacent_point_iff hwf hmask hbq).mp hadj
          obtain ⟨t, hbt, hit, hre⟩ := hinv _ hpbit
          have htp : t = p := idx_inj hbt hbp hit
          subst htp
          have hqe : b.get q = some Tile.Empty := by
            rw [Nat.testBit_and, Bool.and_eq_true] at hemp
            exact (emptyM_bit_iff hbq).mp hemp.1
          exact ⟨q, hbq, rfl, ReachE.step hre hqn hqe⟩
        · intro j hj
          rw [Nat.testBit_and, Bool.and_eq_true] at hj
          obtain ⟨hj1, _⟩ := hj
          rw [Nat.testBit_and, Bool.and_eq_true] at hj1
          exact emp_bit_lt hwf hj1.2

theorem dtcu_some_reach {b : Board} (hwf : WFB b) {goal : Team} {s : Point} {D : Nat}
    (hbs : b.bounds_check s = true) (hes : b.get s = some Tile.Empty)
    (h : b.distance_to_closest_unit s goal = some D) :
    ∃ t, ReachE b s t ∧ hasGoalNbr b goal t = true := by
  rw [dtcu_eq_fast hwf goal hbs hes] at h
  refine layerLoop_sound hwf goal s _ 0 _ 0 D ?_ ?_ h
  · intro j hj
    rw [testBit_one_shift] at hj
    have h2 := of_decide_eq_true hj
    exact ⟨s, hbs, h2, ReachE.refl⟩
  · intro j hj
    rw [testBit_one_shift] at hj
    have h2 := of_decide_eq_true hj
    rw [← h2]
    exact idx_lt hwf hbs

theorem layerLoop_none_goalfree {b : Board} (hwf : WFB b) (goal : Team) {s : Point}
    (hbs : b.bounds_check s = true) :
    ∀ (fuel : Nat) (d frontier vis : Nat) (ghost : List Point),
      LoopInv b goal s frontier vis ghost →
      b.size.x.toNat * b.size.y.toNat + 1 ≤ fuel + ghost.length →
      layerLoop b.geo (b.tileMasks.emptyM &&& b.geo.full)
        (adjacent b.geo (b.tileMasks.teamM goal &&& b.geo.full)) fuel d frontier vis =
        none →
      ∀ t, ReachE b s t → hasGoalNbr b goal t = false := by
  intro fuel
  induction fuel with
  | zero =>
    intro d frontier vis ghost inv hcount h
    exfalso
    have hle := nodup_bounded_length_le hwf inv.gnodup inv.gbounds
    omega
  | succ fuel ih =>
    intro d frontier vis ghost inv hcount h
    rw [layerLoop_succ] at h
    by_cases hf0 : (frontier == 0) = true
    · have hfz : frontier = 0 := beq_iff_eq.mp hf0
      subst hfz
      have hreach : ∀ t, ReachE b s t →
          b.bounds_check t = true ∧ vis.testBit (b.index_of_point t) = true := by
        intro t hre
        induction hre with
        | refl =>
          refine ⟨hbs, ?_⟩
          have h2 := inv.hs (b.index_of_point s) (by
            rw [testBit_one_shift]
            exact decide_eq_true rfl)
          rw [Nat.testBit_or, Nat.zero_testBit, Bool.or_false] at h2
          exact h2
        | step hre2 hmem hget ih2 =>
          obtain ⟨hbq, hbit⟩ := ih2
          rename_i q r
          have hbr : b.bounds_check r = true := get_some_bounds hget
          refine ⟨hbr, ?_⟩
          have hadj : (adjacent b.geo vis).testBit (b.index_of_point r) = true := by
            refine (adjacent_point_iff hwf inv.vmask hbr).mpr ⟨q, hbq, hbit, hmem⟩
          have hemp : (b.tileMasks.emptyM &&& b.geo.full).testBit
              (b.index_of_point r) = true := by
            rw [Nat.testBit_and, Bool.and_eq_true]
            refine ⟨(emptyM_bit_iff hbr).mpr hget, ?_⟩
            rw [testBit_geo_full hwf]
            exact decide_eq_true (idx_lt hwf hbr)
          have h3 := inv.closed (b.index_of_point r) (by
            rw [Nat.testBit_and, Bool.and_eq_true]
            exact ⟨hadj, hemp⟩)
          rw [Nat.testBit_or, Nat.zero_testBit, Bool.or_false] at h3
          exact h3
      intro t hre
      obtain ⟨hbt, hbit⟩ := hreach t hre
      cases hg : hasGoalNbr b goal t
      · rfl
      · exfalso
        have h4 := (touch_bit_iff hwf hbt).mpr hg
        have h5 := inv.vnog (b.index_of_point t) hbit
        rw [h5] at h4
        exact Bool.noConfusion h4
    · rw [if_neg hf0] at h
      by_cases htch : (frontier &&& adjacent b.geo (b.tileMasks.teamM goal &&& b.geo.full)
          != 0) = true
      · rw [if_pos htch] at h
        exact Option.noConfusion h
      · rw [if_neg htch] at h
        have hfz : frontier ≠ 0 := by
          intro hc
          rw [hc] at hf0
          exact hf0 rfl
        have htch0 : frontier &&& adjacent b.geo
            (b.tileMasks.teamM goal &&& b.geo.full) = 0 := by
          by_cases hc : frontier &&& adjacent b.geo
              (b.tileMasks.teamM goal &&& b.geo.full) = 0
          · exact hc
          · exact absurd (bne_iff_ne.mpr hc) htch
        obtain ⟨j0, hj0⟩ := Nat.ne_zero_implies_bit_true hfz
        have hj0lt : j0 < b.size.x.toNat * b.size.y.toNat := inv.fmask j0 hj0
        obtain ⟨t0, hbt0, hit0⟩ := exists_point_of_idx hwf hj0lt
        have ht0g : t0 ∉ ghost := by
          intro hc
          have h2 := inv.gvis t0 hc
          rw [hit0] at h2
          rw [inv.fdis j0 hj0] at h2
          exact Bool.noConfusion h2
        refine ih (d + 1) _ _ (t0 :: ghost) ?_ (by
          simp only [List.length_cons]
          omega) h
        constructor
        · intro j hj
          have h2 := inv.hs j hj
          rw [Nat.testBit_or] at h2
          rw [Nat.testBit_or, Nat.testBit_or]
          rcases Bool.or_eq_true _ _ |>.mp h2 with h3 | h3
          · rw [h3]
            rfl
          · rw [h3, Bool.or_true]
            rfl
        · intro j hj
          rw [Nat.testBit_and, Bool.and_eq_true] at hj
          obtain ⟨hadj, hemp⟩ := hj
          rcases adjacent_or_subset hwf vis frontier j hadj with h3 | h3
          · have h4 := inv.closed j (by
              rw [Nat.testBit_and, Bool.and_eq_true]
              exact ⟨h3, hemp⟩)
            rw [Nat.testBit_or] at h4
            rw [Nat.testBit_or, Nat.testBit_or]
            rcases Bool.or_eq_true _ _ |>.mp h4 with h5 | h5
            · rw [h5]
              rfl
            · rw [h5, Bool.or_true]
              rfl
          · rw [Nat.testBit_or, Nat.testBit_or]
            by_cases hv : (vis ||| frontier).testBit j = true
            · rw [Nat.testBit_or] at hv
              rw [hv]
              rfl
            · have hv2 : (vis ||| frontier).testBit j = false := by
                cases hh : (vis ||| frontier).testBit j
                · rfl
                · exact absurd hh hv
              have hjlt : j < b.size.x.toNat * b.size.y.toNat := emp_bit_lt hwf hemp
              have hfr : (adjacent b.geo frontier &&& (b.tileMasks.emptyM &&& b.geo.full)
                  &&& (b.geo.full ^^^ (vis ||| frontier))).testBit j = true := by
                rw [Nat.testBit_and, Bool.and_eq_true]
                refine ⟨?_, ?_⟩
                · rw [Nat.testBit_and, Bool.and_eq_true]
                  exact ⟨h3, hemp⟩
                · rw [Nat.testBit_xor, hv2, testBit_geo_full hwf,
                    decide_eq_true hjlt]
                  rfl
              rw [hfr, Bool.or_true]
        · intro j hj
          rw [Nat.testBit_or] at hj
          rcases Bool.or_eq_true _ _ |>.mp hj with h3 | h3
          · exact inv.vnog j h3
          · cases hg : (adjacent b.geo (b.tileMasks.teamM goal &&& b.geo.full)).testBit j
            · rfl
            · exfalso
              have h4 : (frontier &&& adjacent b.geo
                  (b.tileMasks.teamM goal &&& b.geo.full)).testBit j = true := by
                rw [Nat.testBit_and, Bool.and_eq_true]
                exact ⟨h3, hg⟩
              rw [htch0, Nat.zero_testBit] at h4
              exact Bool.noConfusion h4
        · intro j hj
          rw [Nat.testBit_and, Bool.and_eq_true] at hj
          obtain ⟨hj1, _⟩ := hj
          rw [Nat.testBit_and, Bool.and_eq_true] at hj1
          exact emp_bit_lt hwf hj1.2
        · intro j hj
          rw [Nat.testBit_or] at hj
          rcases Bool.or_eq_true _ _ |>.mp hj with h3 | h3
          · exact inv.vmask j h3
          · exact inv.fmask j h3
        · intro j hj
          rw [Nat.testBit_and, Bool.and_eq_true] at hj
          obtain ⟨hj1, hj2⟩ := hj
          rw [Nat.testBit_and, Bool.and_eq_true] at hj1
          rw [Nat.testBit_xor] at hj2
          cases hh : (vis ||| frontier).testBit j
          · rfl
          · exfalso
            have hjlt : j < b.size.x.toNat * b.size.y.toNat := emp_bit_lt hwf hj1.2
            rw [hh, testBit_geo_full hwf, decide_eq_true hjlt] at hj2
            exact Bool.noConfusion hj2
        · exact List.Nodup.cons ht0g inv.gnodup
        · intro q hq
          rcases List.mem_cons.mp hq with h3 | h3
          · rw [h3]
            exact hbt0
          · exact inv.gbounds q h3
        · intro q hq
          rcases List.mem_cons.mp hq with h3 | h3
          · rw [h3, hit0, Nat.testBit_or, hj0, Bool.or_true]
          · rw [Nat.testBit_or, inv.gvis q h3]
            rfl

theorem adjacent_zero (mk : Geo) : adjacent mk 0 = 0 := by
  unfold adjacent
  simp only [Nat.zero_and, Nat.zero_shiftRight, Nat.zero_shiftLeft, Nat.zero_or]

theorem dtcu_none_goalfree {b : Board} (hwf : WFB b) {goal : Team} {s : Point}
    (hbs : b.bounds_check s = true) (hes : b.get s = some Tile.Empty)
    (h : b.distance_to_closest_unit s goal = none) :
    ∀ t, ReachE b s t → hasGoalNbr b goal t = false := by
  rw [dtcu_eq_fast hwf goal hbs hes] at h
  refine layerLoop_none_goalfree hwf goal hbs (b.map.length + 2) 0 _ 0 [] ?_ ?_ h
  · constructor
    · intro j hj
      rw [Nat.testBit_or, hj, Bool.or_true]
    · intro j hj
      rw [adjacent_zero, Nat.zero_and, Nat.zero_testBit] at hj
      exact Bool.noConfusion hj
    · intro j hj
      rw [Nat.zero_testBit] at hj
      exact Bool.noConfusion hj
    · intro j hj
      rw [testBit_one_shift] at hj
      have h2 := of_decide_eq_true hj
      rw [← h2]
      exact idx_lt hwf hbs
    · intro j hj
      rw [Nat.zero_testBit] at hj
      exact Bool.noConfusion hj
    · intro j hj
      exact Nat.zero_testBit j
    · exact List.nodup_nil
    · intro q hq
      exact absurd hq (List.not_mem_nil q)
    · intro q hq
      exact absurd hq (List.not_mem_nil q)
  · have h1 := hwf.1
    simp only [List.length_nil]
    omega

theorem minByKey_none_iff {α κ : Type} {lt : κ → κ → Bool} {key : α → κ}
    {l : List α} : minByKey lt key l = none ↔ l = [] := by
  cases l with
  | nil => simp [minByKey]
  | cons x xs => simp [minByKey]

theorem dtcuLoop_pos {b : Board} {goal : Team} :
    ∀ (fuel : Nat) (opn : List (Point × Nat)) (visited : List Point) (D : Nat),
      dtcuLoop b goal fuel opn visited = some D → 0 < D := by
  intro fuel
  induction fuel with
  | zero =>
    intro opn visited D h
    exact Option.noConfusion h
  | succ fuel ih =>
    intro opn visited D h
    have h2 : (match dtcuStep b goal opn visited with
        | (some r, _, _) => r
        | (none, opn2, visited2) => dtcuLoop b goal fuel opn2 visited2) = some D := h
    split at h2
    · rename_i r x y heq
      unfold dtcuStep at heq
      split at heq
      · simp only [Prod.mk.injEq] at heq
        have h3 := heq.1
        injection h3 with h4
        rw [← h4] at h2
        exact Option.noConfusion h2
      · rename_i current dist hmin
        split at heq
        · simp only [Prod.mk.injEq] at heq
          have h3 := heq.1
          injection h3 with h4
          rw [← h4] at h2
          injection h2 with h5
          omega
        · simp only [Prod.mk.injEq] at heq
          exact Option.noConfusion heq.1
    · rename_i opn2 visited2 heq
      exact ih opn2 visited2 D h2

theorem dtcu_some_zero_enemy {b : Board} {goal : Team} {s : Point}
    (h : b.distance_to_closest_unit s goal = some 0) :
    ∃ t, b.get s = some t ∧ t.is_team goal = true := by
  unfold Board.distance_to_closest_unit at h
  split at h
  · rename_i hany
    cases hg : b.get s with
    | none =>
      rw [hg] at hany
      exact Bool.noConfusion hany
    | some t =>
      rw [hg] at hany
      exact ⟨t, rfl, hany⟩
  · have := dtcuLoop_pos _ _ _ _ h
    omega

theorem mem_directions (d : Direction) : d ∈ directions := by
  cases d <;> decide

theorem mem_neighbors_step {start : Point} {s : Point} (h : s ∈ start.neighbors) :
    ∃ d : Direction, start.step d = s := by
  obtain ⟨d, _, hd⟩ := List.mem_map.mp h
  exact ⟨d, hd⟩

theorem step_mem_neighbors (start : Point) (d : Direction) :
    start.step d ∈ start.neighbors :=
  List.mem_map.mpr ⟨d, mem_directions d, rfl⟩

theorem mem_dirCands {b : Board} {start : Point} {team : Team} {dir : Direction}
    {dist : Nat} :
    (dir, dist) ∈ dirCands b start team ↔
      ∃ t, b.get (start.step dir) = some t ∧ (t == Tile.Wall) = false ∧
        t.is_team team = false ∧
        b.distance_to_closest_unit (start.step dir) team.enemy = some dist := by
  unfold dirCands
  constructor
  · intro h
    obtain ⟨e, he, hmap⟩ := List.mem_filterMap.mp h
    rw [Option.map_eq_some'] at hmap
    obtain ⟨D, hD, heq⟩ := hmap
    obtain ⟨he3, hpred⟩ := List.mem_filter.mp he
    obtain ⟨a, ha, hg⟩ := List.mem_filterMap.mp he3
    rw [Option.map_eq_some'] at hg
    obtain ⟨t, hget, het⟩ := hg
    obtain ⟨d0, _, ha2⟩ := List.mem_map.mp ha
    rw [← het] at hpred hD heq
    rw [← ha2] at hpred hD heq hget
    simp only [Prod.mk.injEq] at heq
    rw [Bool.and_eq_true, Bool.not_eq_true', Bool.not_eq_true'] at hpred
    obtain ⟨heq1, heq2⟩ := heq
    subst heq1
    subst heq2
    exact ⟨t, hget, hpred.1, hpred.2, hD⟩
  · rintro ⟨t, hget, hw, hteam, hd⟩
    refine List.mem_filterMap.mpr ⟨(dir, start.step dir, t), ?_, ?_⟩
    · refine List.mem_filter.mpr ⟨?_, ?_⟩
      · refine List.mem_filterMap.mpr ⟨(dir, start.step dir), ?_, ?_⟩
        · exact List.mem_map.mpr ⟨dir, mem_directions dir, rfl⟩
        · rw [hget]
          rfl
      · show (!(t == Tile.Wall) && !(t.is_team team)) = true
        rw [hw, hteam]
        rfl
    · rw [hd]
      rfl

theorem tile_cases (t : Tile) (team : Team) (hw : (t == Tile.Wall) = false)
    (ht : t.is_team team = false) :
    t = Tile.Empty ∨ t = teamTile team.enemy := by
  cases t <;> cases team <;>
    first
      | exact Or.inl rfl
      | exact Or.inr rfl
      | exact Bool.noConfusion hw
      | exact Bool.noConfusion ht

theorem find_none_iff (b : Board) (hwf : WFB b) (start : Point) (u : Unit)
    (hu : lookupAL b.units start = some u) :
    b.find_enemy_direction start = none ↔
      hasGoalNbr b u.team.enemy start = true ∨
      ¬∃ s, s ∈ start.neighbors ∧ b.get s = some Tile.Empty ∧
        ∃ t, ReachE b s t ∧ hasGoalNbr b u.team.enemy t = true := by
  constructor
  · intro hnone
    by_cases hadj : hasGoalNbr b u.team.enemy start = true
    · exact Or.inl hadj
    · refine Or.inr ?_
      rintro ⟨s, hsn, hse, t, hre, hgt⟩
      have hbs : b.bounds_check s = true := get_some_bounds hse
      have hd : ∃ D, b.distance_to_closest_unit s u.team.enemy = some D := by
        cases hD : b.distance_to_closest_unit s u.team.enemy with
        | none =>
          have h2 := dtcu_none_goalfree hwf hbs hse hD t hre
          rw [hgt] at h2
          exact Bool.noConfusion h2
        | some D => exact ⟨D, rfl⟩
      obtain ⟨D, hD⟩ := hd
      obtain ⟨ds, hds⟩ := mem_neighbors_step hsn
      have hmem : (ds, D) ∈ dirCands b start u.team := by
        refine mem_dirCands.mpr ⟨Tile.Empty, ?_, rfl, ?_, ?_⟩
        · rw [hds]
          exact hse
        · exact empty_not_team u.team
        · rw [hds]
          exact hD
      cases hm : minByKey Nat.blt (fun e => e.2) (dirCands b start u.team) with
      | none =>
        rw [minByKey_none_iff] at hm
        rw [hm] at hmem
        exact absurd hmem (List.not_mem_nil _)
      | some m =>
        obtain ⟨dir0, dist0⟩ := m
        rw [find_eq_dirCands b start u hu, hm] at hnone
        have hnone2 : (if 0 < dist0 then some dir0 else none) = none := hnone
        have hdist0 : dist0 = 0 := by
          by_cases hp : 0 < dist0
          · rw [if_pos hp] at hnone2
            exact Option.noConfusion hnone2
          · omega
        subst hdist0
        have hmem0 := minByKey_mem hm
        obtain ⟨t0, hget0, hw0, ht0, hd0⟩ := mem_dirCands.mp hmem0
        obtain ⟨t1, hget1, hteam1⟩ := dtcu_some_zero_enemy hd0
        exact hadj (hasGoalNbr_iff.mpr ⟨start.step dir0, step_mem_neighbors start dir0,
          t1, hget1, hteam1⟩)
  · intro hr
    rw [find_eq_dirCands b start u hu]
    rcases hr with hadj | hnr
    · obtain ⟨q, hqn, t, hget, hteam⟩ := hasGoalNbr_iff.mp hadj
      obtain ⟨dq, hdq⟩ := mem_neighbors_step hqn
      have ht2 : t = teamTile u.team.enemy := is_team_eq_teamTile hteam
      have hd0 : b.distance_to_closest_unit (start.step dq) u.team.enemy = some 0 := by
        rw [hdq]
        refine dtcu_enemy_adjacent_start ?_
        rw [← ht2]
        exact hget
      have hmem : (dq, 0) ∈ dirCands b start u.team := by
        refine mem_dirCands.mpr ⟨t, ?_, ?_, ?_, ?_⟩
        · rw [hdq]
          exact hget
        · rw [ht2]
          exact teamTile_ne_wall u.team.enemy
        · rw [ht2]
          exact teamTile_enemy_not_own u.team
        · exact hd0
      cases hm : minByKey Nat.blt (fun e => e.2) (dirCands b start u.team) with
      | none => rfl
      | some m =>
        obtain ⟨dir0, dist0⟩ := m
        have hmin := minByKey_min natBlt_trans3 natBlt_not_trans3 natBlt_irrefl hm
          (dq, 0) hmem
        have hlt : ¬0 < dist0 := by
          rw [← Bool.not_eq_true, Nat.blt_eq] at hmin
          exact hmin
        show (if 0 < dist0 then some dir0 else none) = none
        rw [if_neg hlt]
    · cases hm : minByKey Nat.blt (fun e => e.2) (dirCands b start u.team) with
      | none => rfl
      | some m =>
        obtain ⟨dir0, dist0⟩ := m
        have hmem0 := minByKey_mem hm
        obtain ⟨t0, hget0, hw0, ht0, hd0⟩ := mem_dirCands.mp hmem0
        rcases tile_cases t0 u.team hw0 ht0 with hemp | henemy
        · subst hemp
          exfalso
          have hbs0 : b.bounds_check (start.step dir0) = true := get_some_bounds hget0
          obtain ⟨t, hre, hgt⟩ := dtcu_some_reach hwf hbs0 hget0 hd0
          exact hnr ⟨start.step dir0, step_mem_neighbors start dir0, hget0, t, hre, hgt⟩
        · have hd00 : b.distance_to_closest_unit (start.step dir0) u.team.enemy =
              some 0 := by
            refine dtcu_enemy_adjacent_start ?_
            rw [← henemy]
            exact hget0
          have hz : dist0 = 0 := by
            rw [hd0] at hd00
            exact Option.some.inj hd00
          subst hz
          show (if 0 < 0 then some dir0 else none) = none
          rw [if_neg (by omega)]

theorem progress_no_move (g : Game) (p : Point) (rest : List Point) (v : Unit)
    (hq : g.to_be_moved = p :: rest) (hu : lookupAL g.board.units p = some v)
    (hw : g.board.team_won v.team = false)
    (hfd : g.board.find_enemy_direction p = none) :
    g.progress = (attackPhase g.board rest g.defeated_elves p v.team.enemy >>=
      fun y => match y with
      | (board2, queue2, de2) =>
        if queue2.isEmpty then
          (Game.start_new_turn
              { completed_turns := g.completed_turns, to_be_moved := queue2,
                board := board2, defeated_elves := de2 }) >>=
            fun g3 => Except.ok (GameState.Going, g3)
        else
          Except.ok (GameState.Going,
            { completed_turns := g.completed_turns, to_be_moved := queue2,
              board := board2, defeated_elves := de2 })) := by
  unfold Game.progress
  simp only [hq, hu, hw, Bool.false_eq_true, if_false, hfd]
  rfl

/-- C9: `find_enemy_direction` returns `none` exactly when the unit is
already adjacent to an enemy tile or no enemy-adjacent cell is reachable
from any empty neighbour through empty cells; and on the `none` result
`progress` passes the unchanged position and board to the attack phase. -/
theorem pathfinder_no_move_rule :
    (∀ (b : Board), WFB b → ∀ (start : Point) (u : Unit),
      lookupAL b.units start = some u →
      (b.find_enemy_direction start = none ↔
        hasGoalNbr b u.team.enemy start = true ∨
        ¬∃ s, s ∈ start.neighbors ∧ b.get s = some Tile.Empty ∧
          ∃ t, ReachE b s t ∧ hasGoalNbr b u.team.enemy t = true)) ∧
    (∀ (g : Game) (p : Point) (rest : List Point) (v : Unit),
      g.to_be_moved = p :: rest → lookupAL g.board.units p = some v →
      g.board.team_won v.team = false → g.board.find_enemy_direction p = none →
      g.progress = (attackPhase g.board rest g.defeated_elves p v.team.enemy >>=
        fun y => match y with
        | (board2, queue2, de2) =>
          if queue2.isEmpty then
            (Game.start_new_turn
                { completed_turns := g.completed_turns, to_be_moved := queue2,
                  board := board2, defeated_elves := de2 }) >>=
              fun g3 => Except.ok (GameState.Going, g3)
          else
            Except.ok (GameState.Going,
              { completed_turns := g.completed_turns, to_be_moved := queue2,
                board := board2, defeated_elves := de2 }))) :=
  ⟨fun b hwf start u hu => find_none_iff b hwf start u hu,
   fun g p rest v hq hu hw hfd => progress_no_move g p rest v hq hu hw hfd⟩

theorem pathfinder_no_move_witness : Board.find_enemy_direction bC5 ⟨0, 0⟩ = none :=
  (pathfinder_no_move_rule.1 bC5 ⟨by decide, by decide, by decide⟩ ⟨0, 0⟩
    ⟨Team.Gnome, 200, 3⟩ (by decide)).mpr (Or.inl (by decide))

end Task29
